import Mathlib

/-!
# Entry-point mutation of LLPC: user-data packing and spill decision

A shallow embedding of `PatchEntryPointMutate::IsResourceNodeActive` and
`PatchEntryPointMutate::GenerateEntryPointType` (llpcPatchEntryPointMutate.cpp).

Conventions of the embedding.

* `uint32_t` values are natural numbers; every addition, subtraction and increment of
  the source is followed by a reduction modulo `2 ^ 32` (`u32`, `sub32`).
* Local variables of `GenerateEntryPointType` are the fields of the record `St`, and the
  function body is the composition of its consecutive blocks, each a function on `St`.
* `LLPC_NEVER_CALLED()` sets the flag `St.neverCalled`, a failed `LLPC_ASSERT` sets the
  flag `St.assertFailed`; the state is then continued as if the macro expanded to nothing.
* The arrays `userDataMap`, `resNodeValues`, `streamOffsets`, `esGsOffsets` are maps from
  indices to values. A write to `userDataMap` at an index outside the array, and a shift
  `1ull << argIdx` by 64 or more, set the flag `St.undefinedBehavior`.
* `GenerateEntryPointType` returns `none` when one of the three flags is set: the run hit a
  fatal invariant violation or left the defined behaviour of the language.
* Loops over `userDataNodes` are recursions over the node list that carry the index `i`
  (node lists have fewer than `2 ^ 32` entries).
-/

namespace Llpc

/-! ## Machine arithmetic -/

/-- Value of an expression of type `uint32_t`. -/
def u32 (n : Nat) : Nat := n % 4294967296

/-- Subtraction `a - b` of two `uint32_t` values: the difference, wrapped around `2 ^ 32` when
`b` exceeds `a`. -/
def sub32 (a b : Nat) : Nat :=
  if u32 b ≤ u32 a then u32 a - u32 b else u32 a + 4294967296 - u32 b

/-- The expression `1ull << argIdx` of type `uint64_t`. -/
def bit64 (argIdx : Nat) : Nat := (2 ^ argIdx) % 18446744073709551616

/-! ## Shader stages -/

/-- Native shader stages, in the order `runOnModule` walks them
(`ShaderStageVertex` up to `ShaderStageNativeStageCount`). -/
inductive ShaderStage where
  | Vertex
  | TessControl
  | TessEval
  | Geometry
  | Fragment
  | Compute
  deriving DecidableEq, Repr

/-- Numeric value of the enumerator. -/
def ShaderStage.toNat : ShaderStage → Nat
  | .Vertex => 0
  | .TessControl => 1
  | .TessEval => 2
  | .Geometry => 3
  | .Fragment => 4
  | .Compute => 5

/-- Modelled from the spec: the helper `ShaderStageToMask` is declared outside the sources at
hand; it is the bit of the stage in the pipeline's stage mask. -/
def ShaderStageToMask (s : ShaderStage) : Nat := 2 ^ s.toNat

/-! ## Resource mapping nodes -/

/-- Modelled from the spec: the enumeration `ResourceMappingNodeType` is declared outside the
sources at hand. Its members are the kinds named in `GenerateEntryPointType` together with the
combined table entry kind that the data model of the specification lists. -/
inductive ResourceMappingNodeType where
  | DescriptorResource
  | DescriptorSampler
  | DescriptorCombinedTexture
  | DescriptorTexelBuffer
  | DescriptorFmask
  | DescriptorBuffer
  | DescriptorTableVaPtr
  | IndirectUserDataVaPtr
  | PushConst
  | DescriptorBufferCompact
  | StreamOutTableVaPtr
  deriving DecidableEq, Repr

/-- A resource mapping node (`ResourceNode`): kind, size and offset in dwords, descriptor set
and binding, and the nested nodes of a descriptor table. -/
inductive ResourceNode where
  | mk (type : ResourceMappingNodeType) (sizeInDwords offsetInDwords set binding : Nat)
      (innerTable : List ResourceNode)

namespace ResourceNode

/-- Field `type`. -/
def type : ResourceNode → ResourceMappingNodeType
  | mk t _ _ _ _ _ => t

/-- Field `sizeInDwords`. -/
def sizeInDwords : ResourceNode → Nat
  | mk _ n _ _ _ _ => n

/-- Field `offsetInDwords`. -/
def offsetInDwords : ResourceNode → Nat
  | mk _ _ n _ _ _ => n

/-- Field `set`. -/
def set : ResourceNode → Nat
  | mk _ _ _ n _ _ => n

/-- Field `binding`. -/
def binding : ResourceNode → Nat
  | mk _ _ _ _ n _ => n

/-- Field `innerTable`. -/
def innerTable : ResourceNode → List ResourceNode
  | mk _ _ _ _ _ l => l

end ResourceNode

/-! ## Resource usage and pipeline context -/

/-- Built-in usage of the vertex shader (the flags read here). -/
structure VsBuiltInUsage where
  baseVertex : Bool
  baseInstance : Bool
  drawIndex : Bool
  vertexIndex : Bool
  primitiveId : Bool
  instanceIndex : Bool

/-- Built-in usage of the compute shader (the flag read here). -/
structure CsBuiltInUsage where
  numWorkgroups : Bool

/-- Field `builtInUsage` of the resource usage. -/
structure BuiltInUsage where
  vs : VsBuiltInUsage
  cs : CsBuiltInUsage

/-- Field `inOutUsage` of the resource usage. -/
structure InOutUsage where
  xfbStrides : List Nat
  enableXfb : Bool

/-- Per-stage `ResourceUsage`: the referenced (set, binding) pairs stand for the keys
`DescriptorPair::u64All` held in `descPairs`. -/
structure ResourceUsage where
  descPairs : List (Nat × Nat)
  pushConstSizeInBytes : Nat
  builtInUsage : BuiltInUsage
  inOutUsage : InOutUsage
  numVgprsAvailable : Nat
  numSgprsAvailable : Nat

/-- What `GenerateEntryPointType` reads from the LLPC context, the pipeline state and the
command-line options, and the constants of `InterfaceData` that are declared outside the
sources at hand. -/
structure Context where
  /-- Major version of `GetGfxIpVersion()`. -/
  gfxIpMajor : Nat
  /-- Result of `GetShaderStageMask()`. -/
  stageMask : Nat
  /-- Field `maxUserDataCount` of `GetGpuProperty()`. -/
  maxUserDataCount : Nat
  /-- Field `iaState.enableMultiView` of the graphics pipeline build info. -/
  enableMultiView : Bool
  /-- Value of `enableNgg`: `false` unless built with `LLPC_BUILD_GFX10`. -/
  enableNgg : Bool
  /-- Result of `IsGsOnChip()`. -/
  gsOnChip : Bool
  /-- Result of `IsTessOffChip()`. -/
  tessOffChip : Bool
  /-- Option `-inreg-esgs-lds-size`. -/
  InRegEsGsLdsSize : Bool
  /-- Result of `GetNextShaderStage(ShaderStageVertex)`. -/
  nextStageOfVertex : Option ShaderStage
  /-- Result of `GetShaderResourceUsage(stage)`. -/
  resUsage : ShaderStage → ResourceUsage
  /-- Result of `GetUserDataNodes()`. -/
  userDataNodes : List ResourceNode
  /-- Constant `InterfaceData::MaxCsUserDataCount`. -/
  MaxCsUserDataCount : Nat
  /-- Constant `InterfaceData::CsStartUserData`. -/
  CsStartUserData : Nat
  /-- Constant `InterfaceData::MaxDescTableCount`. -/
  MaxDescTableCount : Nat
  /-- Constant `InterfaceData::MaxUserDataCount`, the length of the array `userDataMap`. -/
  MaxUserDataCount : Nat
  /-- Constant `InvalidValue`. -/
  InvalidValue : Nat

/-- Member `m_hasTs`, set by `runOnModule` from the stage mask. -/
def hasTs (ctx : Context) : Bool :=
  (ctx.stageMask &&& (ShaderStageToMask .TessControl ||| ShaderStageToMask .TessEval)) != 0

/-- Member `m_hasGs`, set by `runOnModule` from the stage mask. -/
def hasGs (ctx : Context) : Bool :=
  (ctx.stageMask &&& ShaderStageToMask .Geometry) != 0

/-! ## Activity of a resource node -/

/-- The second shader stage (`shaderStage2`) determined at the head of
`IsResourceNodeActive`; `none` stands for `ShaderStageInvalid`. -/
def shaderStage2 (ctx : Context) (shaderStage1 : ShaderStage) : Option ShaderStage :=
  if ctx.gfxIpMajor ≥ 9 then
    if hasTs ctx || hasGs ctx then
      match shaderStage1 with
      | .Vertex =>
        if hasTs ctx then some .TessControl
        else if hasGs ctx then some .Geometry else none
      | .TessControl => some .Vertex
      | .TessEval => if hasGs ctx then some .Geometry else none
      | .Geometry => if hasTs ctx then some .TessEval else some .Vertex
      | _ => none
    else none
  else none

mutual

/-- Function `IsResourceNodeActive` for the node `pNode` and the flag `isRootNode`, with the
current stage `m_shaderStage` as `stage`. -/
def IsResourceNodeActive (ctx : Context) (stage : ShaderStage) :
    ResourceNode → Bool → Bool
  | .mk type _ _ set binding innerTable, isRootNode =>
    let pResUsage1 := ctx.resUsage stage
    let pResUsage2 := (shaderStage2 ctx stage).map ctx.resUsage
    if type = .PushConst ∧ isRootNode = true then
      if decide (pResUsage1.pushConstSizeInBytes > 0) then true
      else
        match pResUsage2 with
        | some r2 => decide (r2.pushConstSizeInBytes > 0)
        | none => false
    else if type = .DescriptorTableVaPtr then
      anyInnerActive ctx stage innerTable
    else if type = .IndirectUserDataVaPtr then
      true
    else if type = .StreamOutTableVaPtr then
      true
    else
      if decide ((set, binding) ∈ pResUsage1.descPairs) then true
      else
        match pResUsage2 with
        | some r2 => decide ((set, binding) ∈ r2.descPairs)
        | none => false

/-- The loop of `IsResourceNodeActive` over `innerTable`: true at the first active inner
node. -/
def anyInnerActive (ctx : Context) (stage : ShaderStage) : List ResourceNode → Bool
  | [] => false
  | n :: rest =>
    if IsResourceNodeActive ctx stage n false then true
    else anyInnerActive ctx stage rest

end

/-! ## Interface data -/

/-- Types of entry-point arguments pushed to `argTys`. -/
inductive ArgTy where
  | Int32Ty
  | FloatTy
  | Floatx2Ty
  | Floatx3Ty
  | Int32x3Ty
  | VectorInt32 (count : Nat)
  | PtrInt32x3Const
  deriving DecidableEq, Repr

/-- Field `spillTable` of the interface data. -/
structure SpillTable where
  sizeInDwords : Nat
  offsetInDwords : Nat

/-- Field `pushConst` of the interface data. -/
structure PushConstData where
  resNodeIdx : Nat

/-- Field `userDataUsage.vs`. -/
structure VsUserDataUsage where
  streamOutTablePtr : Nat
  viewIndex : Nat
  esGsLdsSize : Nat
  vbTablePtr : Nat
  baseVertex : Nat
  baseInstance : Nat
  drawIndex : Nat

/-- Field `userDataUsage.tes`. -/
structure TesUserDataUsage where
  streamOutTablePtr : Nat
  viewIndex : Nat
  esGsLdsSize : Nat

/-- Field `userDataUsage.gs`. -/
structure GsUserDataUsage where
  viewIndex : Nat
  esGsLdsSize : Nat

/-- Field `userDataUsage.cs`. -/
structure CsUserDataUsage where
  numWorkgroupsPtr : Nat

/-- Field `userDataUsage` of the interface data. -/
structure UserDataUsage where
  vs : VsUserDataUsage
  tes : TesUserDataUsage
  gs : GsUserDataUsage
  cs : CsUserDataUsage
  spillTable : Nat

/-- Stream-out argument indices (`streamOutData`). -/
structure StreamOutData where
  tablePtr : Nat
  streamInfo : Nat
  writeIndex : Nat
  streamOffsets : Nat → Nat

/-- Field `entryArgIdxs.vs`. -/
structure VsEntryArgIdxs where
  streamOutData : StreamOutData
  viewIndex : Nat
  baseVertex : Nat
  baseInstance : Nat
  drawIndex : Nat
  vbTablePtr : Nat
  esGsOffset : Nat
  vertexId : Nat
  relVertexId : Nat
  primitiveId : Nat
  instanceId : Nat

/-- Field `entryArgIdxs.tcs`. -/
structure TcsEntryArgIdxs where
  offChipLdsBase : Nat
  tfBufferBase : Nat
  patchId : Nat
  relPatchId : Nat

/-- Field `entryArgIdxs.tes`. -/
structure TesEntryArgIdxs where
  streamOutData : StreamOutData
  viewIndex : Nat
  offChipLdsBase : Nat
  esGsOffset : Nat
  tessCoordX : Nat
  tessCoordY : Nat
  relPatchId : Nat
  patchId : Nat

/-- Field `entryArgIdxs.gs`. -/
structure GsEntryArgIdxs where
  viewIndex : Nat
  gsVsOffset : Nat
  waveId : Nat
  esGsOffsets : Nat → Nat
  primitiveId : Nat
  invocationId : Nat

/-- Interpolant argument indices (`perspInterp`, `linearInterp`). -/
structure InterpArgIdxs where
  sample : Nat
  center : Nat
  centroid : Nat
  pullMode : Nat

/-- Argument indices of the fragment coordinate. -/
structure FragCoordArgIdxs where
  x : Nat
  y : Nat
  z : Nat
  w : Nat

/-- Field `entryArgIdxs.fs`. -/
structure FsEntryArgIdxs where
  primMask : Nat
  perspInterp : InterpArgIdxs
  linearInterp : InterpArgIdxs
  fragCoord : FragCoordArgIdxs
  frontFacing : Nat
  ancillary : Nat
  sampleCoverage : Nat

/-- Field `entryArgIdxs.cs`. -/
structure CsEntryArgIdxs where
  workgroupId : Nat
  numWorkgroupsPtr : Nat
  localInvocationId : Nat

/-- Field `entryArgIdxs` of the interface data; the per-stage members are kept apart. -/
structure EntryArgIdxs where
  initialized : Bool
  resNodeValues : Nat → Nat
  spillTable : Nat
  vs : VsEntryArgIdxs
  tcs : TcsEntryArgIdxs
  tes : TesEntryArgIdxs
  gs : GsEntryArgIdxs
  fs : FsEntryArgIdxs
  cs : CsEntryArgIdxs

/-- Per-stage `InterfaceData`, as far as `GenerateEntryPointType` reads or writes it. -/
structure InterfaceData where
  userDataCount : Nat
  userDataMap : Nat → Nat
  pushConst : PushConstData
  spillTable : SpillTable
  userDataUsage : UserDataUsage
  entryArgIdxs : EntryArgIdxs

/-! ## State of `GenerateEntryPointType` -/

/-- All indices `userDataIdx + j` with `j < count` lie inside an array of `len` entries. -/
def mapWritesInside (len userDataIdx : Nat) : Nat → Bool
  | 0 => true
  | j + 1 => mapWritesInside len userDataIdx j && decide (u32 (userDataIdx + j) < len)

/-- Local variables of `GenerateEntryPointType`, the output mask `*pInRegMask`, the interface
data of all stages, and the three flags that record a reached `LLPC_NEVER_CALLED()`, a failed
`LLPC_ASSERT`, and an operation without defined behaviour. -/
structure St where
  argIdx : Nat
  userDataIdx : Nat
  argTys : List ArgTy
  inRegMask : Nat
  intfData : ShaderStage → InterfaceData
  availUserDataCount : Nat
  requiredRemappedUserDataCount : Nat
  requiredUserDataCount : Nat
  reserveVbTable : Bool
  reserveStreamOutTable : Bool
  reserveEsGsLdsSize : Bool
  needSpill : Bool
  actualAvailUserDataCount : Nat
  neverCalled : Bool
  assertFailed : Bool
  undefinedBehavior : Bool

namespace St

/-- Statement `argTys.push_back(ty)`. -/
def push (ty : ArgTy) (s : St) : St :=
  { s with argTys := s.argTys ++ [ty] }

/-- Statement `*pInRegMask |= (1ull << argIdx)`. -/
def inReg (s : St) : St :=
  { s with
    inRegMask := s.inRegMask ||| bit64 s.argIdx,
    undefinedBehavior := s.undefinedBehavior || decide (64 ≤ s.argIdx) }

/-- Statement `argIdx++` (also as part of `x = argIdx++`). -/
def argNext (s : St) : St :=
  { s with argIdx := u32 (s.argIdx + 1) }

/-- Statement `*pInRegMask |= (1ull << (argIdx++))`. -/
def inRegNext (s : St) : St :=
  s.inReg.argNext

/-- Statement `actualAvailUserDataCount += n`. -/
def consume (n : Nat) (s : St) : St :=
  { s with actualAvailUserDataCount := u32 (s.actualAvailUserDataCount + n) }

/-- Statement `reserveVbTable = true`. -/
def setReserveVbTable (s : St) : St :=
  { s with reserveVbTable := true }

/-- Statement `reserveStreamOutTable = true`. -/
def setReserveStreamOutTable (s : St) : St :=
  { s with reserveStreamOutTable := true }

/-- Statement `reserveEsGsLdsSize = true`. -/
def setReserveEsGsLdsSize (s : St) : St :=
  { s with reserveEsGsLdsSize := true }

/-- The two statements that update `requiredUserDataCount` and
`requiredRemappedUserDataCount` for the node `pNode`. -/
def require (pNode : ResourceNode) (s : St) : St :=
  { s with
    requiredUserDataCount :=
      max s.requiredUserDataCount (u32 (pNode.offsetInDwords + pNode.sizeInDwords)),
    requiredRemappedUserDataCount :=
      u32 (s.requiredRemappedUserDataCount + pNode.sizeInDwords) }

/-- Statement `needSpill = b`. -/
def setNeedSpill (b : Bool) (s : St) : St :=
  { s with needSpill := b }

/-- Statement `availUserDataCount = n`. -/
def setAvail (n : Nat) (s : St) : St :=
  { s with availUserDataCount := n }

/-- Statement `availUserDataCount -= n`. -/
def reserve (n : Nat) (s : St) : St :=
  { s with availUserDataCount := sub32 s.availUserDataCount n }

/-- Statement `userDataIdx += n`. -/
def userDataNext (n : Nat) (s : St) : St :=
  { s with userDataIdx := u32 (s.userDataIdx + n) }

/-- An assignment through a pointer to the interface data of stage `t`. -/
def setIntf (t : ShaderStage) (f : InterfaceData → InterfaceData) (s : St) : St :=
  { s with intfData := fun u => if u = t then f (s.intfData u) else s.intfData u }

/-- An assignment of the current value `get s` of a local variable to a field of the
interface data of stage `t`; `set v` is the assignment of `v` to the field. -/
def record (t : ShaderStage) (get : St → Nat) (set : Nat → InterfaceData → InterfaceData)
    (s : St) : St :=
  s.setIntf t (set (get s))

/-- Statement `if (cond) { body }`, the condition read in the current state. -/
def when (cond : St → Bool) (body : St → St) (s : St) : St :=
  if cond s then body s else s

/-- Macro `LLPC_NEVER_CALLED()`. -/
def never (s : St) : St :=
  { s with neverCalled := true }

/-- Macro `LLPC_ASSERT(cond)`, the condition read in the current state. -/
def assert (cond : St → Bool) (s : St) : St :=
  if cond s then s else { s with assertFailed := true }

/-- A write of `count` entries of the array `userDataMap` of length `len`, from the index
`userDataIdx` on, is defined when all indices lie inside the array. -/
def checkMap (len count : Nat) (s : St) : St :=
  if mapWritesInside len s.userDataIdx count then s else { s with undefinedBehavior := true }

end St

/-- An assignment `arr[idx] = val` to an array held as a map. -/
def setAt (arr : Nat → Nat) (idx val : Nat) : Nat → Nat :=
  fun k => if k = idx then val else arr k

/-! ## Blocks of `GenerateEntryPointType` -/

/-- A loop `for (i = 0; i < userDataNodes.size(); ++i)` without `break`, started at index
`i` on the rest of the node list. -/
def forNodes (body : Nat → ResourceNode → St → St) : Nat → List ResourceNode → St → St
  | _, [], s => s
  | i, n :: rest, s => forNodes body (i + 1) rest (body i n s)

/-- A loop over `userDataNodes` whose body runs for the first node of kind `ty` and ends
with `break`. -/
def firstNodeOfType (ty : ResourceMappingNodeType) (body : ResourceNode → St → St) :
    List ResourceNode → St → St
  | [], s => s
  | n :: rest, s => if n.type = ty then body n s else firstNodeOfType ty body rest s

/-- Local `useFixedLayout`. -/
def useFixedLayout (stage : ShaderStage) : Bool := decide (stage = .Compute)

/-- Head of the function: the two leading arguments (global internal table, per-shader
table), `entryArgIdxs.initialized`, and the initial values of the locals. -/
def initState (ctx : Context) (stage : ShaderStage) (intfData : ShaderStage → InterfaceData)
    (inRegMask : Nat) : St :=
  let s : St :=
    { argIdx := 0, userDataIdx := 0, argTys := [], inRegMask := inRegMask,
      intfData := intfData, availUserDataCount := 0, requiredRemappedUserDataCount := 0,
      requiredUserDataCount := 0, reserveVbTable := false, reserveStreamOutTable := false,
      reserveEsGsLdsSize := false, needSpill := false, actualAvailUserDataCount := 0,
      neverCalled := false, assertFailed := false, undefinedBehavior := false }
  let s := ((s.push .Int32Ty).inRegNext).userDataNext 1
  let s := ((s.push .Int32Ty).inRegNext).userDataNext 1
  let s := s.setIntf stage (fun d => { d with entryArgIdxs.initialized := true })
  s.setAvail (sub32 ctx.maxUserDataCount s.userDataIdx)

/-- Body of the first loop over the nodes: reservation flags, `pushConst.resNodeIdx`, and
the two required counts. -/
def scanNode (ctx : Context) (stage : ShaderStage) (i : Nat) (pNode : ResourceNode)
    (s : St) : St :=
  if pNode.type = .IndirectUserDataVaPtr then
    if stage = .Vertex then s.setReserveVbTable
    else if ctx.gfxIpMajor ≥ 9 then
      if stage = .TessControl ∨ (stage = .Geometry ∧ hasTs ctx = false) then
        s.setReserveVbTable
      else s
    else s
  else if pNode.type = .StreamOutTableVaPtr then
    if (ctx.stageMask &&& sub32 (ShaderStageToMask .Fragment) (ShaderStageToMask stage))
        = ShaderStageToMask stage then
      s.setReserveStreamOutTable
    else if ctx.gfxIpMajor ≥ 9 then
      if stage = .TessEval ∨ (stage = .Vertex ∧ hasTs ctx = false) then
        s.setReserveStreamOutTable
      else s
    else s
  else if IsResourceNodeActive ctx stage pNode true = false then s
  else
    let s :=
      if pNode.type = .PushConst then
        s.setIntf stage (fun d => { d with pushConst.resNodeIdx := i })
      else s
    s.require pNode

/-- The first loop over the nodes. -/
def scanNodes (ctx : Context) (stage : ShaderStage) (s : St) : St :=
  forNodes (scanNode ctx stage) 0 ctx.userDataNodes s

/-- The stage whose resource usage and interface data stand behind `pCurrResUsage` and
`pCurrIntfData`: the vertex stage for a tessellation control shader merged with a vertex
shader, the current stage otherwise. -/
def currStage (ctx : Context) (stage : ShaderStage) : ShaderStage :=
  if ctx.gfxIpMajor ≥ 9 ∧ stage = .TessControl ∧
      (ctx.stageMask &&& ShaderStageToMask .Vertex) ≠ 0 then .Vertex
  else stage

/-- The first `switch (m_shaderStage)`: slots taken off `availUserDataCount` for the special
user data of the stage. -/
def reserveSpecial (ctx : Context) (stage : ShaderStage) (s : St) : St :=
  match stage with
  | .Vertex | .TessControl =>
    let vs := (ctx.resUsage (currStage ctx stage)).builtInUsage.vs
    let s := s.when (fun _ => ctx.enableMultiView) (St.reserve 1)
    let s := s.when St.reserveVbTable (St.reserve 1)
    let s := s.when St.reserveStreamOutTable (St.reserve 1)
    let s := s.when (fun _ => vs.baseVertex || vs.baseInstance) (St.reserve 2)
    let s := s.when (fun _ => vs.drawIndex) (St.reserve 1)
    s.when
      (fun _ => (decide (ctx.gfxIpMajor ≥ 9) && (ctx.gsOnChip && ctx.InRegEsGsLdsSize))
        || (ctx.enableNgg && (hasTs ctx == false)))
      (fun s => (s.reserve 1).setReserveEsGsLdsSize)
  | .TessEval =>
    let s := s.when (fun _ => ctx.enableMultiView) (St.reserve 1)
    let s := s.when St.reserveStreamOutTable (St.reserve 1)
    s.when (fun _ => ctx.enableNgg) (fun s => (s.reserve 1).setReserveEsGsLdsSize)
  | .Geometry =>
    let s := s.when (fun _ => ctx.enableMultiView) (St.reserve 1)
    s.when (fun _ => (ctx.gsOnChip && ctx.InRegEsGsLdsSize) || ctx.enableNgg)
      (fun s => (s.reserve 1).setReserveEsGsLdsSize)
  | .Fragment => s
  | .Compute =>
    s.when (fun _ => (ctx.resUsage stage).builtInUsage.cs.numWorkgroups) (St.reserve 2)

/-- The spill decision (`needSpill`), with the reset of `spillTable.offsetInDwords` on the
path without fixed layout. -/
def decideSpill (ctx : Context) (stage : ShaderStage) (s : St) : St :=
  if useFixedLayout stage then
    let s := s.setNeedSpill (decide (s.requiredUserDataCount > ctx.MaxCsUserDataCount))
    s.setAvail ctx.MaxCsUserDataCount
  else
    let s := s.setNeedSpill (decide (s.requiredRemappedUserDataCount > s.availUserDataCount))
    let s := s.setIntf stage (fun d => { d with spillTable.offsetInDwords := ctx.InvalidValue })
    s.when St.needSpill (St.reserve 1)

/-- Body of the loop that allocates the register of the stream-out table. -/
def allocStreamOutNode (stage : ShaderStage) (pNode : ResourceNode) (s : St) : St :=
  let s := s.push .Int32Ty
  let s := s.assert (fun _ => decide (pNode.sizeInDwords = 1))
  let s :=
    match stage with
    | .Vertex =>
      let s := s.record stage St.userDataIdx
        (fun a d => { d with userDataUsage.vs.streamOutTablePtr := a })
      s.record stage St.argIdx (fun a d => { d with entryArgIdxs.vs.streamOutData.tablePtr := a })
    | .TessEval =>
      let s := s.record stage St.userDataIdx
        (fun a d => { d with userDataUsage.tes.streamOutTablePtr := a })
      s.record stage St.argIdx (fun a d => { d with entryArgIdxs.tes.streamOutData.tablePtr := a })
    | .Geometry => s
    | _ => s.never
  (s.inRegNext).userDataNext 1

/-- Block "Allocate register for stream-out buffer table". -/
def allocStreamOut (ctx : Context) (stage : ShaderStage) (s : St) : St :=
  if s.reserveStreamOutTable then
    firstNodeOfType .StreamOutTableVaPtr (allocStreamOutNode stage) ctx.userDataNodes s
  else s

/-- The `while` loop of the fixed layout that adds dummy arguments in front of a node at
dword offset `offsetInDwords`; `fuel` bounds the number of iterations. -/
def fillDummies (ctx : Context) (offsetInDwords : Nat) : Nat → St → St
  | 0, s => s
  | fuel + 1, s =>
    if s.userDataIdx < u32 (offsetInDwords + ctx.CsStartUserData) ∧
        s.userDataIdx < u32 (s.availUserDataCount + ctx.CsStartUserData) then
      let s := s.push .Int32Ty
      let s := s.inRegNext
      let s := s.userDataNext 1
      fillDummies ctx offsetInDwords fuel (s.consume 1)
    else s

/-- The loop `for (j = 0; j < count; ++j) userDataMap[userDataIdx + j] = offsetInDwords + j`. -/
def writeUserDataMap (userDataIdx offsetInDwords : Nat) : Nat → (Nat → Nat) → (Nat → Nat)
  | 0, m => m
  | j + 1, m =>
    setAt (writeUserDataMap userDataIdx offsetInDwords j m)
      (u32 (userDataIdx + j)) (u32 (offsetInDwords + j))

/-- The condition `actualAvailUserDataCount + pNode->sizeInDwords <= availUserDataCount`. -/
def fits (s : St) (pNode : ResourceNode) : Bool :=
  decide (u32 (s.actualAvailUserDataCount + pNode.sizeInDwords) ≤ s.availUserDataCount)

/-- The branch "User data isn't spilled" of the packing loop. -/
def assignNode (ctx : Context) (stage : ShaderStage) (i : Nat) (pNode : ResourceNode)
    (s : St) : St :=
  let s := s.assert (fun _ => decide (i < ctx.MaxDescTableCount))
  let s := s.record stage St.argIdx
    (fun a d => { d with entryArgIdxs.resNodeValues := setAt d.entryArgIdxs.resNodeValues i a })
  let s := s.inRegNext
  let s := s.consume pNode.sizeInDwords
  match pNode.type with
  | .DescriptorTableVaPtr =>
    let s := s.push .Int32Ty
    let s := s.assert (fun _ => decide (pNode.sizeInDwords = 1))
    let s := s.checkMap ctx.MaxUserDataCount 1
    let s := s.record stage St.userDataIdx
      (fun u d => { d with userDataMap := setAt d.userDataMap u pNode.offsetInDwords })
    s.userDataNext 1
  | .DescriptorResource
  | .DescriptorSampler
  | .DescriptorTexelBuffer
  | .DescriptorFmask
  | .DescriptorBuffer
  | .PushConst
  | .DescriptorBufferCompact =>
    let s := s.push (.VectorInt32 pNode.sizeInDwords)
    let s := s.checkMap ctx.MaxUserDataCount pNode.sizeInDwords
    let s := s.record stage St.userDataIdx
      (fun u d =>
        let m := writeUserDataMap u pNode.offsetInDwords pNode.sizeInDwords d.userDataMap
        { d with userDataMap := m })
    s.userDataNext pNode.sizeInDwords
  | _ => s.never

/-- The block `if (useFixedLayout)` of the packing loop. -/
def padNode (ctx : Context) (stage : ShaderStage) (pNode : ResourceNode) (s : St) : St :=
  if useFixedLayout stage then
    fillDummies ctx pNode.offsetInDwords
      (u32 (s.availUserDataCount + ctx.CsStartUserData) - s.userDataIdx) s
  else s

/-- Body of the packing loop "Descriptor table and vertex buffer table". -/
def packNode (ctx : Context) (stage : ShaderStage) (i : Nat) (pNode : ResourceNode)
    (s : St) : St :=
  if pNode.type = .IndirectUserDataVaPtr then s
  else if pNode.type = .StreamOutTableVaPtr then s
  else if IsResourceNodeActive ctx stage pNode true = false then s
  else
    let s := padNode ctx stage pNode s
    if fits s pNode then assignNode ctx stage i pNode s
    else if s.needSpill ∧ (s.intfData stage).spillTable.offsetInDwords = ctx.InvalidValue then
      s.setIntf stage (fun d => { d with spillTable.offsetInDwords := pNode.offsetInDwords })
    else s

/-- The packing loop. -/
def packNodes (ctx : Context) (stage : ShaderStage) (s : St) : St :=
  forNodes (packNode ctx stage) 0 ctx.userDataNodes s

/-- The `while` loop that adds arguments up to the end of the fixed range; `fuel` bounds
the number of iterations. -/
def fillToSpill (ctx : Context) : Nat → St → St
  | 0, s => s
  | fuel + 1, s =>
    if s.userDataIdx ≤ u32 (ctx.MaxCsUserDataCount + ctx.CsStartUserData) then
      fillToSpill ctx fuel (((s.push .Int32Ty).inRegNext).userDataNext 1)
    else s

/-- Block "Internal user data": the spill table of the fixed layout. -/
def fixedSpill (ctx : Context) (stage : ShaderStage) (s : St) : St :=
  if s.needSpill ∧ useFixedLayout stage = true then
    let s := s.assert
      (fun s => decide ((s.intfData stage).spillTable.offsetInDwords ≠ ctx.InvalidValue))
    let s := s.assert
      (fun s => decide (s.userDataIdx ≤ u32 (ctx.MaxCsUserDataCount + ctx.CsStartUserData)))
    let s := fillToSpill ctx
      (u32 (ctx.MaxCsUserDataCount + ctx.CsStartUserData) + 1 - s.userDataIdx) s
    let s := s.record stage St.userDataIdx
      (fun u d => { d with userDataUsage.spillTable := sub32 u 1 })
    let s := s.record stage St.argIdx
      (fun a d => { d with entryArgIdxs.spillTable := sub32 a 1 })
    s.record stage St.requiredUserDataCount
      (fun r d => { d with spillTable.sizeInDwords := r })
  else s

/-- Body of the loop that adds the vertex buffer table pointer. -/
def vbTableNode (cur : ShaderStage) (pNode : ResourceNode) (s : St) : St :=
  let s := s.push .Int32Ty
  let s := s.assert (fun _ => decide (pNode.sizeInDwords = 1))
  let s := s.record cur St.userDataIdx (fun a d => { d with userDataUsage.vs.vbTablePtr := a })
  let s := s.record cur St.argIdx (fun a d => { d with entryArgIdxs.vs.vbTablePtr := a })
  (s.inRegNext).userDataNext 1

/-- The second `switch (m_shaderStage)`: the special user data arguments of the stage. -/
def specialUserData (ctx : Context) (stage : ShaderStage) (s : St) : St :=
  match stage with
  | .Vertex | .TessControl =>
    let cur := currStage ctx stage
    let vs := (ctx.resUsage cur).builtInUsage.vs
    let s := s.when (fun _ => ctx.enableMultiView) (fun s =>
      let s := s.push .Int32Ty
      let s := s.record stage St.argIdx (fun a d => { d with entryArgIdxs.vs.viewIndex := a })
      let s := s.inRegNext
      let s := s.record cur St.userDataIdx (fun a d => { d with userDataUsage.vs.viewIndex := a })
      s.userDataNext 1)
    let s := s.when St.reserveEsGsLdsSize (fun s =>
      let s := (s.push .Int32Ty).inRegNext
      let s := s.record cur St.userDataIdx
        (fun a d => { d with userDataUsage.vs.esGsLdsSize := a })
      s.userDataNext 1)
    let s := firstNodeOfType .IndirectUserDataVaPtr (vbTableNode cur) ctx.userDataNodes s
    let s := s.when (fun _ => vs.baseVertex || vs.baseInstance) (fun s =>
      let s := s.push .Int32Ty
      let s := s.record stage St.argIdx (fun a d => { d with entryArgIdxs.vs.baseVertex := a })
      let s := s.inRegNext
      let s := s.record cur St.userDataIdx (fun a d => { d with userDataUsage.vs.baseVertex := a })
      let s := s.userDataNext 1
      let s := s.push .Int32Ty
      let s := s.record stage St.argIdx (fun a d => { d with entryArgIdxs.vs.baseInstance := a })
      let s := s.inRegNext
      let s := s.record cur St.userDataIdx
        (fun a d => { d with userDataUsage.vs.baseInstance := a })
      s.userDataNext 1)
    s.when (fun _ => vs.drawIndex) (fun s =>
      let s := s.push .Int32Ty
      let s := s.record stage St.argIdx (fun a d => { d with entryArgIdxs.vs.drawIndex := a })
      let s := s.inRegNext
      let s := s.record cur St.userDataIdx (fun a d => { d with userDataUsage.vs.drawIndex := a })
      s.userDataNext 1)
  | .TessEval =>
    let s := s.when (fun _ => ctx.enableMultiView) (fun s =>
      let s := s.push .Int32Ty
      let s := s.record stage St.argIdx (fun a d => { d with entryArgIdxs.tes.viewIndex := a })
      let s := s.inRegNext
      let s := s.record stage St.userDataIdx
        (fun a d => { d with userDataUsage.tes.viewIndex := a })
      s.userDataNext 1)
    s.when St.reserveEsGsLdsSize (fun s =>
      let s := (s.push .Int32Ty).inRegNext
      let s := s.record stage St.userDataIdx
        (fun a d => { d with userDataUsage.tes.esGsLdsSize := a })
      s.userDataNext 1)
  | .Geometry =>
    let s := s.when (fun _ => ctx.enableMultiView) (fun s =>
      let s := s.push .Int32Ty
      let s := s.record stage St.argIdx (fun a d => { d with entryArgIdxs.gs.viewIndex := a })
      let s := s.inRegNext
      let s := s.record stage St.userDataIdx
        (fun a d => { d with userDataUsage.gs.viewIndex := a })
      s.userDataNext 1)
    s.when St.reserveEsGsLdsSize (fun s =>
      let s := (s.push .Int32Ty).inRegNext
      let s := s.record stage St.userDataIdx
        (fun a d => { d with userDataUsage.gs.esGsLdsSize := a })
      s.userDataNext 1)
  | .Compute =>
    s.when (fun _ => (ctx.resUsage stage).builtInUsage.cs.numWorkgroups) (fun s =>
      let s := s.when (fun s => decide (s.userDataIdx % 2 ≠ 0)) (fun s =>
        let s := s.push .Int32Ty
        let s := s.record stage St.argIdx
          (fun a d => { d with entryArgIdxs.cs.workgroupId := a })
        let s := s.inRegNext
        s.userDataNext 1)
      let s := s.push .PtrInt32x3Const
      let s := s.record stage St.argIdx
        (fun a d => { d with entryArgIdxs.cs.numWorkgroupsPtr := a })
      let s := s.record stage St.userDataIdx
        (fun a d => { d with userDataUsage.cs.numWorkgroupsPtr := a })
      let s := s.inRegNext
      s.userDataNext 2)
  | .Fragment => s

/-- Block `if (needSpill && (useFixedLayout == false))` followed by the assignment of
`userDataCount`. -/
def greedySpill (stage : ShaderStage) (s : St) : St :=
  let s := s.when (fun s => s.needSpill && (useFixedLayout stage == false)) (fun s =>
    let s := s.push .Int32Ty
    let s := s.inReg
    let s := s.record stage St.userDataIdx (fun a d => { d with userDataUsage.spillTable := a })
    let s := s.userDataNext 1
    let s := s.record stage St.argIdx (fun a d => { d with entryArgIdxs.spillTable := a })
    let s := s.argNext
    s.record stage St.requiredUserDataCount
      (fun r d => { d with spillTable.sizeInDwords := r }))
  s.record stage St.userDataIdx (fun a d => { d with userDataCount := a })

/-- The loop over `xfbStrides` that adds one stream-out offset argument per buffer with a
positive stride; `record i argIdx` is the assignment to `streamOffsets[i]`. -/
def streamOffsetArgs (stage : ShaderStage)
    (record : Nat → Nat → InterfaceData → InterfaceData) : Nat → List Nat → St → St
  | _, [], s => s
  | i, stride :: rest, s =>
    let s := s.when (fun _ => decide (stride > 0)) (fun s =>
      let s := s.push .Int32Ty
      let s := s.record stage St.argIdx (record i)
      s.inRegNext)
    streamOffsetArgs stage record (i + 1) rest s

/-- A system value argument of type `ty` that is passed in a register; `set` records its
argument index. -/
def St.sgprArg (stage : ShaderStage) (ty : ArgTy)
    (set : Nat → InterfaceData → InterfaceData) (s : St) : St :=
  let s := s.push ty
  let s := s.record stage St.argIdx set
  s.inRegNext

/-- A system value argument of type `ty` that is not marked "inreg"; `set` records its
argument index. -/
def St.vgprArg (stage : ShaderStage) (ty : ArgTy)
    (set : Nat → InterfaceData → InterfaceData) (s : St) : St :=
  let s := s.push ty
  let s := s.record stage St.argIdx set
  s.argNext

/-- System values of the vertex shader. -/
def systemValuesVs (ctx : Context) (s : St) : St :=
  let stage := ShaderStage.Vertex
  let xfbStrides := (ctx.resUsage stage).inOutUsage.xfbStrides
  let enableXfb := (ctx.resUsage stage).inOutUsage.enableXfb
  let builtInUsage := (ctx.resUsage stage).builtInUsage.vs
  let nextIsTcs := decide (ctx.nextStageOfVertex = some .TessControl)
  let s :=
    if hasGs ctx && (hasTs ctx == false) then
      s.sgprArg stage .Int32Ty (fun a d => { d with entryArgIdxs.vs.esGsOffset := a })
    else if (hasGs ctx == false) && (hasTs ctx == false) then
      s.when (fun _ => enableXfb) (fun s =>
        let s := s.sgprArg stage .Int32Ty
          (fun a d => { d with entryArgIdxs.vs.streamOutData.streamInfo := a })
        let s := s.sgprArg stage .Int32Ty
          (fun a d => { d with entryArgIdxs.vs.streamOutData.writeIndex := a })
        streamOffsetArgs stage
          (fun i a d =>
            let m := setAt d.entryArgIdxs.vs.streamOutData.streamOffsets i a
            { d with entryArgIdxs.vs.streamOutData.streamOffsets := m })
          0 xfbStrides s)
    else s
  let s := s.when
    (fun _ => builtInUsage.vertexIndex || builtInUsage.primitiveId
      || builtInUsage.instanceIndex || nextIsTcs)
    (St.vgprArg stage .Int32Ty (fun a d => { d with entryArgIdxs.vs.vertexId := a }))
  let s := s.when
    (fun _ => builtInUsage.primitiveId || builtInUsage.instanceIndex || nextIsTcs)
    (fun s =>
      let s := s.vgprArg stage .Int32Ty (fun a d => { d with entryArgIdxs.vs.relVertexId := a })
      s.vgprArg stage .Int32Ty (fun a d => { d with entryArgIdxs.vs.primitiveId := a }))
  s.when (fun _ => builtInUsage.instanceIndex)
    (St.vgprArg stage .Int32Ty (fun a d => { d with entryArgIdxs.vs.instanceId := a }))

/-- System values of the tessellation control shader. -/
def systemValuesTcs (ctx : Context) (s : St) : St :=
  let stage := ShaderStage.TessControl
  let s := s.when (fun _ => ctx.tessOffChip)
    (St.sgprArg stage .Int32Ty (fun a d => { d with entryArgIdxs.tcs.offChipLdsBase := a }))
  let s := s.sgprArg stage .Int32Ty (fun a d => { d with entryArgIdxs.tcs.tfBufferBase := a })
  let s := s.vgprArg stage .Int32Ty (fun a d => { d with entryArgIdxs.tcs.patchId := a })
  s.vgprArg stage .Int32Ty (fun a d => { d with entryArgIdxs.tcs.relPatchId := a })

/-- System values of the tessellation evaluation shader. -/
def systemValuesTes (ctx : Context) (s : St) : St :=
  let stage := ShaderStage.TessEval
  let xfbStrides := (ctx.resUsage stage).inOutUsage.xfbStrides
  let enableXfb := (ctx.resUsage stage).inOutUsage.enableXfb
  let s :=
    if hasGs ctx then
      let s := s.when (fun _ => ctx.tessOffChip) (fun s =>
        let s := s.record stage St.argIdx
          (fun a d => { d with entryArgIdxs.tes.offChipLdsBase := a })
        let s := (s.push .Int32Ty).inRegNext
        (s.push .Int32Ty).inRegNext)
      s.sgprArg stage .Int32Ty (fun a d => { d with entryArgIdxs.tes.esGsOffset := a })
    else
      let s := s.when (fun _ => ctx.tessOffChip || enableXfb) (fun s =>
        let s := s.record stage St.argIdx
          (fun a d => { d with entryArgIdxs.tes.streamOutData.streamInfo := a })
        (s.push .Int32Ty).inRegNext)
      let s := s.when (fun _ => enableXfb) (fun s =>
        let s := s.sgprArg stage .Int32Ty
          (fun a d => { d with entryArgIdxs.vs.streamOutData.streamInfo := a })
        let s := s.sgprArg stage .Int32Ty
          (fun a d => { d with entryArgIdxs.vs.streamOutData.writeIndex := a })
        streamOffsetArgs stage
          (fun i a d =>
            let m := setAt d.entryArgIdxs.tes.streamOutData.streamOffsets i a
            { d with entryArgIdxs.tes.streamOutData.streamOffsets := m })
          0 xfbStrides s)
      s.when (fun _ => ctx.tessOffChip) (fun s =>
        let s := s.record stage St.argIdx
          (fun a d => { d with entryArgIdxs.tes.offChipLdsBase := a })
        (s.push .Int32Ty).inRegNext)
  let s := s.vgprArg stage .FloatTy (fun a d => { d with entryArgIdxs.tes.tessCoordX := a })
  let s := s.vgprArg stage .FloatTy (fun a d => { d with entryArgIdxs.tes.tessCoordY := a })
  let s := s.vgprArg stage .Int32Ty (fun a d => { d with entryArgIdxs.tes.relPatchId := a })
  s.vgprArg stage .Int32Ty (fun a d => { d with entryArgIdxs.tes.patchId := a })

/-- System values of the geometry shader. -/
def systemValuesGs (s : St) : St :=
  let stage := ShaderStage.Geometry
  let esGs (k : Nat) : St → St :=
    St.vgprArg stage .Int32Ty
      (fun a d => { d with entryArgIdxs.gs.esGsOffsets := setAt d.entryArgIdxs.gs.esGsOffsets k a })
  let s := s.sgprArg stage .Int32Ty (fun a d => { d with entryArgIdxs.gs.gsVsOffset := a })
  let s := s.sgprArg stage .Int32Ty (fun a d => { d with entryArgIdxs.gs.waveId := a })
  let s := esGs 0 s
  let s := esGs 1 s
  let s := s.vgprArg stage .Int32Ty (fun a d => { d with entryArgIdxs.gs.primitiveId := a })
  let s := esGs 2 s
  let s := esGs 3 s
  let s := esGs 4 s
  let s := esGs 5 s
  s.vgprArg stage .Int32Ty (fun a d => { d with entryArgIdxs.gs.invocationId := a })

/-- System values of the fragment shader. -/
def systemValuesFs (s : St) : St :=
  let stage := ShaderStage.Fragment
  let s := s.sgprArg stage .Int32Ty (fun a d => { d with entryArgIdxs.fs.primMask := a })
  let s := s.vgprArg stage .Floatx2Ty
    (fun a d => { d with entryArgIdxs.fs.perspInterp.sample := a })
  let s := s.vgprArg stage .Floatx2Ty
    (fun a d => { d with entryArgIdxs.fs.perspInterp.center := a })
  let s := s.vgprArg stage .Floatx2Ty
    (fun a d => { d with entryArgIdxs.fs.perspInterp.centroid := a })
  let s := s.vgprArg stage .Floatx3Ty
    (fun a d => { d with entryArgIdxs.fs.perspInterp.pullMode := a })
  let s := s.vgprArg stage .Floatx2Ty
    (fun a d => { d with entryArgIdxs.fs.linearInterp.sample := a })
  let s := s.vgprArg stage .Floatx2Ty
    (fun a d => { d with entryArgIdxs.fs.linearInterp.center := a })
  let s := s.vgprArg stage .Floatx2Ty
    (fun a d => { d with entryArgIdxs.fs.linearInterp.centroid := a })
  let s := (s.push .FloatTy).argNext
  let s := s.vgprArg stage .FloatTy (fun a d => { d with entryArgIdxs.fs.fragCoord.x := a })
  let s := s.vgprArg stage .FloatTy (fun a d => { d with entryArgIdxs.fs.fragCoord.y := a })
  let s := s.vgprArg stage .FloatTy (fun a d => { d with entryArgIdxs.fs.fragCoord.z := a })
  let s := s.vgprArg stage .FloatTy (fun a d => { d with entryArgIdxs.fs.fragCoord.w := a })
  let s := s.vgprArg stage .Int32Ty (fun a d => { d with entryArgIdxs.fs.frontFacing := a })
  let s := s.vgprArg stage .Int32Ty (fun a d => { d with entryArgIdxs.fs.ancillary := a })
  let s := s.vgprArg stage .Int32Ty
    (fun a d => { d with entryArgIdxs.fs.sampleCoverage := a })
  (s.push .Int32Ty).argNext

/-- System values of the compute shader. -/
def systemValuesCs (s : St) : St :=
  let stage := ShaderStage.Compute
  let s := s.sgprArg stage .Int32x3Ty (fun a d => { d with entryArgIdxs.cs.workgroupId := a })
  let s := (s.push .Int32Ty).inRegNext
  s.vgprArg stage .Int32x3Ty (fun a d => { d with entryArgIdxs.cs.localInvocationId := a })

/-- The third `switch (m_shaderStage)`: the system value arguments, behind the user data. -/
def systemValues (ctx : Context) (stage : ShaderStage) (s : St) : St :=
  match stage with
  | .Vertex => systemValuesVs ctx s
  | .TessControl => systemValuesTcs ctx s
  | .TessEval => systemValuesTes ctx s
  | .Geometry => systemValuesGs s
  | .Fragment => systemValuesFs s
  | .Compute => systemValuesCs s

/-! ## The whole function -/

/-- State after the first loop over the nodes. -/
def afterScan (ctx : Context) (stage : ShaderStage) (intfData : ShaderStage → InterfaceData)
    (inRegMask : Nat) : St :=
  scanNodes ctx stage (initState ctx stage intfData inRegMask)

/-- State after the first `switch`: its `availUserDataCount` is the slot budget left for the
resource nodes. -/
def afterReserve (ctx : Context) (stage : ShaderStage)
    (intfData : ShaderStage → InterfaceData) (inRegMask : Nat) : St :=
  reserveSpecial ctx stage (afterScan ctx stage intfData inRegMask)

/-- State in front of the packing loop. -/
def beforePack (ctx : Context) (stage : ShaderStage)
    (intfData : ShaderStage → InterfaceData) (inRegMask : Nat) : St :=
  allocStreamOut ctx stage (decideSpill ctx stage (afterReserve ctx stage intfData inRegMask))

/-- State behind the packing loop. -/
def afterPack (ctx : Context) (stage : ShaderStage)
    (intfData : ShaderStage → InterfaceData) (inRegMask : Nat) : St :=
  packNodes ctx stage (beforePack ctx stage intfData inRegMask)

/-- State at the assignment of `userDataCount`, in front of the system values. -/
def afterUserData (ctx : Context) (stage : ShaderStage)
    (intfData : ShaderStage → InterfaceData) (inRegMask : Nat) : St :=
  greedySpill stage
    (specialUserData ctx stage (fixedSpill ctx stage (afterPack ctx stage intfData inRegMask)))

/-- The body of `GenerateEntryPointType` run to its end on the interface data `intfData` and
the incoming value `inRegMask` of `*pInRegMask`. -/
def runEntryPointType (ctx : Context) (stage : ShaderStage)
    (intfData : ShaderStage → InterfaceData) (inRegMask : Nat) : St :=
  systemValues ctx stage (afterUserData ctx stage intfData inRegMask)

/-- Function `GenerateEntryPointType`: the final state (argument types `argTys`, mask
`inRegMask`, interface data), or `none` when the run reached `LLPC_NEVER_CALLED()`, failed
an `LLPC_ASSERT`, or left the defined behaviour. -/
def GenerateEntryPointType (ctx : Context) (stage : ShaderStage)
    (intfData : ShaderStage → InterfaceData) (inRegMask : Nat) : Option St :=
  let s := runEntryPointType ctx stage intfData inRegMask
  if s.neverCalled || s.assertFailed || s.undefinedBehavior then none else some s

/-! ## Quantities the properties speak about -/

/-- The node is handled by the packing loop: it is neither an `IndirectUserDataVaPtr` nor a
`StreamOutTableVaPtr` node, and it is active at root level. -/
def isPacked (ctx : Context) (stage : ShaderStage) (pNode : ResourceNode) : Bool :=
  (pNode.type != .IndirectUserDataVaPtr) && (pNode.type != .StreamOutTableVaPtr)
    && IsResourceNodeActive ctx stage pNode true

/-- The nodes handled by the packing loop, in declaration order. -/
def packedNodes (ctx : Context) (stage : ShaderStage) : List ResourceNode :=
  ctx.userDataNodes.filter (isPacked ctx stage)

/-- Sum of `sizeInDwords` over the nodes handled by the packing loop, as a `uint32_t`. -/
def sumOfSizes (ctx : Context) (stage : ShaderStage) : Nat :=
  u32 ((packedNodes ctx stage).map ResourceNode.sizeInDwords).sum

/-- The expression `offsetInDwords + sizeInDwords` of a node, as a `uint32_t`. -/
def endInDwords (pNode : ResourceNode) : Nat :=
  u32 (pNode.offsetInDwords + pNode.sizeInDwords)

/-- Maximum of `offsetInDwords + sizeInDwords` over a list of nodes (zero for no node). -/
def maxOfEnds (nodes : List ResourceNode) : Nat :=
  (nodes.map endInDwords).foldr max 0

/-- The slot budget of the stage: `availUserDataCount` behind the first `switch`, that is
`maxUserDataCount` less the two leading slots and the slots reserved for the stage. -/
def slotBudget (ctx : Context) (stage : ShaderStage) (intfData : ShaderStage → InterfaceData)
    (inRegMask : Nat) : Nat :=
  (afterReserve ctx stage intfData inRegMask).availUserDataCount

/-- State of the packing loop in front of its iteration `i`. -/
def packStateAt (ctx : Context) (stage : ShaderStage) (intfData : ShaderStage → InterfaceData)
    (inRegMask : Nat) (i : Nat) : St :=
  forNodes (packNode ctx stage) 0 (ctx.userDataNodes.take i)
    (beforePack ctx stage intfData inRegMask)

/-- State of iteration `i` of the packing loop at the test whether the node fits, behind
the dummy arguments of the fixed layout. -/
def fitStateAt (ctx : Context) (stage : ShaderStage) (intfData : ShaderStage → InterfaceData)
    (inRegMask : Nat) (i : Nat) : St :=
  match ctx.userDataNodes[i]? with
  | some pNode => padNode ctx stage pNode (packStateAt ctx stage intfData inRegMask i)
  | none => packStateAt ctx stage intfData inRegMask i

/-- The node with index `i` is register-resident: iteration `i` of the packing loop takes
the branch "User data isn't spilled". -/
def registerResident (ctx : Context) (stage : ShaderStage)
    (intfData : ShaderStage → InterfaceData) (inRegMask : Nat) (i : Nat) : Bool :=
  match ctx.userDataNodes[i]? with
  | some pNode =>
    isPacked ctx stage pNode && fits (fitStateAt ctx stage intfData inRegMask i) pNode
  | none => false

/-- All nodes handled by the packing loop in front of index `i` are register-resident. -/
def allResidentBefore (ctx : Context) (stage : ShaderStage)
    (intfData : ShaderStage → InterfaceData) (inRegMask : Nat) (i : Nat) : Prop :=
  ∀ j, j < i → ∀ m, ctx.userDataNodes[j]? = some m → isPacked ctx stage m = true →
    registerResident ctx stage intfData inRegMask j = true

/-- The slots available to the packing loop on the path without fixed layout: the slot
budget, less the slot of the spill-table pointer when the sum of the sizes exceeds the
budget (a `uint32_t` decrement). -/
def availableSlots (ctx : Context) (stage : ShaderStage)
    (intfData : ShaderStage → InterfaceData) (inRegMask : Nat) : Nat :=
  if slotBudget ctx stage intfData inRegMask < sumOfSizes ctx stage then
    sub32 (slotBudget ctx stage intfData inRegMask) 1
  else slotBudget ctx stage intfData inRegMask

/-- Size of the node with index `i` (zero outside the node list). -/
def sizeAt (ctx : Context) (i : Nat) : Nat :=
  match ctx.userDataNodes[i]? with
  | some pNode => pNode.sizeInDwords
  | none => 0

/-- Words consumed by the register-resident nodes in front of index `i`, as a `uint32_t`. -/
def consumedBefore (ctx : Context) (stage : ShaderStage)
    (intfData : ShaderStage → InterfaceData) (inRegMask : Nat) (i : Nat) : Nat :=
  u32 (((List.range i).filter (registerResident ctx stage intfData inRegMask)).map
    (sizeAt ctx)).sum

/-- Number of dwords of an entry-point argument of the user data. -/
def ArgTy.words : ArgTy → Nat
  | .VectorInt32 count => count
  | .PtrInt32x3Const => 2
  | _ => 1

/-- Total number of dwords of the arguments emitted so far. -/
def St.argWords (s : St) : Nat :=
  (s.argTys.map ArgTy.words).sum

/-- The locals that are final once the spill decision is taken. -/
def St.decided (s : St) : Nat × Nat × Nat × Bool × Bool × Bool × Bool :=
  (s.availUserDataCount, s.requiredRemappedUserDataCount, s.requiredUserDataCount,
    s.reserveVbTable, s.reserveStreamOutTable, s.reserveEsGsLdsSize, s.needSpill)

/-- None of the three failure flags is set. -/
def St.ok (s : St) : Bool :=
  !(s.neverCalled || s.assertFailed || s.undefinedBehavior)

/-- Number of slots that the first `switch (m_shaderStage)` takes off the budget of the
stage, for the values `vb`, `so` and `lds` of the flags `reserveVbTable`,
`reserveStreamOutTable` and `reserveEsGsLdsSize`. -/
def reservedSlotsOf (ctx : Context) (stage : ShaderStage) (vb so lds : Bool) : Nat :=
  let one (b : Bool) : Nat := if b then 1 else 0
  match stage with
  | .Vertex | .TessControl =>
    let vs := (ctx.resUsage (currStage ctx stage)).builtInUsage.vs
    one ctx.enableMultiView + one vb + one so
      + (if vs.baseVertex || vs.baseInstance then 2 else 0) + one vs.drawIndex + one lds
  | .TessEval => one ctx.enableMultiView + one so + one lds
  | .Geometry => one ctx.enableMultiView + one lds
  | .Fragment => 0
  | .Compute => if (ctx.resUsage stage).builtInUsage.cs.numWorkgroups then 2 else 0

/-- Number of slots reserved for the special arguments of the stage: multi-view index,
vertex buffer table, stream-out table, base vertex and base instance, draw index, LDS size,
pointer to the number of workgroups. -/
def reservedSlots (ctx : Context) (stage : ShaderStage)
    (intfData : ShaderStage → InterfaceData) (inRegMask : Nat) : Nat :=
  reservedSlotsOf ctx stage
    (afterReserve ctx stage intfData inRegMask).reserveVbTable
    (afterReserve ctx stage intfData inRegMask).reserveStreamOutTable
    (afterReserve ctx stage intfData inRegMask).reserveEsGsLdsSize

/-- Total number of dwords of the arguments that the packing loop adds: the arguments of
the register-resident nodes and the dummy arguments of the fixed layout. -/
def packedWords (ctx : Context) (stage : ShaderStage)
    (intfData : ShaderStage → InterfaceData) (inRegMask : Nat) : Nat :=
  (afterPack ctx stage intfData inRegMask).argWords
    - (beforePack ctx stage intfData inRegMask).argWords

/-- Sum of `sizeInDwords` over the register-resident nodes in front of index `i`. -/
def residentWordsBefore (ctx : Context) (stage : ShaderStage)
    (intfData : ShaderStage → InterfaceData) (inRegMask : Nat) (i : Nat) : Nat :=
  (((List.range i).filter (registerResident ctx stage intfData inRegMask)).map
    (sizeAt ctx)).sum

/-- Sum of `sizeInDwords` over all register-resident nodes. -/
def residentWords (ctx : Context) (stage : ShaderStage)
    (intfData : ShaderStage → InterfaceData) (inRegMask : Nat) : Nat :=
  residentWordsBefore ctx stage intfData inRegMask ctx.userDataNodes.length

/-- The first user data slot of the node with index `i`: the value of `userDataIdx` at the
test whether the node fits. -/
def firstSlot (ctx : Context) (stage : ShaderStage)
    (intfData : ShaderStage → InterfaceData) (inRegMask : Nat) (i : Nat) : Nat :=
  (fitStateAt ctx stage intfData inRegMask i).userDataIdx

/-- The companion stage as the specification words it, for the three facts "the generation
merges stages", "tessellation is present" and "geometry is present": no companion without
merging or when neither tessellation nor geometry is present; otherwise vertex goes to
tessellation control when tessellation is present and to geometry when only geometry is
present, tessellation control goes to vertex, tessellation evaluation goes to geometry when
geometry is present, geometry goes to tessellation evaluation when tessellation is present
and to vertex otherwise; fragment and compute have no companion. -/
def companionStage (merging tessellation geometry : Bool) (stage : ShaderStage) :
    Option ShaderStage :=
  if merging = false ∨ (tessellation = false ∧ geometry = false) then none
  else
    match stage with
    | .Vertex => if tessellation then some .TessControl else some .Geometry
    | .TessControl => some .Vertex
    | .TessEval => if geometry then some .Geometry else none
    | .Geometry => if tessellation then some .TessEval else some .Vertex
    | .Fragment => none
    | .Compute => none

/-- Number of register-resident nodes. -/
def residentCount (ctx : Context) (stage : ShaderStage)
    (intfData : ShaderStage → InterfaceData) (inRegMask : Nat) : Nat :=
  (List.range ctx.userDataNodes.length).countP
    (registerResident ctx stage intfData inRegMask)

/-- Invariant of the packing loop, for the number `w0` of dwords of the arguments in front
of the loop: `userDataIdx` is a `uint32_t`, it runs at least two slots ahead of
`actualAvailUserDataCount`, the loop has added `actualAvailUserDataCount` dwords of
arguments, and (for `CsStartUserData` at most two) `actualAvailUserDataCount` is within
`availUserDataCount`. -/
def St.packInv (ctx : Context) (w0 : Nat) (s : St) : Prop :=
  s.userDataIdx < 4294967296 ∧
    s.actualAvailUserDataCount + 2 ≤ s.userDataIdx ∧
    s.argWords = w0 + s.actualAvailUserDataCount ∧
    (ctx.CsStartUserData ≤ 2 → s.actualAvailUserDataCount ≤ s.availUserDataCount)

/-! ## Example inputs -/

/-- Interface data with every field zero. -/
def zeroIntf : InterfaceData :=
  { userDataCount := 0, userDataMap := (fun _ => 0), pushConst := ⟨0⟩, spillTable := ⟨0, 0⟩,
    userDataUsage := ⟨⟨0, 0, 0, 0, 0, 0, 0⟩, ⟨0, 0, 0⟩, ⟨0, 0⟩, ⟨0⟩, 0⟩,
    entryArgIdxs :=
      { initialized := false, resNodeValues := (fun _ => 0), spillTable := 0,
        vs := ⟨⟨0, 0, 0, (fun _ => 0)⟩, 0, 0, 0, 0, 0, 0, 0, 0, 0, 0⟩,
        tcs := ⟨0, 0, 0, 0⟩,
        tes := ⟨⟨0, 0, 0, (fun _ => 0)⟩, 0, 0, 0, 0, 0, 0, 0⟩,
        gs := ⟨0, 0, 0, (fun _ => 0), 0, 0⟩,
        fs := ⟨0, ⟨0, 0, 0, 0⟩, ⟨0, 0, 0, 0⟩, ⟨0, 0, 0, 0⟩, 0, 0, 0⟩,
        cs := ⟨0, 0, 0⟩ } }

/-- A resource usage that references the descriptors `pairs`, uses no push constant, no
built-in and no transform feedback. -/
def plainUsage (pairs : List (Nat × Nat)) : ResourceUsage :=
  { descPairs := pairs, pushConstSizeInBytes := 0,
    builtInUsage := ⟨⟨false, false, false, false, false, false⟩, ⟨false⟩⟩,
    inOutUsage := ⟨[0, 0, 0, 0], false⟩, numVgprsAvailable := 256, numSgprsAvailable := 104 }

/-- A pipeline on a generation without merged stages (GFX8): `maxUserDataCount` user data
registers, the stages of `stageMask`, the nodes `nodes`, every stage referencing the
descriptors `pairs`; no multi-view, no NGG, no on-chip GS. The constants are
`MaxCsUserDataCount = 10`, `CsStartUserData = 2`, `MaxDescTableCount = 64`,
`MaxUserDataCount = 32` and `InvalidValue = 0xFFFFFFFF`. -/
def plainCtx (maxUserDataCount stageMask : Nat) (nodes : List ResourceNode)
    (pairs : List (Nat × Nat)) : Context :=
  { gfxIpMajor := 8, stageMask := stageMask, maxUserDataCount := maxUserDataCount,
    enableMultiView := false, enableNgg := false, gsOnChip := false, tessOffChip := false,
    InRegEsGsLdsSize := true, nextStageOfVertex := some .Fragment,
    resUsage := (fun _ => plainUsage pairs), userDataNodes := nodes,
    MaxCsUserDataCount := 10, CsStartUserData := 2, MaxDescTableCount := 64,
    MaxUserDataCount := 32, InvalidValue := 4294967295 }

/-- A buffer descriptor node of `size` dwords at dword offset `offset`, for set 0 and the
binding `binding`. -/
def bufferNode (size offset binding : Nat) : ResourceNode :=
  .mk .DescriptorBuffer size offset 0 binding []

/-- Maximum of `offsetInDwords + sizeInDwords` over all top-level nodes that
`IsResourceNodeActive` reports active. -/
def maxOfActiveEnds (ctx : Context) (stage : ShaderStage) : Nat :=
  maxOfEnds (ctx.userDataNodes.filter (fun n => IsResourceNodeActive ctx stage n true))

/-! ## Locations of the interface data -/

/-- A location of the interface data of one stage: a scalar member, or one entry of an
array member. -/
inductive Loc where
  | userDataCount
  | userDataMap (k : Nat)
  | pushConst_resNodeIdx
  | spillTable_sizeInDwords
  | spillTable_offsetInDwords
  | userDataUsage_vs_streamOutTablePtr
  | userDataUsage_vs_viewIndex
  | userDataUsage_vs_esGsLdsSize
  | userDataUsage_vs_vbTablePtr
  | userDataUsage_vs_baseVertex
  | userDataUsage_vs_baseInstance
  | userDataUsage_vs_drawIndex
  | userDataUsage_tes_streamOutTablePtr
  | userDataUsage_tes_viewIndex
  | userDataUsage_tes_esGsLdsSize
  | userDataUsage_gs_viewIndex
  | userDataUsage_gs_esGsLdsSize
  | userDataUsage_cs_numWorkgroupsPtr
  | userDataUsage_spillTable
  | entryArgIdxs_initialized
  | entryArgIdxs_resNodeValues (k : Nat)
  | entryArgIdxs_spillTable
  | entryArgIdxs_vs_streamOutData_tablePtr
  | entryArgIdxs_vs_streamOutData_streamInfo
  | entryArgIdxs_vs_streamOutData_writeIndex
  | entryArgIdxs_vs_streamOutData_streamOffsets (k : Nat)
  | entryArgIdxs_vs_viewIndex
  | entryArgIdxs_vs_baseVertex
  | entryArgIdxs_vs_baseInstance
  | entryArgIdxs_vs_drawIndex
  | entryArgIdxs_vs_vbTablePtr
  | entryArgIdxs_vs_esGsOffset
  | entryArgIdxs_vs_vertexId
  | entryArgIdxs_vs_relVertexId
  | entryArgIdxs_vs_primitiveId
  | entryArgIdxs_vs_instanceId
  | entryArgIdxs_tcs_offChipLdsBase
  | entryArgIdxs_tcs_tfBufferBase
  | entryArgIdxs_tcs_patchId
  | entryArgIdxs_tcs_relPatchId
  | entryArgIdxs_tes_streamOutData_tablePtr
  | entryArgIdxs_tes_streamOutData_streamInfo
  | entryArgIdxs_tes_streamOutData_writeIndex
  | entryArgIdxs_tes_streamOutData_streamOffsets (k : Nat)
  | entryArgIdxs_tes_viewIndex
  | entryArgIdxs_tes_offChipLdsBase
  | entryArgIdxs_tes_esGsOffset
  | entryArgIdxs_tes_tessCoordX
  | entryArgIdxs_tes_tessCoordY
  | entryArgIdxs_tes_relPatchId
  | entryArgIdxs_tes_patchId
  | entryArgIdxs_gs_viewIndex
  | entryArgIdxs_gs_gsVsOffset
  | entryArgIdxs_gs_waveId
  | entryArgIdxs_gs_esGsOffsets (k : Nat)
  | entryArgIdxs_gs_primitiveId
  | entryArgIdxs_gs_invocationId
  | entryArgIdxs_fs_primMask
  | entryArgIdxs_fs_perspInterp_sample
  | entryArgIdxs_fs_perspInterp_center
  | entryArgIdxs_fs_perspInterp_centroid
  | entryArgIdxs_fs_perspInterp_pullMode
  | entryArgIdxs_fs_linearInterp_sample
  | entryArgIdxs_fs_linearInterp_center
  | entryArgIdxs_fs_linearInterp_centroid
  | entryArgIdxs_fs_linearInterp_pullMode
  | entryArgIdxs_fs_fragCoord_x
  | entryArgIdxs_fs_fragCoord_y
  | entryArgIdxs_fs_fragCoord_z
  | entryArgIdxs_fs_fragCoord_w
  | entryArgIdxs_fs_frontFacing
  | entryArgIdxs_fs_ancillary
  | entryArgIdxs_fs_sampleCoverage
  | entryArgIdxs_cs_workgroupId
  | entryArgIdxs_cs_numWorkgroupsPtr
  | entryArgIdxs_cs_localInvocationId

/-- The value held at a location (a flag reads as 0 or 1). -/
def Loc.read : Loc → InterfaceData → Nat
  | .userDataCount, d => d.userDataCount
  | .userDataMap k, d => d.userDataMap k
  | .pushConst_resNodeIdx, d => d.pushConst.resNodeIdx
  | .spillTable_sizeInDwords, d => d.spillTable.sizeInDwords
  | .spillTable_offsetInDwords, d => d.spillTable.offsetInDwords
  | .userDataUsage_vs_streamOutTablePtr, d => d.userDataUsage.vs.streamOutTablePtr
  | .userDataUsage_vs_viewIndex, d => d.userDataUsage.vs.viewIndex
  | .userDataUsage_vs_esGsLdsSize, d => d.userDataUsage.vs.esGsLdsSize
  | .userDataUsage_vs_vbTablePtr, d => d.userDataUsage.vs.vbTablePtr
  | .userDataUsage_vs_baseVertex, d => d.userDataUsage.vs.baseVertex
  | .userDataUsage_vs_baseInstance, d => d.userDataUsage.vs.baseInstance
  | .userDataUsage_vs_drawIndex, d => d.userDataUsage.vs.drawIndex
  | .userDataUsage_tes_streamOutTablePtr, d => d.userDataUsage.tes.streamOutTablePtr
  | .userDataUsage_tes_viewIndex, d => d.userDataUsage.tes.viewIndex
  | .userDataUsage_tes_esGsLdsSize, d => d.userDataUsage.tes.esGsLdsSize
  | .userDataUsage_gs_viewIndex, d => d.userDataUsage.gs.viewIndex
  | .userDataUsage_gs_esGsLdsSize, d => d.userDataUsage.gs.esGsLdsSize
  | .userDataUsage_cs_numWorkgroupsPtr, d => d.userDataUsage.cs.numWorkgroupsPtr
  | .userDataUsage_spillTable, d => d.userDataUsage.spillTable
  | .entryArgIdxs_initialized, d => if d.entryArgIdxs.initialized then 1 else 0
  | .entryArgIdxs_resNodeValues k, d => d.entryArgIdxs.resNodeValues k
  | .entryArgIdxs_spillTable, d => d.entryArgIdxs.spillTable
  | .entryArgIdxs_vs_streamOutData_tablePtr, d => d.entryArgIdxs.vs.streamOutData.tablePtr
  | .entryArgIdxs_vs_streamOutData_streamInfo, d => d.entryArgIdxs.vs.streamOutData.streamInfo
  | .entryArgIdxs_vs_streamOutData_writeIndex, d => d.entryArgIdxs.vs.streamOutData.writeIndex
  | .entryArgIdxs_vs_streamOutData_streamOffsets k, d => d.entryArgIdxs.vs.streamOutData.streamOffsets k
  | .entryArgIdxs_vs_viewIndex, d => d.entryArgIdxs.vs.viewIndex
  | .entryArgIdxs_vs_baseVertex, d => d.entryArgIdxs.vs.baseVertex
  | .entryArgIdxs_vs_baseInstance, d => d.entryArgIdxs.vs.baseInstance
  | .entryArgIdxs_vs_drawIndex, d => d.entryArgIdxs.vs.drawIndex
  | .entryArgIdxs_vs_vbTablePtr, d => d.entryArgIdxs.vs.vbTablePtr
  | .entryArgIdxs_vs_esGsOffset, d => d.entryArgIdxs.vs.esGsOffset
  | .entryArgIdxs_vs_vertexId, d => d.entryArgIdxs.vs.vertexId
  | .entryArgIdxs_vs_relVertexId, d => d.entryArgIdxs.vs.relVertexId
  | .entryArgIdxs_vs_primitiveId, d => d.entryArgIdxs.vs.primitiveId
  | .entryArgIdxs_vs_instanceId, d => d.entryArgIdxs.vs.instanceId
  | .entryArgIdxs_tcs_offChipLdsBase, d => d.entryArgIdxs.tcs.offChipLdsBase
  | .entryArgIdxs_tcs_tfBufferBase, d => d.entryArgIdxs.tcs.tfBufferBase
  | .entryArgIdxs_tcs_patchId, d => d.entryArgIdxs.tcs.patchId
  | .entryArgIdxs_tcs_relPatchId, d => d.entryArgIdxs.tcs.relPatchId
  | .entryArgIdxs_tes_streamOutData_tablePtr, d => d.entryArgIdxs.tes.streamOutData.tablePtr
  | .entryArgIdxs_tes_streamOutData_streamInfo, d => d.entryArgIdxs.tes.streamOutData.streamInfo
  | .entryArgIdxs_tes_streamOutData_writeIndex, d => d.entryArgIdxs.tes.streamOutData.writeIndex
  | .entryArgIdxs_tes_streamOutData_streamOffsets k, d => d.entryArgIdxs.tes.streamOutData.streamOffsets k
  | .entryArgIdxs_tes_viewIndex, d => d.entryArgIdxs.tes.viewIndex
  | .entryArgIdxs_tes_offChipLdsBase, d => d.entryArgIdxs.tes.offChipLdsBase
  | .entryArgIdxs_tes_esGsOffset, d => d.entryArgIdxs.tes.esGsOffset
  | .entryArgIdxs_tes_tessCoordX, d => d.entryArgIdxs.tes.tessCoordX
  | .entryArgIdxs_tes_tessCoordY, d => d.entryArgIdxs.tes.tessCoordY
  | .entryArgIdxs_tes_relPatchId, d => d.entryArgIdxs.tes.relPatchId
  | .entryArgIdxs_tes_patchId, d => d.entryArgIdxs.tes.patchId
  | .entryArgIdxs_gs_viewIndex, d => d.entryArgIdxs.gs.viewIndex
  | .entryArgIdxs_gs_gsVsOffset, d => d.entryArgIdxs.gs.gsVsOffset
  | .entryArgIdxs_gs_waveId, d => d.entryArgIdxs.gs.waveId
  | .entryArgIdxs_gs_esGsOffsets k, d => d.entryArgIdxs.gs.esGsOffsets k
  | .entryArgIdxs_gs_primitiveId, d => d.entryArgIdxs.gs.primitiveId
  | .entryArgIdxs_gs_invocationId, d => d.entryArgIdxs.gs.invocationId
  | .entryArgIdxs_fs_primMask, d => d.entryArgIdxs.fs.primMask
  | .entryArgIdxs_fs_perspInterp_sample, d => d.entryArgIdxs.fs.perspInterp.sample
  | .entryArgIdxs_fs_perspInterp_center, d => d.entryArgIdxs.fs.perspInterp.center
  | .entryArgIdxs_fs_perspInterp_centroid, d => d.entryArgIdxs.fs.perspInterp.centroid
  | .entryArgIdxs_fs_perspInterp_pullMode, d => d.entryArgIdxs.fs.perspInterp.pullMode
  | .entryArgIdxs_fs_linearInterp_sample, d => d.entryArgIdxs.fs.linearInterp.sample
  | .entryArgIdxs_fs_linearInterp_center, d => d.entryArgIdxs.fs.linearInterp.center
  | .entryArgIdxs_fs_linearInterp_centroid, d => d.entryArgIdxs.fs.linearInterp.centroid
  | .entryArgIdxs_fs_linearInterp_pullMode, d => d.entryArgIdxs.fs.linearInterp.pullMode
  | .entryArgIdxs_fs_fragCoord_x, d => d.entryArgIdxs.fs.fragCoord.x
  | .entryArgIdxs_fs_fragCoord_y, d => d.entryArgIdxs.fs.fragCoord.y
  | .entryArgIdxs_fs_fragCoord_z, d => d.entryArgIdxs.fs.fragCoord.z
  | .entryArgIdxs_fs_fragCoord_w, d => d.entryArgIdxs.fs.fragCoord.w
  | .entryArgIdxs_fs_frontFacing, d => d.entryArgIdxs.fs.frontFacing
  | .entryArgIdxs_fs_ancillary, d => d.entryArgIdxs.fs.ancillary
  | .entryArgIdxs_fs_sampleCoverage, d => d.entryArgIdxs.fs.sampleCoverage
  | .entryArgIdxs_cs_workgroupId, d => d.entryArgIdxs.cs.workgroupId
  | .entryArgIdxs_cs_numWorkgroupsPtr, d => d.entryArgIdxs.cs.numWorkgroupsPtr
  | .entryArgIdxs_cs_localInvocationId, d => d.entryArgIdxs.cs.localInvocationId

/-! ## Two runs on different interface data -/

/-- The local variables, the mask and the failure flags of a state, apart from the
interface data. -/
def St.locals (s : St) : St :=
  { s with intfData := fun _ => zeroIntf }

/-- An assignment to the interface data that leaves a location as it is or gives it a value
that does not depend on the data assigned to. -/
def Clean (f : InterfaceData → InterfaceData) : Prop :=
  ∀ l : Loc, (∀ x, l.read (f x) = l.read x) ∨ (∀ x y, l.read (f x) = l.read (f y))

/-- Relation between the states `s` and `t` of two runs for the stage `stage`, started on the
interface data `d` and `e`: the states have the same locals, and every location other than
`spillTable.offsetInDwords` of the stage either holds the same value in both states or still
holds its initial value in both. -/
def Sim (stage : ShaderStage) (d e : ShaderStage → InterfaceData) (s t : St) : Prop :=
  s.locals = t.locals ∧
    ∀ (u : ShaderStage) (l : Loc), (u = stage ∧ l = Loc.spillTable_offsetInDwords) ∨
      l.read (s.intfData u) = l.read (t.intfData u) ∨
      (l.read (s.intfData u) = l.read (d u) ∧ l.read (t.intfData u) = l.read (e u))

/-! ## The register limits of `ProcessShader` -/

/-- What `ProcessShader` reads for the VGPR and SGPR limits: the shader options `vgprLimit`
and `sgprLimit`, the command-line options `cl::VgprLimit` and `cl::SgprLimit`, and the GPU
properties `maxVgprsAvailable` and `maxSgprsAvailable`. -/
structure ShaderLimits where
  vgprLimit : Nat
  sgprLimit : Nat
  VgprLimit : Nat
  SgprLimit : Nat
  maxVgprsAvailable : Nat
  maxSgprsAvailable : Nat

/-- Block "Set VGPR, SGPR, and wave limits" of `ProcessShader`, as far as it changes the
resource usage of the stage. -/
def setLimits (o : ShaderLimits) (pResUsage : ResourceUsage) : ResourceUsage :=
  let vgprLimit :=
    if o.vgprLimit ≠ 0 ∧ o.vgprLimit ≠ 4294967295 then o.vgprLimit
    else if o.VgprLimit ≠ 0 then o.VgprLimit
    else 0
  let pResUsage :=
    if vgprLimit ≠ 0 then
      { pResUsage with numVgprsAvailable := min vgprLimit pResUsage.numVgprsAvailable }
    else pResUsage
  let pResUsage :=
    { pResUsage with
      numVgprsAvailable := min pResUsage.numVgprsAvailable o.maxVgprsAvailable }
  let sgprLimit :=
    if o.sgprLimit ≠ 0 ∧ o.sgprLimit ≠ 4294967295 then o.sgprLimit
    else if o.SgprLimit ≠ 0 then o.SgprLimit
    else 0
  let pResUsage :=
    if sgprLimit ≠ 0 then
      { pResUsage with numSgprsAvailable := min sgprLimit pResUsage.numSgprsAvailable }
    else pResUsage
  { pResUsage with numSgprsAvailable := min pResUsage.numSgprsAvailable o.maxSgprsAvailable }

/-- The context with the resource usage `u` for the stage `stage`. -/
def Context.withUsage (ctx : Context) (stage : ShaderStage) (u : ResourceUsage) : Context :=
  { ctx with resUsage := fun t => if t = stage then u else ctx.resUsage t }

/-- Function `ProcessShader` for the stage `stage`, as far as it plans the entry point: the
call of `GenerateEntryPointType` with `inRegMask = 0` and the update of the register limits
in the resource usage of the stage. The result is the final state of
`GenerateEntryPointType` and the resource usage left for the stage. -/
def ProcessShader (ctx : Context) (stage : ShaderStage) (o : ShaderLimits)
    (intfData : ShaderStage → InterfaceData) : Option (St × ResourceUsage) :=
  match GenerateEntryPointType ctx stage intfData 0 with
  | none => none
  | some r => some (r, setLimits o (ctx.resUsage stage))

/-! ## Groups of entry-point arguments -/

/-- State behind the block "Internal user data" of the fixed layout, in front of the second
`switch (m_shaderStage)`. -/
def afterFixedSpill (ctx : Context) (stage : ShaderStage)
    (intfData : ShaderStage → InterfaceData) (inRegMask : Nat) : St :=
  fixedSpill ctx stage (afterPack ctx stage intfData inRegMask)

/-- State behind the second `switch (m_shaderStage)`, in front of the spill-table pointer of
the path without fixed layout. -/
def afterSpecial (ctx : Context) (stage : ShaderStage)
    (intfData : ShaderStage → InterfaceData) (inRegMask : Nat) : St :=
  specialUserData ctx stage (afterFixedSpill ctx stage intfData inRegMask)

/-- The location records the argument index of the stream-out table pointer. -/
def Loc.isStreamOutArg : Loc → Bool
  | .entryArgIdxs_vs_streamOutData_tablePtr => true
  | .entryArgIdxs_tes_streamOutData_tablePtr => true
  | _ => false

/-- The location records the argument index of a resource node. -/
def Loc.isNodeArg : Loc → Bool
  | .entryArgIdxs_resNodeValues _ => true
  | _ => false

/-- The location records the argument index of the spill-table pointer. -/
def Loc.isSpillArg : Loc → Bool
  | .entryArgIdxs_spillTable => true
  | _ => false

/-- The location records the argument index of a special user data argument. -/
def Loc.isSpecialArg : Loc → Bool
  | .entryArgIdxs_vs_viewIndex => true
  | .entryArgIdxs_vs_baseVertex => true
  | .entryArgIdxs_vs_baseInstance => true
  | .entryArgIdxs_vs_drawIndex => true
  | .entryArgIdxs_vs_vbTablePtr => true
  | .entryArgIdxs_tes_viewIndex => true
  | .entryArgIdxs_gs_viewIndex => true
  | .entryArgIdxs_cs_numWorkgroupsPtr => true
  | _ => false

/-- The location `entryArgIdxs.cs.workgroupId`, which records the argument index of the
padding argument in the second `switch` and of the workgroup ID in the third. -/
def Loc.isWorkgroupIdArg : Loc → Bool
  | .entryArgIdxs_cs_workgroupId => true
  | _ => false

/-- The location records the argument index of a system value. -/
def Loc.isSystemArg : Loc → Bool
  | .entryArgIdxs_vs_streamOutData_streamInfo => true
  | .entryArgIdxs_vs_streamOutData_writeIndex => true
  | .entryArgIdxs_vs_streamOutData_streamOffsets _ => true
  | .entryArgIdxs_vs_esGsOffset => true
  | .entryArgIdxs_vs_vertexId => true
  | .entryArgIdxs_vs_relVertexId => true
  | .entryArgIdxs_vs_primitiveId => true
  | .entryArgIdxs_vs_instanceId => true
  | .entryArgIdxs_tcs_offChipLdsBase => true
  | .entryArgIdxs_tcs_tfBufferBase => true
  | .entryArgIdxs_tcs_patchId => true
  | .entryArgIdxs_tcs_relPatchId => true
  | .entryArgIdxs_tes_streamOutData_streamInfo => true
  | .entryArgIdxs_tes_streamOutData_writeIndex => true
  | .entryArgIdxs_tes_streamOutData_streamOffsets _ => true
  | .entryArgIdxs_tes_offChipLdsBase => true
  | .entryArgIdxs_tes_esGsOffset => true
  | .entryArgIdxs_tes_tessCoordX => true
  | .entryArgIdxs_tes_tessCoordY => true
  | .entryArgIdxs_tes_relPatchId => true
  | .entryArgIdxs_tes_patchId => true
  | .entryArgIdxs_gs_gsVsOffset => true
  | .entryArgIdxs_gs_waveId => true
  | .entryArgIdxs_gs_esGsOffsets _ => true
  | .entryArgIdxs_gs_primitiveId => true
  | .entryArgIdxs_gs_invocationId => true
  | .entryArgIdxs_fs_primMask => true
  | .entryArgIdxs_fs_perspInterp_sample => true
  | .entryArgIdxs_fs_perspInterp_center => true
  | .entryArgIdxs_fs_perspInterp_centroid => true
  | .entryArgIdxs_fs_perspInterp_pullMode => true
  | .entryArgIdxs_fs_linearInterp_sample => true
  | .entryArgIdxs_fs_linearInterp_center => true
  | .entryArgIdxs_fs_linearInterp_centroid => true
  | .entryArgIdxs_fs_linearInterp_pullMode => true
  | .entryArgIdxs_fs_fragCoord_x => true
  | .entryArgIdxs_fs_fragCoord_y => true
  | .entryArgIdxs_fs_fragCoord_z => true
  | .entryArgIdxs_fs_fragCoord_w => true
  | .entryArgIdxs_fs_frontFacing => true
  | .entryArgIdxs_fs_ancillary => true
  | .entryArgIdxs_fs_sampleCoverage => true
  | .entryArgIdxs_cs_localInvocationId => true
  | _ => false

/-- The location records an argument index: it is a member of `entryArgIdxs` other than the
flag `initialized`. -/
def Loc.isArgIdx (l : Loc) : Bool :=
  l.isStreamOutArg || l.isNodeArg || l.isSpillArg || l.isSpecialArg || l.isWorkgroupIdArg
    || l.isSystemArg

/-- Relation between the state `s0` in front of a piece of the function body and a state `s`
inside or behind it that has `k` argument types pushed whose `argIdx++` is still to come:
`s` extends the argument types of `s0`, and when `s` carries no failure flag and `s0` has
`argIdx` equal to the number of its argument types, at most 64, then `argIdx` has not
decreased, `argIdx + k` is the number of argument types of `s`, `argIdx` is at most
`64 + v`, the mask stays below `2 ^ (argIdx + k)` when it was below `2 ^ argIdx` in `s0`, and
every location of an argument index either holds the value it held in `s0` or belongs to
the group `G` and holds the index of an argument pushed between `s0` and `s`. -/
def Stamped (G : Loc → Bool) (k v : Nat) (s0 s : St) : Prop :=
  s0.argTys <+: s.argTys ∧
    (s.ok = true → s0.ok = true) ∧
    (s.ok = true → s0.argIdx = s0.argTys.length → s0.argIdx ≤ 64 →
      s0.argIdx ≤ s.argIdx ∧ s.argIdx + k = s.argTys.length ∧ s.argIdx ≤ 64 + v ∧
        (s0.inRegMask < 2 ^ s0.argIdx → s.inRegMask < 2 ^ (s.argIdx + k)) ∧
        ∀ (u : ShaderStage) (l : Loc), l.isArgIdx = true →
          l.read (s.intfData u) = l.read (s0.intfData u) ∨
            (G l = true ∧ s0.argIdx ≤ l.read (s.intfData u) ∧
              l.read (s.intfData u) < s.argIdx + k))

/-- System values of the vertex shader in front of the vertex ID: the ES-GS offset of a
vertex shader that feeds a geometry shader, or the stream-out arguments of a vertex shader
that is the last stage in front of the fragment shader. -/
def systemValuesVsHead (ctx : Context) (s : St) : St :=
  let stage := ShaderStage.Vertex
  let xfbStrides := (ctx.resUsage stage).inOutUsage.xfbStrides
  let enableXfb := (ctx.resUsage stage).inOutUsage.enableXfb
  if hasGs ctx && (hasTs ctx == false) then
    s.sgprArg stage .Int32Ty (fun a d => { d with entryArgIdxs.vs.esGsOffset := a })
  else if (hasGs ctx == false) && (hasTs ctx == false) then
    s.when (fun _ => enableXfb) (fun s =>
      let s := s.sgprArg stage .Int32Ty
        (fun a d => { d with entryArgIdxs.vs.streamOutData.streamInfo := a })
      let s := s.sgprArg stage .Int32Ty
        (fun a d => { d with entryArgIdxs.vs.streamOutData.writeIndex := a })
      streamOffsetArgs stage
        (fun i a d =>
          let m := setAt d.entryArgIdxs.vs.streamOutData.streamOffsets i a
          { d with entryArgIdxs.vs.streamOutData.streamOffsets := m })
        0 xfbStrides s)
  else s

/-- State of the vertex stage in front of the vertex ID argument. -/
def beforeVertexIds (ctx : Context) (intfData : ShaderStage → InterfaceData)
    (inRegMask : Nat) : St :=
  systemValuesVsHead ctx (afterUserData ctx .Vertex intfData inRegMask)

/-! ## Write sets of the blocks -/

/-- Locations that the block "Allocate register for stream-out buffer table" assigns. -/
def Loc.ofStreamOut : Loc → Bool
  | .userDataUsage_vs_streamOutTablePtr => true
  | .userDataUsage_tes_streamOutTablePtr => true
  | .entryArgIdxs_vs_streamOutData_tablePtr => true
  | .entryArgIdxs_tes_streamOutData_tablePtr => true
  | _ => false

/-- Locations that the head of the function, the first loop over the nodes and the spill
decision assign. -/
def Loc.ofHead : Loc → Bool
  | .entryArgIdxs_initialized => true
  | .pushConst_resNodeIdx => true
  | .spillTable_offsetInDwords => true
  | _ => false

/-- Locations that the packing loop assigns. -/
def Loc.ofPack : Loc → Bool
  | .spillTable_offsetInDwords => true
  | .userDataMap _ => true
  | .entryArgIdxs_resNodeValues _ => true
  | _ => false

/-- Locations that the two blocks of the spill table and the assignment of `userDataCount`
assign. -/
def Loc.ofSpill : Loc → Bool
  | .userDataCount => true
  | .spillTable_sizeInDwords => true
  | .userDataUsage_spillTable => true
  | .entryArgIdxs_spillTable => true
  | _ => false

/-- Locations that the second `switch (m_shaderStage)` assigns through `pIntfData` (and
`entryArgIdxs`). -/
def Loc.ofSpecialOwn : Loc → Bool
  | .entryArgIdxs_vs_viewIndex => true
  | .entryArgIdxs_vs_baseVertex => true
  | .entryArgIdxs_vs_baseInstance => true
  | .entryArgIdxs_vs_drawIndex => true
  | .entryArgIdxs_tes_viewIndex => true
  | .entryArgIdxs_gs_viewIndex => true
  | .entryArgIdxs_cs_workgroupId => true
  | .entryArgIdxs_cs_numWorkgroupsPtr => true
  | .userDataUsage_tes_viewIndex => true
  | .userDataUsage_tes_esGsLdsSize => true
  | .userDataUsage_gs_viewIndex => true
  | .userDataUsage_gs_esGsLdsSize => true
  | .userDataUsage_cs_numWorkgroupsPtr => true
  | _ => false

/-- Locations that the second `switch (m_shaderStage)` assigns through `pCurrIntfData` in
the case of the vertex and the tessellation control stage. -/
def Loc.ofSpecialCur : Loc → Bool
  | .userDataUsage_vs_viewIndex => true
  | .userDataUsage_vs_esGsLdsSize => true
  | .userDataUsage_vs_vbTablePtr => true
  | .userDataUsage_vs_baseVertex => true
  | .userDataUsage_vs_baseInstance => true
  | .userDataUsage_vs_drawIndex => true
  | .entryArgIdxs_vs_vbTablePtr => true
  | _ => false

/-- The write set "locations `W` of the interface data of stage `stage`". -/
def ownWrites (stage : ShaderStage) (W : Loc → Bool) : ShaderStage → Loc → Bool :=
  fun u l => decide (u = stage) && W l

/-- The write set "locations `W1` of the interface data of stage `t1` and locations `W2` of
the interface data of stage `t2`". -/
def bothWrites (t1 : ShaderStage) (W1 : Loc → Bool) (t2 : ShaderStage) (W2 : Loc → Bool) :
    ShaderStage → Loc → Bool :=
  fun u l => (decide (u = t1) && W1 l) || (decide (u = t2) && W2 l)

/-- The interface data of the state `s` differ from those of the state `s0` at most at the
locations of the write set `G`. -/
def Frame (G : ShaderStage → Loc → Bool) (s0 s : St) : Prop :=
  ∀ (u : ShaderStage) (l : Loc), G u l = false →
    l.read (s.intfData u) = l.read (s0.intfData u)

/-! ## Register marks of the arguments -/

/-- Every argument with an index below `argIdx + k` has its bit set in `*pInRegMask`, unless
one of the failure flags is set. -/
def St.flagged (k : Nat) (s : St) : Prop :=
  s.ok = true → ∀ j, j < s.argIdx + k → s.inRegMask.testBit j = true

/-- Every bit of `*pInRegMask` that is set in the state `s0` is set in the state `s`. -/
def St.keepsBits (s0 s : St) : Prop :=
  ∀ j, s0.inRegMask.testBit j = true → s.inRegMask.testBit j = true

/-- Invariant of the packing loop in the fixed layout: `userDataIdx` runs exactly two slots
ahead of `actualAvailUserDataCount`, it is within `availUserDataCount + CsStartUserData`,
and `availUserDataCount` is `MaxCsUserDataCount`. -/
def St.fixedInv (ctx : Context) (s : St) : Prop :=
  s.userDataIdx = s.actualAvailUserDataCount + 2 ∧
    s.userDataIdx ≤ s.availUserDataCount + ctx.CsStartUserData ∧
    s.availUserDataCount = ctx.MaxCsUserDataCount

/-! ## Stage order in front of the fragment stage -/

/-- The native stages in the order of their enumerators. -/
def nativeStages : List ShaderStage :=
  [.Vertex, .TessControl, .TessEval, .Geometry, .Fragment, .Compute]

/-- The stage `t` is in the stage mask of the pipeline. -/
def inStageMask (ctx : Context) (t : ShaderStage) : Bool :=
  (ctx.stageMask &&& ShaderStageToMask t) != 0

/-- In the words of the specification: no stage strictly between the stage `s` and the
fragment stage is in the stage mask. -/
def noStageBetween (ctx : Context) (s : ShaderStage) : Bool :=
  nativeStages.all (fun t =>
    !(decide (s.toNat < t.toNat) && decide (t.toNat < ShaderStage.Fragment.toNat))
      || !inStageMask ctx t)

/-- In the words of the specification: the stage `s` is the last stage in front of the
fragment stage, that is, it precedes the fragment stage, it is in the stage mask, and no
stage strictly between it and the fragment stage is in the stage mask. -/
def lastPreFragment (ctx : Context) (s : ShaderStage) : Bool :=
  decide (s.toNat < ShaderStage.Fragment.toNat) && inStageMask ctx s && noStageBetween ctx s

/-! ## Mask validators of `SPIRVIsValidEnum.h` -/

/-- What the mask validators read from declarations outside the sources at hand: the width
in bits of the type `SPIRVWord`, the value of the macro `SPV_VERSION`, and the enumerators of
the mask enumerations. -/
structure SpirvEnums where
  wordBits : Nat
  SPV_VERSION : Nat
  ImageOperandsBiasMask : Nat
  ImageOperandsLodMask : Nat
  ImageOperandsGradMask : Nat
  ImageOperandsConstOffsetMask : Nat
  ImageOperandsOffsetMask : Nat
  ImageOperandsConstOffsetsMask : Nat
  ImageOperandsSampleMask : Nat
  ImageOperandsMinLodMask : Nat
  FPFastMathModeNotNaNMask : Nat
  FPFastMathModeNotInfMask : Nat
  FPFastMathModeNSZMask : Nat
  FPFastMathModeAllowRecipMask : Nat
  FPFastMathModeFastMask : Nat
  SelectionControlFlattenMask : Nat
  SelectionControlDontFlattenMask : Nat
  LoopControlUnrollMask : Nat
  LoopControlDontUnrollMask : Nat
  LoopControlDependencyInfiniteMask : Nat
  LoopControlDependencyLengthMask : Nat
  LoopControlMinIterationsMask : Nat
  LoopControlMaxIterationsMask : Nat
  LoopControlIterationMultipleMask : Nat
  LoopControlPeelCountMask : Nat
  LoopControlPartialCountMask : Nat
  FunctionControlInlineMask : Nat
  FunctionControlDontInlineMask : Nat
  FunctionControlPureMask : Nat
  FunctionControlConstMask : Nat
  MemorySemanticsAcquireMask : Nat
  MemorySemanticsReleaseMask : Nat
  MemorySemanticsAcquireReleaseMask : Nat
  MemorySemanticsSequentiallyConsistentMask : Nat
  MemorySemanticsUniformMemoryMask : Nat
  MemorySemanticsSubgroupMemoryMask : Nat
  MemorySemanticsWorkgroupMemoryMask : Nat
  MemorySemanticsCrossWorkgroupMemoryMask : Nat
  MemorySemanticsAtomicCounterMemoryMask : Nat
  MemorySemanticsImageMemoryMask : Nat
  MemoryAccessVolatileMask : Nat
  MemoryAccessAlignedMask : Nat
  MemoryAccessNontemporalMask : Nat
  KernelProfilingInfoCmdExecTimeMask : Nat

/-- Value of an expression of type `SPIRVWord`. -/
def SpirvEnums.word (c : SpirvEnums) (n : Nat) : Nat := n % 2 ^ c.wordBits

/-- The expression `~v` of type `SPIRVWord`. -/
def SpirvEnums.complement (c : SpirvEnums) (v : Nat) : Nat := 2 ^ c.wordBits - 1 - c.word v

/-- Function `isValidImageOperandsMask`. -/
def isValidImageOperandsMask (c : SpirvEnums) (Mask : Nat) : Bool :=
  let ValidMask := c.word 0
  let ValidMask := c.word (ValidMask ||| c.ImageOperandsBiasMask)
  let ValidMask := c.word (ValidMask ||| c.ImageOperandsLodMask)
  let ValidMask := c.word (ValidMask ||| c.ImageOperandsGradMask)
  let ValidMask := c.word (ValidMask ||| c.ImageOperandsConstOffsetMask)
  let ValidMask := c.word (ValidMask ||| c.ImageOperandsOffsetMask)
  let ValidMask := c.word (ValidMask ||| c.ImageOperandsConstOffsetsMask)
  let ValidMask := c.word (ValidMask ||| c.ImageOperandsSampleMask)
  let ValidMask := c.word (ValidMask ||| c.ImageOperandsMinLodMask)
  (c.word Mask &&& c.complement ValidMask) == 0

/-- Function `isValidFPFastMathModeMask`. -/
def isValidFPFastMathModeMask (c : SpirvEnums) (Mask : Nat) : Bool :=
  let ValidMask := c.word 0
  let ValidMask := c.word (ValidMask ||| c.FPFastMathModeNotNaNMask)
  let ValidMask := c.word (ValidMask ||| c.FPFastMathModeNotInfMask)
  let ValidMask := c.word (ValidMask ||| c.FPFastMathModeNSZMask)
  let ValidMask := c.word (ValidMask ||| c.FPFastMathModeAllowRecipMask)
  let ValidMask := c.word (ValidMask ||| c.FPFastMathModeFastMask)
  (c.word Mask &&& c.complement ValidMask) == 0

/-- Function `isValidSelectionControlMask`. -/
def isValidSelectionControlMask (c : SpirvEnums) (Mask : Nat) : Bool :=
  let ValidMask := c.word 0
  let ValidMask := c.word (ValidMask ||| c.SelectionControlFlattenMask)
  let ValidMask := c.word (ValidMask ||| c.SelectionControlDontFlattenMask)
  (c.word Mask &&& c.complement ValidMask) == 0

/-- Function `isValidLoopControlMask`; the statements under `#if SPV_VERSION >= 0x10400` run
when the macro has at least that value. -/
def isValidLoopControlMask (c : SpirvEnums) (Mask : Nat) : Bool :=
  let ValidMask := c.word 0
  let ValidMask := c.word (ValidMask ||| c.LoopControlUnrollMask)
  let ValidMask := c.word (ValidMask ||| c.LoopControlDontUnrollMask)
  let ValidMask := c.word (ValidMask ||| c.LoopControlDependencyInfiniteMask)
  let ValidMask := c.word (ValidMask ||| c.LoopControlDependencyLengthMask)
  let ValidMask :=
    if c.SPV_VERSION ≥ 0x10400 then
      let ValidMask := c.word (ValidMask ||| c.LoopControlMinIterationsMask)
      let ValidMask := c.word (ValidMask ||| c.LoopControlMaxIterationsMask)
      let ValidMask := c.word (ValidMask ||| c.LoopControlIterationMultipleMask)
      let ValidMask := c.word (ValidMask ||| c.LoopControlPeelCountMask)
      c.word (ValidMask ||| c.LoopControlPartialCountMask)
    else ValidMask
  (c.word Mask &&& c.complement ValidMask) == 0

/-- Function `isValidFunctionControlMask`. -/
def isValidFunctionControlMask (c : SpirvEnums) (Mask : Nat) : Bool :=
  let ValidMask := c.word 0
  let ValidMask := c.word (ValidMask ||| c.FunctionControlInlineMask)
  let ValidMask := c.word (ValidMask ||| c.FunctionControlDontInlineMask)
  let ValidMask := c.word (ValidMask ||| c.FunctionControlPureMask)
  let ValidMask := c.word (ValidMask ||| c.FunctionControlConstMask)
  (c.word Mask &&& c.complement ValidMask) == 0

/-- Function `isValidMemorySemanticsMask`. -/
def isValidMemorySemanticsMask (c : SpirvEnums) (Mask : Nat) : Bool :=
  let ValidMask := c.word 0
  let ValidMask := c.word (ValidMask ||| c.MemorySemanticsAcquireMask)
  let ValidMask := c.word (ValidMask ||| c.MemorySemanticsReleaseMask)
  let ValidMask := c.word (ValidMask ||| c.MemorySemanticsAcquireReleaseMask)
  let ValidMask := c.word (ValidMask ||| c.MemorySemanticsSequentiallyConsistentMask)
  let ValidMask := c.word (ValidMask ||| c.MemorySemanticsUniformMemoryMask)
  let ValidMask := c.word (ValidMask ||| c.MemorySemanticsSubgroupMemoryMask)
  let ValidMask := c.word (ValidMask ||| c.MemorySemanticsWorkgroupMemoryMask)
  let ValidMask := c.word (ValidMask ||| c.MemorySemanticsCrossWorkgroupMemoryMask)
  let ValidMask := c.word (ValidMask ||| c.MemorySemanticsAtomicCounterMemoryMask)
  let ValidMask := c.word (ValidMask ||| c.MemorySemanticsImageMemoryMask)
  (c.word Mask &&& c.complement ValidMask) == 0

/-- Function `isValidMemoryAccessMask`. -/
def isValidMemoryAccessMask (c : SpirvEnums) (Mask : Nat) : Bool :=
  let ValidMask := c.word 0
  let ValidMask := c.word (ValidMask ||| c.MemoryAccessVolatileMask)
  let ValidMask := c.word (ValidMask ||| c.MemoryAccessAlignedMask)
  let ValidMask := c.word (ValidMask ||| c.MemoryAccessNontemporalMask)
  (c.word Mask &&& c.complement ValidMask) == 0

/-- Function `isValidKernelProfilingInfoMask`. -/
def isValidKernelProfilingInfoMask (c : SpirvEnums) (Mask : Nat) : Bool :=
  let ValidMask := c.word 0
  let ValidMask := c.word (ValidMask ||| c.KernelProfilingInfoCmdExecTimeMask)
  (c.word Mask &&& c.complement ValidMask) == 0

/-- The validator `f` accepts the empty mask, accepts the bitwise OR of two masks exactly
when it accepts both of them, and accepts every sub-mask of a mask that it accepts. -/
def RespectsOr (f : Nat → Bool) : Prop :=
  f 0 = true ∧ (∀ a b, f (a ||| b) = (f a && f b)) ∧
    ∀ a b, a ||| b = b → f b = true → f a = true

/-- The enumerators of the SPIR-V 1.4 header, with a `SPIRVWord` of 32 bits. -/
def spirvEnums14 : SpirvEnums :=
  { wordBits := 32, SPV_VERSION := 0x10400,
    ImageOperandsBiasMask := 0x1, ImageOperandsLodMask := 0x2, ImageOperandsGradMask := 0x4,
    ImageOperandsConstOffsetMask := 0x8, ImageOperandsOffsetMask := 0x10,
    ImageOperandsConstOffsetsMask := 0x20, ImageOperandsSampleMask := 0x40,
    ImageOperandsMinLodMask := 0x80,
    FPFastMathModeNotNaNMask := 0x1, FPFastMathModeNotInfMask := 0x2,
    FPFastMathModeNSZMask := 0x4, FPFastMathModeAllowRecipMask := 0x8,
    FPFastMathModeFastMask := 0x10,
    SelectionControlFlattenMask := 0x1, SelectionControlDontFlattenMask := 0x2,
    LoopControlUnrollMask := 0x1, LoopControlDontUnrollMask := 0x2,
    LoopControlDependencyInfiniteMask := 0x4, LoopControlDependencyLengthMask := 0x8,
    LoopControlMinIterationsMask := 0x10, LoopControlMaxIterationsMask := 0x20,
    LoopControlIterationMultipleMask := 0x40, LoopControlPeelCountMask := 0x80,
    LoopControlPartialCountMask := 0x100,
    FunctionControlInlineMask := 0x1, FunctionControlDontInlineMask := 0x2,
    FunctionControlPureMask := 0x4, FunctionControlConstMask := 0x8,
    MemorySemanticsAcquireMask := 0x2, MemorySemanticsReleaseMask := 0x4,
    MemorySemanticsAcquireReleaseMask := 0x8,
    MemorySemanticsSequentiallyConsistentMask := 0x10,
    MemorySemanticsUniformMemoryMask := 0x40, MemorySemanticsSubgroupMemoryMask := 0x80,
    MemorySemanticsWorkgroupMemoryMask := 0x100,
    MemorySemanticsCrossWorkgroupMemoryMask := 0x200,
    MemorySemanticsAtomicCounterMemoryMask := 0x400, MemorySemanticsImageMemoryMask := 0x800,
    MemoryAccessVolatileMask := 0x1, MemoryAccessAlignedMask := 0x2,
    MemoryAccessNontemporalMask := 0x4,
    KernelProfilingInfoCmdExecTimeMask := 0x1 }

/-! ## Fields of the state behind a primitive statement -/

@[simp] theorem St.push_argIdx (s : St) (ty : ArgTy) :
    (s.push ty).argIdx = s.argIdx := by
  cases s
  rfl

@[simp] theorem St.push_userDataIdx (s : St) (ty : ArgTy) :
    (s.push ty).userDataIdx = s.userDataIdx := by
  cases s
  rfl

@[simp] theorem St.push_argTys (s : St) (ty : ArgTy) :
    (s.push ty).argTys = s.argTys ++ [ty] := by
  cases s
  rfl

@[simp] theorem St.push_inRegMask (s : St) (ty : ArgTy) :
    (s.push ty).inRegMask = s.inRegMask := by
  cases s
  rfl

@[simp] theorem St.push_intfData (s : St) (ty : ArgTy) :
    (s.push ty).intfData = s.intfData := by
  cases s
  rfl

@[simp] theorem St.push_availUserDataCount (s : St) (ty : ArgTy) :
    (s.push ty).availUserDataCount = s.availUserDataCount := by
  cases s
  rfl

@[simp] theorem St.push_requiredRemappedUserDataCount (s : St) (ty : ArgTy) :
    (s.push ty).requiredRemappedUserDataCount = s.requiredRemappedUserDataCount := by
  cases s
  rfl

@[simp] theorem St.push_requiredUserDataCount (s : St) (ty : ArgTy) :
    (s.push ty).requiredUserDataCount = s.requiredUserDataCount := by
  cases s
  rfl

@[simp] theorem St.push_reserveVbTable (s : St) (ty : ArgTy) :
    (s.push ty).reserveVbTable = s.reserveVbTable := by
  cases s
  rfl

@[simp] theorem St.push_reserveStreamOutTable (s : St) (ty : ArgTy) :
    (s.push ty).reserveStreamOutTable = s.reserveStreamOutTable := by
  cases s
  rfl

@[simp] theorem St.push_reserveEsGsLdsSize (s : St) (ty : ArgTy) :
    (s.push ty).reserveEsGsLdsSize = s.reserveEsGsLdsSize := by
  cases s
  rfl

@[simp] theorem St.push_needSpill (s : St) (ty : ArgTy) :
    (s.push ty).needSpill = s.needSpill := by
  cases s
  rfl

@[simp] theorem St.push_actualAvailUserDataCount (s : St) (ty : ArgTy) :
    (s.push ty).actualAvailUserDataCount = s.actualAvailUserDataCount := by
  cases s
  rfl

@[simp] theorem St.push_neverCalled (s : St) (ty : ArgTy) :
    (s.push ty).neverCalled = s.neverCalled := by
  cases s
  rfl

@[simp] theorem St.push_assertFailed (s : St) (ty : ArgTy) :
    (s.push ty).assertFailed = s.assertFailed := by
  cases s
  rfl

@[simp] theorem St.push_undefinedBehavior (s : St) (ty : ArgTy) :
    (s.push ty).undefinedBehavior = s.undefinedBehavior := by
  cases s
  rfl

@[simp] theorem St.inReg_argIdx (s : St) :
    (s.inReg).argIdx = s.argIdx := by
  cases s
  rfl

@[simp] theorem St.inReg_userDataIdx (s : St) :
    (s.inReg).userDataIdx = s.userDataIdx := by
  cases s
  rfl

@[simp] theorem St.inReg_argTys (s : St) :
    (s.inReg).argTys = s.argTys := by
  cases s
  rfl

@[simp] theorem St.inReg_inRegMask (s : St) :
    (s.inReg).inRegMask = s.inRegMask ||| bit64 s.argIdx := by
  cases s
  rfl

@[simp] theorem St.inReg_intfData (s : St) :
    (s.inReg).intfData = s.intfData := by
  cases s
  rfl

@[simp] theorem St.inReg_availUserDataCount (s : St) :
    (s.inReg).availUserDataCount = s.availUserDataCount := by
  cases s
  rfl

@[simp] theorem St.inReg_requiredRemappedUserDataCount (s : St) :
    (s.inReg).requiredRemappedUserDataCount = s.requiredRemappedUserDataCount := by
  cases s
  rfl

@[simp] theorem St.inReg_requiredUserDataCount (s : St) :
    (s.inReg).requiredUserDataCount = s.requiredUserDataCount := by
  cases s
  rfl

@[simp] theorem St.inReg_reserveVbTable (s : St) :
    (s.inReg).reserveVbTable = s.reserveVbTable := by
  cases s
  rfl

@[simp] theorem St.inReg_reserveStreamOutTable (s : St) :
    (s.inReg).reserveStreamOutTable = s.reserveStreamOutTable := by
  cases s
  rfl

@[simp] theorem St.inReg_reserveEsGsLdsSize (s : St) :
    (s.inReg).reserveEsGsLdsSize = s.reserveEsGsLdsSize := by
  cases s
  rfl

@[simp] theorem St.inReg_needSpill (s : St) :
    (s.inReg).needSpill = s.needSpill := by
  cases s
  rfl

@[simp] theorem St.inReg_actualAvailUserDataCount (s : St) :
    (s.inReg).actualAvailUserDataCount = s.actualAvailUserDataCount := by
  cases s
  rfl

@[simp] theorem St.inReg_neverCalled (s : St) :
    (s.inReg).neverCalled = s.neverCalled := by
  cases s
  rfl

@[simp] theorem St.inReg_assertFailed (s : St) :
    (s.inReg).assertFailed = s.assertFailed := by
  cases s
  rfl

@[simp] theorem St.inReg_undefinedBehavior (s : St) :
    (s.inReg).undefinedBehavior = (s.undefinedBehavior || decide (64 ≤ s.argIdx)) := by
  cases s
  rfl

@[simp] theorem St.argNext_argIdx (s : St) :
    (s.argNext).argIdx = u32 (s.argIdx + 1) := by
  cases s
  rfl

@[simp] theorem St.argNext_userDataIdx (s : St) :
    (s.argNext).userDataIdx = s.userDataIdx := by
  cases s
  rfl

@[simp] theorem St.argNext_argTys (s : St) :
    (s.argNext).argTys = s.argTys := by
  cases s
  rfl

@[simp] theorem St.argNext_inRegMask (s : St) :
    (s.argNext).inRegMask = s.inRegMask := by
  cases s
  rfl

@[simp] theorem St.argNext_intfData (s : St) :
    (s.argNext).intfData = s.intfData := by
  cases s
  rfl

@[simp] theorem St.argNext_availUserDataCount (s : St) :
    (s.argNext).availUserDataCount = s.availUserDataCount := by
  cases s
  rfl

@[simp] theorem St.argNext_requiredRemappedUserDataCount (s : St) :
    (s.argNext).requiredRemappedUserDataCount = s.requiredRemappedUserDataCount := by
  cases s
  rfl

@[simp] theorem St.argNext_requiredUserDataCount (s : St) :
    (s.argNext).requiredUserDataCount = s.requiredUserDataCount := by
  cases s
  rfl

@[simp] theorem St.argNext_reserveVbTable (s : St) :
    (s.argNext).reserveVbTable = s.reserveVbTable := by
  cases s
  rfl

@[simp] theorem St.argNext_reserveStreamOutTable (s : St) :
    (s.argNext).reserveStreamOutTable = s.reserveStreamOutTable := by
  cases s
  rfl

@[simp] theorem St.argNext_reserveEsGsLdsSize (s : St) :
    (s.argNext).reserveEsGsLdsSize = s.reserveEsGsLdsSize := by
  cases s
  rfl

@[simp] theorem St.argNext_needSpill (s : St) :
    (s.argNext).needSpill = s.needSpill := by
  cases s
  rfl

@[simp] theorem St.argNext_actualAvailUserDataCount (s : St) :
    (s.argNext).actualAvailUserDataCount = s.actualAvailUserDataCount := by
  cases s
  rfl

@[simp] theorem St.argNext_neverCalled (s : St) :
    (s.argNext).neverCalled = s.neverCalled := by
  cases s
  rfl

@[simp] theorem St.argNext_assertFailed (s : St) :
    (s.argNext).assertFailed = s.assertFailed := by
  cases s
  rfl

@[simp] theorem St.argNext_undefinedBehavior (s : St) :
    (s.argNext).undefinedBehavior = s.undefinedBehavior := by
  cases s
  rfl

@[simp] theorem St.inRegNext_argIdx (s : St) :
    (s.inRegNext).argIdx = u32 (s.argIdx + 1) := by
  cases s
  rfl

@[simp] theorem St.inRegNext_userDataIdx (s : St) :
    (s.inRegNext).userDataIdx = s.userDataIdx := by
  cases s
  rfl

@[simp] theorem St.inRegNext_argTys (s : St) :
    (s.inRegNext).argTys = s.argTys := by
  cases s
  rfl

@[simp] theorem St.inRegNext_inRegMask (s : St) :
    (s.inRegNext).inRegMask = s.inRegMask ||| bit64 s.argIdx := by
  cases s
  rfl

@[simp] theorem St.inRegNext_intfData (s : St) :
    (s.inRegNext).intfData = s.intfData := by
  cases s
  rfl

@[simp] theorem St.inRegNext_availUserDataCount (s : St) :
    (s.inRegNext).availUserDataCount = s.availUserDataCount := by
  cases s
  rfl

@[simp] theorem St.inRegNext_requiredRemappedUserDataCount (s : St) :
    (s.inRegNext).requiredRemappedUserDataCount = s.requiredRemappedUserDataCount := by
  cases s
  rfl

@[simp] theorem St.inRegNext_requiredUserDataCount (s : St) :
    (s.inRegNext).requiredUserDataCount = s.requiredUserDataCount := by
  cases s
  rfl

@[simp] theorem St.inRegNext_reserveVbTable (s : St) :
    (s.inRegNext).reserveVbTable = s.reserveVbTable := by
  cases s
  rfl

@[simp] theorem St.inRegNext_reserveStreamOutTable (s : St) :
    (s.inRegNext).reserveStreamOutTable = s.reserveStreamOutTable := by
  cases s
  rfl

@[simp] theorem St.inRegNext_reserveEsGsLdsSize (s : St) :
    (s.inRegNext).reserveEsGsLdsSize = s.reserveEsGsLdsSize := by
  cases s
  rfl

@[simp] theorem St.inRegNext_needSpill (s : St) :
    (s.inRegNext).needSpill = s.needSpill := by
  cases s
  rfl

@[simp] theorem St.inRegNext_actualAvailUserDataCount (s : St) :
    (s.inRegNext).actualAvailUserDataCount = s.actualAvailUserDataCount := by
  cases s
  rfl

@[simp] theorem St.inRegNext_neverCalled (s : St) :
    (s.inRegNext).neverCalled = s.neverCalled := by
  cases s
  rfl

@[simp] theorem St.inRegNext_assertFailed (s : St) :
    (s.inRegNext).assertFailed = s.assertFailed := by
  cases s
  rfl

@[simp] theorem St.inRegNext_undefinedBehavior (s : St) :
    (s.inRegNext).undefinedBehavior = (s.undefinedBehavior || decide (64 ≤ s.argIdx)) := by
  cases s
  rfl

@[simp] theorem St.consume_argIdx (s : St) (n : Nat) :
    (s.consume n).argIdx = s.argIdx := by
  cases s
  rfl

@[simp] theorem St.consume_userDataIdx (s : St) (n : Nat) :
    (s.consume n).userDataIdx = s.userDataIdx := by
  cases s
  rfl

@[simp] theorem St.consume_argTys (s : St) (n : Nat) :
    (s.consume n).argTys = s.argTys := by
  cases s
  rfl

@[simp] theorem St.consume_inRegMask (s : St) (n : Nat) :
    (s.consume n).inRegMask = s.inRegMask := by
  cases s
  rfl

@[simp] theorem St.consume_intfData (s : St) (n : Nat) :
    (s.consume n).intfData = s.intfData := by
  cases s
  rfl

@[simp] theorem St.consume_availUserDataCount (s : St) (n : Nat) :
    (s.consume n).availUserDataCount = s.availUserDataCount := by
  cases s
  rfl

@[simp] theorem St.consume_requiredRemappedUserDataCount (s : St) (n : Nat) :
    (s.consume n).requiredRemappedUserDataCount = s.requiredRemappedUserDataCount := by
  cases s
  rfl

@[simp] theorem St.consume_requiredUserDataCount (s : St) (n : Nat) :
    (s.consume n).requiredUserDataCount = s.requiredUserDataCount := by
  cases s
  rfl

@[simp] theorem St.consume_reserveVbTable (s : St) (n : Nat) :
    (s.consume n).reserveVbTable = s.reserveVbTable := by
  cases s
  rfl

@[simp] theorem St.consume_reserveStreamOutTable (s : St) (n : Nat) :
    (s.consume n).reserveStreamOutTable = s.reserveStreamOutTable := by
  cases s
  rfl

@[simp] theorem St.consume_reserveEsGsLdsSize (s : St) (n : Nat) :
    (s.consume n).reserveEsGsLdsSize = s.reserveEsGsLdsSize := by
  cases s
  rfl

@[simp] theorem St.consume_needSpill (s : St) (n : Nat) :
    (s.consume n).needSpill = s.needSpill := by
  cases s
  rfl

@[simp] theorem St.consume_actualAvailUserDataCount (s : St) (n : Nat) :
    (s.consume n).actualAvailUserDataCount = u32 (s.actualAvailUserDataCount + n) := by
  cases s
  rfl

@[simp] theorem St.consume_neverCalled (s : St) (n : Nat) :
    (s.consume n).neverCalled = s.neverCalled := by
  cases s
  rfl

@[simp] theorem St.consume_assertFailed (s : St) (n : Nat) :
    (s.consume n).assertFailed = s.assertFailed := by
  cases s
  rfl

@[simp] theorem St.consume_undefinedBehavior (s : St) (n : Nat) :
    (s.consume n).undefinedBehavior = s.undefinedBehavior := by
  cases s
  rfl

@[simp] theorem St.userDataNext_argIdx (s : St) (n : Nat) :
    (s.userDataNext n).argIdx = s.argIdx := by
  cases s
  rfl

@[simp] theorem St.userDataNext_userDataIdx (s : St) (n : Nat) :
    (s.userDataNext n).userDataIdx = u32 (s.userDataIdx + n) := by
  cases s
  rfl

@[simp] theorem St.userDataNext_argTys (s : St) (n : Nat) :
    (s.userDataNext n).argTys = s.argTys := by
  cases s
  rfl

@[simp] theorem St.userDataNext_inRegMask (s : St) (n : Nat) :
    (s.userDataNext n).inRegMask = s.inRegMask := by
  cases s
  rfl

@[simp] theorem St.userDataNext_intfData (s : St) (n : Nat) :
    (s.userDataNext n).intfData = s.intfData := by
  cases s
  rfl

@[simp] theorem St.userDataNext_availUserDataCount (s : St) (n : Nat) :
    (s.userDataNext n).availUserDataCount = s.availUserDataCount := by
  cases s
  rfl

@[simp] theorem St.userDataNext_requiredRemappedUserDataCount (s : St) (n : Nat) :
    (s.userDataNext n).requiredRemappedUserDataCount = s.requiredRemappedUserDataCount := by
  cases s
  rfl

@[simp] theorem St.userDataNext_requiredUserDataCount (s : St) (n : Nat) :
    (s.userDataNext n).requiredUserDataCount = s.requiredUserDataCount := by
  cases s
  rfl

@[simp] theorem St.userDataNext_reserveVbTable (s : St) (n : Nat) :
    (s.userDataNext n).reserveVbTable = s.reserveVbTable := by
  cases s
  rfl

@[simp] theorem St.userDataNext_reserveStreamOutTable (s : St) (n : Nat) :
    (s.userDataNext n).reserveStreamOutTable = s.reserveStreamOutTable := by
  cases s
  rfl

@[simp] theorem St.userDataNext_reserveEsGsLdsSize (s : St) (n : Nat) :
    (s.userDataNext n).reserveEsGsLdsSize = s.reserveEsGsLdsSize := by
  cases s
  rfl

@[simp] theorem St.userDataNext_needSpill (s : St) (n : Nat) :
    (s.userDataNext n).needSpill = s.needSpill := by
  cases s
  rfl

@[simp] theorem St.userDataNext_actualAvailUserDataCount (s : St) (n : Nat) :
    (s.userDataNext n).actualAvailUserDataCount = s.actualAvailUserDataCount := by
  cases s
  rfl

@[simp] theorem St.userDataNext_neverCalled (s : St) (n : Nat) :
    (s.userDataNext n).neverCalled = s.neverCalled := by
  cases s
  rfl

@[simp] theorem St.userDataNext_assertFailed (s : St) (n : Nat) :
    (s.userDataNext n).assertFailed = s.assertFailed := by
  cases s
  rfl

@[simp] theorem St.userDataNext_undefinedBehavior (s : St) (n : Nat) :
    (s.userDataNext n).undefinedBehavior = s.undefinedBehavior := by
  cases s
  rfl

@[simp] theorem St.reserve_argIdx (s : St) (n : Nat) :
    (s.reserve n).argIdx = s.argIdx := by
  cases s
  rfl

@[simp] theorem St.reserve_userDataIdx (s : St) (n : Nat) :
    (s.reserve n).userDataIdx = s.userDataIdx := by
  cases s
  rfl

@[simp] theorem St.reserve_argTys (s : St) (n : Nat) :
    (s.reserve n).argTys = s.argTys := by
  cases s
  rfl

@[simp] theorem St.reserve_inRegMask (s : St) (n : Nat) :
    (s.reserve n).inRegMask = s.inRegMask := by
  cases s
  rfl

@[simp] theorem St.reserve_intfData (s : St) (n : Nat) :
    (s.reserve n).intfData = s.intfData := by
  cases s
  rfl

@[simp] theorem St.reserve_availUserDataCount (s : St) (n : Nat) :
    (s.reserve n).availUserDataCount = sub32 s.availUserDataCount n := by
  cases s
  rfl

@[simp] theorem St.reserve_requiredRemappedUserDataCount (s : St) (n : Nat) :
    (s.reserve n).requiredRemappedUserDataCount = s.requiredRemappedUserDataCount := by
  cases s
  rfl

@[simp] theorem St.reserve_requiredUserDataCount (s : St) (n : Nat) :
    (s.reserve n).requiredUserDataCount = s.requiredUserDataCount := by
  cases s
  rfl

@[simp] theorem St.reserve_reserveVbTable (s : St) (n : Nat) :
    (s.reserve n).reserveVbTable = s.reserveVbTable := by
  cases s
  rfl

@[simp] theorem St.reserve_reserveStreamOutTable (s : St) (n : Nat) :
    (s.reserve n).reserveStreamOutTable = s.reserveStreamOutTable := by
  cases s
  rfl

@[simp] theorem St.reserve_reserveEsGsLdsSize (s : St) (n : Nat) :
    (s.reserve n).reserveEsGsLdsSize = s.reserveEsGsLdsSize := by
  cases s
  rfl

@[simp] theorem St.reserve_needSpill (s : St) (n : Nat) :
    (s.reserve n).needSpill = s.needSpill := by
  cases s
  rfl

@[simp] theorem St.reserve_actualAvailUserDataCount (s : St) (n : Nat) :
    (s.reserve n).actualAvailUserDataCount = s.actualAvailUserDataCount := by
  cases s
  rfl

@[simp] theorem St.reserve_neverCalled (s : St) (n : Nat) :
    (s.reserve n).neverCalled = s.neverCalled := by
  cases s
  rfl

@[simp] theorem St.reserve_assertFailed (s : St) (n : Nat) :
    (s.reserve n).assertFailed = s.assertFailed := by
  cases s
  rfl

@[simp] theorem St.reserve_undefinedBehavior (s : St) (n : Nat) :
    (s.reserve n).undefinedBehavior = s.undefinedBehavior := by
  cases s
  rfl

@[simp] theorem St.setReserveVbTable_argIdx (s : St) :
    (s.setReserveVbTable).argIdx = s.argIdx := by
  cases s
  rfl

@[simp] theorem St.setReserveVbTable_userDataIdx (s : St) :
    (s.setReserveVbTable).userDataIdx = s.userDataIdx := by
  cases s
  rfl

@[simp] theorem St.setReserveVbTable_argTys (s : St) :
    (s.setReserveVbTable).argTys = s.argTys := by
  cases s
  rfl

@[simp] theorem St.setReserveVbTable_inRegMask (s : St) :
    (s.setReserveVbTable).inRegMask = s.inRegMask := by
  cases s
  rfl

@[simp] theorem St.setReserveVbTable_intfData (s : St) :
    (s.setReserveVbTable).intfData = s.intfData := by
  cases s
  rfl

@[simp] theorem St.setReserveVbTable_availUserDataCount (s : St) :
    (s.setReserveVbTable).availUserDataCount = s.availUserDataCount := by
  cases s
  rfl

@[simp] theorem St.setReserveVbTable_requiredRemappedUserDataCount (s : St) :
    (s.setReserveVbTable).requiredRemappedUserDataCount = s.requiredRemappedUserDataCount := by
  cases s
  rfl

@[simp] theorem St.setReserveVbTable_requiredUserDataCount (s : St) :
    (s.setReserveVbTable).requiredUserDataCount = s.requiredUserDataCount := by
  cases s
  rfl

@[simp] theorem St.setReserveVbTable_reserveVbTable (s : St) :
    (s.setReserveVbTable).reserveVbTable = true := by
  cases s
  rfl

@[simp] theorem St.setReserveVbTable_reserveStreamOutTable (s : St) :
    (s.setReserveVbTable).reserveStreamOutTable = s.reserveStreamOutTable := by
  cases s
  rfl

@[simp] theorem St.setReserveVbTable_reserveEsGsLdsSize (s : St) :
    (s.setReserveVbTable).reserveEsGsLdsSize = s.reserveEsGsLdsSize := by
  cases s
  rfl

@[simp] theorem St.setReserveVbTable_needSpill (s : St) :
    (s.setReserveVbTable).needSpill = s.needSpill := by
  cases s
  rfl

@[simp] theorem St.setReserveVbTable_actualAvailUserDataCount (s : St) :
    (s.setReserveVbTable).actualAvailUserDataCount = s.actualAvailUserDataCount := by
  cases s
  rfl

@[simp] theorem St.setReserveVbTable_neverCalled (s : St) :
    (s.setReserveVbTable).neverCalled = s.neverCalled := by
  cases s
  rfl

@[simp] theorem St.setReserveVbTable_assertFailed (s : St) :
    (s.setReserveVbTable).assertFailed = s.assertFailed := by
  cases s
  rfl

@[simp] theorem St.setReserveVbTable_undefinedBehavior (s : St) :
    (s.setReserveVbTable).undefinedBehavior = s.undefinedBehavior := by
  cases s
  rfl

@[simp] theorem St.setReserveStreamOutTable_argIdx (s : St) :
    (s.setReserveStreamOutTable).argIdx = s.argIdx := by
  cases s
  rfl

@[simp] theorem St.setReserveStreamOutTable_userDataIdx (s : St) :
    (s.setReserveStreamOutTable).userDataIdx = s.userDataIdx := by
  cases s
  rfl

@[simp] theorem St.setReserveStreamOutTable_argTys (s : St) :
    (s.setReserveStreamOutTable).argTys = s.argTys := by
  cases s
  rfl

@[simp] theorem St.setReserveStreamOutTable_inRegMask (s : St) :
    (s.setReserveStreamOutTable).inRegMask = s.inRegMask := by
  cases s
  rfl

@[simp] theorem St.setReserveStreamOutTable_intfData (s : St) :
    (s.setReserveStreamOutTable).intfData = s.intfData := by
  cases s
  rfl

@[simp] theorem St.setReserveStreamOutTable_availUserDataCount (s : St) :
    (s.setReserveStreamOutTable).availUserDataCount = s.availUserDataCount := by
  cases s
  rfl

@[simp] theorem St.setReserveStreamOutTable_requiredRemappedUserDataCount (s : St) :
    (s.setReserveStreamOutTable).requiredRemappedUserDataCount = s.requiredRemappedUserDataCount := by
  cases s
  rfl

@[simp] theorem St.setReserveStreamOutTable_requiredUserDataCount (s : St) :
    (s.setReserveStreamOutTable).requiredUserDataCount = s.requiredUserDataCount := by
  cases s
  rfl

@[simp] theorem St.setReserveStreamOutTable_reserveVbTable (s : St) :
    (s.setReserveStreamOutTable).reserveVbTable = s.reserveVbTable := by
  cases s
  rfl

@[simp] theorem St.setReserveStreamOutTable_reserveStreamOutTable (s : St) :
    (s.setReserveStreamOutTable).reserveStreamOutTable = true := by
  cases s
  rfl

@[simp] theorem St.setReserveStreamOutTable_reserveEsGsLdsSize (s : St) :
    (s.setReserveStreamOutTable).reserveEsGsLdsSize = s.reserveEsGsLdsSize := by
  cases s
  rfl

@[simp] theorem St.setReserveStreamOutTable_needSpill (s : St) :
    (s.setReserveStreamOutTable).needSpill = s.needSpill := by
  cases s
  rfl

@[simp] theorem St.setReserveStreamOutTable_actualAvailUserDataCount (s : St) :
    (s.setReserveStreamOutTable).actualAvailUserDataCount = s.actualAvailUserDataCount := by
  cases s
  rfl

@[simp] theorem St.setReserveStreamOutTable_neverCalled (s : St) :
    (s.setReserveStreamOutTable).neverCalled = s.neverCalled := by
  cases s
  rfl

@[simp] theorem St.setReserveStreamOutTable_assertFailed (s : St) :
    (s.setReserveStreamOutTable).assertFailed = s.assertFailed := by
  cases s
  rfl

@[simp] theorem St.setReserveStreamOutTable_undefinedBehavior (s : St) :
    (s.setReserveStreamOutTable).undefinedBehavior = s.undefinedBehavior := by
  cases s
  rfl

@[simp] theorem St.setReserveEsGsLdsSize_argIdx (s : St) :
    (s.setReserveEsGsLdsSize).argIdx = s.argIdx := by
  cases s
  rfl

@[simp] theorem St.setReserveEsGsLdsSize_userDataIdx (s : St) :
    (s.setReserveEsGsLdsSize).userDataIdx = s.userDataIdx := by
  cases s
  rfl

@[simp] theorem St.setReserveEsGsLdsSize_argTys (s : St) :
    (s.setReserveEsGsLdsSize).argTys = s.argTys := by
  cases s
  rfl

@[simp] theorem St.setReserveEsGsLdsSize_inRegMask (s : St) :
    (s.setReserveEsGsLdsSize).inRegMask = s.inRegMask := by
  cases s
  rfl

@[simp] theorem St.setReserveEsGsLdsSize_intfData (s : St) :
    (s.setReserveEsGsLdsSize).intfData = s.intfData := by
  cases s
  rfl

@[simp] theorem St.setReserveEsGsLdsSize_availUserDataCount (s : St) :
    (s.setReserveEsGsLdsSize).availUserDataCount = s.availUserDataCount := by
  cases s
  rfl

@[simp] theorem St.setReserveEsGsLdsSize_requiredRemappedUserDataCount (s : St) :
    (s.setReserveEsGsLdsSize).requiredRemappedUserDataCount = s.requiredRemappedUserDataCount := by
  cases s
  rfl

@[simp] theorem St.setReserveEsGsLdsSize_requiredUserDataCount (s : St) :
    (s.setReserveEsGsLdsSize).requiredUserDataCount = s.requiredUserDataCount := by
  cases s
  rfl

@[simp] theorem St.setReserveEsGsLdsSize_reserveVbTable (s : St) :
    (s.setReserveEsGsLdsSize).reserveVbTable = s.reserveVbTable := by
  cases s
  rfl

@[simp] theorem St.setReserveEsGsLdsSize_reserveStreamOutTable (s : St) :
    (s.setReserveEsGsLdsSize).reserveStreamOutTable = s.reserveStreamOutTable := by
  cases s
  rfl

@[simp] theorem St.setReserveEsGsLdsSize_reserveEsGsLdsSize (s : St) :
    (s.setReserveEsGsLdsSize).reserveEsGsLdsSize = true := by
  cases s
  rfl

@[simp] theorem St.setReserveEsGsLdsSize_needSpill (s : St) :
    (s.setReserveEsGsLdsSize).needSpill = s.needSpill := by
  cases s
  rfl

@[simp] theorem St.setReserveEsGsLdsSize_actualAvailUserDataCount (s : St) :
    (s.setReserveEsGsLdsSize).actualAvailUserDataCount = s.actualAvailUserDataCount := by
  cases s
  rfl

@[simp] theorem St.setReserveEsGsLdsSize_neverCalled (s : St) :
    (s.setReserveEsGsLdsSize).neverCalled = s.neverCalled := by
  cases s
  rfl

@[simp] theorem St.setReserveEsGsLdsSize_assertFailed (s : St) :
    (s.setReserveEsGsLdsSize).assertFailed = s.assertFailed := by
  cases s
  rfl

@[simp] theorem St.setReserveEsGsLdsSize_undefinedBehavior (s : St) :
    (s.setReserveEsGsLdsSize).undefinedBehavior = s.undefinedBehavior := by
  cases s
  rfl

@[simp] theorem St.require_argIdx (s : St) (pNode : ResourceNode) :
    (s.require pNode).argIdx = s.argIdx := by
  cases s
  rfl

@[simp] theorem St.require_userDataIdx (s : St) (pNode : ResourceNode) :
    (s.require pNode).userDataIdx = s.userDataIdx := by
  cases s
  rfl

@[simp] theorem St.require_argTys (s : St) (pNode : ResourceNode) :
    (s.require pNode).argTys = s.argTys := by
  cases s
  rfl

@[simp] theorem St.require_inRegMask (s : St) (pNode : ResourceNode) :
    (s.require pNode).inRegMask = s.inRegMask := by
  cases s
  rfl

@[simp] theorem St.require_intfData (s : St) (pNode : ResourceNode) :
    (s.require pNode).intfData = s.intfData := by
  cases s
  rfl

@[simp] theorem St.require_availUserDataCount (s : St) (pNode : ResourceNode) :
    (s.require pNode).availUserDataCount = s.availUserDataCount := by
  cases s
  rfl

@[simp] theorem St.require_requiredRemappedUserDataCount (s : St) (pNode : ResourceNode) :
    (s.require pNode).requiredRemappedUserDataCount = u32 (s.requiredRemappedUserDataCount + pNode.sizeInDwords) := by
  cases s
  rfl

@[simp] theorem St.require_requiredUserDataCount (s : St) (pNode : ResourceNode) :
    (s.require pNode).requiredUserDataCount = max s.requiredUserDataCount (u32 (pNode.offsetInDwords + pNode.sizeInDwords)) := by
  cases s
  rfl

@[simp] theorem St.require_reserveVbTable (s : St) (pNode : ResourceNode) :
    (s.require pNode).reserveVbTable = s.reserveVbTable := by
  cases s
  rfl

@[simp] theorem St.require_reserveStreamOutTable (s : St) (pNode : ResourceNode) :
    (s.require pNode).reserveStreamOutTable = s.reserveStreamOutTable := by
  cases s
  rfl

@[simp] theorem St.require_reserveEsGsLdsSize (s : St) (pNode : ResourceNode) :
    (s.require pNode).reserveEsGsLdsSize = s.reserveEsGsLdsSize := by
  cases s
  rfl

@[simp] theorem St.require_needSpill (s : St) (pNode : ResourceNode) :
    (s.require pNode).needSpill = s.needSpill := by
  cases s
  rfl

@[simp] theorem St.require_actualAvailUserDataCount (s : St) (pNode : ResourceNode) :
    (s.require pNode).actualAvailUserDataCount = s.actualAvailUserDataCount := by
  cases s
  rfl

@[simp] theorem St.require_neverCalled (s : St) (pNode : ResourceNode) :
    (s.require pNode).neverCalled = s.neverCalled := by
  cases s
  rfl

@[simp] theorem St.require_assertFailed (s : St) (pNode : ResourceNode) :
    (s.require pNode).assertFailed = s.assertFailed := by
  cases s
  rfl

@[simp] theorem St.require_undefinedBehavior (s : St) (pNode : ResourceNode) :
    (s.require pNode).undefinedBehavior = s.undefinedBehavior := by
  cases s
  rfl

@[simp] theorem St.setNeedSpill_argIdx (s : St) (b : Bool) :
    (s.setNeedSpill b).argIdx = s.argIdx := by
  cases s
  rfl

@[simp] theorem St.setNeedSpill_userDataIdx (s : St) (b : Bool) :
    (s.setNeedSpill b).userDataIdx = s.userDataIdx := by
  cases s
  rfl

@[simp] theorem St.setNeedSpill_argTys (s : St) (b : Bool) :
    (s.setNeedSpill b).argTys = s.argTys := by
  cases s
  rfl

@[simp] theorem St.setNeedSpill_inRegMask (s : St) (b : Bool) :
    (s.setNeedSpill b).inRegMask = s.inRegMask := by
  cases s
  rfl

@[simp] theorem St.setNeedSpill_intfData (s : St) (b : Bool) :
    (s.setNeedSpill b).intfData = s.intfData := by
  cases s
  rfl

@[simp] theorem St.setNeedSpill_availUserDataCount (s : St) (b : Bool) :
    (s.setNeedSpill b).availUserDataCount = s.availUserDataCount := by
  cases s
  rfl

@[simp] theorem St.setNeedSpill_requiredRemappedUserDataCount (s : St) (b : Bool) :
    (s.setNeedSpill b).requiredRemappedUserDataCount = s.requiredRemappedUserDataCount := by
  cases s
  rfl

@[simp] theorem St.setNeedSpill_requiredUserDataCount (s : St) (b : Bool) :
    (s.setNeedSpill b).requiredUserDataCount = s.requiredUserDataCount := by
  cases s
  rfl

@[simp] theorem St.setNeedSpill_reserveVbTable (s : St) (b : Bool) :
    (s.setNeedSpill b).reserveVbTable = s.reserveVbTable := by
  cases s
  rfl

@[simp] theorem St.setNeedSpill_reserveStreamOutTable (s : St) (b : Bool) :
    (s.setNeedSpill b).reserveStreamOutTable = s.reserveStreamOutTable := by
  cases s
  rfl

@[simp] theorem St.setNeedSpill_reserveEsGsLdsSize (s : St) (b : Bool) :
    (s.setNeedSpill b).reserveEsGsLdsSize = s.reserveEsGsLdsSize := by
  cases s
  rfl

@[simp] theorem St.setNeedSpill_needSpill (s : St) (b : Bool) :
    (s.setNeedSpill b).needSpill = b := by
  cases s
  rfl

@[simp] theorem St.setNeedSpill_actualAvailUserDataCount (s : St) (b : Bool) :
    (s.setNeedSpill b).actualAvailUserDataCount = s.actualAvailUserDataCount := by
  cases s
  rfl

@[simp] theorem St.setNeedSpill_neverCalled (s : St) (b : Bool) :
    (s.setNeedSpill b).neverCalled = s.neverCalled := by
  cases s
  rfl

@[simp] theorem St.setNeedSpill_assertFailed (s : St) (b : Bool) :
    (s.setNeedSpill b).assertFailed = s.assertFailed := by
  cases s
  rfl

@[simp] theorem St.setNeedSpill_undefinedBehavior (s : St) (b : Bool) :
    (s.setNeedSpill b).undefinedBehavior = s.undefinedBehavior := by
  cases s
  rfl

@[simp] theorem St.setAvail_argIdx (s : St) (n : Nat) :
    (s.setAvail n).argIdx = s.argIdx := by
  cases s
  rfl

@[simp] theorem St.setAvail_userDataIdx (s : St) (n : Nat) :
    (s.setAvail n).userDataIdx = s.userDataIdx := by
  cases s
  rfl

@[simp] theorem St.setAvail_argTys (s : St) (n : Nat) :
    (s.setAvail n).argTys = s.argTys := by
  cases s
  rfl

@[simp] theorem St.setAvail_inRegMask (s : St) (n : Nat) :
    (s.setAvail n).inRegMask = s.inRegMask := by
  cases s
  rfl

@[simp] theorem St.setAvail_intfData (s : St) (n : Nat) :
    (s.setAvail n).intfData = s.intfData := by
  cases s
  rfl

@[simp] theorem St.setAvail_availUserDataCount (s : St) (n : Nat) :
    (s.setAvail n).availUserDataCount = n := by
  cases s
  rfl

@[simp] theorem St.setAvail_requiredRemappedUserDataCount (s : St) (n : Nat) :
    (s.setAvail n).requiredRemappedUserDataCount = s.requiredRemappedUserDataCount := by
  cases s
  rfl

@[simp] theorem St.setAvail_requiredUserDataCount (s : St) (n : Nat) :
    (s.setAvail n).requiredUserDataCount = s.requiredUserDataCount := by
  cases s
  rfl

@[simp] theorem St.setAvail_reserveVbTable (s : St) (n : Nat) :
    (s.setAvail n).reserveVbTable = s.reserveVbTable := by
  cases s
  rfl

@[simp] theorem St.setAvail_reserveStreamOutTable (s : St) (n : Nat) :
    (s.setAvail n).reserveStreamOutTable = s.reserveStreamOutTable := by
  cases s
  rfl

@[simp] theorem St.setAvail_reserveEsGsLdsSize (s : St) (n : Nat) :
    (s.setAvail n).reserveEsGsLdsSize = s.reserveEsGsLdsSize := by
  cases s
  rfl

@[simp] theorem St.setAvail_needSpill (s : St) (n : Nat) :
    (s.setAvail n).needSpill = s.needSpill := by
  cases s
  rfl

@[simp] theorem St.setAvail_actualAvailUserDataCount (s : St) (n : Nat) :
    (s.setAvail n).actualAvailUserDataCount = s.actualAvailUserDataCount := by
  cases s
  rfl

@[simp] theorem St.setAvail_neverCalled (s : St) (n : Nat) :
    (s.setAvail n).neverCalled = s.neverCalled := by
  cases s
  rfl

@[simp] theorem St.setAvail_assertFailed (s : St) (n : Nat) :
    (s.setAvail n).assertFailed = s.assertFailed := by
  cases s
  rfl

@[simp] theorem St.setAvail_undefinedBehavior (s : St) (n : Nat) :
    (s.setAvail n).undefinedBehavior = s.undefinedBehavior := by
  cases s
  rfl

@[simp] theorem St.setIntf_argIdx (s : St) (t : ShaderStage) (f : InterfaceData → InterfaceData) :
    (s.setIntf t f).argIdx = s.argIdx := by
  cases s
  rfl

@[simp] theorem St.setIntf_userDataIdx (s : St) (t : ShaderStage) (f : InterfaceData → InterfaceData) :
    (s.setIntf t f).userDataIdx = s.userDataIdx := by
  cases s
  rfl

@[simp] theorem St.setIntf_argTys (s : St) (t : ShaderStage) (f : InterfaceData → InterfaceData) :
    (s.setIntf t f).argTys = s.argTys := by
  cases s
  rfl

@[simp] theorem St.setIntf_inRegMask (s : St) (t : ShaderStage) (f : InterfaceData → InterfaceData) :
    (s.setIntf t f).inRegMask = s.inRegMask := by
  cases s
  rfl

@[simp] theorem St.setIntf_availUserDataCount (s : St) (t : ShaderStage) (f : InterfaceData → InterfaceData) :
    (s.setIntf t f).availUserDataCount = s.availUserDataCount := by
  cases s
  rfl

@[simp] theorem St.setIntf_requiredRemappedUserDataCount (s : St) (t : ShaderStage) (f : InterfaceData → InterfaceData) :
    (s.setIntf t f).requiredRemappedUserDataCount = s.requiredRemappedUserDataCount := by
  cases s
  rfl

@[simp] theorem St.setIntf_requiredUserDataCount (s : St) (t : ShaderStage) (f : InterfaceData → InterfaceData) :
    (s.setIntf t f).requiredUserDataCount = s.requiredUserDataCount := by
  cases s
  rfl

@[simp] theorem St.setIntf_reserveVbTable (s : St) (t : ShaderStage) (f : InterfaceData → InterfaceData) :
    (s.setIntf t f).reserveVbTable = s.reserveVbTable := by
  cases s
  rfl

@[simp] theorem St.setIntf_reserveStreamOutTable (s : St) (t : ShaderStage) (f : InterfaceData → InterfaceData) :
    (s.setIntf t f).reserveStreamOutTable = s.reserveStreamOutTable := by
  cases s
  rfl

@[simp] theorem St.setIntf_reserveEsGsLdsSize (s : St) (t : ShaderStage) (f : InterfaceData → InterfaceData) :
    (s.setIntf t f).reserveEsGsLdsSize = s.reserveEsGsLdsSize := by
  cases s
  rfl

@[simp] theorem St.setIntf_needSpill (s : St) (t : ShaderStage) (f : InterfaceData → InterfaceData) :
    (s.setIntf t f).needSpill = s.needSpill := by
  cases s
  rfl

@[simp] theorem St.setIntf_actualAvailUserDataCount (s : St) (t : ShaderStage) (f : InterfaceData → InterfaceData) :
    (s.setIntf t f).actualAvailUserDataCount = s.actualAvailUserDataCount := by
  cases s
  rfl

@[simp] theorem St.setIntf_neverCalled (s : St) (t : ShaderStage) (f : InterfaceData → InterfaceData) :
    (s.setIntf t f).neverCalled = s.neverCalled := by
  cases s
  rfl

@[simp] theorem St.setIntf_assertFailed (s : St) (t : ShaderStage) (f : InterfaceData → InterfaceData) :
    (s.setIntf t f).assertFailed = s.assertFailed := by
  cases s
  rfl

@[simp] theorem St.setIntf_undefinedBehavior (s : St) (t : ShaderStage) (f : InterfaceData → InterfaceData) :
    (s.setIntf t f).undefinedBehavior = s.undefinedBehavior := by
  cases s
  rfl

@[simp] theorem St.record_argIdx (s : St) (t : ShaderStage) (get : St → Nat) (set : Nat → InterfaceData → InterfaceData) :
    (s.record t get set).argIdx = s.argIdx := by
  cases s
  rfl

@[simp] theorem St.record_userDataIdx (s : St) (t : ShaderStage) (get : St → Nat) (set : Nat → InterfaceData → InterfaceData) :
    (s.record t get set).userDataIdx = s.userDataIdx := by
  cases s
  rfl

@[simp] theorem St.record_argTys (s : St) (t : ShaderStage) (get : St → Nat) (set : Nat → InterfaceData → InterfaceData) :
    (s.record t get set).argTys = s.argTys := by
  cases s
  rfl

@[simp] theorem St.record_inRegMask (s : St) (t : ShaderStage) (get : St → Nat) (set : Nat → InterfaceData → InterfaceData) :
    (s.record t get set).inRegMask = s.inRegMask := by
  cases s
  rfl

@[simp] theorem St.record_availUserDataCount (s : St) (t : ShaderStage) (get : St → Nat) (set : Nat → InterfaceData → InterfaceData) :
    (s.record t get set).availUserDataCount = s.availUserDataCount := by
  cases s
  rfl

@[simp] theorem St.record_requiredRemappedUserDataCount (s : St) (t : ShaderStage) (get : St → Nat) (set : Nat → InterfaceData → InterfaceData) :
    (s.record t get set).requiredRemappedUserDataCount = s.requiredRemappedUserDataCount := by
  cases s
  rfl

@[simp] theorem St.record_requiredUserDataCount (s : St) (t : ShaderStage) (get : St → Nat) (set : Nat → InterfaceData → InterfaceData) :
    (s.record t get set).requiredUserDataCount = s.requiredUserDataCount := by
  cases s
  rfl

@[simp] theorem St.record_reserveVbTable (s : St) (t : ShaderStage) (get : St → Nat) (set : Nat → InterfaceData → InterfaceData) :
    (s.record t get set).reserveVbTable = s.reserveVbTable := by
  cases s
  rfl

@[simp] theorem St.record_reserveStreamOutTable (s : St) (t : ShaderStage) (get : St → Nat) (set : Nat → InterfaceData → InterfaceData) :
    (s.record t get set).reserveStreamOutTable = s.reserveStreamOutTable := by
  cases s
  rfl

@[simp] theorem St.record_reserveEsGsLdsSize (s : St) (t : ShaderStage) (get : St → Nat) (set : Nat → InterfaceData → InterfaceData) :
    (s.record t get set).reserveEsGsLdsSize = s.reserveEsGsLdsSize := by
  cases s
  rfl

@[simp] theorem St.record_needSpill (s : St) (t : ShaderStage) (get : St → Nat) (set : Nat → InterfaceData → InterfaceData) :
    (s.record t get set).needSpill = s.needSpill := by
  cases s
  rfl

@[simp] theorem St.record_actualAvailUserDataCount (s : St) (t : ShaderStage) (get : St → Nat) (set : Nat → InterfaceData → InterfaceData) :
    (s.record t get set).actualAvailUserDataCount = s.actualAvailUserDataCount := by
  cases s
  rfl

@[simp] theorem St.record_neverCalled (s : St) (t : ShaderStage) (get : St → Nat) (set : Nat → InterfaceData → InterfaceData) :
    (s.record t get set).neverCalled = s.neverCalled := by
  cases s
  rfl

@[simp] theorem St.record_assertFailed (s : St) (t : ShaderStage) (get : St → Nat) (set : Nat → InterfaceData → InterfaceData) :
    (s.record t get set).assertFailed = s.assertFailed := by
  cases s
  rfl

@[simp] theorem St.record_undefinedBehavior (s : St) (t : ShaderStage) (get : St → Nat) (set : Nat → InterfaceData → InterfaceData) :
    (s.record t get set).undefinedBehavior = s.undefinedBehavior := by
  cases s
  rfl

@[simp] theorem St.never_argIdx (s : St) :
    (s.never).argIdx = s.argIdx := by
  cases s
  rfl

@[simp] theorem St.never_userDataIdx (s : St) :
    (s.never).userDataIdx = s.userDataIdx := by
  cases s
  rfl

@[simp] theorem St.never_argTys (s : St) :
    (s.never).argTys = s.argTys := by
  cases s
  rfl

@[simp] theorem St.never_inRegMask (s : St) :
    (s.never).inRegMask = s.inRegMask := by
  cases s
  rfl

@[simp] theorem St.never_intfData (s : St) :
    (s.never).intfData = s.intfData := by
  cases s
  rfl

@[simp] theorem St.never_availUserDataCount (s : St) :
    (s.never).availUserDataCount = s.availUserDataCount := by
  cases s
  rfl

@[simp] theorem St.never_requiredRemappedUserDataCount (s : St) :
    (s.never).requiredRemappedUserDataCount = s.requiredRemappedUserDataCount := by
  cases s
  rfl

@[simp] theorem St.never_requiredUserDataCount (s : St) :
    (s.never).requiredUserDataCount = s.requiredUserDataCount := by
  cases s
  rfl

@[simp] theorem St.never_reserveVbTable (s : St) :
    (s.never).reserveVbTable = s.reserveVbTable := by
  cases s
  rfl

@[simp] theorem St.never_reserveStreamOutTable (s : St) :
    (s.never).reserveStreamOutTable = s.reserveStreamOutTable := by
  cases s
  rfl

@[simp] theorem St.never_reserveEsGsLdsSize (s : St) :
    (s.never).reserveEsGsLdsSize = s.reserveEsGsLdsSize := by
  cases s
  rfl

@[simp] theorem St.never_needSpill (s : St) :
    (s.never).needSpill = s.needSpill := by
  cases s
  rfl

@[simp] theorem St.never_actualAvailUserDataCount (s : St) :
    (s.never).actualAvailUserDataCount = s.actualAvailUserDataCount := by
  cases s
  rfl

@[simp] theorem St.never_neverCalled (s : St) :
    (s.never).neverCalled = true := by
  cases s
  rfl

@[simp] theorem St.never_assertFailed (s : St) :
    (s.never).assertFailed = s.assertFailed := by
  cases s
  rfl

@[simp] theorem St.never_undefinedBehavior (s : St) :
    (s.never).undefinedBehavior = s.undefinedBehavior := by
  cases s
  rfl

@[simp] theorem St.assert_argIdx (s : St) (c : St → Bool) :
    (s.assert c).argIdx = s.argIdx := by
  unfold St.assert
  split <;> rfl

@[simp] theorem St.assert_userDataIdx (s : St) (c : St → Bool) :
    (s.assert c).userDataIdx = s.userDataIdx := by
  unfold St.assert
  split <;> rfl

@[simp] theorem St.assert_argTys (s : St) (c : St → Bool) :
    (s.assert c).argTys = s.argTys := by
  unfold St.assert
  split <;> rfl

@[simp] theorem St.assert_inRegMask (s : St) (c : St → Bool) :
    (s.assert c).inRegMask = s.inRegMask := by
  unfold St.assert
  split <;> rfl

@[simp] theorem St.assert_intfData (s : St) (c : St → Bool) :
    (s.assert c).intfData = s.intfData := by
  unfold St.assert
  split <;> rfl

@[simp] theorem St.assert_availUserDataCount (s : St) (c : St → Bool) :
    (s.assert c).availUserDataCount = s.availUserDataCount := by
  unfold St.assert
  split <;> rfl

@[simp] theorem St.assert_requiredRemappedUserDataCount (s : St) (c : St → Bool) :
    (s.assert c).requiredRemappedUserDataCount = s.requiredRemappedUserDataCount := by
  unfold St.assert
  split <;> rfl

@[simp] theorem St.assert_requiredUserDataCount (s : St) (c : St → Bool) :
    (s.assert c).requiredUserDataCount = s.requiredUserDataCount := by
  unfold St.assert
  split <;> rfl

@[simp] theorem St.assert_reserveVbTable (s : St) (c : St → Bool) :
    (s.assert c).reserveVbTable = s.reserveVbTable := by
  unfold St.assert
  split <;> rfl

@[simp] theorem St.assert_reserveStreamOutTable (s : St) (c : St → Bool) :
    (s.assert c).reserveStreamOutTable = s.reserveStreamOutTable := by
  unfold St.assert
  split <;> rfl

@[simp] theorem St.assert_reserveEsGsLdsSize (s : St) (c : St → Bool) :
    (s.assert c).reserveEsGsLdsSize = s.reserveEsGsLdsSize := by
  unfold St.assert
  split <;> rfl

@[simp] theorem St.assert_needSpill (s : St) (c : St → Bool) :
    (s.assert c).needSpill = s.needSpill := by
  unfold St.assert
  split <;> rfl

@[simp] theorem St.assert_actualAvailUserDataCount (s : St) (c : St → Bool) :
    (s.assert c).actualAvailUserDataCount = s.actualAvailUserDataCount := by
  unfold St.assert
  split <;> rfl

@[simp] theorem St.assert_neverCalled (s : St) (c : St → Bool) :
    (s.assert c).neverCalled = s.neverCalled := by
  unfold St.assert
  split <;> rfl

@[simp] theorem St.assert_assertFailed (s : St) (c : St → Bool) :
    (s.assert c).assertFailed = (s.assertFailed || !c s) := by
  unfold St.assert
  split <;> simp_all

@[simp] theorem St.assert_undefinedBehavior (s : St) (c : St → Bool) :
    (s.assert c).undefinedBehavior = s.undefinedBehavior := by
  unfold St.assert
  split <;> rfl

@[simp] theorem St.checkMap_argIdx (s : St) (len count : Nat) :
    (s.checkMap len count).argIdx = s.argIdx := by
  unfold St.checkMap
  split <;> rfl

@[simp] theorem St.checkMap_userDataIdx (s : St) (len count : Nat) :
    (s.checkMap len count).userDataIdx = s.userDataIdx := by
  unfold St.checkMap
  split <;> rfl

@[simp] theorem St.checkMap_argTys (s : St) (len count : Nat) :
    (s.checkMap len count).argTys = s.argTys := by
  unfold St.checkMap
  split <;> rfl

@[simp] theorem St.checkMap_inRegMask (s : St) (len count : Nat) :
    (s.checkMap len count).inRegMask = s.inRegMask := by
  unfold St.checkMap
  split <;> rfl

@[simp] theorem St.checkMap_intfData (s : St) (len count : Nat) :
    (s.checkMap len count).intfData = s.intfData := by
  unfold St.checkMap
  split <;> rfl

@[simp] theorem St.checkMap_availUserDataCount (s : St) (len count : Nat) :
    (s.checkMap len count).availUserDataCount = s.availUserDataCount := by
  unfold St.checkMap
  split <;> rfl

@[simp] theorem St.checkMap_requiredRemappedUserDataCount (s : St) (len count : Nat) :
    (s.checkMap len count).requiredRemappedUserDataCount = s.requiredRemappedUserDataCount := by
  unfold St.checkMap
  split <;> rfl

@[simp] theorem St.checkMap_requiredUserDataCount (s : St) (len count : Nat) :
    (s.checkMap len count).requiredUserDataCount = s.requiredUserDataCount := by
  unfold St.checkMap
  split <;> rfl

@[simp] theorem St.checkMap_reserveVbTable (s : St) (len count : Nat) :
    (s.checkMap len count).reserveVbTable = s.reserveVbTable := by
  unfold St.checkMap
  split <;> rfl

@[simp] theorem St.checkMap_reserveStreamOutTable (s : St) (len count : Nat) :
    (s.checkMap len count).reserveStreamOutTable = s.reserveStreamOutTable := by
  unfold St.checkMap
  split <;> rfl

@[simp] theorem St.checkMap_reserveEsGsLdsSize (s : St) (len count : Nat) :
    (s.checkMap len count).reserveEsGsLdsSize = s.reserveEsGsLdsSize := by
  unfold St.checkMap
  split <;> rfl

@[simp] theorem St.checkMap_needSpill (s : St) (len count : Nat) :
    (s.checkMap len count).needSpill = s.needSpill := by
  unfold St.checkMap
  split <;> rfl

@[simp] theorem St.checkMap_actualAvailUserDataCount (s : St) (len count : Nat) :
    (s.checkMap len count).actualAvailUserDataCount = s.actualAvailUserDataCount := by
  unfold St.checkMap
  split <;> rfl

@[simp] theorem St.checkMap_neverCalled (s : St) (len count : Nat) :
    (s.checkMap len count).neverCalled = s.neverCalled := by
  unfold St.checkMap
  split <;> rfl

@[simp] theorem St.checkMap_assertFailed (s : St) (len count : Nat) :
    (s.checkMap len count).assertFailed = s.assertFailed := by
  unfold St.checkMap
  split <;> rfl

@[simp] theorem St.checkMap_undefinedBehavior (s : St) (len count : Nat) :
    (s.checkMap len count).undefinedBehavior = (s.undefinedBehavior || !mapWritesInside len s.userDataIdx count) := by
  unfold St.checkMap
  split <;> simp_all

@[simp] theorem St.when_argIdx (s : St) (c : St → Bool) (body : St → St)
    (h : ∀ s, (body s).argIdx = s.argIdx) : (s.when c body).argIdx = s.argIdx := by
  unfold St.when
  split
  · exact h s
  · rfl

@[simp] theorem St.when_userDataIdx (s : St) (c : St → Bool) (body : St → St)
    (h : ∀ s, (body s).userDataIdx = s.userDataIdx) : (s.when c body).userDataIdx = s.userDataIdx := by
  unfold St.when
  split
  · exact h s
  · rfl

@[simp] theorem St.when_argTys (s : St) (c : St → Bool) (body : St → St)
    (h : ∀ s, (body s).argTys = s.argTys) : (s.when c body).argTys = s.argTys := by
  unfold St.when
  split
  · exact h s
  · rfl

@[simp] theorem St.when_inRegMask (s : St) (c : St → Bool) (body : St → St)
    (h : ∀ s, (body s).inRegMask = s.inRegMask) : (s.when c body).inRegMask = s.inRegMask := by
  unfold St.when
  split
  · exact h s
  · rfl

@[simp] theorem St.when_intfData (s : St) (c : St → Bool) (body : St → St)
    (h : ∀ s, (body s).intfData = s.intfData) : (s.when c body).intfData = s.intfData := by
  unfold St.when
  split
  · exact h s
  · rfl

@[simp] theorem St.when_availUserDataCount (s : St) (c : St → Bool) (body : St → St)
    (h : ∀ s, (body s).availUserDataCount = s.availUserDataCount) : (s.when c body).availUserDataCount = s.availUserDataCount := by
  unfold St.when
  split
  · exact h s
  · rfl

@[simp] theorem St.when_requiredRemappedUserDataCount (s : St) (c : St → Bool) (body : St → St)
    (h : ∀ s, (body s).requiredRemappedUserDataCount = s.requiredRemappedUserDataCount) : (s.when c body).requiredRemappedUserDataCount = s.requiredRemappedUserDataCount := by
  unfold St.when
  split
  · exact h s
  · rfl

@[simp] theorem St.when_requiredUserDataCount (s : St) (c : St → Bool) (body : St → St)
    (h : ∀ s, (body s).requiredUserDataCount = s.requiredUserDataCount) : (s.when c body).requiredUserDataCount = s.requiredUserDataCount := by
  unfold St.when
  split
  · exact h s
  · rfl

@[simp] theorem St.when_reserveVbTable (s : St) (c : St → Bool) (body : St → St)
    (h : ∀ s, (body s).reserveVbTable = s.reserveVbTable) : (s.when c body).reserveVbTable = s.reserveVbTable := by
  unfold St.when
  split
  · exact h s
  · rfl

@[simp] theorem St.when_reserveStreamOutTable (s : St) (c : St → Bool) (body : St → St)
    (h : ∀ s, (body s).reserveStreamOutTable = s.reserveStreamOutTable) : (s.when c body).reserveStreamOutTable = s.reserveStreamOutTable := by
  unfold St.when
  split
  · exact h s
  · rfl

@[simp] theorem St.when_reserveEsGsLdsSize (s : St) (c : St → Bool) (body : St → St)
    (h : ∀ s, (body s).reserveEsGsLdsSize = s.reserveEsGsLdsSize) : (s.when c body).reserveEsGsLdsSize = s.reserveEsGsLdsSize := by
  unfold St.when
  split
  · exact h s
  · rfl

@[simp] theorem St.when_needSpill (s : St) (c : St → Bool) (body : St → St)
    (h : ∀ s, (body s).needSpill = s.needSpill) : (s.when c body).needSpill = s.needSpill := by
  unfold St.when
  split
  · exact h s
  · rfl

@[simp] theorem St.when_actualAvailUserDataCount (s : St) (c : St → Bool) (body : St → St)
    (h : ∀ s, (body s).actualAvailUserDataCount = s.actualAvailUserDataCount) : (s.when c body).actualAvailUserDataCount = s.actualAvailUserDataCount := by
  unfold St.when
  split
  · exact h s
  · rfl

@[simp] theorem St.when_neverCalled (s : St) (c : St → Bool) (body : St → St)
    (h : ∀ s, (body s).neverCalled = s.neverCalled) : (s.when c body).neverCalled = s.neverCalled := by
  unfold St.when
  split
  · exact h s
  · rfl

@[simp] theorem St.when_assertFailed (s : St) (c : St → Bool) (body : St → St)
    (h : ∀ s, (body s).assertFailed = s.assertFailed) : (s.when c body).assertFailed = s.assertFailed := by
  unfold St.when
  split
  · exact h s
  · rfl

@[simp] theorem St.when_undefinedBehavior (s : St) (c : St → Bool) (body : St → St)
    (h : ∀ s, (body s).undefinedBehavior = s.undefinedBehavior) : (s.when c body).undefinedBehavior = s.undefinedBehavior := by
  unfold St.when
  split
  · exact h s
  · rfl

/-! ## Frame lemmas of the primitive statements -/

theorem St.setIntf_proj {α : Type} (π : InterfaceData → α) (s : St) (t u : ShaderStage)
    (f : InterfaceData → InterfaceData) (h : ∀ d, π (f d) = π d) :
    π ((s.setIntf t f).intfData u) = π (s.intfData u) := by
  unfold St.setIntf
  by_cases hu : u = t <;> simp [hu, h]

theorem St.setIntf_intfData_same (s : St) (t : ShaderStage) (f : InterfaceData → InterfaceData) :
    (s.setIntf t f).intfData t = f (s.intfData t) := by
  simp [St.setIntf]

theorem St.setIntf_intfData_other (s : St) (t u : ShaderStage)
    (f : InterfaceData → InterfaceData) (h : u ≠ t) :
    (s.setIntf t f).intfData u = s.intfData u := by
  simp [St.setIntf, h]

theorem St.record_intfData_same (s : St) (t : ShaderStage) (get : St → Nat)
    (set : Nat → InterfaceData → InterfaceData) :
    (s.record t get set).intfData t = set (get s) (s.intfData t) := by
  simp [St.record, St.setIntf]

@[simp] theorem St.setIntf_spillTable (s : St) (t u : ShaderStage)
    (f : InterfaceData → InterfaceData) (h : ∀ d, (f d).spillTable = d.spillTable) :
    ((s.setIntf t f).intfData u).spillTable = (s.intfData u).spillTable :=
  St.setIntf_proj (fun d => d.spillTable) s t u f h

@[simp] theorem St.record_spillTable (s : St) (t u : ShaderStage) (get : St → Nat)
    (set : Nat → InterfaceData → InterfaceData)
    (h : ∀ a d, (set a d).spillTable = d.spillTable) :
    ((s.record t get set).intfData u).spillTable = (s.intfData u).spillTable :=
  St.setIntf_proj (fun d => d.spillTable) s t u _ (h _)

@[simp] theorem St.setIntf_resNodeValues (s : St) (t u : ShaderStage)
    (f : InterfaceData → InterfaceData)
    (h : ∀ d, (f d).entryArgIdxs.resNodeValues = d.entryArgIdxs.resNodeValues) :
    ((s.setIntf t f).intfData u).entryArgIdxs.resNodeValues
      = (s.intfData u).entryArgIdxs.resNodeValues :=
  St.setIntf_proj (fun d => d.entryArgIdxs.resNodeValues) s t u f h

@[simp] theorem St.record_resNodeValues (s : St) (t u : ShaderStage) (get : St → Nat)
    (set : Nat → InterfaceData → InterfaceData)
    (h : ∀ a d, (set a d).entryArgIdxs.resNodeValues = d.entryArgIdxs.resNodeValues) :
    ((s.record t get set).intfData u).entryArgIdxs.resNodeValues
      = (s.intfData u).entryArgIdxs.resNodeValues :=
  St.setIntf_proj (fun d => d.entryArgIdxs.resNodeValues) s t u _ (h _)

@[simp] theorem St.setIntf_userDataCount (s : St) (t u : ShaderStage)
    (f : InterfaceData → InterfaceData) (h : ∀ d, (f d).userDataCount = d.userDataCount) :
    ((s.setIntf t f).intfData u).userDataCount = (s.intfData u).userDataCount :=
  St.setIntf_proj (fun d => d.userDataCount) s t u f h

@[simp] theorem St.record_userDataCount (s : St) (t u : ShaderStage) (get : St → Nat)
    (set : Nat → InterfaceData → InterfaceData)
    (h : ∀ a d, (set a d).userDataCount = d.userDataCount) :
    ((s.record t get set).intfData u).userDataCount = (s.intfData u).userDataCount :=
  St.setIntf_proj (fun d => d.userDataCount) s t u _ (h _)

theorem St.when_proj {α : Type} (π : St → α) (s : St) (c : St → Bool) (body : St → St)
    (h : ∀ s, π (body s) = π s) : π (s.when c body) = π s := by
  unfold St.when
  split
  · exact h s
  · rfl

@[simp] theorem St.when_spillTable (s : St) (u : ShaderStage) (c : St → Bool)
    (body : St → St) (h : ∀ s, ((body s).intfData u).spillTable = (s.intfData u).spillTable) :
    ((s.when c body).intfData u).spillTable = (s.intfData u).spillTable :=
  St.when_proj (fun s => (s.intfData u).spillTable) s c body h

@[simp] theorem St.when_resNodeValues (s : St) (u : ShaderStage) (c : St → Bool)
    (body : St → St)
    (h : ∀ s, ((body s).intfData u).entryArgIdxs.resNodeValues
      = (s.intfData u).entryArgIdxs.resNodeValues) :
    ((s.when c body).intfData u).entryArgIdxs.resNodeValues
      = (s.intfData u).entryArgIdxs.resNodeValues :=
  St.when_proj (fun s => (s.intfData u).entryArgIdxs.resNodeValues) s c body h

@[simp] theorem St.when_userDataCount (s : St) (u : ShaderStage) (c : St → Bool)
    (body : St → St)
    (h : ∀ s, ((body s).intfData u).userDataCount = (s.intfData u).userDataCount) :
    ((s.when c body).intfData u).userDataCount = (s.intfData u).userDataCount :=
  St.when_proj (fun s => (s.intfData u).userDataCount) s c body h

theorem St.sgprArg_eq (s : St) (stage : ShaderStage) (ty : ArgTy)
    (set : Nat → InterfaceData → InterfaceData) :
    s.sgprArg stage ty set = ((s.push ty).record stage St.argIdx set).inRegNext := rfl

theorem St.vgprArg_eq (s : St) (stage : ShaderStage) (ty : ArgTy)
    (set : Nat → InterfaceData → InterfaceData) :
    s.vgprArg stage ty set = ((s.push ty).record stage St.argIdx set).argNext := rfl

/-! ## Loops over the node list -/

theorem forNodes_append (body : Nat → ResourceNode → St → St) (i : Nat)
    (l₁ l₂ : List ResourceNode) (s : St) :
    forNodes body i (l₁ ++ l₂) s = forNodes body (i + l₁.length) l₂ (forNodes body i l₁ s) := by
  induction l₁ generalizing i s with
  | nil => simp [forNodes]
  | cons n l ih =>
    show forNodes body (i + 1) (l ++ l₂) (body i n s) = _
    rw [ih]
    simp only [List.length_cons, forNodes]
    congr 1
    omega

theorem forNodes_frame {α : Type} (π : St → α) (body : Nat → ResourceNode → St → St)
    (h : ∀ i n s, π (body i n s) = π s) (i : Nat) (l : List ResourceNode) (s : St) :
    π (forNodes body i l s) = π s := by
  induction l generalizing i s with
  | nil => rfl
  | cons n l ih => simp only [forNodes]; rw [ih, h]

theorem forNodes_inv (P : St → Prop) (body : Nat → ResourceNode → St → St)
    (h : ∀ i n s, P s → P (body i n s)) (i : Nat) (l : List ResourceNode) (s : St)
    (hs : P s) : P (forNodes body i l s) := by
  induction l generalizing i s with
  | nil => exact hs
  | cons n l ih => simp only [forNodes]; exact ih _ _ (h _ _ _ hs)

theorem forNodes_back (P : St → Prop) (body : Nat → ResourceNode → St → St)
    (h : ∀ i n s, P (body i n s) → P s) (i : Nat) (l : List ResourceNode) (s : St)
    (hs : P (forNodes body i l s)) : P s := by
  induction l generalizing i s with
  | nil => exact hs
  | cons n l ih => simp only [forNodes] at hs; exact h _ _ _ (ih _ _ hs)

theorem firstNodeOfType_frame {α : Type} (π : St → α) (ty : ResourceMappingNodeType)
    (body : ResourceNode → St → St) (h : ∀ n s, π (body n s) = π s)
    (l : List ResourceNode) (s : St) :
    π (firstNodeOfType ty body l s) = π s := by
  induction l with
  | nil => rfl
  | cons n l ih =>
    simp only [firstNodeOfType]
    split
    · exact h _ _
    · exact ih

theorem firstNodeOfType_back (P : St → Prop) (ty : ResourceMappingNodeType)
    (body : ResourceNode → St → St) (h : ∀ n s, P (body n s) → P s)
    (l : List ResourceNode) (s : St) (hs : P (firstNodeOfType ty body l s)) : P s := by
  induction l with
  | nil => exact hs
  | cons n l ih =>
    simp only [firstNodeOfType] at hs
    split at hs
    · exact h _ _ hs
    · exact ih hs

theorem firstNodeOfType_none (ty : ResourceMappingNodeType) (body : ResourceNode → St → St)
    (l : List ResourceNode) (s : St) (h : ∀ n ∈ l, n.type ≠ ty) :
    firstNodeOfType ty body l s = s := by
  induction l with
  | nil => rfl
  | cons n l ih =>
    simp only [firstNodeOfType]
    rw [if_neg (h n (List.mem_cons_self _ _))]
    exact ih (fun m hm => h m (List.mem_cons_of_mem _ hm))

theorem streamOffsetArgs_frame {α : Type} (π : St → α) (stage : ShaderStage)
    (record : Nat → Nat → InterfaceData → InterfaceData)
    (h : ∀ i s, π (((s.push .Int32Ty).record stage St.argIdx (record i)).inRegNext) = π s)
    (i : Nat) (l : List Nat) (s : St) :
    π (streamOffsetArgs stage record i l s) = π s := by
  induction l generalizing i s with
  | nil => rfl
  | cons x l ih =>
    simp only [streamOffsetArgs]
    rw [ih]
    exact St.when_proj π s _ _ (fun s => h i s)

theorem fillDummies_frame {α : Type} (π : St → α) (ctx : Context) (off : Nat)
    (h : ∀ s, π ((((s.push .Int32Ty).inRegNext).userDataNext 1).consume 1) = π s)
    (fuel : Nat) (s : St) :
    π (fillDummies ctx off fuel s) = π s := by
  induction fuel generalizing s with
  | zero => rfl
  | succ k ih =>
    simp only [fillDummies]
    split
    · rw [ih, h]
    · rfl

theorem fillToSpill_frame {α : Type} (π : St → α) (ctx : Context)
    (h : ∀ s, π (((s.push .Int32Ty).inRegNext).userDataNext 1) = π s)
    (fuel : Nat) (s : St) :
    π (fillToSpill ctx fuel s) = π s := by
  induction fuel generalizing s with
  | zero => rfl
  | succ k ih =>
    simp only [fillToSpill]
    split
    · rw [ih, h]
    · rfl

/-! ## The decided locals and the failure flags behind a primitive statement -/

@[simp] theorem St.push_decided (s : St) (ty : ArgTy) : (s.push ty).decided = s.decided := by
  cases s
  rfl

@[simp] theorem St.inReg_decided (s : St) : s.inReg.decided = s.decided := by
  cases s
  rfl

@[simp] theorem St.argNext_decided (s : St) : s.argNext.decided = s.decided := by
  cases s
  rfl

@[simp] theorem St.inRegNext_decided (s : St) : s.inRegNext.decided = s.decided := by
  cases s
  rfl

@[simp] theorem St.consume_decided (s : St) (n : Nat) : (s.consume n).decided = s.decided := by
  cases s
  rfl

@[simp] theorem St.userDataNext_decided (s : St) (n : Nat) :
    (s.userDataNext n).decided = s.decided := by
  cases s
  rfl

@[simp] theorem St.setIntf_decided (s : St) (t : ShaderStage)
    (f : InterfaceData → InterfaceData) : (s.setIntf t f).decided = s.decided := by
  cases s
  rfl

@[simp] theorem St.record_decided (s : St) (t : ShaderStage) (get : St → Nat)
    (set : Nat → InterfaceData → InterfaceData) : (s.record t get set).decided = s.decided := by
  cases s
  rfl

@[simp] theorem St.never_decided (s : St) : s.never.decided = s.decided := by
  cases s
  rfl

@[simp] theorem St.assert_decided (s : St) (c : St → Bool) :
    (s.assert c).decided = s.decided := by
  simp [St.decided]

@[simp] theorem St.checkMap_decided (s : St) (len count : Nat) :
    (s.checkMap len count).decided = s.decided := by
  simp [St.decided]

@[simp] theorem St.push_ok (s : St) (ty : ArgTy) : (s.push ty).ok = s.ok := by
  cases s
  rfl

@[simp] theorem St.inReg_ok (s : St) : s.inReg.ok = (s.ok && decide (s.argIdx < 64)) := by
  simp only [St.ok, St.inReg_neverCalled, St.inReg_assertFailed, St.inReg_undefinedBehavior]
  have h : decide (64 ≤ s.argIdx) = !decide (s.argIdx < 64) := by
    rcases Nat.lt_or_ge s.argIdx 64 with h | h
    · simp [h, Nat.not_le.mpr h]
    · simp [h, Nat.not_lt.mpr h]
  rw [h]
  cases s.neverCalled <;> cases s.assertFailed <;> cases s.undefinedBehavior <;> simp

@[simp] theorem St.argNext_ok (s : St) : s.argNext.ok = s.ok := by
  cases s
  rfl

@[simp] theorem St.inRegNext_ok (s : St) :
    s.inRegNext.ok = (s.ok && decide (s.argIdx < 64)) := by
  simp [St.inRegNext]

@[simp] theorem St.consume_ok (s : St) (n : Nat) : (s.consume n).ok = s.ok := by
  cases s
  rfl

@[simp] theorem St.userDataNext_ok (s : St) (n : Nat) : (s.userDataNext n).ok = s.ok := by
  cases s
  rfl

@[simp] theorem St.setIntf_ok (s : St) (t : ShaderStage) (f : InterfaceData → InterfaceData) :
    (s.setIntf t f).ok = s.ok := by
  cases s
  rfl

@[simp] theorem St.record_ok (s : St) (t : ShaderStage) (get : St → Nat)
    (set : Nat → InterfaceData → InterfaceData) : (s.record t get set).ok = s.ok := by
  cases s
  rfl

@[simp] theorem St.never_ok (s : St) : s.never.ok = false := by
  simp [St.ok]

@[simp] theorem St.assert_ok (s : St) (c : St → Bool) : (s.assert c).ok = (s.ok && c s) := by
  simp only [St.ok, St.assert_neverCalled, St.assert_assertFailed,
    St.assert_undefinedBehavior]
  cases s.neverCalled <;> cases s.assertFailed <;> cases s.undefinedBehavior <;>
    cases c s <;> simp

@[simp] theorem St.checkMap_ok (s : St) (len count : Nat) :
    (s.checkMap len count).ok = (s.ok && mapWritesInside len s.userDataIdx count) := by
  simp only [St.ok, St.checkMap_neverCalled, St.checkMap_assertFailed,
    St.checkMap_undefinedBehavior]
  cases s.neverCalled <;> cases s.assertFailed <;> cases s.undefinedBehavior <;>
    cases mapWritesInside len s.userDataIdx count <;> simp

@[simp] theorem St.when_decided (s : St) (c : St → Bool) (body : St → St)
    (h : ∀ s, (body s).decided = s.decided) : (s.when c body).decided = s.decided :=
  St.when_proj St.decided s c body h

/-! ## The decided locals behind the blocks that follow the spill decision -/

theorem allocStreamOutNode_decided (stage : ShaderStage) (n : ResourceNode) (s : St) :
    (allocStreamOutNode stage n s).decided = s.decided := by
  cases stage <;> simp [allocStreamOutNode]

@[simp] theorem allocStreamOut_decided (ctx : Context) (stage : ShaderStage) (s : St) :
    (allocStreamOut ctx stage s).decided = s.decided := by
  unfold allocStreamOut
  split
  · exact firstNodeOfType_frame St.decided _ _ (allocStreamOutNode_decided stage) _ _
  · rfl

@[simp] theorem fillDummies_decided (ctx : Context) (off fuel : Nat) (s : St) :
    (fillDummies ctx off fuel s).decided = s.decided :=
  fillDummies_frame St.decided ctx off (fun s => by simp) fuel s

@[simp] theorem padNode_decided (ctx : Context) (stage : ShaderStage) (n : ResourceNode)
    (s : St) : (padNode ctx stage n s).decided = s.decided := by
  unfold padNode
  split <;> simp

@[simp] theorem assignNode_decided (ctx : Context) (stage : ShaderStage) (i : Nat)
    (n : ResourceNode) (s : St) : (assignNode ctx stage i n s).decided = s.decided := by
  unfold assignNode
  split <;> simp

@[simp] theorem packNode_decided (ctx : Context) (stage : ShaderStage) (i : Nat)
    (n : ResourceNode) (s : St) : (packNode ctx stage i n s).decided = s.decided := by
  unfold packNode
  dsimp only
  split_ifs <;> simp

@[simp] theorem forNodes_packNode_decided (ctx : Context) (stage : ShaderStage) (i : Nat)
    (l : List ResourceNode) (s : St) :
    (forNodes (packNode ctx stage) i l s).decided = s.decided :=
  forNodes_frame St.decided _ (fun _ _ _ => packNode_decided ..) i l s

@[simp] theorem fillToSpill_decided (ctx : Context) (fuel : Nat) (s : St) :
    (fillToSpill ctx fuel s).decided = s.decided :=
  fillToSpill_frame St.decided ctx (fun s => by simp) fuel s

@[simp] theorem fixedSpill_decided (ctx : Context) (stage : ShaderStage) (s : St) :
    (fixedSpill ctx stage s).decided = s.decided := by
  unfold fixedSpill
  split <;> simp

theorem vbTableNode_decided (cur : ShaderStage) (n : ResourceNode) (s : St) :
    (vbTableNode cur n s).decided = s.decided := by
  simp [vbTableNode]

@[simp] theorem firstNodeOfType_vbTableNode_decided (cur : ShaderStage)
    (l : List ResourceNode) (s : St) :
    (firstNodeOfType .IndirectUserDataVaPtr (vbTableNode cur) l s).decided = s.decided :=
  firstNodeOfType_frame St.decided _ _ (vbTableNode_decided cur) _ _

@[simp] theorem specialUserData_decided (ctx : Context) (stage : ShaderStage) (s : St) :
    (specialUserData ctx stage s).decided = s.decided := by
  cases stage <;> simp [specialUserData]

@[simp] theorem greedySpill_decided (stage : ShaderStage) (s : St) :
    (greedySpill stage s).decided = s.decided := by
  simp [greedySpill]

@[simp] theorem streamOffsetArgs_decided (stage : ShaderStage)
    (record : Nat → Nat → InterfaceData → InterfaceData) (i : Nat) (l : List Nat) (s : St) :
    (streamOffsetArgs stage record i l s).decided = s.decided :=
  streamOffsetArgs_frame St.decided stage record (fun _ s => by simp) i l s

@[simp] theorem systemValues_decided (ctx : Context) (stage : ShaderStage) (s : St) :
    (systemValues ctx stage s).decided = s.decided := by
  cases stage <;>
    simp only [systemValues, systemValuesVs, systemValuesTcs, systemValuesTes, systemValuesGs,
      systemValuesFs, systemValuesCs] <;> (try split_ifs) <;>
    simp [St.sgprArg_eq, St.vgprArg_eq]

/-! ## The spill table behind the blocks -/

@[simp] theorem St.setIntf_spillSize (s : St) (t u : ShaderStage)
    (f : InterfaceData → InterfaceData)
    (h : ∀ d, (f d).spillTable.sizeInDwords = d.spillTable.sizeInDwords) :
    ((s.setIntf t f).intfData u).spillTable.sizeInDwords
      = (s.intfData u).spillTable.sizeInDwords :=
  St.setIntf_proj (fun d => d.spillTable.sizeInDwords) s t u f h

@[simp] theorem St.record_spillSize (s : St) (t u : ShaderStage) (get : St → Nat)
    (set : Nat → InterfaceData → InterfaceData)
    (h : ∀ a d, (set a d).spillTable.sizeInDwords = d.spillTable.sizeInDwords) :
    ((s.record t get set).intfData u).spillTable.sizeInDwords
      = (s.intfData u).spillTable.sizeInDwords :=
  St.setIntf_proj (fun d => d.spillTable.sizeInDwords) s t u _ (h _)

@[simp] theorem St.setIntf_spillOffset (s : St) (t u : ShaderStage)
    (f : InterfaceData → InterfaceData)
    (h : ∀ d, (f d).spillTable.offsetInDwords = d.spillTable.offsetInDwords) :
    ((s.setIntf t f).intfData u).spillTable.offsetInDwords
      = (s.intfData u).spillTable.offsetInDwords :=
  St.setIntf_proj (fun d => d.spillTable.offsetInDwords) s t u f h

@[simp] theorem St.record_spillOffset (s : St) (t u : ShaderStage) (get : St → Nat)
    (set : Nat → InterfaceData → InterfaceData)
    (h : ∀ a d, (set a d).spillTable.offsetInDwords = d.spillTable.offsetInDwords) :
    ((s.record t get set).intfData u).spillTable.offsetInDwords
      = (s.intfData u).spillTable.offsetInDwords :=
  St.setIntf_proj (fun d => d.spillTable.offsetInDwords) s t u _ (h _)

@[simp] theorem systemValues_spillTable (ctx : Context) (stage u : ShaderStage) (s : St) :
    ((systemValues ctx stage s).intfData u).spillTable = (s.intfData u).spillTable := by
  have hso : ∀ (record : Nat → Nat → InterfaceData → InterfaceData),
      (∀ i a d, (record i a d).spillTable = d.spillTable) → ∀ i l s,
      ((streamOffsetArgs stage record i l s).intfData u).spillTable
        = (s.intfData u).spillTable := by
    intro record h i l s
    exact streamOffsetArgs_frame (fun s => (s.intfData u).spillTable) stage record
      (fun i s => by simp [h]) i l s
  cases stage <;>
    simp only [systemValues, systemValuesVs, systemValuesTcs, systemValuesTes, systemValuesGs,
      systemValuesFs, systemValuesCs] <;> (try split_ifs) <;>
    simp [St.sgprArg_eq, St.vgprArg_eq, hso]

@[simp] theorem specialUserData_spillTable (ctx : Context) (stage u : ShaderStage) (s : St) :
    ((specialUserData ctx stage s).intfData u).spillTable = (s.intfData u).spillTable := by
  have hvb : ∀ cur l s,
      ((firstNodeOfType .IndirectUserDataVaPtr (vbTableNode cur) l s).intfData u).spillTable
        = (s.intfData u).spillTable := by
    intro cur l s
    exact firstNodeOfType_frame (fun s => (s.intfData u).spillTable) _ _
      (fun n s => by simp [vbTableNode]) l s
  cases stage
  case Compute =>
    simp only [specialUserData]
    refine St.when_proj (fun s => (s.intfData u).spillTable) _ _ _ (fun s => ?_)
    simp
  all_goals simp [specialUserData, hvb]

theorem allocStreamOutNode_spillTable (stage u : ShaderStage) (n : ResourceNode) (s : St) :
    ((allocStreamOutNode stage n s).intfData u).spillTable = (s.intfData u).spillTable := by
  cases stage <;> simp [allocStreamOutNode]

@[simp] theorem allocStreamOut_spillTable (ctx : Context) (stage u : ShaderStage) (s : St) :
    ((allocStreamOut ctx stage s).intfData u).spillTable = (s.intfData u).spillTable := by
  unfold allocStreamOut
  split
  · exact firstNodeOfType_frame (fun s => (s.intfData u).spillTable) _ _
      (allocStreamOutNode_spillTable stage u) _ _
  · rfl

@[simp] theorem reserveSpecial_intfData (ctx : Context) (stage : ShaderStage) (s : St) :
    (reserveSpecial ctx stage s).intfData = s.intfData := by
  cases stage <;> simp [reserveSpecial]

theorem scanNode_spillTable (ctx : Context) (stage u : ShaderStage) (i : Nat)
    (n : ResourceNode) (s : St) :
    ((scanNode ctx stage i n s).intfData u).spillTable = (s.intfData u).spillTable := by
  unfold scanNode
  dsimp only
  split_ifs <;> simp

@[simp] theorem scanNodes_spillTable (ctx : Context) (stage u : ShaderStage) (s : St) :
    ((scanNodes ctx stage s).intfData u).spillTable = (s.intfData u).spillTable :=
  forNodes_frame (fun s => (s.intfData u).spillTable) _
    (fun _ _ _ => scanNode_spillTable ..) _ _ _

@[simp] theorem initState_spillTable (ctx : Context) (stage u : ShaderStage)
    (intfData : ShaderStage → InterfaceData) (inRegMask : Nat) :
    ((initState ctx stage intfData inRegMask).intfData u).spillTable
      = (intfData u).spillTable := by
  simp [initState]

@[simp] theorem decideSpill_spillSize (ctx : Context) (stage u : ShaderStage) (s : St) :
    ((decideSpill ctx stage s).intfData u).spillTable.sizeInDwords
      = (s.intfData u).spillTable.sizeInDwords := by
  unfold decideSpill
  split
  · simp
  · simp

@[simp] theorem fillDummies_intfData (ctx : Context) (off fuel : Nat) (s : St) :
    (fillDummies ctx off fuel s).intfData = s.intfData :=
  fillDummies_frame St.intfData ctx off (fun s => by simp) fuel s

@[simp] theorem padNode_intfData (ctx : Context) (stage : ShaderStage) (n : ResourceNode)
    (s : St) : (padNode ctx stage n s).intfData = s.intfData := by
  unfold padNode
  split <;> simp

@[simp] theorem assignNode_spillTable (ctx : Context) (stage u : ShaderStage) (i : Nat)
    (n : ResourceNode) (s : St) :
    ((assignNode ctx stage i n s).intfData u).spillTable = (s.intfData u).spillTable := by
  unfold assignNode
  split <;> simp

theorem packNode_spillSize (ctx : Context) (stage u : ShaderStage) (i : Nat)
    (n : ResourceNode) (s : St) :
    ((packNode ctx stage i n s).intfData u).spillTable.sizeInDwords
      = (s.intfData u).spillTable.sizeInDwords := by
  unfold packNode
  dsimp only
  split_ifs <;> simp

@[simp] theorem packNodes_spillSize (ctx : Context) (stage u : ShaderStage) (s : St) :
    ((packNodes ctx stage s).intfData u).spillTable.sizeInDwords
      = (s.intfData u).spillTable.sizeInDwords :=
  forNodes_frame (fun s => (s.intfData u).spillTable.sizeInDwords) _
    (fun _ _ _ => packNode_spillSize ..) _ _ _

@[simp] theorem fillToSpill_intfData (ctx : Context) (fuel : Nat) (s : St) :
    (fillToSpill ctx fuel s).intfData = s.intfData :=
  fillToSpill_frame St.intfData ctx (fun s => by simp) fuel s

@[simp] theorem fixedSpill_spillOffset (ctx : Context) (stage u : ShaderStage) (s : St) :
    ((fixedSpill ctx stage s).intfData u).spillTable.offsetInDwords
      = (s.intfData u).spillTable.offsetInDwords := by
  unfold fixedSpill
  split <;> simp

@[simp] theorem greedySpill_spillOffset (stage u : ShaderStage) (s : St) :
    ((greedySpill stage s).intfData u).spillTable.offsetInDwords
      = (s.intfData u).spillTable.offsetInDwords := by
  unfold greedySpill
  simp only [St.record_spillOffset, implies_true]
  exact St.when_proj (fun s => (s.intfData u).spillTable.offsetInDwords) _ _ _
    (fun s => by simp)

/-! ## The first loop and the spill decision -/

theorem u32_lt (n : Nat) : u32 n < 4294967296 := by
  unfold u32
  omega

theorem u32_of_lt {n : Nat} (h : n < 4294967296) : u32 n = n := by
  unfold u32
  omega

theorem u32_u32_add (a b : Nat) : u32 (u32 a + b) = u32 (a + b) := by
  unfold u32
  omega

theorem isPacked_eq_true_iff (ctx : Context) (stage : ShaderStage) (n : ResourceNode) :
    isPacked ctx stage n = true ↔
      n.type ≠ .IndirectUserDataVaPtr ∧ n.type ≠ .StreamOutTableVaPtr ∧
        IsResourceNodeActive ctx stage n true = true := by
  simp [isPacked, and_assoc]

theorem scanNode_of_packed (ctx : Context) (stage : ShaderStage) (i : Nat) (n : ResourceNode)
    (s : St) (h : isPacked ctx stage n = true) :
    (scanNode ctx stage i n s).requiredRemappedUserDataCount
        = u32 (s.requiredRemappedUserDataCount + n.sizeInDwords) ∧
      (scanNode ctx stage i n s).requiredUserDataCount
        = max s.requiredUserDataCount (endInDwords n) := by
  obtain ⟨h1, h2, h3⟩ := (isPacked_eq_true_iff ctx stage n).mp h
  unfold scanNode
  rw [if_neg h1, if_neg h2, if_neg (by simp [h3])]
  dsimp only
  split <;> simp [endInDwords]

theorem scanNode_of_not_packed (ctx : Context) (stage : ShaderStage) (i : Nat)
    (n : ResourceNode) (s : St) (h : isPacked ctx stage n = false) :
    (scanNode ctx stage i n s).requiredRemappedUserDataCount
        = s.requiredRemappedUserDataCount ∧
      (scanNode ctx stage i n s).requiredUserDataCount = s.requiredUserDataCount := by
  unfold scanNode
  by_cases h1 : n.type = .IndirectUserDataVaPtr
  · simp only [h1, if_true]
    split_ifs <;> simp
  · by_cases h2 : n.type = .StreamOutTableVaPtr
    · simp only [h1, h2, if_true, if_false]
      split_ifs <;> simp
    · have h3 : IsResourceNodeActive ctx stage n true = false := by
        simpa [isPacked, h1, h2] using h
      simp [h1, h2, h3]

theorem forNodes_scanNode_required (ctx : Context) (stage : ShaderStage) (i : Nat)
    (l : List ResourceNode) (s : St) :
    (forNodes (scanNode ctx stage) i l s).requiredRemappedUserDataCount
        = u32 (s.requiredRemappedUserDataCount
            + ((l.filter (isPacked ctx stage)).map ResourceNode.sizeInDwords).sum)
          ∨ (l.filter (isPacked ctx stage) = [] ∧
            (forNodes (scanNode ctx stage) i l s).requiredRemappedUserDataCount
              = s.requiredRemappedUserDataCount) := by
  induction l generalizing i s with
  | nil => right; exact ⟨rfl, rfl⟩
  | cons n l ih =>
    simp only [forNodes]
    by_cases h : isPacked ctx stage n = true
    · left
      have hn := (scanNode_of_packed ctx stage i n s h).1
      rcases ih (i + 1) (scanNode ctx stage i n s) with h1 | ⟨h1, h2⟩
      · rw [h1, hn, List.filter_cons_of_pos h]
        simp only [List.map_cons, List.sum_cons]
        rw [u32_u32_add, Nat.add_assoc]
      · rw [h2, hn, List.filter_cons_of_pos h, h1]
        simp
    · have h' : isPacked ctx stage n = false := by simpa using h
      have hn := (scanNode_of_not_packed ctx stage i n s h').1
      rw [List.filter_cons_of_neg h]
      rcases ih (i + 1) (scanNode ctx stage i n s) with h1 | ⟨h1, h2⟩
      · left; rw [h1, hn]
      · right; exact ⟨h1, by rw [h2, hn]⟩

theorem forNodes_scanNode_maxEnd (ctx : Context) (stage : ShaderStage) (i : Nat)
    (l : List ResourceNode) (s : St) :
    (forNodes (scanNode ctx stage) i l s).requiredUserDataCount
      = max s.requiredUserDataCount (maxOfEnds (l.filter (isPacked ctx stage))) := by
  induction l generalizing i s with
  | nil => simp [forNodes, maxOfEnds]
  | cons n l ih =>
    simp only [forNodes]
    rw [ih]
    by_cases h : isPacked ctx stage n = true
    · rw [(scanNode_of_packed ctx stage i n s h).2, List.filter_cons_of_pos h]
      simp only [maxOfEnds, List.map_cons, List.foldr_cons]
      rw [max_assoc]
    · have h' : isPacked ctx stage n = false := by simpa using h
      rw [(scanNode_of_not_packed ctx stage i n s h').2, List.filter_cons_of_neg h]

theorem initState_requiredRemapped (ctx : Context) (stage : ShaderStage)
    (intfData : ShaderStage → InterfaceData) (inRegMask : Nat) :
    (initState ctx stage intfData inRegMask).requiredRemappedUserDataCount = 0 := by
  simp [initState]

theorem initState_required (ctx : Context) (stage : ShaderStage)
    (intfData : ShaderStage → InterfaceData) (inRegMask : Nat) :
    (initState ctx stage intfData inRegMask).requiredUserDataCount = 0 := by
  simp [initState]

theorem afterScan_requiredRemapped (ctx : Context) (stage : ShaderStage)
    (intfData : ShaderStage → InterfaceData) (inRegMask : Nat) :
    (afterScan ctx stage intfData inRegMask).requiredRemappedUserDataCount
      = sumOfSizes ctx stage := by
  unfold afterScan scanNodes sumOfSizes packedNodes
  rcases forNodes_scanNode_required ctx stage 0 ctx.userDataNodes
      (initState ctx stage intfData inRegMask) with h | ⟨h1, h2⟩
  · rw [h, initState_requiredRemapped, Nat.zero_add]
  · rw [h2, initState_requiredRemapped, h1]
    rfl

theorem afterScan_required (ctx : Context) (stage : ShaderStage)
    (intfData : ShaderStage → InterfaceData) (inRegMask : Nat) :
    (afterScan ctx stage intfData inRegMask).requiredUserDataCount
      = maxOfEnds (packedNodes ctx stage) := by
  unfold afterScan scanNodes packedNodes
  rw [forNodes_scanNode_maxEnd, initState_required, Nat.zero_max]

theorem reserveSpecial_required (ctx : Context) (stage : ShaderStage) (s : St) :
    (reserveSpecial ctx stage s).requiredUserDataCount = s.requiredUserDataCount ∧
      (reserveSpecial ctx stage s).requiredRemappedUserDataCount
        = s.requiredRemappedUserDataCount := by
  cases stage <;> simp [reserveSpecial]

theorem afterReserve_requiredRemapped (ctx : Context) (stage : ShaderStage)
    (intfData : ShaderStage → InterfaceData) (inRegMask : Nat) :
    (afterReserve ctx stage intfData inRegMask).requiredRemappedUserDataCount
      = sumOfSizes ctx stage := by
  unfold afterReserve
  rw [(reserveSpecial_required ctx stage _).2, afterScan_requiredRemapped]

theorem afterReserve_required (ctx : Context) (stage : ShaderStage)
    (intfData : ShaderStage → InterfaceData) (inRegMask : Nat) :
    (afterReserve ctx stage intfData inRegMask).requiredUserDataCount
      = maxOfEnds (packedNodes ctx stage) := by
  unfold afterReserve
  rw [(reserveSpecial_required ctx stage _).1, afterScan_required]

theorem decideSpill_needSpill (ctx : Context) (stage : ShaderStage) (s : St) :
    (decideSpill ctx stage s).needSpill
      = if stage = .Compute then decide (ctx.MaxCsUserDataCount < s.requiredUserDataCount)
        else decide (s.availUserDataCount < s.requiredRemappedUserDataCount) := by
  unfold decideSpill useFixedLayout
  by_cases h : stage = .Compute <;> simp [h]

theorem decideSpill_required (ctx : Context) (stage : ShaderStage) (s : St) :
    (decideSpill ctx stage s).requiredUserDataCount = s.requiredUserDataCount := by
  unfold decideSpill
  split <;> simp

theorem decideSpill_avail (ctx : Context) (stage : ShaderStage) (s : St) :
    (decideSpill ctx stage s).availUserDataCount
      = if stage = .Compute then ctx.MaxCsUserDataCount
        else if s.availUserDataCount < s.requiredRemappedUserDataCount then
          sub32 s.availUserDataCount 1
        else s.availUserDataCount := by
  unfold decideSpill useFixedLayout
  by_cases h : stage = .Compute
  · simp [h]
  · simp only [h, decide_False, Bool.false_eq_true, if_false]
    unfold St.when
    by_cases h2 : s.availUserDataCount < s.requiredRemappedUserDataCount <;> simp [h2]

theorem run_decided (ctx : Context) (stage : ShaderStage)
    (intfData : ShaderStage → InterfaceData) (inRegMask : Nat) :
    (runEntryPointType ctx stage intfData inRegMask).decided
      = (decideSpill ctx stage (afterReserve ctx stage intfData inRegMask)).decided := by
  simp [runEntryPointType, afterUserData, afterPack, beforePack, packNodes]

theorem St.decided_eq_iff (s t : St) :
    s.decided = t.decided ↔
      s.availUserDataCount = t.availUserDataCount ∧
      s.requiredRemappedUserDataCount = t.requiredRemappedUserDataCount ∧
      s.requiredUserDataCount = t.requiredUserDataCount ∧
      s.reserveVbTable = t.reserveVbTable ∧
      s.reserveStreamOutTable = t.reserveStreamOutTable ∧
      s.reserveEsGsLdsSize = t.reserveEsGsLdsSize ∧ s.needSpill = t.needSpill := by
  simp [St.decided]

theorem run_needSpill (ctx : Context) (stage : ShaderStage)
    (intfData : ShaderStage → InterfaceData) (inRegMask : Nat) :
    (runEntryPointType ctx stage intfData inRegMask).needSpill
      = if stage = .Compute then
          decide (ctx.MaxCsUserDataCount < maxOfEnds (packedNodes ctx stage))
        else decide (slotBudget ctx stage intfData inRegMask < sumOfSizes ctx stage) := by
  have h := ((St.decided_eq_iff _ _).mp (run_decided ctx stage intfData inRegMask)).2.2.2.2.2.2
  rw [h, decideSpill_needSpill, afterReserve_required, afterReserve_requiredRemapped]
  rfl

theorem run_required (ctx : Context) (stage : ShaderStage)
    (intfData : ShaderStage → InterfaceData) (inRegMask : Nat) :
    (runEntryPointType ctx stage intfData inRegMask).requiredUserDataCount
      = maxOfEnds (packedNodes ctx stage) := by
  have h := ((St.decided_eq_iff _ _).mp (run_decided ctx stage intfData inRegMask)).2.2.1
  rw [h, decideSpill_required, afterReserve_required]

theorem run_avail (ctx : Context) (stage : ShaderStage)
    (intfData : ShaderStage → InterfaceData) (inRegMask : Nat) :
    (runEntryPointType ctx stage intfData inRegMask).availUserDataCount
      = if stage = .Compute then ctx.MaxCsUserDataCount
        else if slotBudget ctx stage intfData inRegMask < sumOfSizes ctx stage then
          sub32 (slotBudget ctx stage intfData inRegMask) 1
        else slotBudget ctx stage intfData inRegMask := by
  have h := ((St.decided_eq_iff _ _).mp (run_decided ctx stage intfData inRegMask)).1
  rw [h, decideSpill_avail, afterReserve_requiredRemapped]
  rfl

/-! ## Size of the spill table -/

theorem greedySpill_spillSize (stage : ShaderStage) (s : St) :
    ((greedySpill stage s).intfData stage).spillTable.sizeInDwords
      = if s.needSpill = true ∧ stage ≠ .Compute then s.requiredUserDataCount
        else (s.intfData stage).spillTable.sizeInDwords := by
  unfold greedySpill
  simp only [St.record_spillSize, implies_true]
  unfold St.when useFixedLayout
  by_cases h1 : s.needSpill = true <;> by_cases h2 : stage = .Compute <;>
    simp [h1, h2, St.record_intfData_same]

theorem fillToSpill_required (ctx : Context) (fuel : Nat) (s : St) :
    (fillToSpill ctx fuel s).requiredUserDataCount = s.requiredUserDataCount :=
  fillToSpill_frame St.requiredUserDataCount ctx (fun s => by simp) fuel s

theorem fixedSpill_spillSize (ctx : Context) (stage : ShaderStage) (s : St) :
    ((fixedSpill ctx stage s).intfData stage).spillTable.sizeInDwords
      = if s.needSpill = true ∧ stage = .Compute then s.requiredUserDataCount
        else (s.intfData stage).spillTable.sizeInDwords := by
  unfold fixedSpill useFixedLayout
  by_cases h1 : s.needSpill = true <;> by_cases h2 : stage = .Compute <;>
    simp [h1, h2, St.record_intfData_same, fillToSpill_required]

theorem afterPack_spillSize (ctx : Context) (stage : ShaderStage)
    (intfData : ShaderStage → InterfaceData) (inRegMask : Nat) :
    ((afterPack ctx stage intfData inRegMask).intfData stage).spillTable.sizeInDwords
      = (intfData stage).spillTable.sizeInDwords := by
  simp [afterPack, beforePack, afterReserve, afterScan]

theorem afterPack_decided (ctx : Context) (stage : ShaderStage)
    (intfData : ShaderStage → InterfaceData) (inRegMask : Nat) :
    (afterPack ctx stage intfData inRegMask).decided
      = (runEntryPointType ctx stage intfData inRegMask).decided := by
  simp [runEntryPointType, afterUserData, afterPack, packNodes]

theorem run_spillSize (ctx : Context) (stage : ShaderStage)
    (intfData : ShaderStage → InterfaceData) (inRegMask : Nat) :
    ((runEntryPointType ctx stage intfData inRegMask).intfData stage).spillTable.sizeInDwords
      = if (runEntryPointType ctx stage intfData inRegMask).needSpill = true then
          maxOfEnds (packedNodes ctx stage)
        else (intfData stage).spillTable.sizeInDwords := by
  have hd := (St.decided_eq_iff _ _).mp (afterPack_decided ctx stage intfData inRegMask)
  have hn := hd.2.2.2.2.2.2
  have hr := hd.2.2.1
  have hsz := afterPack_spillSize ctx stage intfData inRegMask
  rw [← run_required ctx stage intfData inRegMask, ← hn, ← hr, ← hsz]
  unfold runEntryPointType afterUserData
  generalize afterPack ctx stage intfData inRegMask = a
  have h1 := (St.decided_eq_iff _ _).mp
    ((specialUserData_decided ctx stage (fixedSpill ctx stage a)).trans
      (fixedSpill_decided ctx stage a))
  rw [systemValues_spillTable, greedySpill_spillSize, specialUserData_spillTable,
    fixedSpill_spillSize, h1.2.2.2.2.2.2, h1.2.2.1]
  by_cases hc : stage = .Compute <;> by_cases hs : a.needSpill = true <;> simp [hc, hs]

/-! ## Iterations of the packing loop -/

theorem packStateAt_zero (ctx : Context) (stage : ShaderStage)
    (intfData : ShaderStage → InterfaceData) (inRegMask : Nat) :
    packStateAt ctx stage intfData inRegMask 0 = beforePack ctx stage intfData inRegMask := by
  simp [packStateAt, forNodes]

theorem packStateAt_succ (ctx : Context) (stage : ShaderStage)
    (intfData : ShaderStage → InterfaceData) (inRegMask : Nat) (i : Nat) (n : ResourceNode)
    (hn : ctx.userDataNodes[i]? = some n) :
    packStateAt ctx stage intfData inRegMask (i + 1)
      = packNode ctx stage i n (packStateAt ctx stage intfData inRegMask i) := by
  have hlt : i < ctx.userDataNodes.length := by
    rcases Nat.lt_or_ge i ctx.userDataNodes.length with h | h
    · exact h
    · rw [List.getElem?_eq_none h] at hn
      cases hn
  unfold packStateAt
  rw [List.take_succ, hn, forNodes_append]
  simp [forNodes, List.length_take, Nat.min_eq_left (Nat.le_of_lt hlt)]

theorem packStateAt_succ_of_none (ctx : Context) (stage : ShaderStage)
    (intfData : ShaderStage → InterfaceData) (inRegMask : Nat) (i : Nat)
    (hn : ctx.userDataNodes[i]? = none) :
    packStateAt ctx stage intfData inRegMask (i + 1)
      = packStateAt ctx stage intfData inRegMask i := by
  unfold packStateAt
  rw [List.take_succ, hn]
  simp

theorem afterPack_eq_forNodes (ctx : Context) (stage : ShaderStage)
    (intfData : ShaderStage → InterfaceData) (inRegMask : Nat) (i : Nat) :
    afterPack ctx stage intfData inRegMask
      = forNodes (packNode ctx stage) (min i ctx.userDataNodes.length)
          (ctx.userDataNodes.drop i) (packStateAt ctx stage intfData inRegMask i) := by
  unfold afterPack packNodes packStateAt
  conv_lhs => rw [← List.take_append_drop i ctx.userDataNodes]
  rw [forNodes_append]
  simp [List.length_take]

theorem packNode_of_not_packed (ctx : Context) (stage : ShaderStage) (i : Nat)
    (n : ResourceNode) (s : St) (h : isPacked ctx stage n = false) :
    packNode ctx stage i n s = s := by
  unfold packNode
  by_cases h1 : n.type = .IndirectUserDataVaPtr
  · simp [h1]
  · by_cases h2 : n.type = .StreamOutTableVaPtr
    · simp [h2]
    · have h3 : IsResourceNodeActive ctx stage n true = false := by
        simpa [isPacked, h1, h2] using h
      simp [h1, h2, h3]

theorem packNode_of_packed (ctx : Context) (stage : ShaderStage) (i : Nat)
    (n : ResourceNode) (s : St) (h : isPacked ctx stage n = true) :
    packNode ctx stage i n s
      = if fits (padNode ctx stage n s) n = true then
          assignNode ctx stage i n (padNode ctx stage n s)
        else if (padNode ctx stage n s).needSpill = true ∧
            ((padNode ctx stage n s).intfData stage).spillTable.offsetInDwords
              = ctx.InvalidValue then
          (padNode ctx stage n s).setIntf stage
            (fun d => { d with spillTable.offsetInDwords := n.offsetInDwords })
        else padNode ctx stage n s := by
  obtain ⟨h1, h2, h3⟩ := (isPacked_eq_true_iff ctx stage n).mp h
  unfold packNode
  rw [if_neg h1, if_neg h2, if_neg (by simp [h3])]

theorem registerResident_eq (ctx : Context) (stage : ShaderStage)
    (intfData : ShaderStage → InterfaceData) (inRegMask : Nat) (i : Nat) (n : ResourceNode)
    (hn : ctx.userDataNodes[i]? = some n) :
    registerResident ctx stage intfData inRegMask i
      = (isPacked ctx stage n
          && fits (padNode ctx stage n (packStateAt ctx stage intfData inRegMask i)) n) := by
  simp [registerResident, fitStateAt, hn]

theorem registerResident_of_none (ctx : Context) (stage : ShaderStage)
    (intfData : ShaderStage → InterfaceData) (inRegMask : Nat) (i : Nat)
    (hn : ctx.userDataNodes[i]? = none) :
    registerResident ctx stage intfData inRegMask i = false := by
  simp [registerResident, hn]

theorem padNode_of_greedy (ctx : Context) (stage : ShaderStage) (n : ResourceNode) (s : St)
    (h : stage ≠ .Compute) : padNode ctx stage n s = s := by
  simp [padNode, useFixedLayout, h]

/-- Outcome of iteration `i` of the packing loop in terms of `registerResident`. -/
theorem packStateAt_succ_cases (ctx : Context) (stage : ShaderStage)
    (intfData : ShaderStage → InterfaceData) (inRegMask : Nat) (i : Nat) (n : ResourceNode)
    (hn : ctx.userDataNodes[i]? = some n) :
    (isPacked ctx stage n = false ∧
        packStateAt ctx stage intfData inRegMask (i + 1)
          = packStateAt ctx stage intfData inRegMask i) ∨
      (isPacked ctx stage n = true ∧ registerResident ctx stage intfData inRegMask i = true ∧
        packStateAt ctx stage intfData inRegMask (i + 1)
          = assignNode ctx stage i n (fitStateAt ctx stage intfData inRegMask i)) ∨
      (isPacked ctx stage n = true ∧ registerResident ctx stage intfData inRegMask i = false ∧
        packStateAt ctx stage intfData inRegMask (i + 1)
          = if (fitStateAt ctx stage intfData inRegMask i).needSpill = true ∧
                ((fitStateAt ctx stage intfData inRegMask i).intfData stage).spillTable.offsetInDwords
                  = ctx.InvalidValue then
              (fitStateAt ctx stage intfData inRegMask i).setIntf stage
                (fun d => { d with spillTable.offsetInDwords := n.offsetInDwords })
            else fitStateAt ctx stage intfData inRegMask i) := by
  rw [packStateAt_succ ctx stage intfData inRegMask i n hn,
    registerResident_eq ctx stage intfData inRegMask i n hn]
  have hf : fitStateAt ctx stage intfData inRegMask i
      = padNode ctx stage n (packStateAt ctx stage intfData inRegMask i) := by
    simp [fitStateAt, hn]
  rw [hf]
  by_cases hp : isPacked ctx stage n = true
  · right
    rw [packNode_of_packed _ _ _ _ _ hp]
    by_cases hfit : fits (padNode ctx stage n (packStateAt ctx stage intfData inRegMask i)) n
        = true
    · left
      simp [hp, hfit]
    · right
      simp [hp, hfit]
  · left
    have hp' : isPacked ctx stage n = false := by simpa using hp
    exact ⟨hp', packNode_of_not_packed _ _ _ _ _ hp'⟩

/-! ## Locals and spill offset along the packing loop -/

theorem beforePack_decided (ctx : Context) (stage : ShaderStage)
    (intfData : ShaderStage → InterfaceData) (inRegMask : Nat) :
    (beforePack ctx stage intfData inRegMask).decided
      = (runEntryPointType ctx stage intfData inRegMask).decided := by
  rw [run_decided]
  simp [beforePack]

theorem packStateAt_decided (ctx : Context) (stage : ShaderStage)
    (intfData : ShaderStage → InterfaceData) (inRegMask : Nat) (i : Nat) :
    (packStateAt ctx stage intfData inRegMask i).decided
      = (runEntryPointType ctx stage intfData inRegMask).decided := by
  unfold packStateAt
  rw [forNodes_packNode_decided, beforePack_decided]

theorem fitStateAt_decided (ctx : Context) (stage : ShaderStage)
    (intfData : ShaderStage → InterfaceData) (inRegMask : Nat) (i : Nat) :
    (fitStateAt ctx stage intfData inRegMask i).decided
      = (runEntryPointType ctx stage intfData inRegMask).decided := by
  unfold fitStateAt
  split
  · rw [padNode_decided, packStateAt_decided]
  · exact packStateAt_decided ..

theorem fitStateAt_intfData (ctx : Context) (stage : ShaderStage)
    (intfData : ShaderStage → InterfaceData) (inRegMask : Nat) (i : Nat) :
    (fitStateAt ctx stage intfData inRegMask i).intfData
      = (packStateAt ctx stage intfData inRegMask i).intfData := by
  unfold fitStateAt
  split
  · exact padNode_intfData ..
  · rfl

theorem fitStateAt_of_greedy (ctx : Context) (stage : ShaderStage)
    (intfData : ShaderStage → InterfaceData) (inRegMask : Nat) (i : Nat)
    (h : stage ≠ .Compute) :
    fitStateAt ctx stage intfData inRegMask i = packStateAt ctx stage intfData inRegMask i := by
  unfold fitStateAt
  split
  · exact padNode_of_greedy _ _ _ _ h
  · rfl

theorem decideSpill_spillOffset_greedy (ctx : Context) (stage : ShaderStage) (s : St)
    (h : stage ≠ .Compute) :
    ((decideSpill ctx stage s).intfData stage).spillTable.offsetInDwords
      = ctx.InvalidValue := by
  unfold decideSpill useFixedLayout
  simp [h, St.setIntf_intfData_same]

theorem decideSpill_intfData_fixed (ctx : Context) (s : St) :
    (decideSpill ctx .Compute s).intfData = s.intfData := by
  simp [decideSpill, useFixedLayout]

theorem beforePack_spillOffset_greedy (ctx : Context) (stage : ShaderStage)
    (intfData : ShaderStage → InterfaceData) (inRegMask : Nat) (h : stage ≠ .Compute) :
    ((beforePack ctx stage intfData inRegMask).intfData stage).spillTable.offsetInDwords
      = ctx.InvalidValue := by
  unfold beforePack
  rw [allocStreamOut_spillTable, decideSpill_spillOffset_greedy _ _ _ h]

theorem beforePack_spillOffset_fixed (ctx : Context)
    (intfData : ShaderStage → InterfaceData) (inRegMask : Nat) :
    ((beforePack ctx .Compute intfData inRegMask).intfData .Compute).spillTable.offsetInDwords
      = (intfData .Compute).spillTable.offsetInDwords := by
  unfold beforePack
  rw [allocStreamOut_spillTable, decideSpill_intfData_fixed]
  simp [afterReserve, afterScan]

theorem packNode_spillOffset_of_ne (ctx : Context) (stage : ShaderStage) (i : Nat)
    (n : ResourceNode) (s : St)
    (h : (s.intfData stage).spillTable.offsetInDwords ≠ ctx.InvalidValue) :
    ((packNode ctx stage i n s).intfData stage).spillTable.offsetInDwords
      = (s.intfData stage).spillTable.offsetInDwords := by
  by_cases hp : isPacked ctx stage n = true
  · rw [packNode_of_packed _ _ _ _ _ hp]
    split_ifs with h1 h2
    · rw [assignNode_spillTable, padNode_intfData]
    · rw [padNode_intfData] at h2
      exact absurd h2.2 h
    · rw [padNode_intfData]
  · rw [packNode_of_not_packed _ _ _ _ _ (by simpa using hp)]

theorem forNodes_packNode_spillOffset_of_ne (ctx : Context) (stage : ShaderStage) (i : Nat)
    (l : List ResourceNode) (s : St)
    (h : (s.intfData stage).spillTable.offsetInDwords ≠ ctx.InvalidValue) :
    ((forNodes (packNode ctx stage) i l s).intfData stage).spillTable.offsetInDwords
      = (s.intfData stage).spillTable.offsetInDwords := by
  induction l generalizing i s with
  | nil => rfl
  | cons n l ih =>
    simp only [forNodes]
    have h1 := packNode_spillOffset_of_ne ctx stage i n s h
    rw [ih _ _ (by rw [h1]; exact h), h1]

theorem run_spillOffset (ctx : Context) (stage : ShaderStage)
    (intfData : ShaderStage → InterfaceData) (inRegMask : Nat) :
    ((runEntryPointType ctx stage intfData inRegMask).intfData stage).spillTable.offsetInDwords
      = ((afterPack ctx stage intfData inRegMask).intfData stage).spillTable.offsetInDwords := by
  unfold runEntryPointType afterUserData
  rw [systemValues_spillTable, greedySpill_spillOffset, specialUserData_spillTable,
    fixedSpill_spillOffset]

theorem spillOffset_before_first (ctx : Context) (stage : ShaderStage)
    (intfData : ShaderStage → InterfaceData) (inRegMask : Nat) (i : Nat)
    (hfirst : allResidentBefore ctx stage intfData inRegMask i) :
    ((packStateAt ctx stage intfData inRegMask i).intfData stage).spillTable.offsetInDwords
      = ((beforePack ctx stage intfData inRegMask).intfData stage).spillTable.offsetInDwords := by
  induction i with
  | zero => rw [packStateAt_zero]
  | succ i ih =>
    have ih' := ih (fun j hj => hfirst j (Nat.lt_succ_of_lt hj))
    cases hn : ctx.userDataNodes[i]? with
    | none => rw [packStateAt_succ_of_none _ _ _ _ _ hn, ih']
    | some n =>
      rcases packStateAt_succ_cases ctx stage intfData inRegMask i n hn with
        ⟨_, h2⟩ | ⟨_, _, h2⟩ | ⟨hp, hr, _⟩
      · rw [h2, ih']
      · rw [h2, assignNode_spillTable, fitStateAt_intfData, ih']
      · have := hfirst i (Nat.lt_succ_self i) n hn hp
        rw [hr] at this
        cases this

theorem run_needSpill_eq_of_decided {s t : St} (h : s.decided = t.decided) :
    s.needSpill = t.needSpill :=
  ((St.decided_eq_iff _ _).mp h).2.2.2.2.2.2

theorem run_avail_eq_of_decided {s t : St} (h : s.decided = t.decided) :
    s.availUserDataCount = t.availUserDataCount :=
  ((St.decided_eq_iff _ _).mp h).1

/-- The spill offset is the offset of the first packed node that is not register-resident,
unless that offset is the invalid marker. -/
theorem spillOffset_of_first (ctx : Context) (stage : ShaderStage)
    (intfData : ShaderStage → InterfaceData) (inRegMask : Nat)
    (hinit : ((beforePack ctx stage intfData inRegMask).intfData stage).spillTable.offsetInDwords
      = ctx.InvalidValue)
    (hspill : (runEntryPointType ctx stage intfData inRegMask).needSpill = true)
    (i : Nat) (n : ResourceNode) (hn : ctx.userDataNodes[i]? = some n)
    (hp : isPacked ctx stage n = true)
    (hi : registerResident ctx stage intfData inRegMask i = false)
    (hfirst : allResidentBefore ctx stage intfData inRegMask i)
    (hoff : n.offsetInDwords ≠ ctx.InvalidValue) :
    ((runEntryPointType ctx stage intfData inRegMask).intfData stage).spillTable.offsetInDwords
      = n.offsetInDwords := by
  have h0 := (spillOffset_before_first ctx stage intfData inRegMask i hfirst).trans hinit
  have hns : (fitStateAt ctx stage intfData inRegMask i).needSpill = true :=
    (run_needSpill_eq_of_decided (fitStateAt_decided ctx stage intfData inRegMask i)).trans
      hspill
  have h1 : ((packStateAt ctx stage intfData inRegMask (i + 1)).intfData
      stage).spillTable.offsetInDwords = n.offsetInDwords := by
    rcases packStateAt_succ_cases ctx stage intfData inRegMask i n hn with
      ⟨hp', _⟩ | ⟨_, hr, _⟩ | ⟨_, _, h2⟩
    · rw [hp] at hp'
      cases hp'
    · rw [hi] at hr
      cases hr
    · rw [h2, fitStateAt_intfData, if_pos ⟨hns, h0⟩, St.setIntf_intfData_same]
  rw [run_spillOffset, afterPack_eq_forNodes ctx stage intfData inRegMask (i + 1),
    forNodes_packNode_spillOffset_of_ne _ _ _ _ _ (by rw [h1]; exact hoff), h1]

/-! ## Words consumed along the packing loop without fixed layout -/

theorem scanNode_actual (ctx : Context) (stage : ShaderStage) (i : Nat) (n : ResourceNode)
    (s : St) :
    (scanNode ctx stage i n s).actualAvailUserDataCount = s.actualAvailUserDataCount := by
  unfold scanNode
  dsimp only
  split_ifs <;> simp

theorem allocStreamOutNode_actual (stage : ShaderStage) (n : ResourceNode) (s : St) :
    (allocStreamOutNode stage n s).actualAvailUserDataCount = s.actualAvailUserDataCount := by
  cases stage <;> simp [allocStreamOutNode]

theorem beforePack_actual (ctx : Context) (stage : ShaderStage)
    (intfData : ShaderStage → InterfaceData) (inRegMask : Nat) :
    (beforePack ctx stage intfData inRegMask).actualAvailUserDataCount = 0 := by
  have h1 : ∀ s, (allocStreamOut ctx stage s).actualAvailUserDataCount
      = s.actualAvailUserDataCount := by
    intro s
    unfold allocStreamOut
    split
    · exact firstNodeOfType_frame St.actualAvailUserDataCount _ _
        (allocStreamOutNode_actual stage) _ _
    · rfl
  have h2 : ∀ s, (decideSpill ctx stage s).actualAvailUserDataCount
      = s.actualAvailUserDataCount := by
    intro s
    unfold decideSpill
    split <;> simp
  have h3 : ∀ s, (reserveSpecial ctx stage s).actualAvailUserDataCount
      = s.actualAvailUserDataCount := by
    intro s
    cases stage <;> simp [reserveSpecial]
  have h4 : ∀ s, (scanNodes ctx stage s).actualAvailUserDataCount
      = s.actualAvailUserDataCount :=
    fun s => forNodes_frame St.actualAvailUserDataCount _
      (fun _ _ _ => scanNode_actual ..) _ _ _
  unfold beforePack afterReserve afterScan
  rw [h1, h2, h3, h4]
  simp [initState]

theorem assignNode_actual (ctx : Context) (stage : ShaderStage) (i : Nat) (n : ResourceNode)
    (s : St) :
    (assignNode ctx stage i n s).actualAvailUserDataCount
      = u32 (s.actualAvailUserDataCount + n.sizeInDwords) := by
  unfold assignNode
  split <;> simp

theorem sizeAt_of_some (ctx : Context) (i : Nat) (n : ResourceNode)
    (hn : ctx.userDataNodes[i]? = some n) : sizeAt ctx i = n.sizeInDwords := by
  simp [sizeAt, hn]

theorem consumedBefore_zero (ctx : Context) (stage : ShaderStage)
    (intfData : ShaderStage → InterfaceData) (inRegMask : Nat) :
    consumedBefore ctx stage intfData inRegMask 0 = 0 := by
  simp [consumedBefore, u32]

theorem consumedBefore_succ (ctx : Context) (stage : ShaderStage)
    (intfData : ShaderStage → InterfaceData) (inRegMask : Nat) (i : Nat) :
    consumedBefore ctx stage intfData inRegMask (i + 1)
      = if registerResident ctx stage intfData inRegMask i = true then
          u32 (consumedBefore ctx stage intfData inRegMask i + sizeAt ctx i)
        else consumedBefore ctx stage intfData inRegMask i := by
  unfold consumedBefore
  rw [List.range_succ, List.filter_append]
  by_cases h : registerResident ctx stage intfData inRegMask i = true
  · simp [h, u32_u32_add]
  · simp [h]

theorem packStateAt_actual_greedy (ctx : Context) (stage : ShaderStage)
    (intfData : ShaderStage → InterfaceData) (inRegMask : Nat) (hst : stage ≠ .Compute)
    (i : Nat) :
    (packStateAt ctx stage intfData inRegMask i).actualAvailUserDataCount
      = consumedBefore ctx stage intfData inRegMask i := by
  induction i with
  | zero => rw [packStateAt_zero, beforePack_actual, consumedBefore_zero]
  | succ i ih =>
    rw [consumedBefore_succ]
    cases hn : ctx.userDataNodes[i]? with
    | none =>
      rw [packStateAt_succ_of_none _ _ _ _ _ hn, registerResident_of_none _ _ _ _ _ hn, ih]
      simp
    | some n =>
      rcases packStateAt_succ_cases ctx stage intfData inRegMask i n hn with
        ⟨hp, h2⟩ | ⟨_, hr, h2⟩ | ⟨_, hr, h2⟩
      · have hr : registerResident ctx stage intfData inRegMask i = false := by
          rw [registerResident_eq _ _ _ _ _ _ hn, hp]
          rfl
        rw [h2, hr, ih]
        simp
      · rw [h2, hr, assignNode_actual, fitStateAt_of_greedy _ _ _ _ _ hst, ih,
          sizeAt_of_some _ _ _ hn]
        simp
      · rw [h2, hr, fitStateAt_of_greedy _ _ _ _ _ hst]
        have : ∀ (c : Prop) [Decidable c] (f : InterfaceData → InterfaceData) (s : St),
            (if c then s.setIntf stage f else s).actualAvailUserDataCount
              = s.actualAvailUserDataCount := by
          intro c _ f s
          split <;> simp
        rw [this, ih]
        simp

theorem run_avail_greedy (ctx : Context) (stage : ShaderStage)
    (intfData : ShaderStage → InterfaceData) (inRegMask : Nat) (hst : stage ≠ .Compute) :
    (runEntryPointType ctx stage intfData inRegMask).availUserDataCount
      = availableSlots ctx stage intfData inRegMask := by
  rw [run_avail, if_neg hst]
  rfl

theorem registerResident_iff_greedy (ctx : Context) (stage : ShaderStage)
    (intfData : ShaderStage → InterfaceData) (inRegMask : Nat) (hst : stage ≠ .Compute)
    (i : Nat) (n : ResourceNode) (hn : ctx.userDataNodes[i]? = some n)
    (hp : isPacked ctx stage n = true) :
    registerResident ctx stage intfData inRegMask i = true ↔
      u32 (consumedBefore ctx stage intfData inRegMask i + n.sizeInDwords)
        ≤ availableSlots ctx stage intfData inRegMask := by
  rw [registerResident_eq _ _ _ _ _ _ hn, hp, padNode_of_greedy _ _ _ _ hst]
  simp only [Bool.true_and, fits, decide_eq_true_eq]
  rw [packStateAt_actual_greedy _ _ _ _ hst,
    run_avail_eq_of_decided (packStateAt_decided ctx stage intfData inRegMask i),
    run_avail_greedy _ _ _ _ hst]

/-! ## Order of the consumed words -/

theorem registerResident_some (ctx : Context) (stage : ShaderStage)
    (intfData : ShaderStage → InterfaceData) (inRegMask : Nat) (i : Nat)
    (h : registerResident ctx stage intfData inRegMask i = true) :
    ∃ n, ctx.userDataNodes[i]? = some n ∧ isPacked ctx stage n = true := by
  cases hn : ctx.userDataNodes[i]? with
  | none => rw [registerResident_of_none _ _ _ _ _ hn] at h; cases h
  | some n =>
    rw [registerResident_eq _ _ _ _ _ _ hn] at h
    exact ⟨n, rfl, (Bool.and_eq_true _ _).mp h |>.1⟩

theorem consumedBefore_le_avail (ctx : Context) (stage : ShaderStage)
    (intfData : ShaderStage → InterfaceData) (inRegMask : Nat) (hst : stage ≠ .Compute)
    (i : Nat) :
    consumedBefore ctx stage intfData inRegMask i
      ≤ availableSlots ctx stage intfData inRegMask := by
  induction i with
  | zero => rw [consumedBefore_zero]; exact Nat.zero_le _
  | succ i ih =>
    rw [consumedBefore_succ]
    split
    · rename_i h
      obtain ⟨n, hn, hp⟩ := registerResident_some _ _ _ _ _ h
      rw [sizeAt_of_some _ _ _ hn]
      exact (registerResident_iff_greedy _ _ _ _ hst i n hn hp).mp h
    · exact ih

theorem consumedBefore_mono_succ (ctx : Context) (stage : ShaderStage)
    (intfData : ShaderStage → InterfaceData) (inRegMask : Nat) (hst : stage ≠ .Compute)
    (hno : ∀ m ∈ ctx.userDataNodes,
      m.sizeInDwords + availableSlots ctx stage intfData inRegMask < 4294967296)
    (i : Nat) :
    consumedBefore ctx stage intfData inRegMask i
      ≤ consumedBefore ctx stage intfData inRegMask (i + 1) := by
  rw [consumedBefore_succ]
  split
  · rename_i h
    obtain ⟨n, hn, _⟩ := registerResident_some _ _ _ _ _ h
    rw [sizeAt_of_some _ _ _ hn]
    have h1 := consumedBefore_le_avail ctx stage intfData inRegMask hst i
    have h2 := hno n (List.getElem?_mem hn)
    rw [u32_of_lt (by omega)]
    omega
  · exact Nat.le_refl _

theorem consumedBefore_mono (ctx : Context) (stage : ShaderStage)
    (intfData : ShaderStage → InterfaceData) (inRegMask : Nat) (hst : stage ≠ .Compute)
    (hno : ∀ m ∈ ctx.userDataNodes,
      m.sizeInDwords + availableSlots ctx stage intfData inRegMask < 4294967296)
    (i k : Nat) (hik : i ≤ k) :
    consumedBefore ctx stage intfData inRegMask i
      ≤ consumedBefore ctx stage intfData inRegMask k := by
  induction k with
  | zero =>
    have : i = 0 := by omega
    subst this
    exact Nat.le_refl _
  | succ k ih =>
    rcases Nat.eq_or_lt_of_le hik with h | h
    · subst h
      exact Nat.le_refl _
    · exact Nat.le_trans (ih (by omega))
        (consumedBefore_mono_succ ctx stage intfData inRegMask hst hno k)

/-! ## The failure flags are never cleared

Each lemma carries the fact "the state behind the statement has no failure flag" back to
the state in front of it. -/

theorem St.push_back (s : St) (ty : ArgTy) {P : Prop} (h : s.ok = true → P) :
    (s.push ty).ok = true → P := by
  simpa using h

theorem St.argNext_back (s : St) {P : Prop} (h : s.ok = true → P) :
    s.argNext.ok = true → P := by
  simpa using h

theorem St.inReg_back (s : St) {P : Prop} (h : s.ok = true → P) :
    s.inReg.ok = true → P := by
  intro h1
  simp only [St.inReg_ok, Bool.and_eq_true] at h1
  exact h h1.1

theorem St.inRegNext_back (s : St) {P : Prop} (h : s.ok = true → P) :
    s.inRegNext.ok = true → P := by
  intro h1
  simp only [St.inRegNext_ok, Bool.and_eq_true] at h1
  exact h h1.1

theorem St.consume_back (s : St) (n : Nat) {P : Prop} (h : s.ok = true → P) :
    (s.consume n).ok = true → P := by
  simpa using h

theorem St.userDataNext_back (s : St) (n : Nat) {P : Prop} (h : s.ok = true → P) :
    (s.userDataNext n).ok = true → P := by
  simpa using h

theorem St.setIntf_back (s : St) (t : ShaderStage) (f : InterfaceData → InterfaceData)
    {P : Prop} (h : s.ok = true → P) : (s.setIntf t f).ok = true → P := by
  simpa using h

theorem St.record_back (s : St) (t : ShaderStage) (get : St → Nat)
    (set : Nat → InterfaceData → InterfaceData) {P : Prop} (h : s.ok = true → P) :
    (s.record t get set).ok = true → P := by
  simpa using h

theorem St.never_back (s : St) {P : Prop} : s.never.ok = true → P := by
  simp

theorem St.assert_back (s : St) (c : St → Bool) {P : Prop} (h : s.ok = true → P) :
    (s.assert c).ok = true → P := by
  intro h1
  simp only [St.assert_ok, Bool.and_eq_true] at h1
  exact h h1.1

theorem St.checkMap_back (s : St) (len count : Nat) {P : Prop} (h : s.ok = true → P) :
    (s.checkMap len count).ok = true → P := by
  intro h1
  simp only [St.checkMap_ok, Bool.and_eq_true] at h1
  exact h h1.1

theorem St.when_back (s : St) (c : St → Bool) (body : St → St) {P : Prop}
    (hb : ∀ t, (body t).ok = true → t.ok = true) (h : s.ok = true → P) :
    (s.when c body).ok = true → P := by
  unfold St.when
  split
  · exact fun h1 => h (hb s h1)
  · exact h

theorem St.ite_back (c : Prop) [Decidable c] (a b : St) {P : Prop}
    (ha : a.ok = true → P) (hb : b.ok = true → P) :
    (if c then a else b).ok = true → P := by
  split
  · exact ha
  · exact hb

theorem St.sgprArg_back (s : St) (stage : ShaderStage) (ty : ArgTy)
    (set : Nat → InterfaceData → InterfaceData) {P : Prop} (h : s.ok = true → P) :
    (s.sgprArg stage ty set).ok = true → P := by
  rw [St.sgprArg_eq]
  apply St.inRegNext_back
  apply St.record_back
  apply St.push_back
  exact h

theorem St.vgprArg_back (s : St) (stage : ShaderStage) (ty : ArgTy)
    (set : Nat → InterfaceData → InterfaceData) {P : Prop} (h : s.ok = true → P) :
    (s.vgprArg stage ty set).ok = true → P := by
  rw [St.vgprArg_eq]
  apply St.argNext_back
  apply St.record_back
  apply St.push_back
  exact h

theorem streamOffsetArgs_back (stage : ShaderStage)
    (record : Nat → Nat → InterfaceData → InterfaceData) (i : Nat) (l : List Nat) (s : St)
    {P : Prop} (h : s.ok = true → P) :
    (streamOffsetArgs stage record i l s).ok = true → P := by
  induction l generalizing i s with
  | nil => exact h
  | cons x l ih =>
    simp only [streamOffsetArgs]
    apply ih
    apply St.when_back
    · intro t
      apply St.inRegNext_back
      apply St.record_back
      apply St.push_back
      exact id
    · exact h

theorem fillDummies_back (ctx : Context) (off fuel : Nat) (s : St) {P : Prop}
    (h : s.ok = true → P) : (fillDummies ctx off fuel s).ok = true → P := by
  induction fuel generalizing s with
  | zero => exact h
  | succ k ih =>
    simp only [fillDummies]
    split
    · apply ih
      apply St.consume_back
      apply St.userDataNext_back
      apply St.inRegNext_back
      apply St.push_back
      exact h
    · exact h

theorem fillToSpill_back (ctx : Context) (fuel : Nat) (s : St) {P : Prop}
    (h : s.ok = true → P) : (fillToSpill ctx fuel s).ok = true → P := by
  induction fuel generalizing s with
  | zero => exact h
  | succ k ih =>
    simp only [fillToSpill]
    split
    · apply ih
      apply St.userDataNext_back
      apply St.inRegNext_back
      apply St.push_back
      exact h
    · exact h

theorem systemValues_back (ctx : Context) (stage : ShaderStage) (s : St) {P : Prop}
    (h : s.ok = true → P) : (systemValues ctx stage s).ok = true → P := by
  cases stage <;>
    simp only [systemValues, systemValuesVs, systemValuesTcs, systemValuesTes, systemValuesGs,
      systemValuesFs, systemValuesCs] <;>
    repeat (any_goals (with_reducible (first
      | exact h
      | exact id
      | refine St.sgprArg_back _ _ _ _ ?_
      | refine St.vgprArg_back _ _ _ _ ?_
      | refine St.push_back _ _ ?_
      | refine St.argNext_back _ ?_
      | refine St.inRegNext_back _ ?_
      | refine St.record_back _ _ _ _ ?_
      | refine streamOffsetArgs_back _ _ _ _ _ ?_
      | refine St.when_back _ _ _ (fun _ => ?_) ?_
      | refine St.ite_back _ _ _ ?_ ?_)))

/-! ## Arithmetic of the slot counters -/

theorem sub32_lt (a b : Nat) : sub32 a b < 4294967296 := by
  unfold sub32 u32
  split <;> omega

theorem sub32_sub32 (a x y : Nat) (h : x + y < 4294967296) :
    sub32 (sub32 a x) y = sub32 a (x + y) := by
  unfold sub32 u32
  split_ifs <;> omega

theorem sub32_zero_of_lt (a : Nat) (h : a < 4294967296) : sub32 a 0 = a := by
  unfold sub32 u32
  simp
  omega

theorem sub32_one_le (a : Nat) (h : 0 < a) : sub32 a 1 ≤ a := by
  unfold sub32 u32
  split_ifs <;> omega

/-! ## Nodes that are always active -/

theorem isActive_of_indirect (ctx : Context) (stage : ShaderStage) (n : ResourceNode)
    (b : Bool) (h : n.type = .IndirectUserDataVaPtr) :
    IsResourceNodeActive ctx stage n b = true := by
  cases n with
  | mk t sz off set bind inner =>
    simp only [ResourceNode.type] at h
    subst h
    simp [IsResourceNodeActive]

theorem isActive_of_streamOut (ctx : Context) (stage : ShaderStage) (n : ResourceNode)
    (b : Bool) (h : n.type = .StreamOutTableVaPtr) :
    IsResourceNodeActive ctx stage n b = true := by
  cases n with
  | mk t sz off set bind inner =>
    simp only [ResourceNode.type] at h
    subst h
    simp [IsResourceNodeActive]

theorem isPacked_of_inactive (ctx : Context) (stage : ShaderStage) (n : ResourceNode)
    (h : IsResourceNodeActive ctx stage n true = false) : isPacked ctx stage n = false := by
  simp [isPacked, h]

theorem packedNodes_of_inactive (ctx : Context) (stage : ShaderStage)
    (h : ∀ n ∈ ctx.userDataNodes, IsResourceNodeActive ctx stage n true = false) :
    packedNodes ctx stage = [] := by
  unfold packedNodes
  rw [List.filter_eq_nil_iff]
  intro n hn
  simp [isPacked_of_inactive ctx stage n (h n hn)]

theorem type_ne_indirect_of_inactive (ctx : Context) (stage : ShaderStage) (n : ResourceNode)
    (h : IsResourceNodeActive ctx stage n true = false) :
    n.type ≠ .IndirectUserDataVaPtr := by
  intro ht
  rw [isActive_of_indirect ctx stage n true ht] at h
  exact Bool.noConfusion h

theorem type_ne_streamOut_of_inactive (ctx : Context) (stage : ShaderStage) (n : ResourceNode)
    (h : IsResourceNodeActive ctx stage n true = false) :
    n.type ≠ .StreamOutTableVaPtr := by
  intro ht
  rw [isActive_of_streamOut ctx stage n true ht] at h
  exact Bool.noConfusion h

/-! ## The loops over a node list without an active node -/

theorem forNodes_id (body : Nat → ResourceNode → St → St) (i : Nat) (l : List ResourceNode)
    (s : St) (h : ∀ j, ∀ n ∈ l, ∀ t, body j n t = t) : forNodes body i l s = s := by
  induction l generalizing i s with
  | nil => rfl
  | cons n l ih =>
    simp only [forNodes]
    rw [h i n (List.mem_cons_self _ _) s]
    exact ih _ _ (fun j m hm t => h j m (List.mem_cons_of_mem _ hm) t)

theorem scanNode_of_inactive (ctx : Context) (stage : ShaderStage) (i : Nat)
    (n : ResourceNode) (s : St) (h : IsResourceNodeActive ctx stage n true = false) :
    scanNode ctx stage i n s = s := by
  unfold scanNode
  rw [if_neg (type_ne_indirect_of_inactive ctx stage n h),
    if_neg (type_ne_streamOut_of_inactive ctx stage n h), if_pos h]

theorem afterScan_of_inactive (ctx : Context) (stage : ShaderStage)
    (intfData : ShaderStage → InterfaceData) (inRegMask : Nat)
    (h : ∀ n ∈ ctx.userDataNodes, IsResourceNodeActive ctx stage n true = false) :
    afterScan ctx stage intfData inRegMask = initState ctx stage intfData inRegMask := by
  unfold afterScan scanNodes
  exact forNodes_id _ _ _ _ (fun j n hn t => scanNode_of_inactive ctx stage j n t (h n hn))

theorem afterPack_of_inactive (ctx : Context) (stage : ShaderStage)
    (intfData : ShaderStage → InterfaceData) (inRegMask : Nat)
    (h : ∀ n ∈ ctx.userDataNodes, IsResourceNodeActive ctx stage n true = false) :
    afterPack ctx stage intfData inRegMask = beforePack ctx stage intfData inRegMask := by
  unfold afterPack packNodes
  exact forNodes_id _ _ _ _
    (fun j n hn t => packNode_of_not_packed ctx stage j n t
      (isPacked_of_inactive ctx stage n (h n hn)))

theorem initState_flags (ctx : Context) (stage : ShaderStage)
    (intfData : ShaderStage → InterfaceData) (inRegMask : Nat) :
    (initState ctx stage intfData inRegMask).reserveVbTable = false ∧
      (initState ctx stage intfData inRegMask).reserveStreamOutTable = false ∧
      (initState ctx stage intfData inRegMask).reserveEsGsLdsSize = false ∧
      (initState ctx stage intfData inRegMask).userDataIdx = 2 ∧
      (initState ctx stage intfData inRegMask).availUserDataCount
        = sub32 ctx.maxUserDataCount 2 := by
  simp [initState, u32]

theorem scanNode_lds (ctx : Context) (stage : ShaderStage) (i : Nat) (n : ResourceNode)
    (s : St) :
    (scanNode ctx stage i n s).reserveEsGsLdsSize = s.reserveEsGsLdsSize ∧
      (scanNode ctx stage i n s).userDataIdx = s.userDataIdx ∧
      (scanNode ctx stage i n s).availUserDataCount = s.availUserDataCount := by
  unfold scanNode
  dsimp only
  split_ifs <;> simp

theorem afterScan_lds (ctx : Context) (stage : ShaderStage)
    (intfData : ShaderStage → InterfaceData) (inRegMask : Nat) :
    (afterScan ctx stage intfData inRegMask).reserveEsGsLdsSize = false ∧
      (afterScan ctx stage intfData inRegMask).userDataIdx = 2 ∧
      (afterScan ctx stage intfData inRegMask).availUserDataCount
        = sub32 ctx.maxUserDataCount 2 := by
  unfold afterScan scanNodes
  have h := forNodes_frame
    (fun s => (s.reserveEsGsLdsSize, s.userDataIdx, s.availUserDataCount))
    (scanNode ctx stage)
    (fun i n s => by
      obtain ⟨h1, h2, h3⟩ := scanNode_lds ctx stage i n s
      simp only [h1, h2, h3])
    0 ctx.userDataNodes (initState ctx stage intfData inRegMask)
  obtain ⟨h1, h2, h3, h4, h5⟩ := initState_flags ctx stage intfData inRegMask
  simp only [Prod.mk.injEq] at h
  rw [h.1, h.2.1, h.2.2]
  exact ⟨h3, h4, h5⟩

/-! ## The slots of the special user data -/

theorem reserveSpecial_flags (ctx : Context) (stage : ShaderStage) (s : St) :
    (reserveSpecial ctx stage s).reserveVbTable = s.reserveVbTable ∧
      (reserveSpecial ctx stage s).reserveStreamOutTable = s.reserveStreamOutTable ∧
      (reserveSpecial ctx stage s).userDataIdx = s.userDataIdx := by
  cases stage <;> simp [reserveSpecial]

theorem reserveSpecial_avail (ctx : Context) (stage : ShaderStage) (s : St)
    (hlds : s.reserveEsGsLdsSize = false) (hlt : s.availUserDataCount < 4294967296) :
    (reserveSpecial ctx stage s).availUserDataCount
      = sub32 s.availUserDataCount
          (reservedSlotsOf ctx stage s.reserveVbTable s.reserveStreamOutTable
            (reserveSpecial ctx stage s).reserveEsGsLdsSize) := by
  have h0 := sub32_zero_of_lt _ hlt
  cases stage
  case Vertex =>
    cases h1 : ctx.enableMultiView <;> cases h2 : s.reserveVbTable <;>
      cases h3 : s.reserveStreamOutTable <;>
      cases h4 : ((ctx.resUsage (currStage ctx .Vertex)).builtInUsage.vs.baseVertex
        || (ctx.resUsage (currStage ctx .Vertex)).builtInUsage.vs.baseInstance) <;>
      cases h5 : (ctx.resUsage (currStage ctx .Vertex)).builtInUsage.vs.drawIndex <;>
      cases h6 : ((decide (ctx.gfxIpMajor ≥ 9) && (ctx.gsOnChip && ctx.InRegEsGsLdsSize))
        || (ctx.enableNgg && (hasTs ctx == false))) <;>
      simp only [reserveSpecial, reservedSlotsOf, St.when, h1, h2, h3, h4, h5, h6] <;>
      simp [hlds, h0, h2, h3, sub32_sub32]
  case TessControl =>
    cases h1 : ctx.enableMultiView <;> cases h2 : s.reserveVbTable <;>
      cases h3 : s.reserveStreamOutTable <;>
      cases h4 : ((ctx.resUsage (currStage ctx .TessControl)).builtInUsage.vs.baseVertex
        || (ctx.resUsage (currStage ctx .TessControl)).builtInUsage.vs.baseInstance) <;>
      cases h5 : (ctx.resUsage (currStage ctx .TessControl)).builtInUsage.vs.drawIndex <;>
      cases h6 : ((decide (ctx.gfxIpMajor ≥ 9) && (ctx.gsOnChip && ctx.InRegEsGsLdsSize))
        || (ctx.enableNgg && (hasTs ctx == false))) <;>
      simp only [reserveSpecial, reservedSlotsOf, St.when, h1, h2, h3, h4, h5, h6] <;>
      simp [hlds, h0, h2, h3, sub32_sub32]
  case TessEval =>
    cases h1 : ctx.enableMultiView <;> cases h3 : s.reserveStreamOutTable <;>
      cases h6 : ctx.enableNgg <;>
      simp only [reserveSpecial, reservedSlotsOf, St.when, h1, h3, h6] <;>
      simp [hlds, h0, h3, sub32_sub32]
  case Geometry =>
    cases h1 : ctx.enableMultiView <;>
      cases h6 : ((ctx.gsOnChip && ctx.InRegEsGsLdsSize) || ctx.enableNgg) <;>
      simp only [reserveSpecial, reservedSlotsOf, St.when, h1, h6] <;>
      simp [hlds, h0, sub32_sub32]
  case Fragment =>
    simp [reserveSpecial, reservedSlotsOf, h0]
  case Compute =>
    cases h1 : (ctx.resUsage .Compute).builtInUsage.cs.numWorkgroups <;>
      simp only [reserveSpecial, reservedSlotsOf, St.when, h1] <;>
      simp [h0]

theorem slotBudget_eq (ctx : Context) (stage : ShaderStage)
    (intfData : ShaderStage → InterfaceData) (inRegMask : Nat) :
    slotBudget ctx stage intfData inRegMask
      = sub32 ctx.maxUserDataCount (2 + reservedSlots ctx stage intfData inRegMask) := by
  obtain ⟨h1, _, h3⟩ := afterScan_lds ctx stage intfData inRegMask
  have hb : reservedSlots ctx stage intfData inRegMask ≤ 7 := by
    unfold reservedSlots reservedSlotsOf
    cases stage <;> dsimp only <;> (try split_ifs) <;> omega
  unfold slotBudget
  have h := reserveSpecial_avail ctx stage (afterScan ctx stage intfData inRegMask) h1
    (by rw [h3]; exact sub32_lt _ _)
  unfold afterReserve
  rw [h, h3, sub32_sub32]
  · unfold reservedSlots afterReserve
    rw [(reserveSpecial_flags ctx stage _).1, (reserveSpecial_flags ctx stage _).2.1]
  · have := hb
    unfold reservedSlots afterReserve at this
    rw [(reserveSpecial_flags ctx stage _).1, (reserveSpecial_flags ctx stage _).2.1] at this
    omega

theorem specialUserData_userDataIdx (ctx : Context) (stage : ShaderStage) (s : St)
    (hI : ∀ n ∈ ctx.userDataNodes, n.type ≠ .IndirectUserDataVaPtr)
    (h2 : s.userDataIdx = 2) :
    (specialUserData ctx stage s).userDataIdx
      = 2 + reservedSlotsOf ctx stage false false s.reserveEsGsLdsSize := by
  cases stage
  case Vertex =>
    cases h1 : ctx.enableMultiView <;>
      cases h4 : ((ctx.resUsage (currStage ctx .Vertex)).builtInUsage.vs.baseVertex
        || (ctx.resUsage (currStage ctx .Vertex)).builtInUsage.vs.baseInstance) <;>
      cases h5 : (ctx.resUsage (currStage ctx .Vertex)).builtInUsage.vs.drawIndex <;>
      cases h6 : s.reserveEsGsLdsSize <;>
      simp only [specialUserData, reservedSlotsOf, St.when, h1, h4, h5, h6,
        firstNodeOfType_none _ _ _ _ hI] <;>
      simp [h2, h6, u32, firstNodeOfType_none _ _ _ _ hI]
  case TessControl =>
    cases h1 : ctx.enableMultiView <;>
      cases h4 : ((ctx.resUsage (currStage ctx .TessControl)).builtInUsage.vs.baseVertex
        || (ctx.resUsage (currStage ctx .TessControl)).builtInUsage.vs.baseInstance) <;>
      cases h5 : (ctx.resUsage (currStage ctx .TessControl)).builtInUsage.vs.drawIndex <;>
      cases h6 : s.reserveEsGsLdsSize <;>
      simp only [specialUserData, reservedSlotsOf, St.when, h1, h4, h5, h6,
        firstNodeOfType_none _ _ _ _ hI] <;>
      simp [h2, h6, u32, firstNodeOfType_none _ _ _ _ hI]
  case TessEval =>
    cases h1 : ctx.enableMultiView <;> cases h6 : s.reserveEsGsLdsSize <;>
      simp only [specialUserData, reservedSlotsOf, St.when, h1, h6] <;>
      simp [h2, h6, u32]
  case Geometry =>
    cases h1 : ctx.enableMultiView <;> cases h6 : s.reserveEsGsLdsSize <;>
      simp only [specialUserData, reservedSlotsOf, St.when, h1, h6] <;>
      simp [h2, h6, u32]
  case Fragment =>
    simp [specialUserData, reservedSlotsOf, h2]
  case Compute =>
    cases h1 : (ctx.resUsage .Compute).builtInUsage.cs.numWorkgroups <;>
      simp only [specialUserData, reservedSlotsOf, St.when, h1] <;>
      simp [h2, u32]

@[simp] theorem systemValues_userDataCount (ctx : Context) (stage u : ShaderStage) (s : St) :
    ((systemValues ctx stage s).intfData u).userDataCount = (s.intfData u).userDataCount := by
  have hso : ∀ (record : Nat → Nat → InterfaceData → InterfaceData),
      (∀ i a d, (record i a d).userDataCount = d.userDataCount) → ∀ i l s,
      ((streamOffsetArgs stage record i l s).intfData u).userDataCount
        = (s.intfData u).userDataCount := by
    intro record h i l s
    exact streamOffsetArgs_frame (fun s => (s.intfData u).userDataCount) stage record
      (fun i s => by simp [h]) i l s
  cases stage <;>
    simp only [systemValues, systemValuesVs, systemValuesTcs, systemValuesTes, systemValuesGs,
      systemValuesFs, systemValuesCs] <;> (try split_ifs) <;>
    simp [St.sgprArg_eq, St.vgprArg_eq, hso]

theorem greedySpill_userDataCount (stage : ShaderStage) (s : St) (h : s.needSpill = false) :
    ((greedySpill stage s).intfData stage).userDataCount = s.userDataIdx := by
  unfold greedySpill
  simp only [St.when, h, Bool.false_and]
  simp [St.record_intfData_same]

theorem fixedSpill_of_no_spill (ctx : Context) (stage : ShaderStage) (s : St)
    (h : s.needSpill = false) : fixedSpill ctx stage s = s := by
  unfold fixedSpill
  simp [h]

theorem decideSpill_userDataIdx (ctx : Context) (stage : ShaderStage) (s : St) :
    (decideSpill ctx stage s).userDataIdx = s.userDataIdx ∧
      (decideSpill ctx stage s).reserveEsGsLdsSize = s.reserveEsGsLdsSize := by
  unfold decideSpill
  split <;> simp

theorem beforePack_of_inactive (ctx : Context) (stage : ShaderStage)
    (intfData : ShaderStage → InterfaceData) (inRegMask : Nat)
    (h : ∀ n ∈ ctx.userDataNodes, IsResourceNodeActive ctx stage n true = false) :
    beforePack ctx stage intfData inRegMask
      = decideSpill ctx stage (afterReserve ctx stage intfData inRegMask) := by
  unfold beforePack allocStreamOut
  split
  · exact firstNodeOfType_none _ _ _ _
      (fun n hn => type_ne_streamOut_of_inactive ctx stage n (h n hn))
  · rfl

theorem run_needSpill_of_inactive (ctx : Context) (stage : ShaderStage)
    (intfData : ShaderStage → InterfaceData) (inRegMask : Nat)
    (h : ∀ n ∈ ctx.userDataNodes, IsResourceNodeActive ctx stage n true = false) :
    (runEntryPointType ctx stage intfData inRegMask).needSpill = false := by
  rw [run_needSpill]
  simp [sumOfSizes, packedNodes_of_inactive ctx stage h, maxOfEnds, u32]

theorem run_userDataCount_of_inactive (ctx : Context) (stage : ShaderStage)
    (intfData : ShaderStage → InterfaceData) (inRegMask : Nat)
    (h : ∀ n ∈ ctx.userDataNodes, IsResourceNodeActive ctx stage n true = false) :
    ((runEntryPointType ctx stage intfData inRegMask).intfData stage).userDataCount
      = 2 + reservedSlots ctx stage intfData inRegMask := by
  have hns := run_needSpill_of_inactive ctx stage intfData inRegMask h
  have hdec := beforePack_decided ctx stage intfData inRegMask
  have hbp := beforePack_of_inactive ctx stage intfData inRegMask h
  have hap := afterPack_of_inactive ctx stage intfData inRegMask h
  have hns1 : (beforePack ctx stage intfData inRegMask).needSpill = false := by
    rw [run_needSpill_eq_of_decided hdec]; exact hns
  have hscan := afterScan_of_inactive ctx stage intfData inRegMask h
  obtain ⟨f1, f2, _, _, _⟩ := initState_flags ctx stage intfData inRegMask
  obtain ⟨_, g2, _⟩ := afterScan_lds ctx stage intfData inRegMask
  unfold runEntryPointType afterUserData
  rw [systemValues_userDataCount, hap, fixedSpill_of_no_spill _ _ _ hns1,
    greedySpill_userDataCount, specialUserData_userDataIdx]
  · unfold reservedSlots
    rw [hbp, (decideSpill_userDataIdx ctx stage _).2]
    unfold afterReserve
    rw [(reserveSpecial_flags ctx stage _).1, (reserveSpecial_flags ctx stage _).2.1, hscan,
      f1, f2]
  · exact fun n hn => type_ne_indirect_of_inactive ctx stage n (h n hn)
  · rw [hbp, (decideSpill_userDataIdx ctx stage _).1]
    unfold afterReserve
    rw [(reserveSpecial_flags ctx stage _).2.2]
    exact g2
  · have := specialUserData_decided ctx stage (beforePack ctx stage intfData inRegMask)
    rw [run_needSpill_eq_of_decided this]
    exact hns1

/-! ## Facts that a run without failure carries -/

theorem mapWritesInside_bound (len idx count : Nat)
    (h : mapWritesInside len idx count = true) (hlen : len < 4294967296)
    (hidx : idx < 4294967296) : count = 0 ∨ idx + count ≤ len := by
  induction count with
  | zero => exact Or.inl rfl
  | succ j ih =>
    simp only [mapWritesInside, Bool.and_eq_true, decide_eq_true_eq] at h
    right
    rcases ih h.1 with h0 | hle
    · subst h0
      have := h.2
      unfold u32 at this
      omega
    · have := h.2
      unfold u32 at this
      omega

theorem GenerateEntryPointType_some (ctx : Context) (stage : ShaderStage)
    (intfData : ShaderStage → InterfaceData) (inRegMask : Nat) (r : St)
    (h : GenerateEntryPointType ctx stage intfData inRegMask = some r) :
    r = runEntryPointType ctx stage intfData inRegMask ∧
      (runEntryPointType ctx stage intfData inRegMask).ok = true := by
  unfold GenerateEntryPointType at h
  dsimp only at h
  split at h
  · exact Option.noConfusion h
  · rename_i hf
    refine ⟨(Option.some.inj h).symm, ?_⟩
    unfold St.ok
    simpa using hf

theorem firstNodeOfType_ok_back (ty : ResourceMappingNodeType) (body : ResourceNode → St → St)
    (l : List ResourceNode) (s : St) {P : Prop}
    (hb : ∀ n t, (body n t).ok = true → t.ok = true) (h : s.ok = true → P) :
    (firstNodeOfType ty body l s).ok = true → P :=
  fun h1 => h (firstNodeOfType_back (fun s => s.ok = true) ty body hb l s h1)

theorem vbTableNode_back (cur : ShaderStage) (n : ResourceNode) (s : St) :
    (vbTableNode cur n s).ok = true → s.ok = true := by
  unfold vbTableNode
  repeat (any_goals (with_reducible (first
    | exact id
    | refine St.push_back _ _ ?_
    | refine St.inRegNext_back _ ?_
    | refine St.userDataNext_back _ _ ?_
    | refine St.assert_back _ _ ?_
    | refine St.record_back _ _ _ _ ?_)))

theorem specialUserData_back (ctx : Context) (stage : ShaderStage) (s : St) {P : Prop}
    (h : s.ok = true → P) : (specialUserData ctx stage s).ok = true → P := by
  cases stage <;> simp only [specialUserData] <;>
    repeat (any_goals (with_reducible (first
      | exact h
      | exact id
      | refine St.push_back _ _ ?_
      | refine St.inRegNext_back _ ?_
      | refine St.userDataNext_back _ _ ?_
      | refine St.record_back _ _ _ _ ?_
      | refine firstNodeOfType_ok_back _ _ _ _ (vbTableNode_back _) ?_
      | refine St.when_back _ _ _ (fun _ => ?_) ?_)))

theorem greedySpill_back (stage : ShaderStage) (s : St) {P : Prop}
    (h : s.ok = true → P) : (greedySpill stage s).ok = true → P := by
  simp only [greedySpill]
  repeat (any_goals (with_reducible (first
    | exact h
    | exact id
    | refine St.push_back _ _ ?_
    | refine St.inReg_back _ ?_
    | refine St.argNext_back _ ?_
    | refine St.userDataNext_back _ _ ?_
    | refine St.record_back _ _ _ _ ?_
    | refine St.when_back _ _ _ (fun _ => ?_) ?_)))

theorem fixedSpill_back (ctx : Context) (stage : ShaderStage) (s : St) {P : Prop}
    (h : s.ok = true → P) : (fixedSpill ctx stage s).ok = true → P := by
  unfold fixedSpill
  split
  · dsimp only
    repeat (any_goals (with_reducible (first
      | exact h
      | refine St.record_back _ _ _ _ ?_
      | refine fillToSpill_back _ _ _ ?_
      | refine St.assert_back _ _ ?_)))
  · exact h

theorem assignNode_back (ctx : Context) (stage : ShaderStage) (i : Nat) (n : ResourceNode)
    (s : St) {P : Prop} (h : s.ok = true → P) :
    (assignNode ctx stage i n s).ok = true → P := by
  unfold assignNode
  split <;>
    repeat (any_goals (with_reducible (first
      | exact h
      | refine St.never_back _
      | refine St.push_back _ _ ?_
      | refine St.inRegNext_back _ ?_
      | refine St.userDataNext_back _ _ ?_
      | refine St.consume_back _ _ ?_
      | refine St.checkMap_back _ _ _ ?_
      | refine St.assert_back _ _ ?_
      | refine St.record_back _ _ _ _ ?_)))

theorem padNode_back (ctx : Context) (stage : ShaderStage) (n : ResourceNode) (s : St)
    {P : Prop} (h : s.ok = true → P) : (padNode ctx stage n s).ok = true → P := by
  unfold padNode
  split
  · exact fillDummies_back _ _ _ _ h
  · exact h

theorem packNode_back (ctx : Context) (stage : ShaderStage) (i : Nat) (n : ResourceNode)
    (s : St) : (packNode ctx stage i n s).ok = true → s.ok = true := by
  unfold packNode
  dsimp only
  split_ifs
  · exact id
  · exact id
  · exact id
  · exact assignNode_back _ _ _ _ _ (padNode_back _ _ _ _ id)
  · exact St.setIntf_back _ _ _ (padNode_back _ _ _ _ id)
  · exact padNode_back _ _ _ _ id

theorem afterPack_ok (ctx : Context) (stage : ShaderStage)
    (intfData : ShaderStage → InterfaceData) (inRegMask : Nat)
    (h : (runEntryPointType ctx stage intfData inRegMask).ok = true) :
    (afterPack ctx stage intfData inRegMask).ok = true := by
  unfold runEntryPointType afterUserData at h
  exact systemValues_back _ _ _
    (greedySpill_back _ _ (specialUserData_back _ _ _ (fixedSpill_back _ _ _ id))) h

theorem packStateAt_ok (ctx : Context) (stage : ShaderStage)
    (intfData : ShaderStage → InterfaceData) (inRegMask : Nat)
    (h : (afterPack ctx stage intfData inRegMask).ok = true) (i : Nat) :
    (packStateAt ctx stage intfData inRegMask i).ok = true := by
  rw [afterPack_eq_forNodes ctx stage intfData inRegMask i] at h
  exact forNodes_back (fun s => s.ok = true) _ (packNode_back ctx stage) _ _ _ h

theorem St.push_argWords (s : St) (ty : ArgTy) :
    (s.push ty).argWords = s.argWords + ty.words := by
  simp [St.argWords]

theorem assignNode_facts (ctx : Context) (stage : ShaderStage) (i : Nat) (n : ResourceNode)
    (s : St) (hok : (assignNode ctx stage i n s).ok = true)
    (hMax : ctx.MaxUserDataCount < 4294967296) (hidx : s.userDataIdx < 4294967296) :
    s.argIdx < 64 ∧
      (assignNode ctx stage i n s).argIdx = s.argIdx + 1 ∧
      (assignNode ctx stage i n s).userDataIdx = s.userDataIdx + n.sizeInDwords ∧
      s.userDataIdx + n.sizeInDwords < 4294967296 ∧
      (assignNode ctx stage i n s).argWords = s.argWords + n.sizeInDwords ∧
      (assignNode ctx stage i n s).availUserDataCount = s.availUserDataCount ∧
      ((assignNode ctx stage i n s).intfData stage).entryArgIdxs.resNodeValues i
        = s.argIdx := by
  unfold assignNode at hok ⊢
  cases ht : n.type <;> simp only [ht] at hok ⊢ <;>
    simp only [St.userDataNext_ok, St.record_ok, St.checkMap_ok, St.assert_ok, St.push_ok,
      St.consume_ok, St.inRegNext_ok, St.never_ok, Bool.and_eq_true, decide_eq_true_eq] at hok
  all_goals (simp [St.record_intfData_same, setAt, St.argWords, ArgTy.words] at hok ⊢)
  case DescriptorTableVaPtr =>
    obtain ⟨⟨⟨_, h3⟩, h4⟩, h5⟩ := hok
    have hb := mapWritesInside_bound _ _ _ h5 hMax hidx
    unfold u32
    omega
  all_goals
    obtain ⟨⟨_, h3⟩, h5⟩ := hok
    have hb := mapWritesInside_bound _ _ _ h5 hMax hidx
    unfold u32
    omega

theorem fillDummies_facts (ctx : Context) (off fuel w0 : Nat) (s : St)
    (hok : (fillDummies ctx off fuel s).ok = true) (hinv : s.packInv ctx w0) :
    (fillDummies ctx off fuel s).packInv ctx w0 ∧
      s.argIdx ≤ (fillDummies ctx off fuel s).argIdx ∧
      s.userDataIdx ≤ (fillDummies ctx off fuel s).userDataIdx ∧
      s.actualAvailUserDataCount ≤ (fillDummies ctx off fuel s).actualAvailUserDataCount ∧
      (fillDummies ctx off fuel s).availUserDataCount = s.availUserDataCount := by
  induction fuel generalizing s with
  | zero => exact ⟨hinv, Nat.le_refl _, Nat.le_refl _, Nat.le_refl _, rfl⟩
  | succ k ih =>
    simp only [fillDummies] at hok ⊢
    split
    · rename_i hc
      rw [if_pos hc] at hok
      have hok1 := fillDummies_back _ _ _ _ id hok
      simp at hok1
      obtain ⟨i1, i2, i3, i4⟩ := hinv
      have hu1 := u32_lt (off + ctx.CsStartUserData)
      have hu2 : u32 (s.availUserDataCount + ctx.CsStartUserData)
          ≤ s.availUserDataCount + ctx.CsStartUserData := by
        unfold u32
        exact Nat.mod_le _ _
      have hstep : ((((s.push .Int32Ty).inRegNext).userDataNext 1).consume 1).packInv ctx w0 := by
        refine ⟨?_, ?_, ?_, ?_⟩
        · simp [u32]
          omega
        · simp [u32]
          omega
        · simp [St.argWords, ArgTy.words, u32] at i3 ⊢
          omega
        · intro hcs
          have := i4 hcs
          simp [u32]
          omega
      obtain ⟨j1, j2, j3, j4, j5⟩ := ih _ hok hstep
      refine ⟨j1, ?_, ?_, ?_, ?_⟩
      · simp [u32] at j2
        omega
      · simp [u32] at j3
        omega
      · simp [u32] at j4
        omega
      · simpa using j5
    · exact ⟨hinv, Nat.le_refl _, Nat.le_refl _, Nat.le_refl _, rfl⟩

theorem firstNodeOfType_cases (ty : ResourceMappingNodeType) (body : ResourceNode → St → St)
    (l : List ResourceNode) (s : St) :
    firstNodeOfType ty body l s = s ∨ ∃ n, firstNodeOfType ty body l s = body n s := by
  induction l with
  | nil => exact Or.inl rfl
  | cons n l ih =>
    simp only [firstNodeOfType]
    split
    · exact Or.inr ⟨n, rfl⟩
    · exact ih

theorem allocStreamOutNode_fields (stage : ShaderStage) (n : ResourceNode) (s : St) :
    (allocStreamOutNode stage n s).userDataIdx = u32 (s.userDataIdx + 1) ∧
      (allocStreamOutNode stage n s).actualAvailUserDataCount = s.actualAvailUserDataCount := by
  cases stage <;> simp [allocStreamOutNode]

theorem beforePack_userDataIdx (ctx : Context) (stage : ShaderStage)
    (intfData : ShaderStage → InterfaceData) (inRegMask : Nat) :
    2 ≤ (beforePack ctx stage intfData inRegMask).userDataIdx ∧
      (beforePack ctx stage intfData inRegMask).userDataIdx ≤ 3 := by
  have h2 : (decideSpill ctx stage (afterReserve ctx stage intfData inRegMask)).userDataIdx
      = 2 := by
    rw [(decideSpill_userDataIdx ctx stage _).1]
    unfold afterReserve
    rw [(reserveSpecial_flags ctx stage _).2.2]
    exact (afterScan_lds ctx stage intfData inRegMask).2.1
  unfold beforePack allocStreamOut
  split
  · rcases firstNodeOfType_cases .StreamOutTableVaPtr (allocStreamOutNode stage)
      ctx.userDataNodes (decideSpill ctx stage (afterReserve ctx stage intfData inRegMask))
      with h | ⟨n, h⟩
    · rw [h, h2]
      omega
    · rw [h, (allocStreamOutNode_fields stage n _).1, h2]
      simp [u32]
  · rw [h2]
    omega

theorem beforePack_packInv (ctx : Context) (stage : ShaderStage)
    (intfData : ShaderStage → InterfaceData) (inRegMask : Nat) :
    (beforePack ctx stage intfData inRegMask).packInv ctx
      (beforePack ctx stage intfData inRegMask).argWords := by
  obtain ⟨h1, h2⟩ := beforePack_userDataIdx ctx stage intfData inRegMask
  have h3 := beforePack_actual ctx stage intfData inRegMask
  refine ⟨by omega, by omega, by omega, fun _ => by omega⟩

theorem residentWordsBefore_succ (ctx : Context) (stage : ShaderStage)
    (intfData : ShaderStage → InterfaceData) (inRegMask : Nat) (i : Nat) :
    residentWordsBefore ctx stage intfData inRegMask (i + 1)
      = residentWordsBefore ctx stage intfData inRegMask i
        + (if registerResident ctx stage intfData inRegMask i = true then sizeAt ctx i
          else 0) := by
  unfold residentWordsBefore
  rw [List.range_succ, List.filter_append, List.map_append, List.sum_append]
  by_cases h : registerResident ctx stage intfData inRegMask i = true
  · simp [List.filter_cons, h]
  · simp [List.filter_cons, h]

theorem fitStateAt_eq (ctx : Context) (stage : ShaderStage)
    (intfData : ShaderStage → InterfaceData) (inRegMask : Nat) (i : Nat) (n : ResourceNode)
    (hn : ctx.userDataNodes[i]? = some n) :
    fitStateAt ctx stage intfData inRegMask i
      = padNode ctx stage n (packStateAt ctx stage intfData inRegMask i) := by
  unfold fitStateAt
  rw [hn]

theorem padNode_facts (ctx : Context) (stage : ShaderStage) (n : ResourceNode) (w0 : Nat)
    (s : St) (hok : (padNode ctx stage n s).ok = true) (hinv : s.packInv ctx w0) :
    (padNode ctx stage n s).packInv ctx w0 ∧
      s.argIdx ≤ (padNode ctx stage n s).argIdx ∧
      s.userDataIdx ≤ (padNode ctx stage n s).userDataIdx ∧
      s.actualAvailUserDataCount ≤ (padNode ctx stage n s).actualAvailUserDataCount ∧
      (padNode ctx stage n s).availUserDataCount = s.availUserDataCount := by
  unfold padNode at hok ⊢
  split
  · rename_i h
    rw [if_pos h] at hok
    exact fillDummies_facts _ _ _ _ _ hok hinv
  · exact ⟨hinv, Nat.le_refl _, Nat.le_refl _, Nat.le_refl _, rfl⟩

/-- One iteration of the packing loop in a run without failure. -/
theorem packStateAt_step (ctx : Context) (stage : ShaderStage)
    (intfData : ShaderStage → InterfaceData) (inRegMask : Nat)
    (hok : (afterPack ctx stage intfData inRegMask).ok = true)
    (hMax : ctx.MaxUserDataCount < 4294967296) (w0 : Nat) (i : Nat)
    (hinv : (packStateAt ctx stage intfData inRegMask i).packInv ctx w0) :
    (packStateAt ctx stage intfData inRegMask (i + 1)).packInv ctx w0 ∧
      (packStateAt ctx stage intfData inRegMask i).argIdx
        ≤ (packStateAt ctx stage intfData inRegMask (i + 1)).argIdx ∧
      (packStateAt ctx stage intfData inRegMask i).userDataIdx
        ≤ (packStateAt ctx stage intfData inRegMask (i + 1)).userDataIdx ∧
      (packStateAt ctx stage intfData inRegMask i).actualAvailUserDataCount
          + (if registerResident ctx stage intfData inRegMask i = true then sizeAt ctx i
            else 0)
        ≤ (packStateAt ctx stage intfData inRegMask (i + 1)).actualAvailUserDataCount ∧
      (stage ≠ .Compute →
        (packStateAt ctx stage intfData inRegMask (i + 1)).actualAvailUserDataCount
          = (packStateAt ctx stage intfData inRegMask i).actualAvailUserDataCount
            + (if registerResident ctx stage intfData inRegMask i = true then sizeAt ctx i
              else 0)) ∧
      (registerResident ctx stage intfData inRegMask i = true →
        (packStateAt ctx stage intfData inRegMask i).argIdx
          ≤ (fitStateAt ctx stage intfData inRegMask i).argIdx ∧
        (packStateAt ctx stage intfData inRegMask i).userDataIdx
          ≤ (fitStateAt ctx stage intfData inRegMask i).userDataIdx ∧
        (packStateAt ctx stage intfData inRegMask (i + 1)).argIdx
          = (fitStateAt ctx stage intfData inRegMask i).argIdx + 1 ∧
        (packStateAt ctx stage intfData inRegMask (i + 1)).userDataIdx
          = (fitStateAt ctx stage intfData inRegMask i).userDataIdx + sizeAt ctx i ∧
        ((packStateAt ctx stage intfData inRegMask (i + 1)).intfData
            stage).entryArgIdxs.resNodeValues i
          = (fitStateAt ctx stage intfData inRegMask i).argIdx) := by
  have hok1 := packStateAt_ok ctx stage intfData inRegMask hok (i + 1)
  cases hn : ctx.userDataNodes[i]? with
  | none =>
    have hr := registerResident_of_none ctx stage intfData inRegMask i hn
    rw [packStateAt_succ_of_none ctx stage intfData inRegMask i hn, hr]
    simp [hinv]
  | some n =>
    have hf := fitStateAt_eq ctx stage intfData inRegMask i n hn
    have hsz := sizeAt_of_some ctx i n hn
    rcases packStateAt_succ_cases ctx stage intfData inRegMask i n hn with
      ⟨hp, he⟩ | ⟨hp, hr, he⟩ | ⟨hp, hr, he⟩
    · have hr : registerResident ctx stage intfData inRegMask i = false := by
        rw [registerResident_eq ctx stage intfData inRegMask i n hn, hp]
        rfl
      rw [he, hr]
      simp [hinv]
    · rw [he] at hok1
      have hokf := assignNode_back _ _ _ _ _ id hok1
      rw [hf] at hokf
      obtain ⟨p1, p2, p3, p4, p5⟩ := padNode_facts ctx stage n w0 _ hokf hinv
      rw [← hf] at p1 p2 p3 p4 p5
      obtain ⟨a1, a2, a3, a4, a5, a6, a7⟩ := assignNode_facts ctx stage i n _ hok1 hMax p1.1
      have a8 := assignNode_actual ctx stage i n (fitStateAt ctx stage intfData inRegMask i)
      have hfit : fits (fitStateAt ctx stage intfData inRegMask i) n = true := by
        have := hr
        rw [registerResident_eq ctx stage intfData inRegMask i n hn, hp, ← hf] at this
        simpa using this
      unfold fits at hfit
      simp only [decide_eq_true_eq] at hfit
      obtain ⟨q1, q2, q3, q4⟩ := p1
      have hu : u32 ((fitStateAt ctx stage intfData inRegMask i).actualAvailUserDataCount
          + n.sizeInDwords)
          = (fitStateAt ctx stage intfData inRegMask i).actualAvailUserDataCount
            + n.sizeInDwords := by
        unfold u32
        omega
      rw [hu] at a8 hfit
      have hgreedy : stage ≠ .Compute →
          (fitStateAt ctx stage intfData inRegMask i).actualAvailUserDataCount
            = (packStateAt ctx stage intfData inRegMask i).actualAvailUserDataCount := by
        intro hst
        rw [fitStateAt_of_greedy ctx stage intfData inRegMask i hst]
      rw [he, hr, hsz]
      simp only [if_true]
      refine ⟨⟨?_, ?_, ?_, ?_⟩, ?_, ?_, ?_, ?_, ?_⟩
      · omega
      · omega
      · omega
      · intro hcs
        rw [a6, a8]
        exact hfit
      · omega
      · omega
      · omega
      · intro hst
        have := hgreedy hst
        omega
      · intro _
        exact ⟨p2, p3, a2, a3, a7⟩
    · have hfields : ∀ (π : St → Nat),
          (∀ s f, π (St.setIntf stage f s) = π s) →
          π (packStateAt ctx stage intfData inRegMask (i + 1))
            = π (fitStateAt ctx stage intfData inRegMask i) := by
        intro π hπ
        rw [he]
        split
        · exact hπ _ _
        · rfl
      have hokf : (fitStateAt ctx stage intfData inRegMask i).ok = true := by
        rw [he] at hok1
        split at hok1
        · exact St.setIntf_back _ _ _ id hok1
        · exact hok1
      rw [hf] at hokf
      obtain ⟨p1, p2, p3, p4, p5⟩ := padNode_facts ctx stage n w0 _ hokf hinv
      rw [← hf] at p1 p2 p3 p4 p5
      have e1 := hfields St.argIdx (fun s f => by simp)
      have e2 := hfields St.userDataIdx (fun s f => by simp)
      have e3 := hfields St.actualAvailUserDataCount (fun s f => by simp)
      have e4 := hfields St.availUserDataCount (fun s f => by simp)
      have e5 := hfields St.argWords (fun s f => by simp [St.argWords])
      have hgreedy : stage ≠ .Compute →
          (fitStateAt ctx stage intfData inRegMask i).actualAvailUserDataCount
            = (packStateAt ctx stage intfData inRegMask i).actualAvailUserDataCount := by
        intro hst
        rw [fitStateAt_of_greedy ctx stage intfData inRegMask i hst]
      obtain ⟨q1, q2, q3, q4⟩ := p1
      rw [hr]
      simp only [Bool.false_eq_true, if_false, false_implies, and_true, Nat.add_zero]
      refine ⟨⟨?_, ?_, ?_, ?_⟩, ?_, ?_, ?_, ?_⟩
      · omega
      · omega
      · omega
      · intro hcs
        have := q4 hcs
        omega
      · omega
      · omega
      · omega
      · intro hst
        have := hgreedy hst
        omega

/-! ## The packing loop in a run without failure -/

theorem packStateAt_inv (ctx : Context) (stage : ShaderStage)
    (intfData : ShaderStage → InterfaceData) (inRegMask : Nat)
    (hok : (afterPack ctx stage intfData inRegMask).ok = true)
    (hMax : ctx.MaxUserDataCount < 4294967296) (i : Nat) :
    (packStateAt ctx stage intfData inRegMask i).packInv ctx
      (beforePack ctx stage intfData inRegMask).argWords := by
  induction i with
  | zero =>
    rw [packStateAt_zero]
    exact beforePack_packInv ctx stage intfData inRegMask
  | succ k ih => exact (packStateAt_step ctx stage intfData inRegMask hok hMax _ k ih).1

theorem packStateAt_mono (ctx : Context) (stage : ShaderStage)
    (intfData : ShaderStage → InterfaceData) (inRegMask : Nat)
    (hok : (afterPack ctx stage intfData inRegMask).ok = true)
    (hMax : ctx.MaxUserDataCount < 4294967296) (i k : Nat) (hik : i ≤ k) :
    (packStateAt ctx stage intfData inRegMask i).argIdx
        ≤ (packStateAt ctx stage intfData inRegMask k).argIdx ∧
      (packStateAt ctx stage intfData inRegMask i).userDataIdx
        ≤ (packStateAt ctx stage intfData inRegMask k).userDataIdx := by
  induction k with
  | zero =>
    have : i = 0 := by omega
    subst this
    exact ⟨Nat.le_refl _, Nat.le_refl _⟩
  | succ k ih =>
    rcases Nat.lt_or_ge i (k + 1) with h | h
    · have h1 := ih (by omega)
      have h2 := packStateAt_step ctx stage intfData inRegMask hok hMax _ k
        (packStateAt_inv ctx stage intfData inRegMask hok hMax k)
      exact ⟨Nat.le_trans h1.1 h2.2.1, Nat.le_trans h1.2 h2.2.2.1⟩
    · have : i = k + 1 := by omega
      subst this
      exact ⟨Nat.le_refl _, Nat.le_refl _⟩

theorem packStateAt_residentWords (ctx : Context) (stage : ShaderStage)
    (intfData : ShaderStage → InterfaceData) (inRegMask : Nat)
    (hok : (afterPack ctx stage intfData inRegMask).ok = true)
    (hMax : ctx.MaxUserDataCount < 4294967296) (i : Nat) :
    residentWordsBefore ctx stage intfData inRegMask i
        ≤ (packStateAt ctx stage intfData inRegMask i).actualAvailUserDataCount ∧
      (stage ≠ .Compute →
        (packStateAt ctx stage intfData inRegMask i).actualAvailUserDataCount
          = residentWordsBefore ctx stage intfData inRegMask i) := by
  induction i with
  | zero =>
    rw [packStateAt_zero, beforePack_actual]
    simp [residentWordsBefore]
  | succ k ih =>
    have h2 := packStateAt_step ctx stage intfData inRegMask hok hMax _ k
      (packStateAt_inv ctx stage intfData inRegMask hok hMax k)
    rw [residentWordsBefore_succ]
    refine ⟨?_, ?_⟩
    · have := h2.2.2.2.1
      omega
    · intro hst
      have := h2.2.2.2.2.1 hst
      have := ih.2 hst
      omega

theorem packStateAt_length (ctx : Context) (stage : ShaderStage)
    (intfData : ShaderStage → InterfaceData) (inRegMask : Nat) :
    packStateAt ctx stage intfData inRegMask ctx.userDataNodes.length
      = afterPack ctx stage intfData inRegMask := by
  unfold packStateAt afterPack packNodes
  rw [List.take_length]

theorem GenerateEntryPointType_of_ok (ctx : Context) (stage : ShaderStage)
    (intfData : ShaderStage → InterfaceData) (inRegMask : Nat)
    (h : (runEntryPointType ctx stage intfData inRegMask).ok = true) :
    GenerateEntryPointType ctx stage intfData inRegMask
      = some (runEntryPointType ctx stage intfData inRegMask) := by
  unfold GenerateEntryPointType
  unfold St.ok at h
  dsimp only
  rw [if_neg]
  simpa using h

theorem packedWords_eq_actual (ctx : Context) (stage : ShaderStage)
    (intfData : ShaderStage → InterfaceData) (inRegMask : Nat)
    (hok : (afterPack ctx stage intfData inRegMask).ok = true)
    (hMax : ctx.MaxUserDataCount < 4294967296) :
    packedWords ctx stage intfData inRegMask
      = (afterPack ctx stage intfData inRegMask).actualAvailUserDataCount := by
  have h := packStateAt_inv ctx stage intfData inRegMask hok hMax ctx.userDataNodes.length
  rw [packStateAt_length] at h
  unfold packedWords
  have := h.2.2.1
  omega

/-! ## The recorded argument indices behind the packing loop -/

theorem forNodes_frame_from {α : Type} (π : St → α) (body : Nat → ResourceNode → St → St)
    (i0 : Nat) (h : ∀ j n s, i0 ≤ j → π (body j n s) = π s) (i : Nat) (hi : i0 ≤ i)
    (l : List ResourceNode) (s : St) :
    π (forNodes body i l s) = π s := by
  induction l generalizing i s with
  | nil => rfl
  | cons n l ih =>
    simp only [forNodes]
    rw [ih (i + 1) (by omega), h i n s hi]

@[simp] theorem systemValues_resNodeValues (ctx : Context) (stage u : ShaderStage) (s : St) :
    ((systemValues ctx stage s).intfData u).entryArgIdxs.resNodeValues
      = (s.intfData u).entryArgIdxs.resNodeValues := by
  have hso : ∀ (record : Nat → Nat → InterfaceData → InterfaceData),
      (∀ i a d, (record i a d).entryArgIdxs.resNodeValues = d.entryArgIdxs.resNodeValues) →
      ∀ i l s,
      ((streamOffsetArgs stage record i l s).intfData u).entryArgIdxs.resNodeValues
        = (s.intfData u).entryArgIdxs.resNodeValues := by
    intro record h i l s
    exact streamOffsetArgs_frame (fun s => (s.intfData u).entryArgIdxs.resNodeValues) stage
      record (fun i s => by simp [h]) i l s
  cases stage <;>
    simp only [systemValues, systemValuesVs, systemValuesTcs, systemValuesTes, systemValuesGs,
      systemValuesFs, systemValuesCs] <;> (try split_ifs) <;>
    simp [St.sgprArg_eq, St.vgprArg_eq, hso]

@[simp] theorem specialUserData_resNodeValues (ctx : Context) (stage u : ShaderStage)
    (s : St) :
    ((specialUserData ctx stage s).intfData u).entryArgIdxs.resNodeValues
      = (s.intfData u).entryArgIdxs.resNodeValues := by
  have hvb : ∀ cur l s,
      ((firstNodeOfType .IndirectUserDataVaPtr (vbTableNode cur) l s).intfData
          u).entryArgIdxs.resNodeValues
        = (s.intfData u).entryArgIdxs.resNodeValues := by
    intro cur l s
    exact firstNodeOfType_frame (fun s => (s.intfData u).entryArgIdxs.resNodeValues) _ _
      (fun n s => by simp [vbTableNode]) l s
  cases stage
  case Compute =>
    simp only [specialUserData]
    refine St.when_proj (fun s => (s.intfData u).entryArgIdxs.resNodeValues) _ _ _
      (fun s => ?_)
    simp
  all_goals simp [specialUserData, hvb]

@[simp] theorem fixedSpill_resNodeValues (ctx : Context) (stage u : ShaderStage) (s : St) :
    ((fixedSpill ctx stage s).intfData u).entryArgIdxs.resNodeValues
      = (s.intfData u).entryArgIdxs.resNodeValues := by
  unfold fixedSpill
  split <;> simp

@[simp] theorem greedySpill_resNodeValues (stage u : ShaderStage) (s : St) :
    ((greedySpill stage s).intfData u).entryArgIdxs.resNodeValues
      = (s.intfData u).entryArgIdxs.resNodeValues := by
  unfold greedySpill
  simp only [St.record_resNodeValues, implies_true]
  exact St.when_proj (fun s => (s.intfData u).entryArgIdxs.resNodeValues) _ _ _
    (fun s => by simp)

theorem run_resNodeValues (ctx : Context) (stage : ShaderStage)
    (intfData : ShaderStage → InterfaceData) (inRegMask : Nat) :
    ((runEntryPointType ctx stage intfData inRegMask).intfData stage).entryArgIdxs.resNodeValues
      = ((afterPack ctx stage intfData inRegMask).intfData stage).entryArgIdxs.resNodeValues := by
  simp [runEntryPointType, afterUserData]

theorem assignNode_resNodeValues_of_ne (ctx : Context) (stage : ShaderStage) (j k : Nat)
    (n : ResourceNode) (s : St) (h : k ≠ j) :
    ((assignNode ctx stage j n s).intfData stage).entryArgIdxs.resNodeValues k
      = (s.intfData stage).entryArgIdxs.resNodeValues k := by
  unfold assignNode
  split <;> simp [St.record_intfData_same, setAt, h]

theorem packNode_resNodeValues_of_ne (ctx : Context) (stage : ShaderStage) (j k : Nat)
    (n : ResourceNode) (s : St) (h : k ≠ j) :
    ((packNode ctx stage j n s).intfData stage).entryArgIdxs.resNodeValues k
      = (s.intfData stage).entryArgIdxs.resNodeValues k := by
  unfold packNode
  dsimp only
  split_ifs
  · rfl
  · rfl
  · rfl
  · rw [assignNode_resNodeValues_of_ne _ _ _ _ _ _ h, padNode_intfData]
  · simp
  · rw [padNode_intfData]

theorem run_resNodeValues_at (ctx : Context) (stage : ShaderStage)
    (intfData : ShaderStage → InterfaceData) (inRegMask : Nat) (i : Nat)
    (hi : i < ctx.userDataNodes.length) :
    ((runEntryPointType ctx stage intfData inRegMask).intfData
        stage).entryArgIdxs.resNodeValues i
      = ((packStateAt ctx stage intfData inRegMask (i + 1)).intfData
        stage).entryArgIdxs.resNodeValues i := by
  rw [run_resNodeValues, afterPack_eq_forNodes ctx stage intfData inRegMask (i + 1)]
  exact forNodes_frame_from (fun s => (s.intfData stage).entryArgIdxs.resNodeValues i)
    (packNode ctx stage) (i + 1)
    (fun j n s hj => packNode_resNodeValues_of_ne ctx stage j i n s (by omega))
    _ (by omega) _ _

theorem registerResident_lt_length (ctx : Context) (stage : ShaderStage)
    (intfData : ShaderStage → InterfaceData) (inRegMask : Nat) (i : Nat)
    (h : registerResident ctx stage intfData inRegMask i = true) :
    i < ctx.userDataNodes.length := by
  obtain ⟨n, hn, _⟩ := registerResident_some ctx stage intfData inRegMask i h
  rcases Nat.lt_or_ge i ctx.userDataNodes.length with hlt | hge
  · exact hlt
  · rw [List.getElem?_eq_none hge] at hn
    exact Option.noConfusion hn

/-! ## Sums of sizes over prefixes of the node list -/

theorem packedUpTo_le (ctx : Context) (stage : ShaderStage) (i : Nat) :
    (((ctx.userDataNodes.take i).filter (isPacked ctx stage)).map
        ResourceNode.sizeInDwords).sum
      ≤ ((packedNodes ctx stage).map ResourceNode.sizeInDwords).sum := by
  unfold packedNodes
  conv_rhs => rw [← List.take_append_drop i ctx.userDataNodes]
  rw [List.filter_append, List.map_append, List.sum_append]
  exact Nat.le_add_right _ _

theorem packedUpTo_succ (ctx : Context) (stage : ShaderStage) (i : Nat) (n : ResourceNode)
    (hn : ctx.userDataNodes[i]? = some n) :
    (((ctx.userDataNodes.take (i + 1)).filter (isPacked ctx stage)).map
        ResourceNode.sizeInDwords).sum
      = (((ctx.userDataNodes.take i).filter (isPacked ctx stage)).map
          ResourceNode.sizeInDwords).sum
        + (if isPacked ctx stage n = true then n.sizeInDwords else 0) := by
  rw [List.take_succ, hn, List.filter_append, List.map_append, List.sum_append]
  by_cases h : isPacked ctx stage n = true
  · simp [List.filter_cons, h]
  · simp [List.filter_cons, h]

theorem residentWordsBefore_le_packed (ctx : Context) (stage : ShaderStage)
    (intfData : ShaderStage → InterfaceData) (inRegMask : Nat) (i : Nat) :
    residentWordsBefore ctx stage intfData inRegMask i
      ≤ (((ctx.userDataNodes.take i).filter (isPacked ctx stage)).map
          ResourceNode.sizeInDwords).sum := by
  induction i with
  | zero => simp [residentWordsBefore]
  | succ k ih =>
    rw [residentWordsBefore_succ]
    cases hn : ctx.userDataNodes[k]? with
    | none =>
      rw [registerResident_of_none ctx stage intfData inRegMask k hn]
      have hlen : ctx.userDataNodes.length ≤ k := by
        rcases Nat.lt_or_ge k ctx.userDataNodes.length with h | h
        · rw [List.getElem?_eq_getElem h] at hn
          exact Option.noConfusion hn
        · exact h
      rw [List.take_of_length_le (by omega)]
      rw [List.take_of_length_le hlen] at ih
      simpa using ih
    | some n =>
      rw [packedUpTo_succ ctx stage k n hn, sizeAt_of_some ctx k n hn]
      by_cases hr : registerResident ctx stage intfData inRegMask k = true
      · obtain ⟨m, hm, hp⟩ := registerResident_some ctx stage intfData inRegMask k hr
        rw [hn] at hm
        cases hm
        rw [if_pos hr, if_pos hp]
        omega
      · rw [if_neg hr]
        omega

theorem consumedBefore_eq_u32 (ctx : Context) (stage : ShaderStage)
    (intfData : ShaderStage → InterfaceData) (inRegMask : Nat) (i : Nat) :
    consumedBefore ctx stage intfData inRegMask i
      = u32 (residentWordsBefore ctx stage intfData inRegMask i) := rfl

/-- Outside the fixed layout, when the sizes of the packed nodes add up without overflow
and no spill is needed, every packed node is register-resident. -/
theorem resident_of_no_spill_greedy (ctx : Context) (stage : ShaderStage)
    (intfData : ShaderStage → InterfaceData) (inRegMask : Nat) (hst : stage ≠ .Compute)
    (hsum : ((packedNodes ctx stage).map ResourceNode.sizeInDwords).sum < 4294967296)
    (hns : (runEntryPointType ctx stage intfData inRegMask).needSpill = false)
    (i : Nat) (n : ResourceNode) (hn : ctx.userDataNodes[i]? = some n)
    (hp : isPacked ctx stage n = true) :
    registerResident ctx stage intfData inRegMask i = true := by
  rw [registerResident_iff_greedy ctx stage intfData inRegMask hst i n hn hp,
    consumedBefore_eq_u32]
  rw [run_needSpill, if_neg hst] at hns
  simp only [decide_eq_false_iff_not, Nat.not_lt] at hns
  have h1 := residentWordsBefore_le_packed ctx stage intfData inRegMask i
  have h2 := packedUpTo_succ ctx stage i n hn
  rw [if_pos hp] at h2
  have h3 := packedUpTo_le ctx stage (i + 1)
  have hav : availableSlots ctx stage intfData inRegMask
      = slotBudget ctx stage intfData inRegMask := by
    unfold availableSlots
    rw [if_neg (by omega)]
  rw [hav]
  unfold sumOfSizes at hns
  unfold u32 at hns ⊢
  omega

/-! ## The fixed layout with nodes in increasing offset order -/

theorem endInDwords_le_maxOfEnds (l : List ResourceNode) (n : ResourceNode) (h : n ∈ l) :
    endInDwords n ≤ maxOfEnds l := by
  induction l with
  | nil => simp at h
  | cons m l ih =>
    unfold maxOfEnds at ih ⊢
    simp only [List.map_cons, List.foldr_cons]
    rcases List.mem_cons.mp h with h1 | h1
    · subst h1
      exact Nat.le_max_left _ _
    · exact Nat.le_trans (ih h1) (Nat.le_max_right _ _)

theorem fillDummies_exact (ctx : Context) (off fuel w0 : Nat) (s : St)
    (hinv : s.packInv ctx w0)
    (hfuel : u32 (s.availUserDataCount + ctx.CsStartUserData) ≤ s.userDataIdx + fuel) :
    (fillDummies ctx off fuel s).actualAvailUserDataCount + s.userDataIdx
        = s.actualAvailUserDataCount + (fillDummies ctx off fuel s).userDataIdx ∧
      (fillDummies ctx off fuel s).userDataIdx
        = (if s.userDataIdx < u32 (off + ctx.CsStartUserData) ∧
              s.userDataIdx < u32 (s.availUserDataCount + ctx.CsStartUserData) then
            min (u32 (off + ctx.CsStartUserData))
              (u32 (s.availUserDataCount + ctx.CsStartUserData))
          else s.userDataIdx) := by
  induction fuel generalizing s with
  | zero =>
    have h0 : fillDummies ctx off 0 s = s := rfl
    rw [h0]
    refine ⟨rfl, ?_⟩
    rw [if_neg]
    omega
  | succ k ih =>
    rw [fillDummies]
    dsimp only
    split
    · rename_i hc
      obtain ⟨i1, i2, i3, i4⟩ := hinv
      have hu1 := u32_lt (off + ctx.CsStartUserData)
      have hu2 : u32 (s.availUserDataCount + ctx.CsStartUserData)
          ≤ s.availUserDataCount + ctx.CsStartUserData := by
        unfold u32
        exact Nat.mod_le _ _
      have hstep : ((((s.push .Int32Ty).inRegNext).userDataNext 1).consume 1).packInv ctx w0 := by
        refine ⟨?_, ?_, ?_, ?_⟩
        · simp [u32]
          omega
        · simp [u32]
          omega
        · simp [St.argWords, ArgTy.words, u32] at i3 ⊢
          omega
        · intro hcs
          have := i4 hcs
          simp [u32]
          omega
      have e1 : ((((s.push .Int32Ty).inRegNext).userDataNext 1).consume 1).userDataIdx
          = s.userDataIdx + 1 := by
        simp [u32]
        omega
      have e2 : ((((s.push .Int32Ty).inRegNext).userDataNext 1).consume
          1).actualAvailUserDataCount = s.actualAvailUserDataCount + 1 := by
        simp [u32]
        omega
      have e3 : ((((s.push .Int32Ty).inRegNext).userDataNext 1).consume
          1).availUserDataCount = s.availUserDataCount := by
        simp
      obtain ⟨j1, j2⟩ := ih _ hstep (by rw [e1, e3]; omega)
      rw [e1, e2] at j1
      rw [e1, e3] at j2
      refine ⟨by omega, ?_⟩
      rw [j2]
      split
      · rfl
      · omega
    · rename_i hc
      exact ⟨rfl, rfl⟩

theorem sorted_at (ctx : Context) (stage : ShaderStage)
    (hs : (packedNodes ctx stage).Pairwise
      (fun a b => a.offsetInDwords + a.sizeInDwords ≤ b.offsetInDwords))
    (j k : Nat) (a b : ResourceNode) (hjk : j < k)
    (ha : ctx.userDataNodes[j]? = some a) (hb : ctx.userDataNodes[k]? = some b)
    (hpa : isPacked ctx stage a = true) (hpb : isPacked ctx stage b = true) :
    a.offsetInDwords + a.sizeInDwords ≤ b.offsetInDwords := by
  unfold packedNodes at hs
  rw [← List.take_append_drop k ctx.userDataNodes, List.filter_append,
    List.pairwise_append] at hs
  refine hs.2.2 a ?_ b ?_
  · rw [List.mem_filter]
    refine ⟨?_, hpa⟩
    have : (ctx.userDataNodes.take k)[j]? = some a := by
      rw [List.getElem?_take_of_lt hjk, ha]
    exact List.getElem?_mem this
  · rw [List.mem_filter]
    refine ⟨?_, hpb⟩
    have : (ctx.userDataNodes.drop k)[0]? = some b := by
      rw [List.getElem?_drop, Nat.add_zero, hb]
    exact List.getElem?_mem this

theorem mem_packedNodes_of_getElem (ctx : Context) (stage : ShaderStage) (i : Nat)
    (n : ResourceNode) (hn : ctx.userDataNodes[i]? = some n)
    (hp : isPacked ctx stage n = true) : n ∈ packedNodes ctx stage := by
  unfold packedNodes
  rw [List.mem_filter]
  exact ⟨List.getElem?_mem hn, hp⟩

theorem beforePack_userDataIdx_fixed (ctx : Context)
    (intfData : ShaderStage → InterfaceData) (inRegMask : Nat)
    (hok : (beforePack ctx .Compute intfData inRegMask).ok = true) :
    (beforePack ctx .Compute intfData inRegMask).userDataIdx = 2 := by
  have h2 : (decideSpill ctx .Compute
      (afterReserve ctx .Compute intfData inRegMask)).userDataIdx = 2 := by
    rw [(decideSpill_userDataIdx ctx .Compute _).1]
    unfold afterReserve
    rw [(reserveSpecial_flags ctx .Compute _).2.2]
    exact (afterScan_lds ctx .Compute intfData inRegMask).2.1
  unfold beforePack allocStreamOut at hok ⊢
  split
  · rename_i hc
    rw [if_pos hc] at hok
    rcases firstNodeOfType_cases .StreamOutTableVaPtr (allocStreamOutNode .Compute)
      ctx.userDataNodes (decideSpill ctx .Compute (afterReserve ctx .Compute intfData inRegMask))
      with h | ⟨n, h⟩
    · rw [h, h2]
    · rw [h] at hok
      simp [allocStreamOutNode] at hok
  · exact h2

/-- In the fixed layout, in a run without failure whose packed nodes are declared in
increasing offset order with all ends inside the fixed range, every packed node is
register-resident. -/
theorem packStateAt_fixed (ctx : Context)
    (intfData : ShaderStage → InterfaceData) (inRegMask : Nat)
    (hok : (afterPack ctx .Compute intfData inRegMask).ok = true)
    (hMax : ctx.MaxUserDataCount < 4294967296)
    (hCs : ctx.CsStartUserData = 2) (hMaxCs : ctx.MaxCsUserDataCount + 2 < 4294967296)
    (hends : ∀ m ∈ packedNodes ctx .Compute,
      m.offsetInDwords + m.sizeInDwords ≤ ctx.MaxCsUserDataCount)
    (hsorted : (packedNodes ctx .Compute).Pairwise
      (fun a b => a.offsetInDwords + a.sizeInDwords ≤ b.offsetInDwords)) (i : Nat) :
    (packStateAt ctx .Compute intfData inRegMask i).userDataIdx
        = (packStateAt ctx .Compute intfData inRegMask i).actualAvailUserDataCount + 2 ∧
      (∀ (k : Nat) (b : ResourceNode), i ≤ k → ctx.userDataNodes[k]? = some b →
        isPacked ctx .Compute b = true →
        (packStateAt ctx .Compute intfData inRegMask i).actualAvailUserDataCount
          ≤ b.offsetInDwords) ∧
      (∀ (j : Nat) (a : ResourceNode), j < i → ctx.userDataNodes[j]? = some a →
        isPacked ctx .Compute a = true →
        registerResident ctx .Compute intfData inRegMask j = true) := by
  induction i with
  | zero =>
    have h0 := packStateAt_ok ctx .Compute intfData inRegMask hok 0
    rw [packStateAt_zero] at h0 ⊢
    rw [beforePack_userDataIdx_fixed ctx intfData inRegMask h0, beforePack_actual]
    refine ⟨rfl, fun _ _ _ _ _ => Nat.zero_le _, fun j _ hj => absurd hj (Nat.not_lt_zero j)⟩
  | succ i ih =>
    obtain ⟨q1, q2, q3⟩ := ih
    have hinv := packStateAt_inv ctx .Compute intfData inRegMask hok hMax i
    have hstep := packStateAt_step ctx .Compute intfData inRegMask hok hMax _ i hinv
    have hav : (packStateAt ctx .Compute intfData inRegMask i).availUserDataCount
        = ctx.MaxCsUserDataCount := by
      rw [run_avail_eq_of_decided (packStateAt_decided ctx .Compute intfData inRegMask i),
        run_avail]
      simp
    cases hn : ctx.userDataNodes[i]? with
    | none =>
      rw [packStateAt_succ_of_none ctx .Compute intfData inRegMask i hn]
      refine ⟨q1, fun k b hk => q2 k b (by omega), fun j a hj ha hp => ?_⟩
      rcases Nat.lt_or_ge j i with h | h
      · exact q3 j a h ha hp
      · have : j = i := by omega
        subst this
        rw [hn] at ha
        exact Option.noConfusion ha
    | some n =>
      by_cases hp : isPacked ctx .Compute n = true
      · -- the node is padded up to its offset and fits
        have hoff := q2 i n (Nat.le_refl i) hn hp
        have hend := hends n (mem_packedNodes_of_getElem ctx .Compute i n hn hp)
        have hf := fitStateAt_eq ctx .Compute intfData inRegMask i n hn
        have hpad : padNode ctx .Compute n (packStateAt ctx .Compute intfData inRegMask i)
            = fillDummies ctx n.offsetInDwords
              (u32 ((packStateAt ctx .Compute intfData inRegMask i).availUserDataCount
                + ctx.CsStartUserData)
                - (packStateAt ctx .Compute intfData inRegMask i).userDataIdx)
              (packStateAt ctx .Compute intfData inRegMask i) := by
          unfold padNode useFixedLayout
          simp
        obtain ⟨x1, x2⟩ := fillDummies_exact ctx n.offsetInDwords
          (u32 ((packStateAt ctx .Compute intfData inRegMask i).availUserDataCount
            + ctx.CsStartUserData)
            - (packStateAt ctx .Compute intfData inRegMask i).userDataIdx) _
          (packStateAt ctx .Compute intfData inRegMask i) hinv (by omega)
        rw [← hpad, ← hf] at x1 x2
        rw [hav, hCs] at x2
        have hA : u32 (n.offsetInDwords + 2) = n.offsetInDwords + 2 := by
          unfold u32
          omega
        have hB : u32 (ctx.MaxCsUserDataCount + 2) = ctx.MaxCsUserDataCount + 2 := by
          unfold u32
          omega
        rw [hA, hB] at x2
        have hfidx : (fitStateAt ctx .Compute intfData inRegMask i).userDataIdx
            = n.offsetInDwords + 2 := by
          rw [x2]
          split
          · omega
          · omega
        have hfact : (fitStateAt ctx .Compute intfData inRegMask i).actualAvailUserDataCount
            = n.offsetInDwords := by
          omega
        have hfav : (fitStateAt ctx .Compute intfData inRegMask i).availUserDataCount
            = ctx.MaxCsUserDataCount := by
          rw [run_avail_eq_of_decided (fitStateAt_decided ctx .Compute intfData inRegMask i),
            run_avail]
          simp
        have hres : registerResident ctx .Compute intfData inRegMask i = true := by
          rw [registerResident_eq ctx .Compute intfData inRegMask i n hn, hp, ← hf]
          unfold fits
          rw [hfact, hfav]
          have : u32 (n.offsetInDwords + n.sizeInDwords)
              = n.offsetInDwords + n.sizeInDwords := by
            unfold u32
            omega
          rw [this]
          simpa using hend
        obtain ⟨_, _, _, s4, _, s6⟩ := hstep
        obtain ⟨_, _, _, r4, _⟩ := s6 hres
        rw [hres, sizeAt_of_some ctx i n hn] at s4
        simp only [if_true] at s4
        rw [sizeAt_of_some ctx i n hn, hfidx] at r4
        have hinv1 := packStateAt_inv ctx .Compute intfData inRegMask hok hMax (i + 1)
        have hact1 :
            (packStateAt ctx .Compute intfData inRegMask (i + 1)).actualAvailUserDataCount
              = n.offsetInDwords + n.sizeInDwords := by
          rcases packStateAt_succ_cases ctx .Compute intfData inRegMask i n hn with
            ⟨hp', _⟩ | ⟨_, _, he⟩ | ⟨_, hr', _⟩
          · rw [hp] at hp'
            exact Bool.noConfusion hp'
          · rw [he, assignNode_actual, hfact]
            unfold u32
            omega
          · rw [hres] at hr'
            exact Bool.noConfusion hr'
        refine ⟨by omega, fun k b hk hb hpb => ?_, fun j a hj ha hpa => ?_⟩
        · rw [hact1]
          exact sorted_at ctx .Compute hsorted i k n b (by omega) hn hb hp hpb
        · rcases Nat.lt_or_ge j i with h | h
          · exact q3 j a h ha hpa
          · have : j = i := by omega
            subst this
            exact hres
      · have hp' : isPacked ctx .Compute n = false := by
          simpa using hp
        rw [packStateAt_succ ctx .Compute intfData inRegMask i n hn,
          packNode_of_not_packed ctx .Compute i n _ hp']
        refine ⟨q1, fun k b hk => q2 k b (by omega), fun j a hj ha hpa => ?_⟩
        rcases Nat.lt_or_ge j i with h | h
        · exact q3 j a h ha hpa
        · have : j = i := by omega
          subst this
          rw [hn] at ha
          cases ha
          exact absurd hpa hp

theorem spillOffset_set (ctx : Context) (stage : ShaderStage)
    (intfData : ShaderStage → InterfaceData) (inRegMask : Nat)
    (hns : (runEntryPointType ctx stage intfData inRegMask).needSpill = true)
    (i : Nat) (n : ResourceNode) (hn : ctx.userDataNodes[i]? = some n)
    (hp : isPacked ctx stage n = true)
    (hr : registerResident ctx stage intfData inRegMask i = false)
    (hoff : n.offsetInDwords ≠ ctx.InvalidValue) :
    ((runEntryPointType ctx stage intfData inRegMask).intfData stage).spillTable.offsetInDwords
      ≠ ctx.InvalidValue := by
  have hfs : (fitStateAt ctx stage intfData inRegMask i).needSpill = true := by
    rw [run_needSpill_eq_of_decided (fitStateAt_decided ctx stage intfData inRegMask i)]
    exact hns
  have h1 : ((packStateAt ctx stage intfData inRegMask (i + 1)).intfData
      stage).spillTable.offsetInDwords ≠ ctx.InvalidValue := by
    rcases packStateAt_succ_cases ctx stage intfData inRegMask i n hn with
      ⟨hp', _⟩ | ⟨_, hr', _⟩ | ⟨_, _, he⟩
    · rw [hp] at hp'
      exact Bool.noConfusion hp'
    · rw [hr] at hr'
      exact Bool.noConfusion hr'
    · rw [he]
      by_cases hc : ((fitStateAt ctx stage intfData inRegMask i).intfData
          stage).spillTable.offsetInDwords = ctx.InvalidValue
      · rw [if_pos ⟨hfs, hc⟩, St.setIntf_intfData_same]
        exact hoff
      · rw [if_neg (fun h => hc h.2)]
        exact hc
  rw [run_spillOffset, afterPack_eq_forNodes ctx stage intfData inRegMask (i + 1),
    forNodes_packNode_spillOffset_of_ne ctx stage _ _ _ h1]
  exact h1

/-! ## Spill decision and size of the spill table -/

/-- Claim C1, as amended. A spill table is created (the local `needSpill` guards both blocks
that add the spill-table pointer and assign `spillTable.sizeInDwords`) exactly when, for the
compute stage, the maximum of `offsetInDwords + sizeInDwords` over the packed nodes exceeds
`MaxCsUserDataCount`, and for every other stage, the sum of `sizeInDwords` over the packed
nodes (active, neither `IndirectUserDataVaPtr` nor `StreamOutTableVaPtr`; the sum taken in
`uint32_t`) exceeds the slot budget. The size of the spill table is then that maximum and is
left untouched otherwise. -/
theorem spill_created_iff (ctx : Context) (stage : ShaderStage)
    (intfData : ShaderStage → InterfaceData) (inRegMask : Nat) :
    ((runEntryPointType ctx stage intfData inRegMask).needSpill = true ↔
      if stage = .Compute then ctx.MaxCsUserDataCount < maxOfEnds (packedNodes ctx stage)
      else slotBudget ctx stage intfData inRegMask < sumOfSizes ctx stage) ∧
    ((runEntryPointType ctx stage intfData inRegMask).intfData stage).spillTable.sizeInDwords
      = (if (runEntryPointType ctx stage intfData inRegMask).needSpill = true then
          maxOfEnds (packedNodes ctx stage)
        else (intfData stage).spillTable.sizeInDwords) := by
  refine ⟨?_, run_spillSize ctx stage intfData inRegMask⟩
  rw [run_needSpill]
  by_cases h : stage = .Compute <;> simp [h]

/-- Claim C1 fails as stated: in the compute stage, with 16 user data registers and one
active one-dword node at dword offset 20, a spill table is created although the sum of the
sizes (1) does not exceed the slot budget (14). -/
theorem spill_created_iff_counterexample :
    (runEntryPointType (plainCtx 16 32 [bufferNode 1 20 0] [(0, 0)]) .Compute
        (fun _ => zeroIntf) 0).needSpill = true ∧
      ¬ (slotBudget (plainCtx 16 32 [bufferNode 1 20 0] [(0, 0)]) .Compute
          (fun _ => zeroIntf) 0
        < sumOfSizes (plainCtx 16 32 [bufferNode 1 20 0] [(0, 0)]) .Compute) := by
  decide

/-- Claim C2, as amended. Whenever a spill table is created, on the path with and on the
path without fixed layout, `spillTable.sizeInDwords` is the maximum of
`offsetInDwords + sizeInDwords` (in `uint32_t`) over the active top-level nodes other than
`IndirectUserDataVaPtr` and `StreamOutTableVaPtr` nodes, whatever number of them is
register-resident. -/
theorem spill_size_eq_max (ctx : Context) (stage : ShaderStage)
    (intfData : ShaderStage → InterfaceData) (inRegMask : Nat)
    (h : (runEntryPointType ctx stage intfData inRegMask).needSpill = true) :
    ((runEntryPointType ctx stage intfData inRegMask).intfData stage).spillTable.sizeInDwords
      = maxOfEnds (packedNodes ctx stage) := by
  rw [run_spillSize, if_pos h]

/-- Witness of `spill_size_eq_max`: the vertex stage with a budget of 4 and three active
nodes of two dwords each at the offsets 0, 2 and 4. -/
theorem spill_size_eq_max_witness :
    (runEntryPointType
        (plainCtx 6 17 [bufferNode 2 0 0, bufferNode 2 2 1, bufferNode 2 4 2]
          [(0, 0), (0, 1), (0, 2)]) .Vertex (fun _ => zeroIntf) 0).needSpill = true ∧
      ((runEntryPointType
        (plainCtx 6 17 [bufferNode 2 0 0, bufferNode 2 2 1, bufferNode 2 4 2]
          [(0, 0), (0, 1), (0, 2)]) .Vertex (fun _ => zeroIntf) 0).intfData
            .Vertex).spillTable.sizeInDwords
        = maxOfEnds (packedNodes
            (plainCtx 6 17 [bufferNode 2 0 0, bufferNode 2 2 1, bufferNode 2 4 2]
              [(0, 0), (0, 1), (0, 2)]) .Vertex) :=
  ⟨by decide, spill_size_eq_max _ _ _ _ (by decide)⟩

/-- Claim C2 fails as stated: in the vertex stage with 6 user data registers, two active
three-dword nodes at the offsets 0 and 3 and a vertex buffer table node
(`IndirectUserDataVaPtr`, always active) at offset 20, the spill table has size 6, not the
maximum 21 over all active nodes. -/
theorem spill_size_eq_max_counterexample :
    (runEntryPointType
        (plainCtx 6 17
          [bufferNode 3 0 0, bufferNode 3 3 1, .mk .IndirectUserDataVaPtr 1 20 0 0 []]
          [(0, 0), (0, 1)]) .Vertex (fun _ => zeroIntf) 0).needSpill = true ∧
      ((runEntryPointType
        (plainCtx 6 17
          [bufferNode 3 0 0, bufferNode 3 3 1, .mk .IndirectUserDataVaPtr 1 20 0 0 []]
          [(0, 0), (0, 1)]) .Vertex (fun _ => zeroIntf) 0).intfData
            .Vertex).spillTable.sizeInDwords
        ≠ maxOfActiveEnds
            (plainCtx 6 17
              [bufferNode 3 0 0, bufferNode 3 3 1, .mk .IndirectUserDataVaPtr 1 20 0 0 []]
              [(0, 0), (0, 1)]) .Vertex := by
  decide

/-! ## Base offset of the spill table -/

/-- Claim C3, as amended. On the path without fixed layout, when spilling is required, the
recorded `spillTable.offsetInDwords` is the declared offset of the first node in
declaration order that the packing loop handles and that does not fit, provided that
offset is not the invalid marker `InvalidValue`. -/
theorem spill_offset_first_unfit (ctx : Context) (stage : ShaderStage)
    (intfData : ShaderStage → InterfaceData) (inRegMask : Nat) (hst : stage ≠ .Compute)
    (hspill : (runEntryPointType ctx stage intfData inRegMask).needSpill = true)
    (i : Nat) (n : ResourceNode) (hn : ctx.userDataNodes[i]? = some n)
    (hp : isPacked ctx stage n = true)
    (hi : registerResident ctx stage intfData inRegMask i = false)
    (hfirst : allResidentBefore ctx stage intfData inRegMask i)
    (hoff : n.offsetInDwords ≠ ctx.InvalidValue) :
    ((runEntryPointType ctx stage intfData inRegMask).intfData stage).spillTable.offsetInDwords
      = n.offsetInDwords :=
  spillOffset_of_first ctx stage intfData inRegMask
    (beforePack_spillOffset_greedy ctx stage intfData inRegMask hst) hspill i n hn hp hi hfirst
    hoff

/-- Witness of `spill_offset_first_unfit`: the vertex stage with a budget of 4 and three
active nodes of two dwords at the offsets 0, 10 and 4; the second node is the first that
does not fit, and the spill offset is 10. -/
theorem spill_offset_first_unfit_witness :
    ((runEntryPointType
        (plainCtx 6 17 [bufferNode 2 0 0, bufferNode 2 10 1, bufferNode 2 4 2]
          [(0, 0), (0, 1), (0, 2)]) .Vertex (fun _ => zeroIntf) 0).intfData
            .Vertex).spillTable.offsetInDwords = 10 :=
  spill_offset_first_unfit
    (plainCtx 6 17 [bufferNode 2 0 0, bufferNode 2 10 1, bufferNode 2 4 2]
      [(0, 0), (0, 1), (0, 2)]) .Vertex (fun _ => zeroIntf) 0 (by decide) (by decide)
    1 (bufferNode 2 10 1) rfl (by decide) (by decide)
    (by
      intro j hj m hm _
      have hj0 : j = 0 := by omega
      subst hj0
      decide)
    (by decide)

/-- Claim C3 fails as stated: in the vertex stage with a budget of 4 and three active nodes
of three dwords at the offsets 0, `0xFFFFFFFF` and 7, the second node is the first that does
not fit, yet the recorded spill offset is 7, the offset of the third node. -/
theorem spill_offset_first_unfit_counterexample :
    (runEntryPointType
        (plainCtx 6 17 [bufferNode 3 0 0, bufferNode 3 4294967295 1, bufferNode 3 7 2]
          [(0, 0), (0, 1), (0, 2)]) .Vertex (fun _ => zeroIntf) 0).needSpill = true ∧
      registerResident
        (plainCtx 6 17 [bufferNode 3 0 0, bufferNode 3 4294967295 1, bufferNode 3 7 2]
          [(0, 0), (0, 1), (0, 2)]) .Vertex (fun _ => zeroIntf) 0 0 = true ∧
      registerResident
        (plainCtx 6 17 [bufferNode 3 0 0, bufferNode 3 4294967295 1, bufferNode 3 7 2]
          [(0, 0), (0, 1), (0, 2)]) .Vertex (fun _ => zeroIntf) 0 1 = false ∧
      ((runEntryPointType
        (plainCtx 6 17 [bufferNode 3 0 0, bufferNode 3 4294967295 1, bufferNode 3 7 2]
          [(0, 0), (0, 1), (0, 2)]) .Vertex (fun _ => zeroIntf) 0).intfData
            .Vertex).spillTable.offsetInDwords = 7 ∧
      (bufferNode 3 4294967295 1).offsetInDwords ≠ 7 := by
  decide

/-! ## Which nodes are register-resident -/

/-- Claim C4. On the path without fixed layout, a node handled by the packing loop is
register-resident exactly when the words consumed by the register-resident nodes in front of
it plus its `sizeInDwords` is at most the available slots (the slot budget, less one slot
for the spill-table pointer when the sum of the sizes exceeds the budget); all sums are the
`uint32_t` sums of the source. In the vertex stage with a budget of 4 and three active nodes
of two dwords at the offsets 0, 2 and 4, the first node is register-resident at argument 2
and takes the user data registers 2 and 3, the second and the third are not
register-resident, the spill offset is the offset 2 of the second node and the spill size is
the maximum 6 of offset plus size. -/
theorem resident_iff_fits :
    (∀ (ctx : Context) (stage : ShaderStage) (intfData : ShaderStage → InterfaceData)
        (inRegMask : Nat), stage ≠ .Compute →
      ∀ (i : Nat) (n : ResourceNode), ctx.userDataNodes[i]? = some n →
        isPacked ctx stage n = true →
        (registerResident ctx stage intfData inRegMask i = true ↔
          u32 (consumedBefore ctx stage intfData inRegMask i + n.sizeInDwords)
            ≤ availableSlots ctx stage intfData inRegMask)) ∧
    (slotBudget
        (plainCtx 6 17 [bufferNode 2 0 0, bufferNode 2 2 1, bufferNode 2 4 2]
          [(0, 0), (0, 1), (0, 2)]) .Vertex (fun _ => zeroIntf) 0 = 4 ∧
      registerResident
        (plainCtx 6 17 [bufferNode 2 0 0, bufferNode 2 2 1, bufferNode 2 4 2]
          [(0, 0), (0, 1), (0, 2)]) .Vertex (fun _ => zeroIntf) 0 0 = true ∧
      registerResident
        (plainCtx 6 17 [bufferNode 2 0 0, bufferNode 2 2 1, bufferNode 2 4 2]
          [(0, 0), (0, 1), (0, 2)]) .Vertex (fun _ => zeroIntf) 0 1 = false ∧
      registerResident
        (plainCtx 6 17 [bufferNode 2 0 0, bufferNode 2 2 1, bufferNode 2 4 2]
          [(0, 0), (0, 1), (0, 2)]) .Vertex (fun _ => zeroIntf) 0 2 = false ∧
      ((runEntryPointType
        (plainCtx 6 17 [bufferNode 2 0 0, bufferNode 2 2 1, bufferNode 2 4 2]
          [(0, 0), (0, 1), (0, 2)]) .Vertex (fun _ => zeroIntf) 0).intfData
            .Vertex).entryArgIdxs.resNodeValues 0 = 2 ∧
      (runEntryPointType
        (plainCtx 6 17 [bufferNode 2 0 0, bufferNode 2 2 1, bufferNode 2 4 2]
          [(0, 0), (0, 1), (0, 2)]) .Vertex (fun _ => zeroIntf) 0).argTys
        = [.Int32Ty, .Int32Ty, .VectorInt32 2, .Int32Ty] ∧
      ((runEntryPointType
        (plainCtx 6 17 [bufferNode 2 0 0, bufferNode 2 2 1, bufferNode 2 4 2]
          [(0, 0), (0, 1), (0, 2)]) .Vertex (fun _ => zeroIntf) 0).intfData
            .Vertex).userDataMap 2 = 0 ∧
      ((runEntryPointType
        (plainCtx 6 17 [bufferNode 2 0 0, bufferNode 2 2 1, bufferNode 2 4 2]
          [(0, 0), (0, 1), (0, 2)]) .Vertex (fun _ => zeroIntf) 0).intfData
            .Vertex).userDataMap 3 = 1 ∧
      ((runEntryPointType
        (plainCtx 6 17 [bufferNode 2 0 0, bufferNode 2 2 1, bufferNode 2 4 2]
          [(0, 0), (0, 1), (0, 2)]) .Vertex (fun _ => zeroIntf) 0).intfData
            .Vertex).spillTable.offsetInDwords = 2 ∧
      ((runEntryPointType
        (plainCtx 6 17 [bufferNode 2 0 0, bufferNode 2 2 1, bufferNode 2 4 2]
          [(0, 0), (0, 1), (0, 2)]) .Vertex (fun _ => zeroIntf) 0).intfData
            .Vertex).spillTable.sizeInDwords = 6 ∧
      maxOfEnds [bufferNode 2 0 0, bufferNode 2 2 1, bufferNode 2 4 2] = 6) := by
  refine ⟨?_, by decide⟩
  intro ctx stage intfData inRegMask hst i n hn hp
  exact registerResident_iff_greedy ctx stage intfData inRegMask hst i n hn hp

/-- Witness of `resident_iff_fits`: in the vertex stage with a budget of 4 and three active
nodes of two dwords, the first node fits. -/
theorem resident_iff_fits_witness :
    registerResident
        (plainCtx 6 17 [bufferNode 2 0 0, bufferNode 2 2 1, bufferNode 2 4 2]
          [(0, 0), (0, 1), (0, 2)]) .Vertex (fun _ => zeroIntf) 0 0 = true :=
  (resident_iff_fits.1
    (plainCtx 6 17 [bufferNode 2 0 0, bufferNode 2 2 1, bufferNode 2 4 2]
      [(0, 0), (0, 1), (0, 2)]) .Vertex (fun _ => zeroIntf) 0 (by decide)
    0 (bufferNode 2 0 0) rfl (by decide)).mpr (by decide)

/-- Claim C5, as amended. On the path without fixed layout, once a node handled by the
packing loop fails to fit, every later such node whose `sizeInDwords` is at least that of
the failing node is not register-resident either, provided no size added to the available
slots overflows 32 bits. A later, smaller node may still be register-resident. -/
theorem later_not_smaller_spilled (ctx : Context) (stage : ShaderStage)
    (intfData : ShaderStage → InterfaceData) (inRegMask : Nat) (hst : stage ≠ .Compute)
    (hno : ∀ m ∈ ctx.userDataNodes,
      m.sizeInDwords + availableSlots ctx stage intfData inRegMask < 4294967296)
    (i k : Nat) (n m : ResourceNode) (hik : i < k)
    (hn : ctx.userDataNodes[i]? = some n) (hm : ctx.userDataNodes[k]? = some m)
    (hpn : isPacked ctx stage n = true) (hpm : isPacked ctx stage m = true)
    (hi : registerResident ctx stage intfData inRegMask i = false)
    (hsize : n.sizeInDwords ≤ m.sizeInDwords) :
    registerResident ctx stage intfData inRegMask k = false := by
  have h1 := consumedBefore_mono ctx stage intfData inRegMask hst hno i k (Nat.le_of_lt hik)
  have hci := consumedBefore_le_avail ctx stage intfData inRegMask hst i
  have hck := consumedBefore_le_avail ctx stage intfData inRegMask hst k
  have hni := hno n (List.getElem?_mem hn)
  have hnk := hno m (List.getElem?_mem hm)
  have hnot : ¬ (u32 (consumedBefore ctx stage intfData inRegMask i + n.sizeInDwords)
      ≤ availableSlots ctx stage intfData inRegMask) := by
    intro h
    have := (registerResident_iff_greedy ctx stage intfData inRegMask hst i n hn hpn).mpr h
    rw [hi] at this
    cases this
  rw [u32_of_lt (by omega)] at hnot
  cases hk : registerResident ctx stage intfData inRegMask k with
  | false => rfl
  | true =>
    have := (registerResident_iff_greedy ctx stage intfData inRegMask hst k m hm hpm).mp hk
    rw [u32_of_lt (by omega)] at this
    omega

/-- Witness of `later_not_smaller_spilled`: the vertex stage with a budget of 4 and three
active nodes of two dwords; the second node fails to fit and so does the third. -/
theorem later_not_smaller_spilled_witness :
    registerResident
        (plainCtx 6 17 [bufferNode 2 0 0, bufferNode 2 2 1, bufferNode 2 4 2]
          [(0, 0), (0, 1), (0, 2)]) .Vertex (fun _ => zeroIntf) 0 2 = false :=
  later_not_smaller_spilled
    (plainCtx 6 17 [bufferNode 2 0 0, bufferNode 2 2 1, bufferNode 2 4 2]
      [(0, 0), (0, 1), (0, 2)]) .Vertex (fun _ => zeroIntf) 0 (by decide) (by decide)
    1 2 (bufferNode 2 2 1) (bufferNode 2 4 2) (by decide) rfl rfl (by decide) (by decide)
    (by decide) (by decide)

/-- Claim C5 fails as stated: in the vertex stage with a budget of 4 and three active nodes
of 2, 3 and 1 dwords, the second node is the first that fails to fit, yet the third node,
declared after it, is register-resident. -/
theorem later_spilled_counterexample :
    registerResident
        (plainCtx 6 17 [bufferNode 2 0 0, bufferNode 3 2 1, bufferNode 1 5 2]
          [(0, 0), (0, 1), (0, 2)]) .Vertex (fun _ => zeroIntf) 0 0 = true ∧
      registerResident
        (plainCtx 6 17 [bufferNode 2 0 0, bufferNode 3 2 1, bufferNode 1 5 2]
          [(0, 0), (0, 1), (0, 2)]) .Vertex (fun _ => zeroIntf) 0 1 = false ∧
      registerResident
        (plainCtx 6 17 [bufferNode 2 0 0, bufferNode 3 2 1, bufferNode 1 5 2]
          [(0, 0), (0, 1), (0, 2)]) .Vertex (fun _ => zeroIntf) 0 2 = true ∧
      ((runEntryPointType
        (plainCtx 6 17 [bufferNode 2 0 0, bufferNode 3 2 1, bufferNode 1 5 2]
          [(0, 0), (0, 1), (0, 2)]) .Vertex (fun _ => zeroIntf) 0).intfData
            .Vertex).entryArgIdxs.resNodeValues 2 = 3 := by
  decide

/-- Claim C6, as amended. Whenever a spill table is created and a node handled by the
packing loop is not register-resident, the recorded `spillTable.offsetInDwords` is the offset
of the first such node in declaration order, for every node list (provided that offset is
not the invalid marker and, on the path with fixed layout, the interface data came with the
invalid marker as spill offset); and when the nodes are declared in non-decreasing offset
order, it is the lowest offset among the nodes routed to the spill table. -/
theorem spill_offset_lowest_of_sorted (ctx : Context) (stage : ShaderStage)
    (intfData : ShaderStage → InterfaceData) (inRegMask : Nat)
    (hinit : stage = .Compute →
      (intfData .Compute).spillTable.offsetInDwords = ctx.InvalidValue)
    (hspill : (runEntryPointType ctx stage intfData inRegMask).needSpill = true)
    (i : Nat) (n : ResourceNode) (hn : ctx.userDataNodes[i]? = some n)
    (hp : isPacked ctx stage n = true)
    (hi : registerResident ctx stage intfData inRegMask i = false)
    (hfirst : allResidentBefore ctx stage intfData inRegMask i)
    (hoff : n.offsetInDwords ≠ ctx.InvalidValue) :
    ((runEntryPointType ctx stage intfData inRegMask).intfData stage).spillTable.offsetInDwords
        = n.offsetInDwords ∧
      ((∀ (j k : Nat) (a b : ResourceNode), j < k → ctx.userDataNodes[j]? = some a →
          ctx.userDataNodes[k]? = some b → isPacked ctx stage a = true →
          isPacked ctx stage b = true → a.offsetInDwords ≤ b.offsetInDwords) →
        ∀ (k : Nat) (m : ResourceNode), ctx.userDataNodes[k]? = some m →
          isPacked ctx stage m = true →
          registerResident ctx stage intfData inRegMask k = false →
          ((runEntryPointType ctx stage intfData inRegMask).intfData
            stage).spillTable.offsetInDwords ≤ m.offsetInDwords) := by
  have hinit' : ((beforePack ctx stage intfData inRegMask).intfData
      stage).spillTable.offsetInDwords = ctx.InvalidValue := by
    by_cases hc : stage = .Compute
    · subst hc
      rw [beforePack_spillOffset_fixed]
      exact hinit rfl
    · exact beforePack_spillOffset_greedy ctx stage intfData inRegMask hc
  have h1 := spillOffset_of_first ctx stage intfData inRegMask hinit' hspill i n hn hp hi
    hfirst hoff
  refine ⟨h1, ?_⟩
  intro hsorted k m hm hpm hk
  rw [h1]
  rcases Nat.lt_trichotomy k i with hlt | heq | hgt
  · have := hfirst k hlt m hm hpm
    rw [hk] at this
    cases this
  · subst heq
    rw [hn] at hm
    cases hm
    exact Nat.le_refl _
  · exact hsorted i k n m hgt hn hm hp hpm

/-- Witness of `spill_offset_lowest_of_sorted`: the vertex stage with a budget of 4 and
three active nodes of two dwords at the offsets 0, 2 and 4, declared in increasing offset
order; the spill offset is 2, the offset of the second node, and it is at most the offset of
every node that is not register-resident. With the offsets 0, 10 and 4, not in increasing
order, the spill offset is 10, the offset of the second node, the first node that is not
register-resident. -/
theorem spill_offset_lowest_of_sorted_witness :
    ((runEntryPointType
        (plainCtx 6 17 [bufferNode 2 0 0, bufferNode 2 2 1, bufferNode 2 4 2]
          [(0, 0), (0, 1), (0, 2)]) .Vertex (fun _ => zeroIntf) 0).intfData
            .Vertex).spillTable.offsetInDwords = (bufferNode 2 2 1).offsetInDwords ∧
      (∀ (k : Nat) (m : ResourceNode),
        (plainCtx 6 17 [bufferNode 2 0 0, bufferNode 2 2 1, bufferNode 2 4 2]
          [(0, 0), (0, 1), (0, 2)]).userDataNodes[k]? = some m →
        isPacked
          (plainCtx 6 17 [bufferNode 2 0 0, bufferNode 2 2 1, bufferNode 2 4 2]
            [(0, 0), (0, 1), (0, 2)]) .Vertex m = true →
        registerResident
          (plainCtx 6 17 [bufferNode 2 0 0, bufferNode 2 2 1, bufferNode 2 4 2]
            [(0, 0), (0, 1), (0, 2)]) .Vertex (fun _ => zeroIntf) 0 k = false →
        ((runEntryPointType
          (plainCtx 6 17 [bufferNode 2 0 0, bufferNode 2 2 1, bufferNode 2 4 2]
            [(0, 0), (0, 1), (0, 2)]) .Vertex (fun _ => zeroIntf) 0).intfData
              .Vertex).spillTable.offsetInDwords ≤ m.offsetInDwords) ∧
      ((runEntryPointType
        (plainCtx 6 17 [bufferNode 2 0 0, bufferNode 2 10 1, bufferNode 2 4 2]
          [(0, 0), (0, 1), (0, 2)]) .Vertex (fun _ => zeroIntf) 0).intfData
            .Vertex).spillTable.offsetInDwords = (bufferNode 2 10 1).offsetInDwords :=
  ⟨(spill_offset_lowest_of_sorted
      (plainCtx 6 17 [bufferNode 2 0 0, bufferNode 2 2 1, bufferNode 2 4 2]
        [(0, 0), (0, 1), (0, 2)]) .Vertex (fun _ => zeroIntf) 0 (by decide) (by decide)
      1 (bufferNode 2 2 1) rfl (by decide) (by decide)
      (by
        intro j hj m hm _
        have hj0 : j = 0 := by omega
        subst hj0
        decide)
      (by decide)).1,
    (spill_offset_lowest_of_sorted
      (plainCtx 6 17 [bufferNode 2 0 0, bufferNode 2 2 1, bufferNode 2 4 2]
        [(0, 0), (0, 1), (0, 2)]) .Vertex (fun _ => zeroIntf) 0 (by decide) (by decide)
      1 (bufferNode 2 2 1) rfl (by decide) (by decide)
      (by
        intro j hj m hm _
        have hj0 : j = 0 := by omega
        subst hj0
        decide)
      (by decide)).2
      (by
        intro j k a b hjk ha hb _ _
        have hk : k < 3 := by
          rcases Nat.lt_or_ge k 3 with h | h
          · exact h
          · rw [List.getElem?_eq_none (by simpa [plainCtx] using h)] at hb
            cases hb
        have hcases : (j = 0 ∧ k = 1) ∨ (j = 0 ∧ k = 2) ∨ (j = 1 ∧ k = 2) := by omega
        rcases hcases with ⟨h1, h2⟩ | ⟨h1, h2⟩ | ⟨h1, h2⟩ <;> subst h1 <;> subst h2 <;>
          · simp only [plainCtx, List.getElem?_cons_zero, List.getElem?_cons_succ,
              Option.some.injEq] at ha hb
            subst ha
            subst hb
            decide),
    (spill_offset_lowest_of_sorted
      (plainCtx 6 17 [bufferNode 2 0 0, bufferNode 2 10 1, bufferNode 2 4 2]
        [(0, 0), (0, 1), (0, 2)]) .Vertex (fun _ => zeroIntf) 0 (by decide) (by decide)
      1 (bufferNode 2 10 1) rfl (by decide) (by decide)
      (by
        intro j hj m hm _
        have hj0 : j = 0 := by omega
        subst hj0
        decide)
      (by decide)).1⟩

/-- Claim C6 fails as stated: in the vertex stage with a budget of 4 and three active nodes
of two dwords at the offsets 0, 10 and 4, the second and the third node are routed to the
spill table and the recorded spill offset is 10, above the offset 4 of the third node. -/
theorem spill_offset_lowest_counterexample :
    (runEntryPointType
        (plainCtx 6 17 [bufferNode 2 0 0, bufferNode 2 10 1, bufferNode 2 4 2]
          [(0, 0), (0, 1), (0, 2)]) .Vertex (fun _ => zeroIntf) 0).needSpill = true ∧
      registerResident
        (plainCtx 6 17 [bufferNode 2 0 0, bufferNode 2 10 1, bufferNode 2 4 2]
          [(0, 0), (0, 1), (0, 2)]) .Vertex (fun _ => zeroIntf) 0 1 = false ∧
      registerResident
        (plainCtx 6 17 [bufferNode 2 0 0, bufferNode 2 10 1, bufferNode 2 4 2]
          [(0, 0), (0, 1), (0, 2)]) .Vertex (fun _ => zeroIntf) 0 2 = false ∧
      ((runEntryPointType
        (plainCtx 6 17 [bufferNode 2 0 0, bufferNode 2 10 1, bufferNode 2 4 2]
          [(0, 0), (0, 1), (0, 2)]) .Vertex (fun _ => zeroIntf) 0).intfData
            .Vertex).spillTable.offsetInDwords = 10 ∧
      (bufferNode 2 4 2).offsetInDwords < 10 := by
  decide

/-! ## Claim C7: the arguments of the packing loop and the available slots -/

/-- Claim C7, amended: in a run that returns, with `MaxUserDataCount` a `uint32_t` and
`CsStartUserData` at most two, the dwords of the arguments that the packing loop adds (the
register-resident nodes and the dummy arguments of the fixed layout) cover the sizes of the
register-resident nodes and are exactly their sum outside the fixed layout. In the fixed
layout of the compute stage they never exceed `MaxCsUserDataCount`. In every other stage
they never exceed the slot budget of the stage, and together with the slot of the spill
table pointer, when a spill is needed, they still fit the slot budget; this is stated for
a slot budget of at least one slot when a spill is needed. -/
theorem packed_words_le_available (ctx : Context) (stage : ShaderStage)
    (intfData : ShaderStage → InterfaceData) (inRegMask : Nat) (r : St)
    (hret : GenerateEntryPointType ctx stage intfData inRegMask = some r)
    (hMax : ctx.MaxUserDataCount < 4294967296) (hCs : ctx.CsStartUserData ≤ 2) :
    residentWords ctx stage intfData inRegMask ≤ packedWords ctx stage intfData inRegMask ∧
      (stage ≠ .Compute →
        packedWords ctx stage intfData inRegMask
          = residentWords ctx stage intfData inRegMask) ∧
      (stage = .Compute →
        packedWords ctx stage intfData inRegMask ≤ ctx.MaxCsUserDataCount) ∧
      (stage ≠ .Compute →
        (r.needSpill = true → 0 < slotBudget ctx stage intfData inRegMask) →
        packedWords ctx stage intfData inRegMask + (if r.needSpill = true then 1 else 0)
            ≤ slotBudget ctx stage intfData inRegMask ∧
          packedWords ctx stage intfData inRegMask
            ≤ slotBudget ctx stage intfData inRegMask) := by
  obtain ⟨hr, hrun⟩ := GenerateEntryPointType_some ctx stage intfData inRegMask r hret
  have hok := afterPack_ok ctx stage intfData inRegMask hrun
  have hw := packedWords_eq_actual ctx stage intfData inRegMask hok hMax
  have hinv := packStateAt_inv ctx stage intfData inRegMask hok hMax ctx.userDataNodes.length
  have hres := packStateAt_residentWords ctx stage intfData inRegMask hok hMax
    ctx.userDataNodes.length
  have hav := run_avail_eq_of_decided
    (packStateAt_decided ctx stage intfData inRegMask ctx.userDataNodes.length)
  rw [packStateAt_length] at hinv hres hav
  have hle := hinv.2.2.2 hCs
  rw [hav, run_avail] at hle
  have hmain : packedWords ctx stage intfData inRegMask
      ≤ (if stage = .Compute then ctx.MaxCsUserDataCount
        else availableSlots ctx stage intfData inRegMask) := by
    rw [hw]
    unfold availableSlots
    exact hle
  refine ⟨?_, ?_, ?_, ?_⟩
  · rw [hw]
    exact hres.1
  · intro hst
    rw [hw]
    exact hres.2 hst
  · intro hst
    rw [if_pos hst] at hmain
    exact hmain
  · intro hst hpos
    rw [if_neg hst] at hmain
    unfold availableSlots at hmain
    by_cases hlt : slotBudget ctx stage intfData inRegMask < sumOfSizes ctx stage
    · rw [if_pos hlt] at hmain
      have hns : r.needSpill = true := by
        rw [hr, run_needSpill, if_neg hst]
        simpa using hlt
      have hp := hpos hns
      have hsub : sub32 (slotBudget ctx stage intfData inRegMask) 1 + 1
          ≤ slotBudget ctx stage intfData inRegMask := by
        unfold sub32 u32
        split <;> omega
      rw [if_pos hns]
      omega
    · rw [if_neg hlt] at hmain
      have hns : ¬ r.needSpill = true := by
        rw [hr, run_needSpill, if_neg hst]
        simpa using hlt
      rw [if_neg hns]
      omega

/-- Claim C7, amended, on two scenarios. In the compute stage with a node of one dword at
offset 5 the run returns, five dummy arguments and the node make six dwords, within the ten
slots of the fixed layout. In the vertex stage with a slot budget of 4 and three nodes of
two dwords a spill is needed, one node is register-resident, and its two dwords with the
slot of the spill table pointer make three, within the budget of 4. -/
theorem packed_words_le_available_witness :
    ((GenerateEntryPointType (plainCtx 16 32 [bufferNode 1 5 0] [(0, 0)]) .Compute
          (fun _ => zeroIntf) 0).isSome = true ∧
        packedWords (plainCtx 16 32 [bufferNode 1 5 0] [(0, 0)]) .Compute
          (fun _ => zeroIntf) 0 = 6 ∧
        residentWords (plainCtx 16 32 [bufferNode 1 5 0] [(0, 0)]) .Compute
          (fun _ => zeroIntf) 0 = 1 ∧
        packedWords (plainCtx 16 32 [bufferNode 1 5 0] [(0, 0)]) .Compute
            (fun _ => zeroIntf) 0
          ≤ (plainCtx 16 32 [bufferNode 1 5 0] [(0, 0)]).MaxCsUserDataCount) ∧
      ((runEntryPointType
            (plainCtx 6 17 [bufferNode 2 0 0, bufferNode 2 2 1, bufferNode 2 4 2]
              [(0, 0), (0, 1), (0, 2)]) .Vertex (fun _ => zeroIntf) 0).needSpill = true ∧
        slotBudget
            (plainCtx 6 17 [bufferNode 2 0 0, bufferNode 2 2 1, bufferNode 2 4 2]
              [(0, 0), (0, 1), (0, 2)]) .Vertex (fun _ => zeroIntf) 0 = 4 ∧
        packedWords
            (plainCtx 6 17 [bufferNode 2 0 0, bufferNode 2 2 1, bufferNode 2 4 2]
              [(0, 0), (0, 1), (0, 2)]) .Vertex (fun _ => zeroIntf) 0 = 2 ∧
        packedWords
              (plainCtx 6 17 [bufferNode 2 0 0, bufferNode 2 2 1, bufferNode 2 4 2]
                [(0, 0), (0, 1), (0, 2)]) .Vertex (fun _ => zeroIntf) 0
            + (if (runEntryPointType
                (plainCtx 6 17 [bufferNode 2 0 0, bufferNode 2 2 1, bufferNode 2 4 2]
                  [(0, 0), (0, 1), (0, 2)]) .Vertex (fun _ => zeroIntf) 0).needSpill = true
              then 1 else 0)
          ≤ slotBudget
            (plainCtx 6 17 [bufferNode 2 0 0, bufferNode 2 2 1, bufferNode 2 4 2]
              [(0, 0), (0, 1), (0, 2)]) .Vertex (fun _ => zeroIntf) 0) :=
  ⟨⟨by decide, by decide, by decide,
      (packed_words_le_available
        (plainCtx 16 32 [bufferNode 1 5 0] [(0, 0)]) .Compute (fun _ => zeroIntf) 0
        (runEntryPointType (plainCtx 16 32 [bufferNode 1 5 0] [(0, 0)]) .Compute
          (fun _ => zeroIntf) 0)
        (GenerateEntryPointType_of_ok _ _ _ _ (by decide)) (by decide) (by decide)).2.2.1
        rfl⟩,
    ⟨by decide, by decide, by decide,
      ((packed_words_le_available
        (plainCtx 6 17 [bufferNode 2 0 0, bufferNode 2 2 1, bufferNode 2 4 2]
          [(0, 0), (0, 1), (0, 2)]) .Vertex (fun _ => zeroIntf) 0
        (runEntryPointType
          (plainCtx 6 17 [bufferNode 2 0 0, bufferNode 2 2 1, bufferNode 2 4 2]
            [(0, 0), (0, 1), (0, 2)]) .Vertex (fun _ => zeroIntf) 0)
        (GenerateEntryPointType_of_ok _ _ _ _ (by decide)) (by decide) (by decide)).2.2.2
        (by decide) (fun _ => by decide)).1⟩⟩

/-- Claim C7 fails as stated in the fixed layout of the compute stage, which takes
`MaxCsUserDataCount` slots whatever the slot budget of the stage is: on a device with eight
user data registers and one referenced node of ten dwords, the run returns, the slot budget
is 6, no spill is needed, the node is register-resident, and ten dwords are packed. -/
theorem packed_words_counterexample :
    (GenerateEntryPointType (plainCtx 8 32 [bufferNode 10 0 0] [(0, 0)]) .Compute
        (fun _ => zeroIntf) 0).isSome = true ∧
      slotBudget (plainCtx 8 32 [bufferNode 10 0 0] [(0, 0)]) .Compute
        (fun _ => zeroIntf) 0 = 6 ∧
      (runEntryPointType (plainCtx 8 32 [bufferNode 10 0 0] [(0, 0)]) .Compute
        (fun _ => zeroIntf) 0).needSpill = false ∧
      registerResident (plainCtx 8 32 [bufferNode 10 0 0] [(0, 0)]) .Compute
        (fun _ => zeroIntf) 0 0 = true ∧
      residentWords (plainCtx 8 32 [bufferNode 10 0 0] [(0, 0)]) .Compute
        (fun _ => zeroIntf) 0 = 10 ∧
      packedWords (plainCtx 8 32 [bufferNode 10 0 0] [(0, 0)]) .Compute
        (fun _ => zeroIntf) 0 = 10 ∧
      (plainCtx 8 32 [bufferNode 10 0 0] [(0, 0)]).MaxCsUserDataCount = 10 := by
  decide

/-- The case that the amended claim leaves out. In the vertex stage with two user data
registers the slot budget is zero; one active node of one dword needs a spill, the
statement `--availUserDataCount` has no guard and wraps to `0xFFFFFFFF`, and the node
passes the test `actualAvailUserDataCount + sizeInDwords <= availUserDataCount`: the run
returns with one dword packed against a budget of zero. -/
theorem packed_words_zero_budget :
    (GenerateEntryPointType (plainCtx 2 17 [bufferNode 1 0 0] [(0, 0)]) .Vertex
        (fun _ => zeroIntf) 0).isSome = true ∧
      slotBudget (plainCtx 2 17 [bufferNode 1 0 0] [(0, 0)]) .Vertex
        (fun _ => zeroIntf) 0 = 0 ∧
      (runEntryPointType (plainCtx 2 17 [bufferNode 1 0 0] [(0, 0)]) .Vertex
        (fun _ => zeroIntf) 0).needSpill = true ∧
      (runEntryPointType (plainCtx 2 17 [bufferNode 1 0 0] [(0, 0)]) .Vertex
        (fun _ => zeroIntf) 0).availUserDataCount = 4294967295 ∧
      registerResident (plainCtx 2 17 [bufferNode 1 0 0] [(0, 0)]) .Vertex
        (fun _ => zeroIntf) 0 0 = true ∧
      residentWords (plainCtx 2 17 [bufferNode 1 0 0] [(0, 0)]) .Vertex
        (fun _ => zeroIntf) 0 = 1 ∧
      packedWords (plainCtx 2 17 [bufferNode 1 0 0] [(0, 0)]) .Vertex
        (fun _ => zeroIntf) 0 = 1 := by
  decide

/-! ## Claim C8: no packed node is dropped -/

/-- Claim C8, amended: in a run that returns, every active top-level node other than the
`IndirectUserDataVaPtr` and `StreamOutTableVaPtr` nodes is register-resident, or a spill is
needed, the size of the spill table is the maximum end over those nodes, and the offset of
the spill table is set (unless the offset of the node is the invalid marker). Outside the
fixed layout this needs the sizes of those nodes to add up below `2^32`; in the fixed layout
it needs them declared in increasing offset order without overlap, with ends below `2^32`,
`CsStartUserData = 2` and `MaxCsUserDataCount + 2` a `uint32_t`. -/
theorem active_node_resident_or_spilled (ctx : Context) (stage : ShaderStage)
    (intfData : ShaderStage → InterfaceData) (inRegMask : Nat) (r : St)
    (hret : GenerateEntryPointType ctx stage intfData inRegMask = some r)
    (hMax : ctx.MaxUserDataCount < 4294967296)
    (hgreedy : stage ≠ .Compute →
      ((packedNodes ctx stage).map ResourceNode.sizeInDwords).sum < 4294967296)
    (hfixed : stage = .Compute →
      ctx.CsStartUserData = 2 ∧ ctx.MaxCsUserDataCount + 2 < 4294967296 ∧
      (∀ m ∈ packedNodes ctx stage, m.offsetInDwords + m.sizeInDwords < 4294967296) ∧
      (packedNodes ctx stage).Pairwise
        (fun a b => a.offsetInDwords + a.sizeInDwords ≤ b.offsetInDwords))
    (i : Nat) (n : ResourceNode) (hn : ctx.userDataNodes[i]? = some n)
    (hp : isPacked ctx stage n = true) :
    registerResident ctx stage intfData inRegMask i = true ∨
      (r.needSpill = true ∧
        (r.intfData stage).spillTable.sizeInDwords = maxOfEnds (packedNodes ctx stage) ∧
        (n.offsetInDwords ≠ ctx.InvalidValue →
          (r.intfData stage).spillTable.offsetInDwords ≠ ctx.InvalidValue)) := by
  obtain ⟨hr, hrun⟩ := GenerateEntryPointType_some ctx stage intfData inRegMask r hret
  by_cases hres : registerResident ctx stage intfData inRegMask i = true
  · exact Or.inl hres
  · have hres' : registerResident ctx stage intfData inRegMask i = false := by
      simpa using hres
    by_cases hns : (runEntryPointType ctx stage intfData inRegMask).needSpill = true
    · right
      rw [hr]
      refine ⟨hns, ?_, fun hoff =>
        spillOffset_set ctx stage intfData inRegMask hns i n hn hp hres' hoff⟩
      rw [run_spillSize, if_pos hns]
    · exfalso
      have hns' : (runEntryPointType ctx stage intfData inRegMask).needSpill = false := by
        simpa using hns
      by_cases hst : stage = .Compute
      · subst hst
        obtain ⟨hCs, hMaxCs, hno, hsorted⟩ := hfixed rfl
        have hok := afterPack_ok ctx .Compute intfData inRegMask hrun
        have hmax : maxOfEnds (packedNodes ctx .Compute) ≤ ctx.MaxCsUserDataCount := by
          have := hns'
          rw [run_needSpill] at this
          simpa using this
        have hends : ∀ m ∈ packedNodes ctx .Compute,
            m.offsetInDwords + m.sizeInDwords ≤ ctx.MaxCsUserDataCount := by
          intro m hm
          have h1 := endInDwords_le_maxOfEnds _ m hm
          have h2 := hno m hm
          unfold endInDwords u32 at h1
          omega
        exact hres ((packStateAt_fixed ctx intfData inRegMask hok hMax hCs hMaxCs hends
          hsorted (i + 1)).2.2 i n (Nat.lt_succ_self i) hn hp)
      · exact hres (resident_of_no_spill_greedy ctx stage intfData inRegMask hst
          (hgreedy hst) hns' i n hn hp)

/-- Claim C8, amended, on a compute example: two nodes at the offsets 0 and 4, declared in
this order, are both register-resident (with two dummy arguments between them). -/
theorem active_node_resident_or_spilled_witness :
    registerResident (plainCtx 16 32 [bufferNode 2 0 0, bufferNode 3 4 1] [(0, 0), (0, 1)])
        .Compute (fun _ => zeroIntf) 0 1 = true ∨
      ((runEntryPointType
          (plainCtx 16 32 [bufferNode 2 0 0, bufferNode 3 4 1] [(0, 0), (0, 1)])
          .Compute (fun _ => zeroIntf) 0).needSpill = true ∧
        ((runEntryPointType
          (plainCtx 16 32 [bufferNode 2 0 0, bufferNode 3 4 1] [(0, 0), (0, 1)])
          .Compute (fun _ => zeroIntf) 0).intfData .Compute).spillTable.sizeInDwords
          = maxOfEnds (packedNodes
            (plainCtx 16 32 [bufferNode 2 0 0, bufferNode 3 4 1] [(0, 0), (0, 1)])
            .Compute) ∧
        ((bufferNode 3 4 1).offsetInDwords
            ≠ (plainCtx 16 32 [bufferNode 2 0 0, bufferNode 3 4 1]
              [(0, 0), (0, 1)]).InvalidValue →
          ((runEntryPointType
            (plainCtx 16 32 [bufferNode 2 0 0, bufferNode 3 4 1] [(0, 0), (0, 1)])
            .Compute (fun _ => zeroIntf) 0).intfData .Compute).spillTable.offsetInDwords
            ≠ (plainCtx 16 32 [bufferNode 2 0 0, bufferNode 3 4 1]
              [(0, 0), (0, 1)]).InvalidValue)) :=
  active_node_resident_or_spilled
    (plainCtx 16 32 [bufferNode 2 0 0, bufferNode 3 4 1] [(0, 0), (0, 1)]) .Compute
    (fun _ => zeroIntf) 0
    (runEntryPointType (plainCtx 16 32 [bufferNode 2 0 0, bufferNode 3 4 1] [(0, 0), (0, 1)])
      .Compute (fun _ => zeroIntf) 0)
    (GenerateEntryPointType_of_ok _ _ _ _ (by decide)) (by decide)
    (fun h => absurd rfl h)
    (fun _ => ⟨by decide, by decide, by decide, by decide⟩)
    1 (bufferNode 3 4 1) rfl (by decide)

/-- Claim C8 fails as stated. In the fixed layout with the node at offset 5 declared in
front of the node at offset 0 (five dwords each, ten slots), the second node does not fit
behind the first, and no spill is needed since both ends lie inside the ten slots. Outside
the fixed layout, two nodes of `2^31` dwords have the 32-bit size sum zero: no spill is
needed and neither node is register-resident. Both runs return. -/
theorem active_node_dropped_counterexample :
    ((GenerateEntryPointType
          (plainCtx 16 32 [bufferNode 5 5 0, bufferNode 5 0 1] [(0, 0), (0, 1)])
          .Compute (fun _ => zeroIntf) 0).isSome = true ∧
        isPacked (plainCtx 16 32 [bufferNode 5 5 0, bufferNode 5 0 1] [(0, 0), (0, 1)])
          .Compute (bufferNode 5 0 1) = true ∧
        registerResident
          (plainCtx 16 32 [bufferNode 5 5 0, bufferNode 5 0 1] [(0, 0), (0, 1)])
          .Compute (fun _ => zeroIntf) 0 1 = false ∧
        (runEntryPointType
          (plainCtx 16 32 [bufferNode 5 5 0, bufferNode 5 0 1] [(0, 0), (0, 1)])
          .Compute (fun _ => zeroIntf) 0).needSpill = false) ∧
      ((GenerateEntryPointType
          (plainCtx 16 17 [bufferNode 2147483648 0 0, bufferNode 2147483648 0 1]
            [(0, 0), (0, 1)])
          .Vertex (fun _ => zeroIntf) 0).isSome = true ∧
        isPacked
          (plainCtx 16 17 [bufferNode 2147483648 0 0, bufferNode 2147483648 0 1]
            [(0, 0), (0, 1)])
          .Vertex (bufferNode 2147483648 0 0) = true ∧
        registerResident
          (plainCtx 16 17 [bufferNode 2147483648 0 0, bufferNode 2147483648 0 1]
            [(0, 0), (0, 1)])
          .Vertex (fun _ => zeroIntf) 0 0 = false ∧
        (runEntryPointType
          (plainCtx 16 17 [bufferNode 2147483648 0 0, bufferNode 2147483648 0 1]
            [(0, 0), (0, 1)])
          .Vertex (fun _ => zeroIntf) 0).needSpill = false) := by
  decide

/-! ## Claim C9: packing preserves the declaration order -/

/-- Claim C9: in a run that returns (with `MaxUserDataCount` a `uint32_t`), for two
register-resident nodes with indices `iA < iB` the argument index recorded in
`resNodeValues` for the first is strictly lower than the one recorded for the second, and
the first user data slot of the first is at most that of the second, strictly lower when
the first node has a positive size. -/
theorem packing_order_preserving (ctx : Context) (stage : ShaderStage)
    (intfData : ShaderStage → InterfaceData) (inRegMask : Nat) (r : St)
    (hret : GenerateEntryPointType ctx stage intfData inRegMask = some r)
    (hMax : ctx.MaxUserDataCount < 4294967296) (iA iB : Nat) (hAB : iA < iB)
    (hA : registerResident ctx stage intfData inRegMask iA = true)
    (hB : registerResident ctx stage intfData inRegMask iB = true) :
    (r.intfData stage).entryArgIdxs.resNodeValues iA
        < (r.intfData stage).entryArgIdxs.resNodeValues iB ∧
      firstSlot ctx stage intfData inRegMask iA ≤ firstSlot ctx stage intfData inRegMask iB ∧
      (0 < sizeAt ctx iA →
        firstSlot ctx stage intfData inRegMask iA
          < firstSlot ctx stage intfData inRegMask iB) := by
  obtain ⟨hr, hrun⟩ := GenerateEntryPointType_some ctx stage intfData inRegMask r hret
  have hok := afterPack_ok ctx stage intfData inRegMask hrun
  have hlA := registerResident_lt_length ctx stage intfData inRegMask iA hA
  have hlB := registerResident_lt_length ctx stage intfData inRegMask iB hB
  obtain ⟨_, _, _, _, _, sA⟩ := packStateAt_step ctx stage intfData inRegMask hok hMax _ iA
    (packStateAt_inv ctx stage intfData inRegMask hok hMax iA)
  obtain ⟨_, _, _, _, _, sB⟩ := packStateAt_step ctx stage intfData inRegMask hok hMax _ iB
    (packStateAt_inv ctx stage intfData inRegMask hok hMax iB)
  obtain ⟨_, _, a3, a4, a5⟩ := sA hA
  obtain ⟨b1, b2, _, _, b5⟩ := sB hB
  obtain ⟨m1, m2⟩ := packStateAt_mono ctx stage intfData inRegMask hok hMax (iA + 1) iB
    (by omega)
  rw [hr, run_resNodeValues_at ctx stage intfData inRegMask iA hlA,
    run_resNodeValues_at ctx stage intfData inRegMask iB hlB, a5, b5]
  unfold firstSlot
  refine ⟨by omega, by omega, fun hpos => by omega⟩

/-- Claim C9 on an example: two active nodes of two dwords each in the vertex stage with
eight user data registers get the argument indices 2 and 3 and the first slots 2 and 4. -/
theorem packing_order_preserving_witness :
    ((runEntryPointType (plainCtx 8 17 [bufferNode 2 0 0, bufferNode 2 2 1] [(0, 0), (0, 1)])
        .Vertex (fun _ => zeroIntf) 0).intfData .Vertex).entryArgIdxs.resNodeValues 0
        < ((runEntryPointType
          (plainCtx 8 17 [bufferNode 2 0 0, bufferNode 2 2 1] [(0, 0), (0, 1)])
          .Vertex (fun _ => zeroIntf) 0).intfData .Vertex).entryArgIdxs.resNodeValues 1 ∧
      firstSlot (plainCtx 8 17 [bufferNode 2 0 0, bufferNode 2 2 1] [(0, 0), (0, 1)])
          .Vertex (fun _ => zeroIntf) 0 0
        ≤ firstSlot (plainCtx 8 17 [bufferNode 2 0 0, bufferNode 2 2 1] [(0, 0), (0, 1)])
          .Vertex (fun _ => zeroIntf) 0 1 ∧
      (0 < sizeAt (plainCtx 8 17 [bufferNode 2 0 0, bufferNode 2 2 1] [(0, 0), (0, 1)]) 0 →
        firstSlot (plainCtx 8 17 [bufferNode 2 0 0, bufferNode 2 2 1] [(0, 0), (0, 1)])
            .Vertex (fun _ => zeroIntf) 0 0
          < firstSlot (plainCtx 8 17 [bufferNode 2 0 0, bufferNode 2 2 1] [(0, 0), (0, 1)])
            .Vertex (fun _ => zeroIntf) 0 1) :=
  packing_order_preserving
    (plainCtx 8 17 [bufferNode 2 0 0, bufferNode 2 2 1] [(0, 0), (0, 1)]) .Vertex
    (fun _ => zeroIntf) 0
    (runEntryPointType (plainCtx 8 17 [bufferNode 2 0 0, bufferNode 2 2 1] [(0, 0), (0, 1)])
      .Vertex (fun _ => zeroIntf) 0)
    (GenerateEntryPointType_of_ok _ _ _ _ (by decide)) (by decide) 0 1 (by decide)
    (by decide) (by decide)

/-! ## Claim C10: a stage without an active node -/

theorem anyInnerActive_iff (ctx : Context) (stage : ShaderStage) (l : List ResourceNode) :
    anyInnerActive ctx stage l = true ↔
      ∃ c ∈ l, IsResourceNodeActive ctx stage c false = true := by
  induction l with
  | nil => simp [anyInnerActive]
  | cons n l ih =>
    simp only [anyInnerActive, List.mem_cons]
    by_cases h : IsResourceNodeActive ctx stage n false = true
    · simp [h]
    · simp [h, ih]

/-! ## The fragment stage without an active node -/

@[simp] theorem St.reserve_ok (s : St) (n : Nat) : (s.reserve n).ok = s.ok := by
  cases s
  rfl

@[simp] theorem St.setNeedSpill_ok (s : St) (b : Bool) : (s.setNeedSpill b).ok = s.ok := by
  cases s
  rfl

@[simp] theorem St.setAvail_ok (s : St) (n : Nat) : (s.setAvail n).ok = s.ok := by
  cases s
  rfl

@[simp] theorem St.setReserveVbTable_ok (s : St) : s.setReserveVbTable.ok = s.ok := by
  cases s
  rfl

@[simp] theorem St.setReserveStreamOutTable_ok (s : St) :
    s.setReserveStreamOutTable.ok = s.ok := by
  cases s
  rfl

@[simp] theorem St.setReserveEsGsLdsSize_ok (s : St) : s.setReserveEsGsLdsSize.ok = s.ok := by
  cases s
  rfl

@[simp] theorem St.require_ok (s : St) (n : ResourceNode) : (s.require n).ok = s.ok := by
  cases s
  rfl

theorem greedySpill_of_no_spill (stage : ShaderStage) (s : St) (h : s.needSpill = false) :
    greedySpill stage s
      = s.record stage St.userDataIdx (fun a d => { d with userDataCount := a }) := by
  unfold greedySpill
  simp only [St.when, h, Bool.false_and]
  rfl

theorem run_fragment_of_inactive (ctx : Context)
    (intfData : ShaderStage → InterfaceData) (inRegMask : Nat)
    (h : ∀ n ∈ ctx.userDataNodes, IsResourceNodeActive ctx .Fragment n true = false) :
    runEntryPointType ctx .Fragment intfData inRegMask
      = systemValuesFs
          ((decideSpill ctx .Fragment (initState ctx .Fragment intfData inRegMask)).record
            .Fragment St.userDataIdx (fun a d => { d with userDataCount := a })) := by
  have hns := run_needSpill_of_inactive ctx .Fragment intfData inRegMask h
  have hdec := beforePack_decided ctx .Fragment intfData inRegMask
  have hns1 : (beforePack ctx .Fragment intfData inRegMask).needSpill = false := by
    rw [run_needSpill_eq_of_decided hdec]; exact hns
  have hbp := beforePack_of_inactive ctx .Fragment intfData inRegMask h
  have hsc := afterScan_of_inactive ctx .Fragment intfData inRegMask h
  have hns2 : (decideSpill ctx .Fragment (initState ctx .Fragment intfData inRegMask)).needSpill
      = false := by
    rw [hbp] at hns1
    unfold afterReserve at hns1
    rw [hsc] at hns1
    exact hns1
  unfold runEntryPointType afterUserData
  rw [afterPack_of_inactive ctx .Fragment intfData inRegMask h,
    fixedSpill_of_no_spill _ _ _ hns1, hbp]
  unfold afterReserve
  rw [hsc]
  have : specialUserData ctx .Fragment
      (decideSpill ctx .Fragment (reserveSpecial ctx .Fragment
        (initState ctx .Fragment intfData inRegMask)))
      = decideSpill ctx .Fragment (initState ctx .Fragment intfData inRegMask) := rfl
  rw [this, greedySpill_of_no_spill _ _ hns2]
  rfl

theorem decideSpill_fragment_fields (ctx : Context) (s : St) :
    (decideSpill ctx .Fragment s).argTys = s.argTys ∧
      (decideSpill ctx .Fragment s).argIdx = s.argIdx ∧
      (decideSpill ctx .Fragment s).inRegMask = s.inRegMask ∧
      (decideSpill ctx .Fragment s).ok = s.ok := by
  unfold decideSpill useFixedLayout
  rw [if_neg (by decide)]
  refine ⟨by simp, by simp, by simp, ?_⟩
  rw [St.when_proj St.ok _ _ _ (fun s => by simp)]
  simp

theorem initState_fields (ctx : Context) (stage : ShaderStage)
    (intfData : ShaderStage → InterfaceData) (inRegMask : Nat) :
    (initState ctx stage intfData inRegMask).argTys = [.Int32Ty, .Int32Ty] ∧
      (initState ctx stage intfData inRegMask).argIdx = 2 ∧
      (initState ctx stage intfData inRegMask).inRegMask = (inRegMask ||| 1) ||| 2 ∧
      (initState ctx stage intfData inRegMask).ok = true := by
  simp [initState, u32, bit64, St.ok]

theorem systemValuesFs_fields (s : St) (hidx : s.argIdx = 2) :
    (systemValuesFs s).argTys
        = s.argTys ++ [.Int32Ty, .Floatx2Ty, .Floatx2Ty, .Floatx2Ty, .Floatx3Ty, .Floatx2Ty,
          .Floatx2Ty, .Floatx2Ty, .FloatTy, .FloatTy, .FloatTy, .FloatTy, .FloatTy, .Int32Ty,
          .Int32Ty, .Int32Ty, .Int32Ty] ∧
      (systemValuesFs s).inRegMask = s.inRegMask ||| 4 ∧
      (systemValuesFs s).ok = s.ok ∧
      ((systemValuesFs s).intfData .Fragment).userDataCount
        = (s.intfData .Fragment).userDataCount := by
  refine ⟨?_, ?_, ?_, ?_⟩
  · simp [systemValuesFs, St.sgprArg_eq, St.vgprArg_eq]
  · simp [systemValuesFs, St.sgprArg_eq, St.vgprArg_eq, hidx, bit64]
  · simp [systemValuesFs, St.sgprArg_eq, St.vgprArg_eq, hidx]
  · simp [systemValuesFs, St.sgprArg_eq, St.vgprArg_eq]

theorem systemValuesFs_argIdxs (s : St) (hidx : s.argIdx = 2) :
    ((systemValuesFs s).intfData .Fragment).entryArgIdxs.fs.primMask = 2 ∧
      ((systemValuesFs s).intfData .Fragment).entryArgIdxs.fs.perspInterp.sample = 3 ∧
      ((systemValuesFs s).intfData .Fragment).entryArgIdxs.fs.perspInterp.center = 4 ∧
      ((systemValuesFs s).intfData .Fragment).entryArgIdxs.fs.perspInterp.centroid = 5 ∧
      ((systemValuesFs s).intfData .Fragment).entryArgIdxs.fs.perspInterp.pullMode = 6 ∧
      ((systemValuesFs s).intfData .Fragment).entryArgIdxs.fs.linearInterp.sample = 7 ∧
      ((systemValuesFs s).intfData .Fragment).entryArgIdxs.fs.linearInterp.center = 8 ∧
      ((systemValuesFs s).intfData .Fragment).entryArgIdxs.fs.linearInterp.centroid = 9 ∧
      ((systemValuesFs s).intfData .Fragment).entryArgIdxs.fs.fragCoord.x = 11 ∧
      ((systemValuesFs s).intfData .Fragment).entryArgIdxs.fs.fragCoord.y = 12 ∧
      ((systemValuesFs s).intfData .Fragment).entryArgIdxs.fs.fragCoord.z = 13 ∧
      ((systemValuesFs s).intfData .Fragment).entryArgIdxs.fs.fragCoord.w = 14 ∧
      ((systemValuesFs s).intfData .Fragment).entryArgIdxs.fs.frontFacing = 15 ∧
      ((systemValuesFs s).intfData .Fragment).entryArgIdxs.fs.ancillary = 16 ∧
      ((systemValuesFs s).intfData .Fragment).entryArgIdxs.fs.sampleCoverage = 17 := by
  simp [systemValuesFs, St.sgprArg_eq, St.vgprArg_eq, hidx, u32, St.record_intfData_same,
    St.setIntf_intfData_same]

theorem no_active_node_facts (ctx : Context) (intfData : ShaderStage → InterfaceData)
    (inRegMask : Nat)
    (h : ∀ n ∈ ctx.userDataNodes, IsResourceNodeActive ctx .Fragment n true = false) :
    ((runEntryPointType ctx .Fragment intfData inRegMask).intfData .Fragment).userDataCount
        = 2 ∧
      (runEntryPointType ctx .Fragment intfData inRegMask).needSpill = false ∧
      ((runEntryPointType ctx .Fragment intfData inRegMask).intfData
          .Fragment).spillTable.sizeInDwords
        = (intfData .Fragment).spillTable.sizeInDwords := by
  have hns := run_needSpill_of_inactive ctx .Fragment intfData inRegMask h
  refine ⟨?_, hns, ?_⟩
  · rw [run_userDataCount_of_inactive ctx .Fragment intfData inRegMask h]
    rfl
  · rw [run_spillSize, hns]
    simp

/-! ## The fixed layout with nodes in increasing offset order, with or without a spill -/

theorem padNode_fixed_eq (ctx : Context) (n : ResourceNode) (s : St) :
    padNode ctx .Compute n s
      = fillDummies ctx n.offsetInDwords
          (u32 (s.availUserDataCount + ctx.CsStartUserData) - s.userDataIdx) s := by
  unfold padNode useFixedLayout
  simp

theorem fitStateAt_fixed_facts (ctx : Context)
    (intfData : ShaderStage → InterfaceData) (inRegMask : Nat)
    (hok : (afterPack ctx .Compute intfData inRegMask).ok = true)
    (hMax : ctx.MaxUserDataCount < 4294967296) (hCs : ctx.CsStartUserData = 2)
    (i : Nat) (n : ResourceNode) (hn : ctx.userDataNodes[i]? = some n)
    (hidx : (packStateAt ctx .Compute intfData inRegMask i).userDataIdx
      = (packStateAt ctx .Compute intfData inRegMask i).actualAvailUserDataCount + 2)
    (hoff : (packStateAt ctx .Compute intfData inRegMask i).actualAvailUserDataCount
      ≤ n.offsetInDwords) :
    (fitStateAt ctx .Compute intfData inRegMask i).userDataIdx
        = (fitStateAt ctx .Compute intfData inRegMask i).actualAvailUserDataCount + 2 ∧
      (fitStateAt ctx .Compute intfData inRegMask i).actualAvailUserDataCount
        ≤ n.offsetInDwords ∧
      (fitStateAt ctx .Compute intfData inRegMask i).userDataIdx
        = (if (packStateAt ctx .Compute intfData inRegMask i).userDataIdx
              < u32 (n.offsetInDwords + 2) ∧
            (packStateAt ctx .Compute intfData inRegMask i).userDataIdx
              < u32 (ctx.MaxCsUserDataCount + 2) then
            min (u32 (n.offsetInDwords + 2)) (u32 (ctx.MaxCsUserDataCount + 2))
          else (packStateAt ctx .Compute intfData inRegMask i).userDataIdx) := by
  have hinv := packStateAt_inv ctx .Compute intfData inRegMask hok hMax i
  have hf := fitStateAt_eq ctx .Compute intfData inRegMask i n hn
  have hav : (packStateAt ctx .Compute intfData inRegMask i).availUserDataCount
      = ctx.MaxCsUserDataCount := by
    rw [run_avail_eq_of_decided (packStateAt_decided ctx .Compute intfData inRegMask i),
      run_avail]
    simp
  obtain ⟨x1, x2⟩ := fillDummies_exact ctx n.offsetInDwords
    (u32 ((packStateAt ctx .Compute intfData inRegMask i).availUserDataCount
      + ctx.CsStartUserData)
      - (packStateAt ctx .Compute intfData inRegMask i).userDataIdx) _
    (packStateAt ctx .Compute intfData inRegMask i) hinv (by omega)
  rw [← padNode_fixed_eq, ← hf] at x1 x2
  rw [hav, hCs] at x2
  have hA : u32 (n.offsetInDwords + 2) ≤ n.offsetInDwords + 2 := by
    unfold u32
    exact Nat.mod_le _ _
  refine ⟨by omega, ?_, x2⟩
  have : (fitStateAt ctx .Compute intfData inRegMask i).userDataIdx
      ≤ n.offsetInDwords + 2 := by
    rw [x2]
    split
    · exact Nat.le_trans (Nat.min_le_left _ _) hA
    · omega
  omega

/-- In the fixed layout, in a run without failure whose packed nodes are declared in
increasing offset order, `userDataIdx` runs exactly two slots ahead of
`actualAvailUserDataCount`, which never passes the offset of a node still to come. -/
theorem packStateAt_fixed_sorted (ctx : Context)
    (intfData : ShaderStage → InterfaceData) (inRegMask : Nat)
    (hok : (afterPack ctx .Compute intfData inRegMask).ok = true)
    (hMax : ctx.MaxUserDataCount < 4294967296) (hCs : ctx.CsStartUserData = 2)
    (hsorted : (packedNodes ctx .Compute).Pairwise
      (fun a b => a.offsetInDwords + a.sizeInDwords ≤ b.offsetInDwords)) (i : Nat) :
    (packStateAt ctx .Compute intfData inRegMask i).userDataIdx
        = (packStateAt ctx .Compute intfData inRegMask i).actualAvailUserDataCount + 2 ∧
      (∀ (k : Nat) (b : ResourceNode), i ≤ k → ctx.userDataNodes[k]? = some b →
        isPacked ctx .Compute b = true →
        (packStateAt ctx .Compute intfData inRegMask i).actualAvailUserDataCount
          ≤ b.offsetInDwords) := by
  induction i with
  | zero =>
    have h0 := packStateAt_ok ctx .Compute intfData inRegMask hok 0
    rw [packStateAt_zero] at h0 ⊢
    rw [beforePack_userDataIdx_fixed ctx intfData inRegMask h0, beforePack_actual]
    exact ⟨rfl, fun _ _ _ _ _ => Nat.zero_le _⟩
  | succ i ih =>
    obtain ⟨q1, q2⟩ := ih
    have hinv := packStateAt_inv ctx .Compute intfData inRegMask hok hMax i
    have hstep := packStateAt_step ctx .Compute intfData inRegMask hok hMax _ i hinv
    cases hn : ctx.userDataNodes[i]? with
    | none =>
      rw [packStateAt_succ_of_none ctx .Compute intfData inRegMask i hn]
      exact ⟨q1, fun k b hk => q2 k b (by omega)⟩
    | some n =>
      rcases packStateAt_succ_cases ctx .Compute intfData inRegMask i n hn with
        ⟨hp, he⟩ | ⟨hp, hr, he⟩ | ⟨hp, hr, he⟩
      · rw [he]
        exact ⟨q1, fun k b hk => q2 k b (by omega)⟩
      · -- register-resident
        have hoff := q2 i n (Nat.le_refl i) hn hp
        obtain ⟨f1, f2, _⟩ := fitStateAt_fixed_facts ctx intfData inRegMask hok hMax hCs i n hn
          q1 hoff
        obtain ⟨_, _, _, _, _, s6⟩ := hstep
        obtain ⟨_, _, _, r4, _⟩ := s6 hr
        rw [sizeAt_of_some ctx i n hn] at r4
        have hok1 := packStateAt_ok ctx .Compute intfData inRegMask hok (i + 1)
        rw [he] at hok1
        have hact : (packStateAt ctx .Compute intfData inRegMask (i + 1)).actualAvailUserDataCount
            = (fitStateAt ctx .Compute intfData inRegMask i).actualAvailUserDataCount
              + n.sizeInDwords := by
          have hi1 := packStateAt_inv ctx .Compute intfData inRegMask hok hMax (i + 1)
          rw [he, assignNode_actual]
          rw [he] at hi1
          have h1 := hi1.1
          have h2 := hi1.2.1
          rw [← he] at h1
          rw [assignNode_actual] at h2
          rw [← he] at h2
          unfold u32 at h2 ⊢
          omega
        refine ⟨by omega, fun k b hk hb hpb => ?_⟩
        rw [hact]
        have := sorted_at ctx .Compute hsorted i k n b (by omega) hn hb hp hpb
        omega
      · have hoff := q2 i n (Nat.le_refl i) hn hp
        obtain ⟨f1, f2, _⟩ := fitStateAt_fixed_facts ctx intfData inRegMask hok hMax hCs i n hn
          q1 hoff
        have hfields : ∀ (π : St → Nat),
            (∀ s f, π (St.setIntf .Compute f s) = π s) →
            π (packStateAt ctx .Compute intfData inRegMask (i + 1))
              = π (fitStateAt ctx .Compute intfData inRegMask i) := by
          intro π hπ
          rw [he]
          split
          · exact hπ _ _
          · rfl
        have e2 := hfields St.userDataIdx (fun s f => by simp)
        have e3 := hfields St.actualAvailUserDataCount (fun s f => by simp)
        refine ⟨by omega, fun k b hk hb hpb => ?_⟩
        have := sorted_at ctx .Compute hsorted i k n b (by omega) hn hb hp hpb
        omega

theorem firstSlot_fixed (ctx : Context)
    (intfData : ShaderStage → InterfaceData) (inRegMask : Nat)
    (hok : (afterPack ctx .Compute intfData inRegMask).ok = true)
    (hMax : ctx.MaxUserDataCount < 4294967296) (hCs : ctx.CsStartUserData = 2)
    (hMaxCs : ctx.MaxCsUserDataCount + 2 < 4294967296)
    (hsorted : (packedNodes ctx .Compute).Pairwise
      (fun a b => a.offsetInDwords + a.sizeInDwords ≤ b.offsetInDwords))
    (i : Nat) (n : ResourceNode) (hn : ctx.userDataNodes[i]? = some n)
    (hres : registerResident ctx .Compute intfData inRegMask i = true)
    (hsize : 0 < n.sizeInDwords) (hoff : n.offsetInDwords + 2 < 4294967296) :
    firstSlot ctx .Compute intfData inRegMask i = n.offsetInDwords + 2 := by
  obtain ⟨m, hm, hp⟩ := registerResident_some ctx .Compute intfData inRegMask i hres
  rw [hn] at hm
  cases hm
  obtain ⟨q1, q2⟩ := packStateAt_fixed_sorted ctx intfData inRegMask hok hMax hCs hsorted i
  have hoffle := q2 i n (Nat.le_refl i) hn hp
  obtain ⟨f1, f2, f3⟩ := fitStateAt_fixed_facts ctx intfData inRegMask hok hMax hCs i n hn
    q1 hoffle
  have hfav : (fitStateAt ctx .Compute intfData inRegMask i).availUserDataCount
      = ctx.MaxCsUserDataCount := by
    rw [run_avail_eq_of_decided (fitStateAt_decided ctx .Compute intfData inRegMask i),
      run_avail]
    simp
  have hfit : fits (fitStateAt ctx .Compute intfData inRegMask i) n = true := by
    have := hres
    rw [registerResident_eq ctx .Compute intfData inRegMask i n hn, hp,
      ← fitStateAt_eq ctx .Compute intfData inRegMask i n hn] at this
    simpa using this
  unfold fits at hfit
  simp only [decide_eq_true_eq] at hfit
  rw [hfav] at hfit
  -- no wrap in the test: the words of the node lie inside `userDataMap`
  have hinv1 := packStateAt_inv ctx .Compute intfData inRegMask hok hMax (i + 1)
  rcases packStateAt_succ_cases ctx .Compute intfData inRegMask i n hn with
    ⟨hp', _⟩ | ⟨_, _, he⟩ | ⟨_, hr', _⟩
  · rw [hp] at hp'
    exact Bool.noConfusion hp'
  · have hinv := packStateAt_inv ctx .Compute intfData inRegMask hok hMax i
    obtain ⟨_, _, _, _, _, s6⟩ := packStateAt_step ctx .Compute intfData inRegMask hok hMax _ i
      hinv
    obtain ⟨_, _, _, r4, _⟩ := s6 hres
    rw [sizeAt_of_some ctx i n hn] at r4
    have h1 := hinv1.1
    have hu : u32 ((fitStateAt ctx .Compute intfData inRegMask i).actualAvailUserDataCount
        + n.sizeInDwords)
        = (fitStateAt ctx .Compute intfData inRegMask i).actualAvailUserDataCount
          + n.sizeInDwords := by
      unfold u32
      omega
    rw [hu] at hfit
    have hA : u32 (n.offsetInDwords + 2) = n.offsetInDwords + 2 := by
      unfold u32
      omega
    have hB : u32 (ctx.MaxCsUserDataCount + 2) = ctx.MaxCsUserDataCount + 2 := by
      unfold u32
      omega
    rw [hA, hB] at f3
    unfold firstSlot
    split at f3
    · omega
    · omega
  · rw [hres] at hr'
    exact Bool.noConfusion hr'

theorem fillDummies_argTys (ctx : Context) (off fuel w0 : Nat) (s : St)
    (hinv : s.packInv ctx w0) :
    s.userDataIdx ≤ (fillDummies ctx off fuel s).userDataIdx ∧
      (fillDummies ctx off fuel s).argTys
        = s.argTys ++ List.replicate
            ((fillDummies ctx off fuel s).userDataIdx - s.userDataIdx) ArgTy.Int32Ty := by
  induction fuel generalizing s with
  | zero =>
    have h0 : fillDummies ctx off 0 s = s := rfl
    rw [h0]
    simp
  | succ k ih =>
    rw [fillDummies]
    dsimp only
    split
    · rename_i hc
      obtain ⟨i1, i2, i3, i4⟩ := hinv
      have hu1 := u32_lt (off + ctx.CsStartUserData)
      have hu2 : u32 (s.availUserDataCount + ctx.CsStartUserData)
          ≤ s.availUserDataCount + ctx.CsStartUserData := by
        unfold u32
        exact Nat.mod_le _ _
      have hstep : ((((s.push .Int32Ty).inRegNext).userDataNext 1).consume 1).packInv ctx w0 := by
        refine ⟨?_, ?_, ?_, ?_⟩
        · simp [u32]
          omega
        · simp [u32]
          omega
        · simp [St.argWords, ArgTy.words, u32] at i3 ⊢
          omega
        · intro hcs
          have := i4 hcs
          simp [u32]
          omega
      have e1 : ((((s.push .Int32Ty).inRegNext).userDataNext 1).consume 1).userDataIdx
          = s.userDataIdx + 1 := by
        simp [u32]
        omega
      have e2 : ((((s.push .Int32Ty).inRegNext).userDataNext 1).consume 1).argTys
          = s.argTys ++ [.Int32Ty] := by
        simp
      obtain ⟨j1, j2⟩ := ih _ hstep
      rw [e1] at j1
      rw [e1, e2] at j2
      refine ⟨by omega, ?_⟩
      rw [j2, List.append_assoc]
      congr 1
      have : (fillDummies ctx off k
          ((((s.push .Int32Ty).inRegNext).userDataNext 1).consume 1)).userDataIdx
            - s.userDataIdx
          = ((fillDummies ctx off k
            ((((s.push .Int32Ty).inRegNext).userDataNext 1).consume 1)).userDataIdx
              - (s.userDataIdx + 1)) + 1 := by
        omega
      rw [this, List.replicate_succ]
      rfl
    · simp

theorem scanNode_argTys (ctx : Context) (stage : ShaderStage) (i : Nat) (n : ResourceNode)
    (s : St) :
    (scanNode ctx stage i n s).argTys = s.argTys ∧
      (scanNode ctx stage i n s).argIdx = s.argIdx := by
  unfold scanNode
  dsimp only
  split_ifs <;> simp

theorem beforePack_args_fixed (ctx : Context)
    (intfData : ShaderStage → InterfaceData) (inRegMask : Nat)
    (hok : (beforePack ctx .Compute intfData inRegMask).ok = true) :
    (beforePack ctx .Compute intfData inRegMask).argTys = [.Int32Ty, .Int32Ty] ∧
      (beforePack ctx .Compute intfData inRegMask).argIdx = 2 := by
  have hd : (decideSpill ctx .Compute (afterReserve ctx .Compute intfData inRegMask)).argTys
        = [.Int32Ty, .Int32Ty] ∧
      (decideSpill ctx .Compute (afterReserve ctx .Compute intfData inRegMask)).argIdx
        = 2 := by
    have h1 : ∀ s : St, (decideSpill ctx .Compute s).argTys = s.argTys ∧
        (decideSpill ctx .Compute s).argIdx = s.argIdx := by
      intro s
      unfold decideSpill useFixedLayout
      simp
    have h2 : ∀ s : St, (reserveSpecial ctx .Compute s).argTys = s.argTys ∧
        (reserveSpecial ctx .Compute s).argIdx = s.argIdx := by
      intro s
      simp [reserveSpecial]
    have h3 := forNodes_frame (fun s => (s.argTys, s.argIdx)) (scanNode ctx .Compute)
      (fun i n s => by
        obtain ⟨a, b⟩ := scanNode_argTys ctx .Compute i n s
        simp only [a, b])
      0 ctx.userDataNodes (initState ctx .Compute intfData inRegMask)
    simp only [Prod.mk.injEq] at h3
    obtain ⟨i1, i2, _, _⟩ := initState_fields ctx .Compute intfData inRegMask
    unfold afterReserve afterScan scanNodes
    rw [(h1 _).1, (h1 _).2, (h2 _).1, (h2 _).2, h3.1, h3.2]
    exact ⟨i1, i2⟩
  unfold beforePack allocStreamOut at hok ⊢
  split
  · rename_i hc
    rw [if_pos hc] at hok
    rcases firstNodeOfType_cases .StreamOutTableVaPtr (allocStreamOutNode .Compute)
      ctx.userDataNodes (decideSpill ctx .Compute (afterReserve ctx .Compute intfData inRegMask))
      with h | ⟨n, h⟩
    · rw [h]
      exact hd
    · rw [h] at hok
      simp [allocStreamOutNode] at hok
  · exact hd

theorem packStateAt_of_none_packed (ctx : Context) (stage : ShaderStage)
    (intfData : ShaderStage → InterfaceData) (inRegMask : Nat) (i : Nat)
    (h : ∀ (j : Nat) (m : ResourceNode), j < i → ctx.userDataNodes[j]? = some m →
      isPacked ctx stage m = false) :
    packStateAt ctx stage intfData inRegMask i = beforePack ctx stage intfData inRegMask := by
  induction i with
  | zero => exact packStateAt_zero ctx stage intfData inRegMask
  | succ k ih =>
    have ih' := ih (fun j m hj => h j m (by omega))
    cases hn : ctx.userDataNodes[k]? with
    | none => rw [packStateAt_succ_of_none ctx stage intfData inRegMask k hn, ih']
    | some n =>
      rw [packStateAt_succ ctx stage intfData inRegMask k n hn,
        packNode_of_not_packed ctx stage k n _ (h k n (Nat.lt_succ_self k) hn), ih']

theorem fitStateAt_argTys_first (ctx : Context)
    (intfData : ShaderStage → InterfaceData) (inRegMask : Nat)
    (hok : (afterPack ctx .Compute intfData inRegMask).ok = true)
    (hMax : ctx.MaxUserDataCount < 4294967296)
    (i : Nat) (n : ResourceNode) (hn : ctx.userDataNodes[i]? = some n)
    (hfirst : ∀ (j : Nat) (m : ResourceNode), j < i → ctx.userDataNodes[j]? = some m →
      isPacked ctx .Compute m = false) :
    (fitStateAt ctx .Compute intfData inRegMask i).argTys
      = [.Int32Ty, .Int32Ty] ++ List.replicate
          ((fitStateAt ctx .Compute intfData inRegMask i).userDataIdx - 2) ArgTy.Int32Ty := by
  have hp0 := packStateAt_of_none_packed ctx .Compute intfData inRegMask i hfirst
  have hok0 := packStateAt_ok ctx .Compute intfData inRegMask hok 0
  rw [packStateAt_zero] at hok0
  have hinv := packStateAt_inv ctx .Compute intfData inRegMask hok hMax i
  obtain ⟨a1, _⟩ := beforePack_args_fixed ctx intfData inRegMask hok0
  have hidx := beforePack_userDataIdx_fixed ctx intfData inRegMask hok0
  rw [fitStateAt_eq ctx .Compute intfData inRegMask i n hn, padNode_fixed_eq]
  obtain ⟨_, h2⟩ := fillDummies_argTys ctx n.offsetInDwords
    (u32 ((packStateAt ctx .Compute intfData inRegMask i).availUserDataCount
      + ctx.CsStartUserData)
      - (packStateAt ctx .Compute intfData inRegMask i).userDataIdx) _
    (packStateAt ctx .Compute intfData inRegMask i) hinv
  rw [h2, hp0, a1, hidx]

/-! ## The argument counter and the list of argument types -/

theorem fillDummies_argIdx (ctx : Context) (off fuel w0 : Nat) (s : St)
    (hok : (fillDummies ctx off fuel s).ok = true) (hinv : s.packInv ctx w0) :
    (fillDummies ctx off fuel s).argIdx + s.userDataIdx
      = s.argIdx + (fillDummies ctx off fuel s).userDataIdx := by
  induction fuel generalizing s with
  | zero => rfl
  | succ k ih =>
    rw [fillDummies] at hok ⊢
    dsimp only at hok ⊢
    split
    · rename_i hc
      rw [if_pos hc] at hok
      have hok1 := fillDummies_back _ _ _ _ id hok
      simp at hok1
      obtain ⟨i1, i2, i3, i4⟩ := hinv
      have hu1 := u32_lt (off + ctx.CsStartUserData)
      have hu2 : u32 (s.availUserDataCount + ctx.CsStartUserData)
          ≤ s.availUserDataCount + ctx.CsStartUserData := by
        unfold u32
        exact Nat.mod_le _ _
      have hstep : ((((s.push .Int32Ty).inRegNext).userDataNext 1).consume 1).packInv ctx w0 := by
        refine ⟨?_, ?_, ?_, ?_⟩
        · simp [u32]
          omega
        · simp [u32]
          omega
        · simp [St.argWords, ArgTy.words, u32] at i3 ⊢
          omega
        · intro hcs
          have := i4 hcs
          simp [u32]
          omega
      have e1 : ((((s.push .Int32Ty).inRegNext).userDataNext 1).consume 1).userDataIdx
          = s.userDataIdx + 1 := by
        simp [u32]
        omega
      have e2 : ((((s.push .Int32Ty).inRegNext).userDataNext 1).consume 1).argIdx
          = s.argIdx + 1 := by
        simp [u32]
        omega
      have := ih _ hok hstep
      rw [e1, e2] at this
      omega
    · rfl

theorem assignNode_argLen (ctx : Context) (stage : ShaderStage) (i : Nat) (n : ResourceNode)
    (s : St) (hok : (assignNode ctx stage i n s).ok = true) :
    (assignNode ctx stage i n s).argTys.length = s.argTys.length + 1 := by
  unfold assignNode at hok ⊢
  cases ht : n.type <;> simp only [ht] at hok ⊢ <;> simp at hok ⊢

/-- In a run without failure the argument counter of the packing loop is the length of the
list of argument types. -/
theorem packStateAt_argLen (ctx : Context) (stage : ShaderStage)
    (intfData : ShaderStage → InterfaceData) (inRegMask : Nat)
    (hok : (afterPack ctx stage intfData inRegMask).ok = true)
    (hMax : ctx.MaxUserDataCount < 4294967296)
    (h0 : (beforePack ctx stage intfData inRegMask).argIdx
      = (beforePack ctx stage intfData inRegMask).argTys.length) (i : Nat) :
    (packStateAt ctx stage intfData inRegMask i).argIdx
      = (packStateAt ctx stage intfData inRegMask i).argTys.length := by
  induction i with
  | zero =>
    rw [packStateAt_zero]
    exact h0
  | succ i ih =>
    have hinv := packStateAt_inv ctx stage intfData inRegMask hok hMax i
    have hok1 := packStateAt_ok ctx stage intfData inRegMask hok (i + 1)
    cases hn : ctx.userDataNodes[i]? with
    | none =>
      rw [packStateAt_succ_of_none ctx stage intfData inRegMask i hn]
      exact ih
    | some n =>
      have hf := fitStateAt_eq ctx stage intfData inRegMask i n hn
      have hfit : (fitStateAt ctx stage intfData inRegMask i).ok = true →
          (fitStateAt ctx stage intfData inRegMask i).argIdx
            = (fitStateAt ctx stage intfData inRegMask i).argTys.length := by
        intro hokf
        rw [hf] at hokf ⊢
        unfold padNode at hokf ⊢
        split
        · rename_i hc
          rw [if_pos hc] at hokf
          have h1 := fillDummies_argIdx ctx _ _ _ _ hokf hinv
          obtain ⟨h2, h3⟩ := fillDummies_argTys ctx n.offsetInDwords
            (u32 ((packStateAt ctx stage intfData inRegMask i).availUserDataCount
              + ctx.CsStartUserData)
              - (packStateAt ctx stage intfData inRegMask i).userDataIdx) _ _ hinv
          rw [h3, List.length_append, List.length_replicate]
          omega
        · exact ih
      rcases packStateAt_succ_cases ctx stage intfData inRegMask i n hn with
        ⟨hp, he⟩ | ⟨hp, hr, he⟩ | ⟨hp, hr, he⟩
      · rw [he]
        exact ih
      · rw [he] at hok1
        have hokf := assignNode_back _ _ _ _ _ id hok1
        have hpf : (fitStateAt ctx stage intfData inRegMask i).packInv ctx
            (beforePack ctx stage intfData inRegMask).argWords := by
          rw [hf] at hokf ⊢
          exact (padNode_facts ctx stage n _ _ hokf hinv).1
        obtain ⟨_, a2, _⟩ := assignNode_facts ctx stage i n _ hok1 hMax hpf.1
        rw [he, a2, assignNode_argLen ctx stage i n _ hok1, hfit hokf]
      · have hokf : (fitStateAt ctx stage intfData inRegMask i).ok = true := by
          rw [he] at hok1
          split at hok1
          · exact St.setIntf_back _ _ _ id hok1
          · exact hok1
        rw [he]
        split
        · simpa using hfit hokf
        · exact hfit hokf

theorem fillToSpill_exact (ctx : Context) (fuel : Nat) (s : St)
    (hok : (fillToSpill ctx fuel s).ok = true)
    (hB : u32 (ctx.MaxCsUserDataCount + ctx.CsStartUserData) + 1 < 4294967296)
    (hle : s.userDataIdx ≤ u32 (ctx.MaxCsUserDataCount + ctx.CsStartUserData) + 1)
    (hfuel : u32 (ctx.MaxCsUserDataCount + ctx.CsStartUserData) + 1 ≤ s.userDataIdx + fuel)
    (hlen : s.argIdx = s.argTys.length) :
    (fillToSpill ctx fuel s).userDataIdx
        = u32 (ctx.MaxCsUserDataCount + ctx.CsStartUserData) + 1 ∧
      (fillToSpill ctx fuel s).argIdx = (fillToSpill ctx fuel s).argTys.length ∧
      (fillToSpill ctx fuel s).argTys
        = s.argTys ++ List.replicate
          (u32 (ctx.MaxCsUserDataCount + ctx.CsStartUserData) + 1 - s.userDataIdx)
          ArgTy.Int32Ty ∧
      (fillToSpill ctx fuel s).argIdx ≤ max s.argIdx 64 := by
  induction fuel generalizing s with
  | zero =>
    have h0 : fillToSpill ctx 0 s = s := rfl
    rw [h0]
    have : u32 (ctx.MaxCsUserDataCount + ctx.CsStartUserData) + 1 - s.userDataIdx = 0 := by
      omega
    rw [this]
    exact ⟨by omega, hlen, by simp, Nat.le_max_left _ _⟩
  | succ k ih =>
    rw [fillToSpill] at hok ⊢
    split
    · rename_i hc
      rw [if_pos hc] at hok
      have hok1 := fillToSpill_back _ _ _ id hok
      simp at hok1
      have e1 : (((s.push .Int32Ty).inRegNext).userDataNext 1).userDataIdx
          = s.userDataIdx + 1 := by
        simp [u32]
        omega
      have e2 : (((s.push .Int32Ty).inRegNext).userDataNext 1).argIdx = s.argIdx + 1 := by
        simp [u32]
        omega
      have e3 : (((s.push .Int32Ty).inRegNext).userDataNext 1).argTys
          = s.argTys ++ [.Int32Ty] := by
        simp
      obtain ⟨j1, j2, j3, j4⟩ := ih _ hok (by rw [e1]; omega) (by rw [e1]; omega)
        (by rw [e2, e3, hlen]; simp)
      rw [e2] at j4
      refine ⟨j1, j2, ?_, by omega⟩
      rw [j3, e1, e3, List.append_assoc]
      congr 1
      have : u32 (ctx.MaxCsUserDataCount + ctx.CsStartUserData) + 1 - s.userDataIdx
          = (u32 (ctx.MaxCsUserDataCount + ctx.CsStartUserData) + 1 - (s.userDataIdx + 1))
            + 1 := by
        omega
      rw [this, List.replicate_succ]
      rfl
    · rename_i hc
      have : u32 (ctx.MaxCsUserDataCount + ctx.CsStartUserData) + 1 - s.userDataIdx = 0 := by
        omega
      rw [this]
      exact ⟨by omega, hlen, by simp, Nat.le_max_left _ _⟩

/-! ## The spill table of the fixed layout -/

theorem fixedSpill_facts (ctx : Context) (s : St) (hns : s.needSpill = true)
    (hok : (fixedSpill ctx .Compute s).ok = true)
    (hB : ctx.MaxCsUserDataCount + ctx.CsStartUserData + 1 < 4294967296)
    (hlen : s.argIdx = s.argTys.length) :
    ((fixedSpill ctx .Compute s).intfData .Compute).userDataUsage.spillTable
        = ctx.CsStartUserData + ctx.MaxCsUserDataCount ∧
      ((fixedSpill ctx .Compute s).intfData .Compute).entryArgIdxs.spillTable + 1
        = (fixedSpill ctx .Compute s).argTys.length ∧
      (fixedSpill ctx .Compute s).argTys.getLast? = some ArgTy.Int32Ty ∧
      s.argTys.length < (fixedSpill ctx .Compute s).argTys.length := by
  have hu : u32 (ctx.MaxCsUserDataCount + ctx.CsStartUserData)
      = ctx.MaxCsUserDataCount + ctx.CsStartUserData := by
    unfold u32
    omega
  unfold fixedSpill at hok ⊢
  rw [if_pos ⟨hns, rfl⟩] at hok ⊢
  dsimp only at hok ⊢
  have hok2 : (fillToSpill ctx
      (u32 (ctx.MaxCsUserDataCount + ctx.CsStartUserData) + 1
        - ((s.assert (fun s => decide ((s.intfData .Compute).spillTable.offsetInDwords
            ≠ ctx.InvalidValue))).assert
          (fun s => decide (s.userDataIdx
            ≤ u32 (ctx.MaxCsUserDataCount + ctx.CsStartUserData)))).userDataIdx)
      ((s.assert (fun s => decide ((s.intfData .Compute).spillTable.offsetInDwords
          ≠ ctx.InvalidValue))).assert
        (fun s => decide (s.userDataIdx
          ≤ u32 (ctx.MaxCsUserDataCount + ctx.CsStartUserData))))).ok = true := by
    simpa using hok
  have hok3 := fillToSpill_back _ _ _ id hok2
  simp only [St.assert_ok, Bool.and_eq_true, decide_eq_true_eq, St.assert_userDataIdx] at hok3
  obtain ⟨⟨_, _⟩, hle⟩ := hok3
  obtain ⟨j1, j2, j3, j4⟩ := fillToSpill_exact ctx _ _ hok2 (by omega)
    (by simp only [St.assert_userDataIdx]; omega)
    (by simp only [St.assert_userDataIdx]; omega)
    (by simpa using hlen)
  simp only [St.assert_userDataIdx, St.assert_argTys, St.assert_argIdx] at j1 j2 j3 j4 ⊢
  have hpos : 0 < u32 (ctx.MaxCsUserDataCount + ctx.CsStartUserData) + 1 - s.userDataIdx := by
    omega
  have hs1 : ∀ a : Nat, 0 < a → a < 4294967296 → sub32 a 1 = a - 1 := by
    intro a h1 h2
    unfold sub32 u32
    split_ifs <;> omega
  generalize fillToSpill ctx
    (u32 (ctx.MaxCsUserDataCount + ctx.CsStartUserData) + 1 - s.userDataIdx)
    ((s.assert (fun s => decide ((s.intfData .Compute).spillTable.offsetInDwords
        ≠ ctx.InvalidValue))).assert
      (fun s => decide (s.userDataIdx
        ≤ u32 (ctx.MaxCsUserDataCount + ctx.CsStartUserData)))) = t at hok2 j1 j2 j3 j4 ⊢
  have hlen2 : t.argTys.length
      = s.argTys.length
        + (u32 (ctx.MaxCsUserDataCount + ctx.CsStartUserData) + 1 - s.userDataIdx) := by
    rw [j3, List.length_append, List.length_replicate]
  have hne : List.replicate
      (u32 (ctx.MaxCsUserDataCount + ctx.CsStartUserData) + 1 - s.userDataIdx)
      ArgTy.Int32Ty ≠ [] := by
    intro h
    have := congrArg List.length h
    simp only [List.length_replicate, List.length_nil] at this
    omega
  refine ⟨?_, ?_, ?_, ?_⟩
  · simp only [St.record_intfData_same, St.record_userDataIdx]
    show sub32 t.userDataIdx 1 = _
    rw [j1, hs1 _ (by omega) (by omega), hu]
    omega
  · simp only [St.record_intfData_same, St.record_argIdx, St.record_argTys]
    show sub32 t.argIdx 1 + 1 = _
    rw [j2, hs1 _ (by omega) (by omega)]
    omega
  · simp only [St.record_argTys]
    rw [j3, List.getLast?_append_of_ne_nil _ hne, List.getLast?_eq_getLast _ hne,
      List.getLast_replicate]
  · simp only [St.record_argTys]
    omega


/-! ## The spill-table slot behind the fixed layout -/

@[simp] theorem St.setIntf_usageSpill (s : St) (t u : ShaderStage)
    (f : InterfaceData → InterfaceData)
    (h : ∀ d, (f d).userDataUsage.spillTable = d.userDataUsage.spillTable) :
    ((s.setIntf t f).intfData u).userDataUsage.spillTable
      = (s.intfData u).userDataUsage.spillTable :=
  St.setIntf_proj (fun d => d.userDataUsage.spillTable) s t u f h

@[simp] theorem St.record_usageSpill (s : St) (t u : ShaderStage) (get : St → Nat)
    (set : Nat → InterfaceData → InterfaceData)
    (h : ∀ a d, (set a d).userDataUsage.spillTable = d.userDataUsage.spillTable) :
    ((s.record t get set).intfData u).userDataUsage.spillTable
      = (s.intfData u).userDataUsage.spillTable :=
  St.setIntf_proj (fun d => d.userDataUsage.spillTable) s t u _ (h _)

@[simp] theorem St.setIntf_argSpill (s : St) (t u : ShaderStage)
    (f : InterfaceData → InterfaceData)
    (h : ∀ d, (f d).entryArgIdxs.spillTable = d.entryArgIdxs.spillTable) :
    ((s.setIntf t f).intfData u).entryArgIdxs.spillTable
      = (s.intfData u).entryArgIdxs.spillTable :=
  St.setIntf_proj (fun d => d.entryArgIdxs.spillTable) s t u f h

@[simp] theorem St.record_argSpill (s : St) (t u : ShaderStage) (get : St → Nat)
    (set : Nat → InterfaceData → InterfaceData)
    (h : ∀ a d, (set a d).entryArgIdxs.spillTable = d.entryArgIdxs.spillTable) :
    ((s.record t get set).intfData u).entryArgIdxs.spillTable
      = (s.intfData u).entryArgIdxs.spillTable :=
  St.setIntf_proj (fun d => d.entryArgIdxs.spillTable) s t u _ (h _)

theorem afterFixed_spill_frame (ctx : Context) (s : St) :
    ((systemValues ctx .Compute (greedySpill .Compute
        (specialUserData ctx .Compute s))).intfData .Compute).userDataUsage.spillTable
        = (s.intfData .Compute).userDataUsage.spillTable ∧
      ((systemValues ctx .Compute (greedySpill .Compute
        (specialUserData ctx .Compute s))).intfData .Compute).entryArgIdxs.spillTable
        = (s.intfData .Compute).entryArgIdxs.spillTable := by
  have hg : ∀ t : St, greedySpill .Compute t
      = t.record .Compute St.userDataIdx (fun a d => { d with userDataCount := a }) := by
    intro t
    unfold greedySpill
    simp only [St.when, useFixedLayout]
    simp
  have hsp1 : ((specialUserData ctx .Compute s).intfData .Compute).userDataUsage.spillTable
      = (s.intfData .Compute).userDataUsage.spillTable := by
    simp only [specialUserData]
    refine St.when_proj (fun s => (s.intfData .Compute).userDataUsage.spillTable) _ _ _
      (fun s => ?_)
    simp only [St.userDataNext_intfData, St.inRegNext_intfData, St.push_intfData,
      St.record_usageSpill]
    refine St.when_proj (fun s => (s.intfData .Compute).userDataUsage.spillTable) _ _ _
      (fun s => ?_)
    simp
  have hsp2 : ((specialUserData ctx .Compute s).intfData .Compute).entryArgIdxs.spillTable
      = (s.intfData .Compute).entryArgIdxs.spillTable := by
    simp only [specialUserData]
    refine St.when_proj (fun s => (s.intfData .Compute).entryArgIdxs.spillTable) _ _ _
      (fun s => ?_)
    simp only [St.userDataNext_intfData, St.inRegNext_intfData, St.push_intfData,
      St.record_argSpill]
    refine St.when_proj (fun s => (s.intfData .Compute).entryArgIdxs.spillTable) _ _ _
      (fun s => ?_)
    simp
  refine ⟨?_, ?_⟩
  · rw [hg, ← hsp1]
    simp [systemValues, systemValuesCs, St.sgprArg_eq, St.vgprArg_eq]
  · rw [hg, ← hsp2]
    simp [systemValues, systemValuesCs, St.sgprArg_eq, St.vgprArg_eq]

/-! ## Two contexts with the same nodes: the slots of the packing loop -/

theorem packedNodes_congr (ctx ctx' : Context) (stage : ShaderStage)
    (hnodes : ctx'.userDataNodes = ctx.userDataNodes)
    (hact : ∀ n ∈ ctx.userDataNodes, isPacked ctx' stage n = isPacked ctx stage n) :
    packedNodes ctx' stage = packedNodes ctx stage := by
  unfold packedNodes
  rw [hnodes]
  exact List.filter_congr hact

theorem sizeAt_congr (ctx ctx' : Context) (hnodes : ctx'.userDataNodes = ctx.userDataNodes)
    (i : Nat) : sizeAt ctx' i = sizeAt ctx i := by
  unfold sizeAt
  rw [hnodes]

theorem sub32_of_le {a b : Nat} (h : b ≤ a) (ha : a < 4294967296) : sub32 a b = a - b := by
  unfold sub32 u32
  split_ifs <;> omega

theorem availableSlots_facts (ctx : Context) (stage : ShaderStage)
    (intfData : ShaderStage → InterfaceData) (inRegMask : Nat)
    (hmax : ctx.maxUserDataCount < 4294967296)
    (hres : 2 + reservedSlots ctx stage intfData inRegMask < ctx.maxUserDataCount) :
    slotBudget ctx stage intfData inRegMask
        = ctx.maxUserDataCount - (2 + reservedSlots ctx stage intfData inRegMask) ∧
      availableSlots ctx stage intfData inRegMask
        = (if slotBudget ctx stage intfData inRegMask < sumOfSizes ctx stage then
            slotBudget ctx stage intfData inRegMask - 1
          else slotBudget ctx stage intfData inRegMask) ∧
      availableSlots ctx stage intfData inRegMask ≤ ctx.maxUserDataCount := by
  have hb := slotBudget_eq ctx stage intfData inRegMask
  rw [sub32_of_le (by omega) hmax] at hb
  have ha : availableSlots ctx stage intfData inRegMask
      = (if slotBudget ctx stage intfData inRegMask < sumOfSizes ctx stage then
          slotBudget ctx stage intfData inRegMask - 1
        else slotBudget ctx stage intfData inRegMask) := by
    unfold availableSlots
    split
    · rw [sub32_of_le (by omega) (by omega)]
    · rfl
  refine ⟨hb, ha, ?_⟩
  rw [ha]
  split <;> omega

/-- Reserving more slots leaves no more slots to the packing loop. -/
theorem availableSlots_anti (ctx ctx' : Context) (stage : ShaderStage)
    (intfData : ShaderStage → InterfaceData) (inRegMask : Nat)
    (hnodes : ctx'.userDataNodes = ctx.userDataNodes)
    (hact : ∀ n ∈ ctx.userDataNodes, isPacked ctx' stage n = isPacked ctx stage n)
    (hsame : ctx'.maxUserDataCount = ctx.maxUserDataCount)
    (hmax : ctx.maxUserDataCount < 4294967296)
    (hle : reservedSlots ctx stage intfData inRegMask
      ≤ reservedSlots ctx' stage intfData inRegMask)
    (hres : 2 + reservedSlots ctx' stage intfData inRegMask < ctx.maxUserDataCount) :
    availableSlots ctx' stage intfData inRegMask
      ≤ availableSlots ctx stage intfData inRegMask := by
  obtain ⟨b1, a1, _⟩ := availableSlots_facts ctx stage intfData inRegMask hmax (by omega)
  obtain ⟨b2, a2, _⟩ := availableSlots_facts ctx' stage intfData inRegMask
    (by omega) (by omega)
  have hs : sumOfSizes ctx' stage = sumOfSizes ctx stage := by
    unfold sumOfSizes
    rw [packedNodes_congr ctx ctx' stage hnodes hact]
  rw [a1, a2, hs, b1, b2, hsame]
  split_ifs <;> omega

/-- The test of the packing loop outside the fixed layout, for every index. -/
theorem registerResident_greedy (ctx : Context) (stage : ShaderStage)
    (intfData : ShaderStage → InterfaceData) (inRegMask : Nat) (hst : stage ≠ .Compute)
    (hno : ∀ m ∈ ctx.userDataNodes,
      m.sizeInDwords + availableSlots ctx stage intfData inRegMask < 4294967296)
    (i : Nat) :
    registerResident ctx stage intfData inRegMask i = true ↔
      ∃ n, ctx.userDataNodes[i]? = some n ∧ isPacked ctx stage n = true ∧
        consumedBefore ctx stage intfData inRegMask i + n.sizeInDwords
          ≤ availableSlots ctx stage intfData inRegMask := by
  have hc := consumedBefore_le_avail ctx stage intfData inRegMask hst i
  constructor
  · intro h
    obtain ⟨n, hn, hp⟩ := registerResident_some _ _ _ _ _ h
    have h1 := (registerResident_iff_greedy _ _ _ _ hst i n hn hp).mp h
    have h2 := hno n (List.getElem?_mem hn)
    rw [u32_of_lt (by omega)] at h1
    exact ⟨n, hn, hp, h1⟩
  · rintro ⟨n, hn, hp, h1⟩
    have h2 := hno n (List.getElem?_mem hn)
    refine (registerResident_iff_greedy _ _ _ _ hst i n hn hp).mpr ?_
    rw [u32_of_lt (by omega)]
    exact h1

theorem consumedBefore_step (ctx : Context) (stage : ShaderStage)
    (intfData : ShaderStage → InterfaceData) (inRegMask : Nat) (hst : stage ≠ .Compute)
    (hno : ∀ m ∈ ctx.userDataNodes,
      m.sizeInDwords + availableSlots ctx stage intfData inRegMask < 4294967296)
    (i : Nat) :
    consumedBefore ctx stage intfData inRegMask (i + 1)
      = consumedBefore ctx stage intfData inRegMask i
        + (if registerResident ctx stage intfData inRegMask i = true then sizeAt ctx i
          else 0) := by
  rw [consumedBefore_succ]
  split
  · rename_i h
    obtain ⟨n, hn, _, h1⟩ := (registerResident_greedy _ _ _ _ hst hno i).mp h
    have h2 := hno n (List.getElem?_mem hn)
    rw [sizeAt_of_some _ _ _ hn, u32_of_lt (by omega)]
  · rfl

theorem residentWordsBefore_eq_consumed (ctx : Context) (stage : ShaderStage)
    (intfData : ShaderStage → InterfaceData) (inRegMask : Nat) (hst : stage ≠ .Compute)
    (hno : ∀ m ∈ ctx.userDataNodes,
      m.sizeInDwords + availableSlots ctx stage intfData inRegMask < 4294967296)
    (i : Nat) :
    residentWordsBefore ctx stage intfData inRegMask i
      = consumedBefore ctx stage intfData inRegMask i := by
  induction i with
  | zero =>
    rw [consumedBefore_zero]
    rfl
  | succ i ih =>
    rw [residentWordsBefore_succ, consumedBefore_step _ _ _ _ hst hno, ih]

/-- Outside the fixed layout, with fewer slots available the words consumed by the
register-resident nodes either stay the same or, in the run with more slots, exceed the
smaller number of slots. -/
theorem consumedBefore_compare (ctx ctx' : Context) (stage : ShaderStage)
    (intfData : ShaderStage → InterfaceData) (inRegMask : Nat) (hst : stage ≠ .Compute)
    (hnodes : ctx'.userDataNodes = ctx.userDataNodes)
    (hact : ∀ n ∈ ctx.userDataNodes, isPacked ctx' stage n = isPacked ctx stage n)
    (hA : availableSlots ctx' stage intfData inRegMask
      ≤ availableSlots ctx stage intfData inRegMask)
    (hno : ∀ m ∈ ctx.userDataNodes,
      m.sizeInDwords + availableSlots ctx stage intfData inRegMask < 4294967296)
    (i : Nat) :
    consumedBefore ctx stage intfData inRegMask i
        = consumedBefore ctx' stage intfData inRegMask i ∨
      availableSlots ctx' stage intfData inRegMask
        < consumedBefore ctx stage intfData inRegMask i := by
  have hno' : ∀ m ∈ ctx'.userDataNodes,
      m.sizeInDwords + availableSlots ctx' stage intfData inRegMask < 4294967296 := by
    intro m hm
    rw [hnodes] at hm
    have := hno m hm
    omega
  induction i with
  | zero =>
    left
    rw [consumedBefore_zero, consumedBefore_zero]
  | succ i ih =>
    have s1 := consumedBefore_step ctx stage intfData inRegMask hst hno i
    have s2 := consumedBefore_step ctx' stage intfData inRegMask hst hno' i
    have g1 := registerResident_greedy ctx stage intfData inRegMask hst hno i
    have g2 := registerResident_greedy ctx' stage intfData inRegMask hst hno' i
    rw [hnodes] at g2
    rw [sizeAt_congr ctx ctx' hnodes] at s2
    rcases ih with ih | ih
    · by_cases r1 : registerResident ctx stage intfData inRegMask i = true
      · by_cases r2 : registerResident ctx' stage intfData inRegMask i = true
        · left
          rw [s1, s2, if_pos r1, if_pos r2, ih]
        · right
          obtain ⟨n, hn, hp, h1⟩ := g1.mp r1
          have h2 : ¬ (consumedBefore ctx' stage intfData inRegMask i + n.sizeInDwords
              ≤ availableSlots ctx' stage intfData inRegMask) := by
            intro h
            exact r2 (g2.mpr ⟨n, hn,
              (hact n (List.getElem?_mem hn)).trans hp, h⟩)
          rw [s1, if_pos r1, sizeAt_of_some _ _ _ hn]
          omega
      · by_cases r2 : registerResident ctx' stage intfData inRegMask i = true
        · exfalso
          obtain ⟨n, hn, hp, h1⟩ := g2.mp r2
          exact r1 (g1.mpr ⟨n, hn,
            (hact n (List.getElem?_mem hn)).symm.trans hp, by omega⟩)
        · left
          rw [s1, s2, if_neg r1, if_neg r2, ih]
    · right
      rw [s1]
      omega

/-- Outside the fixed layout, with fewer slots available the register-resident nodes take
no more dwords. -/
theorem residentWords_anti (ctx ctx' : Context) (stage : ShaderStage)
    (intfData : ShaderStage → InterfaceData) (inRegMask : Nat) (hst : stage ≠ .Compute)
    (hnodes : ctx'.userDataNodes = ctx.userDataNodes)
    (hact : ∀ n ∈ ctx.userDataNodes, isPacked ctx' stage n = isPacked ctx stage n)
    (hA : availableSlots ctx' stage intfData inRegMask
      ≤ availableSlots ctx stage intfData inRegMask)
    (hno : ∀ m ∈ ctx.userDataNodes,
      m.sizeInDwords + availableSlots ctx stage intfData inRegMask < 4294967296)
    (i : Nat) :
    residentWordsBefore ctx' stage intfData inRegMask i
      ≤ residentWordsBefore ctx stage intfData inRegMask i := by
  have hno' : ∀ m ∈ ctx'.userDataNodes,
      m.sizeInDwords + availableSlots ctx' stage intfData inRegMask < 4294967296 := by
    intro m hm
    rw [hnodes] at hm
    have := hno m hm
    omega
  rw [residentWordsBefore_eq_consumed _ _ _ _ hst hno,
    residentWordsBefore_eq_consumed _ _ _ _ hst hno']
  have h1 := consumedBefore_le_avail ctx' stage intfData inRegMask hst i
  rcases consumedBefore_compare ctx ctx' stage intfData inRegMask hst hnodes hact hA hno i
    with h | h <;> omega

/-- When all nodes handled by the packing loop have the size `x`, the register-resident
nodes in front of index `i` take `x` dwords each. -/
theorem residentWordsBefore_of_equal_sizes (ctx : Context) (stage : ShaderStage)
    (intfData : ShaderStage → InterfaceData) (inRegMask : Nat) (x : Nat)
    (hx : ∀ m ∈ packedNodes ctx stage, m.sizeInDwords = x) (i : Nat) :
    residentWordsBefore ctx stage intfData inRegMask i
      = x * (List.range i).countP (registerResident ctx stage intfData inRegMask) := by
  induction i with
  | zero => rfl
  | succ i ih =>
    rw [residentWordsBefore_succ, ih, List.range_succ, List.countP_append]
    by_cases r : registerResident ctx stage intfData inRegMask i = true
    · obtain ⟨n, hn, hp⟩ := registerResident_some _ _ _ _ _ r
      have hm : n ∈ packedNodes ctx stage :=
        List.mem_filter.mpr ⟨List.getElem?_mem hn, hp⟩
      rw [if_pos r, sizeAt_of_some _ _ _ hn, hx n hm]
      simp [r, Nat.mul_add]
    · rw [if_neg r]
      simp [r]

/-! ## Two contexts with the same nodes: the fixed layout -/

theorem fillDummies_agree (ctx ctx' : Context)
    (hCs : ctx'.CsStartUserData = ctx.CsStartUserData) (off fuel : Nat) (s s' : St)
    (h : s'.userDataIdx = s.userDataIdx ∧
      s'.actualAvailUserDataCount = s.actualAvailUserDataCount ∧
      s'.availUserDataCount = s.availUserDataCount) :
    (fillDummies ctx' off fuel s').userDataIdx = (fillDummies ctx off fuel s).userDataIdx ∧
      (fillDummies ctx' off fuel s').actualAvailUserDataCount
        = (fillDummies ctx off fuel s).actualAvailUserDataCount ∧
      (fillDummies ctx' off fuel s').availUserDataCount
        = (fillDummies ctx off fuel s).availUserDataCount := by
  induction fuel generalizing s s' with
  | zero => exact h
  | succ fuel ih =>
    obtain ⟨h1, h2, h3⟩ := h
    rw [fillDummies, fillDummies]
    dsimp only
    rw [hCs, h1, h3]
    split
    · refine ih _ _ ?_
      simp [h1, h2, h3]
    · exact ⟨h1, h2, h3⟩

theorem assignNode_agree (ctx ctx' : Context) (stage : ShaderStage) (i : Nat)
    (n : ResourceNode) (s s' : St)
    (h : s'.userDataIdx = s.userDataIdx ∧
      s'.actualAvailUserDataCount = s.actualAvailUserDataCount ∧
      s'.availUserDataCount = s.availUserDataCount) :
    (assignNode ctx' stage i n s').userDataIdx = (assignNode ctx stage i n s).userDataIdx ∧
      (assignNode ctx' stage i n s').actualAvailUserDataCount
        = (assignNode ctx stage i n s).actualAvailUserDataCount ∧
      (assignNode ctx' stage i n s').availUserDataCount
        = (assignNode ctx stage i n s).availUserDataCount := by
  obtain ⟨h1, h2, h3⟩ := h
  unfold assignNode
  dsimp only
  split <;> simp [h1, h2, h3]

theorem padNode_agree (ctx ctx' : Context) (stage : ShaderStage)
    (hCs : ctx'.CsStartUserData = ctx.CsStartUserData) (n : ResourceNode) (s s' : St)
    (h : s'.userDataIdx = s.userDataIdx ∧
      s'.actualAvailUserDataCount = s.actualAvailUserDataCount ∧
      s'.availUserDataCount = s.availUserDataCount) :
    (padNode ctx' stage n s').userDataIdx = (padNode ctx stage n s).userDataIdx ∧
      (padNode ctx' stage n s').actualAvailUserDataCount
        = (padNode ctx stage n s).actualAvailUserDataCount ∧
      (padNode ctx' stage n s').availUserDataCount
        = (padNode ctx stage n s).availUserDataCount := by
  unfold padNode
  split
  · rw [hCs, h.1, h.2.2]
    exact fillDummies_agree ctx ctx' hCs _ _ _ _ h
  · exact h

theorem fits_agree (n : ResourceNode) (s s' : St)
    (h : s'.userDataIdx = s.userDataIdx ∧
      s'.actualAvailUserDataCount = s.actualAvailUserDataCount ∧
      s'.availUserDataCount = s.availUserDataCount) :
    fits s' n = fits s n := by
  unfold fits
  rw [h.2.1, h.2.2]

theorem packNode_agree (ctx ctx' : Context) (stage : ShaderStage)
    (hCs : ctx'.CsStartUserData = ctx.CsStartUserData) (i : Nat) (n : ResourceNode)
    (hact : isPacked ctx' stage n = isPacked ctx stage n) (s s' : St)
    (h : s'.userDataIdx = s.userDataIdx ∧
      s'.actualAvailUserDataCount = s.actualAvailUserDataCount ∧
      s'.availUserDataCount = s.availUserDataCount) :
    (packNode ctx' stage i n s').userDataIdx = (packNode ctx stage i n s).userDataIdx ∧
      (packNode ctx' stage i n s').actualAvailUserDataCount
        = (packNode ctx stage i n s).actualAvailUserDataCount ∧
      (packNode ctx' stage i n s').availUserDataCount
        = (packNode ctx stage i n s).availUserDataCount := by
  unfold packNode
  by_cases t1 : n.type = .IndirectUserDataVaPtr
  · rw [if_pos t1, if_pos t1]
    exact h
  · by_cases t2 : n.type = .StreamOutTableVaPtr
    · rw [if_neg t1, if_pos t2, if_neg t1, if_pos t2]
      exact h
    · have ha : IsResourceNodeActive ctx' stage n true
          = IsResourceNodeActive ctx stage n true := by
        have e1 : (n.type != ResourceMappingNodeType.IndirectUserDataVaPtr) = true := by
          simpa using t1
        have e2 : (n.type != ResourceMappingNodeType.StreamOutTableVaPtr) = true := by
          simpa using t2
        unfold isPacked at hact
        rw [e1, e2] at hact
        simpa using hact
      rw [if_neg t1, if_neg t2, if_neg t1, if_neg t2, ha]
      by_cases a : IsResourceNodeActive ctx stage n true = false
      · rw [if_pos a, if_pos a]
        exact h
      · rw [if_neg a, if_neg a]
        dsimp only
        have hp := padNode_agree ctx ctx' stage hCs n s s' h
        rw [fits_agree n _ _ hp]
        by_cases f : fits (padNode ctx stage n s) n = true
        · rw [if_pos f, if_pos f]
          exact assignNode_agree ctx ctx' stage i n _ _ hp
        · rw [if_neg f, if_neg f]
          split <;> split <;> simpa using hp

/-- The states of the packing loop of two contexts with the same nodes agree on
`userDataIdx`, `actualAvailUserDataCount` and `availUserDataCount` when they do so in front
of the loop. -/
theorem packStateAt_agree (ctx ctx' : Context) (stage : ShaderStage)
    (intfData : ShaderStage → InterfaceData) (inRegMask : Nat)
    (hnodes : ctx'.userDataNodes = ctx.userDataNodes)
    (hact : ∀ n ∈ ctx.userDataNodes, isPacked ctx' stage n = isPacked ctx stage n)
    (hCs : ctx'.CsStartUserData = ctx.CsStartUserData)
    (h0 : (beforePack ctx' stage intfData inRegMask).userDataIdx
        = (beforePack ctx stage intfData inRegMask).userDataIdx ∧
      (beforePack ctx' stage intfData inRegMask).actualAvailUserDataCount
        = (beforePack ctx stage intfData inRegMask).actualAvailUserDataCount ∧
      (beforePack ctx' stage intfData inRegMask).availUserDataCount
        = (beforePack ctx stage intfData inRegMask).availUserDataCount) (i : Nat) :
    (packStateAt ctx' stage intfData inRegMask i).userDataIdx
        = (packStateAt ctx stage intfData inRegMask i).userDataIdx ∧
      (packStateAt ctx' stage intfData inRegMask i).actualAvailUserDataCount
        = (packStateAt ctx stage intfData inRegMask i).actualAvailUserDataCount ∧
      (packStateAt ctx' stage intfData inRegMask i).availUserDataCount
        = (packStateAt ctx stage intfData inRegMask i).availUserDataCount := by
  induction i with
  | zero =>
    rw [packStateAt_zero, packStateAt_zero]
    exact h0
  | succ i ih =>
    cases hn : ctx.userDataNodes[i]? with
    | none =>
      rw [packStateAt_succ_of_none ctx stage intfData inRegMask i hn,
        packStateAt_succ_of_none ctx' stage intfData inRegMask i (by rw [hnodes]; exact hn)]
      exact ih
    | some n =>
      rw [packStateAt_succ ctx stage intfData inRegMask i n hn,
        packStateAt_succ ctx' stage intfData inRegMask i n (by rw [hnodes]; exact hn)]
      exact packNode_agree ctx ctx' stage hCs i n (hact n (List.getElem?_mem hn)) _ _ ih

theorem registerResident_agree (ctx ctx' : Context) (stage : ShaderStage)
    (intfData : ShaderStage → InterfaceData) (inRegMask : Nat)
    (hnodes : ctx'.userDataNodes = ctx.userDataNodes)
    (hact : ∀ n ∈ ctx.userDataNodes, isPacked ctx' stage n = isPacked ctx stage n)
    (hCs : ctx'.CsStartUserData = ctx.CsStartUserData)
    (h0 : (beforePack ctx' stage intfData inRegMask).userDataIdx
        = (beforePack ctx stage intfData inRegMask).userDataIdx ∧
      (beforePack ctx' stage intfData inRegMask).actualAvailUserDataCount
        = (beforePack ctx stage intfData inRegMask).actualAvailUserDataCount ∧
      (beforePack ctx' stage intfData inRegMask).availUserDataCount
        = (beforePack ctx stage intfData inRegMask).availUserDataCount) (i : Nat) :
    registerResident ctx' stage intfData inRegMask i
      = registerResident ctx stage intfData inRegMask i := by
  cases hn : ctx.userDataNodes[i]? with
  | none =>
    rw [registerResident_of_none ctx stage intfData inRegMask i hn,
      registerResident_of_none ctx' stage intfData inRegMask i (by rw [hnodes]; exact hn)]
  | some n =>
    rw [registerResident_eq ctx stage intfData inRegMask i n hn,
      registerResident_eq ctx' stage intfData inRegMask i n (by rw [hnodes]; exact hn),
      hact n (List.getElem?_mem hn),
      fits_agree n _ _ (padNode_agree ctx ctx' stage hCs n _ _
        (packStateAt_agree ctx ctx' stage intfData inRegMask hnodes hact hCs h0 i))]

/-- In the fixed layout, two runs without failure over the same nodes with the same
constants of the compute layout have the same register-resident nodes. -/
theorem registerResident_fixed_agree (ctx ctx' : Context)
    (intfData : ShaderStage → InterfaceData) (inRegMask : Nat)
    (hok : (runEntryPointType ctx .Compute intfData inRegMask).ok = true)
    (hok' : (runEntryPointType ctx' .Compute intfData inRegMask).ok = true)
    (hnodes : ctx'.userDataNodes = ctx.userDataNodes)
    (hact : ∀ n ∈ ctx.userDataNodes, isPacked ctx' .Compute n = isPacked ctx .Compute n)
    (hCs : ctx'.CsStartUserData = ctx.CsStartUserData)
    (hMaxCs : ctx'.MaxCsUserDataCount = ctx.MaxCsUserDataCount) (i : Nat) :
    registerResident ctx' .Compute intfData inRegMask i
      = registerResident ctx .Compute intfData inRegMask i := by
  have hb : ∀ c : Context, (runEntryPointType c .Compute intfData inRegMask).ok = true →
      (beforePack c .Compute intfData inRegMask).userDataIdx = 2 ∧
        (beforePack c .Compute intfData inRegMask).actualAvailUserDataCount = 0 ∧
        (beforePack c .Compute intfData inRegMask).availUserDataCount
          = c.MaxCsUserDataCount := by
    intro c hc
    have hokB : (beforePack c .Compute intfData inRegMask).ok = true := by
      have := packStateAt_ok c .Compute intfData inRegMask
        (afterPack_ok c .Compute intfData inRegMask hc) 0
      rwa [packStateAt_zero] at this
    refine ⟨beforePack_userDataIdx_fixed c intfData inRegMask hokB,
      beforePack_actual c .Compute intfData inRegMask, ?_⟩
    rw [run_avail_eq_of_decided (beforePack_decided c .Compute intfData inRegMask),
      run_avail, if_pos rfl]
  obtain ⟨a1, a2, a3⟩ := hb ctx hok
  obtain ⟨b1, b2, b3⟩ := hb ctx' hok'
  exact registerResident_agree ctx ctx' .Compute intfData inRegMask hnodes hact hCs
    ⟨by rw [a1, b1], by rw [a2, b2], by rw [a3, b3, hMaxCs]⟩ i

/-! ## Interface data with the same value at every location -/

theorem PushConstData_eq_of_fields (a b : PushConstData) (h0 : a.resNodeIdx = b.resNodeIdx) : a = b := by
  cases a
  cases b
  simp only [PushConstData.mk.injEq]
  exact h0

theorem SpillTable_eq_of_fields (a b : SpillTable) (h0 : a.sizeInDwords = b.sizeInDwords) (h1 : a.offsetInDwords = b.offsetInDwords) : a = b := by
  cases a
  cases b
  simp only [SpillTable.mk.injEq]
  exact ⟨h0, h1⟩

theorem VsUserDataUsage_eq_of_fields (a b : VsUserDataUsage) (h0 : a.streamOutTablePtr = b.streamOutTablePtr) (h1 : a.viewIndex = b.viewIndex) (h2 : a.esGsLdsSize = b.esGsLdsSize) (h3 : a.vbTablePtr = b.vbTablePtr) (h4 : a.baseVertex = b.baseVertex) (h5 : a.baseInstance = b.baseInstance) (h6 : a.drawIndex = b.drawIndex) : a = b := by
  cases a
  cases b
  simp only [VsUserDataUsage.mk.injEq]
  exact ⟨h0, h1, h2, h3, h4, h5, h6⟩

theorem TesUserDataUsage_eq_of_fields (a b : TesUserDataUsage) (h0 : a.streamOutTablePtr = b.streamOutTablePtr) (h1 : a.viewIndex = b.viewIndex) (h2 : a.esGsLdsSize = b.esGsLdsSize) : a = b := by
  cases a
  cases b
  simp only [TesUserDataUsage.mk.injEq]
  exact ⟨h0, h1, h2⟩

theorem GsUserDataUsage_eq_of_fields (a b : GsUserDataUsage) (h0 : a.viewIndex = b.viewIndex) (h1 : a.esGsLdsSize = b.esGsLdsSize) : a = b := by
  cases a
  cases b
  simp only [GsUserDataUsage.mk.injEq]
  exact ⟨h0, h1⟩

theorem CsUserDataUsage_eq_of_fields (a b : CsUserDataUsage) (h0 : a.numWorkgroupsPtr = b.numWorkgroupsPtr) : a = b := by
  cases a
  cases b
  simp only [CsUserDataUsage.mk.injEq]
  exact h0

theorem UserDataUsage_eq_of_fields (a b : UserDataUsage) (h0 : a.vs = b.vs) (h1 : a.tes = b.tes) (h2 : a.gs = b.gs) (h3 : a.cs = b.cs) (h4 : a.spillTable = b.spillTable) : a = b := by
  cases a
  cases b
  simp only [UserDataUsage.mk.injEq]
  exact ⟨h0, h1, h2, h3, h4⟩

theorem StreamOutData_eq_of_fields (a b : StreamOutData) (h0 : a.tablePtr = b.tablePtr) (h1 : a.streamInfo = b.streamInfo) (h2 : a.writeIndex = b.writeIndex) (h3 : a.streamOffsets = b.streamOffsets) : a = b := by
  cases a
  cases b
  simp only [StreamOutData.mk.injEq]
  exact ⟨h0, h1, h2, h3⟩

theorem VsEntryArgIdxs_eq_of_fields (a b : VsEntryArgIdxs) (h0 : a.streamOutData = b.streamOutData) (h1 : a.viewIndex = b.viewIndex) (h2 : a.baseVertex = b.baseVertex) (h3 : a.baseInstance = b.baseInstance) (h4 : a.drawIndex = b.drawIndex) (h5 : a.vbTablePtr = b.vbTablePtr) (h6 : a.esGsOffset = b.esGsOffset) (h7 : a.vertexId = b.vertexId) (h8 : a.relVertexId = b.relVertexId) (h9 : a.primitiveId = b.primitiveId) (h10 : a.instanceId = b.instanceId) : a = b := by
  cases a
  cases b
  simp only [VsEntryArgIdxs.mk.injEq]
  exact ⟨h0, h1, h2, h3, h4, h5, h6, h7, h8, h9, h10⟩

theorem TcsEntryArgIdxs_eq_of_fields (a b : TcsEntryArgIdxs) (h0 : a.offChipLdsBase = b.offChipLdsBase) (h1 : a.tfBufferBase = b.tfBufferBase) (h2 : a.patchId = b.patchId) (h3 : a.relPatchId = b.relPatchId) : a = b := by
  cases a
  cases b
  simp only [TcsEntryArgIdxs.mk.injEq]
  exact ⟨h0, h1, h2, h3⟩

theorem TesEntryArgIdxs_eq_of_fields (a b : TesEntryArgIdxs) (h0 : a.streamOutData = b.streamOutData) (h1 : a.viewIndex = b.viewIndex) (h2 : a.offChipLdsBase = b.offChipLdsBase) (h3 : a.esGsOffset = b.esGsOffset) (h4 : a.tessCoordX = b.tessCoordX) (h5 : a.tessCoordY = b.tessCoordY) (h6 : a.relPatchId = b.relPatchId) (h7 : a.patchId = b.patchId) : a = b := by
  cases a
  cases b
  simp only [TesEntryArgIdxs.mk.injEq]
  exact ⟨h0, h1, h2, h3, h4, h5, h6, h7⟩

theorem GsEntryArgIdxs_eq_of_fields (a b : GsEntryArgIdxs) (h0 : a.viewIndex = b.viewIndex) (h1 : a.gsVsOffset = b.gsVsOffset) (h2 : a.waveId = b.waveId) (h3 : a.esGsOffsets = b.esGsOffsets) (h4 : a.primitiveId = b.primitiveId) (h5 : a.invocationId = b.invocationId) : a = b := by
  cases a
  cases b
  simp only [GsEntryArgIdxs.mk.injEq]
  exact ⟨h0, h1, h2, h3, h4, h5⟩

theorem InterpArgIdxs_eq_of_fields (a b : InterpArgIdxs) (h0 : a.sample = b.sample) (h1 : a.center = b.center) (h2 : a.centroid = b.centroid) (h3 : a.pullMode = b.pullMode) : a = b := by
  cases a
  cases b
  simp only [InterpArgIdxs.mk.injEq]
  exact ⟨h0, h1, h2, h3⟩

theorem FragCoordArgIdxs_eq_of_fields (a b : FragCoordArgIdxs) (h0 : a.x = b.x) (h1 : a.y = b.y) (h2 : a.z = b.z) (h3 : a.w = b.w) : a = b := by
  cases a
  cases b
  simp only [FragCoordArgIdxs.mk.injEq]
  exact ⟨h0, h1, h2, h3⟩

theorem FsEntryArgIdxs_eq_of_fields (a b : FsEntryArgIdxs) (h0 : a.primMask = b.primMask) (h1 : a.perspInterp = b.perspInterp) (h2 : a.linearInterp = b.linearInterp) (h3 : a.fragCoord = b.fragCoord) (h4 : a.frontFacing = b.frontFacing) (h5 : a.ancillary = b.ancillary) (h6 : a.sampleCoverage = b.sampleCoverage) : a = b := by
  cases a
  cases b
  simp only [FsEntryArgIdxs.mk.injEq]
  exact ⟨h0, h1, h2, h3, h4, h5, h6⟩

theorem CsEntryArgIdxs_eq_of_fields (a b : CsEntryArgIdxs) (h0 : a.workgroupId = b.workgroupId) (h1 : a.numWorkgroupsPtr = b.numWorkgroupsPtr) (h2 : a.localInvocationId = b.localInvocationId) : a = b := by
  cases a
  cases b
  simp only [CsEntryArgIdxs.mk.injEq]
  exact ⟨h0, h1, h2⟩

theorem EntryArgIdxs_eq_of_fields (a b : EntryArgIdxs) (h0 : a.initialized = b.initialized) (h1 : a.resNodeValues = b.resNodeValues) (h2 : a.spillTable = b.spillTable) (h3 : a.vs = b.vs) (h4 : a.tcs = b.tcs) (h5 : a.tes = b.tes) (h6 : a.gs = b.gs) (h7 : a.fs = b.fs) (h8 : a.cs = b.cs) : a = b := by
  cases a
  cases b
  simp only [EntryArgIdxs.mk.injEq]
  exact ⟨h0, h1, h2, h3, h4, h5, h6, h7, h8⟩

theorem InterfaceData_eq_of_fields (a b : InterfaceData) (h0 : a.userDataCount = b.userDataCount) (h1 : a.userDataMap = b.userDataMap) (h2 : a.pushConst = b.pushConst) (h3 : a.spillTable = b.spillTable) (h4 : a.userDataUsage = b.userDataUsage) (h5 : a.entryArgIdxs = b.entryArgIdxs) : a = b := by
  cases a
  cases b
  simp only [InterfaceData.mk.injEq]
  exact ⟨h0, h1, h2, h3, h4, h5⟩

theorem Loc.flag_inj {a b : Bool} (h : (if a = true then 1 else 0) = (if b = true then 1 else 0)) :
    a = b := by
  cases a <;> cases b <;> simp at h ⊢

/-- Two interface data with the same value at every location are equal. -/
theorem InterfaceData.eq_of_read (a b : InterfaceData) (h : ∀ l : Loc, l.read a = l.read b) :
    a = b :=
  InterfaceData_eq_of_fields _ _
    (h .userDataCount)
    (funext fun k => h (.userDataMap k))
    (PushConstData_eq_of_fields _ _
      (h .pushConst_resNodeIdx))
    (SpillTable_eq_of_fields _ _
      (h .spillTable_sizeInDwords)
      (h .spillTable_offsetInDwords))
    (UserDataUsage_eq_of_fields _ _
      (VsUserDataUsage_eq_of_fields _ _
        (h .userDataUsage_vs_streamOutTablePtr)
        (h .userDataUsage_vs_viewIndex)
        (h .userDataUsage_vs_esGsLdsSize)
        (h .userDataUsage_vs_vbTablePtr)
        (h .userDataUsage_vs_baseVertex)
        (h .userDataUsage_vs_baseInstance)
        (h .userDataUsage_vs_drawIndex))
      (TesUserDataUsage_eq_of_fields _ _
        (h .userDataUsage_tes_streamOutTablePtr)
        (h .userDataUsage_tes_viewIndex)
        (h .userDataUsage_tes_esGsLdsSize))
      (GsUserDataUsage_eq_of_fields _ _
        (h .userDataUsage_gs_viewIndex)
        (h .userDataUsage_gs_esGsLdsSize))
      (CsUserDataUsage_eq_of_fields _ _
        (h .userDataUsage_cs_numWorkgroupsPtr))
      (h .userDataUsage_spillTable))
    (EntryArgIdxs_eq_of_fields _ _
      (Loc.flag_inj (h .entryArgIdxs_initialized))
      (funext fun k => h (.entryArgIdxs_resNodeValues k))
      (h .entryArgIdxs_spillTable)
      (VsEntryArgIdxs_eq_of_fields _ _
        (StreamOutData_eq_of_fields _ _
          (h .entryArgIdxs_vs_streamOutData_tablePtr)
          (h .entryArgIdxs_vs_streamOutData_streamInfo)
          (h .entryArgIdxs_vs_streamOutData_writeIndex)
          (funext fun k => h (.entryArgIdxs_vs_streamOutData_streamOffsets k)))
        (h .entryArgIdxs_vs_viewIndex)
        (h .entryArgIdxs_vs_baseVertex)
        (h .entryArgIdxs_vs_baseInstance)
        (h .entryArgIdxs_vs_drawIndex)
        (h .entryArgIdxs_vs_vbTablePtr)
        (h .entryArgIdxs_vs_esGsOffset)
        (h .entryArgIdxs_vs_vertexId)
        (h .entryArgIdxs_vs_relVertexId)
        (h .entryArgIdxs_vs_primitiveId)
        (h .entryArgIdxs_vs_instanceId))
      (TcsEntryArgIdxs_eq_of_fields _ _
        (h .entryArgIdxs_tcs_offChipLdsBase)
        (h .entryArgIdxs_tcs_tfBufferBase)
        (h .entryArgIdxs_tcs_patchId)
        (h .entryArgIdxs_tcs_relPatchId))
      (TesEntryArgIdxs_eq_of_fields _ _
        (StreamOutData_eq_of_fields _ _
          (h .entryArgIdxs_tes_streamOutData_tablePtr)
          (h .entryArgIdxs_tes_streamOutData_streamInfo)
          (h .entryArgIdxs_tes_streamOutData_writeIndex)
          (funext fun k => h (.entryArgIdxs_tes_streamOutData_streamOffsets k)))
        (h .entryArgIdxs_tes_viewIndex)
        (h .entryArgIdxs_tes_offChipLdsBase)
        (h .entryArgIdxs_tes_esGsOffset)
        (h .entryArgIdxs_tes_tessCoordX)
        (h .entryArgIdxs_tes_tessCoordY)
        (h .entryArgIdxs_tes_relPatchId)
        (h .entryArgIdxs_tes_patchId))
      (GsEntryArgIdxs_eq_of_fields _ _
        (h .entryArgIdxs_gs_viewIndex)
        (h .entryArgIdxs_gs_gsVsOffset)
        (h .entryArgIdxs_gs_waveId)
        (funext fun k => h (.entryArgIdxs_gs_esGsOffsets k))
        (h .entryArgIdxs_gs_primitiveId)
        (h .entryArgIdxs_gs_invocationId))
      (FsEntryArgIdxs_eq_of_fields _ _
        (h .entryArgIdxs_fs_primMask)
        (InterpArgIdxs_eq_of_fields _ _
          (h .entryArgIdxs_fs_perspInterp_sample)
          (h .entryArgIdxs_fs_perspInterp_center)
          (h .entryArgIdxs_fs_perspInterp_centroid)
          (h .entryArgIdxs_fs_perspInterp_pullMode))
        (InterpArgIdxs_eq_of_fields _ _
          (h .entryArgIdxs_fs_linearInterp_sample)
          (h .entryArgIdxs_fs_linearInterp_center)
          (h .entryArgIdxs_fs_linearInterp_centroid)
          (h .entryArgIdxs_fs_linearInterp_pullMode))
        (FragCoordArgIdxs_eq_of_fields _ _
          (h .entryArgIdxs_fs_fragCoord_x)
          (h .entryArgIdxs_fs_fragCoord_y)
          (h .entryArgIdxs_fs_fragCoord_z)
          (h .entryArgIdxs_fs_fragCoord_w))
        (h .entryArgIdxs_fs_frontFacing)
        (h .entryArgIdxs_fs_ancillary)
        (h .entryArgIdxs_fs_sampleCoverage))
      (CsEntryArgIdxs_eq_of_fields _ _
        (h .entryArgIdxs_cs_workgroupId)
        (h .entryArgIdxs_cs_numWorkgroupsPtr)
        (h .entryArgIdxs_cs_localInvocationId)))

/-! ## Two runs on different interface data: the primitive statements -/

theorem Sim.of_local {stage : ShaderStage} {d e : ShaderStage → InterfaceData} {s t : St}
    (p : St → St) (h1 : ∀ s, (p s).intfData = s.intfData)
    (h2 : ∀ s, (p s).locals = (p s.locals).locals) (h : Sim stage d e s t) :
    Sim stage d e (p s) (p t) :=
  ⟨by rw [h2 s, h2 t, h.1], fun u l => by rw [h1 s, h1 t]; exact h.2 u l⟩

theorem Sim.push {stage : ShaderStage} {d e : ShaderStage → InterfaceData} {s t : St}
    (ty : ArgTy) (h : Sim stage d e s t) : Sim stage d e (s.push ty) (t.push ty) :=
  Sim.of_local (St.push ty) (fun _ => rfl) (fun _ => rfl) h

theorem Sim.inReg {stage : ShaderStage} {d e : ShaderStage → InterfaceData} {s t : St}
    (h : Sim stage d e s t) : Sim stage d e s.inReg t.inReg :=
  Sim.of_local St.inReg (fun _ => rfl) (fun _ => rfl) h

theorem Sim.argNext {stage : ShaderStage} {d e : ShaderStage → InterfaceData} {s t : St}
    (h : Sim stage d e s t) : Sim stage d e s.argNext t.argNext :=
  Sim.of_local St.argNext (fun _ => rfl) (fun _ => rfl) h

theorem Sim.inRegNext {stage : ShaderStage} {d e : ShaderStage → InterfaceData} {s t : St}
    (h : Sim stage d e s t) : Sim stage d e s.inRegNext t.inRegNext :=
  Sim.of_local St.inRegNext (fun _ => rfl) (fun _ => rfl) h

theorem Sim.consume {stage : ShaderStage} {d e : ShaderStage → InterfaceData} {s t : St}
    (n : Nat) (h : Sim stage d e s t) : Sim stage d e (s.consume n) (t.consume n) :=
  Sim.of_local (St.consume n) (fun _ => rfl) (fun _ => rfl) h

theorem Sim.setReserveVbTable {stage : ShaderStage} {d e : ShaderStage → InterfaceData}
    {s t : St} (h : Sim stage d e s t) :
    Sim stage d e s.setReserveVbTable t.setReserveVbTable :=
  Sim.of_local St.setReserveVbTable (fun _ => rfl) (fun _ => rfl) h

theorem Sim.setReserveStreamOutTable {stage : ShaderStage} {d e : ShaderStage → InterfaceData}
    {s t : St} (h : Sim stage d e s t) :
    Sim stage d e s.setReserveStreamOutTable t.setReserveStreamOutTable :=
  Sim.of_local St.setReserveStreamOutTable (fun _ => rfl) (fun _ => rfl) h

theorem Sim.setReserveEsGsLdsSize {stage : ShaderStage} {d e : ShaderStage → InterfaceData}
    {s t : St} (h : Sim stage d e s t) :
    Sim stage d e s.setReserveEsGsLdsSize t.setReserveEsGsLdsSize :=
  Sim.of_local St.setReserveEsGsLdsSize (fun _ => rfl) (fun _ => rfl) h

theorem Sim.require {stage : ShaderStage} {d e : ShaderStage → InterfaceData} {s t : St}
    (n : ResourceNode) (h : Sim stage d e s t) : Sim stage d e (s.require n) (t.require n) :=
  Sim.of_local (St.require n) (fun _ => rfl) (fun _ => rfl) h

theorem Sim.setNeedSpill {stage : ShaderStage} {d e : ShaderStage → InterfaceData} {s t : St}
    (b : Bool) (h : Sim stage d e s t) :
    Sim stage d e (s.setNeedSpill b) (t.setNeedSpill b) :=
  Sim.of_local (St.setNeedSpill b) (fun _ => rfl) (fun _ => rfl) h

theorem Sim.setAvail {stage : ShaderStage} {d e : ShaderStage → InterfaceData} {s t : St}
    (n : Nat) (h : Sim stage d e s t) : Sim stage d e (s.setAvail n) (t.setAvail n) :=
  Sim.of_local (St.setAvail n) (fun _ => rfl) (fun _ => rfl) h

theorem Sim.reserve {stage : ShaderStage} {d e : ShaderStage → InterfaceData} {s t : St}
    (n : Nat) (h : Sim stage d e s t) : Sim stage d e (s.reserve n) (t.reserve n) :=
  Sim.of_local (St.reserve n) (fun _ => rfl) (fun _ => rfl) h

theorem Sim.userDataNext {stage : ShaderStage} {d e : ShaderStage → InterfaceData} {s t : St}
    (n : Nat) (h : Sim stage d e s t) :
    Sim stage d e (s.userDataNext n) (t.userDataNext n) :=
  Sim.of_local (St.userDataNext n) (fun _ => rfl) (fun _ => rfl) h

theorem Sim.never {stage : ShaderStage} {d e : ShaderStage → InterfaceData} {s t : St}
    (h : Sim stage d e s t) : Sim stage d e s.never t.never :=
  Sim.of_local St.never (fun _ => rfl) (fun _ => rfl) h

theorem Sim.checkMap {stage : ShaderStage} {d e : ShaderStage → InterfaceData} {s t : St}
    (len count : Nat) (h : Sim stage d e s t) :
    Sim stage d e (s.checkMap len count) (t.checkMap len count) :=
  Sim.of_local (St.checkMap len count)
    (fun s => by unfold St.checkMap; split <;> rfl)
    (fun s => by
      cases s
      simp only [St.checkMap, St.locals]
      split <;> rfl) h

/-- Equal locals give equal values of an expression over the locals. -/
theorem Sim.read_eq {stage : ShaderStage} {d e : ShaderStage → InterfaceData} {s t : St}
    {α : Type} (get : St → α) (hget : ∀ s, get s = get s.locals) (h : Sim stage d e s t) :
    get s = get t := by
  rw [hget s, hget t, h.1]

theorem Sim.assert {stage : ShaderStage} {d e : ShaderStage → InterfaceData} {s t : St}
    (cond : St → Bool) (hc : ∀ s, cond s = cond s.locals) (h : Sim stage d e s t) :
    Sim stage d e (s.assert cond) (t.assert cond) := by
  have hst := Sim.read_eq cond hc h
  unfold St.assert
  rw [hst]
  split
  · exact h
  · exact ⟨by
      have := h.1
      cases s
      cases t
      simp only [St.locals, St.mk.injEq] at this ⊢
      simp only [this, and_self], fun u l => h.2 u l⟩

/-- An assertion whose condition has the same value in both states. -/
theorem Sim.assert_of_eq {stage : ShaderStage} {d e : ShaderStage → InterfaceData} {s t : St}
    (cond : St → Bool) (hst : cond s = cond t) (h : Sim stage d e s t) :
    Sim stage d e (s.assert cond) (t.assert cond) := by
  unfold St.assert
  rw [hst]
  split
  · exact h
  · exact ⟨by
      have := h.1
      cases s
      cases t
      simp only [St.locals, St.mk.injEq] at this ⊢
      simp only [this, and_self], fun u l => h.2 u l⟩

theorem Sim.when {stage : ShaderStage} {d e : ShaderStage → InterfaceData} {s t : St}
    (cond : St → Bool) (body : St → St) (hc : ∀ s, cond s = cond s.locals)
    (hb : ∀ a b, Sim stage d e a b → Sim stage d e (body a) (body b))
    (h : Sim stage d e s t) :
    Sim stage d e (s.when cond body) (t.when cond body) := by
  have hst := Sim.read_eq cond hc h
  unfold St.when
  rw [hst]
  split
  · exact hb _ _ h
  · exact h

theorem Sim.setIntf {stage : ShaderStage} {d e : ShaderStage → InterfaceData} {s t : St}
    (t0 : ShaderStage) (f : InterfaceData → InterfaceData) (hf : Clean f)
    (h : Sim stage d e s t) :
    Sim stage d e (s.setIntf t0 f) (t.setIntf t0 f) := by
  refine ⟨h.1, fun u l => ?_⟩
  by_cases hu : u = t0
  · subst hu
    have e1 : (s.setIntf u f).intfData u = f (s.intfData u) := by simp [St.setIntf]
    have e2 : (t.setIntf u f).intfData u = f (t.intfData u) := by simp [St.setIntf]
    rw [e1, e2]
    rcases hf l with hl | hl
    · rw [hl, hl]
      exact h.2 u l
    · exact Or.inr (Or.inl (hl _ _))
  · have e1 : (s.setIntf t0 f).intfData u = s.intfData u := by simp [St.setIntf, hu]
    have e2 : (t.setIntf t0 f).intfData u = t.intfData u := by simp [St.setIntf, hu]
    rw [e1, e2]
    exact h.2 u l

theorem Sim.record {stage : ShaderStage} {d e : ShaderStage → InterfaceData} {s t : St}
    (t0 : ShaderStage) (get : St → Nat) (set : Nat → InterfaceData → InterfaceData)
    (hget : ∀ s, get s = get s.locals) (hset : ∀ v, Clean (set v))
    (h : Sim stage d e s t) :
    Sim stage d e (s.record t0 get set) (t.record t0 get set) := by
  unfold St.record
  rw [Sim.read_eq get hget h]
  exact Sim.setIntf t0 _ (hset _) h

/-- An assignment to `spillTable.offsetInDwords` of the stage in the first run alone. -/
theorem Sim.setOffset_left {stage : ShaderStage} {d e : ShaderStage → InterfaceData}
    {s t : St} (v : Nat) (h : Sim stage d e s t) :
    Sim stage d e
      (s.setIntf stage (fun x => { x with spillTable.offsetInDwords := v })) t := by
  refine ⟨h.1, fun u l => ?_⟩
  by_cases hu : u = stage
  · subst hu
    have e1 : ((s.setIntf u (fun x => { x with spillTable.offsetInDwords := v })).intfData u)
        = { s.intfData u with spillTable.offsetInDwords := v } := by simp [St.setIntf]
    rw [e1]
    cases l <;> first | exact Or.inl ⟨rfl, rfl⟩ | exact h.2 u _
  · have e1 : (s.setIntf stage (fun x => { x with spillTable.offsetInDwords := v })).intfData u
        = s.intfData u := by simp [St.setIntf, hu]
    rw [e1]
    exact h.2 u l

/-- An assignment to `spillTable.offsetInDwords` of the stage in the second run alone. -/
theorem Sim.setOffset_right {stage : ShaderStage} {d e : ShaderStage → InterfaceData}
    {s t : St} (v : Nat) (h : Sim stage d e s t) :
    Sim stage d e s
      (t.setIntf stage (fun x => { x with spillTable.offsetInDwords := v })) := by
  refine ⟨h.1, fun u l => ?_⟩
  by_cases hu : u = stage
  · subst hu
    have e1 : ((t.setIntf u (fun x => { x with spillTable.offsetInDwords := v })).intfData u)
        = { t.intfData u with spillTable.offsetInDwords := v } := by simp [St.setIntf]
    rw [e1]
    cases l <;> first | exact Or.inl ⟨rfl, rfl⟩ | exact h.2 u _
  · have e1 : (t.setIntf stage (fun x => { x with spillTable.offsetInDwords := v })).intfData u
        = t.intfData u := by simp [St.setIntf, hu]
    rw [e1]
    exact h.2 u l

theorem setAt_clean (k u v : Nat) :
    (∀ m : Nat → Nat, setAt m u v k = m k) ∨
      (∀ m m' : Nat → Nat, setAt m u v k = setAt m' u v k) := by
  by_cases h : k = u
  · right
    intro m m'
    simp [setAt, h]
  · left
    intro m
    simp [setAt, h]

theorem writeUserDataMap_clean (k u off : Nat) (count : Nat) :
    (∀ m : Nat → Nat, writeUserDataMap u off count m k = m k) ∨
      (∀ m m' : Nat → Nat, writeUserDataMap u off count m k
        = writeUserDataMap u off count m' k) := by
  induction count with
  | zero =>
    left
    intro m
    rfl
  | succ j ih =>
    by_cases h : k = u32 (u + j)
    · right
      intro m m'
      simp [writeUserDataMap, setAt, h]
    · rcases ih with ih | ih
      · left
        intro m
        simp only [writeUserDataMap, setAt, h, if_false]
        exact ih m
      · right
        intro m m'
        simp only [writeUserDataMap, setAt, h, if_false]
        exact ih m m'

/-! ## Two runs on different interface data: the blocks of the function -/

set_option linter.unreachableTactic false
set_option linter.unusedTactic false

theorem clean_resNodeValues (i : Nat) :
    ∀ a, Clean (fun d =>
      { d with entryArgIdxs.resNodeValues := setAt d.entryArgIdxs.resNodeValues i a }) := by
  intro a l
  cases l <;> first
    | exact Or.inl (fun _ => rfl)
    | (rename_i k
       rcases setAt_clean k i a with h | h
       · exact Or.inl (fun x => h _)
       · exact Or.inr (fun x y => h _ _))

theorem clean_userDataMap_one (off : Nat) :
    ∀ u, Clean (fun d => { d with userDataMap := setAt d.userDataMap u off }) := by
  intro u l
  cases l <;> first
    | exact Or.inl (fun _ => rfl)
    | (rename_i k
       rcases setAt_clean k u off with h | h
       · exact Or.inl (fun x => h _)
       · exact Or.inr (fun x y => h _ _))

theorem clean_userDataMap_range (off count : Nat) :
    ∀ u, Clean (fun d =>
      let m := writeUserDataMap u off count d.userDataMap
      { d with userDataMap := m }) := by
  intro u l
  cases l <;> first
    | exact Or.inl (fun _ => rfl)
    | (rename_i k
       rcases writeUserDataMap_clean k u off count with h | h
       · exact Or.inl (fun x => h _)
       · exact Or.inr (fun x y => h _ _))

theorem clean_vs_streamOffsets :
    ∀ i a, Clean (fun d =>
      let m := setAt d.entryArgIdxs.vs.streamOutData.streamOffsets i a
      { d with entryArgIdxs.vs.streamOutData.streamOffsets := m }) := by
  intro i a l
  cases l <;> first
    | exact Or.inl (fun _ => rfl)
    | (rename_i k
       rcases setAt_clean k i a with h | h
       · exact Or.inl (fun x => h _)
       · exact Or.inr (fun x y => h _ _))

theorem clean_tes_streamOffsets :
    ∀ i a, Clean (fun d =>
      let m := setAt d.entryArgIdxs.tes.streamOutData.streamOffsets i a
      { d with entryArgIdxs.tes.streamOutData.streamOffsets := m }) := by
  intro i a l
  cases l <;> first
    | exact Or.inl (fun _ => rfl)
    | (rename_i k
       rcases setAt_clean k i a with h | h
       · exact Or.inl (fun x => h _)
       · exact Or.inr (fun x y => h _ _))

theorem clean_gs_esGsOffsets (i : Nat) :
    ∀ a, Clean (fun d =>
      { d with entryArgIdxs.gs.esGsOffsets := setAt d.entryArgIdxs.gs.esGsOffsets i a }) := by
  intro a l
  cases l <;> first
    | exact Or.inl (fun _ => rfl)
    | (rename_i k
       rcases setAt_clean k i a with h | h
       · exact Or.inl (fun x => h _)
       · exact Or.inr (fun x y => h _ _))

theorem Sim.forNodes {stage : ShaderStage} {d e : ShaderStage → InterfaceData}
    (body : Nat → ResourceNode → St → St)
    (hb : ∀ i n a b, Sim stage d e a b → Sim stage d e (body i n a) (body i n b))
    (i : Nat) (l : List ResourceNode) {s t : St} (h : Sim stage d e s t) :
    Sim stage d e (Llpc.forNodes body i l s) (Llpc.forNodes body i l t) := by
  induction l generalizing i s t with
  | nil => exact h
  | cons n l ih => exact ih (i + 1) (hb i n _ _ h)

theorem Sim.firstNodeOfType {stage : ShaderStage} {d e : ShaderStage → InterfaceData}
    (ty : ResourceMappingNodeType) (body : ResourceNode → St → St)
    (hb : ∀ n a b, Sim stage d e a b → Sim stage d e (body n a) (body n b))
    (l : List ResourceNode) {s t : St} (h : Sim stage d e s t) :
    Sim stage d e (Llpc.firstNodeOfType ty body l s) (Llpc.firstNodeOfType ty body l t) := by
  induction l with
  | nil => exact h
  | cons n l ih =>
    simp only [Llpc.firstNodeOfType]
    split
    · exact hb n _ _ h
    · exact ih

theorem Sim.setAvail_of {stage : ShaderStage} {d e : ShaderStage → InterfaceData} {s t : St}
    (f : St → Nat) (hf : ∀ s, f s = f s.locals) (h : Sim stage d e s t) :
    Sim stage d e (s.setAvail (f s)) (t.setAvail (f t)) := by
  rw [Sim.read_eq f hf h]
  exact Sim.setAvail _ h

theorem Sim.initState (ctx : Context) (stage : ShaderStage)
    (d e : ShaderStage → InterfaceData) (inRegMask : Nat) :
    Sim stage d e (initState ctx stage d inRegMask) (initState ctx stage e inRegMask) := by
  have h0 : Sim stage d e
      { argIdx := 0, userDataIdx := 0, argTys := [], inRegMask := inRegMask,
        intfData := d, availUserDataCount := 0, requiredRemappedUserDataCount := 0,
        requiredUserDataCount := 0, reserveVbTable := false, reserveStreamOutTable := false,
        reserveEsGsLdsSize := false, needSpill := false, actualAvailUserDataCount := 0,
        neverCalled := false, assertFailed := false, undefinedBehavior := false }
      { argIdx := 0, userDataIdx := 0, argTys := [], inRegMask := inRegMask,
        intfData := e, availUserDataCount := 0, requiredRemappedUserDataCount := 0,
        requiredUserDataCount := 0, reserveVbTable := false, reserveStreamOutTable := false,
        reserveEsGsLdsSize := false, needSpill := false, actualAvailUserDataCount := 0,
        neverCalled := false, assertFailed := false, undefinedBehavior := false } :=
    ⟨rfl, fun _ _ => Or.inr (Or.inr ⟨rfl, rfl⟩)⟩
  unfold Llpc.initState
  dsimp only
  refine Sim.setAvail_of (fun s => sub32 ctx.maxUserDataCount s.userDataIdx) (fun _ => rfl) ?_
  repeat (any_goals (with_reducible (first
    | assumption
    | refine Sim.push _ ?_
    | refine Sim.inRegNext ?_
    | refine Sim.inReg ?_
    | refine Sim.argNext ?_
    | refine Sim.consume _ ?_
    | refine Sim.userDataNext _ ?_
    | refine Sim.never ?_
    | refine Sim.checkMap _ _ ?_
    | refine Sim.reserve _ ?_
    | refine Sim.setReserveEsGsLdsSize ?_
    | refine Sim.setReserveVbTable ?_
    | refine Sim.setReserveStreamOutTable ?_
    | refine Sim.require _ ?_
    | refine Sim.setAvail _ ?_
    | refine Sim.setNeedSpill _ ?_
    | refine Sim.assert _ ?_ ?_
    | refine Sim.record _ _ _ ?_ ?_ ?_
    | refine Sim.setIntf _ _ ?_ ?_
    | refine Sim.when _ _ ?_ (fun _ _ _ => ?_) ?_)))
  all_goals first
    | exact fun _ => rfl
    | exact clean_resNodeValues _
    | exact clean_userDataMap_one _
    | exact clean_userDataMap_range _ _
    | (intro _ l; cases l <;> first | exact Or.inl (fun _ => rfl) | exact Or.inr (fun _ _ => rfl))
    | (intro l; cases l <;> first | exact Or.inl (fun _ => rfl) | exact Or.inr (fun _ _ => rfl))

theorem Sim.scanNode {stage : ShaderStage} {d e : ShaderStage → InterfaceData} {s t : St}
    (ctx : Context) (i : Nat) (n : ResourceNode) (h : Sim stage d e s t) :
    Sim stage d e (scanNode ctx stage i n s) (scanNode ctx stage i n t) := by
  unfold Llpc.scanNode
  dsimp only
  split_ifs <;>
  repeat (any_goals (with_reducible (first
    | assumption
    | refine Sim.push _ ?_
    | refine Sim.inRegNext ?_
    | refine Sim.inReg ?_
    | refine Sim.argNext ?_
    | refine Sim.consume _ ?_
    | refine Sim.userDataNext _ ?_
    | refine Sim.never ?_
    | refine Sim.checkMap _ _ ?_
    | refine Sim.reserve _ ?_
    | refine Sim.setReserveEsGsLdsSize ?_
    | refine Sim.setReserveVbTable ?_
    | refine Sim.setReserveStreamOutTable ?_
    | refine Sim.require _ ?_
    | refine Sim.setAvail _ ?_
    | refine Sim.setNeedSpill _ ?_
    | refine Sim.assert _ ?_ ?_
    | refine Sim.record _ _ _ ?_ ?_ ?_
    | refine Sim.setIntf _ _ ?_ ?_
    | refine Sim.when _ _ ?_ (fun _ _ _ => ?_) ?_)))
  all_goals first
    | exact fun _ => rfl
    | exact clean_resNodeValues _
    | exact clean_userDataMap_one _
    | exact clean_userDataMap_range _ _
    | (intro _ l; cases l <;> first | exact Or.inl (fun _ => rfl) | exact Or.inr (fun _ _ => rfl))
    | (intro l; cases l <;> first | exact Or.inl (fun _ => rfl) | exact Or.inr (fun _ _ => rfl))

theorem Sim.scanNodes {stage : ShaderStage} {d e : ShaderStage → InterfaceData} {s t : St}
    (ctx : Context) (h : Sim stage d e s t) :
    Sim stage d e (scanNodes ctx stage s) (scanNodes ctx stage t) :=
  Sim.forNodes _ (fun i n _ _ hab => Sim.scanNode ctx i n hab) 0 _ h

theorem Sim.reserveSpecial {stage : ShaderStage} {d e : ShaderStage → InterfaceData}
    {s t : St} (ctx : Context) (h : Sim stage d e s t) :
    Sim stage d e (reserveSpecial ctx stage s) (reserveSpecial ctx stage t) := by
  cases stage <;> simp only [Llpc.reserveSpecial] <;>
  repeat (any_goals (with_reducible (first
    | assumption
    | refine Sim.push _ ?_
    | refine Sim.inRegNext ?_
    | refine Sim.inReg ?_
    | refine Sim.argNext ?_
    | refine Sim.consume _ ?_
    | refine Sim.userDataNext _ ?_
    | refine Sim.never ?_
    | refine Sim.checkMap _ _ ?_
    | refine Sim.reserve _ ?_
    | refine Sim.setReserveEsGsLdsSize ?_
    | refine Sim.setReserveVbTable ?_
    | refine Sim.setReserveStreamOutTable ?_
    | refine Sim.require _ ?_
    | refine Sim.setAvail _ ?_
    | refine Sim.setNeedSpill _ ?_
    | refine Sim.assert _ ?_ ?_
    | refine Sim.record _ _ _ ?_ ?_ ?_
    | refine Sim.setIntf _ _ ?_ ?_
    | refine Sim.when _ _ ?_ (fun _ _ _ => ?_) ?_)))
  all_goals first
    | exact fun _ => rfl
    | exact clean_resNodeValues _
    | exact clean_userDataMap_one _
    | exact clean_userDataMap_range _ _
    | (intro _ l; cases l <;> first | exact Or.inl (fun _ => rfl) | exact Or.inr (fun _ _ => rfl))
    | (intro l; cases l <;> first | exact Or.inl (fun _ => rfl) | exact Or.inr (fun _ _ => rfl))

theorem Sim.decideSpill {stage : ShaderStage} {d e : ShaderStage → InterfaceData}
    {s t : St} (ctx : Context) (h : Sim stage d e s t) :
    Sim stage d e (decideSpill ctx stage s) (decideSpill ctx stage t) := by
  have e1 := Sim.read_eq St.requiredUserDataCount (fun _ => rfl) h
  have e2 := Sim.read_eq St.requiredRemappedUserDataCount (fun _ => rfl) h
  have e3 := Sim.read_eq St.availUserDataCount (fun _ => rfl) h
  unfold Llpc.decideSpill
  split
  · dsimp only
    rw [e1]
    repeat (any_goals (with_reducible (first
      | assumption
      | refine Sim.push _ ?_
      | refine Sim.inRegNext ?_
      | refine Sim.inReg ?_
      | refine Sim.argNext ?_
      | refine Sim.consume _ ?_
      | refine Sim.userDataNext _ ?_
      | refine Sim.never ?_
      | refine Sim.checkMap _ _ ?_
      | refine Sim.reserve _ ?_
      | refine Sim.setReserveEsGsLdsSize ?_
      | refine Sim.setReserveVbTable ?_
      | refine Sim.setReserveStreamOutTable ?_
      | refine Sim.require _ ?_
      | refine Sim.setAvail _ ?_
      | refine Sim.setNeedSpill _ ?_
      | refine Sim.assert _ ?_ ?_
      | refine Sim.record _ _ _ ?_ ?_ ?_
      | refine Sim.setIntf _ _ ?_ ?_
      | refine Sim.when _ _ ?_ (fun _ _ _ => ?_) ?_)))
    all_goals first
      | exact fun _ => rfl
      | exact clean_resNodeValues _
      | exact clean_userDataMap_one _
      | exact clean_userDataMap_range _ _
      | (intro _ l; cases l <;> first | exact Or.inl (fun _ => rfl) | exact Or.inr (fun _ _ => rfl))
      | (intro l; cases l <;> first | exact Or.inl (fun _ => rfl) | exact Or.inr (fun _ _ => rfl))
  · dsimp only
    rw [e2, e3]
    repeat (any_goals (with_reducible (first
      | assumption
      | refine Sim.push _ ?_
      | refine Sim.inRegNext ?_
      | refine Sim.inReg ?_
      | refine Sim.argNext ?_
      | refine Sim.consume _ ?_
      | refine Sim.userDataNext _ ?_
      | refine Sim.never ?_
      | refine Sim.checkMap _ _ ?_
      | refine Sim.reserve _ ?_
      | refine Sim.setReserveEsGsLdsSize ?_
      | refine Sim.setReserveVbTable ?_
      | refine Sim.setReserveStreamOutTable ?_
      | refine Sim.require _ ?_
      | refine Sim.setAvail _ ?_
      | refine Sim.setNeedSpill _ ?_
      | refine Sim.assert _ ?_ ?_
      | refine Sim.record _ _ _ ?_ ?_ ?_
      | refine Sim.setIntf _ _ ?_ ?_
      | refine Sim.when _ _ ?_ (fun _ _ _ => ?_) ?_)))
    all_goals first
      | exact fun _ => rfl
      | exact clean_resNodeValues _
      | exact clean_userDataMap_one _
      | exact clean_userDataMap_range _ _
      | (intro _ l; cases l <;> first | exact Or.inl (fun _ => rfl) | exact Or.inr (fun _ _ => rfl))
      | (intro l; cases l <;> first | exact Or.inl (fun _ => rfl) | exact Or.inr (fun _ _ => rfl))

theorem Sim.allocStreamOutNode {stage : ShaderStage} {d e : ShaderStage → InterfaceData}
    {s t : St} (n : ResourceNode) (h : Sim stage d e s t) :
    Sim stage d e (allocStreamOutNode stage n s) (allocStreamOutNode stage n t) := by
  cases stage <;> simp only [Llpc.allocStreamOutNode] <;>
  repeat (any_goals (with_reducible (first
    | assumption
    | refine Sim.push _ ?_
    | refine Sim.inRegNext ?_
    | refine Sim.inReg ?_
    | refine Sim.argNext ?_
    | refine Sim.consume _ ?_
    | refine Sim.userDataNext _ ?_
    | refine Sim.never ?_
    | refine Sim.checkMap _ _ ?_
    | refine Sim.reserve _ ?_
    | refine Sim.setReserveEsGsLdsSize ?_
    | refine Sim.setReserveVbTable ?_
    | refine Sim.setReserveStreamOutTable ?_
    | refine Sim.require _ ?_
    | refine Sim.setAvail _ ?_
    | refine Sim.setNeedSpill _ ?_
    | refine Sim.assert _ ?_ ?_
    | refine Sim.record _ _ _ ?_ ?_ ?_
    | refine Sim.setIntf _ _ ?_ ?_
    | refine Sim.when _ _ ?_ (fun _ _ _ => ?_) ?_)))
  all_goals first
    | exact fun _ => rfl
    | exact clean_resNodeValues _
    | exact clean_userDataMap_one _
    | exact clean_userDataMap_range _ _
    | (intro _ l; cases l <;> first | exact Or.inl (fun _ => rfl) | exact Or.inr (fun _ _ => rfl))
    | (intro l; cases l <;> first | exact Or.inl (fun _ => rfl) | exact Or.inr (fun _ _ => rfl))

theorem Sim.allocStreamOut {stage : ShaderStage} {d e : ShaderStage → InterfaceData}
    {s t : St} (ctx : Context) (h : Sim stage d e s t) :
    Sim stage d e (allocStreamOut ctx stage s) (allocStreamOut ctx stage t) := by
  have e1 := Sim.read_eq St.reserveStreamOutTable (fun _ => rfl) h
  unfold Llpc.allocStreamOut
  rw [e1]
  split
  · exact Sim.firstNodeOfType _ _ (fun n _ _ hab => Sim.allocStreamOutNode n hab) _ h
  · exact h

theorem Sim.fillDummies {stage : ShaderStage} {d e : ShaderStage → InterfaceData}
    (ctx : Context) (off fuel : Nat) {s t : St} (h : Sim stage d e s t) :
    Sim stage d e (fillDummies ctx off fuel s) (fillDummies ctx off fuel t) := by
  induction fuel generalizing s t with
  | zero => exact h
  | succ fuel ih =>
    have e1 := Sim.read_eq St.userDataIdx (fun _ => rfl) h
    have e2 := Sim.read_eq St.availUserDataCount (fun _ => rfl) h
    rw [Llpc.fillDummies, Llpc.fillDummies]
    dsimp only
    rw [e1, e2]
    split
    · refine ih ?_
      repeat (any_goals (with_reducible (first
        | assumption
        | refine Sim.push _ ?_
        | refine Sim.inRegNext ?_
        | refine Sim.inReg ?_
        | refine Sim.argNext ?_
        | refine Sim.consume _ ?_
        | refine Sim.userDataNext _ ?_
        | refine Sim.never ?_
        | refine Sim.checkMap _ _ ?_
        | refine Sim.reserve _ ?_
        | refine Sim.setReserveEsGsLdsSize ?_
        | refine Sim.setReserveVbTable ?_
        | refine Sim.setReserveStreamOutTable ?_
        | refine Sim.require _ ?_
        | refine Sim.setAvail _ ?_
        | refine Sim.setNeedSpill _ ?_
        | refine Sim.assert _ ?_ ?_
        | refine Sim.record _ _ _ ?_ ?_ ?_
        | refine Sim.setIntf _ _ ?_ ?_
        | refine Sim.when _ _ ?_ (fun _ _ _ => ?_) ?_)))
      all_goals first
        | exact fun _ => rfl
        | exact clean_resNodeValues _
        | exact clean_userDataMap_one _
        | exact clean_userDataMap_range _ _
        | (intro _ l; cases l <;> first | exact Or.inl (fun _ => rfl) | exact Or.inr (fun _ _ => rfl))
        | (intro l; cases l <;> first | exact Or.inl (fun _ => rfl) | exact Or.inr (fun _ _ => rfl))
    · exact h

theorem Sim.padNode {stage : ShaderStage} {d e : ShaderStage → InterfaceData}
    (ctx : Context) (n : ResourceNode) {s t : St} (h : Sim stage d e s t) :
    Sim stage d e (padNode ctx stage n s) (padNode ctx stage n t) := by
  have e1 := Sim.read_eq St.userDataIdx (fun _ => rfl) h
  have e2 := Sim.read_eq St.availUserDataCount (fun _ => rfl) h
  unfold Llpc.padNode
  split
  · rw [e1, e2]
    exact Sim.fillDummies ctx _ _ h
  · exact h

theorem Sim.assignNode {stage : ShaderStage} {d e : ShaderStage → InterfaceData}
    (ctx : Context) (i : Nat) (n : ResourceNode) {s t : St} (h : Sim stage d e s t) :
    Sim stage d e (assignNode ctx stage i n s) (assignNode ctx stage i n t) := by
  unfold Llpc.assignNode
  dsimp only
  cases n.type <;> dsimp only <;>
  repeat (any_goals (with_reducible (first
    | assumption
    | refine Sim.push _ ?_
    | refine Sim.inRegNext ?_
    | refine Sim.inReg ?_
    | refine Sim.argNext ?_
    | refine Sim.consume _ ?_
    | refine Sim.userDataNext _ ?_
    | refine Sim.never ?_
    | refine Sim.checkMap _ _ ?_
    | refine Sim.reserve _ ?_
    | refine Sim.setReserveEsGsLdsSize ?_
    | refine Sim.setReserveVbTable ?_
    | refine Sim.setReserveStreamOutTable ?_
    | refine Sim.require _ ?_
    | refine Sim.setAvail _ ?_
    | refine Sim.setNeedSpill _ ?_
    | refine Sim.assert _ ?_ ?_
    | refine Sim.record _ _ _ ?_ ?_ ?_
    | refine Sim.setIntf _ _ ?_ ?_
    | refine Sim.when _ _ ?_ (fun _ _ _ => ?_) ?_)))
  all_goals first
    | exact fun _ => rfl
    | exact clean_resNodeValues _
    | exact clean_userDataMap_one _
    | exact clean_userDataMap_range _ _
    | (intro _ l; cases l <;> first | exact Or.inl (fun _ => rfl) | exact Or.inr (fun _ _ => rfl))
    | (intro l; cases l <;> first | exact Or.inl (fun _ => rfl) | exact Or.inr (fun _ _ => rfl))

theorem Sim.packNode {stage : ShaderStage} {d e : ShaderStage → InterfaceData}
    (ctx : Context) (i : Nat) (n : ResourceNode) {s t : St} (h : Sim stage d e s t) :
    Sim stage d e (packNode ctx stage i n s) (packNode ctx stage i n t) := by
  unfold Llpc.packNode
  by_cases t1 : n.type = .IndirectUserDataVaPtr
  · rw [if_pos t1, if_pos t1]
    exact h
  · by_cases t2 : n.type = .StreamOutTableVaPtr
    · rw [if_neg t1, if_pos t2, if_neg t1, if_pos t2]
      exact h
    · rw [if_neg t1, if_neg t2, if_neg t1, if_neg t2]
      by_cases a : IsResourceNodeActive ctx stage n true = false
      · rw [if_pos a, if_pos a]
        exact h
      · rw [if_neg a, if_neg a]
        dsimp only
        have hp := Sim.padNode ctx n h
        have ef := Sim.read_eq (fun s => fits s n) (fun _ => rfl) hp
        dsimp only at ef
        rw [ef]
        by_cases f : fits (Llpc.padNode ctx stage n t) n = true
        · rw [if_pos f, if_pos f]
          exact Sim.assignNode ctx i n hp
        · rw [if_neg f, if_neg f]
          split <;> split
          · exact Sim.setOffset_right _ (Sim.setOffset_left _ hp)
          · exact Sim.setOffset_left _ hp
          · exact Sim.setOffset_right _ hp
          · exact hp

theorem Sim.packNodes {stage : ShaderStage} {d e : ShaderStage → InterfaceData} {s t : St}
    (ctx : Context) (h : Sim stage d e s t) :
    Sim stage d e (packNodes ctx stage s) (packNodes ctx stage t) :=
  Sim.forNodes _ (fun i n _ _ hab => Sim.packNode ctx i n hab) 0 _ h

theorem Sim.fillToSpill {stage : ShaderStage} {d e : ShaderStage → InterfaceData}
    (ctx : Context) (fuel : Nat) {s t : St} (h : Sim stage d e s t) :
    Sim stage d e (fillToSpill ctx fuel s) (fillToSpill ctx fuel t) := by
  induction fuel generalizing s t with
  | zero => exact h
  | succ fuel ih =>
    have e1 := Sim.read_eq St.userDataIdx (fun _ => rfl) h
    rw [Llpc.fillToSpill, Llpc.fillToSpill]
    rw [e1]
    split
    · refine ih ?_
      repeat (any_goals (with_reducible (first
        | assumption
        | refine Sim.push _ ?_
        | refine Sim.inRegNext ?_
        | refine Sim.inReg ?_
        | refine Sim.argNext ?_
        | refine Sim.consume _ ?_
        | refine Sim.userDataNext _ ?_
        | refine Sim.never ?_
        | refine Sim.checkMap _ _ ?_
        | refine Sim.reserve _ ?_
        | refine Sim.setReserveEsGsLdsSize ?_
        | refine Sim.setReserveVbTable ?_
        | refine Sim.setReserveStreamOutTable ?_
        | refine Sim.require _ ?_
        | refine Sim.setAvail _ ?_
        | refine Sim.setNeedSpill _ ?_
        | refine Sim.assert _ ?_ ?_
        | refine Sim.record _ _ _ ?_ ?_ ?_
        | refine Sim.setIntf _ _ ?_ ?_
        | refine Sim.when _ _ ?_ (fun _ _ _ => ?_) ?_)))
      all_goals first
        | exact fun _ => rfl
        | exact clean_resNodeValues _
        | exact clean_userDataMap_one _
        | exact clean_userDataMap_range _ _
        | (intro _ l; cases l <;> first | exact Or.inl (fun _ => rfl) | exact Or.inr (fun _ _ => rfl))
        | (intro l; cases l <;> first | exact Or.inl (fun _ => rfl) | exact Or.inr (fun _ _ => rfl))
    · exact h

/-- The spill table of the fixed layout, for two states whose `spillTable.offsetInDwords`
agree on being the invalid value. -/
theorem Sim.fixedSpill {stage : ShaderStage} {d e : ShaderStage → InterfaceData}
    (ctx : Context) {s t : St} (h : Sim stage d e s t)
    (hoff : ((s.intfData stage).spillTable.offsetInDwords = ctx.InvalidValue) ↔
      ((t.intfData stage).spillTable.offsetInDwords = ctx.InvalidValue)) :
    Sim stage d e (fixedSpill ctx stage s) (fixedSpill ctx stage t) := by
  have e1 := Sim.read_eq St.needSpill (fun _ => rfl) h
  unfold Llpc.fixedSpill
  rw [e1]
  split
  · have h1 : Sim stage d e
        (s.assert
          (fun s => decide ((s.intfData stage).spillTable.offsetInDwords ≠ ctx.InvalidValue)))
        (t.assert
          (fun s => decide ((s.intfData stage).spillTable.offsetInDwords ≠ ctx.InvalidValue))) :=
      Sim.assert_of_eq _ (by simp only [ne_eq, decide_not, hoff]) h
    have h2 := Sim.assert
      (fun s => decide (s.userDataIdx ≤ u32 (ctx.MaxCsUserDataCount + ctx.CsStartUserData)))
      (fun _ => rfl) h1
    have e2 := Sim.read_eq St.userDataIdx (fun _ => rfl) h2
    dsimp only
    rw [e2]
    have h3 := Sim.fillToSpill ctx
      (u32 (ctx.MaxCsUserDataCount + ctx.CsStartUserData) + 1
        - ((t.assert (fun s =>
            decide ((s.intfData stage).spillTable.offsetInDwords ≠ ctx.InvalidValue))).assert
          (fun s => decide
            (s.userDataIdx ≤ u32 (ctx.MaxCsUserDataCount + ctx.CsStartUserData)))).userDataIdx)
      h2
    repeat (any_goals (with_reducible (first
      | assumption
      | refine Sim.push _ ?_
      | refine Sim.inRegNext ?_
      | refine Sim.inReg ?_
      | refine Sim.argNext ?_
      | refine Sim.consume _ ?_
      | refine Sim.userDataNext _ ?_
      | refine Sim.never ?_
      | refine Sim.checkMap _ _ ?_
      | refine Sim.reserve _ ?_
      | refine Sim.setReserveEsGsLdsSize ?_
      | refine Sim.setReserveVbTable ?_
      | refine Sim.setReserveStreamOutTable ?_
      | refine Sim.require _ ?_
      | refine Sim.setAvail _ ?_
      | refine Sim.setNeedSpill _ ?_
      | refine Sim.assert _ ?_ ?_
      | refine Sim.record _ _ _ ?_ ?_ ?_
      | refine Sim.setIntf _ _ ?_ ?_
      | refine Sim.when _ _ ?_ (fun _ _ _ => ?_) ?_)))
    all_goals first
      | exact fun _ => rfl
      | exact clean_resNodeValues _
      | exact clean_userDataMap_one _
      | exact clean_userDataMap_range _ _
      | (intro _ l; cases l <;> first | exact Or.inl (fun _ => rfl) | exact Or.inr (fun _ _ => rfl))
      | (intro l; cases l <;> first | exact Or.inl (fun _ => rfl) | exact Or.inr (fun _ _ => rfl))
  · exact h

theorem Sim.vbTableNode {stage : ShaderStage} {d e : ShaderStage → InterfaceData}
    (cur : ShaderStage) (n : ResourceNode) {s t : St} (h : Sim stage d e s t) :
    Sim stage d e (vbTableNode cur n s) (vbTableNode cur n t) := by
  unfold Llpc.vbTableNode
  dsimp only
  repeat (any_goals (with_reducible (first
    | assumption
    | refine Sim.push _ ?_
    | refine Sim.inRegNext ?_
    | refine Sim.inReg ?_
    | refine Sim.argNext ?_
    | refine Sim.consume _ ?_
    | refine Sim.userDataNext _ ?_
    | refine Sim.never ?_
    | refine Sim.checkMap _ _ ?_
    | refine Sim.reserve _ ?_
    | refine Sim.setReserveEsGsLdsSize ?_
    | refine Sim.setReserveVbTable ?_
    | refine Sim.setReserveStreamOutTable ?_
    | refine Sim.require _ ?_
    | refine Sim.setAvail _ ?_
    | refine Sim.setNeedSpill _ ?_
    | refine Sim.assert _ ?_ ?_
    | refine Sim.record _ _ _ ?_ ?_ ?_
    | refine Sim.setIntf _ _ ?_ ?_
    | refine Sim.when _ _ ?_ (fun _ _ _ => ?_) ?_)))
  all_goals first
    | exact fun _ => rfl
    | exact clean_resNodeValues _
    | exact clean_userDataMap_one _
    | exact clean_userDataMap_range _ _
    | (intro _ l; cases l <;> first | exact Or.inl (fun _ => rfl) | exact Or.inr (fun _ _ => rfl))
    | (intro l; cases l <;> first | exact Or.inl (fun _ => rfl) | exact Or.inr (fun _ _ => rfl))

theorem Sim.vbTableLoop {stage : ShaderStage} {d e : ShaderStage → InterfaceData}
    (cur : ShaderStage) (l : List ResourceNode) {s t : St} (h : Sim stage d e s t) :
    Sim stage d e
      (Llpc.firstNodeOfType .IndirectUserDataVaPtr (Llpc.vbTableNode cur) l s)
      (Llpc.firstNodeOfType .IndirectUserDataVaPtr (Llpc.vbTableNode cur) l t) :=
  Sim.firstNodeOfType _ _ (fun n _ _ hab => Sim.vbTableNode cur n hab) l h

theorem Sim.sgprArg {stage : ShaderStage} {d e : ShaderStage → InterfaceData} {s t : St}
    (t0 : ShaderStage) (ty : ArgTy) (set : Nat → InterfaceData → InterfaceData)
    (hset : ∀ v, Clean (set v)) (h : Sim stage d e s t) :
    Sim stage d e (s.sgprArg t0 ty set) (t.sgprArg t0 ty set) := by
  unfold St.sgprArg
  dsimp only
  exact Sim.inRegNext (Sim.record _ _ _ (fun _ => rfl) hset (Sim.push _ h))

theorem Sim.vgprArg {stage : ShaderStage} {d e : ShaderStage → InterfaceData} {s t : St}
    (t0 : ShaderStage) (ty : ArgTy) (set : Nat → InterfaceData → InterfaceData)
    (hset : ∀ v, Clean (set v)) (h : Sim stage d e s t) :
    Sim stage d e (s.vgprArg t0 ty set) (t.vgprArg t0 ty set) := by
  unfold St.vgprArg
  dsimp only
  exact Sim.argNext (Sim.record _ _ _ (fun _ => rfl) hset (Sim.push _ h))

theorem Sim.streamOffsetArgs {stage : ShaderStage} {d e : ShaderStage → InterfaceData}
    (t0 : ShaderStage) (record : Nat → Nat → InterfaceData → InterfaceData)
    (hrec : ∀ i v, Clean (record i v)) (i : Nat) (l : List Nat) {s t : St}
    (h : Sim stage d e s t) :
    Sim stage d e (streamOffsetArgs t0 record i l s) (streamOffsetArgs t0 record i l t) := by
  induction l generalizing i s t with
  | nil => exact h
  | cons stride rest ih =>
    simp only [Llpc.streamOffsetArgs]
    refine ih (i + 1) ?_
    exact Sim.when _ _ (fun _ => rfl)
      (fun _ _ hab => Sim.inRegNext (Sim.record _ _ _ (fun _ => rfl) (hrec i) (Sim.push _ hab))) h

theorem Sim.specialUserData {stage : ShaderStage} {d e : ShaderStage → InterfaceData}
    {s t : St} (ctx : Context) (h : Sim stage d e s t) :
    Sim stage d e (specialUserData ctx stage s) (specialUserData ctx stage t) := by
  cases stage <;> simp only [Llpc.specialUserData] <;>
  repeat (any_goals (with_reducible (first
    | assumption
    | refine Sim.push _ ?_
    | refine Sim.inRegNext ?_
    | refine Sim.inReg ?_
    | refine Sim.argNext ?_
    | refine Sim.consume _ ?_
    | refine Sim.userDataNext _ ?_
    | refine Sim.never ?_
    | refine Sim.checkMap _ _ ?_
    | refine Sim.reserve _ ?_
    | refine Sim.setReserveEsGsLdsSize ?_
    | refine Sim.setReserveVbTable ?_
    | refine Sim.setReserveStreamOutTable ?_
    | refine Sim.require _ ?_
    | refine Sim.setAvail _ ?_
    | refine Sim.setNeedSpill _ ?_
    | refine Sim.sgprArg _ _ _ ?_ ?_
    | refine Sim.vgprArg _ _ _ ?_ ?_
    | refine Sim.streamOffsetArgs _ _ ?_ _ _ ?_
    | refine Sim.vbTableLoop _ _ ?_
    | refine Sim.assert _ ?_ ?_
    | refine Sim.record _ _ _ ?_ ?_ ?_
    | refine Sim.setIntf _ _ ?_ ?_
    | refine Sim.when _ _ ?_ (fun _ _ _ => ?_) ?_)))
  all_goals first
    | exact fun _ => rfl
    | exact clean_vs_streamOffsets
    | exact clean_tes_streamOffsets
    | exact clean_gs_esGsOffsets _
    | exact clean_resNodeValues _
    | exact clean_userDataMap_one _
    | exact clean_userDataMap_range _ _
    | (intro _ l; cases l <;> first | exact Or.inl (fun _ => rfl) | exact Or.inr (fun _ _ => rfl))
    | (intro l; cases l <;> first | exact Or.inl (fun _ => rfl) | exact Or.inr (fun _ _ => rfl))

theorem Sim.greedySpill {stage : ShaderStage} {d e : ShaderStage → InterfaceData}
    {s t : St} (h : Sim stage d e s t) :
    Sim stage d e (greedySpill stage s) (greedySpill stage t) := by
  unfold Llpc.greedySpill
  dsimp only
  repeat (any_goals (with_reducible (first
    | assumption
    | refine Sim.push _ ?_
    | refine Sim.inRegNext ?_
    | refine Sim.inReg ?_
    | refine Sim.argNext ?_
    | refine Sim.consume _ ?_
    | refine Sim.userDataNext _ ?_
    | refine Sim.never ?_
    | refine Sim.checkMap _ _ ?_
    | refine Sim.reserve _ ?_
    | refine Sim.setReserveEsGsLdsSize ?_
    | refine Sim.setReserveVbTable ?_
    | refine Sim.setReserveStreamOutTable ?_
    | refine Sim.require _ ?_
    | refine Sim.setAvail _ ?_
    | refine Sim.setNeedSpill _ ?_
    | refine Sim.assert _ ?_ ?_
    | refine Sim.record _ _ _ ?_ ?_ ?_
    | refine Sim.setIntf _ _ ?_ ?_
    | refine Sim.when _ _ ?_ (fun _ _ _ => ?_) ?_)))
  all_goals first
    | exact fun _ => rfl
    | exact clean_resNodeValues _
    | exact clean_userDataMap_one _
    | exact clean_userDataMap_range _ _
    | (intro _ l; cases l <;> first | exact Or.inl (fun _ => rfl) | exact Or.inr (fun _ _ => rfl))
    | (intro l; cases l <;> first | exact Or.inl (fun _ => rfl) | exact Or.inr (fun _ _ => rfl))

theorem Sim.systemValuesVs {stage : ShaderStage} {d e : ShaderStage → InterfaceData}
    {s t : St} (ctx : Context) (h : Sim stage d e s t) :
    Sim stage d e (systemValuesVs ctx s) (systemValuesVs ctx t) := by
  unfold Llpc.systemValuesVs
  dsimp only
  split_ifs <;>
  repeat (any_goals (with_reducible (first
    | assumption
    | refine Sim.push _ ?_
    | refine Sim.inRegNext ?_
    | refine Sim.inReg ?_
    | refine Sim.argNext ?_
    | refine Sim.consume _ ?_
    | refine Sim.userDataNext _ ?_
    | refine Sim.never ?_
    | refine Sim.checkMap _ _ ?_
    | refine Sim.reserve _ ?_
    | refine Sim.setReserveEsGsLdsSize ?_
    | refine Sim.setReserveVbTable ?_
    | refine Sim.setReserveStreamOutTable ?_
    | refine Sim.require _ ?_
    | refine Sim.setAvail _ ?_
    | refine Sim.setNeedSpill _ ?_
    | refine Sim.sgprArg _ _ _ ?_ ?_
    | refine Sim.vgprArg _ _ _ ?_ ?_
    | refine Sim.streamOffsetArgs _ _ ?_ _ _ ?_
    | refine Sim.vbTableLoop _ _ ?_
    | refine Sim.assert _ ?_ ?_
    | refine Sim.record _ _ _ ?_ ?_ ?_
    | refine Sim.setIntf _ _ ?_ ?_
    | refine Sim.when _ _ ?_ (fun _ _ _ => ?_) ?_)))
  all_goals first
    | exact fun _ => rfl
    | exact clean_vs_streamOffsets
    | exact clean_tes_streamOffsets
    | exact clean_gs_esGsOffsets _
    | exact clean_resNodeValues _
    | exact clean_userDataMap_one _
    | exact clean_userDataMap_range _ _
    | (intro _ l; cases l <;> first | exact Or.inl (fun _ => rfl) | exact Or.inr (fun _ _ => rfl))
    | (intro l; cases l <;> first | exact Or.inl (fun _ => rfl) | exact Or.inr (fun _ _ => rfl))

theorem Sim.systemValuesTcs {stage : ShaderStage} {d e : ShaderStage → InterfaceData}
    {s t : St} (ctx : Context) (h : Sim stage d e s t) :
    Sim stage d e (systemValuesTcs ctx s) (systemValuesTcs ctx t) := by
  unfold Llpc.systemValuesTcs
  dsimp only
  repeat (any_goals (with_reducible (first
    | assumption
    | refine Sim.push _ ?_
    | refine Sim.inRegNext ?_
    | refine Sim.inReg ?_
    | refine Sim.argNext ?_
    | refine Sim.consume _ ?_
    | refine Sim.userDataNext _ ?_
    | refine Sim.never ?_
    | refine Sim.checkMap _ _ ?_
    | refine Sim.reserve _ ?_
    | refine Sim.setReserveEsGsLdsSize ?_
    | refine Sim.setReserveVbTable ?_
    | refine Sim.setReserveStreamOutTable ?_
    | refine Sim.require _ ?_
    | refine Sim.setAvail _ ?_
    | refine Sim.setNeedSpill _ ?_
    | refine Sim.sgprArg _ _ _ ?_ ?_
    | refine Sim.vgprArg _ _ _ ?_ ?_
    | refine Sim.streamOffsetArgs _ _ ?_ _ _ ?_
    | refine Sim.vbTableLoop _ _ ?_
    | refine Sim.assert _ ?_ ?_
    | refine Sim.record _ _ _ ?_ ?_ ?_
    | refine Sim.setIntf _ _ ?_ ?_
    | refine Sim.when _ _ ?_ (fun _ _ _ => ?_) ?_)))
  all_goals first
    | exact fun _ => rfl
    | exact clean_vs_streamOffsets
    | exact clean_tes_streamOffsets
    | exact clean_gs_esGsOffsets _
    | exact clean_resNodeValues _
    | exact clean_userDataMap_one _
    | exact clean_userDataMap_range _ _
    | (intro _ l; cases l <;> first | exact Or.inl (fun _ => rfl) | exact Or.inr (fun _ _ => rfl))
    | (intro l; cases l <;> first | exact Or.inl (fun _ => rfl) | exact Or.inr (fun _ _ => rfl))

theorem Sim.systemValuesTes {stage : ShaderStage} {d e : ShaderStage → InterfaceData}
    {s t : St} (ctx : Context) (h : Sim stage d e s t) :
    Sim stage d e (systemValuesTes ctx s) (systemValuesTes ctx t) := by
  unfold Llpc.systemValuesTes
  dsimp only
  split_ifs <;>
  repeat (any_goals (with_reducible (first
    | assumption
    | refine Sim.push _ ?_
    | refine Sim.inRegNext ?_
    | refine Sim.inReg ?_
    | refine Sim.argNext ?_
    | refine Sim.consume _ ?_
    | refine Sim.userDataNext _ ?_
    | refine Sim.never ?_
    | refine Sim.checkMap _ _ ?_
    | refine Sim.reserve _ ?_
    | refine Sim.setReserveEsGsLdsSize ?_
    | refine Sim.setReserveVbTable ?_
    | refine Sim.setReserveStreamOutTable ?_
    | refine Sim.require _ ?_
    | refine Sim.setAvail _ ?_
    | refine Sim.setNeedSpill _ ?_
    | refine Sim.sgprArg _ _ _ ?_ ?_
    | refine Sim.vgprArg _ _ _ ?_ ?_
    | refine Sim.streamOffsetArgs _ _ ?_ _ _ ?_
    | refine Sim.vbTableLoop _ _ ?_
    | refine Sim.assert _ ?_ ?_
    | refine Sim.record _ _ _ ?_ ?_ ?_
    | refine Sim.setIntf _ _ ?_ ?_
    | refine Sim.when _ _ ?_ (fun _ _ _ => ?_) ?_)))
  all_goals first
    | exact fun _ => rfl
    | exact clean_vs_streamOffsets
    | exact clean_tes_streamOffsets
    | exact clean_gs_esGsOffsets _
    | exact clean_resNodeValues _
    | exact clean_userDataMap_one _
    | exact clean_userDataMap_range _ _
    | (intro _ l; cases l <;> first | exact Or.inl (fun _ => rfl) | exact Or.inr (fun _ _ => rfl))
    | (intro l; cases l <;> first | exact Or.inl (fun _ => rfl) | exact Or.inr (fun _ _ => rfl))

theorem Sim.systemValuesGs {stage : ShaderStage} {d e : ShaderStage → InterfaceData}
    {s t : St} (h : Sim stage d e s t) :
    Sim stage d e (systemValuesGs s) (systemValuesGs t) := by
  unfold Llpc.systemValuesGs
  dsimp only
  repeat (any_goals (with_reducible (first
    | assumption
    | refine Sim.push _ ?_
    | refine Sim.inRegNext ?_
    | refine Sim.inReg ?_
    | refine Sim.argNext ?_
    | refine Sim.consume _ ?_
    | refine Sim.userDataNext _ ?_
    | refine Sim.never ?_
    | refine Sim.checkMap _ _ ?_
    | refine Sim.reserve _ ?_
    | refine Sim.setReserveEsGsLdsSize ?_
    | refine Sim.setReserveVbTable ?_
    | refine Sim.setReserveStreamOutTable ?_
    | refine Sim.require _ ?_
    | refine Sim.setAvail _ ?_
    | refine Sim.setNeedSpill _ ?_
    | refine Sim.sgprArg _ _ _ ?_ ?_
    | refine Sim.vgprArg _ _ _ ?_ ?_
    | refine Sim.streamOffsetArgs _ _ ?_ _ _ ?_
    | refine Sim.vbTableLoop _ _ ?_
    | refine Sim.assert _ ?_ ?_
    | refine Sim.record _ _ _ ?_ ?_ ?_
    | refine Sim.setIntf _ _ ?_ ?_
    | refine Sim.when _ _ ?_ (fun _ _ _ => ?_) ?_)))
  all_goals first
    | exact fun _ => rfl
    | exact clean_vs_streamOffsets
    | exact clean_tes_streamOffsets
    | exact clean_gs_esGsOffsets _
    | exact clean_resNodeValues _
    | exact clean_userDataMap_one _
    | exact clean_userDataMap_range _ _
    | (intro _ l; cases l <;> first | exact Or.inl (fun _ => rfl) | exact Or.inr (fun _ _ => rfl))
    | (intro l; cases l <;> first | exact Or.inl (fun _ => rfl) | exact Or.inr (fun _ _ => rfl))

theorem Sim.systemValuesFs {stage : ShaderStage} {d e : ShaderStage → InterfaceData}
    {s t : St} (h : Sim stage d e s t) :
    Sim stage d e (systemValuesFs s) (systemValuesFs t) := by
  unfold Llpc.systemValuesFs
  dsimp only
  repeat (any_goals (with_reducible (first
    | assumption
    | refine Sim.push _ ?_
    | refine Sim.inRegNext ?_
    | refine Sim.inReg ?_
    | refine Sim.argNext ?_
    | refine Sim.consume _ ?_
    | refine Sim.userDataNext _ ?_
    | refine Sim.never ?_
    | refine Sim.checkMap _ _ ?_
    | refine Sim.reserve _ ?_
    | refine Sim.setReserveEsGsLdsSize ?_
    | refine Sim.setReserveVbTable ?_
    | refine Sim.setReserveStreamOutTable ?_
    | refine Sim.require _ ?_
    | refine Sim.setAvail _ ?_
    | refine Sim.setNeedSpill _ ?_
    | refine Sim.sgprArg _ _ _ ?_ ?_
    | refine Sim.vgprArg _ _ _ ?_ ?_
    | refine Sim.streamOffsetArgs _ _ ?_ _ _ ?_
    | refine Sim.vbTableLoop _ _ ?_
    | refine Sim.assert _ ?_ ?_
    | refine Sim.record _ _ _ ?_ ?_ ?_
    | refine Sim.setIntf _ _ ?_ ?_
    | refine Sim.when _ _ ?_ (fun _ _ _ => ?_) ?_)))
  all_goals first
    | exact fun _ => rfl
    | exact clean_vs_streamOffsets
    | exact clean_tes_streamOffsets
    | exact clean_gs_esGsOffsets _
    | exact clean_resNodeValues _
    | exact clean_userDataMap_one _
    | exact clean_userDataMap_range _ _
    | (intro _ l; cases l <;> first | exact Or.inl (fun _ => rfl) | exact Or.inr (fun _ _ => rfl))
    | (intro l; cases l <;> first | exact Or.inl (fun _ => rfl) | exact Or.inr (fun _ _ => rfl))

theorem Sim.systemValuesCs {stage : ShaderStage} {d e : ShaderStage → InterfaceData}
    {s t : St} (h : Sim stage d e s t) :
    Sim stage d e (systemValuesCs s) (systemValuesCs t) := by
  unfold Llpc.systemValuesCs
  dsimp only
  repeat (any_goals (with_reducible (first
    | assumption
    | refine Sim.push _ ?_
    | refine Sim.inRegNext ?_
    | refine Sim.inReg ?_
    | refine Sim.argNext ?_
    | refine Sim.consume _ ?_
    | refine Sim.userDataNext _ ?_
    | refine Sim.never ?_
    | refine Sim.checkMap _ _ ?_
    | refine Sim.reserve _ ?_
    | refine Sim.setReserveEsGsLdsSize ?_
    | refine Sim.setReserveVbTable ?_
    | refine Sim.setReserveStreamOutTable ?_
    | refine Sim.require _ ?_
    | refine Sim.setAvail _ ?_
    | refine Sim.setNeedSpill _ ?_
    | refine Sim.sgprArg _ _ _ ?_ ?_
    | refine Sim.vgprArg _ _ _ ?_ ?_
    | refine Sim.streamOffsetArgs _ _ ?_ _ _ ?_
    | refine Sim.vbTableLoop _ _ ?_
    | refine Sim.assert _ ?_ ?_
    | refine Sim.record _ _ _ ?_ ?_ ?_
    | refine Sim.setIntf _ _ ?_ ?_
    | refine Sim.when _ _ ?_ (fun _ _ _ => ?_) ?_)))
  all_goals first
    | exact fun _ => rfl
    | exact clean_vs_streamOffsets
    | exact clean_tes_streamOffsets
    | exact clean_gs_esGsOffsets _
    | exact clean_resNodeValues _
    | exact clean_userDataMap_one _
    | exact clean_userDataMap_range _ _
    | (intro _ l; cases l <;> first | exact Or.inl (fun _ => rfl) | exact Or.inr (fun _ _ => rfl))
    | (intro l; cases l <;> first | exact Or.inl (fun _ => rfl) | exact Or.inr (fun _ _ => rfl))

theorem Sim.systemValues {stage : ShaderStage} {d e : ShaderStage → InterfaceData}
    {s t : St} (ctx : Context) (h : Sim stage d e s t) :
    Sim stage d e (systemValues ctx stage s) (systemValues ctx stage t) := by
  cases stage
  · exact Sim.systemValuesVs ctx h
  · exact Sim.systemValuesTcs ctx h
  · exact Sim.systemValuesTes ctx h
  · exact Sim.systemValuesGs h
  · exact Sim.systemValuesFs h
  · exact Sim.systemValuesCs h

set_option linter.unreachableTactic true
set_option linter.unusedTactic true

/-! ## A second run on the interface data left by the first -/

theorem sim_beforePack (ctx : Context) (stage : ShaderStage)
    (d e : ShaderStage → InterfaceData) (inRegMask : Nat) :
    Sim stage d e (beforePack ctx stage d inRegMask) (beforePack ctx stage e inRegMask) :=
  Sim.allocStreamOut ctx (Sim.decideSpill ctx (Sim.reserveSpecial ctx
    (Sim.scanNodes ctx (Sim.initState ctx stage d e inRegMask))))

theorem sim_packStateAt (ctx : Context) (stage : ShaderStage)
    (d e : ShaderStage → InterfaceData) (inRegMask : Nat) (i : Nat) :
    Sim stage d e (packStateAt ctx stage d inRegMask i) (packStateAt ctx stage e inRegMask i) :=
  Sim.forNodes _ (fun j n _ _ hab => Sim.packNode ctx j n hab) 0 _
    (sim_beforePack ctx stage d e inRegMask)

theorem sim_afterPack (ctx : Context) (stage : ShaderStage)
    (d e : ShaderStage → InterfaceData) (inRegMask : Nat) :
    Sim stage d e (afterPack ctx stage d inRegMask) (afterPack ctx stage e inRegMask) :=
  Sim.packNodes ctx (sim_beforePack ctx stage d e inRegMask)

/-- The value of `spillTable.offsetInDwords` behind one iteration of the packing loop. -/
theorem packNode_offset (ctx : Context) (stage : ShaderStage) (i : Nat) (n : ResourceNode)
    (s : St) :
    ((packNode ctx stage i n s).intfData stage).spillTable.offsetInDwords
      = if (isPacked ctx stage n = true ∧ fits (padNode ctx stage n s) n = false ∧
            (padNode ctx stage n s).needSpill = true) ∧
          (s.intfData stage).spillTable.offsetInDwords = ctx.InvalidValue then
          n.offsetInDwords
        else (s.intfData stage).spillTable.offsetInDwords := by
  by_cases hp : isPacked ctx stage n = true
  · rw [packNode_of_packed _ _ _ _ _ hp]
    by_cases hf : fits (padNode ctx stage n s) n = true
    · rw [if_pos hf, assignNode_spillTable, padNode_intfData, if_neg]
      rintro ⟨⟨_, h2, _⟩, _⟩
      rw [hf] at h2
      cases h2
    · rw [if_neg hf]
      have hf' : fits (padNode ctx stage n s) n = false := by simpa using hf
      by_cases hc : (padNode ctx stage n s).needSpill = true ∧
          ((padNode ctx stage n s).intfData stage).spillTable.offsetInDwords
            = ctx.InvalidValue
      · rw [if_pos hc]
        have hc2 := hc.2
        rw [padNode_intfData] at hc2
        rw [if_pos ⟨⟨hp, hf', hc.1⟩, hc2⟩]
        simp [St.setIntf]
      · rw [if_neg hc, padNode_intfData, if_neg]
        rintro ⟨⟨_, _, h3⟩, h4⟩
        exact hc ⟨h3, by rw [padNode_intfData]; exact h4⟩
  · rw [packNode_of_not_packed _ _ _ _ _ (by simpa using hp), if_neg]
    rintro ⟨⟨h1, _⟩, _⟩
    exact hp h1

theorem offset_step (inv c o o' v : Nat) (C : Prop) [Decidable C]
    (hK : o = o' ∨ (o = inv ∧ o' = c ∧ c ≠ inv))
    (hfrozen : (if C ∧ o = inv then v else o) ≠ inv → c = (if C ∧ o = inv then v else o)) :
    (if C ∧ o = inv then v else o) = (if C ∧ o' = inv then v else o') ∨
      ((if C ∧ o = inv then v else o) = inv ∧ (if C ∧ o' = inv then v else o') = c ∧
        c ≠ inv) := by
  rcases hK with h | ⟨h1, h2, h3⟩
  · subst h
    exact Or.inl rfl
  · subst h1
    subst h2
    have e2 : (if C ∧ o' = o then v else o') = o' := by
      rw [if_neg]
      rintro ⟨_, h⟩
      exact h3 h
    rw [e2]
    by_cases hC : C
    · have e1 : (if C ∧ o = o then v else o) = v := by rw [if_pos ⟨hC, rfl⟩]
      rw [e1] at hfrozen ⊢
      by_cases hv : v = o
      · exact Or.inr ⟨hv, rfl, h3⟩
      · exact Or.inl (hfrozen hv).symm
    · have e1 : (if C ∧ o = o then v else o) = o := by
        rw [if_neg]
        rintro ⟨h, _⟩
        exact hC h
      rw [e1]
      exact Or.inr ⟨rfl, rfl, h3⟩

/-- Once `spillTable.offsetInDwords` is valid in the packing loop, it keeps its value to the
end of the function. -/
theorem run_offset_frozen (ctx : Context) (stage : ShaderStage)
    (d : ShaderStage → InterfaceData) (inRegMask : Nat) (i : Nat)
    (h : ((packStateAt ctx stage d inRegMask i).intfData stage).spillTable.offsetInDwords
      ≠ ctx.InvalidValue) :
    ((runEntryPointType ctx stage d inRegMask).intfData stage).spillTable.offsetInDwords
      = ((packStateAt ctx stage d inRegMask i).intfData stage).spillTable.offsetInDwords := by
  rw [run_spillOffset, afterPack_eq_forNodes ctx stage d inRegMask i]
  exact forNodes_packNode_spillOffset_of_ne ctx stage _ _ _ h

/-- The packing loops of a run and of a second run on the interface data left by the first:
`spillTable.offsetInDwords` is the same in both, or it is still invalid in the first run
while the second holds the final value of the first. -/
theorem packStateAt_offset_second (ctx : Context) (stage : ShaderStage)
    (d : ShaderStage → InterfaceData) (inRegMask : Nat) (i : Nat) :
    ((packStateAt ctx stage d inRegMask i).intfData stage).spillTable.offsetInDwords
        = ((packStateAt ctx stage (runEntryPointType ctx stage d inRegMask).intfData
            inRegMask i).intfData stage).spillTable.offsetInDwords ∨
      (((packStateAt ctx stage d inRegMask i).intfData stage).spillTable.offsetInDwords
          = ctx.InvalidValue ∧
        ((packStateAt ctx stage (runEntryPointType ctx stage d inRegMask).intfData
            inRegMask i).intfData stage).spillTable.offsetInDwords
          = ((runEntryPointType ctx stage d inRegMask).intfData
              stage).spillTable.offsetInDwords ∧
        ((runEntryPointType ctx stage d inRegMask).intfData stage).spillTable.offsetInDwords
          ≠ ctx.InvalidValue) := by
  induction i with
  | zero =>
    rw [packStateAt_zero, packStateAt_zero]
    by_cases hst : stage = .Compute
    · subst hst
      rw [beforePack_spillOffset_fixed, beforePack_spillOffset_fixed]
      by_cases h0 : (d .Compute).spillTable.offsetInDwords = ctx.InvalidValue
      · by_cases hc : ((runEntryPointType ctx .Compute d inRegMask).intfData
            .Compute).spillTable.offsetInDwords = ctx.InvalidValue
        · exact Or.inl (h0.trans hc.symm)
        · exact Or.inr ⟨h0, rfl, hc⟩
      · have hf := run_offset_frozen ctx .Compute d inRegMask 0 (by
          rw [packStateAt_zero, beforePack_spillOffset_fixed]
          exact h0)
        rw [packStateAt_zero, beforePack_spillOffset_fixed] at hf
        exact Or.inl hf.symm
    · rw [beforePack_spillOffset_greedy _ _ _ _ hst, beforePack_spillOffset_greedy _ _ _ _ hst]
      exact Or.inl rfl
  | succ i ih =>
    cases hn : ctx.userDataNodes[i]? with
    | none =>
      rw [packStateAt_succ_of_none _ _ _ _ _ hn, packStateAt_succ_of_none _ _ _ _ _ hn]
      exact ih
    | some n =>
      have hsim := sim_packStateAt ctx stage d (runEntryPointType ctx stage d inRegMask).intfData
        inRegMask i
      have hpad := Sim.padNode ctx n hsim
      have ef := Sim.read_eq (fun s => fits s n) (fun _ => rfl) hpad
      have en := Sim.read_eq St.needSpill (fun _ => rfl) hpad
      dsimp only at ef
      have hfz := run_offset_frozen ctx stage d inRegMask (i + 1)
      rw [packStateAt_succ _ _ _ _ _ _ hn, packNode_offset] at hfz
      rw [packStateAt_succ _ _ _ _ _ _ hn, packStateAt_succ _ _ _ _ _ _ hn, packNode_offset,
        packNode_offset, ← ef, ← en]
      exact offset_step _ _ _ _ _ _ ih (fun h => (hfz h).symm ▸ rfl)

/-- Field `spillTable.offsetInDwords` behind the packing loop is the same in a second run on
the interface data left by the first. -/
theorem afterPack_offset_second (ctx : Context) (stage : ShaderStage)
    (d : ShaderStage → InterfaceData) (inRegMask : Nat) :
    ((afterPack ctx stage (runEntryPointType ctx stage d inRegMask).intfData
        inRegMask).intfData stage).spillTable.offsetInDwords
      = ((afterPack ctx stage d inRegMask).intfData stage).spillTable.offsetInDwords := by
  have h := packStateAt_offset_second ctx stage d inRegMask ctx.userDataNodes.length
  rw [packStateAt_length, packStateAt_length, run_spillOffset] at h
  rcases h with h | ⟨h1, _, h3⟩
  · exact h.symm
  · exact absurd h1 h3

theorem sim_run_second (ctx : Context) (stage : ShaderStage)
    (d : ShaderStage → InterfaceData) (inRegMask : Nat) :
    Sim stage d (runEntryPointType ctx stage d inRegMask).intfData
      (runEntryPointType ctx stage d inRegMask)
      (runEntryPointType ctx stage (runEntryPointType ctx stage d inRegMask).intfData
        inRegMask) := by
  have h1 := sim_afterPack ctx stage d (runEntryPointType ctx stage d inRegMask).intfData
    inRegMask
  have h2 := afterPack_offset_second ctx stage d inRegMask
  have h3 := Sim.fixedSpill ctx h1 (by rw [h2])
  exact Sim.systemValues ctx (Sim.greedySpill (Sim.specialUserData ctx h3))

theorem St.eq_of_locals (a b : St) (h1 : a.locals = b.locals)
    (h2 : a.intfData = b.intfData) : a = b := by
  cases a
  cases b
  simp only [St.locals, St.mk.injEq] at h1
  simp only at h2
  simp only [St.mk.injEq]
  simp only [h1, h2, and_self]

/-- Idempotence of the run: on the interface data left by a run, a second run with the same
incoming mask ends in the same state. -/
theorem run_second (ctx : Context) (stage : ShaderStage)
    (d : ShaderStage → InterfaceData) (inRegMask : Nat) :
    runEntryPointType ctx stage (runEntryPointType ctx stage d inRegMask).intfData inRegMask
      = runEntryPointType ctx stage d inRegMask := by
  have hs := sim_run_second ctx stage d inRegMask
  refine St.eq_of_locals _ _ hs.1.symm (funext fun u => ?_)
  refine InterfaceData.eq_of_read _ _ (fun l => ?_)
  rcases hs.2 u l with ⟨hu, hl⟩ | h | ⟨_, h⟩
  · subst hu
    subst hl
    show ((runEntryPointType ctx u (runEntryPointType ctx u d inRegMask).intfData
        inRegMask).intfData u).spillTable.offsetInDwords
      = ((runEntryPointType ctx u d inRegMask).intfData u).spillTable.offsetInDwords
    rw [run_spillOffset, run_spillOffset, afterPack_offset_second]
  · exact h.symm
  · exact h

/-! ## The register limits are not read by `GenerateEntryPointType` -/

theorem usage_hasTs (ctx : Context) (ru : ShaderStage → ResourceUsage) :
    hasTs { ctx with resUsage := ru } = hasTs ctx := rfl

theorem usage_hasGs (ctx : Context) (ru : ShaderStage → ResourceUsage) :
    hasGs { ctx with resUsage := ru } = hasGs ctx := rfl

theorem usage_shaderStage2 (ctx : Context) (ru : ShaderStage → ResourceUsage)
    (stage : ShaderStage) :
    shaderStage2 { ctx with resUsage := ru } stage = shaderStage2 ctx stage := rfl

theorem usage_currStage (ctx : Context) (ru : ShaderStage → ResourceUsage)
    (stage : ShaderStage) :
    currStage { ctx with resUsage := ru } stage = currStage ctx stage := rfl

theorem usage_IsResourceNodeActive (ctx : Context) (ru : ShaderStage → ResourceUsage)
    (hd : ∀ t, (ru t).descPairs = (ctx.resUsage t).descPairs)
    (hp : ∀ t, (ru t).pushConstSizeInBytes = (ctx.resUsage t).pushConstSizeInBytes)
    (stage : ShaderStage) (n : ResourceNode) :
    ∀ b, IsResourceNodeActive { ctx with resUsage := ru } stage n b
      = IsResourceNodeActive ctx stage n b := by
  refine @ResourceNode.rec
    (fun n => ∀ b, IsResourceNodeActive { ctx with resUsage := ru } stage n b
      = IsResourceNodeActive ctx stage n b)
    (fun l => anyInnerActive { ctx with resUsage := ru } stage l = anyInnerActive ctx stage l)
    ?_ ?_ ?_ n
  · intro ty sz off set bind inner ih b
    simp only [IsResourceNodeActive, usage_shaderStage2, ih]
    cases shaderStage2 ctx stage <;> simp only [Option.map, hd, hp]
  · simp only [anyInnerActive]
  · intro n l ih1 ih2
    simp only [anyInnerActive, ih1, ih2]

theorem usage_fillDummies (ctx : Context) (ru : ShaderStage → ResourceUsage)
    (off fuel : Nat) (s : St) :
    fillDummies { ctx with resUsage := ru } off fuel s = fillDummies ctx off fuel s := by
  induction fuel generalizing s with
  | zero => rfl
  | succ fuel ih =>
    rw [fillDummies, fillDummies]
    dsimp only
    split
    · exact ih _
    · rfl

theorem usage_fillToSpill (ctx : Context) (ru : ShaderStage → ResourceUsage)
    (fuel : Nat) (s : St) :
    fillToSpill { ctx with resUsage := ru } fuel s = fillToSpill ctx fuel s := by
  induction fuel generalizing s with
  | zero => rfl
  | succ fuel ih =>
    rw [fillToSpill, fillToSpill]
    dsimp only
    split
    · exact ih _
    · rfl

/-- The run of `GenerateEntryPointType` reads the resource usage only through the
descriptor pairs, the size of the push constants, the built-in usage and the input/output
usage. -/
theorem usage_run (ctx : Context) (ru : ShaderStage → ResourceUsage)
    (hd : ∀ t, (ru t).descPairs = (ctx.resUsage t).descPairs)
    (hp : ∀ t, (ru t).pushConstSizeInBytes = (ctx.resUsage t).pushConstSizeInBytes)
    (hb : ∀ t, (ru t).builtInUsage = (ctx.resUsage t).builtInUsage)
    (hi : ∀ t, (ru t).inOutUsage = (ctx.resUsage t).inOutUsage)
    (stage : ShaderStage) (d : ShaderStage → InterfaceData) (inRegMask : Nat) :
    runEntryPointType { ctx with resUsage := ru } stage d inRegMask
      = runEntryPointType ctx stage d inRegMask := by
  have hact := usage_IsResourceNodeActive ctx ru hd hp stage
  have h1 : scanNode { ctx with resUsage := ru } stage = scanNode ctx stage := by
    funext i n s
    unfold scanNode
    simp only [hact, usage_hasTs]
  have h2 : ∀ s, reserveSpecial { ctx with resUsage := ru } stage s
      = reserveSpecial ctx stage s := by
    intro s
    cases stage <;> simp only [reserveSpecial, usage_currStage, usage_hasTs, hb]
  have h3 : ∀ n s, padNode { ctx with resUsage := ru } stage n s = padNode ctx stage n s := by
    intro n s
    unfold padNode
    simp only [usage_fillDummies]
  have h4 : packNode { ctx with resUsage := ru } stage = packNode ctx stage := by
    funext i n s
    unfold packNode
    simp only [hact, h3]
    rfl
  have h5 : ∀ s, fixedSpill { ctx with resUsage := ru } stage s = fixedSpill ctx stage s := by
    intro s
    unfold fixedSpill
    simp only [usage_fillToSpill]
  have h6 : ∀ s, specialUserData { ctx with resUsage := ru } stage s
      = specialUserData ctx stage s := by
    intro s
    cases stage <;> simp only [specialUserData, usage_currStage, hb]
  have h7 : ∀ s, systemValues { ctx with resUsage := ru } stage s
      = systemValues ctx stage s := by
    intro s
    cases stage <;>
      simp only [systemValues, systemValuesVs, systemValuesTcs, systemValuesTes,
        usage_hasTs, usage_hasGs, hb, hi]
  unfold runEntryPointType afterUserData afterPack packNodes beforePack afterReserve afterScan
    scanNodes
  rw [h7, h6, h5, h4, h2, h1]
  rfl

/-! ## Claim C11: the fragment stage without an active node -/

/-- Claim C11: for the fragment stage with no active top-level node the run returns,
`userDataCount` is 2, no spill is needed and the size of the spill table is left as it
came, the argument list is the two leading arguments followed by the 17 system values of
the fragment shader in their order (primitive mask, three perspective interpolants, the
perspective pull model, three linear interpolants, line stipple, the four components of
the fragment coordinate, front facing, ancillary, sample coverage, fixed X/Y), recorded at
the argument indices 2 to 9 and 11 to 17, and the bits 0, 1 and 2 are added to the mask
`*pInRegMask`, which is exactly these three bits for the mask 0 that `ProcessShader`
passes. -/
theorem fragment_no_active_node (ctx : Context) (intfData : ShaderStage → InterfaceData)
    (inRegMask : Nat)
    (hnone : ∀ n ∈ ctx.userDataNodes, IsResourceNodeActive ctx .Fragment n true = false) :
    GenerateEntryPointType ctx .Fragment intfData inRegMask
        = some (runEntryPointType ctx .Fragment intfData inRegMask) ∧
      ((runEntryPointType ctx .Fragment intfData inRegMask).intfData .Fragment).userDataCount
        = 2 ∧
      (runEntryPointType ctx .Fragment intfData inRegMask).needSpill = false ∧
      ((runEntryPointType ctx .Fragment intfData inRegMask).intfData
          .Fragment).spillTable.sizeInDwords = (intfData .Fragment).spillTable.sizeInDwords ∧
      (runEntryPointType ctx .Fragment intfData inRegMask).argTys
        = [.Int32Ty, .Int32Ty,
          .Int32Ty, .Floatx2Ty, .Floatx2Ty, .Floatx2Ty, .Floatx3Ty, .Floatx2Ty, .Floatx2Ty,
          .Floatx2Ty, .FloatTy, .FloatTy, .FloatTy, .FloatTy, .FloatTy, .Int32Ty, .Int32Ty,
          .Int32Ty, .Int32Ty] ∧
      (runEntryPointType ctx .Fragment intfData inRegMask).inRegMask = inRegMask ||| 7 ∧
      (inRegMask = 0 → (runEntryPointType ctx .Fragment intfData inRegMask).inRegMask = 7) ∧
      (((runEntryPointType ctx .Fragment intfData inRegMask).intfData
          .Fragment).entryArgIdxs.fs.primMask = 2 ∧
        ((runEntryPointType ctx .Fragment intfData inRegMask).intfData
          .Fragment).entryArgIdxs.fs.perspInterp.sample = 3 ∧
        ((runEntryPointType ctx .Fragment intfData inRegMask).intfData
          .Fragment).entryArgIdxs.fs.perspInterp.center = 4 ∧
        ((runEntryPointType ctx .Fragment intfData inRegMask).intfData
          .Fragment).entryArgIdxs.fs.perspInterp.centroid = 5 ∧
        ((runEntryPointType ctx .Fragment intfData inRegMask).intfData
          .Fragment).entryArgIdxs.fs.perspInterp.pullMode = 6 ∧
        ((runEntryPointType ctx .Fragment intfData inRegMask).intfData
          .Fragment).entryArgIdxs.fs.linearInterp.sample = 7 ∧
        ((runEntryPointType ctx .Fragment intfData inRegMask).intfData
          .Fragment).entryArgIdxs.fs.linearInterp.center = 8 ∧
        ((runEntryPointType ctx .Fragment intfData inRegMask).intfData
          .Fragment).entryArgIdxs.fs.linearInterp.centroid = 9 ∧
        ((runEntryPointType ctx .Fragment intfData inRegMask).intfData
          .Fragment).entryArgIdxs.fs.fragCoord.x = 11 ∧
        ((runEntryPointType ctx .Fragment intfData inRegMask).intfData
          .Fragment).entryArgIdxs.fs.fragCoord.y = 12 ∧
        ((runEntryPointType ctx .Fragment intfData inRegMask).intfData
          .Fragment).entryArgIdxs.fs.fragCoord.z = 13 ∧
        ((runEntryPointType ctx .Fragment intfData inRegMask).intfData
          .Fragment).entryArgIdxs.fs.fragCoord.w = 14 ∧
        ((runEntryPointType ctx .Fragment intfData inRegMask).intfData
          .Fragment).entryArgIdxs.fs.frontFacing = 15 ∧
        ((runEntryPointType ctx .Fragment intfData inRegMask).intfData
          .Fragment).entryArgIdxs.fs.ancillary = 16 ∧
        ((runEntryPointType ctx .Fragment intfData inRegMask).intfData
          .Fragment).entryArgIdxs.fs.sampleCoverage = 17) := by
  have hrun := run_fragment_of_inactive ctx intfData inRegMask hnone
  obtain ⟨i1, i2, i3, i4⟩ := initState_fields ctx .Fragment intfData inRegMask
  obtain ⟨d1, d2, d3, d4⟩ := decideSpill_fragment_fields ctx
    (initState ctx .Fragment intfData inRegMask)
  have hidx : ((decideSpill ctx .Fragment (initState ctx .Fragment intfData inRegMask)).record
      .Fragment St.userDataIdx (fun a d => { d with userDataCount := a })).argIdx = 2 := by
    simp [d2, i2]
  obtain ⟨f1, f2, f3, _⟩ := systemValuesFs_fields _ hidx
  have hmask : (runEntryPointType ctx .Fragment intfData inRegMask).inRegMask
      = inRegMask ||| 7 := by
    rw [hrun, f2]
    simp only [St.record_inRegMask, d3, i3, Nat.lor_assoc]
    rfl
  have hok : (runEntryPointType ctx .Fragment intfData inRegMask).ok = true := by
    rw [hrun, f3]
    simp [d4, i4]
  have h10 := no_active_node_facts ctx intfData inRegMask hnone
  refine ⟨GenerateEntryPointType_of_ok ctx .Fragment intfData inRegMask hok, h10.1, h10.2.1,
    h10.2.2, ?_, hmask, ?_, ?_⟩
  · rw [hrun, f1]
    simp [d1, i1]
  · intro h0
    rw [hmask, h0]
    rfl
  · rw [hrun]
    exact systemValuesFs_argIdxs _ hidx

/-- Claim C11 on an example: a fragment shader of a pipeline whose only node is not
referenced by it, run with the mask 0. -/
theorem fragment_no_active_node_witness :
    ((runEntryPointType (plainCtx 16 17 [bufferNode 2 0 5] [(0, 0)]) .Fragment
        (fun _ => zeroIntf) 0).intfData .Fragment).userDataCount = 2 ∧
      (runEntryPointType (plainCtx 16 17 [bufferNode 2 0 5] [(0, 0)]) .Fragment
        (fun _ => zeroIntf) 0).argTys.length = 19 ∧
      (runEntryPointType (plainCtx 16 17 [bufferNode 2 0 5] [(0, 0)]) .Fragment
        (fun _ => zeroIntf) 0).inRegMask = 7 :=
  ⟨(fragment_no_active_node (plainCtx 16 17 [bufferNode 2 0 5] [(0, 0)])
      (fun _ => zeroIntf) 0 (by decide)).2.1,
    by decide,
    (fragment_no_active_node (plainCtx 16 17 [bufferNode 2 0 5] [(0, 0)])
      (fun _ => zeroIntf) 0 (by decide)).2.2.2.2.2.2.1 rfl⟩

/-! ## C12: budget monotonicity -/

/-- C12 (amended): take two runs of `GenerateEntryPointType` for the same stage, interface
data and node list, with the same root-level activity of the nodes and the same limits, the
second context reserving at least the slots of the first (one more flag among multi-view,
stream-out table, LDS size), both leaving at least one slot for the nodes, the sizes not
wrapping around, and (for the fixed compute layout) both returning. Then the register-resident
nodes of the second run take no more dwords than those of the first, and when all nodes
handled by the packing loop have the same size, the number of register-resident nodes of the
second run is at most that of the first. -/
theorem reserved_slot_monotone (ctx ctx' : Context) (stage : ShaderStage)
    (intfData : ShaderStage → InterfaceData) (inRegMask : Nat)
    (hret : stage = .Compute →
      (GenerateEntryPointType ctx stage intfData inRegMask).isSome = true ∧
        (GenerateEntryPointType ctx' stage intfData inRegMask).isSome = true)
    (hnodes : ctx'.userDataNodes = ctx.userDataNodes)
    (hact : ∀ n ∈ ctx.userDataNodes, isPacked ctx' stage n = isPacked ctx stage n)
    (hsame : ctx'.maxUserDataCount = ctx.maxUserDataCount)
    (hmax : ctx.maxUserDataCount < 4294967296)
    (hCs : ctx'.CsStartUserData = ctx.CsStartUserData)
    (hMaxCs : ctx'.MaxCsUserDataCount = ctx.MaxCsUserDataCount)
    (hle : reservedSlots ctx stage intfData inRegMask
      ≤ reservedSlots ctx' stage intfData inRegMask)
    (hres : 2 + reservedSlots ctx' stage intfData inRegMask < ctx.maxUserDataCount)
    (hno : ∀ m ∈ ctx.userDataNodes, m.sizeInDwords + ctx.maxUserDataCount < 4294967296) :
    residentWords ctx' stage intfData inRegMask ≤ residentWords ctx stage intfData inRegMask ∧
      (∀ x : Nat, (∀ m ∈ packedNodes ctx stage, m.sizeInDwords = x) →
        residentCount ctx' stage intfData inRegMask
          ≤ residentCount ctx stage intfData inRegMask) := by
  by_cases hst : stage = .Compute
  · subst hst
    obtain ⟨h1, h2⟩ := hret rfl
    have ok1 : (runEntryPointType ctx .Compute intfData inRegMask).ok = true := by
      obtain ⟨r, hr⟩ := Option.isSome_iff_exists.mp h1
      exact (GenerateEntryPointType_some _ _ _ _ r hr).2
    have ok2 : (runEntryPointType ctx' .Compute intfData inRegMask).ok = true := by
      obtain ⟨r, hr⟩ := Option.isSome_iff_exists.mp h2
      exact (GenerateEntryPointType_some _ _ _ _ r hr).2
    have hfun : registerResident ctx' .Compute intfData inRegMask
        = registerResident ctx .Compute intfData inRegMask :=
      funext (registerResident_fixed_agree ctx ctx' intfData inRegMask ok1 ok2 hnodes hact
        hCs hMaxCs)
    have hsz : sizeAt ctx' = sizeAt ctx := funext (sizeAt_congr ctx ctx' hnodes)
    refine ⟨?_, fun _ _ => ?_⟩
    · unfold residentWords residentWordsBefore
      rw [hfun, hsz, hnodes]
    · unfold residentCount
      rw [hfun, hnodes]
  · obtain ⟨_, _, a1⟩ := availableSlots_facts ctx stage intfData inRegMask hmax (by omega)
    have hA := availableSlots_anti ctx ctx' stage intfData inRegMask hnodes hact hsame hmax
      hle hres
    have hno1 : ∀ m ∈ ctx.userDataNodes,
        m.sizeInDwords + availableSlots ctx stage intfData inRegMask < 4294967296 := by
      intro m hm
      have := hno m hm
      omega
    have hno2 : ∀ m ∈ ctx'.userDataNodes,
        m.sizeInDwords + availableSlots ctx' stage intfData inRegMask < 4294967296 := by
      intro m hm
      rw [hnodes] at hm
      have := hno m hm
      omega
    have hw := residentWords_anti ctx ctx' stage intfData inRegMask hst hnodes hact hA hno1
      ctx.userDataNodes.length
    refine ⟨?_, fun x hx => ?_⟩
    · unfold residentWords
      rw [hnodes]
      exact hw
    · unfold residentCount
      rw [hnodes]
      rcases Nat.eq_zero_or_pos x with h0 | hpos
      · subst h0
        have hfun : registerResident ctx' stage intfData inRegMask
            = registerResident ctx stage intfData inRegMask := by
          funext i
          have c1 := consumedBefore_le_avail ctx stage intfData inRegMask hst i
          have c2 := consumedBefore_le_avail ctx' stage intfData inRegMask hst i
          rw [Bool.eq_iff_iff, registerResident_greedy _ _ _ _ hst hno1,
            registerResident_greedy _ _ _ _ hst hno2, hnodes]
          constructor
          · rintro ⟨n, hn, hp, _⟩
            have hp' := (hact n (List.getElem?_mem hn)).symm.trans hp
            have hz := hx n (List.mem_filter.mpr ⟨List.getElem?_mem hn, hp'⟩)
            exact ⟨n, hn, hp', by omega⟩
          · rintro ⟨n, hn, hp, _⟩
            have hz := hx n (List.mem_filter.mpr ⟨List.getElem?_mem hn, hp⟩)
            exact ⟨n, hn, (hact n (List.getElem?_mem hn)).trans hp, by omega⟩
        rw [hfun]
      · have e1 := residentWordsBefore_of_equal_sizes ctx stage intfData inRegMask x hx
          ctx.userDataNodes.length
        have hx' : ∀ m ∈ packedNodes ctx' stage, m.sizeInDwords = x := by
          rw [packedNodes_congr ctx ctx' stage hnodes hact]
          exact hx
        have e2 := residentWordsBefore_of_equal_sizes ctx' stage intfData inRegMask x hx'
          ctx.userDataNodes.length
        rw [e1, e2] at hw
        exact Nat.le_of_mul_le_mul_left hw hpos

theorem reserved_slot_monotone_witness :
    reservedSlots (plainCtx 8 17 [bufferNode 2 0 0, bufferNode 2 2 1, bufferNode 2 4 2]
        [(0, 0), (0, 1), (0, 2)]) .Vertex (fun _ => zeroIntf) 0 = 0 ∧
      reservedSlots { plainCtx 8 17 [bufferNode 2 0 0, bufferNode 2 2 1, bufferNode 2 4 2]
        [(0, 0), (0, 1), (0, 2)] with enableMultiView := true } .Vertex
        (fun _ => zeroIntf) 0 = 1 ∧
      (residentWords { plainCtx 8 17 [bufferNode 2 0 0, bufferNode 2 2 1, bufferNode 2 4 2]
          [(0, 0), (0, 1), (0, 2)] with enableMultiView := true } .Vertex
          (fun _ => zeroIntf) 0
        ≤ residentWords (plainCtx 8 17 [bufferNode 2 0 0, bufferNode 2 2 1, bufferNode 2 4 2]
          [(0, 0), (0, 1), (0, 2)]) .Vertex (fun _ => zeroIntf) 0) ∧
      (residentCount { plainCtx 8 17 [bufferNode 2 0 0, bufferNode 2 2 1, bufferNode 2 4 2]
          [(0, 0), (0, 1), (0, 2)] with enableMultiView := true } .Vertex
          (fun _ => zeroIntf) 0
        ≤ residentCount (plainCtx 8 17 [bufferNode 2 0 0, bufferNode 2 2 1, bufferNode 2 4 2]
          [(0, 0), (0, 1), (0, 2)]) .Vertex (fun _ => zeroIntf) 0) ∧
      residentCount { plainCtx 8 17 [bufferNode 2 0 0, bufferNode 2 2 1, bufferNode 2 4 2]
          [(0, 0), (0, 1), (0, 2)] with enableMultiView := true } .Vertex
          (fun _ => zeroIntf) 0 = 2 ∧
      residentCount (plainCtx 8 17 [bufferNode 2 0 0, bufferNode 2 2 1, bufferNode 2 4 2]
          [(0, 0), (0, 1), (0, 2)]) .Vertex (fun _ => zeroIntf) 0 = 3 := by
  have hall : ∀ (P : ResourceNode → Prop), P (bufferNode 2 0 0) → P (bufferNode 2 2 1) →
      P (bufferNode 2 4 2) →
      ∀ n ∈ (plainCtx 8 17 [bufferNode 2 0 0, bufferNode 2 2 1, bufferNode 2 4 2]
        [(0, 0), (0, 1), (0, 2)]).userDataNodes, P n := by
    intro P p0 p1 p2 n hn
    have hn' : n ∈ [bufferNode 2 0 0, bufferNode 2 2 1, bufferNode 2 4 2] := hn
    simp only [List.mem_cons, List.mem_singleton, List.not_mem_nil, or_false] at hn'
    rcases hn' with rfl | rfl | rfl
    · exact p0
    · exact p1
    · exact p2
  have h := reserved_slot_monotone
    (plainCtx 8 17 [bufferNode 2 0 0, bufferNode 2 2 1, bufferNode 2 4 2]
      [(0, 0), (0, 1), (0, 2)])
    { plainCtx 8 17 [bufferNode 2 0 0, bufferNode 2 2 1, bufferNode 2 4 2]
      [(0, 0), (0, 1), (0, 2)] with enableMultiView := true } .Vertex (fun _ => zeroIntf) 0
    (fun hc => ShaderStage.noConfusion hc) rfl
    (hall _ (by decide) (by decide) (by decide)) rfl (by decide) rfl rfl (by decide)
    (by decide) (hall _ (by decide) (by decide) (by decide))
  exact ⟨by decide, by decide, h.1,
    h.2 2 (fun m hm => by
      have hm' := (List.mem_filter.mp hm).1
      exact hall (fun m => m.sizeInDwords = 2) rfl rfl rfl m hm'),
    by decide, by decide⟩

/-- C12 as stated fails: with the vertex-stage nodes of 3, 1 and 1 dwords and six user data
registers, the run without multi-view has four slots, spills and keeps only the first node
in registers (the second does not fit behind it), while the run with multi-view has three
slots, spills, cannot place the first node and keeps the two small nodes in registers. -/
theorem reserved_slot_monotone_counterexample :
    (GenerateEntryPointType (plainCtx 6 17 [bufferNode 3 0 0, bufferNode 1 3 1,
        bufferNode 1 4 2] [(0, 0), (0, 1), (0, 2)]) .Vertex (fun _ => zeroIntf) 0).isSome
        = true ∧
      (GenerateEntryPointType { plainCtx 6 17 [bufferNode 3 0 0, bufferNode 1 3 1,
        bufferNode 1 4 2] [(0, 0), (0, 1), (0, 2)] with enableMultiView := true } .Vertex
        (fun _ => zeroIntf) 0).isSome = true ∧
      residentCount (plainCtx 6 17 [bufferNode 3 0 0, bufferNode 1 3 1, bufferNode 1 4 2]
        [(0, 0), (0, 1), (0, 2)]) .Vertex (fun _ => zeroIntf) 0 = 1 ∧
      residentCount { plainCtx 6 17 [bufferNode 3 0 0, bufferNode 1 3 1, bufferNode 1 4 2]
        [(0, 0), (0, 1), (0, 2)] with enableMultiView := true } .Vertex
        (fun _ => zeroIntf) 0 = 2 ∧
      (List.range 3).map (registerResident (plainCtx 6 17 [bufferNode 3 0 0,
        bufferNode 1 3 1, bufferNode 1 4 2] [(0, 0), (0, 1), (0, 2)]) .Vertex
        (fun _ => zeroIntf) 0) = [true, false, false] ∧
      (List.range 3).map (registerResident { plainCtx 6 17 [bufferNode 3 0 0,
        bufferNode 1 3 1, bufferNode 1 4 2] [(0, 0), (0, 1), (0, 2)] with
        enableMultiView := true } .Vertex (fun _ => zeroIntf) 0) = [false, true, true] := by
  decide

/-! ## C13: idempotence -/

/-- C13: when `ProcessShader` for a stage returns the final state `r` of
`GenerateEntryPointType` and leaves the resource usage `u` for the stage, a second
`ProcessShader` for the same stage with the same nodes, options and limits, started on the
interface data `r.intfData` and the resource usage `u`, returns again the state `r` (the same
interface data, the same list of argument types `argTys` and the same mask `inRegMask`) and
leaves the same resource usage `u`. -/
theorem process_shader_idempotent (ctx : Context) (stage : ShaderStage) (o : ShaderLimits)
    (intfData : ShaderStage → InterfaceData) (r : St) (u : ResourceUsage)
    (h : ProcessShader ctx stage o intfData = some (r, u)) :
    ProcessShader (ctx.withUsage stage u) stage o r.intfData = some (r, u) := by
  unfold ProcessShader at h
  cases hg : GenerateEntryPointType ctx stage intfData 0 with
  | none =>
    rw [hg] at h
    cases h
  | some r0 =>
    rw [hg] at h
    simp only [Option.some.injEq, Prod.mk.injEq] at h
    obtain ⟨hr, hu⟩ := h
    subst hr
    obtain ⟨hrun, hok⟩ := GenerateEntryPointType_some ctx stage intfData 0 r0 hg
    have hfields : u.descPairs = (ctx.resUsage stage).descPairs ∧
        u.pushConstSizeInBytes = (ctx.resUsage stage).pushConstSizeInBytes ∧
        u.builtInUsage = (ctx.resUsage stage).builtInUsage ∧
        u.inOutUsage = (ctx.resUsage stage).inOutUsage := by
      rw [← hu]
      unfold setLimits
      dsimp only
      split_ifs <;> exact ⟨rfl, rfl, rfl, rfl⟩
    have hsame : ∀ t, (if t = stage then u else ctx.resUsage t).descPairs
          = (ctx.resUsage t).descPairs ∧
        (if t = stage then u else ctx.resUsage t).pushConstSizeInBytes
          = (ctx.resUsage t).pushConstSizeInBytes ∧
        (if t = stage then u else ctx.resUsage t).builtInUsage
          = (ctx.resUsage t).builtInUsage ∧
        (if t = stage then u else ctx.resUsage t).inOutUsage
          = (ctx.resUsage t).inOutUsage := by
      intro t
      by_cases ht : t = stage
      · subst ht
        rw [if_pos rfl]
        exact hfields
      · rw [if_neg ht]
        exact ⟨rfl, rfl, rfl, rfl⟩
    have hrun2 : runEntryPointType (ctx.withUsage stage u) stage r0.intfData 0 = r0 := by
      unfold Context.withUsage
      rw [usage_run ctx _ (fun t => (hsame t).1) (fun t => (hsame t).2.1)
        (fun t => (hsame t).2.2.1) (fun t => (hsame t).2.2.2), hrun, run_second]
    have hgen : GenerateEntryPointType (ctx.withUsage stage u) stage r0.intfData 0
        = some r0 := by
      rw [GenerateEntryPointType_of_ok _ _ _ _ (by rw [hrun2, hrun]; exact hok), hrun2]
    have hlim : setLimits o ((ctx.withUsage stage u).resUsage stage) = u := by
      have e1 : (ctx.withUsage stage u).resUsage stage = u := by
        simp [Context.withUsage]
      rw [e1, ← hu]
      unfold setLimits
      dsimp only
      split_ifs <;>
        simp only [ResourceUsage.mk.injEq, true_and, and_true, Nat.min_assoc, Nat.min_self,
          Nat.min_left_comm, Nat.min_comm] <;>
        omega
    unfold ProcessShader
    rw [hgen, hlim]

theorem process_shader_idempotent_witness :
    ProcessShader (plainCtx 16 17 [bufferNode 4 0 0] [(0, 0)]) .Vertex
        { vgprLimit := 64, sgprLimit := 0, VgprLimit := 0, SgprLimit := 0,
          maxVgprsAvailable := 256, maxSgprsAvailable := 102 } (fun _ => zeroIntf)
      = some (runEntryPointType (plainCtx 16 17 [bufferNode 4 0 0] [(0, 0)]) .Vertex
          (fun _ => zeroIntf) 0,
        { plainUsage [(0, 0)] with numVgprsAvailable := 64, numSgprsAvailable := 102 }) ∧
      ProcessShader ((plainCtx 16 17 [bufferNode 4 0 0] [(0, 0)]).withUsage .Vertex
          { plainUsage [(0, 0)] with numVgprsAvailable := 64, numSgprsAvailable := 102 })
        .Vertex
        { vgprLimit := 64, sgprLimit := 0, VgprLimit := 0, SgprLimit := 0,
          maxVgprsAvailable := 256, maxSgprsAvailable := 102 }
        (runEntryPointType (plainCtx 16 17 [bufferNode 4 0 0] [(0, 0)]) .Vertex
          (fun _ => zeroIntf) 0).intfData
      = some (runEntryPointType (plainCtx 16 17 [bufferNode 4 0 0] [(0, 0)]) .Vertex
          (fun _ => zeroIntf) 0,
        { plainUsage [(0, 0)] with numVgprsAvailable := 64, numSgprsAvailable := 102 }) := by
  have h : ProcessShader (plainCtx 16 17 [bufferNode 4 0 0] [(0, 0)]) .Vertex
        { vgprLimit := 64, sgprLimit := 0, VgprLimit := 0, SgprLimit := 0,
          maxVgprsAvailable := 256, maxSgprsAvailable := 102 } (fun _ => zeroIntf)
      = some (runEntryPointType (plainCtx 16 17 [bufferNode 4 0 0] [(0, 0)]) .Vertex
          (fun _ => zeroIntf) 0,
        { plainUsage [(0, 0)] with numVgprsAvailable := 64, numSgprsAvailable := 102 }) := by
    unfold ProcessShader
    rw [GenerateEntryPointType_of_ok _ _ _ _ (by decide)]
    rfl
  exact ⟨h, process_shader_idempotent _ _ _ _ _ _ h⟩

/-! ## Claim C14: the fixed layout places a node at its offset -/

/-- Claim C14, amended: in the fixed layout of the compute stage, in a run that returns,
with the packed nodes declared in increasing offset order without overlap, a
register-resident node of positive size whose offset plus `CsStartUserData` is a
`uint32_t` has its first user data slot at `CsStartUserData + offsetInDwords`; when it is
the first packed node, the arguments in front of it are the two leading arguments and
`offsetInDwords` dummy arguments. (`CsStartUserData = 2`, `MaxCsUserDataCount + 2` and
`MaxUserDataCount` are `uint32_t` values.) -/
theorem fixed_layout_at_offset (ctx : Context) (intfData : ShaderStage → InterfaceData)
    (inRegMask : Nat) (r : St)
    (hret : GenerateEntryPointType ctx .Compute intfData inRegMask = some r)
    (hMax : ctx.MaxUserDataCount < 4294967296) (hCs : ctx.CsStartUserData = 2)
    (hMaxCs : ctx.MaxCsUserDataCount + 2 < 4294967296)
    (hsorted : (packedNodes ctx .Compute).Pairwise
      (fun a b => a.offsetInDwords + a.sizeInDwords ≤ b.offsetInDwords))
    (i : Nat) (n : ResourceNode) (hn : ctx.userDataNodes[i]? = some n)
    (hres : registerResident ctx .Compute intfData inRegMask i = true)
    (hsize : 0 < n.sizeInDwords)
    (hoff : n.offsetInDwords + ctx.CsStartUserData < 4294967296) :
    firstSlot ctx .Compute intfData inRegMask i = ctx.CsStartUserData + n.offsetInDwords ∧
      ((∀ (j : Nat) (m : ResourceNode), j < i → ctx.userDataNodes[j]? = some m →
          isPacked ctx .Compute m = false) →
        (fitStateAt ctx .Compute intfData inRegMask i).argTys
          = [.Int32Ty, .Int32Ty] ++ List.replicate n.offsetInDwords ArgTy.Int32Ty) := by
  obtain ⟨_, hrun⟩ := GenerateEntryPointType_some ctx .Compute intfData inRegMask r hret
  have hok := afterPack_ok ctx .Compute intfData inRegMask hrun
  rw [hCs] at hoff
  have hslot := firstSlot_fixed ctx intfData inRegMask hok hMax hCs hMaxCs hsorted i n hn hres
    hsize hoff
  refine ⟨by rw [hslot, hCs, Nat.add_comm], fun hfirst => ?_⟩
  rw [fitStateAt_argTys_first ctx intfData inRegMask hok hMax i n hn hfirst]
  unfold firstSlot at hslot
  rw [hslot, Nat.add_sub_cancel]

/-- Claim C14 on the scenario of the specification: one active node of one dword at offset
5. The run returns, the node has its first user data slot at 7 and the argument index 7:
five dummy arguments stand between the two leading arguments and the node. -/
theorem fixed_layout_at_offset_witness :
    firstSlot (plainCtx 16 32 [bufferNode 1 5 0] [(0, 0)]) .Compute (fun _ => zeroIntf) 0 0
        = 7 ∧
      (runEntryPointType (plainCtx 16 32 [bufferNode 1 5 0] [(0, 0)]) .Compute
        (fun _ => zeroIntf) 0).argTys.take 8
        = [.Int32Ty, .Int32Ty, .Int32Ty, .Int32Ty, .Int32Ty, .Int32Ty, .Int32Ty,
          .VectorInt32 1] ∧
      ((runEntryPointType (plainCtx 16 32 [bufferNode 1 5 0] [(0, 0)]) .Compute
        (fun _ => zeroIntf) 0).intfData .Compute).entryArgIdxs.resNodeValues 0 = 7 :=
  ⟨(fixed_layout_at_offset (plainCtx 16 32 [bufferNode 1 5 0] [(0, 0)]) (fun _ => zeroIntf) 0
      (runEntryPointType (plainCtx 16 32 [bufferNode 1 5 0] [(0, 0)]) .Compute
        (fun _ => zeroIntf) 0)
      (GenerateEntryPointType_of_ok _ _ _ _ (by decide)) (by decide) (by decide) (by decide)
      (by decide) 0 (bufferNode 1 5 0) rfl (by decide) (by decide) (by decide)).1,
    by decide, by decide⟩

/-- Claim C14 fails as stated on two node lists in increasing offset order. A node of size
zero at offset 20, beyond the ten slots of the fixed layout, passes the test
`actualAvailUserDataCount + sizeInDwords <= availUserDataCount` behind the ten dummy
arguments and is register-resident with first slot 12, not `2 + 20`. A node of one dword at
offset `0xFFFFFFFF` gets no dummy argument, since `offsetInDwords + CsStartUserData` wraps
to 1, and has its first slot at 2. Both runs return. -/
theorem fixed_layout_at_offset_counterexample :
    ((GenerateEntryPointType
          (plainCtx 16 32 [bufferNode 0 20 0, bufferNode 5 21 1] [(0, 0), (0, 1)])
          .Compute (fun _ => zeroIntf) 0).isSome = true ∧
        registerResident
          (plainCtx 16 32 [bufferNode 0 20 0, bufferNode 5 21 1] [(0, 0), (0, 1)])
          .Compute (fun _ => zeroIntf) 0 0 = true ∧
        firstSlot (plainCtx 16 32 [bufferNode 0 20 0, bufferNode 5 21 1] [(0, 0), (0, 1)])
          .Compute (fun _ => zeroIntf) 0 0 = 12 ∧
        (plainCtx 16 32 [bufferNode 0 20 0, bufferNode 5 21 1]
          [(0, 0), (0, 1)]).CsStartUserData + (bufferNode 0 20 0).offsetInDwords = 22) ∧
      ((GenerateEntryPointType (plainCtx 16 32 [bufferNode 1 4294967295 0] [(0, 0)])
          .Compute (fun _ => zeroIntf) 0).isSome = true ∧
        registerResident (plainCtx 16 32 [bufferNode 1 4294967295 0] [(0, 0)])
          .Compute (fun _ => zeroIntf) 0 0 = true ∧
        firstSlot (plainCtx 16 32 [bufferNode 1 4294967295 0] [(0, 0)])
          .Compute (fun _ => zeroIntf) 0 0 = 2 ∧
        u32 ((plainCtx 16 32 [bufferNode 1 4294967295 0] [(0, 0)]).CsStartUserData
          + (bufferNode 1 4294967295 0).offsetInDwords) = 1) := by
  decide

/-! ## C15: the spill table of the fixed compute layout -/

/-- C15 (amended): in a run of `GenerateEntryPointType` for the compute stage that returns,
spilling is triggered whenever some node handled by the packing loop (an active node that is
neither an `IndirectUserDataVaPtr` nor a `StreamOutTableVaPtr` node) has an `offsetInDwords`
beyond `MaxCsUserDataCount` and its end `offsetInDwords + sizeInDwords` does not wrap around
as a `uint32_t`. When spilling is triggered, the user-data index of the spill table is
`CsStartUserData + MaxCsUserDataCount`, the spill table is the last argument of the list left
by the fixed layout (an `i32` added behind the arguments of the packing loop), and
`spillTable.sizeInDwords` is `requiredUserDataCount`, the maximum of the ends of the
nodes. -/
theorem compute_spill_at_end_of_fixed_range (ctx : Context)
    (intfData : ShaderStage → InterfaceData) (inRegMask : Nat) (r : St)
    (hret : GenerateEntryPointType ctx .Compute intfData inRegMask = some r)
    (hMax : ctx.MaxUserDataCount < 4294967296)
    (hB : ctx.MaxCsUserDataCount + ctx.CsStartUserData + 1 < 4294967296) :
    (∀ n ∈ packedNodes ctx .Compute, ctx.MaxCsUserDataCount < n.offsetInDwords →
        n.offsetInDwords + n.sizeInDwords < 4294967296 → r.needSpill = true) ∧
      (r.needSpill = true →
        (r.intfData .Compute).userDataUsage.spillTable
            = ctx.CsStartUserData + ctx.MaxCsUserDataCount ∧
          (r.intfData .Compute).entryArgIdxs.spillTable + 1
            = (fixedSpill ctx .Compute (afterPack ctx .Compute intfData inRegMask)).argTys.length ∧
          (fixedSpill ctx .Compute (afterPack ctx .Compute intfData inRegMask)).argTys.getLast?
            = some ArgTy.Int32Ty ∧
          (afterPack ctx .Compute intfData inRegMask).argTys.length
            < (fixedSpill ctx .Compute (afterPack ctx .Compute intfData inRegMask)).argTys.length ∧
          (r.intfData .Compute).spillTable.sizeInDwords = r.requiredUserDataCount ∧
          r.requiredUserDataCount = maxOfEnds (packedNodes ctx .Compute)) := by
  obtain ⟨hr, hok⟩ := GenerateEntryPointType_some ctx .Compute intfData inRegMask r hret
  subst hr
  have hns := run_needSpill ctx .Compute intfData inRegMask
  rw [if_pos rfl] at hns
  refine ⟨fun n hn hoff hnw => ?_, fun hs => ?_⟩
  · rw [hns]
    have h1 := endInDwords_le_maxOfEnds _ n hn
    have h2 : endInDwords n = n.offsetInDwords + n.sizeInDwords := by
      unfold endInDwords u32
      omega
    exact decide_eq_true (by omega)
  · have hokP := afterPack_ok ctx .Compute intfData inRegMask hok
    have hokF : (fixedSpill ctx .Compute (afterPack ctx .Compute intfData inRegMask)).ok
        = true := by
      unfold runEntryPointType afterUserData at hok
      exact systemValues_back _ _ _
        (greedySpill_back _ _ (specialUserData_back _ _ _ id)) hok
    have hd := (St.decided_eq_iff _ _).mp (afterPack_decided ctx .Compute intfData inRegMask)
    have hnsP : (afterPack ctx .Compute intfData inRegMask).needSpill = true := by
      rw [hd.2.2.2.2.2.2]
      exact hs
    have hokB : (beforePack ctx .Compute intfData inRegMask).ok = true := by
      have := packStateAt_ok ctx .Compute intfData inRegMask hokP 0
      rwa [packStateAt_zero] at this
    have hb := beforePack_args_fixed ctx intfData inRegMask hokB
    have hlen := packStateAt_argLen ctx .Compute intfData inRegMask hokP hMax
      (by rw [hb.1, hb.2]; rfl) ctx.userDataNodes.length
    rw [packStateAt_length] at hlen
    have hf := fixedSpill_facts ctx _ hnsP hokF hB hlen
    have hfr := afterFixed_spill_frame ctx
      (fixedSpill ctx .Compute (afterPack ctx .Compute intfData inRegMask))
    have hsz := run_spillSize ctx .Compute intfData inRegMask
    rw [if_pos hs] at hsz
    have hrq := run_required ctx .Compute intfData inRegMask
    refine ⟨?_, ?_, hf.2.2.1, hf.2.2.2, by rw [hsz, hrq], hrq⟩
    · show ((systemValues ctx .Compute (greedySpill .Compute (specialUserData ctx .Compute
        (fixedSpill ctx .Compute (afterPack ctx .Compute intfData inRegMask))))).intfData
          .Compute).userDataUsage.spillTable = _
      rw [hfr.1]
      exact hf.1
    · show ((systemValues ctx .Compute (greedySpill .Compute (specialUserData ctx .Compute
        (fixedSpill ctx .Compute (afterPack ctx .Compute intfData inRegMask))))).intfData
          .Compute).entryArgIdxs.spillTable + 1 = _
      rw [hfr.2]
      exact hf.2.1

theorem compute_spill_at_end_of_fixed_range_witness :
    (bufferNode 4 12 0 ∈ packedNodes (plainCtx 16 32 [bufferNode 4 12 0] [(0, 0)]) .Compute ∧
        10 < (bufferNode 4 12 0).offsetInDwords) ∧
      (runEntryPointType (plainCtx 16 32 [bufferNode 4 12 0] [(0, 0)]) .Compute
          (fun _ => { zeroIntf with spillTable.offsetInDwords := 0 }) 0).needSpill = true ∧
      ((runEntryPointType (plainCtx 16 32 [bufferNode 4 12 0] [(0, 0)]) .Compute
          (fun _ => { zeroIntf with spillTable.offsetInDwords := 0 }) 0).intfData
            .Compute).userDataUsage.spillTable = 12 ∧
      ((runEntryPointType (plainCtx 16 32 [bufferNode 4 12 0] [(0, 0)]) .Compute
          (fun _ => { zeroIntf with spillTable.offsetInDwords := 0 }) 0).intfData
            .Compute).entryArgIdxs.spillTable = 12 ∧
      ((runEntryPointType (plainCtx 16 32 [bufferNode 4 12 0] [(0, 0)]) .Compute
          (fun _ => { zeroIntf with spillTable.offsetInDwords := 0 }) 0).intfData
            .Compute).spillTable.sizeInDwords = 16 := by
  have h := compute_spill_at_end_of_fixed_range
    (plainCtx 16 32 [bufferNode 4 12 0] [(0, 0)])
    (fun _ => { zeroIntf with spillTable.offsetInDwords := 0 }) 0 _
    (GenerateEntryPointType_of_ok _ _ _ _ (by decide)) (by decide) (by decide)
  have hm : bufferNode 4 12 0
      ∈ packedNodes (plainCtx 16 32 [bufferNode 4 12 0] [(0, 0)]) .Compute :=
    List.mem_filter.mpr ⟨List.mem_cons_self _ _, by decide⟩
  have hs := h.1 (bufferNode 4 12 0) hm (by decide) (by decide)
  obtain ⟨h1, h2, _, _, h5, h6⟩ := h.2 hs
  refine ⟨⟨hm, by decide⟩, hs, h1, ?_, ?_⟩
  · have h7 : (fixedSpill (plainCtx 16 32 [bufferNode 4 12 0] [(0, 0)]) .Compute
        (afterPack (plainCtx 16 32 [bufferNode 4 12 0] [(0, 0)]) .Compute
          (fun _ => { zeroIntf with spillTable.offsetInDwords := 0 }) 0)).argTys.length
          = 13 := by decide
    omega
  · rw [h5, h6]
    decide

/-- C15 as stated fails on two compute inputs whose runs return without spilling. A node of
one dword at `offsetInDwords = 4294967295`, far beyond `MaxCsUserDataCount = 10`, has the
end `0` as a `uint32_t`. An `IndirectUserDataVaPtr` node at offset 20, which
`IsResourceNodeActive` reports active, is skipped by the loop that computes
`requiredUserDataCount`. -/
theorem compute_spill_at_end_of_fixed_range_counterexample :
    (bufferNode 1 4294967295 0
          ∈ packedNodes (plainCtx 16 32 [bufferNode 1 4294967295 0] [(0, 0)]) .Compute ∧
        (plainCtx 16 32 [bufferNode 1 4294967295 0] [(0, 0)]).MaxCsUserDataCount
          < (bufferNode 1 4294967295 0).offsetInDwords ∧
        (GenerateEntryPointType (plainCtx 16 32 [bufferNode 1 4294967295 0] [(0, 0)]) .Compute
            (fun _ => zeroIntf) 0).isSome = true ∧
        (runEntryPointType (plainCtx 16 32 [bufferNode 1 4294967295 0] [(0, 0)]) .Compute
            (fun _ => zeroIntf) 0).needSpill = false) ∧
      (IsResourceNodeActive (plainCtx 16 32 [.mk .IndirectUserDataVaPtr 1 20 0 0 []] [])
          .Compute (.mk .IndirectUserDataVaPtr 1 20 0 0 []) true = true ∧
        (plainCtx 16 32 [.mk .IndirectUserDataVaPtr 1 20 0 0 []] []).MaxCsUserDataCount
          < (ResourceNode.mk .IndirectUserDataVaPtr 1 20 0 0 []).offsetInDwords ∧
        (GenerateEntryPointType (plainCtx 16 32 [.mk .IndirectUserDataVaPtr 1 20 0 0 []] [])
            .Compute (fun _ => zeroIntf) 0).isSome = true ∧
        (runEntryPointType (plainCtx 16 32 [.mk .IndirectUserDataVaPtr 1 20 0 0 []] [])
            .Compute (fun _ => zeroIntf) 0).needSpill = false) :=
  ⟨⟨List.mem_filter.mpr ⟨List.mem_cons_self _ _, by decide⟩, by decide, by decide, by decide⟩,
    by decide⟩

/-! ## Claims C16 to C19: the activity of a node -/

/-- Claim C16: for a node of a concrete descriptor kind (not a push constant, a descriptor
table, an `IndirectUserDataVaPtr` or a `StreamOutTableVaPtr` node), `IsResourceNodeActive`
is true exactly when the pair (set, binding) is referenced by the current stage or, when
there is a second stage, by the second stage. With stage merging and tessellation present,
a pair referenced by the tessellation control stage makes the node active for the vertex
stage; without stage merging only the pairs of the current stage count. -/
theorem descriptor_node_active_iff (ctx : Context) (stage : ShaderStage) (n : ResourceNode)
    (isRootNode : Bool)
    (hd : n.type ≠ .PushConst ∧ n.type ≠ .DescriptorTableVaPtr ∧
      n.type ≠ .IndirectUserDataVaPtr ∧ n.type ≠ .StreamOutTableVaPtr) :
    (IsResourceNodeActive ctx stage n isRootNode = true ↔
        (n.set, n.binding) ∈ (ctx.resUsage stage).descPairs ∨
        ∃ s2, shaderStage2 ctx stage = some s2 ∧
          (n.set, n.binding) ∈ (ctx.resUsage s2).descPairs) ∧
      (ctx.gfxIpMajor ≥ 9 → hasTs ctx = true →
        (n.set, n.binding) ∈ (ctx.resUsage .TessControl).descPairs →
        IsResourceNodeActive ctx .Vertex n isRootNode = true) ∧
      (ctx.gfxIpMajor < 9 →
        (IsResourceNodeActive ctx stage n isRootNode = true ↔
          (n.set, n.binding) ∈ (ctx.resUsage stage).descPairs)) := by
  obtain ⟨h1, h2, h3, h4⟩ := hd
  have key : ∀ st : ShaderStage, (IsResourceNodeActive ctx st n isRootNode = true ↔
      (n.set, n.binding) ∈ (ctx.resUsage st).descPairs ∨
      ∃ s2, shaderStage2 ctx st = some s2 ∧
        (n.set, n.binding) ∈ (ctx.resUsage s2).descPairs) := by
    intro st
    cases n with
    | mk t sz off set bind inner =>
      simp only [ResourceNode.type] at h1 h2 h3 h4
      simp only [IsResourceNodeActive, ResourceNode.set, ResourceNode.binding]
      cases hs : shaderStage2 ctx st <;> simp [h1, h2, h3, h4]
  refine ⟨key stage, ?_, ?_⟩
  · intro h9 hts hmem
    rw [key .Vertex]
    right
    refine ⟨.TessControl, ?_, hmem⟩
    simp [shaderStage2, h9, hts]
  · intro h8
    rw [key stage]
    have : shaderStage2 ctx stage = none := by
      simp [shaderStage2, Nat.not_le.mpr h8]
    simp [this]

/-- Claim C16 on the two scenarios: a buffer descriptor referenced only by the tessellation
control stage is active for the vertex stage on GFX9 with vertex and tessellation control
present, and not active for it on GFX8. -/
theorem descriptor_node_active_iff_witness :
    IsResourceNodeActive
        { plainCtx 16 19 [bufferNode 4 0 0] [] with
          gfxIpMajor := 9,
          resUsage := fun s => if s = .TessControl then plainUsage [(0, 0)] else plainUsage [] }
        .Vertex (bufferNode 4 0 0) true = true ∧
      IsResourceNodeActive
        { plainCtx 16 19 [bufferNode 4 0 0] [] with
          resUsage := fun s => if s = .TessControl then plainUsage [(0, 0)] else plainUsage [] }
        .Vertex (bufferNode 4 0 0) true = false :=
  ⟨(descriptor_node_active_iff
      { plainCtx 16 19 [bufferNode 4 0 0] [] with
        gfxIpMajor := 9,
        resUsage := fun s => if s = .TessControl then plainUsage [(0, 0)] else plainUsage [] }
      .Vertex (bufferNode 4 0 0) true (by decide)).2.1 (by decide) (by decide) (by decide),
    by decide⟩

/-- Claim C17: for a push constant node at root level, `IsResourceNodeActive` is true
exactly when the size of the push constants of the current stage is not zero or there is a
second stage whose size of the push constants is not zero. -/
theorem push_const_node_active_iff (ctx : Context) (stage : ShaderStage) (n : ResourceNode)
    (hp : n.type = .PushConst) :
    IsResourceNodeActive ctx stage n true = true ↔
      (ctx.resUsage stage).pushConstSizeInBytes ≠ 0 ∨
      ∃ s2, shaderStage2 ctx stage = some s2 ∧
        (ctx.resUsage s2).pushConstSizeInBytes ≠ 0 := by
  cases n with
  | mk t sz off set bind inner =>
    simp only [ResourceNode.type] at hp
    subst hp
    simp only [IsResourceNodeActive]
    cases hs : shaderStage2 ctx stage <;> simp [Nat.pos_iff_ne_zero]

/-- Claim C17 on an example: on GFX9 with vertex and tessellation control present, push
constants used only by the tessellation control stage make the root node active for the
vertex stage. -/
theorem push_const_node_active_iff_witness :
    IsResourceNodeActive
        { plainCtx 16 19 [] [] with
          gfxIpMajor := 9,
          resUsage := fun s =>
            if s = .TessControl then { plainUsage [] with pushConstSizeInBytes := 16 }
            else plainUsage [] }
        .Vertex (.mk .PushConst 4 0 0 0 []) true = true :=
  (push_const_node_active_iff
    { plainCtx 16 19 [] [] with
      gfxIpMajor := 9,
      resUsage := fun s =>
        if s = .TessControl then { plainUsage [] with pushConstSizeInBytes := 16 }
        else plainUsage [] }
    .Vertex (.mk .PushConst 4 0 0 0 []) rfl).mpr
    (Or.inr ⟨.TessControl, by decide, by decide⟩)

/-- Claim C18: for a descriptor table node, `IsResourceNodeActive` is true exactly when one
of the nodes of its inner table is active as a non-root node; a table without inner nodes
is not active. The function is defined by recursion on the node tree, so it returns on
every node. -/
theorem table_node_active_iff (ctx : Context) (stage : ShaderStage) (n : ResourceNode)
    (isRootNode : Bool) (ht : n.type = .DescriptorTableVaPtr) :
    (IsResourceNodeActive ctx stage n isRootNode = true ↔
        ∃ c ∈ n.innerTable, IsResourceNodeActive ctx stage c false = true) ∧
      (n.innerTable = [] → IsResourceNodeActive ctx stage n isRootNode = false) := by
  cases n with
  | mk t sz off set bind inner =>
    simp only [ResourceNode.type] at ht
    subst ht
    have h : IsResourceNodeActive ctx stage
        (.mk .DescriptorTableVaPtr sz off set bind inner) isRootNode
        = anyInnerActive ctx stage inner := by
      simp [IsResourceNodeActive]
    simp only [ResourceNode.innerTable]
    rw [h]
    refine ⟨anyInnerActive_iff ctx stage inner, ?_⟩
    intro he
    subst he
    rfl

/-- Claim C18 on an example: a table inside a table is active through the one referenced
descriptor two levels down, and a table whose descriptors are not referenced is not. -/
theorem table_node_active_iff_witness :
    (IsResourceNodeActive (plainCtx 16 17 [] [(0, 3)]) .Vertex
        (.mk .DescriptorTableVaPtr 1 0 0 0
          [bufferNode 4 0 1, .mk .DescriptorTableVaPtr 1 4 0 0 [bufferNode 4 0 3]]) true = true ↔
      ∃ c ∈ (ResourceNode.mk .DescriptorTableVaPtr 1 0 0 0
          [bufferNode 4 0 1, .mk .DescriptorTableVaPtr 1 4 0 0 [bufferNode 4 0 3]]).innerTable,
        IsResourceNodeActive (plainCtx 16 17 [] [(0, 3)]) .Vertex c false = true) ∧
      IsResourceNodeActive (plainCtx 16 17 [] [(0, 3)]) .Vertex
        (.mk .DescriptorTableVaPtr 1 0 0 0
          [bufferNode 4 0 1, .mk .DescriptorTableVaPtr 1 4 0 0 [bufferNode 4 0 3]]) true = true ∧
      IsResourceNodeActive (plainCtx 16 17 [] [(0, 3)]) .Vertex
        (.mk .DescriptorTableVaPtr 1 0 0 0 [bufferNode 4 0 1]) true = false :=
  ⟨(table_node_active_iff (plainCtx 16 17 [] [(0, 3)]) .Vertex
      (.mk .DescriptorTableVaPtr 1 0 0 0
        [bufferNode 4 0 1, .mk .DescriptorTableVaPtr 1 4 0 0 [bufferNode 4 0 3]]) true rfl).1,
    by decide, by decide⟩

/-- Claim C19: the second stage that `IsResourceNodeActive` determines is the companion
stage of the specification, for "the generation merges stages" read as `gfxIp.major >= 9`
and the presence of tessellation and geometry read from the stage mask. -/
theorem companion_stage_resolution (ctx : Context) (stage : ShaderStage) :
    shaderStage2 ctx stage
      = companionStage (decide (ctx.gfxIpMajor ≥ 9)) (hasTs ctx) (hasGs ctx) stage := by
  unfold shaderStage2 companionStage
  by_cases h9 : ctx.gfxIpMajor ≥ 9 <;> cases hasTs ctx <;> cases hasGs ctx <;>
    cases stage <;> simp [h9]

/-! ## Claim C20: reservations of the geometry stage -/

/-- Claim C20 at a failing input: on GFX9 with vertex, geometry and fragment stages and the
nodes "vertex buffer table, stream-out table, buffer of two dwords", four user data
registers. For the geometry stage both reservations are computed (`reserveVbTable`,
`reserveStreamOutTable`), yet the slot budget is `4 - 2 = 2`: the `ShaderStageGeometry`
case of the first `switch` subtracts nothing for them, while the vertex stage of the same
pipeline gets the budget `4 - 2 - 1 - 1 = 0`. The run of the geometry stage returns with
the stream-out register and the buffer allocated: `userDataCount` is 5, above the four
registers. -/
theorem geometry_reservation_not_subtracted :
    (afterReserve
        { plainCtx 4 25
            [.mk .IndirectUserDataVaPtr 1 0 0 0 [], .mk .StreamOutTableVaPtr 1 1 0 0 [],
              bufferNode 2 2 0] [(0, 0)] with gfxIpMajor := 9 }
        .Geometry (fun _ => zeroIntf) 0).reserveVbTable = true ∧
      (afterReserve
        { plainCtx 4 25
            [.mk .IndirectUserDataVaPtr 1 0 0 0 [], .mk .StreamOutTableVaPtr 1 1 0 0 [],
              bufferNode 2 2 0] [(0, 0)] with gfxIpMajor := 9 }
        .Geometry (fun _ => zeroIntf) 0).reserveStreamOutTable = true ∧
      slotBudget
        { plainCtx 4 25
            [.mk .IndirectUserDataVaPtr 1 0 0 0 [], .mk .StreamOutTableVaPtr 1 1 0 0 [],
              bufferNode 2 2 0] [(0, 0)] with gfxIpMajor := 9 }
        .Geometry (fun _ => zeroIntf) 0 = 2 ∧
      slotBudget
        { plainCtx 4 25
            [.mk .IndirectUserDataVaPtr 1 0 0 0 [], .mk .StreamOutTableVaPtr 1 1 0 0 [],
              bufferNode 2 2 0] [(0, 0)] with gfxIpMajor := 9 }
        .Vertex (fun _ => zeroIntf) 0 = 0 ∧
      (GenerateEntryPointType
        { plainCtx 4 25
            [.mk .IndirectUserDataVaPtr 1 0 0 0 [], .mk .StreamOutTableVaPtr 1 1 0 0 [],
              bufferNode 2 2 0] [(0, 0)] with gfxIpMajor := 9 }
        .Geometry (fun _ => zeroIntf) 0).isSome = true ∧
      (runEntryPointType
        { plainCtx 4 25
            [.mk .IndirectUserDataVaPtr 1 0 0 0 [], .mk .StreamOutTableVaPtr 1 1 0 0 [],
              bufferNode 2 2 0] [(0, 0)] with gfxIpMajor := 9 }
        .Geometry (fun _ => zeroIntf) 0).needSpill = false ∧
      ((runEntryPointType
        { plainCtx 4 25
            [.mk .IndirectUserDataVaPtr 1 0 0 0 [], .mk .StreamOutTableVaPtr 1 1 0 0 [],
              bufferNode 2 2 0] [(0, 0)] with gfxIpMajor := 9 }
        .Geometry (fun _ => zeroIntf) 0).intfData .Geometry).userDataCount = 5 := by
  decide

/-! ## The register limits of `ProcessShader` -/

theorem ResourceUsage.ite_numVgprs (c : Prop) [Decidable c] (a b : ResourceUsage) :
    (if c then a else b).numVgprsAvailable
      = if c then a.numVgprsAvailable else b.numVgprsAvailable := by
  split_ifs <;> rfl

theorem ResourceUsage.ite_numSgprs (c : Prop) [Decidable c] (a b : ResourceUsage) :
    (if c then a else b).numSgprsAvailable
      = if c then a.numSgprsAvailable else b.numSgprsAvailable := by
  split_ifs <;> rfl

theorem setLimits_numVgprsAvailable (o : ShaderLimits) (u : ResourceUsage) :
    (setLimits o u).numVgprsAvailable
      = if (if o.vgprLimit ≠ 0 ∧ o.vgprLimit ≠ 4294967295 then o.vgprLimit
            else o.VgprLimit) = 0
        then min u.numVgprsAvailable o.maxVgprsAvailable
        else min (min u.numVgprsAvailable
            (if o.vgprLimit ≠ 0 ∧ o.vgprLimit ≠ 4294967295 then o.vgprLimit else o.VgprLimit))
          o.maxVgprsAvailable := by
  unfold setLimits
  simp only [ResourceUsage.ite_numVgprs, ResourceUsage.ite_numSgprs]
  by_cases h1 : o.vgprLimit ≠ 0 ∧ o.vgprLimit ≠ 4294967295
  · simp only [if_pos h1, if_neg h1.1, if_pos h1.1, Nat.min_comm, ite_self]
  · by_cases h2 : o.VgprLimit = 0
    · simp only [if_neg h1, h2, ne_eq, not_true_eq_false, if_false, if_true, ite_self]
    · simp only [if_neg h1, if_pos h2, if_neg h2, ne_eq, not_false_eq_true, if_true,
        Nat.min_comm, ite_self]

theorem setLimits_numSgprsAvailable (o : ShaderLimits) (u : ResourceUsage) :
    (setLimits o u).numSgprsAvailable
      = if (if o.sgprLimit ≠ 0 ∧ o.sgprLimit ≠ 4294967295 then o.sgprLimit
            else o.SgprLimit) = 0
        then min u.numSgprsAvailable o.maxSgprsAvailable
        else min (min u.numSgprsAvailable
            (if o.sgprLimit ≠ 0 ∧ o.sgprLimit ≠ 4294967295 then o.sgprLimit else o.SgprLimit))
          o.maxSgprsAvailable := by
  unfold setLimits
  simp only [ResourceUsage.ite_numVgprs, ResourceUsage.ite_numSgprs]
  by_cases h1 : o.sgprLimit ≠ 0 ∧ o.sgprLimit ≠ 4294967295
  · simp only [if_pos h1, if_neg h1.1, if_pos h1.1, Nat.min_comm, ite_self]
  · by_cases h2 : o.SgprLimit = 0
    · simp only [if_neg h1, h2, ne_eq, not_true_eq_false, if_false, if_true, ite_self]
    · simp only [if_neg h1, if_pos h2, if_neg h2, ne_eq, not_false_eq_true, if_true,
        Nat.min_comm, ite_self]

/-! ## Where the run reaches `LLPC_NEVER_CALLED()` -/

theorem scanNode_neverCalled (ctx : Context) (stage : ShaderStage) (i : Nat)
    (n : ResourceNode) (s : St) :
    (scanNode ctx stage i n s).neverCalled = s.neverCalled := by
  unfold scanNode
  dsimp only
  split_ifs <;> simp

theorem afterScan_neverCalled (ctx : Context) (stage : ShaderStage)
    (intfData : ShaderStage → InterfaceData) (inRegMask : Nat) :
    (afterScan ctx stage intfData inRegMask).neverCalled = false := by
  unfold afterScan scanNodes
  rw [forNodes_frame St.neverCalled _ (fun _ _ _ => scanNode_neverCalled ..)]
  simp [initState]

theorem reserveSpecial_neverCalled (ctx : Context) (stage : ShaderStage) (s : St) :
    (reserveSpecial ctx stage s).neverCalled = s.neverCalled := by
  cases stage <;> simp [reserveSpecial]

theorem decideSpill_neverCalled (ctx : Context) (stage : ShaderStage) (s : St) :
    (decideSpill ctx stage s).neverCalled = s.neverCalled := by
  unfold decideSpill
  split <;> simp

theorem decideSpill_reserveStreamOutTable (ctx : Context) (stage : ShaderStage) (s : St) :
    (decideSpill ctx stage s).reserveStreamOutTable = s.reserveStreamOutTable := by
  unfold decideSpill
  split <;> simp

theorem allocStreamOutNode_neverCalled (stage : ShaderStage) (n : ResourceNode) (s : St) :
    (allocStreamOutNode stage n s).neverCalled
      = (s.neverCalled
        || decide (stage = .TessControl ∨ stage = .Fragment ∨ stage = .Compute)) := by
  cases stage <;> simp [allocStreamOutNode]

theorem firstNodeOfType_some (ty : ResourceMappingNodeType) (body : ResourceNode → St → St)
    (l : List ResourceNode) (s : St) (h : ∃ n ∈ l, n.type = ty) :
    ∃ n ∈ l, n.type = ty ∧ firstNodeOfType ty body l s = body n s := by
  induction l with
  | nil =>
    obtain ⟨n, hn, _⟩ := h
    cases hn
  | cons m l ih =>
    simp only [firstNodeOfType]
    by_cases hm : m.type = ty
    · exact ⟨m, List.mem_cons_self _ _, hm, by rw [if_pos hm]⟩
    · rw [if_neg hm]
      obtain ⟨n, hn, hty⟩ := h
      rcases List.mem_cons.mp hn with rfl | hn'
      · exact absurd hty hm
      · obtain ⟨k, hk, hkt, hke⟩ := ih ⟨n, hn', hty⟩
        exact ⟨k, List.mem_cons_of_mem _ hk, hkt, hke⟩

/-- The block that allocates the stream-out register reaches `LLPC_NEVER_CALLED()` exactly
when the reservation is computed, the node list holds a stream-out table node, and the
stage is none of vertex, tessellation evaluation and geometry. -/
theorem beforePack_neverCalled (ctx : Context) (stage : ShaderStage)
    (intfData : ShaderStage → InterfaceData) (inRegMask : Nat) :
    (beforePack ctx stage intfData inRegMask).neverCalled = true ↔
      ((afterReserve ctx stage intfData inRegMask).reserveStreamOutTable = true ∧
        (∃ n ∈ ctx.userDataNodes, n.type = .StreamOutTableVaPtr) ∧
        (stage = .TessControl ∨ stage = .Fragment ∨ stage = .Compute)) := by
  have h0 : (decideSpill ctx stage (afterReserve ctx stage intfData inRegMask)).neverCalled
      = false := by
    rw [decideSpill_neverCalled]
    unfold afterReserve
    rw [reserveSpecial_neverCalled, afterScan_neverCalled]
  unfold beforePack allocStreamOut
  rw [decideSpill_reserveStreamOutTable]
  by_cases hr : (afterReserve ctx stage intfData inRegMask).reserveStreamOutTable = true
  · rw [if_pos hr]
    by_cases hex : ∃ n ∈ ctx.userDataNodes, n.type = .StreamOutTableVaPtr
    · obtain ⟨n, _, _, he⟩ := firstNodeOfType_some .StreamOutTableVaPtr
        (allocStreamOutNode stage) ctx.userDataNodes
        (decideSpill ctx stage (afterReserve ctx stage intfData inRegMask)) hex
      rw [he, allocStreamOutNode_neverCalled, h0]
      simp [hr, hex]
    · rw [firstNodeOfType_none _ _ _ _ (fun n hn hty => hex ⟨n, hn, hty⟩), h0]
      simp [hex]
  · rw [if_neg hr, h0]
    simp [hr]

theorem fillDummies_neverCalled (ctx : Context) (off fuel : Nat) (s : St) :
    (fillDummies ctx off fuel s).neverCalled = s.neverCalled :=
  fillDummies_frame St.neverCalled ctx off (fun s => by simp) fuel s

theorem padNode_neverCalled (ctx : Context) (stage : ShaderStage) (n : ResourceNode)
    (s : St) : (padNode ctx stage n s).neverCalled = s.neverCalled := by
  unfold padNode
  split
  · exact fillDummies_neverCalled ..
  · rfl

/-- The branch "User data isn't spilled" reaches the default case of its `switch` exactly
for a node kind that the `switch` does not list. -/
theorem assignNode_neverCalled (ctx : Context) (stage : ShaderStage) (i : Nat)
    (n : ResourceNode) (s : St) :
    (assignNode ctx stage i n s).neverCalled
      = (s.neverCalled
        || decide (n.type = .DescriptorCombinedTexture ∨ n.type = .IndirectUserDataVaPtr
          ∨ n.type = .StreamOutTableVaPtr)) := by
  unfold assignNode
  cases ht : n.type <;> simp

theorem packStateAt_neverCalled_succ (ctx : Context) (stage : ShaderStage)
    (intfData : ShaderStage → InterfaceData) (inRegMask : Nat) (i : Nat) (n : ResourceNode)
    (hn : ctx.userDataNodes[i]? = some n) :
    (packStateAt ctx stage intfData inRegMask (i + 1)).neverCalled
      = ((packStateAt ctx stage intfData inRegMask i).neverCalled
        || (registerResident ctx stage intfData inRegMask i
          && decide (n.type = .DescriptorCombinedTexture))) := by
  have hf := fitStateAt_eq ctx stage intfData inRegMask i n hn
  have hfn : (fitStateAt ctx stage intfData inRegMask i).neverCalled
      = (packStateAt ctx stage intfData inRegMask i).neverCalled := by
    rw [hf, padNode_neverCalled]
  rcases packStateAt_succ_cases ctx stage intfData inRegMask i n hn with
    ⟨hp, he⟩ | ⟨hp, hr, he⟩ | ⟨hp, hr, he⟩
  · rw [he, registerResident_eq ctx stage intfData inRegMask i n hn, hp]
    simp
  · obtain ⟨h1, h2, _⟩ := (isPacked_eq_true_iff ctx stage n).mp hp
    rw [he, assignNode_neverCalled, hfn, hr]
    simp [h1, h2]
  · rw [he, hr]
    split
    · simp [hfn]
    · simp [hfn]

theorem packStateAt_neverCalled (ctx : Context) (stage : ShaderStage)
    (intfData : ShaderStage → InterfaceData) (inRegMask : Nat) (k : Nat) :
    (packStateAt ctx stage intfData inRegMask k).neverCalled = true ↔
      ((beforePack ctx stage intfData inRegMask).neverCalled = true ∨
        ∃ i n, i < k ∧ ctx.userDataNodes[i]? = some n ∧
          registerResident ctx stage intfData inRegMask i = true ∧
          n.type = .DescriptorCombinedTexture) := by
  induction k with
  | zero =>
    rw [packStateAt_zero]
    constructor
    · exact Or.inl
    · rintro (h | ⟨i, _, hi, _⟩)
      · exact h
      · omega
  | succ k ih =>
    cases hn : ctx.userDataNodes[k]? with
    | none =>
      rw [packStateAt_succ_of_none ctx stage intfData inRegMask k hn, ih]
      constructor
      · rintro (h | ⟨i, n, hi, h⟩)
        · exact Or.inl h
        · exact Or.inr ⟨i, n, by omega, h⟩
      · rintro (h | ⟨i, n, hi, hin, h⟩)
        · exact Or.inl h
        · rcases Nat.lt_or_ge i k with hlt | hge
          · exact Or.inr ⟨i, n, hlt, hin, h⟩
          · have : i = k := by omega
            subst this
            rw [hn] at hin
            cases hin
    | some m =>
      rw [packStateAt_neverCalled_succ ctx stage intfData inRegMask k m hn, Bool.or_eq_true,
        ih, Bool.and_eq_true, decide_eq_true_eq]
      constructor
      · rintro ((h | ⟨i, n, hi, h⟩) | ⟨hr, ht⟩)
        · exact Or.inl h
        · exact Or.inr ⟨i, n, by omega, h⟩
        · exact Or.inr ⟨k, m, by omega, hn, hr, ht⟩
      · rintro (h | ⟨i, n, hi, hin, hr, ht⟩)
        · exact Or.inl (Or.inl h)
        · rcases Nat.lt_or_ge i k with hlt | hge
          · exact Or.inl (Or.inr ⟨i, n, hlt, hin, hr, ht⟩)
          · have : i = k := by omega
            subst this
            rw [hn] at hin
            cases hin
            exact Or.inr ⟨hr, ht⟩

theorem fillToSpill_neverCalled (ctx : Context) (fuel : Nat) (s : St) :
    (fillToSpill ctx fuel s).neverCalled = s.neverCalled :=
  fillToSpill_frame St.neverCalled ctx (fun s => by simp) fuel s

theorem fixedSpill_neverCalled (ctx : Context) (stage : ShaderStage) (s : St) :
    (fixedSpill ctx stage s).neverCalled = s.neverCalled := by
  unfold fixedSpill
  split
  · simp [fillToSpill_neverCalled]
  · rfl

theorem vbTableNode_neverCalled (cur : ShaderStage) (n : ResourceNode) (s : St) :
    (vbTableNode cur n s).neverCalled = s.neverCalled := by
  simp [vbTableNode]

theorem specialUserData_neverCalled (ctx : Context) (stage : ShaderStage) (s : St) :
    (specialUserData ctx stage s).neverCalled = s.neverCalled := by
  have hv : ∀ cur l t,
      (firstNodeOfType .IndirectUserDataVaPtr (vbTableNode cur) l t).neverCalled
        = t.neverCalled :=
    fun cur l t => firstNodeOfType_frame St.neverCalled _ _ (vbTableNode_neverCalled cur) l t
  cases stage <;> simp [specialUserData, hv]

theorem greedySpill_neverCalled (stage : ShaderStage) (s : St) :
    (greedySpill stage s).neverCalled = s.neverCalled := by
  simp [greedySpill]

theorem streamOffsetArgs_neverCalled (stage : ShaderStage)
    (record : Nat → Nat → InterfaceData → InterfaceData) (i : Nat) (l : List Nat) (s : St) :
    (streamOffsetArgs stage record i l s).neverCalled = s.neverCalled :=
  streamOffsetArgs_frame St.neverCalled stage record (fun _ s => by simp) i l s

theorem systemValues_neverCalled (ctx : Context) (stage : ShaderStage) (s : St) :
    (systemValues ctx stage s).neverCalled = s.neverCalled := by
  cases stage <;>
    simp only [systemValues, systemValuesVs, systemValuesTcs, systemValuesTes, systemValuesGs,
      systemValuesFs, systemValuesCs] <;> (try split_ifs) <;>
    simp [St.sgprArg_eq, St.vgprArg_eq, streamOffsetArgs_neverCalled]

/-- The run reaches `LLPC_NEVER_CALLED()` in two places only: the block that allocates the
stream-out register, for a stage other than vertex, tessellation evaluation and geometry,
and the default case of the packing `switch`, for a register-resident node of the kind
`DescriptorCombinedTexture`. -/
theorem run_neverCalled (ctx : Context) (stage : ShaderStage)
    (intfData : ShaderStage → InterfaceData) (inRegMask : Nat) :
    (runEntryPointType ctx stage intfData inRegMask).neverCalled = true ↔
      (((afterReserve ctx stage intfData inRegMask).reserveStreamOutTable = true ∧
          (∃ n ∈ ctx.userDataNodes, n.type = .StreamOutTableVaPtr) ∧
          (stage = .TessControl ∨ stage = .Fragment ∨ stage = .Compute)) ∨
        ∃ i n, ctx.userDataNodes[i]? = some n ∧
          registerResident ctx stage intfData inRegMask i = true ∧
          n.type = .DescriptorCombinedTexture) := by
  unfold runEntryPointType afterUserData
  rw [systemValues_neverCalled, greedySpill_neverCalled, specialUserData_neverCalled,
    fixedSpill_neverCalled]
  have hp : afterPack ctx stage intfData inRegMask
      = packStateAt ctx stage intfData inRegMask ctx.userDataNodes.length := by
    unfold afterPack packNodes packStateAt
    rw [List.take_length]
  rw [hp, packStateAt_neverCalled, beforePack_neverCalled]
  constructor
  · rintro (h | ⟨i, n, _, h⟩)
    · exact Or.inl h
    · exact Or.inr ⟨i, n, h⟩
  · rintro (h | ⟨i, n, hin, h⟩)
    · exact Or.inl h
    · refine Or.inr ⟨i, n, ?_, hin, h⟩
      rcases Nat.lt_or_ge i ctx.userDataNodes.length with hlt | hge
      · exact hlt
      · rw [List.getElem?_eq_none hge] at hin
        cases hin

/-! ## Argument indices behind a primitive statement -/

theorem Stamped.stamp_refl (G : Loc → Bool) (v : Nat) (s : St) : Stamped G 0 v s s :=
  ⟨List.prefix_refl _, id, fun _ h1 h2 =>
    ⟨Nat.le_refl _, h1, by omega, fun h => h, fun _ _ _ => Or.inl rfl⟩⟩

/-- One step behind a state that is related to the start: the step extends the argument
types, keeps a failure flag set, and stamps only locations of the group with the index of
an argument. -/
theorem Stamped.of_step {G : Loc → Bool} {k k' v v' : Nat} {s0 s s' : St}
    (h : Stamped G k v s0 s)
    (hpre : s.argTys <+: s'.argTys)
    (hok : s'.ok = true → s.ok = true)
    (harg : s'.ok = true → s.argIdx + k = s.argTys.length → s.argIdx ≤ 64 + v →
      s.argIdx ≤ s'.argIdx ∧ s'.argIdx + k' = s'.argTys.length ∧ s'.argIdx ≤ 64 + v')
    (hmask : s'.ok = true → s.argIdx + k = s.argTys.length → s.argIdx ≤ 64 + v →
      s.inRegMask < 2 ^ (s.argIdx + k) → s'.inRegMask < 2 ^ (s'.argIdx + k'))
    (hloc : s'.ok = true → ∀ (u : ShaderStage) (l : Loc), l.isArgIdx = true →
      l.read (s'.intfData u) = l.read (s.intfData u) ∨
        (G l = true ∧ s.argIdx ≤ l.read (s'.intfData u) ∧
          l.read (s'.intfData u) < s'.argIdx + k')) :
    Stamped G k' v' s0 s' := by
  obtain ⟨p1, p2, p3⟩ := h
  refine ⟨p1.trans hpre, fun h' => p2 (hok h'), fun h' e0 c0 => ?_⟩
  obtain ⟨q1, q2, q3, q4, q5⟩ := p3 (hok h') e0 c0
  obtain ⟨a1, a2, a3⟩ := harg h' q2 q3
  have hlen := hpre.length_le
  refine ⟨Nat.le_trans q1 a1, a2, a3, fun hm => hmask h' q2 q3 (q4 hm), fun u l hl => ?_⟩
  rcases hloc h' u l hl with e | ⟨g, b1, b2⟩
  · rcases q5 u l hl with e' | ⟨g, b1, b2⟩
    · exact Or.inl (e.trans e')
    · refine Or.inr ⟨g, ?_, ?_⟩
      · rw [e]
        exact b1
      · rw [e]
        omega
  · exact Or.inr ⟨g, Nat.le_trans q1 b1, b2⟩

/-- A statement that leaves the argument types, `argIdx`, the mask and the interface data
as they are. -/
theorem Stamped.stamp_of_same {G : Loc → Bool} {k v : Nat} {s0 s : St} (p : St → St)
    (h1 : (p s).argTys = s.argTys) (h2 : (p s).argIdx = s.argIdx)
    (h3 : (p s).inRegMask = s.inRegMask) (h4 : (p s).intfData = s.intfData)
    (h5 : (p s).ok = true → s.ok = true) (h : Stamped G k v s0 s) :
    Stamped G k v s0 (p s) :=
  Stamped.of_step h (by rw [h1]) h5
    (fun _ e c => by rw [h1, h2]; exact ⟨Nat.le_refl _, e, c⟩)
    (fun _ _ _ hm => by rw [h2, h3]; exact hm)
    (fun _ u l _ => by rw [h4]; exact Or.inl rfl)

theorem Stamped.stamp_mono {G : Loc → Bool} {k v v' : Nat} {s0 s : St} (hv : v ≤ v')
    (h : Stamped G k v s0 s) : Stamped G k v' s0 s :=
  Stamped.of_step h (List.prefix_refl _) id
    (fun _ e c => ⟨Nat.le_refl _, e, by omega⟩) (fun _ _ _ hm => hm)
    (fun _ _ _ _ => Or.inl rfl)

theorem Stamped.group {G G' : Loc → Bool} {k v : Nat} {s0 s : St}
    (hG : ∀ l, G l = true → G' l = true) (h : Stamped G k v s0 s) : Stamped G' k v s0 s := by
  obtain ⟨p1, p2, p3⟩ := h
  refine ⟨p1, p2, fun h' e0 c0 => ?_⟩
  obtain ⟨q1, q2, q3, q4, q5⟩ := p3 h' e0 c0
  refine ⟨q1, q2, q3, q4, fun u l hl => ?_⟩
  rcases q5 u l hl with e | ⟨g, b⟩
  · exact Or.inl e
  · exact Or.inr ⟨hG l g, b⟩

theorem Stamped.stamp_push {G : Loc → Bool} {k v : Nat} {s0 s : St} (ty : ArgTy)
    (h : Stamped G k v s0 s) : Stamped G (k + 1) v s0 (s.push ty) :=
  Stamped.of_step h (by simp) (by simp)
    (fun _ e c => by simp only [St.push_argIdx, St.push_argTys, List.length_append,
      List.length_singleton]; omega)
    (fun _ _ _ hm => by
      simp only [St.push_argIdx, St.push_inRegMask]
      exact Nat.lt_of_lt_of_le hm (Nat.pow_le_pow_right (by decide) (by omega)))
    (fun _ u l _ => by simp)

theorem Stamped.stamp_inReg {G : Loc → Bool} {k v : Nat} {s0 s : St}
    (h : Stamped G (k + 1) v s0 s) : Stamped G (k + 1) v s0 s.inReg :=
  Stamped.of_step h (by simp) (by simp only [St.inReg_ok, Bool.and_eq_true]; exact fun h => h.1)
    (fun _ e c => by simp only [St.inReg_argIdx, St.inReg_argTys]; omega)
    (fun hok _ _ hm => by
      simp only [St.inReg_ok, Bool.and_eq_true, decide_eq_true_eq] at hok
      simp only [St.inReg_argIdx, St.inReg_inRegMask]
      have hb : bit64 s.argIdx = 2 ^ s.argIdx := by
        unfold bit64
        exact Nat.mod_eq_of_lt (Nat.pow_lt_pow_right (by decide) hok.2)
      rw [hb]
      exact Nat.or_lt_two_pow hm (Nat.pow_lt_pow_right (by decide) (by omega)))
    (fun _ u l _ => by simp)

theorem Stamped.stamp_inRegNext {G : Loc → Bool} {k v : Nat} {s0 s : St}
    (h : Stamped G (k + 1) v s0 s) : Stamped G k v s0 s.inRegNext :=
  Stamped.of_step h (by simp)
    (by simp only [St.inRegNext_ok, Bool.and_eq_true]; exact fun h => h.1)
    (fun hok e c => by
      simp only [St.inRegNext_ok, Bool.and_eq_true, decide_eq_true_eq] at hok
      simp only [St.inRegNext_argIdx, St.inRegNext_argTys, u32]
      omega)
    (fun hok _ _ hm => by
      simp only [St.inRegNext_ok, Bool.and_eq_true, decide_eq_true_eq] at hok
      simp only [St.inRegNext_argIdx, St.inRegNext_inRegMask, u32]
      have hb : bit64 s.argIdx = 2 ^ s.argIdx := by
        unfold bit64
        exact Nat.mod_eq_of_lt (Nat.pow_lt_pow_right (by decide) hok.2)
      have e1 : (s.argIdx + 1) % 4294967296 + k = s.argIdx + (k + 1) := by omega
      rw [hb, e1]
      exact Nat.or_lt_two_pow hm (Nat.pow_lt_pow_right (by decide) (by omega)))
    (fun _ u l _ => by simp)

/-- Statement `argIdx++` for an argument that is not marked "inreg". -/
theorem Stamped.stamp_argNext {G : Loc → Bool} {k v : Nat} {s0 s : St} (hv : v ≤ 1000)
    (h : Stamped G (k + 1) v s0 s) : Stamped G k (v + 1) s0 s.argNext :=
  Stamped.of_step h (by simp) (by simp)
    (fun _ e c => by
      simp only [St.argNext_argIdx, St.argNext_argTys, u32]
      omega)
    (fun _ _ c hm => by
      simp only [St.argNext_argIdx, St.argNext_inRegMask, u32]
      have e1 : (s.argIdx + 1) % 4294967296 + k = s.argIdx + (k + 1) := by omega
      rw [e1]
      exact hm)
    (fun _ u l _ => by simp)

/-- Statement `argIdx++` behind a statement `*pInRegMask |= (1ull << argIdx)`. -/
theorem Stamped.argNext_of_lt {G : Loc → Bool} {k v : Nat} {s0 s : St}
    (hlt : s.ok = true → s.argIdx < 64)
    (h : Stamped G (k + 1) v s0 s) : Stamped G k v s0 s.argNext :=
  Stamped.of_step h (by simp) (by simp)
    (fun hok e c => by
      simp only [St.argNext_ok] at hok
      have := hlt hok
      simp only [St.argNext_argIdx, St.argNext_argTys, u32]
      omega)
    (fun hok _ c hm => by
      simp only [St.argNext_ok] at hok
      have := hlt hok
      simp only [St.argNext_argIdx, St.argNext_inRegMask, u32]
      have e1 : (s.argIdx + 1) % 4294967296 + k = s.argIdx + (k + 1) := by omega
      rw [e1]
      exact hm)
    (fun _ u l _ => by simp)

theorem Stamped.stamp_consume {G : Loc → Bool} {k v : Nat} {s0 s : St} (n : Nat)
    (h : Stamped G k v s0 s) : Stamped G k v s0 (s.consume n) :=
  Stamped.stamp_of_same (St.consume n) (by simp) (by simp) (by simp) (by simp) (by simp) h

theorem Stamped.stamp_userDataNext {G : Loc → Bool} {k v : Nat} {s0 s : St} (n : Nat)
    (h : Stamped G k v s0 s) : Stamped G k v s0 (s.userDataNext n) :=
  Stamped.stamp_of_same (St.userDataNext n) (by simp) (by simp) (by simp) (by simp) (by simp) h

theorem Stamped.stamp_reserve {G : Loc → Bool} {k v : Nat} {s0 s : St} (n : Nat)
    (h : Stamped G k v s0 s) : Stamped G k v s0 (s.reserve n) :=
  Stamped.stamp_of_same (St.reserve n) (by simp) (by simp) (by simp) (by simp)
    (by simp [St.ok]) h

theorem Stamped.stamp_setReserveVbTable {G : Loc → Bool} {k v : Nat} {s0 s : St}
    (h : Stamped G k v s0 s) : Stamped G k v s0 s.setReserveVbTable :=
  Stamped.stamp_of_same St.setReserveVbTable (by simp) (by simp) (by simp) (by simp)
    (by simp [St.ok]) h

theorem Stamped.stamp_setReserveStreamOutTable {G : Loc → Bool} {k v : Nat} {s0 s : St}
    (h : Stamped G k v s0 s) : Stamped G k v s0 s.setReserveStreamOutTable :=
  Stamped.stamp_of_same St.setReserveStreamOutTable (by simp) (by simp) (by simp) (by simp)
    (by simp [St.ok]) h

theorem Stamped.stamp_setReserveEsGsLdsSize {G : Loc → Bool} {k v : Nat} {s0 s : St}
    (h : Stamped G k v s0 s) : Stamped G k v s0 s.setReserveEsGsLdsSize :=
  Stamped.stamp_of_same St.setReserveEsGsLdsSize (by simp) (by simp) (by simp) (by simp)
    (by simp [St.ok]) h

theorem Stamped.stamp_require {G : Loc → Bool} {k v : Nat} {s0 s : St} (n : ResourceNode)
    (h : Stamped G k v s0 s) : Stamped G k v s0 (s.require n) :=
  Stamped.stamp_of_same (St.require n) (by simp) (by simp) (by simp) (by simp)
    (by simp [St.ok]) h

theorem Stamped.stamp_setNeedSpill {G : Loc → Bool} {k v : Nat} {s0 s : St} (b : Bool)
    (h : Stamped G k v s0 s) : Stamped G k v s0 (s.setNeedSpill b) :=
  Stamped.stamp_of_same (St.setNeedSpill b) (by simp) (by simp) (by simp) (by simp)
    (by simp [St.ok]) h

theorem Stamped.stamp_setAvail {G : Loc → Bool} {k v : Nat} {s0 s : St} (n : Nat)
    (h : Stamped G k v s0 s) : Stamped G k v s0 (s.setAvail n) :=
  Stamped.stamp_of_same (St.setAvail n) (by simp) (by simp) (by simp) (by simp)
    (by simp [St.ok]) h

theorem Stamped.stamp_never {G : Loc → Bool} {k v : Nat} {s0 s : St}
    (h : Stamped G k v s0 s) : Stamped G k v s0 s.never :=
  Stamped.stamp_of_same St.never (by simp) (by simp) (by simp) (by simp) (by simp) h

theorem Stamped.stamp_checkMap {G : Loc → Bool} {k v : Nat} {s0 s : St} (len count : Nat)
    (h : Stamped G k v s0 s) : Stamped G k v s0 (s.checkMap len count) :=
  Stamped.stamp_of_same (St.checkMap len count) (by simp) (by simp) (by simp) (by simp)
    (by simp only [St.checkMap_ok, Bool.and_eq_true]; exact fun h => h.1) h

theorem Stamped.stamp_assert {G : Loc → Bool} {k v : Nat} {s0 s : St} (c : St → Bool)
    (h : Stamped G k v s0 s) : Stamped G k v s0 (s.assert c) :=
  Stamped.stamp_of_same (St.assert c) (by simp) (by simp) (by simp) (by simp)
    (by simp only [St.assert_ok, Bool.and_eq_true]; exact fun h => h.1) h

theorem Stamped.stamp_when {G : Loc → Bool} {k v : Nat} {s0 s : St} (c : St → Bool)
    (body : St → St) (hbody : ∀ t, Stamped G k v s0 t → Stamped G k v s0 (body t))
    (h : Stamped G k v s0 s) : Stamped G k v s0 (s.when c body) := by
  unfold St.when
  split
  · exact hbody s h
  · exact h

/-- A `when` whose body adds arguments that are not marked "inreg". -/
theorem Stamped.when_up {G : Loc → Bool} {k v v' : Nat} {s0 s : St} (c : St → Bool)
    (body : St → St) (hv : v ≤ v')
    (hbody : ∀ t, Stamped G k v s0 t → Stamped G k v' s0 (body t))
    (h : Stamped G k v s0 s) : Stamped G k v' s0 (s.when c body) := by
  unfold St.when
  split
  · exact hbody s h
  · exact Stamped.stamp_mono hv h

/-- An assignment to the interface data that leaves the argument indices as they are. -/
theorem Stamped.stamp_setIntf {G : Loc → Bool} {k v : Nat} {s0 s : St} (t : ShaderStage)
    (f : InterfaceData → InterfaceData)
    (hf : ∀ (d : InterfaceData) (l : Loc), l.isArgIdx = true → l.read (f d) = l.read d)
    (h : Stamped G k v s0 s) : Stamped G k v s0 (s.setIntf t f) :=
  Stamped.of_step h (by simp) (by simp)
    (fun _ e c => by simp only [St.setIntf_argIdx, St.setIntf_argTys]; omega)
    (fun _ _ _ hm => by simp only [St.setIntf_argIdx, St.setIntf_inRegMask]; exact hm)
    (fun _ u l hl => by
      by_cases hu : u = t
      · subst hu
        rw [St.setIntf_intfData_same]
        exact Or.inl (hf _ l hl)
      · rw [St.setIntf_intfData_other _ _ _ _ hu]
        exact Or.inl rfl)

/-- An assignment of a local other than an argument index to the interface data. -/
theorem Stamped.stamp_record {G : Loc → Bool} {k v : Nat} {s0 s : St} (t : ShaderStage)
    (get : St → Nat) (set : Nat → InterfaceData → InterfaceData)
    (hset : ∀ (a : Nat) (d : InterfaceData) (l : Loc), l.isArgIdx = true →
      l.read (set a d) = l.read d)
    (h : Stamped G k v s0 s) : Stamped G k v s0 (s.record t get set) :=
  Stamped.stamp_setIntf t (set (get s)) (hset (get s)) h

/-- The assignment of `argIdx` to a location of the group, behind the `push_back` of the
argument. -/
theorem Stamped.record_arg {G : Loc → Bool} {k v : Nat} {s0 s : St} (t : ShaderStage)
    (set : Nat → InterfaceData → InterfaceData)
    (hset : ∀ (a : Nat) (d : InterfaceData) (l : Loc), l.isArgIdx = true →
      l.read (set a d) = l.read d ∨ (G l = true ∧ l.read (set a d) = a))
    (h : Stamped G (k + 1) v s0 s) : Stamped G (k + 1) v s0 (s.record t St.argIdx set) :=
  Stamped.of_step h (by simp) (by simp)
    (fun _ e c => by simp only [St.record_argIdx, St.record_argTys]; omega)
    (fun _ _ _ hm => by simp only [St.record_argIdx, St.record_inRegMask]; exact hm)
    (fun _ u l hl => by
      by_cases hu : u = t
      · subst hu
        rw [St.record_intfData_same]
        rcases hset s.argIdx (s.intfData u) l hl with e | ⟨g, e⟩
        · exact Or.inl e
        · refine Or.inr ⟨g, ?_, ?_⟩
          · rw [e]
          · rw [e]
            simp only [St.record_argIdx]
            omega
      · unfold St.record
        rw [St.setIntf_intfData_other _ _ _ _ hu]
        exact Or.inl rfl)

/-- The assignment of `argIdx` to a location of the group in front of the `push_back` of
the argument. -/
theorem Stamped.record_push {G : Loc → Bool} {k v : Nat} {s0 s : St} (t : ShaderStage)
    (set : Nat → InterfaceData → InterfaceData) (ty : ArgTy)
    (hset : ∀ (a : Nat) (d : InterfaceData) (l : Loc), l.isArgIdx = true →
      l.read (set a d) = l.read d ∨ (G l = true ∧ l.read (set a d) = a))
    (h : Stamped G k v s0 s) :
    Stamped G (k + 1) v s0 ((s.record t St.argIdx set).push ty) :=
  Stamped.of_step h (by simp) (by simp)
    (fun _ e c => by
      simp only [St.push_argIdx, St.push_argTys, St.record_argIdx, St.record_argTys,
        List.length_append, List.length_singleton]
      omega)
    (fun _ _ _ hm => by
      simp only [St.push_argIdx, St.push_inRegMask, St.record_argIdx, St.record_inRegMask]
      exact Nat.lt_of_lt_of_le hm (Nat.pow_le_pow_right (by decide) (by omega)))
    (fun _ u l hl => by
      simp only [St.push_intfData, St.push_argIdx, St.record_argIdx]
      by_cases hu : u = t
      · subst hu
        rw [St.record_intfData_same]
        rcases hset s.argIdx (s.intfData u) l hl with e | ⟨g, e⟩
        · exact Or.inl e
        · refine Or.inr ⟨g, ?_, ?_⟩
          · rw [e]
          · rw [e]
            omega
      · unfold St.record
        rw [St.setIntf_intfData_other _ _ _ _ hu]
        exact Or.inl rfl)

theorem Stamped.stamp_sgprArg {G : Loc → Bool} {v : Nat} {s0 s : St} (t : ShaderStage)
    (ty : ArgTy) (set : Nat → InterfaceData → InterfaceData)
    (hset : ∀ (a : Nat) (d : InterfaceData) (l : Loc), l.isArgIdx = true →
      l.read (set a d) = l.read d ∨ (G l = true ∧ l.read (set a d) = a))
    (h : Stamped G 0 v s0 s) : Stamped G 0 v s0 (s.sgprArg t ty set) := by
  rw [St.sgprArg_eq]
  exact Stamped.stamp_inRegNext (Stamped.record_arg t set hset (Stamped.stamp_push ty h))

theorem Stamped.stamp_vgprArg {G : Loc → Bool} {v : Nat} {s0 s : St} (t : ShaderStage)
    (ty : ArgTy) (set : Nat → InterfaceData → InterfaceData) (hv : v ≤ 1000)
    (hset : ∀ (a : Nat) (d : InterfaceData) (l : Loc), l.isArgIdx = true →
      l.read (set a d) = l.read d ∨ (G l = true ∧ l.read (set a d) = a))
    (h : Stamped G 0 v s0 s) : Stamped G 0 (v + 1) s0 (s.vgprArg t ty set) := by
  rw [St.vgprArg_eq]
  exact Stamped.stamp_argNext hv (Stamped.record_arg t set hset (Stamped.stamp_push ty h))

/-! ## Argument indices behind a loop -/

theorem Stamped.stamp_forNodes {G : Loc → Bool} {v : Nat} {s0 : St}
    (body : Nat → ResourceNode → St → St)
    (hbody : ∀ i n t, Stamped G 0 v s0 t → Stamped G 0 v s0 (body i n t))
    (i : Nat) (l : List ResourceNode) {s : St} (h : Stamped G 0 v s0 s) :
    Stamped G 0 v s0 (Llpc.forNodes body i l s) := by
  induction l generalizing i s with
  | nil => exact h
  | cons n l ih =>
    simp only [Llpc.forNodes]
    exact ih _ (hbody _ _ _ h)

theorem Stamped.stamp_firstNodeOfType {G : Loc → Bool} {v : Nat} {s0 : St}
    (ty : ResourceMappingNodeType) (body : ResourceNode → St → St)
    (hbody : ∀ n t, Stamped G 0 v s0 t → Stamped G 0 v s0 (body n t))
    (l : List ResourceNode) {s : St} (h : Stamped G 0 v s0 s) :
    Stamped G 0 v s0 (Llpc.firstNodeOfType ty body l s) := by
  induction l with
  | nil => exact h
  | cons n l ih =>
    simp only [Llpc.firstNodeOfType]
    split
    · exact hbody _ _ h
    · exact ih

theorem Stamped.stamp_streamOffsetArgs {G : Loc → Bool} {v : Nat} {s0 : St} (t0 : ShaderStage)
    (record : Nat → Nat → InterfaceData → InterfaceData)
    (hrec : ∀ (i a : Nat) (d : InterfaceData) (l : Loc), l.isArgIdx = true →
      l.read (record i a d) = l.read d ∨ (G l = true ∧ l.read (record i a d) = a))
    (i : Nat) (l : List Nat) {s : St} (h : Stamped G 0 v s0 s) :
    Stamped G 0 v s0 (Llpc.streamOffsetArgs t0 record i l s) := by
  induction l generalizing i s with
  | nil => exact h
  | cons stride rest ih =>
    simp only [Llpc.streamOffsetArgs]
    refine ih (i + 1) ?_
    exact Stamped.stamp_when _ _
      (fun _ hab => Stamped.stamp_inRegNext (Stamped.record_arg _ _ (hrec i) (Stamped.stamp_push _ hab))) h

theorem Stamped.stamp_fillDummies {G : Loc → Bool} {v : Nat} {s0 : St} (ctx : Context)
    (off fuel : Nat) {s : St} (h : Stamped G 0 v s0 s) :
    Stamped G 0 v s0 (Llpc.fillDummies ctx off fuel s) := by
  induction fuel generalizing s with
  | zero => exact h
  | succ fuel ih =>
    rw [Llpc.fillDummies]
    split
    · exact ih (Stamped.stamp_consume 1
        (Stamped.stamp_userDataNext 1 (Stamped.stamp_inRegNext (Stamped.stamp_push _ h))))
    · exact h

theorem Stamped.stamp_fillToSpill {G : Loc → Bool} {v : Nat} {s0 : St} (ctx : Context)
    (fuel : Nat) {s : St} (h : Stamped G 0 v s0 s) :
    Stamped G 0 v s0 (Llpc.fillToSpill ctx fuel s) := by
  induction fuel generalizing s with
  | zero => exact h
  | succ fuel ih =>
    rw [Llpc.fillToSpill]
    split
    · exact ih (Stamped.stamp_userDataNext 1 (Stamped.stamp_inRegNext (Stamped.stamp_push _ h)))
    · exact h

/-! ## Argument indices behind the blocks of the function -/

set_option linter.unreachableTactic false
set_option linter.unusedTactic false

theorem Stamped.of_not_ok {G : Loc → Bool} {k v : Nat} {s0 s : St}
    (hpre : s0.argTys <+: s.argTys) (hok : s.ok = false) : Stamped G k v s0 s := by
  refine ⟨hpre, ?_, ?_⟩ <;> intro h <;> rw [hok] at h <;> cases h

theorem setAt_read (arr : Nat → Nat) (i a k : Nat) :
    setAt arr i a k = arr k ∨ setAt arr i a k = a := by
  unfold setAt
  split
  · exact Or.inr rfl
  · exact Or.inl rfl

theorem stamp_resNodeValues (i : Nat) :
    ∀ (a : Nat) (d : InterfaceData) (l : Loc), l.isArgIdx = true →
      l.read { d with entryArgIdxs.resNodeValues := setAt d.entryArgIdxs.resNodeValues i a }
          = l.read d ∨
        (Loc.isNodeArg l = true ∧
          l.read { d with
            entryArgIdxs.resNodeValues := setAt d.entryArgIdxs.resNodeValues i a } = a) := by
  intro a d l
  cases l <;> first
    | exact fun _ => Or.inl rfl
    | (rename_i k
       intro _
       rcases setAt_read d.entryArgIdxs.resNodeValues i a k with h | h
       · exact Or.inl h
       · exact Or.inr ⟨rfl, h⟩)

theorem stamp_vs_streamOffsets :
    ∀ (i a : Nat) (d : InterfaceData) (l : Loc), l.isArgIdx = true →
      l.read
          (let m := setAt d.entryArgIdxs.vs.streamOutData.streamOffsets i a
           { d with entryArgIdxs.vs.streamOutData.streamOffsets := m })
          = l.read d ∨
        ((l.isSystemArg || l.isWorkgroupIdArg) = true ∧
          l.read
            (let m := setAt d.entryArgIdxs.vs.streamOutData.streamOffsets i a
             { d with entryArgIdxs.vs.streamOutData.streamOffsets := m }) = a) := by
  intro i a d l
  cases l <;> first
    | exact fun _ => Or.inl rfl
    | (rename_i k
       intro _
       rcases setAt_read d.entryArgIdxs.vs.streamOutData.streamOffsets i a k with h | h
       · exact Or.inl h
       · exact Or.inr ⟨rfl, h⟩)

theorem stamp_tes_streamOffsets :
    ∀ (i a : Nat) (d : InterfaceData) (l : Loc), l.isArgIdx = true →
      l.read
          (let m := setAt d.entryArgIdxs.tes.streamOutData.streamOffsets i a
           { d with entryArgIdxs.tes.streamOutData.streamOffsets := m })
          = l.read d ∨
        ((l.isSystemArg || l.isWorkgroupIdArg) = true ∧
          l.read
            (let m := setAt d.entryArgIdxs.tes.streamOutData.streamOffsets i a
             { d with entryArgIdxs.tes.streamOutData.streamOffsets := m }) = a) := by
  intro i a d l
  cases l <;> first
    | exact fun _ => Or.inl rfl
    | (rename_i k
       intro _
       rcases setAt_read d.entryArgIdxs.tes.streamOutData.streamOffsets i a k with h | h
       · exact Or.inl h
       · exact Or.inr ⟨rfl, h⟩)

theorem stamp_gs_esGsOffsets (i : Nat) :
    ∀ (a : Nat) (d : InterfaceData) (l : Loc), l.isArgIdx = true →
      l.read { d with entryArgIdxs.gs.esGsOffsets := setAt d.entryArgIdxs.gs.esGsOffsets i a }
          = l.read d ∨
        ((l.isSystemArg || l.isWorkgroupIdArg) = true ∧
          l.read { d with
            entryArgIdxs.gs.esGsOffsets := setAt d.entryArgIdxs.gs.esGsOffsets i a } = a) := by
  intro a d l
  cases l <;> first
    | exact fun _ => Or.inl rfl
    | (rename_i k
       intro _
       rcases setAt_read d.entryArgIdxs.gs.esGsOffsets i a k with h | h
       · exact Or.inl h
       · exact Or.inr ⟨rfl, h⟩)

theorem Stamped.stamp_scanNode {G : Loc → Bool} {v : Nat} {s0 s : St} (ctx : Context)
    (stage : ShaderStage) (i : Nat) (n : ResourceNode) (h : Stamped G 0 v s0 s) :
    Stamped G 0 v s0 (scanNode ctx stage i n s) := by
  unfold Llpc.scanNode
  dsimp only
  split_ifs <;>
  repeat (any_goals (with_reducible (first
    | assumption
    | refine Stamped.record_push _ _ _ ?_ ?_
    | refine Stamped.stamp_push _ ?_
    | refine Stamped.stamp_inRegNext ?_
    | refine Stamped.stamp_consume _ ?_
    | refine Stamped.stamp_userDataNext _ ?_
    | refine Stamped.stamp_never ?_
    | refine Stamped.stamp_checkMap _ _ ?_
    | refine Stamped.stamp_reserve _ ?_
    | refine Stamped.stamp_setReserveEsGsLdsSize ?_
    | refine Stamped.stamp_setReserveVbTable ?_
    | refine Stamped.stamp_setReserveStreamOutTable ?_
    | refine Stamped.stamp_require _ ?_
    | refine Stamped.stamp_setAvail _ ?_
    | refine Stamped.stamp_setNeedSpill _ ?_
    | refine Stamped.stamp_sgprArg _ _ _ ?_ ?_
    | refine Stamped.stamp_vgprArg _ _ _ (by omega) ?_ ?_
    | refine Stamped.stamp_argNext (by omega) ?_
    | refine Stamped.stamp_streamOffsetArgs _ _ ?_ _ _ ?_
    | refine Stamped.stamp_vbTableLoop _ _ ?_
    | refine Stamped.stamp_assert _ ?_
    | refine Stamped.record_arg _ _ ?_ ?_
    | refine Stamped.stamp_record _ _ _ ?_ ?_
    | refine Stamped.stamp_setIntf _ _ ?_ ?_
    | refine Stamped.stamp_when _ _ (fun _ _ => ?_) ?_)))
  all_goals first
    | exact stamp_resNodeValues _
    | exact stamp_vs_streamOffsets
    | exact stamp_tes_streamOffsets
    | exact stamp_gs_esGsOffsets _
    | (intro _ _ l; cases l <;> first
        | exact fun _ => rfl
        | exact fun _ => Or.inl rfl
        | exact fun _ => Or.inr ⟨rfl, rfl⟩
        | exact fun h => Bool.noConfusion h)
    | (intro _ l; cases l <;> first | exact fun _ => rfl | exact fun h => Bool.noConfusion h)

theorem Stamped.stamp_scanNodes {G : Loc → Bool} {v : Nat} {s0 s : St} (ctx : Context)
    (stage : ShaderStage) (h : Stamped G 0 v s0 s) :
    Stamped G 0 v s0 (scanNodes ctx stage s) :=
  Stamped.stamp_forNodes _ (fun i n _ hab => Stamped.stamp_scanNode ctx stage i n hab) 0 _ h

theorem Stamped.stamp_reserveSpecial {G : Loc → Bool} {v : Nat} {s0 s : St} (ctx : Context)
    (stage : ShaderStage) (h : Stamped G 0 v s0 s) :
    Stamped G 0 v s0 (reserveSpecial ctx stage s) := by
  cases stage <;> simp only [Llpc.reserveSpecial] <;>
  repeat (any_goals (with_reducible (first
    | assumption
    | refine Stamped.record_push _ _ _ ?_ ?_
    | refine Stamped.stamp_push _ ?_
    | refine Stamped.stamp_inRegNext ?_
    | refine Stamped.stamp_consume _ ?_
    | refine Stamped.stamp_userDataNext _ ?_
    | refine Stamped.stamp_never ?_
    | refine Stamped.stamp_checkMap _ _ ?_
    | refine Stamped.stamp_reserve _ ?_
    | refine Stamped.stamp_setReserveEsGsLdsSize ?_
    | refine Stamped.stamp_setReserveVbTable ?_
    | refine Stamped.stamp_setReserveStreamOutTable ?_
    | refine Stamped.stamp_require _ ?_
    | refine Stamped.stamp_setAvail _ ?_
    | refine Stamped.stamp_setNeedSpill _ ?_
    | refine Stamped.stamp_sgprArg _ _ _ ?_ ?_
    | refine Stamped.stamp_vgprArg _ _ _ (by omega) ?_ ?_
    | refine Stamped.stamp_argNext (by omega) ?_
    | refine Stamped.stamp_streamOffsetArgs _ _ ?_ _ _ ?_
    | refine Stamped.stamp_vbTableLoop _ _ ?_
    | refine Stamped.stamp_assert _ ?_
    | refine Stamped.record_arg _ _ ?_ ?_
    | refine Stamped.stamp_record _ _ _ ?_ ?_
    | refine Stamped.stamp_setIntf _ _ ?_ ?_
    | refine Stamped.stamp_when _ _ (fun _ _ => ?_) ?_)))
  all_goals first
    | exact stamp_resNodeValues _
    | exact stamp_vs_streamOffsets
    | exact stamp_tes_streamOffsets
    | exact stamp_gs_esGsOffsets _
    | (intro _ _ l; cases l <;> first
        | exact fun _ => rfl
        | exact fun _ => Or.inl rfl
        | exact fun _ => Or.inr ⟨rfl, rfl⟩
        | exact fun h => Bool.noConfusion h)
    | (intro _ l; cases l <;> first | exact fun _ => rfl | exact fun h => Bool.noConfusion h)

theorem Stamped.stamp_decideSpill {G : Loc → Bool} {v : Nat} {s0 s : St} (ctx : Context)
    (stage : ShaderStage) (h : Stamped G 0 v s0 s) :
    Stamped G 0 v s0 (decideSpill ctx stage s) := by
  unfold Llpc.decideSpill
  split <;> dsimp only <;>
  repeat (any_goals (with_reducible (first
    | assumption
    | refine Stamped.record_push _ _ _ ?_ ?_
    | refine Stamped.stamp_push _ ?_
    | refine Stamped.stamp_inRegNext ?_
    | refine Stamped.stamp_consume _ ?_
    | refine Stamped.stamp_userDataNext _ ?_
    | refine Stamped.stamp_never ?_
    | refine Stamped.stamp_checkMap _ _ ?_
    | refine Stamped.stamp_reserve _ ?_
    | refine Stamped.stamp_setReserveEsGsLdsSize ?_
    | refine Stamped.stamp_setReserveVbTable ?_
    | refine Stamped.stamp_setReserveStreamOutTable ?_
    | refine Stamped.stamp_require _ ?_
    | refine Stamped.stamp_setAvail _ ?_
    | refine Stamped.stamp_setNeedSpill _ ?_
    | refine Stamped.stamp_sgprArg _ _ _ ?_ ?_
    | refine Stamped.stamp_vgprArg _ _ _ (by omega) ?_ ?_
    | refine Stamped.stamp_argNext (by omega) ?_
    | refine Stamped.stamp_streamOffsetArgs _ _ ?_ _ _ ?_
    | refine Stamped.stamp_vbTableLoop _ _ ?_
    | refine Stamped.stamp_assert _ ?_
    | refine Stamped.record_arg _ _ ?_ ?_
    | refine Stamped.stamp_record _ _ _ ?_ ?_
    | refine Stamped.stamp_setIntf _ _ ?_ ?_
    | refine Stamped.stamp_when _ _ (fun _ _ => ?_) ?_)))
  all_goals first
    | exact stamp_resNodeValues _
    | exact stamp_vs_streamOffsets
    | exact stamp_tes_streamOffsets
    | exact stamp_gs_esGsOffsets _
    | (intro _ _ l; cases l <;> first
        | exact fun _ => rfl
        | exact fun _ => Or.inl rfl
        | exact fun _ => Or.inr ⟨rfl, rfl⟩
        | exact fun h => Bool.noConfusion h)
    | (intro _ l; cases l <;> first | exact fun _ => rfl | exact fun h => Bool.noConfusion h)

theorem Stamped.stamp_allocStreamOutNode {v : Nat} {s0 s : St} (stage : ShaderStage)
    (n : ResourceNode) (h : Stamped Loc.isStreamOutArg 0 v s0 s) :
    Stamped Loc.isStreamOutArg 0 v s0 (allocStreamOutNode stage n s) := by
  cases stage <;> simp only [Llpc.allocStreamOutNode] <;>
  repeat (any_goals (with_reducible (first
    | assumption
    | refine Stamped.record_push _ _ _ ?_ ?_
    | refine Stamped.stamp_push _ ?_
    | refine Stamped.stamp_inRegNext ?_
    | refine Stamped.stamp_consume _ ?_
    | refine Stamped.stamp_userDataNext _ ?_
    | refine Stamped.stamp_never ?_
    | refine Stamped.stamp_checkMap _ _ ?_
    | refine Stamped.stamp_reserve _ ?_
    | refine Stamped.stamp_setReserveEsGsLdsSize ?_
    | refine Stamped.stamp_setReserveVbTable ?_
    | refine Stamped.stamp_setReserveStreamOutTable ?_
    | refine Stamped.stamp_require _ ?_
    | refine Stamped.stamp_setAvail _ ?_
    | refine Stamped.stamp_setNeedSpill _ ?_
    | refine Stamped.stamp_sgprArg _ _ _ ?_ ?_
    | refine Stamped.stamp_vgprArg _ _ _ (by omega) ?_ ?_
    | refine Stamped.stamp_argNext (by omega) ?_
    | refine Stamped.stamp_streamOffsetArgs _ _ ?_ _ _ ?_
    | refine Stamped.stamp_vbTableLoop _ _ ?_
    | refine Stamped.stamp_assert _ ?_
    | refine Stamped.record_arg _ _ ?_ ?_
    | refine Stamped.stamp_record _ _ _ ?_ ?_
    | refine Stamped.stamp_setIntf _ _ ?_ ?_
    | refine Stamped.stamp_when _ _ (fun _ _ => ?_) ?_)))
  all_goals first
    | exact stamp_resNodeValues _
    | exact stamp_vs_streamOffsets
    | exact stamp_tes_streamOffsets
    | exact stamp_gs_esGsOffsets _
    | (intro _ _ l; cases l <;> first
        | exact fun _ => rfl
        | exact fun _ => Or.inl rfl
        | exact fun _ => Or.inr ⟨rfl, rfl⟩
        | exact fun h => Bool.noConfusion h)
    | (intro _ l; cases l <;> first | exact fun _ => rfl | exact fun h => Bool.noConfusion h)

theorem Stamped.stamp_allocStreamOut {v : Nat} {s0 s : St} (ctx : Context) (stage : ShaderStage)
    (h : Stamped Loc.isStreamOutArg 0 v s0 s) :
    Stamped Loc.isStreamOutArg 0 v s0 (allocStreamOut ctx stage s) := by
  unfold Llpc.allocStreamOut
  split
  · exact Stamped.stamp_firstNodeOfType _ _ (fun n _ hab => Stamped.stamp_allocStreamOutNode stage n hab) _ h
  · exact h

theorem Stamped.stamp_padNode {G : Loc → Bool} {v : Nat} {s0 s : St} (ctx : Context)
    (stage : ShaderStage) (n : ResourceNode) (h : Stamped G 0 v s0 s) :
    Stamped G 0 v s0 (padNode ctx stage n s) := by
  unfold Llpc.padNode
  split
  · exact Stamped.stamp_fillDummies ctx _ _ h
  · exact h

/-- In the branch "User data isn't spilled" the argument index is recorded and incremented
in front of the `push_back`; the state is the one with the `push_back` in front. -/
theorem push_first (s : St) (t : ShaderStage) (set : Nat → InterfaceData → InterfaceData)
    (n : Nat) (ty : ArgTy) :
    ((((s.record t St.argIdx set).inRegNext).consume n).push ty)
      = ((((s.push ty).record t St.argIdx set).inRegNext).consume n) := by
  cases s
  rfl

theorem Stamped.stamp_assignNode {v : Nat} {s0 s : St} (ctx : Context) (stage : ShaderStage)
    (i : Nat) (n : ResourceNode) (h : Stamped Loc.isNodeArg 0 v s0 s) :
    Stamped Loc.isNodeArg 0 v s0 (assignNode ctx stage i n s) := by
  unfold Llpc.assignNode
  dsimp only
  cases n.type <;> dsimp only <;> (try rw [push_first]) <;>
    (try (refine Stamped.of_not_ok ?_ (by simp); simpa using h.1))
  repeat (any_goals (with_reducible (first
    | assumption
    | refine Stamped.record_push _ _ _ ?_ ?_
    | refine Stamped.stamp_push _ ?_
    | refine Stamped.stamp_inRegNext ?_
    | refine Stamped.stamp_consume _ ?_
    | refine Stamped.stamp_userDataNext _ ?_
    | refine Stamped.stamp_never ?_
    | refine Stamped.stamp_checkMap _ _ ?_
    | refine Stamped.stamp_reserve _ ?_
    | refine Stamped.stamp_setReserveEsGsLdsSize ?_
    | refine Stamped.stamp_setReserveVbTable ?_
    | refine Stamped.stamp_setReserveStreamOutTable ?_
    | refine Stamped.stamp_require _ ?_
    | refine Stamped.stamp_setAvail _ ?_
    | refine Stamped.stamp_setNeedSpill _ ?_
    | refine Stamped.stamp_sgprArg _ _ _ ?_ ?_
    | refine Stamped.stamp_vgprArg _ _ _ (by omega) ?_ ?_
    | refine Stamped.stamp_argNext (by omega) ?_
    | refine Stamped.stamp_streamOffsetArgs _ _ ?_ _ _ ?_
    | refine Stamped.stamp_vbTableLoop _ _ ?_
    | refine Stamped.stamp_assert _ ?_
    | refine Stamped.record_arg _ _ ?_ ?_
    | refine Stamped.stamp_record _ _ _ ?_ ?_
    | refine Stamped.stamp_setIntf _ _ ?_ ?_
    | refine Stamped.stamp_when _ _ (fun _ _ => ?_) ?_)))
  all_goals first
    | exact stamp_resNodeValues _
    | exact stamp_vs_streamOffsets
    | exact stamp_tes_streamOffsets
    | exact stamp_gs_esGsOffsets _
    | (intro _ _ l; cases l <;> first
        | exact fun _ => rfl
        | exact fun _ => Or.inl rfl
        | exact fun _ => Or.inr ⟨rfl, rfl⟩
        | exact fun h => Bool.noConfusion h)
    | (intro _ l; cases l <;> first | exact fun _ => rfl | exact fun h => Bool.noConfusion h)

theorem Stamped.stamp_packNode {v : Nat} {s0 s : St} (ctx : Context) (stage : ShaderStage)
    (i : Nat) (n : ResourceNode) (h : Stamped Loc.isNodeArg 0 v s0 s) :
    Stamped Loc.isNodeArg 0 v s0 (packNode ctx stage i n s) := by
  unfold Llpc.packNode
  dsimp only
  have hp := Stamped.stamp_padNode ctx stage n h
  split_ifs
  · exact h
  · exact h
  · exact h
  · exact Stamped.stamp_assignNode ctx stage i n hp
  · exact Stamped.stamp_setIntf _ _
      (by intro _ l; cases l <;> first | exact fun _ => rfl | exact fun h => Bool.noConfusion h)
      hp
  · exact hp

theorem Stamped.stamp_packNodes {v : Nat} {s0 s : St} (ctx : Context) (stage : ShaderStage)
    (h : Stamped Loc.isNodeArg 0 v s0 s) :
    Stamped Loc.isNodeArg 0 v s0 (packNodes ctx stage s) :=
  Stamped.stamp_forNodes _ (fun i n _ hab => Stamped.stamp_packNode ctx stage i n hab) 0 _ h

theorem fillToSpill_argIdx_le (ctx : Context) (fuel : Nat) (s : St)
    (hok : (fillToSpill ctx fuel s).ok = true) :
    s.argIdx ≤ (fillToSpill ctx fuel s).argIdx := by
  induction fuel generalizing s with
  | zero => exact Nat.le_refl _
  | succ fuel ih =>
    rw [Llpc.fillToSpill] at hok ⊢
    split
    · rename_i hc
      rw [if_pos hc] at hok
      have h1 := ih _ hok
      have h2 := fillToSpill_back _ _ _ id hok
      simp only [St.userDataNext_ok, St.inRegNext_ok, St.push_ok, St.push_argIdx,
        Bool.and_eq_true, decide_eq_true_eq] at h2
      simp only [St.userDataNext_argIdx, St.inRegNext_argIdx, St.push_argIdx, u32] at h1
      omega
    · exact Nat.le_refl _

theorem fillToSpill_argIdx_lt (ctx : Context) (fuel : Nat) (s : St)
    (hok : (fillToSpill ctx (fuel + 1) s).ok = true)
    (hle : s.userDataIdx ≤ u32 (ctx.MaxCsUserDataCount + ctx.CsStartUserData)) :
    s.argIdx < (fillToSpill ctx (fuel + 1) s).argIdx := by
  rw [Llpc.fillToSpill] at hok ⊢
  rw [if_pos hle] at hok ⊢
  have h1 := fillToSpill_argIdx_le ctx fuel _ hok
  have h2 := fillToSpill_back _ _ _ id hok
  simp only [St.userDataNext_ok, St.inRegNext_ok, St.push_ok, St.push_argIdx,
    Bool.and_eq_true, decide_eq_true_eq] at h2
  simp only [St.userDataNext_argIdx, St.inRegNext_argIdx, St.push_argIdx, u32] at h1
  omega

/-- The assignment of `argIdx - 1` to a location of the group, behind at least one
argument. -/
theorem Stamped.record_prev {G : Loc → Bool} {v : Nat} {s0 s1 s : St} (t : ShaderStage)
    (set : Nat → InterfaceData → InterfaceData) (hv : v ≤ 1000)
    (hset : ∀ (a : Nat) (d : InterfaceData) (l : Loc), l.isArgIdx = true →
      l.read (set a d) = l.read d ∨ (G l = true ∧ l.read (set a d) = sub32 a 1))
    (h1 : Stamped G 0 v s0 s1) (hok1 : s.ok = true → s1.ok = true)
    (hlt : s.ok = true → s1.argIdx < s.argIdx)
    (h : Stamped G 0 v s0 s) : Stamped G 0 v s0 (s.record t St.argIdx set) := by
  obtain ⟨p1, p2, p3⟩ := h
  refine ⟨by simpa using p1, fun h' => p2 (by simpa using h'), fun h' e0 c0 => ?_⟩
  have hs : s.ok = true := by simpa using h'
  obtain ⟨q1, q2, q3, q4, q5⟩ := p3 hs e0 c0
  obtain ⟨r1, _⟩ := h1.2.2 (hok1 hs) e0 c0
  have hl := hlt hs
  refine ⟨by simpa using q1, by simpa using q2, by simpa using q3,
    fun hm => by simpa using q4 hm, fun u l hl' => ?_⟩
  simp only [St.record_argIdx]
  by_cases hu : u = t
  · subst hu
    rw [St.record_intfData_same]
    rcases hset s.argIdx (s.intfData u) l hl' with e | ⟨g, e⟩
    · rw [e]
      exact q5 u l hl'
    · have e1 : sub32 s.argIdx 1 = s.argIdx - 1 := by
        unfold sub32 u32
        split_ifs <;> omega
      refine Or.inr ⟨g, ?_, ?_⟩ <;> rw [e, e1] <;> omega
  · unfold St.record
    rw [St.setIntf_intfData_other _ _ _ _ hu]
    exact q5 u l hl'

theorem Stamped.stamp_fixedSpill {v : Nat} {s0 s : St} (ctx : Context) (stage : ShaderStage)
    (hv : v ≤ 1000) (h : Stamped Loc.isSpillArg 0 v s0 s) :
    Stamped Loc.isSpillArg 0 v s0 (fixedSpill ctx stage s) := by
  unfold Llpc.fixedSpill
  split
  · dsimp only
    have h2 : Stamped Loc.isSpillArg 0 v s0
        ((s.assert (fun s =>
          decide ((s.intfData stage).spillTable.offsetInDwords ≠ ctx.InvalidValue))).assert
          (fun s => decide
            (s.userDataIdx ≤ u32 (ctx.MaxCsUserDataCount + ctx.CsStartUserData)))) :=
      Stamped.stamp_assert _ (Stamped.stamp_assert _ h)
    generalize hs2 : ((s.assert (fun s =>
          decide ((s.intfData stage).spillTable.offsetInDwords ≠ ctx.InvalidValue))).assert
          (fun s => decide
            (s.userDataIdx ≤ u32 (ctx.MaxCsUserDataCount + ctx.CsStartUserData)))) = s2 at h2 ⊢
    have hle : s2.ok = true →
        s2.userDataIdx ≤ u32 (ctx.MaxCsUserDataCount + ctx.CsStartUserData) := by
      intro hok
      rw [← hs2] at hok ⊢
      simp only [St.assert_ok, Bool.and_eq_true, decide_eq_true_eq, St.assert_userDataIdx]
        at hok ⊢
      exact hok.2
    refine Stamped.stamp_record _ _ _
      (by intro _ _ l; cases l <;> first | exact fun _ => rfl | exact fun h => Bool.noConfusion h)
      ?_
    refine Stamped.record_prev _ _ hv
      (by intro _ _ l; cases l <;> first | exact fun _ => Or.inl rfl | exact fun _ => Or.inr ⟨rfl, rfl⟩)
      h2 ?_ ?_ ?_
    · intro hok
      simp only [St.record_ok] at hok
      exact fillToSpill_back _ _ _ id hok
    · intro hok
      simp only [St.record_ok] at hok
      have hok2 := fillToSpill_back _ _ _ id hok
      have hle2 := hle hok2
      simp only [St.record_argIdx]
      have e : u32 (ctx.MaxCsUserDataCount + ctx.CsStartUserData) + 1 - s2.userDataIdx
          = (u32 (ctx.MaxCsUserDataCount + ctx.CsStartUserData) - s2.userDataIdx) + 1 := by
        omega
      rw [e] at hok ⊢
      exact fillToSpill_argIdx_lt ctx _ s2 hok hle2
    · refine Stamped.stamp_record _ _ _
        (by intro _ _ l; cases l <;> first | exact fun _ => rfl | exact fun h => Bool.noConfusion h)
        ?_
      exact Stamped.stamp_fillToSpill ctx _ h2
  · exact h

theorem Stamped.stamp_vbTableNode {v : Nat} {s0 s : St} (cur : ShaderStage) (n : ResourceNode)
    (h : Stamped (fun l => l.isSpecialArg || l.isWorkgroupIdArg) 0 v s0 s) :
    Stamped (fun l => l.isSpecialArg || l.isWorkgroupIdArg) 0 v s0 (vbTableNode cur n s) := by
  unfold Llpc.vbTableNode
  dsimp only
  repeat (any_goals (with_reducible (first
    | assumption
    | refine Stamped.record_push _ _ _ ?_ ?_
    | refine Stamped.stamp_push _ ?_
    | refine Stamped.stamp_inRegNext ?_
    | refine Stamped.stamp_consume _ ?_
    | refine Stamped.stamp_userDataNext _ ?_
    | refine Stamped.stamp_never ?_
    | refine Stamped.stamp_checkMap _ _ ?_
    | refine Stamped.stamp_reserve _ ?_
    | refine Stamped.stamp_setReserveEsGsLdsSize ?_
    | refine Stamped.stamp_setReserveVbTable ?_
    | refine Stamped.stamp_setReserveStreamOutTable ?_
    | refine Stamped.stamp_require _ ?_
    | refine Stamped.stamp_setAvail _ ?_
    | refine Stamped.stamp_setNeedSpill _ ?_
    | refine Stamped.stamp_sgprArg _ _ _ ?_ ?_
    | refine Stamped.stamp_vgprArg _ _ _ (by omega) ?_ ?_
    | refine Stamped.stamp_argNext (by omega) ?_
    | refine Stamped.stamp_streamOffsetArgs _ _ ?_ _ _ ?_
    | refine Stamped.stamp_vbTableLoop _ _ ?_
    | refine Stamped.stamp_assert _ ?_
    | refine Stamped.record_arg _ _ ?_ ?_
    | refine Stamped.stamp_record _ _ _ ?_ ?_
    | refine Stamped.stamp_setIntf _ _ ?_ ?_
    | refine Stamped.stamp_when _ _ (fun _ _ => ?_) ?_)))
  all_goals first
    | exact stamp_resNodeValues _
    | exact stamp_vs_streamOffsets
    | exact stamp_tes_streamOffsets
    | exact stamp_gs_esGsOffsets _
    | (intro _ _ l; cases l <;> first
        | exact fun _ => rfl
        | exact fun _ => Or.inl rfl
        | exact fun _ => Or.inr ⟨rfl, rfl⟩
        | exact fun h => Bool.noConfusion h)
    | (intro _ l; cases l <;> first | exact fun _ => rfl | exact fun h => Bool.noConfusion h)

theorem Stamped.stamp_vbTableLoop {v : Nat} {s0 s : St} (cur : ShaderStage)
    (l : List ResourceNode)
    (h : Stamped (fun l => l.isSpecialArg || l.isWorkgroupIdArg) 0 v s0 s) :
    Stamped (fun l => l.isSpecialArg || l.isWorkgroupIdArg) 0 v s0
      (Llpc.firstNodeOfType .IndirectUserDataVaPtr (Llpc.vbTableNode cur) l s) :=
  Stamped.stamp_firstNodeOfType _ _ (fun n _ hab => Stamped.stamp_vbTableNode cur n hab) l h

theorem Stamped.stamp_specialUserData {v : Nat} {s0 s : St} (ctx : Context) (stage : ShaderStage)
    (h : Stamped (fun l => l.isSpecialArg || l.isWorkgroupIdArg) 0 v s0 s) :
    Stamped (fun l => l.isSpecialArg || l.isWorkgroupIdArg) 0 v s0
      (specialUserData ctx stage s) := by
  cases stage <;> simp only [Llpc.specialUserData] <;>
  repeat (any_goals (with_reducible (first
    | assumption
    | refine Stamped.record_push _ _ _ ?_ ?_
    | refine Stamped.stamp_push _ ?_
    | refine Stamped.stamp_inRegNext ?_
    | refine Stamped.stamp_consume _ ?_
    | refine Stamped.stamp_userDataNext _ ?_
    | refine Stamped.stamp_never ?_
    | refine Stamped.stamp_checkMap _ _ ?_
    | refine Stamped.stamp_reserve _ ?_
    | refine Stamped.stamp_setReserveEsGsLdsSize ?_
    | refine Stamped.stamp_setReserveVbTable ?_
    | refine Stamped.stamp_setReserveStreamOutTable ?_
    | refine Stamped.stamp_require _ ?_
    | refine Stamped.stamp_setAvail _ ?_
    | refine Stamped.stamp_setNeedSpill _ ?_
    | refine Stamped.stamp_sgprArg _ _ _ ?_ ?_
    | refine Stamped.stamp_vgprArg _ _ _ (by omega) ?_ ?_
    | refine Stamped.stamp_argNext (by omega) ?_
    | refine Stamped.stamp_streamOffsetArgs _ _ ?_ _ _ ?_
    | refine Stamped.stamp_vbTableLoop _ _ ?_
    | refine Stamped.stamp_assert _ ?_
    | refine Stamped.record_arg _ _ ?_ ?_
    | refine Stamped.stamp_record _ _ _ ?_ ?_
    | refine Stamped.stamp_setIntf _ _ ?_ ?_
    | refine Stamped.stamp_when _ _ (fun _ _ => ?_) ?_)))
  all_goals first
    | exact stamp_resNodeValues _
    | exact stamp_vs_streamOffsets
    | exact stamp_tes_streamOffsets
    | exact stamp_gs_esGsOffsets _
    | (intro _ _ l; cases l <;> first
        | exact fun _ => rfl
        | exact fun _ => Or.inl rfl
        | exact fun _ => Or.inr ⟨rfl, rfl⟩
        | exact fun h => Bool.noConfusion h)
    | (intro _ l; cases l <;> first | exact fun _ => rfl | exact fun h => Bool.noConfusion h)

theorem Stamped.stamp_greedySpill {v : Nat} {s0 s : St} (stage : ShaderStage)
    (h : Stamped Loc.isSpillArg 0 v s0 s) :
    Stamped Loc.isSpillArg 0 v s0 (greedySpill stage s) := by
  unfold Llpc.greedySpill
  dsimp only
  refine Stamped.stamp_record _ _ _
    (by intro _ _ l; cases l <;> first | exact fun _ => rfl | exact fun h => Bool.noConfusion h)
    ?_
  refine Stamped.stamp_when _ _ (fun t ht => ?_) h
  refine Stamped.stamp_record _ _ _
    (by intro _ _ l; cases l <;> first | exact fun _ => rfl | exact fun h => Bool.noConfusion h)
    ?_
  refine Stamped.argNext_of_lt ?_ ?_
  · intro hok
    simp only [St.record_ok, St.userDataNext_ok, St.inReg_ok, St.push_ok, St.push_argIdx,
      Bool.and_eq_true, decide_eq_true_eq] at hok
    simp only [St.record_argIdx, St.userDataNext_argIdx, St.inReg_argIdx, St.push_argIdx]
    exact hok.2
  · refine Stamped.record_arg _ _
      (by intro _ _ l; cases l <;> first | exact fun _ => Or.inl rfl | exact fun _ => Or.inr ⟨rfl, rfl⟩)
      ?_
    refine Stamped.stamp_userDataNext _ ?_
    refine Stamped.stamp_record _ _ _
      (by intro _ _ l; cases l <;> first | exact fun _ => rfl | exact fun h => Bool.noConfusion h)
      ?_
    exact Stamped.stamp_inReg (Stamped.stamp_push _ ht)

theorem Stamped.stamp_systemValuesVs {s0 s : St} (ctx : Context)
    (h : Stamped (fun l => l.isSystemArg || l.isWorkgroupIdArg) 0 0 s0 s) :
    Stamped (fun l => l.isSystemArg || l.isWorkgroupIdArg) 0 4 s0 (systemValuesVs ctx s) := by
  unfold Llpc.systemValuesVs
  dsimp only
  refine Stamped.when_up (v := 3) _ _ (by omega) (fun t ht => ?_) ?_
  next =>
    repeat (any_goals (with_reducible (first
      | assumption
      | refine Stamped.record_push _ _ _ ?_ ?_
      | refine Stamped.stamp_push _ ?_
      | refine Stamped.stamp_inRegNext ?_
      | refine Stamped.stamp_consume _ ?_
      | refine Stamped.stamp_userDataNext _ ?_
      | refine Stamped.stamp_never ?_
      | refine Stamped.stamp_checkMap _ _ ?_
      | refine Stamped.stamp_reserve _ ?_
      | refine Stamped.stamp_setReserveEsGsLdsSize ?_
      | refine Stamped.stamp_setReserveVbTable ?_
      | refine Stamped.stamp_setReserveStreamOutTable ?_
      | refine Stamped.stamp_require _ ?_
      | refine Stamped.stamp_setAvail _ ?_
      | refine Stamped.stamp_setNeedSpill _ ?_
      | refine Stamped.stamp_sgprArg _ _ _ ?_ ?_
      | refine Stamped.stamp_vgprArg _ _ _ (by omega) ?_ ?_
      | refine Stamped.stamp_argNext (by omega) ?_
      | refine Stamped.stamp_streamOffsetArgs _ _ ?_ _ _ ?_
      | refine Stamped.stamp_vbTableLoop _ _ ?_
      | refine Stamped.stamp_assert _ ?_
      | refine Stamped.record_arg _ _ ?_ ?_
      | refine Stamped.stamp_record _ _ _ ?_ ?_
      | refine Stamped.stamp_setIntf _ _ ?_ ?_
      | refine Stamped.stamp_when _ _ (fun _ _ => ?_) ?_)))
    all_goals first
      | exact stamp_resNodeValues _
      | exact stamp_vs_streamOffsets
      | exact stamp_tes_streamOffsets
      | exact stamp_gs_esGsOffsets _
      | (intro _ _ l; cases l <;> first
          | exact fun _ => rfl
          | exact fun _ => Or.inl rfl
          | exact fun _ => Or.inr ⟨rfl, rfl⟩
          | exact fun h => Bool.noConfusion h)
      | (intro _ l; cases l <;> first | exact fun _ => rfl | exact fun h => Bool.noConfusion h)
  refine Stamped.when_up (v := 1) _ _ (by omega) (fun t ht => ?_) ?_
  next =>
    repeat (any_goals (with_reducible (first
      | assumption
      | refine Stamped.record_push _ _ _ ?_ ?_
      | refine Stamped.stamp_push _ ?_
      | refine Stamped.stamp_inRegNext ?_
      | refine Stamped.stamp_consume _ ?_
      | refine Stamped.stamp_userDataNext _ ?_
      | refine Stamped.stamp_never ?_
      | refine Stamped.stamp_checkMap _ _ ?_
      | refine Stamped.stamp_reserve _ ?_
      | refine Stamped.stamp_setReserveEsGsLdsSize ?_
      | refine Stamped.stamp_setReserveVbTable ?_
      | refine Stamped.stamp_setReserveStreamOutTable ?_
      | refine Stamped.stamp_require _ ?_
      | refine Stamped.stamp_setAvail _ ?_
      | refine Stamped.stamp_setNeedSpill _ ?_
      | refine Stamped.stamp_sgprArg _ _ _ ?_ ?_
      | refine Stamped.stamp_vgprArg _ _ _ (by omega) ?_ ?_
      | refine Stamped.stamp_argNext (by omega) ?_
      | refine Stamped.stamp_streamOffsetArgs _ _ ?_ _ _ ?_
      | refine Stamped.stamp_vbTableLoop _ _ ?_
      | refine Stamped.stamp_assert _ ?_
      | refine Stamped.record_arg _ _ ?_ ?_
      | refine Stamped.stamp_record _ _ _ ?_ ?_
      | refine Stamped.stamp_setIntf _ _ ?_ ?_
      | refine Stamped.stamp_when _ _ (fun _ _ => ?_) ?_)))
    all_goals first
      | exact stamp_resNodeValues _
      | exact stamp_vs_streamOffsets
      | exact stamp_tes_streamOffsets
      | exact stamp_gs_esGsOffsets _
      | (intro _ _ l; cases l <;> first
          | exact fun _ => rfl
          | exact fun _ => Or.inl rfl
          | exact fun _ => Or.inr ⟨rfl, rfl⟩
          | exact fun h => Bool.noConfusion h)
      | (intro _ l; cases l <;> first | exact fun _ => rfl | exact fun h => Bool.noConfusion h)
  refine Stamped.when_up (v := 0) _ _ (by omega) (fun t ht => ?_) ?_
  next =>
    repeat (any_goals (with_reducible (first
      | assumption
      | refine Stamped.record_push _ _ _ ?_ ?_
      | refine Stamped.stamp_push _ ?_
      | refine Stamped.stamp_inRegNext ?_
      | refine Stamped.stamp_consume _ ?_
      | refine Stamped.stamp_userDataNext _ ?_
      | refine Stamped.stamp_never ?_
      | refine Stamped.stamp_checkMap _ _ ?_
      | refine Stamped.stamp_reserve _ ?_
      | refine Stamped.stamp_setReserveEsGsLdsSize ?_
      | refine Stamped.stamp_setReserveVbTable ?_
      | refine Stamped.stamp_setReserveStreamOutTable ?_
      | refine Stamped.stamp_require _ ?_
      | refine Stamped.stamp_setAvail _ ?_
      | refine Stamped.stamp_setNeedSpill _ ?_
      | refine Stamped.stamp_sgprArg _ _ _ ?_ ?_
      | refine Stamped.stamp_vgprArg _ _ _ (by omega) ?_ ?_
      | refine Stamped.stamp_argNext (by omega) ?_
      | refine Stamped.stamp_streamOffsetArgs _ _ ?_ _ _ ?_
      | refine Stamped.stamp_vbTableLoop _ _ ?_
      | refine Stamped.stamp_assert _ ?_
      | refine Stamped.record_arg _ _ ?_ ?_
      | refine Stamped.stamp_record _ _ _ ?_ ?_
      | refine Stamped.stamp_setIntf _ _ ?_ ?_
      | refine Stamped.stamp_when _ _ (fun _ _ => ?_) ?_)))
    all_goals first
      | exact stamp_resNodeValues _
      | exact stamp_vs_streamOffsets
      | exact stamp_tes_streamOffsets
      | exact stamp_gs_esGsOffsets _
      | (intro _ _ l; cases l <;> first
          | exact fun _ => rfl
          | exact fun _ => Or.inl rfl
          | exact fun _ => Or.inr ⟨rfl, rfl⟩
          | exact fun h => Bool.noConfusion h)
      | (intro _ l; cases l <;> first | exact fun _ => rfl | exact fun h => Bool.noConfusion h)
  split_ifs <;>
  repeat (any_goals (with_reducible (first
    | assumption
    | refine Stamped.record_push _ _ _ ?_ ?_
    | refine Stamped.stamp_push _ ?_
    | refine Stamped.stamp_inRegNext ?_
    | refine Stamped.stamp_consume _ ?_
    | refine Stamped.stamp_userDataNext _ ?_
    | refine Stamped.stamp_never ?_
    | refine Stamped.stamp_checkMap _ _ ?_
    | refine Stamped.stamp_reserve _ ?_
    | refine Stamped.stamp_setReserveEsGsLdsSize ?_
    | refine Stamped.stamp_setReserveVbTable ?_
    | refine Stamped.stamp_setReserveStreamOutTable ?_
    | refine Stamped.stamp_require _ ?_
    | refine Stamped.stamp_setAvail _ ?_
    | refine Stamped.stamp_setNeedSpill _ ?_
    | refine Stamped.stamp_sgprArg _ _ _ ?_ ?_
    | refine Stamped.stamp_vgprArg _ _ _ (by omega) ?_ ?_
    | refine Stamped.stamp_argNext (by omega) ?_
    | refine Stamped.stamp_streamOffsetArgs _ _ ?_ _ _ ?_
    | refine Stamped.stamp_vbTableLoop _ _ ?_
    | refine Stamped.stamp_assert _ ?_
    | refine Stamped.record_arg _ _ ?_ ?_
    | refine Stamped.stamp_record _ _ _ ?_ ?_
    | refine Stamped.stamp_setIntf _ _ ?_ ?_
    | refine Stamped.stamp_when _ _ (fun _ _ => ?_) ?_)))
  all_goals first
    | exact stamp_resNodeValues _
    | exact stamp_vs_streamOffsets
    | exact stamp_tes_streamOffsets
    | exact stamp_gs_esGsOffsets _
    | (intro _ _ l; cases l <;> first
        | exact fun _ => rfl
        | exact fun _ => Or.inl rfl
        | exact fun _ => Or.inr ⟨rfl, rfl⟩
        | exact fun h => Bool.noConfusion h)
    | (intro _ l; cases l <;> first | exact fun _ => rfl | exact fun h => Bool.noConfusion h)

theorem Stamped.stamp_systemValuesTcs {s0 s : St} (ctx : Context)
    (h : Stamped (fun l => l.isSystemArg || l.isWorkgroupIdArg) 0 0 s0 s) :
    Stamped (fun l => l.isSystemArg || l.isWorkgroupIdArg) 0 2 s0 (systemValuesTcs ctx s) := by
  unfold Llpc.systemValuesTcs
  dsimp only
  repeat (any_goals (with_reducible (first
    | assumption
    | refine Stamped.record_push _ _ _ ?_ ?_
    | refine Stamped.stamp_push _ ?_
    | refine Stamped.stamp_inRegNext ?_
    | refine Stamped.stamp_consume _ ?_
    | refine Stamped.stamp_userDataNext _ ?_
    | refine Stamped.stamp_never ?_
    | refine Stamped.stamp_checkMap _ _ ?_
    | refine Stamped.stamp_reserve _ ?_
    | refine Stamped.stamp_setReserveEsGsLdsSize ?_
    | refine Stamped.stamp_setReserveVbTable ?_
    | refine Stamped.stamp_setReserveStreamOutTable ?_
    | refine Stamped.stamp_require _ ?_
    | refine Stamped.stamp_setAvail _ ?_
    | refine Stamped.stamp_setNeedSpill _ ?_
    | refine Stamped.stamp_sgprArg _ _ _ ?_ ?_
    | refine Stamped.stamp_vgprArg _ _ _ (by omega) ?_ ?_
    | refine Stamped.stamp_argNext (by omega) ?_
    | refine Stamped.stamp_streamOffsetArgs _ _ ?_ _ _ ?_
    | refine Stamped.stamp_vbTableLoop _ _ ?_
    | refine Stamped.stamp_assert _ ?_
    | refine Stamped.record_arg _ _ ?_ ?_
    | refine Stamped.stamp_record _ _ _ ?_ ?_
    | refine Stamped.stamp_setIntf _ _ ?_ ?_
    | refine Stamped.stamp_when _ _ (fun _ _ => ?_) ?_)))
  all_goals first
    | exact stamp_resNodeValues _
    | exact stamp_vs_streamOffsets
    | exact stamp_tes_streamOffsets
    | exact stamp_gs_esGsOffsets _
    | (intro _ _ l; cases l <;> first
        | exact fun _ => rfl
        | exact fun _ => Or.inl rfl
        | exact fun _ => Or.inr ⟨rfl, rfl⟩
        | exact fun h => Bool.noConfusion h)
    | (intro _ l; cases l <;> first | exact fun _ => rfl | exact fun h => Bool.noConfusion h)

theorem Stamped.stamp_systemValuesTes {s0 s : St} (ctx : Context)
    (h : Stamped (fun l => l.isSystemArg || l.isWorkgroupIdArg) 0 0 s0 s) :
    Stamped (fun l => l.isSystemArg || l.isWorkgroupIdArg) 0 4 s0 (systemValuesTes ctx s) := by
  unfold Llpc.systemValuesTes
  dsimp only
  split_ifs <;>
  repeat (any_goals (with_reducible (first
    | assumption
    | refine Stamped.record_push _ _ _ ?_ ?_
    | refine Stamped.stamp_push _ ?_
    | refine Stamped.stamp_inRegNext ?_
    | refine Stamped.stamp_consume _ ?_
    | refine Stamped.stamp_userDataNext _ ?_
    | refine Stamped.stamp_never ?_
    | refine Stamped.stamp_checkMap _ _ ?_
    | refine Stamped.stamp_reserve _ ?_
    | refine Stamped.stamp_setReserveEsGsLdsSize ?_
    | refine Stamped.stamp_setReserveVbTable ?_
    | refine Stamped.stamp_setReserveStreamOutTable ?_
    | refine Stamped.stamp_require _ ?_
    | refine Stamped.stamp_setAvail _ ?_
    | refine Stamped.stamp_setNeedSpill _ ?_
    | refine Stamped.stamp_sgprArg _ _ _ ?_ ?_
    | refine Stamped.stamp_vgprArg _ _ _ (by omega) ?_ ?_
    | refine Stamped.stamp_argNext (by omega) ?_
    | refine Stamped.stamp_streamOffsetArgs _ _ ?_ _ _ ?_
    | refine Stamped.stamp_vbTableLoop _ _ ?_
    | refine Stamped.stamp_assert _ ?_
    | refine Stamped.record_arg _ _ ?_ ?_
    | refine Stamped.stamp_record _ _ _ ?_ ?_
    | refine Stamped.stamp_setIntf _ _ ?_ ?_
    | refine Stamped.stamp_when _ _ (fun _ _ => ?_) ?_)))
  all_goals first
    | exact stamp_resNodeValues _
    | exact stamp_vs_streamOffsets
    | exact stamp_tes_streamOffsets
    | exact stamp_gs_esGsOffsets _
    | (intro _ _ l; cases l <;> first
        | exact fun _ => rfl
        | exact fun _ => Or.inl rfl
        | exact fun _ => Or.inr ⟨rfl, rfl⟩
        | exact fun h => Bool.noConfusion h)
    | (intro _ l; cases l <;> first | exact fun _ => rfl | exact fun h => Bool.noConfusion h)

theorem Stamped.stamp_systemValuesGs {s0 s : St}
    (h : Stamped (fun l => l.isSystemArg || l.isWorkgroupIdArg) 0 0 s0 s) :
    Stamped (fun l => l.isSystemArg || l.isWorkgroupIdArg) 0 8 s0 (systemValuesGs s) := by
  unfold Llpc.systemValuesGs
  dsimp only
  repeat (any_goals (with_reducible (first
    | assumption
    | refine Stamped.record_push _ _ _ ?_ ?_
    | refine Stamped.stamp_push _ ?_
    | refine Stamped.stamp_inRegNext ?_
    | refine Stamped.stamp_consume _ ?_
    | refine Stamped.stamp_userDataNext _ ?_
    | refine Stamped.stamp_never ?_
    | refine Stamped.stamp_checkMap _ _ ?_
    | refine Stamped.stamp_reserve _ ?_
    | refine Stamped.stamp_setReserveEsGsLdsSize ?_
    | refine Stamped.stamp_setReserveVbTable ?_
    | refine Stamped.stamp_setReserveStreamOutTable ?_
    | refine Stamped.stamp_require _ ?_
    | refine Stamped.stamp_setAvail _ ?_
    | refine Stamped.stamp_setNeedSpill _ ?_
    | refine Stamped.stamp_sgprArg _ _ _ ?_ ?_
    | refine Stamped.stamp_vgprArg _ _ _ (by omega) ?_ ?_
    | refine Stamped.stamp_argNext (by omega) ?_
    | refine Stamped.stamp_streamOffsetArgs _ _ ?_ _ _ ?_
    | refine Stamped.stamp_vbTableLoop _ _ ?_
    | refine Stamped.stamp_assert _ ?_
    | refine Stamped.record_arg _ _ ?_ ?_
    | refine Stamped.stamp_record _ _ _ ?_ ?_
    | refine Stamped.stamp_setIntf _ _ ?_ ?_
    | refine Stamped.stamp_when _ _ (fun _ _ => ?_) ?_)))
  all_goals first
    | exact stamp_resNodeValues _
    | exact stamp_vs_streamOffsets
    | exact stamp_tes_streamOffsets
    | exact stamp_gs_esGsOffsets _
    | (intro _ _ l; cases l <;> first
        | exact fun _ => rfl
        | exact fun _ => Or.inl rfl
        | exact fun _ => Or.inr ⟨rfl, rfl⟩
        | exact fun h => Bool.noConfusion h)
    | (intro _ l; cases l <;> first | exact fun _ => rfl | exact fun h => Bool.noConfusion h)

theorem Stamped.stamp_systemValuesFs {s0 s : St}
    (h : Stamped (fun l => l.isSystemArg || l.isWorkgroupIdArg) 0 0 s0 s) :
    Stamped (fun l => l.isSystemArg || l.isWorkgroupIdArg) 0 16 s0 (systemValuesFs s) := by
  unfold Llpc.systemValuesFs
  dsimp only
  repeat (any_goals (with_reducible (first
    | assumption
    | refine Stamped.record_push _ _ _ ?_ ?_
    | refine Stamped.stamp_push _ ?_
    | refine Stamped.stamp_inRegNext ?_
    | refine Stamped.stamp_consume _ ?_
    | refine Stamped.stamp_userDataNext _ ?_
    | refine Stamped.stamp_never ?_
    | refine Stamped.stamp_checkMap _ _ ?_
    | refine Stamped.stamp_reserve _ ?_
    | refine Stamped.stamp_setReserveEsGsLdsSize ?_
    | refine Stamped.stamp_setReserveVbTable ?_
    | refine Stamped.stamp_setReserveStreamOutTable ?_
    | refine Stamped.stamp_require _ ?_
    | refine Stamped.stamp_setAvail _ ?_
    | refine Stamped.stamp_setNeedSpill _ ?_
    | refine Stamped.stamp_sgprArg _ _ _ ?_ ?_
    | refine Stamped.stamp_vgprArg _ _ _ (by omega) ?_ ?_
    | refine Stamped.stamp_argNext (by omega) ?_
    | refine Stamped.stamp_streamOffsetArgs _ _ ?_ _ _ ?_
    | refine Stamped.stamp_vbTableLoop _ _ ?_
    | refine Stamped.stamp_assert _ ?_
    | refine Stamped.record_arg _ _ ?_ ?_
    | refine Stamped.stamp_record _ _ _ ?_ ?_
    | refine Stamped.stamp_setIntf _ _ ?_ ?_
    | refine Stamped.stamp_when _ _ (fun _ _ => ?_) ?_)))
  all_goals first
    | exact stamp_resNodeValues _
    | exact stamp_vs_streamOffsets
    | exact stamp_tes_streamOffsets
    | exact stamp_gs_esGsOffsets _
    | (intro _ _ l; cases l <;> first
        | exact fun _ => rfl
        | exact fun _ => Or.inl rfl
        | exact fun _ => Or.inr ⟨rfl, rfl⟩
        | exact fun h => Bool.noConfusion h)
    | (intro _ l; cases l <;> first | exact fun _ => rfl | exact fun h => Bool.noConfusion h)

theorem Stamped.stamp_systemValuesCs {s0 s : St}
    (h : Stamped (fun l => l.isSystemArg || l.isWorkgroupIdArg) 0 0 s0 s) :
    Stamped (fun l => l.isSystemArg || l.isWorkgroupIdArg) 0 1 s0 (systemValuesCs s) := by
  unfold Llpc.systemValuesCs
  dsimp only
  repeat (any_goals (with_reducible (first
    | assumption
    | refine Stamped.record_push _ _ _ ?_ ?_
    | refine Stamped.stamp_push _ ?_
    | refine Stamped.stamp_inRegNext ?_
    | refine Stamped.stamp_consume _ ?_
    | refine Stamped.stamp_userDataNext _ ?_
    | refine Stamped.stamp_never ?_
    | refine Stamped.stamp_checkMap _ _ ?_
    | refine Stamped.stamp_reserve _ ?_
    | refine Stamped.stamp_setReserveEsGsLdsSize ?_
    | refine Stamped.stamp_setReserveVbTable ?_
    | refine Stamped.stamp_setReserveStreamOutTable ?_
    | refine Stamped.stamp_require _ ?_
    | refine Stamped.stamp_setAvail _ ?_
    | refine Stamped.stamp_setNeedSpill _ ?_
    | refine Stamped.stamp_sgprArg _ _ _ ?_ ?_
    | refine Stamped.stamp_vgprArg _ _ _ (by omega) ?_ ?_
    | refine Stamped.stamp_argNext (by omega) ?_
    | refine Stamped.stamp_streamOffsetArgs _ _ ?_ _ _ ?_
    | refine Stamped.stamp_vbTableLoop _ _ ?_
    | refine Stamped.stamp_assert _ ?_
    | refine Stamped.record_arg _ _ ?_ ?_
    | refine Stamped.stamp_record _ _ _ ?_ ?_
    | refine Stamped.stamp_setIntf _ _ ?_ ?_
    | refine Stamped.stamp_when _ _ (fun _ _ => ?_) ?_)))
  all_goals first
    | exact stamp_resNodeValues _
    | exact stamp_vs_streamOffsets
    | exact stamp_tes_streamOffsets
    | exact stamp_gs_esGsOffsets _
    | (intro _ _ l; cases l <;> first
        | exact fun _ => rfl
        | exact fun _ => Or.inl rfl
        | exact fun _ => Or.inr ⟨rfl, rfl⟩
        | exact fun h => Bool.noConfusion h)
    | (intro _ l; cases l <;> first | exact fun _ => rfl | exact fun h => Bool.noConfusion h)

/-- The system values of every stage: at most sixteen arguments that are not marked
"inreg". -/
theorem Stamped.stamp_systemValues {s0 s : St} (ctx : Context) (stage : ShaderStage)
    (h : Stamped (fun l => l.isSystemArg || l.isWorkgroupIdArg) 0 0 s0 s) :
    Stamped (fun l => l.isSystemArg || l.isWorkgroupIdArg) 0 16 s0
      (systemValues ctx stage s) := by
  cases stage
  · exact Stamped.stamp_mono (by omega) (Stamped.stamp_systemValuesVs ctx h)
  · exact Stamped.stamp_mono (by omega) (Stamped.stamp_systemValuesTcs ctx h)
  · exact Stamped.stamp_mono (by omega) (Stamped.stamp_systemValuesTes ctx h)
  · exact Stamped.stamp_mono (by omega) (Stamped.stamp_systemValuesGs h)
  · exact Stamped.stamp_systemValuesFs h
  · exact Stamped.stamp_mono (by omega) (Stamped.stamp_systemValuesCs h)

set_option linter.unreachableTactic true
set_option linter.unusedTactic true

/-! ## The special user data of the vertex and tessellation control stages -/

theorem firstNodeOfType_eq_find (ty : ResourceMappingNodeType)
    (body : ResourceNode → St → St) (l : List ResourceNode) (s : St) :
    firstNodeOfType ty body l s
      = match l.find? (fun n => decide (n.type = ty)) with
        | some n => body n s
        | none => s := by
  induction l with
  | nil => rfl
  | cons n l ih =>
    simp only [firstNodeOfType, List.find?_cons]
    by_cases h : n.type = ty
    · simp [h]
    · simp [h, ih]

theorem any_eq_find_isSome {α : Type} (p : α → Bool) (l : List α) :
    l.any p = (l.find? p).isSome := by
  induction l with
  | nil => rfl
  | cons x l ih =>
    simp only [List.any_cons, List.find?_cons]
    cases p x <;> simp [ih]

/-- Number of arguments that the second `switch` adds for the vertex and the tessellation
control stage, for the value `lds` of `reserveEsGsLdsSize`: view index, LDS size, vertex
buffer table pointer, base vertex and base instance, draw index. -/
theorem specialUserData_vs_args (ctx : Context) (stage : ShaderStage) (s : St)
    (hst : stage = .Vertex ∨ stage = .TessControl) :
    (specialUserData ctx stage s).argTys
        = s.argTys
          ++ (if ctx.enableMultiView then [ArgTy.Int32Ty] else [])
          ++ (if s.reserveEsGsLdsSize then [ArgTy.Int32Ty] else [])
          ++ (if ctx.userDataNodes.any (fun n => decide (n.type = .IndirectUserDataVaPtr))
              then [ArgTy.Int32Ty] else [])
          ++ (if (ctx.resUsage (currStage ctx stage)).builtInUsage.vs.baseVertex
                || (ctx.resUsage (currStage ctx stage)).builtInUsage.vs.baseInstance
              then [ArgTy.Int32Ty, ArgTy.Int32Ty] else [])
          ++ (if (ctx.resUsage (currStage ctx stage)).builtInUsage.vs.drawIndex
              then [ArgTy.Int32Ty] else []) := by
  rw [any_eq_find_isSome]
  rcases hst with rfl | rfl <;>
    simp only [specialUserData, firstNodeOfType_eq_find] <;>
    cases h1 : ctx.enableMultiView <;>
    cases h6 : s.reserveEsGsLdsSize <;>
    cases h3 : ctx.userDataNodes.find? (fun n => decide (n.type = .IndirectUserDataVaPtr)) <;>
    cases h4 : ((ctx.resUsage (currStage ctx _)).builtInUsage.vs.baseVertex
      || (ctx.resUsage (currStage ctx _)).builtInUsage.vs.baseInstance) <;>
    cases h5 : (ctx.resUsage (currStage ctx _)).builtInUsage.vs.drawIndex <;>
    simp [St.when, vbTableNode, h1, h6, h4, h5]

theorem St.record_intfData_apply (s : St) (t u : ShaderStage) (get : St → Nat)
    (set : Nat → InterfaceData → InterfaceData) :
    (s.record t get set).intfData u
      = if u = t then set (get s) (s.intfData u) else s.intfData u := by
  by_cases h : u = t
  · subst h
    rw [if_pos rfl, St.record_intfData_same]
  · rw [if_neg h]
    unfold St.record
    exact St.setIntf_intfData_other _ _ _ _ h

theorem currStage_cases (ctx : Context) (stage : ShaderStage) :
    currStage ctx stage = stage ∨ (stage = .TessControl ∧ currStage ctx stage = .Vertex) := by
  unfold currStage
  split
  · rename_i h
    exact Or.inr ⟨h.2.1, rfl⟩
  · exact Or.inl rfl

theorem u32_add_u32 (a b : Nat) : u32 (a + u32 b) = u32 (a + b) := by
  unfold u32
  omega

/-- Argument indices that the second `switch` records for the vertex and the tessellation
control stage, behind a state with `argIdx = a`: the view index at `a`, the vertex buffer
table pointer behind the view index and the LDS size, base vertex and base instance behind
it, the draw index last. -/
theorem specialUserData_vs_indices (ctx : Context) (stage : ShaderStage) (s : St)
    (hst : stage = .Vertex ∨ stage = .TessControl) (ha : s.argIdx < 4294967296) :
    (specialUserData ctx stage s).argIdx
        = u32 (s.argIdx
          + ((if ctx.enableMultiView then 1 else 0)
            + (if s.reserveEsGsLdsSize then 1 else 0)
            + (if ctx.userDataNodes.any (fun n => decide (n.type = .IndirectUserDataVaPtr))
                then 1 else 0)
            + (if (ctx.resUsage (currStage ctx stage)).builtInUsage.vs.baseVertex
                  || (ctx.resUsage (currStage ctx stage)).builtInUsage.vs.baseInstance
                then 2 else 0)
            + (if (ctx.resUsage (currStage ctx stage)).builtInUsage.vs.drawIndex
                then 1 else 0))) ∧
      (ctx.enableMultiView = true →
        ((specialUserData ctx stage s).intfData stage).entryArgIdxs.vs.viewIndex
          = s.argIdx) ∧
      (ctx.userDataNodes.any (fun n => decide (n.type = .IndirectUserDataVaPtr)) = true →
        ((specialUserData ctx stage s).intfData (currStage ctx stage)).entryArgIdxs.vs.vbTablePtr
          = u32 (s.argIdx
            + ((if ctx.enableMultiView then 1 else 0)
              + (if s.reserveEsGsLdsSize then 1 else 0)))) ∧
      (((ctx.resUsage (currStage ctx stage)).builtInUsage.vs.baseVertex
          || (ctx.resUsage (currStage ctx stage)).builtInUsage.vs.baseInstance) = true →
        ((specialUserData ctx stage s).intfData stage).entryArgIdxs.vs.baseVertex
            = u32 (s.argIdx
              + ((if ctx.enableMultiView then 1 else 0)
                + (if s.reserveEsGsLdsSize then 1 else 0)
                + (if ctx.userDataNodes.any
                    (fun n => decide (n.type = .IndirectUserDataVaPtr)) then 1 else 0))) ∧
          ((specialUserData ctx stage s).intfData stage).entryArgIdxs.vs.baseInstance
            = u32 (s.argIdx
              + ((if ctx.enableMultiView then 1 else 0)
                + (if s.reserveEsGsLdsSize then 1 else 0)
                + (if ctx.userDataNodes.any
                    (fun n => decide (n.type = .IndirectUserDataVaPtr)) then 1 else 0)
                + 1))) ∧
      ((ctx.resUsage (currStage ctx stage)).builtInUsage.vs.drawIndex = true →
        ((specialUserData ctx stage s).intfData stage).entryArgIdxs.vs.drawIndex
          = u32 (s.argIdx
            + ((if ctx.enableMultiView then 1 else 0)
              + (if s.reserveEsGsLdsSize then 1 else 0)
              + (if ctx.userDataNodes.any
                  (fun n => decide (n.type = .IndirectUserDataVaPtr)) then 1 else 0)
              + (if (ctx.resUsage (currStage ctx stage)).builtInUsage.vs.baseVertex
                    || (ctx.resUsage (currStage ctx stage)).builtInUsage.vs.baseInstance
                  then 2 else 0)))) := by
  rw [any_eq_find_isSome]
  have hc : currStage ctx stage = stage ∨ currStage ctx stage = .Vertex := by
    rcases currStage_cases ctx stage with h | ⟨_, h⟩
    · exact Or.inl h
    · exact Or.inr h
  generalize hcur : currStage ctx stage = cur at hc
  rcases hst with rfl | rfl <;>
    simp only [specialUserData, firstNodeOfType_eq_find, hcur] <;>
    cases h1 : ctx.enableMultiView <;>
    cases h6 : s.reserveEsGsLdsSize <;>
    cases h3 : ctx.userDataNodes.find? (fun n => decide (n.type = .IndirectUserDataVaPtr)) <;>
    cases h4 : ((ctx.resUsage cur).builtInUsage.vs.baseVertex
      || (ctx.resUsage cur).builtInUsage.vs.baseInstance) <;>
    cases h5 : (ctx.resUsage cur).builtInUsage.vs.drawIndex <;>
    rcases hc with rfl | rfl <;>
    simp [St.when, vbTableNode, h1, h6, h4, h5, St.record_intfData_apply, u32_u32_add,
      Nat.add_assoc, u32_of_lt ha]

/-! ## The groups of arguments of a run -/

theorem Loc.streamOut_class (l : Loc) (h : l.isStreamOutArg = true) :
    l.isArgIdx = true ∧ l.isNodeArg = false ∧ l.isSpillArg = false ∧
      (l.isSpecialArg || l.isWorkgroupIdArg) = false ∧
      (l.isSystemArg || l.isWorkgroupIdArg) = false := by
  cases l <;> first | exact ⟨rfl, rfl, rfl, rfl, rfl⟩ | cases h

theorem Loc.node_class (l : Loc) (h : l.isNodeArg = true) :
    l.isArgIdx = true ∧ l.isStreamOutArg = false ∧ l.isSpillArg = false ∧
      (l.isSpecialArg || l.isWorkgroupIdArg) = false ∧
      (l.isSystemArg || l.isWorkgroupIdArg) = false := by
  cases l <;> first | exact ⟨rfl, rfl, rfl, rfl, rfl⟩ | cases h

theorem Loc.spill_class (l : Loc) (h : l.isSpillArg = true) :
    l.isArgIdx = true ∧ l.isStreamOutArg = false ∧ l.isNodeArg = false ∧
      (l.isSpecialArg || l.isWorkgroupIdArg) = false ∧
      (l.isSystemArg || l.isWorkgroupIdArg) = false := by
  cases l <;> first | exact ⟨rfl, rfl, rfl, rfl, rfl⟩ | cases h

theorem Loc.special_class (l : Loc) (h : l.isSpecialArg = true) :
    l.isArgIdx = true ∧ l.isStreamOutArg = false ∧ l.isNodeArg = false ∧
      l.isSpillArg = false ∧ (l.isSystemArg || l.isWorkgroupIdArg) = false := by
  cases l <;> first | exact ⟨rfl, rfl, rfl, rfl, rfl⟩ | cases h

theorem Loc.system_class (l : Loc) (h : l.isSystemArg = true) :
    l.isArgIdx = true ∧ l.isStreamOutArg = false ∧ l.isNodeArg = false ∧
      l.isSpillArg = false ∧ (l.isSpecialArg || l.isWorkgroupIdArg) = false := by
  cases l <;> first | exact ⟨rfl, rfl, rfl, rfl, rfl⟩ | cases h

theorem Loc.workgroupId_class (l : Loc) (h : l.isWorkgroupIdArg = true) :
    l.isArgIdx = true ∧ l.isStreamOutArg = false ∧ l.isNodeArg = false ∧
      l.isSpillArg = false := by
  cases l <;> first | exact ⟨rfl, rfl, rfl, rfl⟩ | cases h

/-- What a block that is stamped from its start leaves behind, in terms of the numbers of
argument types. -/
theorem Stamped.next {G : Loc → Bool} {v : Nat} {s0 s : St} (h : Stamped G 0 v s0 s)
    (hok : s.ok = true) (e0 : s0.argIdx = s0.argTys.length) (c0 : s0.argIdx ≤ 64) :
    s.argIdx = s.argTys.length ∧ s.argIdx ≤ 64 + v ∧ s0.argTys <+: s.argTys ∧
      (s0.inRegMask < 2 ^ s0.argTys.length → s.inRegMask < 2 ^ s.argTys.length) ∧
      ∀ (u : ShaderStage) (l : Loc), l.isArgIdx = true →
        l.read (s.intfData u) = l.read (s0.intfData u) ∨
          (G l = true ∧ s0.argTys.length ≤ l.read (s.intfData u) ∧
            l.read (s.intfData u) < s.argTys.length) := by
  obtain ⟨q1, q2, q3, q4, q5⟩ := h.2.2 hok e0 c0
  have e : s.argIdx = s.argTys.length := by omega
  refine ⟨e, q3, h.1, ?_, ?_⟩
  · rw [← e0, ← e]
    exact q4
  · intro u l hl
    rcases q5 u l hl with a | ⟨g, b1, b2⟩
    · exact Or.inl a
    · exact Or.inr ⟨g, by omega, by omega⟩

theorem Stamped.frame {G : Loc → Bool} {v : Nat} {s0 s : St} (h : Stamped G 0 v s0 s)
    (hok : s.ok = true) (e0 : s0.argIdx = s0.argTys.length) (c0 : s0.argIdx ≤ 64)
    (u : ShaderStage) (l : Loc) (hl : l.isArgIdx = true) (hG : G l = false) :
    l.read (s.intfData u) = l.read (s0.intfData u) := by
  rcases (h.next hok e0 c0).2.2.2.2 u l hl with a | ⟨g, _⟩
  · exact a
  · rw [hG] at g
    cases g

theorem initState_argIdx_locs (ctx : Context) (stage : ShaderStage)
    (intfData : ShaderStage → InterfaceData) (inRegMask : Nat) (u : ShaderStage) (l : Loc)
    (hl : l.isArgIdx = true) :
    l.read ((initState ctx stage intfData inRegMask).intfData u) = l.read (intfData u) := by
  have h : (initState ctx stage intfData inRegMask).intfData u
      = if u = stage then { intfData u with entryArgIdxs.initialized := true }
        else intfData u := by
    simp [initState, St.setIntf]
  rw [h]
  split
  · cases l <;> first | rfl | cases hl
  · rfl

/-- The states between the groups of arguments of a run without failure: none of them
carries a failure flag, each has `argIdx` equal to the number of its argument types, at
most 64 in front of the system values. -/
theorem run_points (ctx : Context) (stage : ShaderStage)
    (intfData : ShaderStage → InterfaceData) (inRegMask : Nat)
    (hok : (runEntryPointType ctx stage intfData inRegMask).ok = true) :
    ((beforePack ctx stage intfData inRegMask).ok = true ∧
        (beforePack ctx stage intfData inRegMask).argIdx
          = (beforePack ctx stage intfData inRegMask).argTys.length ∧
        (beforePack ctx stage intfData inRegMask).argIdx ≤ 64) ∧
      ((afterPack ctx stage intfData inRegMask).ok = true ∧
        (afterPack ctx stage intfData inRegMask).argIdx
          = (afterPack ctx stage intfData inRegMask).argTys.length ∧
        (afterPack ctx stage intfData inRegMask).argIdx ≤ 64) ∧
      ((afterFixedSpill ctx stage intfData inRegMask).ok = true ∧
        (afterFixedSpill ctx stage intfData inRegMask).argIdx
          = (afterFixedSpill ctx stage intfData inRegMask).argTys.length ∧
        (afterFixedSpill ctx stage intfData inRegMask).argIdx ≤ 64) ∧
      ((afterSpecial ctx stage intfData inRegMask).ok = true ∧
        (afterSpecial ctx stage intfData inRegMask).argIdx
          = (afterSpecial ctx stage intfData inRegMask).argTys.length ∧
        (afterSpecial ctx stage intfData inRegMask).argIdx ≤ 64) ∧
      ((afterUserData ctx stage intfData inRegMask).ok = true ∧
        (afterUserData ctx stage intfData inRegMask).argIdx
          = (afterUserData ctx stage intfData inRegMask).argTys.length ∧
        (afterUserData ctx stage intfData inRegMask).argIdx ≤ 64) ∧
      (runEntryPointType ctx stage intfData inRegMask).argIdx
        = (runEntryPointType ctx stage intfData inRegMask).argTys.length ∧
      (runEntryPointType ctx stage intfData inRegMask).argIdx ≤ 80 := by
  have h6 : Stamped (fun l => l.isSystemArg || l.isWorkgroupIdArg) 0 16
      (afterUserData ctx stage intfData inRegMask)
      (runEntryPointType ctx stage intfData inRegMask) :=
    Stamped.stamp_systemValues ctx stage (Stamped.stamp_refl _ 0 _)
  have h5 : Stamped Loc.isSpillArg 0 0 (afterSpecial ctx stage intfData inRegMask)
      (afterUserData ctx stage intfData inRegMask) :=
    Stamped.stamp_greedySpill stage (Stamped.stamp_refl _ 0 _)
  have h4 : Stamped (fun l => l.isSpecialArg || l.isWorkgroupIdArg) 0 0
      (afterFixedSpill ctx stage intfData inRegMask)
      (afterSpecial ctx stage intfData inRegMask) :=
    Stamped.stamp_specialUserData ctx stage (Stamped.stamp_refl _ 0 _)
  have h3 : Stamped Loc.isSpillArg 0 0 (afterPack ctx stage intfData inRegMask)
      (afterFixedSpill ctx stage intfData inRegMask) :=
    Stamped.stamp_fixedSpill ctx stage (by omega) (Stamped.stamp_refl _ 0 _)
  have h2 : Stamped Loc.isNodeArg 0 0 (beforePack ctx stage intfData inRegMask)
      (afterPack ctx stage intfData inRegMask) :=
    Stamped.stamp_packNodes ctx stage (Stamped.stamp_refl _ 0 _)
  have h1 : Stamped Loc.isStreamOutArg 0 0 (initState ctx stage intfData inRegMask)
      (beforePack ctx stage intfData inRegMask) :=
    Stamped.stamp_allocStreamOut ctx stage (Stamped.stamp_decideSpill ctx stage
      (Stamped.stamp_reserveSpecial ctx stage (Stamped.stamp_scanNodes ctx stage (Stamped.stamp_refl _ 0 _))))
  obtain ⟨i1, i2, _, _⟩ := initState_fields ctx stage intfData inRegMask
  have ok5 := h6.2.1 hok
  have ok4 := h5.2.1 ok5
  have ok3 := h4.2.1 ok4
  have ok2 := h3.2.1 ok3
  have ok1 := h2.2.1 ok2
  have a1 := h1.next ok1 (by rw [i1, i2]; rfl) (by rw [i2]; decide)
  have a2 := h2.next ok2 a1.1 a1.2.1
  have a3 := h3.next ok3 a2.1 a2.2.1
  have a4 := h4.next ok4 a3.1 a3.2.1
  have a5 := h5.next ok5 a4.1 a4.2.1
  have a6 := h6.next hok a5.1 a5.2.1
  exact ⟨⟨ok1, a1.1, a1.2.1⟩, ⟨ok2, a2.1, a2.2.1⟩, ⟨ok3, a3.1, a3.2.1⟩, ⟨ok4, a4.1, a4.2.1⟩,
    ⟨ok5, a5.1, a5.2.1⟩, a6.1, a6.2.1⟩

/-- The argument indices recorded by a run without failure, group by group: every location
of an argument index holds the value it held at the start, or the index of an argument of
the group that records it. The groups are the stream-out table pointer (behind the two
leading arguments), the resource nodes, the spill table of the fixed layout, the special
user data, the spill-table pointer of the path without fixed layout, and the system
values. -/
theorem run_groups (ctx : Context) (stage : ShaderStage)
    (intfData : ShaderStage → InterfaceData) (inRegMask : Nat)
    (hok : (runEntryPointType ctx stage intfData inRegMask).ok = true)
    (u : ShaderStage) (l : Loc) :
    (l.isStreamOutArg = true →
        l.read ((runEntryPointType ctx stage intfData inRegMask).intfData u)
            = l.read (intfData u) ∨
          (2 ≤ l.read ((runEntryPointType ctx stage intfData inRegMask).intfData u) ∧
            l.read ((runEntryPointType ctx stage intfData inRegMask).intfData u)
              < (beforePack ctx stage intfData inRegMask).argTys.length)) ∧
      (l.isNodeArg = true →
        l.read ((runEntryPointType ctx stage intfData inRegMask).intfData u)
            = l.read (intfData u) ∨
          ((beforePack ctx stage intfData inRegMask).argTys.length
              ≤ l.read ((runEntryPointType ctx stage intfData inRegMask).intfData u) ∧
            l.read ((runEntryPointType ctx stage intfData inRegMask).intfData u)
              < (afterPack ctx stage intfData inRegMask).argTys.length)) ∧
      (l.isSpillArg = true →
        l.read ((runEntryPointType ctx stage intfData inRegMask).intfData u)
            = l.read (intfData u) ∨
          ((afterPack ctx stage intfData inRegMask).argTys.length
              ≤ l.read ((runEntryPointType ctx stage intfData inRegMask).intfData u) ∧
            l.read ((runEntryPointType ctx stage intfData inRegMask).intfData u)
              < (afterFixedSpill ctx stage intfData inRegMask).argTys.length) ∨
          ((afterSpecial ctx stage intfData inRegMask).argTys.length
              ≤ l.read ((runEntryPointType ctx stage intfData inRegMask).intfData u) ∧
            l.read ((runEntryPointType ctx stage intfData inRegMask).intfData u)
              < (afterUserData ctx stage intfData inRegMask).argTys.length)) ∧
      (l.isSpecialArg = true →
        l.read ((runEntryPointType ctx stage intfData inRegMask).intfData u)
            = l.read (intfData u) ∨
          ((afterFixedSpill ctx stage intfData inRegMask).argTys.length
              ≤ l.read ((runEntryPointType ctx stage intfData inRegMask).intfData u) ∧
            l.read ((runEntryPointType ctx stage intfData inRegMask).intfData u)
              < (afterSpecial ctx stage intfData inRegMask).argTys.length)) ∧
      (l.isSystemArg = true →
        l.read ((runEntryPointType ctx stage intfData inRegMask).intfData u)
            = l.read (intfData u) ∨
          ((afterUserData ctx stage intfData inRegMask).argTys.length
              ≤ l.read ((runEntryPointType ctx stage intfData inRegMask).intfData u) ∧
            l.read ((runEntryPointType ctx stage intfData inRegMask).intfData u)
              < (runEntryPointType ctx stage intfData inRegMask).argTys.length)) ∧
      (l.isWorkgroupIdArg = true →
        l.read ((runEntryPointType ctx stage intfData inRegMask).intfData u)
            = l.read (intfData u) ∨
          ((afterFixedSpill ctx stage intfData inRegMask).argTys.length
              ≤ l.read ((runEntryPointType ctx stage intfData inRegMask).intfData u) ∧
            l.read ((runEntryPointType ctx stage intfData inRegMask).intfData u)
              < (afterSpecial ctx stage intfData inRegMask).argTys.length) ∨
          ((afterUserData ctx stage intfData inRegMask).argTys.length
              ≤ l.read ((runEntryPointType ctx stage intfData inRegMask).intfData u) ∧
            l.read ((runEntryPointType ctx stage intfData inRegMask).intfData u)
              < (runEntryPointType ctx stage intfData inRegMask).argTys.length)) := by
  have h6 : Stamped (fun l => l.isSystemArg || l.isWorkgroupIdArg) 0 16
      (afterUserData ctx stage intfData inRegMask)
      (runEntryPointType ctx stage intfData inRegMask) :=
    Stamped.stamp_systemValues ctx stage (Stamped.stamp_refl _ 0 _)
  have h5 : Stamped Loc.isSpillArg 0 0 (afterSpecial ctx stage intfData inRegMask)
      (afterUserData ctx stage intfData inRegMask) :=
    Stamped.stamp_greedySpill stage (Stamped.stamp_refl _ 0 _)
  have h4 : Stamped (fun l => l.isSpecialArg || l.isWorkgroupIdArg) 0 0
      (afterFixedSpill ctx stage intfData inRegMask)
      (afterSpecial ctx stage intfData inRegMask) :=
    Stamped.stamp_specialUserData ctx stage (Stamped.stamp_refl _ 0 _)
  have h3 : Stamped Loc.isSpillArg 0 0 (afterPack ctx stage intfData inRegMask)
      (afterFixedSpill ctx stage intfData inRegMask) :=
    Stamped.stamp_fixedSpill ctx stage (by omega) (Stamped.stamp_refl _ 0 _)
  have h2 : Stamped Loc.isNodeArg 0 0 (beforePack ctx stage intfData inRegMask)
      (afterPack ctx stage intfData inRegMask) :=
    Stamped.stamp_packNodes ctx stage (Stamped.stamp_refl _ 0 _)
  have h1 : Stamped Loc.isStreamOutArg 0 0 (initState ctx stage intfData inRegMask)
      (beforePack ctx stage intfData inRegMask) :=
    Stamped.stamp_allocStreamOut ctx stage (Stamped.stamp_decideSpill ctx stage
      (Stamped.stamp_reserveSpecial ctx stage (Stamped.stamp_scanNodes ctx stage (Stamped.stamp_refl _ 0 _))))
  obtain ⟨i1, i2, _, _⟩ := initState_fields ctx stage intfData inRegMask
  obtain ⟨⟨ok1, e1, c1⟩, ⟨ok2, e2, c2⟩, ⟨ok3, e3, c3⟩, ⟨ok4, e4, c4⟩, ⟨ok5, e5, c5⟩, _, _⟩ :=
    run_points ctx stage intfData inRegMask hok
  have e0 : (initState ctx stage intfData inRegMask).argIdx
      = (initState ctx stage intfData inRegMask).argTys.length := by
    rw [i1, i2]
    rfl
  have c0 : (initState ctx stage intfData inRegMask).argIdx ≤ 64 := by
    rw [i2]
    decide
  have len0 : (initState ctx stage intfData inRegMask).argTys.length = 2 := by
    rw [i1]
    rfl
  have r0 := initState_argIdx_locs ctx stage intfData inRegMask u l
  have a1 := (h1.next ok1 e0 c0).2.2.2.2 u l
  have a2 := (h2.next ok2 e1 c1).2.2.2.2 u l
  have a3 := (h3.next ok3 e2 c2).2.2.2.2 u l
  have a4 := (h4.next ok4 e3 c3).2.2.2.2 u l
  have a5 := (h5.next ok5 e4 c4).2.2.2.2 u l
  have a6 := (h6.next hok e5 c5).2.2.2.2 u l
  have f1 := h1.frame ok1 e0 c0 u l
  have f2 := h2.frame ok2 e1 c1 u l
  have f3 := h3.frame ok3 e2 c2 u l
  have f4 := h4.frame ok4 e3 c3 u l
  have f5 := h5.frame ok5 e4 c4 u l
  have f6 := h6.frame hok e5 c5 u l
  rw [len0] at a1
  refine ⟨fun hl => ?_, fun hl => ?_, fun hl => ?_, fun hl => ?_, fun hl => ?_, fun hl => ?_⟩
  · obtain ⟨k0, k2, k3, k4, k6⟩ := Loc.streamOut_class l hl
    rw [f6 k0 k6, f5 k0 k3, f4 k0 k4, f3 k0 k3, f2 k0 k2]
    rcases a1 k0 with a | ⟨_, b⟩
    · exact Or.inl (a.trans (r0 k0))
    · exact Or.inr b
  · obtain ⟨k0, k1, k3, k4, k6⟩ := Loc.node_class l hl
    rw [f6 k0 k6, f5 k0 k3, f4 k0 k4, f3 k0 k3]
    rcases a2 k0 with a | ⟨_, b⟩
    · exact Or.inl (a.trans ((f1 k0 k1).trans (r0 k0)))
    · exact Or.inr b
  · obtain ⟨k0, k1, k2, k4, k6⟩ := Loc.spill_class l hl
    rw [f6 k0 k6]
    rcases a5 k0 with a | ⟨_, b⟩
    · rw [a, f4 k0 k4]
      rcases a3 k0 with a' | ⟨_, b⟩
      · exact Or.inl (a'.trans ((f2 k0 k2).trans ((f1 k0 k1).trans (r0 k0))))
      · exact Or.inr (Or.inl b)
    · exact Or.inr (Or.inr b)
  · obtain ⟨k0, k1, k2, k3, k6⟩ := Loc.special_class l hl
    rw [f6 k0 k6, f5 k0 k3]
    rcases a4 k0 with a | ⟨_, b⟩
    · exact Or.inl (a.trans ((f3 k0 k3).trans ((f2 k0 k2).trans ((f1 k0 k1).trans (r0 k0)))))
    · exact Or.inr b
  · obtain ⟨k0, k1, k2, k3, k4⟩ := Loc.system_class l hl
    rcases a6 k0 with a | ⟨_, b⟩
    · exact Or.inl (a.trans ((f5 k0 k3).trans ((f4 k0 k4).trans ((f3 k0 k3).trans
        ((f2 k0 k2).trans ((f1 k0 k1).trans (r0 k0)))))))
    · exact Or.inr b
  · obtain ⟨k0, k1, k2, k3⟩ := Loc.workgroupId_class l hl
    rcases a6 k0 with a | ⟨_, b⟩
    · rw [a, f5 k0 k3]
      rcases a4 k0 with a' | ⟨_, b⟩
      · exact Or.inl (a'.trans ((f3 k0 k3).trans ((f2 k0 k2).trans ((f1 k0 k1).trans (r0 k0)))))
      · exact Or.inr (Or.inl b)
    · exact Or.inr (Or.inr b)

/-! ## Write sets behind a primitive statement -/

theorem Frame.frame_refl (G : ShaderStage → Loc → Bool) (s : St) : Frame G s s :=
  fun _ _ _ => rfl

theorem Frame.trans {G : ShaderStage → Loc → Bool} {s0 s1 s2 : St} (h1 : Frame G s0 s1)
    (h2 : Frame G s1 s2) : Frame G s0 s2 :=
  fun u l g => (h2 u l g).trans (h1 u l g)

theorem Frame.frame_mono {G G' : ShaderStage → Loc → Bool} {s0 s : St}
    (hG : ∀ u l, G' u l = false → G u l = false) (h : Frame G s0 s) : Frame G' s0 s :=
  fun u l g => h u l (hG u l g)

/-- A statement that leaves the interface data as they are. -/
theorem Frame.frame_of_same {G : ShaderStage → Loc → Bool} {s0 s : St} (p : St → St)
    (h : (p s).intfData = s.intfData) (hf : Frame G s0 s) : Frame G s0 (p s) :=
  fun u l g => by rw [h]; exact hf u l g

theorem Frame.frame_push {G : ShaderStage → Loc → Bool} {s0 s : St} (ty : ArgTy)
    (h : Frame G s0 s) : Frame G s0 (s.push ty) :=
  Frame.frame_of_same (St.push ty) (by simp) h

theorem Frame.frame_inReg {G : ShaderStage → Loc → Bool} {s0 s : St}
    (h : Frame G s0 s) : Frame G s0 s.inReg :=
  Frame.frame_of_same St.inReg (by simp) h

theorem Frame.frame_argNext {G : ShaderStage → Loc → Bool} {s0 s : St}
    (h : Frame G s0 s) : Frame G s0 s.argNext :=
  Frame.frame_of_same St.argNext (by simp) h

theorem Frame.frame_inRegNext {G : ShaderStage → Loc → Bool} {s0 s : St}
    (h : Frame G s0 s) : Frame G s0 s.inRegNext :=
  Frame.frame_of_same St.inRegNext (by simp) h

theorem Frame.frame_consume {G : ShaderStage → Loc → Bool} {s0 s : St} (n : Nat)
    (h : Frame G s0 s) : Frame G s0 (s.consume n) :=
  Frame.frame_of_same (St.consume n) (by simp) h

theorem Frame.frame_userDataNext {G : ShaderStage → Loc → Bool} {s0 s : St} (n : Nat)
    (h : Frame G s0 s) : Frame G s0 (s.userDataNext n) :=
  Frame.frame_of_same (St.userDataNext n) (by simp) h

theorem Frame.frame_reserve {G : ShaderStage → Loc → Bool} {s0 s : St} (n : Nat)
    (h : Frame G s0 s) : Frame G s0 (s.reserve n) :=
  Frame.frame_of_same (St.reserve n) (by simp) h

theorem Frame.frame_setReserveVbTable {G : ShaderStage → Loc → Bool} {s0 s : St}
    (h : Frame G s0 s) : Frame G s0 s.setReserveVbTable :=
  Frame.frame_of_same St.setReserveVbTable (by simp) h

theorem Frame.frame_setReserveStreamOutTable {G : ShaderStage → Loc → Bool} {s0 s : St}
    (h : Frame G s0 s) : Frame G s0 s.setReserveStreamOutTable :=
  Frame.frame_of_same St.setReserveStreamOutTable (by simp) h

theorem Frame.frame_setReserveEsGsLdsSize {G : ShaderStage → Loc → Bool} {s0 s : St}
    (h : Frame G s0 s) : Frame G s0 s.setReserveEsGsLdsSize :=
  Frame.frame_of_same St.setReserveEsGsLdsSize (by simp) h

theorem Frame.frame_require {G : ShaderStage → Loc → Bool} {s0 s : St} (n : ResourceNode)
    (h : Frame G s0 s) : Frame G s0 (s.require n) :=
  Frame.frame_of_same (St.require n) (by simp) h

theorem Frame.frame_setNeedSpill {G : ShaderStage → Loc → Bool} {s0 s : St} (b : Bool)
    (h : Frame G s0 s) : Frame G s0 (s.setNeedSpill b) :=
  Frame.frame_of_same (St.setNeedSpill b) (by simp) h

theorem Frame.frame_setAvail {G : ShaderStage → Loc → Bool} {s0 s : St} (n : Nat)
    (h : Frame G s0 s) : Frame G s0 (s.setAvail n) :=
  Frame.frame_of_same (St.setAvail n) (by simp) h

theorem Frame.frame_never {G : ShaderStage → Loc → Bool} {s0 s : St}
    (h : Frame G s0 s) : Frame G s0 s.never :=
  Frame.frame_of_same St.never (by simp) h

theorem Frame.frame_checkMap {G : ShaderStage → Loc → Bool} {s0 s : St} (len count : Nat)
    (h : Frame G s0 s) : Frame G s0 (s.checkMap len count) :=
  Frame.frame_of_same (St.checkMap len count) (by simp) h

theorem Frame.frame_assert {G : ShaderStage → Loc → Bool} {s0 s : St} (c : St → Bool)
    (h : Frame G s0 s) : Frame G s0 (s.assert c) :=
  Frame.frame_of_same (St.assert c) (by simp) h

theorem Frame.frame_when {G : ShaderStage → Loc → Bool} {s0 s : St} (c : St → Bool)
    (body : St → St) (hbody : ∀ t, Frame G s0 t → Frame G s0 (body t))
    (h : Frame G s0 s) : Frame G s0 (s.when c body) := by
  unfold St.when
  split
  · exact hbody s h
  · exact h

/-- An assignment through a pointer to the interface data of stage `t` that touches only
locations of the write set. -/
theorem Frame.setIntf_at {G : ShaderStage → Loc → Bool} {s0 s : St} (t : ShaderStage)
    (f : InterfaceData → InterfaceData)
    (hf : ∀ (d : InterfaceData) (l : Loc), G t l = false → l.read (f d) = l.read d)
    (h : Frame G s0 s) : Frame G s0 (s.setIntf t f) := by
  intro u l g
  by_cases hu : u = t
  · subst hu
    rw [St.setIntf_intfData_same, hf _ l g]
    exact h u l g
  · rw [St.setIntf_intfData_other _ _ _ _ hu]
    exact h u l g

theorem Frame.record_at {G : ShaderStage → Loc → Bool} {s0 s : St} (t : ShaderStage)
    (get : St → Nat) (set : Nat → InterfaceData → InterfaceData)
    (hset : ∀ (a : Nat) (d : InterfaceData) (l : Loc), G t l = false →
      l.read (set a d) = l.read d)
    (h : Frame G s0 s) : Frame G s0 (s.record t get set) :=
  Frame.setIntf_at t (set (get s)) (hset (get s)) h

theorem ownWrites_self (stage : ShaderStage) (W : Loc → Bool) (l : Loc) :
    ownWrites stage W stage l = W l := by
  simp [ownWrites]

theorem ownWrites_other (stage u : ShaderStage) (W : Loc → Bool) (l : Loc) (h : u ≠ stage) :
    ownWrites stage W u l = false := by
  simp [ownWrites, h]

theorem Frame.setIntf_own {stage : ShaderStage} {W : Loc → Bool} {s0 s : St}
    (f : InterfaceData → InterfaceData)
    (hf : ∀ (d : InterfaceData) (l : Loc), W l = false → l.read (f d) = l.read d)
    (h : Frame (ownWrites stage W) s0 s) : Frame (ownWrites stage W) s0 (s.setIntf stage f) :=
  Frame.setIntf_at stage f (fun d l g => hf d l (by rwa [ownWrites_self] at g)) h

theorem Frame.record_own {stage : ShaderStage} {W : Loc → Bool} {s0 s : St}
    (get : St → Nat) (set : Nat → InterfaceData → InterfaceData)
    (hset : ∀ (a : Nat) (d : InterfaceData) (l : Loc), W l = false →
      l.read (set a d) = l.read d)
    (h : Frame (ownWrites stage W) s0 s) :
    Frame (ownWrites stage W) s0 (s.record stage get set) :=
  Frame.setIntf_own (set (get s)) (hset (get s)) h

theorem Frame.record_left {t1 t2 : ShaderStage} {W1 W2 : Loc → Bool} {s0 s : St}
    (get : St → Nat) (set : Nat → InterfaceData → InterfaceData)
    (hset : ∀ (a : Nat) (d : InterfaceData) (l : Loc), W1 l = false →
      l.read (set a d) = l.read d)
    (h : Frame (bothWrites t1 W1 t2 W2) s0 s) :
    Frame (bothWrites t1 W1 t2 W2) s0 (s.record t1 get set) :=
  Frame.record_at t1 get set (fun a d l g => hset a d l (by
    simp only [bothWrites, decide_True, Bool.true_and, Bool.or_eq_false_iff] at g
    exact g.1)) h

theorem Frame.record_right {t1 t2 : ShaderStage} {W1 W2 : Loc → Bool} {s0 s : St}
    (get : St → Nat) (set : Nat → InterfaceData → InterfaceData)
    (hset : ∀ (a : Nat) (d : InterfaceData) (l : Loc), W2 l = false →
      l.read (set a d) = l.read d)
    (h : Frame (bothWrites t1 W1 t2 W2) s0 s) :
    Frame (bothWrites t1 W1 t2 W2) s0 (s.record t2 get set) :=
  Frame.record_at t2 get set (fun a d l g => hset a d l (by
    simp only [bothWrites, decide_True, Bool.true_and, Bool.or_eq_false_iff] at g
    exact g.2)) h

theorem Frame.sgprArg_own {stage : ShaderStage} {W : Loc → Bool} {s0 s : St}
    (ty : ArgTy) (set : Nat → InterfaceData → InterfaceData)
    (hset : ∀ (a : Nat) (d : InterfaceData) (l : Loc), W l = false →
      l.read (set a d) = l.read d)
    (h : Frame (ownWrites stage W) s0 s) :
    Frame (ownWrites stage W) s0 (s.sgprArg stage ty set) := by
  rw [St.sgprArg_eq]
  exact Frame.frame_inRegNext (Frame.record_own _ set hset (Frame.frame_push ty h))

theorem Frame.vgprArg_own {stage : ShaderStage} {W : Loc → Bool} {s0 s : St}
    (ty : ArgTy) (set : Nat → InterfaceData → InterfaceData)
    (hset : ∀ (a : Nat) (d : InterfaceData) (l : Loc), W l = false →
      l.read (set a d) = l.read d)
    (h : Frame (ownWrites stage W) s0 s) :
    Frame (ownWrites stage W) s0 (s.vgprArg stage ty set) := by
  rw [St.vgprArg_eq]
  exact Frame.frame_argNext (Frame.record_own _ set hset (Frame.frame_push ty h))

/-! ## Write sets behind a loop -/

theorem Frame.frame_forNodes {G : ShaderStage → Loc → Bool} {s0 : St}
    (body : Nat → ResourceNode → St → St)
    (hbody : ∀ i n t, Frame G s0 t → Frame G s0 (body i n t))
    (i : Nat) (l : List ResourceNode) {s : St} (h : Frame G s0 s) :
    Frame G s0 (Llpc.forNodes body i l s) := by
  induction l generalizing i s with
  | nil => exact h
  | cons n l ih =>
    simp only [Llpc.forNodes]
    exact ih _ (hbody _ _ _ h)

theorem Frame.frame_firstNodeOfType {G : ShaderStage → Loc → Bool} {s0 : St}
    (ty : ResourceMappingNodeType) (body : ResourceNode → St → St)
    (hbody : ∀ n t, Frame G s0 t → Frame G s0 (body n t))
    (l : List ResourceNode) {s : St} (h : Frame G s0 s) :
    Frame G s0 (Llpc.firstNodeOfType ty body l s) := by
  induction l with
  | nil => exact h
  | cons n l ih =>
    simp only [Llpc.firstNodeOfType]
    split
    · exact hbody _ _ h
    · exact ih

theorem Frame.streamOffsetArgs_own {stage : ShaderStage} {W : Loc → Bool} {s0 : St}
    (record : Nat → Nat → InterfaceData → InterfaceData)
    (hrec : ∀ (i a : Nat) (d : InterfaceData) (l : Loc), W l = false →
      l.read (record i a d) = l.read d)
    (i : Nat) (l : List Nat) {s : St} (h : Frame (ownWrites stage W) s0 s) :
    Frame (ownWrites stage W) s0 (Llpc.streamOffsetArgs stage record i l s) := by
  induction l generalizing i s with
  | nil => exact h
  | cons stride rest ih =>
    simp only [Llpc.streamOffsetArgs]
    refine ih (i + 1) ?_
    exact Frame.frame_when _ _
      (fun _ hab => Frame.frame_inRegNext (Frame.record_own _ _ (hrec i) (Frame.frame_push _ hab))) h

theorem Frame.frame_fillDummies {G : ShaderStage → Loc → Bool} {s0 : St} (ctx : Context)
    (off fuel : Nat) {s : St} (h : Frame G s0 s) :
    Frame G s0 (Llpc.fillDummies ctx off fuel s) := by
  induction fuel generalizing s with
  | zero => exact h
  | succ fuel ih =>
    rw [Llpc.fillDummies]
    split
    · exact ih (Frame.frame_consume 1 (Frame.frame_userDataNext 1 (Frame.frame_inRegNext (Frame.frame_push _ h))))
    · exact h

theorem Frame.frame_fillToSpill {G : ShaderStage → Loc → Bool} {s0 : St} (ctx : Context)
    (fuel : Nat) {s : St} (h : Frame G s0 s) :
    Frame G s0 (Llpc.fillToSpill ctx fuel s) := by
  induction fuel generalizing s with
  | zero => exact h
  | succ fuel ih =>
    rw [Llpc.fillToSpill]
    split
    · exact ih (Frame.frame_userDataNext 1 (Frame.frame_inRegNext (Frame.frame_push _ h)))
    · exact h

/-! ## Write sets of the blocks of the function -/

set_option linter.unreachableTactic false
set_option linter.unusedTactic false

theorem Frame.frame_scanNode {s0 s : St} (ctx : Context) (stage : ShaderStage) (i : Nat)
    (n : ResourceNode) (h : Frame (ownWrites stage Loc.ofHead) s0 s) :
    Frame (ownWrites stage Loc.ofHead) s0 (scanNode ctx stage i n s) := by
  unfold Llpc.scanNode
  dsimp only
  split_ifs <;>
  repeat (any_goals (with_reducible (first
    | assumption
    | refine Frame.frame_push _ ?_
    | refine Frame.frame_inRegNext ?_
    | refine Frame.frame_inReg ?_
    | refine Frame.frame_argNext ?_
    | refine Frame.frame_consume _ ?_
    | refine Frame.frame_userDataNext _ ?_
    | refine Frame.frame_never ?_
    | refine Frame.frame_checkMap _ _ ?_
    | refine Frame.frame_reserve _ ?_
    | refine Frame.frame_setReserveEsGsLdsSize ?_
    | refine Frame.frame_setReserveVbTable ?_
    | refine Frame.frame_setReserveStreamOutTable ?_
    | refine Frame.frame_require _ ?_
    | refine Frame.frame_setAvail _ ?_
    | refine Frame.frame_setNeedSpill _ ?_
    | refine Frame.sgprArg_own _ _ ?_ ?_
    | refine Frame.vgprArg_own _ _ ?_ ?_
    | refine Frame.streamOffsetArgs_own _ ?_ _ _ ?_
    | refine Frame.frame_vbTableLoop _ _ ?_
    | refine Frame.frame_assert _ ?_
    | refine Frame.record_own _ _ ?_ ?_
    | refine Frame.record_left _ _ ?_ ?_
    | refine Frame.record_right _ _ ?_ ?_
    | refine Frame.setIntf_own _ ?_ ?_
    | refine Frame.frame_when _ _ (fun _ _ => ?_) ?_)))
  all_goals first
    | (intro _ _ l; cases l <;> first | exact fun _ => rfl | exact fun h => Bool.noConfusion h)
    | (intro _ _ _ l; cases l <;> first | exact fun _ => rfl | exact fun h => Bool.noConfusion h)
    | (intro _ l; cases l <;> first | exact fun _ => rfl | exact fun h => Bool.noConfusion h)

theorem Frame.frame_scanNodes {s0 s : St} (ctx : Context) (stage : ShaderStage)
    (h : Frame (ownWrites stage Loc.ofHead) s0 s) :
    Frame (ownWrites stage Loc.ofHead) s0 (scanNodes ctx stage s) :=
  Frame.frame_forNodes _ (fun i n _ hab => Frame.frame_scanNode ctx stage i n hab) 0 _ h

theorem Frame.frame_reserveSpecial {G : ShaderStage → Loc → Bool} {s0 s : St} (ctx : Context)
    (stage : ShaderStage) (h : Frame G s0 s) : Frame G s0 (reserveSpecial ctx stage s) := by
  cases stage <;> simp only [Llpc.reserveSpecial] <;>
  repeat (any_goals (with_reducible (first
    | assumption
    | refine Frame.frame_push _ ?_
    | refine Frame.frame_inRegNext ?_
    | refine Frame.frame_inReg ?_
    | refine Frame.frame_argNext ?_
    | refine Frame.frame_consume _ ?_
    | refine Frame.frame_userDataNext _ ?_
    | refine Frame.frame_never ?_
    | refine Frame.frame_checkMap _ _ ?_
    | refine Frame.frame_reserve _ ?_
    | refine Frame.frame_setReserveEsGsLdsSize ?_
    | refine Frame.frame_setReserveVbTable ?_
    | refine Frame.frame_setReserveStreamOutTable ?_
    | refine Frame.frame_require _ ?_
    | refine Frame.frame_setAvail _ ?_
    | refine Frame.frame_setNeedSpill _ ?_
    | refine Frame.sgprArg_own _ _ ?_ ?_
    | refine Frame.vgprArg_own _ _ ?_ ?_
    | refine Frame.streamOffsetArgs_own _ ?_ _ _ ?_
    | refine Frame.frame_vbTableLoop _ _ ?_
    | refine Frame.frame_assert _ ?_
    | refine Frame.record_own _ _ ?_ ?_
    | refine Frame.record_left _ _ ?_ ?_
    | refine Frame.record_right _ _ ?_ ?_
    | refine Frame.setIntf_own _ ?_ ?_
    | refine Frame.frame_when _ _ (fun _ _ => ?_) ?_)))
  all_goals first
    | (intro _ _ l; cases l <;> first | exact fun _ => rfl | exact fun h => Bool.noConfusion h)
    | (intro _ _ _ l; cases l <;> first | exact fun _ => rfl | exact fun h => Bool.noConfusion h)
    | (intro _ l; cases l <;> first | exact fun _ => rfl | exact fun h => Bool.noConfusion h)

theorem Frame.frame_decideSpill {s0 s : St} (ctx : Context) (stage : ShaderStage)
    (h : Frame (ownWrites stage Loc.ofHead) s0 s) :
    Frame (ownWrites stage Loc.ofHead) s0 (decideSpill ctx stage s) := by
  unfold Llpc.decideSpill
  split <;> dsimp only <;>
  repeat (any_goals (with_reducible (first
    | assumption
    | refine Frame.frame_push _ ?_
    | refine Frame.frame_inRegNext ?_
    | refine Frame.frame_inReg ?_
    | refine Frame.frame_argNext ?_
    | refine Frame.frame_consume _ ?_
    | refine Frame.frame_userDataNext _ ?_
    | refine Frame.frame_never ?_
    | refine Frame.frame_checkMap _ _ ?_
    | refine Frame.frame_reserve _ ?_
    | refine Frame.frame_setReserveEsGsLdsSize ?_
    | refine Frame.frame_setReserveVbTable ?_
    | refine Frame.frame_setReserveStreamOutTable ?_
    | refine Frame.frame_require _ ?_
    | refine Frame.frame_setAvail _ ?_
    | refine Frame.frame_setNeedSpill _ ?_
    | refine Frame.sgprArg_own _ _ ?_ ?_
    | refine Frame.vgprArg_own _ _ ?_ ?_
    | refine Frame.streamOffsetArgs_own _ ?_ _ _ ?_
    | refine Frame.frame_vbTableLoop _ _ ?_
    | refine Frame.frame_assert _ ?_
    | refine Frame.record_own _ _ ?_ ?_
    | refine Frame.record_left _ _ ?_ ?_
    | refine Frame.record_right _ _ ?_ ?_
    | refine Frame.setIntf_own _ ?_ ?_
    | refine Frame.frame_when _ _ (fun _ _ => ?_) ?_)))
  all_goals first
    | (intro _ _ l; cases l <;> first | exact fun _ => rfl | exact fun h => Bool.noConfusion h)
    | (intro _ _ _ l; cases l <;> first | exact fun _ => rfl | exact fun h => Bool.noConfusion h)
    | (intro _ l; cases l <;> first | exact fun _ => rfl | exact fun h => Bool.noConfusion h)

theorem Frame.frame_allocStreamOutNode {s0 s : St} (stage : ShaderStage) (n : ResourceNode)
    (h : Frame (ownWrites stage Loc.ofStreamOut) s0 s) :
    Frame (ownWrites stage Loc.ofStreamOut) s0 (allocStreamOutNode stage n s) := by
  cases stage <;> simp only [Llpc.allocStreamOutNode] <;>
  repeat (any_goals (with_reducible (first
    | assumption
    | refine Frame.frame_push _ ?_
    | refine Frame.frame_inRegNext ?_
    | refine Frame.frame_inReg ?_
    | refine Frame.frame_argNext ?_
    | refine Frame.frame_consume _ ?_
    | refine Frame.frame_userDataNext _ ?_
    | refine Frame.frame_never ?_
    | refine Frame.frame_checkMap _ _ ?_
    | refine Frame.frame_reserve _ ?_
    | refine Frame.frame_setReserveEsGsLdsSize ?_
    | refine Frame.frame_setReserveVbTable ?_
    | refine Frame.frame_setReserveStreamOutTable ?_
    | refine Frame.frame_require _ ?_
    | refine Frame.frame_setAvail _ ?_
    | refine Frame.frame_setNeedSpill _ ?_
    | refine Frame.sgprArg_own _ _ ?_ ?_
    | refine Frame.vgprArg_own _ _ ?_ ?_
    | refine Frame.streamOffsetArgs_own _ ?_ _ _ ?_
    | refine Frame.frame_vbTableLoop _ _ ?_
    | refine Frame.frame_assert _ ?_
    | refine Frame.record_own _ _ ?_ ?_
    | refine Frame.record_left _ _ ?_ ?_
    | refine Frame.record_right _ _ ?_ ?_
    | refine Frame.setIntf_own _ ?_ ?_
    | refine Frame.frame_when _ _ (fun _ _ => ?_) ?_)))
  all_goals first
    | (intro _ _ l; cases l <;> first | exact fun _ => rfl | exact fun h => Bool.noConfusion h)
    | (intro _ _ _ l; cases l <;> first | exact fun _ => rfl | exact fun h => Bool.noConfusion h)
    | (intro _ l; cases l <;> first | exact fun _ => rfl | exact fun h => Bool.noConfusion h)

theorem Frame.frame_allocStreamOut {s0 s : St} (ctx : Context) (stage : ShaderStage)
    (h : Frame (ownWrites stage Loc.ofStreamOut) s0 s) :
    Frame (ownWrites stage Loc.ofStreamOut) s0 (allocStreamOut ctx stage s) := by
  unfold Llpc.allocStreamOut
  split
  · exact Frame.frame_firstNodeOfType _ _ (fun n _ hab => Frame.frame_allocStreamOutNode stage n hab) _ h
  · exact h

theorem Frame.frame_padNode {G : ShaderStage → Loc → Bool} {s0 s : St} (ctx : Context)
    (stage : ShaderStage) (n : ResourceNode) (h : Frame G s0 s) :
    Frame G s0 (padNode ctx stage n s) := by
  unfold Llpc.padNode
  split
  · exact Frame.frame_fillDummies ctx _ _ h
  · exact h

theorem Frame.frame_assignNode {s0 s : St} (ctx : Context) (stage : ShaderStage) (i : Nat)
    (n : ResourceNode) (h : Frame (ownWrites stage Loc.ofPack) s0 s) :
    Frame (ownWrites stage Loc.ofPack) s0 (assignNode ctx stage i n s) := by
  unfold Llpc.assignNode
  dsimp only
  cases n.type <;> dsimp only <;>
  repeat (any_goals (with_reducible (first
    | assumption
    | refine Frame.frame_push _ ?_
    | refine Frame.frame_inRegNext ?_
    | refine Frame.frame_inReg ?_
    | refine Frame.frame_argNext ?_
    | refine Frame.frame_consume _ ?_
    | refine Frame.frame_userDataNext _ ?_
    | refine Frame.frame_never ?_
    | refine Frame.frame_checkMap _ _ ?_
    | refine Frame.frame_reserve _ ?_
    | refine Frame.frame_setReserveEsGsLdsSize ?_
    | refine Frame.frame_setReserveVbTable ?_
    | refine Frame.frame_setReserveStreamOutTable ?_
    | refine Frame.frame_require _ ?_
    | refine Frame.frame_setAvail _ ?_
    | refine Frame.frame_setNeedSpill _ ?_
    | refine Frame.sgprArg_own _ _ ?_ ?_
    | refine Frame.vgprArg_own _ _ ?_ ?_
    | refine Frame.streamOffsetArgs_own _ ?_ _ _ ?_
    | refine Frame.frame_vbTableLoop _ _ ?_
    | refine Frame.frame_assert _ ?_
    | refine Frame.record_own _ _ ?_ ?_
    | refine Frame.record_left _ _ ?_ ?_
    | refine Frame.record_right _ _ ?_ ?_
    | refine Frame.setIntf_own _ ?_ ?_
    | refine Frame.frame_when _ _ (fun _ _ => ?_) ?_)))
  all_goals first
    | (intro _ _ l; cases l <;> first | exact fun _ => rfl | exact fun h => Bool.noConfusion h)
    | (intro _ _ _ l; cases l <;> first | exact fun _ => rfl | exact fun h => Bool.noConfusion h)
    | (intro _ l; cases l <;> first | exact fun _ => rfl | exact fun h => Bool.noConfusion h)

theorem Frame.frame_packNode {s0 s : St} (ctx : Context) (stage : ShaderStage) (i : Nat)
    (n : ResourceNode) (h : Frame (ownWrites stage Loc.ofPack) s0 s) :
    Frame (ownWrites stage Loc.ofPack) s0 (packNode ctx stage i n s) := by
  unfold Llpc.packNode
  dsimp only
  have hp := Frame.frame_padNode ctx stage n h
  split_ifs
  · exact h
  · exact h
  · exact h
  · exact Frame.frame_assignNode ctx stage i n hp
  · exact Frame.setIntf_own _
      (by intro _ l; cases l <;> first | exact fun _ => rfl | exact fun h => Bool.noConfusion h)
      hp
  · exact hp

theorem Frame.frame_packNodes {s0 s : St} (ctx : Context) (stage : ShaderStage)
    (h : Frame (ownWrites stage Loc.ofPack) s0 s) :
    Frame (ownWrites stage Loc.ofPack) s0 (packNodes ctx stage s) :=
  Frame.frame_forNodes _ (fun i n _ hab => Frame.frame_packNode ctx stage i n hab) 0 _ h

theorem Frame.frame_fixedSpill {s0 s : St} (ctx : Context) (stage : ShaderStage)
    (h : Frame (ownWrites stage Loc.ofSpill) s0 s) :
    Frame (ownWrites stage Loc.ofSpill) s0 (fixedSpill ctx stage s) := by
  unfold Llpc.fixedSpill
  split
  · dsimp only
    have h3 := Frame.frame_fillToSpill ctx
      (u32 (ctx.MaxCsUserDataCount + ctx.CsStartUserData) + 1
        - ((s.assert (fun s =>
            decide ((s.intfData stage).spillTable.offsetInDwords ≠ ctx.InvalidValue))).assert
          (fun s => decide
            (s.userDataIdx ≤ u32 (ctx.MaxCsUserDataCount + ctx.CsStartUserData)))).userDataIdx)
      (Frame.frame_assert
        (fun s => decide (s.userDataIdx ≤ u32 (ctx.MaxCsUserDataCount + ctx.CsStartUserData)))
        (Frame.frame_assert
          (fun s => decide ((s.intfData stage).spillTable.offsetInDwords ≠ ctx.InvalidValue))
          h))
    repeat (any_goals (with_reducible (first
      | assumption
      | refine Frame.frame_push _ ?_
      | refine Frame.frame_inRegNext ?_
      | refine Frame.frame_inReg ?_
      | refine Frame.frame_argNext ?_
      | refine Frame.frame_consume _ ?_
      | refine Frame.frame_userDataNext _ ?_
      | refine Frame.frame_never ?_
      | refine Frame.frame_checkMap _ _ ?_
      | refine Frame.frame_reserve _ ?_
      | refine Frame.frame_setReserveEsGsLdsSize ?_
      | refine Frame.frame_setReserveVbTable ?_
      | refine Frame.frame_setReserveStreamOutTable ?_
      | refine Frame.frame_require _ ?_
      | refine Frame.frame_setAvail _ ?_
      | refine Frame.frame_setNeedSpill _ ?_
      | refine Frame.sgprArg_own _ _ ?_ ?_
      | refine Frame.vgprArg_own _ _ ?_ ?_
      | refine Frame.streamOffsetArgs_own _ ?_ _ _ ?_
      | refine Frame.frame_vbTableLoop _ _ ?_
      | refine Frame.frame_assert _ ?_
      | refine Frame.record_own _ _ ?_ ?_
      | refine Frame.record_left _ _ ?_ ?_
      | refine Frame.record_right _ _ ?_ ?_
      | refine Frame.setIntf_own _ ?_ ?_
      | refine Frame.frame_when _ _ (fun _ _ => ?_) ?_)))
    all_goals first
      | (intro _ _ l; cases l <;> first | exact fun _ => rfl | exact fun h => Bool.noConfusion h)
      | (intro _ _ _ l; cases l <;> first | exact fun _ => rfl | exact fun h => Bool.noConfusion h)
      | (intro _ l; cases l <;> first | exact fun _ => rfl | exact fun h => Bool.noConfusion h)
  · exact h

theorem Frame.frame_vbTableNode {t1 : ShaderStage} {W1 : Loc → Bool} {s0 s : St}
    (cur : ShaderStage) (n : ResourceNode)
    (h : Frame (bothWrites t1 W1 cur Loc.ofSpecialCur) s0 s) :
    Frame (bothWrites t1 W1 cur Loc.ofSpecialCur) s0 (vbTableNode cur n s) := by
  unfold Llpc.vbTableNode
  dsimp only
  repeat (any_goals (with_reducible (first
    | assumption
    | refine Frame.frame_push _ ?_
    | refine Frame.frame_inRegNext ?_
    | refine Frame.frame_inReg ?_
    | refine Frame.frame_argNext ?_
    | refine Frame.frame_consume _ ?_
    | refine Frame.frame_userDataNext _ ?_
    | refine Frame.frame_never ?_
    | refine Frame.frame_checkMap _ _ ?_
    | refine Frame.frame_reserve _ ?_
    | refine Frame.frame_setReserveEsGsLdsSize ?_
    | refine Frame.frame_setReserveVbTable ?_
    | refine Frame.frame_setReserveStreamOutTable ?_
    | refine Frame.frame_require _ ?_
    | refine Frame.frame_setAvail _ ?_
    | refine Frame.frame_setNeedSpill _ ?_
    | refine Frame.sgprArg_own _ _ ?_ ?_
    | refine Frame.vgprArg_own _ _ ?_ ?_
    | refine Frame.streamOffsetArgs_own _ ?_ _ _ ?_
    | refine Frame.frame_vbTableLoop _ _ ?_
    | refine Frame.frame_assert _ ?_
    | refine Frame.record_own _ _ ?_ ?_
    | refine Frame.record_left _ _ ?_ ?_
    | refine Frame.record_right _ _ ?_ ?_
    | refine Frame.setIntf_own _ ?_ ?_
    | refine Frame.frame_when _ _ (fun _ _ => ?_) ?_)))
  all_goals first
    | (intro _ _ l; cases l <;> first | exact fun _ => rfl | exact fun h => Bool.noConfusion h)
    | (intro _ _ _ l; cases l <;> first | exact fun _ => rfl | exact fun h => Bool.noConfusion h)
    | (intro _ l; cases l <;> first | exact fun _ => rfl | exact fun h => Bool.noConfusion h)

theorem Frame.frame_vbTableLoop {t1 : ShaderStage} {W1 : Loc → Bool} {s0 s : St}
    (cur : ShaderStage) (l : List ResourceNode)
    (h : Frame (bothWrites t1 W1 cur Loc.ofSpecialCur) s0 s) :
    Frame (bothWrites t1 W1 cur Loc.ofSpecialCur) s0
      (Llpc.firstNodeOfType .IndirectUserDataVaPtr (Llpc.vbTableNode cur) l s) :=
  Frame.frame_firstNodeOfType _ _ (fun n _ hab => Frame.frame_vbTableNode cur n hab) l h

/-- The second `switch` assigns through `pIntfData` and, in the case of the vertex and the
tessellation control stage, through `pCurrIntfData`. -/
theorem Frame.frame_specialUserData {s0 s : St} (ctx : Context) (stage : ShaderStage)
    (h : Frame (bothWrites stage Loc.ofSpecialOwn (currStage ctx stage) Loc.ofSpecialCur)
      s0 s) :
    Frame (bothWrites stage Loc.ofSpecialOwn (currStage ctx stage) Loc.ofSpecialCur) s0
      (specialUserData ctx stage s) := by
  cases stage <;> simp only [Llpc.specialUserData] <;>
  repeat (any_goals (with_reducible (first
    | assumption
    | refine Frame.frame_push _ ?_
    | refine Frame.frame_inRegNext ?_
    | refine Frame.frame_inReg ?_
    | refine Frame.frame_argNext ?_
    | refine Frame.frame_consume _ ?_
    | refine Frame.frame_userDataNext _ ?_
    | refine Frame.frame_never ?_
    | refine Frame.frame_checkMap _ _ ?_
    | refine Frame.frame_reserve _ ?_
    | refine Frame.frame_setReserveEsGsLdsSize ?_
    | refine Frame.frame_setReserveVbTable ?_
    | refine Frame.frame_setReserveStreamOutTable ?_
    | refine Frame.frame_require _ ?_
    | refine Frame.frame_setAvail _ ?_
    | refine Frame.frame_setNeedSpill _ ?_
    | refine Frame.sgprArg_own _ _ ?_ ?_
    | refine Frame.vgprArg_own _ _ ?_ ?_
    | refine Frame.streamOffsetArgs_own _ ?_ _ _ ?_
    | refine Frame.frame_vbTableLoop _ _ ?_
    | refine Frame.frame_assert _ ?_
    | refine Frame.record_own _ _ ?_ ?_
    | refine Frame.record_left _ _ ?_ ?_
    | refine Frame.record_right _ _ ?_ ?_
    | refine Frame.setIntf_own _ ?_ ?_
    | refine Frame.frame_when _ _ (fun _ _ => ?_) ?_)))
  all_goals first
    | (intro _ _ l; cases l <;> first | exact fun _ => rfl | exact fun h => Bool.noConfusion h)
    | (intro _ _ _ l; cases l <;> first | exact fun _ => rfl | exact fun h => Bool.noConfusion h)
    | (intro _ l; cases l <;> first | exact fun _ => rfl | exact fun h => Bool.noConfusion h)

theorem Frame.frame_greedySpill {s0 s : St} (stage : ShaderStage)
    (h : Frame (ownWrites stage Loc.ofSpill) s0 s) :
    Frame (ownWrites stage Loc.ofSpill) s0 (greedySpill stage s) := by
  unfold Llpc.greedySpill
  dsimp only
  repeat (any_goals (with_reducible (first
    | assumption
    | refine Frame.frame_push _ ?_
    | refine Frame.frame_inRegNext ?_
    | refine Frame.frame_inReg ?_
    | refine Frame.frame_argNext ?_
    | refine Frame.frame_consume _ ?_
    | refine Frame.frame_userDataNext _ ?_
    | refine Frame.frame_never ?_
    | refine Frame.frame_checkMap _ _ ?_
    | refine Frame.frame_reserve _ ?_
    | refine Frame.frame_setReserveEsGsLdsSize ?_
    | refine Frame.frame_setReserveVbTable ?_
    | refine Frame.frame_setReserveStreamOutTable ?_
    | refine Frame.frame_require _ ?_
    | refine Frame.frame_setAvail _ ?_
    | refine Frame.frame_setNeedSpill _ ?_
    | refine Frame.sgprArg_own _ _ ?_ ?_
    | refine Frame.vgprArg_own _ _ ?_ ?_
    | refine Frame.streamOffsetArgs_own _ ?_ _ _ ?_
    | refine Frame.frame_vbTableLoop _ _ ?_
    | refine Frame.frame_assert _ ?_
    | refine Frame.record_own _ _ ?_ ?_
    | refine Frame.record_left _ _ ?_ ?_
    | refine Frame.record_right _ _ ?_ ?_
    | refine Frame.setIntf_own _ ?_ ?_
    | refine Frame.frame_when _ _ (fun _ _ => ?_) ?_)))
  all_goals first
    | (intro _ _ l; cases l <;> first | exact fun _ => rfl | exact fun h => Bool.noConfusion h)
    | (intro _ _ _ l; cases l <;> first | exact fun _ => rfl | exact fun h => Bool.noConfusion h)
    | (intro _ l; cases l <;> first | exact fun _ => rfl | exact fun h => Bool.noConfusion h)

theorem Frame.frame_systemValuesVs {s0 s : St} (ctx : Context)
    (h : Frame (ownWrites .Vertex (fun l => l.isSystemArg || l.isWorkgroupIdArg)) s0 s) :
    Frame (ownWrites .Vertex (fun l => l.isSystemArg || l.isWorkgroupIdArg)) s0
      (systemValuesVs ctx s) := by
  unfold Llpc.systemValuesVs
  dsimp only
  split_ifs <;>
  repeat (any_goals (with_reducible (first
    | assumption
    | refine Frame.frame_push _ ?_
    | refine Frame.frame_inRegNext ?_
    | refine Frame.frame_inReg ?_
    | refine Frame.frame_argNext ?_
    | refine Frame.frame_consume _ ?_
    | refine Frame.frame_userDataNext _ ?_
    | refine Frame.frame_never ?_
    | refine Frame.frame_checkMap _ _ ?_
    | refine Frame.frame_reserve _ ?_
    | refine Frame.frame_setReserveEsGsLdsSize ?_
    | refine Frame.frame_setReserveVbTable ?_
    | refine Frame.frame_setReserveStreamOutTable ?_
    | refine Frame.frame_require _ ?_
    | refine Frame.frame_setAvail _ ?_
    | refine Frame.frame_setNeedSpill _ ?_
    | refine Frame.sgprArg_own _ _ ?_ ?_
    | refine Frame.vgprArg_own _ _ ?_ ?_
    | refine Frame.streamOffsetArgs_own _ ?_ _ _ ?_
    | refine Frame.frame_vbTableLoop _ _ ?_
    | refine Frame.frame_assert _ ?_
    | refine Frame.record_own _ _ ?_ ?_
    | refine Frame.record_left _ _ ?_ ?_
    | refine Frame.record_right _ _ ?_ ?_
    | refine Frame.setIntf_own _ ?_ ?_
    | refine Frame.frame_when _ _ (fun _ _ => ?_) ?_)))
  all_goals first
    | (intro _ _ l; cases l <;> first | exact fun _ => rfl | exact fun h => Bool.noConfusion h)
    | (intro _ _ _ l; cases l <;> first | exact fun _ => rfl | exact fun h => Bool.noConfusion h)
    | (intro _ l; cases l <;> first | exact fun _ => rfl | exact fun h => Bool.noConfusion h)

theorem Frame.frame_systemValuesTcs {s0 s : St} (ctx : Context)
    (h : Frame (ownWrites .TessControl (fun l => l.isSystemArg || l.isWorkgroupIdArg)) s0 s) :
    Frame (ownWrites .TessControl (fun l => l.isSystemArg || l.isWorkgroupIdArg)) s0
      (systemValuesTcs ctx s) := by
  unfold Llpc.systemValuesTcs
  dsimp only
  repeat (any_goals (with_reducible (first
    | assumption
    | refine Frame.frame_push _ ?_
    | refine Frame.frame_inRegNext ?_
    | refine Frame.frame_inReg ?_
    | refine Frame.frame_argNext ?_
    | refine Frame.frame_consume _ ?_
    | refine Frame.frame_userDataNext _ ?_
    | refine Frame.frame_never ?_
    | refine Frame.frame_checkMap _ _ ?_
    | refine Frame.frame_reserve _ ?_
    | refine Frame.frame_setReserveEsGsLdsSize ?_
    | refine Frame.frame_setReserveVbTable ?_
    | refine Frame.frame_setReserveStreamOutTable ?_
    | refine Frame.frame_require _ ?_
    | refine Frame.frame_setAvail _ ?_
    | refine Frame.frame_setNeedSpill _ ?_
    | refine Frame.sgprArg_own _ _ ?_ ?_
    | refine Frame.vgprArg_own _ _ ?_ ?_
    | refine Frame.streamOffsetArgs_own _ ?_ _ _ ?_
    | refine Frame.frame_vbTableLoop _ _ ?_
    | refine Frame.frame_assert _ ?_
    | refine Frame.record_own _ _ ?_ ?_
    | refine Frame.record_left _ _ ?_ ?_
    | refine Frame.record_right _ _ ?_ ?_
    | refine Frame.setIntf_own _ ?_ ?_
    | refine Frame.frame_when _ _ (fun _ _ => ?_) ?_)))
  all_goals first
    | (intro _ _ l; cases l <;> first | exact fun _ => rfl | exact fun h => Bool.noConfusion h)
    | (intro _ _ _ l; cases l <;> first | exact fun _ => rfl | exact fun h => Bool.noConfusion h)
    | (intro _ l; cases l <;> first | exact fun _ => rfl | exact fun h => Bool.noConfusion h)

theorem Frame.frame_systemValuesTes {s0 s : St} (ctx : Context)
    (h : Frame (ownWrites .TessEval (fun l => l.isSystemArg || l.isWorkgroupIdArg)) s0 s) :
    Frame (ownWrites .TessEval (fun l => l.isSystemArg || l.isWorkgroupIdArg)) s0
      (systemValuesTes ctx s) := by
  unfold Llpc.systemValuesTes
  dsimp only
  split_ifs <;>
  repeat (any_goals (with_reducible (first
    | assumption
    | refine Frame.frame_push _ ?_
    | refine Frame.frame_inRegNext ?_
    | refine Frame.frame_inReg ?_
    | refine Frame.frame_argNext ?_
    | refine Frame.frame_consume _ ?_
    | refine Frame.frame_userDataNext _ ?_
    | refine Frame.frame_never ?_
    | refine Frame.frame_checkMap _ _ ?_
    | refine Frame.frame_reserve _ ?_
    | refine Frame.frame_setReserveEsGsLdsSize ?_
    | refine Frame.frame_setReserveVbTable ?_
    | refine Frame.frame_setReserveStreamOutTable ?_
    | refine Frame.frame_require _ ?_
    | refine Frame.frame_setAvail _ ?_
    | refine Frame.frame_setNeedSpill _ ?_
    | refine Frame.sgprArg_own _ _ ?_ ?_
    | refine Frame.vgprArg_own _ _ ?_ ?_
    | refine Frame.streamOffsetArgs_own _ ?_ _ _ ?_
    | refine Frame.frame_vbTableLoop _ _ ?_
    | refine Frame.frame_assert _ ?_
    | refine Frame.record_own _ _ ?_ ?_
    | refine Frame.record_left _ _ ?_ ?_
    | refine Frame.record_right _ _ ?_ ?_
    | refine Frame.setIntf_own _ ?_ ?_
    | refine Frame.frame_when _ _ (fun _ _ => ?_) ?_)))
  all_goals first
    | (intro _ _ l; cases l <;> first | exact fun _ => rfl | exact fun h => Bool.noConfusion h)
    | (intro _ _ _ l; cases l <;> first | exact fun _ => rfl | exact fun h => Bool.noConfusion h)
    | (intro _ l; cases l <;> first | exact fun _ => rfl | exact fun h => Bool.noConfusion h)

theorem Frame.frame_systemValuesGs {s0 s : St}
    (h : Frame (ownWrites .Geometry (fun l => l.isSystemArg || l.isWorkgroupIdArg)) s0 s) :
    Frame (ownWrites .Geometry (fun l => l.isSystemArg || l.isWorkgroupIdArg)) s0
      (systemValuesGs s) := by
  unfold Llpc.systemValuesGs
  dsimp only
  repeat (any_goals (with_reducible (first
    | assumption
    | refine Frame.frame_push _ ?_
    | refine Frame.frame_inRegNext ?_
    | refine Frame.frame_inReg ?_
    | refine Frame.frame_argNext ?_
    | refine Frame.frame_consume _ ?_
    | refine Frame.frame_userDataNext _ ?_
    | refine Frame.frame_never ?_
    | refine Frame.frame_checkMap _ _ ?_
    | refine Frame.frame_reserve _ ?_
    | refine Frame.frame_setReserveEsGsLdsSize ?_
    | refine Frame.frame_setReserveVbTable ?_
    | refine Frame.frame_setReserveStreamOutTable ?_
    | refine Frame.frame_require _ ?_
    | refine Frame.frame_setAvail _ ?_
    | refine Frame.frame_setNeedSpill _ ?_
    | refine Frame.sgprArg_own _ _ ?_ ?_
    | refine Frame.vgprArg_own _ _ ?_ ?_
    | refine Frame.streamOffsetArgs_own _ ?_ _ _ ?_
    | refine Frame.frame_vbTableLoop _ _ ?_
    | refine Frame.frame_assert _ ?_
    | refine Frame.record_own _ _ ?_ ?_
    | refine Frame.record_left _ _ ?_ ?_
    | refine Frame.record_right _ _ ?_ ?_
    | refine Frame.setIntf_own _ ?_ ?_
    | refine Frame.frame_when _ _ (fun _ _ => ?_) ?_)))
  all_goals first
    | (intro _ _ l; cases l <;> first | exact fun _ => rfl | exact fun h => Bool.noConfusion h)
    | (intro _ _ _ l; cases l <;> first | exact fun _ => rfl | exact fun h => Bool.noConfusion h)
    | (intro _ l; cases l <;> first | exact fun _ => rfl | exact fun h => Bool.noConfusion h)

theorem Frame.frame_systemValuesFs {s0 s : St}
    (h : Frame (ownWrites .Fragment (fun l => l.isSystemArg || l.isWorkgroupIdArg)) s0 s) :
    Frame (ownWrites .Fragment (fun l => l.isSystemArg || l.isWorkgroupIdArg)) s0
      (systemValuesFs s) := by
  unfold Llpc.systemValuesFs
  dsimp only
  repeat (any_goals (with_reducible (first
    | assumption
    | refine Frame.frame_push _ ?_
    | refine Frame.frame_inRegNext ?_
    | refine Frame.frame_inReg ?_
    | refine Frame.frame_argNext ?_
    | refine Frame.frame_consume _ ?_
    | refine Frame.frame_userDataNext _ ?_
    | refine Frame.frame_never ?_
    | refine Frame.frame_checkMap _ _ ?_
    | refine Frame.frame_reserve _ ?_
    | refine Frame.frame_setReserveEsGsLdsSize ?_
    | refine Frame.frame_setReserveVbTable ?_
    | refine Frame.frame_setReserveStreamOutTable ?_
    | refine Frame.frame_require _ ?_
    | refine Frame.frame_setAvail _ ?_
    | refine Frame.frame_setNeedSpill _ ?_
    | refine Frame.sgprArg_own _ _ ?_ ?_
    | refine Frame.vgprArg_own _ _ ?_ ?_
    | refine Frame.streamOffsetArgs_own _ ?_ _ _ ?_
    | refine Frame.frame_vbTableLoop _ _ ?_
    | refine Frame.frame_assert _ ?_
    | refine Frame.record_own _ _ ?_ ?_
    | refine Frame.record_left _ _ ?_ ?_
    | refine Frame.record_right _ _ ?_ ?_
    | refine Frame.setIntf_own _ ?_ ?_
    | refine Frame.frame_when _ _ (fun _ _ => ?_) ?_)))
  all_goals first
    | (intro _ _ l; cases l <;> first | exact fun _ => rfl | exact fun h => Bool.noConfusion h)
    | (intro _ _ _ l; cases l <;> first | exact fun _ => rfl | exact fun h => Bool.noConfusion h)
    | (intro _ l; cases l <;> first | exact fun _ => rfl | exact fun h => Bool.noConfusion h)

theorem Frame.frame_systemValuesCs {s0 s : St}
    (h : Frame (ownWrites .Compute (fun l => l.isSystemArg || l.isWorkgroupIdArg)) s0 s) :
    Frame (ownWrites .Compute (fun l => l.isSystemArg || l.isWorkgroupIdArg)) s0
      (systemValuesCs s) := by
  unfold Llpc.systemValuesCs
  dsimp only
  repeat (any_goals (with_reducible (first
    | assumption
    | refine Frame.frame_push _ ?_
    | refine Frame.frame_inRegNext ?_
    | refine Frame.frame_inReg ?_
    | refine Frame.frame_argNext ?_
    | refine Frame.frame_consume _ ?_
    | refine Frame.frame_userDataNext _ ?_
    | refine Frame.frame_never ?_
    | refine Frame.frame_checkMap _ _ ?_
    | refine Frame.frame_reserve _ ?_
    | refine Frame.frame_setReserveEsGsLdsSize ?_
    | refine Frame.frame_setReserveVbTable ?_
    | refine Frame.frame_setReserveStreamOutTable ?_
    | refine Frame.frame_require _ ?_
    | refine Frame.frame_setAvail _ ?_
    | refine Frame.frame_setNeedSpill _ ?_
    | refine Frame.sgprArg_own _ _ ?_ ?_
    | refine Frame.vgprArg_own _ _ ?_ ?_
    | refine Frame.streamOffsetArgs_own _ ?_ _ _ ?_
    | refine Frame.frame_vbTableLoop _ _ ?_
    | refine Frame.frame_assert _ ?_
    | refine Frame.record_own _ _ ?_ ?_
    | refine Frame.record_left _ _ ?_ ?_
    | refine Frame.record_right _ _ ?_ ?_
    | refine Frame.setIntf_own _ ?_ ?_
    | refine Frame.frame_when _ _ (fun _ _ => ?_) ?_)))
  all_goals first
    | (intro _ _ l; cases l <;> first | exact fun _ => rfl | exact fun h => Bool.noConfusion h)
    | (intro _ _ _ l; cases l <;> first | exact fun _ => rfl | exact fun h => Bool.noConfusion h)
    | (intro _ l; cases l <;> first | exact fun _ => rfl | exact fun h => Bool.noConfusion h)

/-- The third `switch` assigns argument indices of system values through `pIntfData`. -/
theorem Frame.frame_systemValues {s0 s : St} (ctx : Context) (stage : ShaderStage)
    (h : Frame (ownWrites stage (fun l => l.isSystemArg || l.isWorkgroupIdArg)) s0 s) :
    Frame (ownWrites stage (fun l => l.isSystemArg || l.isWorkgroupIdArg)) s0
      (systemValues ctx stage s) := by
  cases stage
  · exact Frame.frame_systemValuesVs ctx h
  · exact Frame.frame_systemValuesTcs ctx h
  · exact Frame.frame_systemValuesTes ctx h
  · exact Frame.frame_systemValuesGs h
  · exact Frame.frame_systemValuesFs h
  · exact Frame.frame_systemValuesCs h

set_option linter.unreachableTactic true
set_option linter.unusedTactic true

/-! ## Write sets of a run -/

theorem initState_intfData_other (ctx : Context) (stage u : ShaderStage)
    (intfData : ShaderStage → InterfaceData) (inRegMask : Nat) (h : u ≠ stage) :
    (initState ctx stage intfData inRegMask).intfData u = intfData u := by
  simp [initState, St.setIntf, h]

/-- In front of the second `switch`, the function assigns only through `pIntfData`. -/
theorem frame_before_special (ctx : Context) (stage : ShaderStage)
    (intfData : ShaderStage → InterfaceData) (inRegMask : Nat) :
    Frame (ownWrites stage (fun _ => true)) (initState ctx stage intfData inRegMask)
      (afterFixedSpill ctx stage intfData inRegMask) := by
  have m : ∀ (W : Loc → Bool) {s0 s : St}, Frame (ownWrites stage W) s0 s →
      Frame (ownWrites stage (fun _ => true)) s0 s := by
    intro W s0 s h
    refine Frame.frame_mono (fun u l g => ?_) h
    simp only [ownWrites, Bool.and_true, decide_eq_false_iff_not] at g
    simp [ownWrites, g]
  have h1 : Frame (ownWrites stage (fun _ => true)) (initState ctx stage intfData inRegMask)
      (decideSpill ctx stage (afterReserve ctx stage intfData inRegMask)) :=
    m _ (Frame.frame_decideSpill ctx stage (Frame.frame_reserveSpecial ctx stage
      (Frame.frame_scanNodes ctx stage (Frame.frame_refl _ _))))
  have h2 : Frame (ownWrites stage (fun _ => true))
      (decideSpill ctx stage (afterReserve ctx stage intfData inRegMask))
      (beforePack ctx stage intfData inRegMask) :=
    m _ (Frame.frame_allocStreamOut ctx stage (Frame.frame_refl _ _))
  have h3 : Frame (ownWrites stage (fun _ => true)) (beforePack ctx stage intfData inRegMask)
      (afterPack ctx stage intfData inRegMask) :=
    m _ (Frame.frame_packNodes ctx stage (Frame.frame_refl _ _))
  have h4 : Frame (ownWrites stage (fun _ => true)) (afterPack ctx stage intfData inRegMask)
      (afterFixedSpill ctx stage intfData inRegMask) :=
    m _ (Frame.frame_fixedSpill ctx stage (Frame.frame_refl _ _))
  exact (h1.trans h2).trans (h3.trans h4)

/-- Behind the second `switch`, the function assigns the locations of the spill table, of
`userDataCount` and of the system values, through `pIntfData`. -/
theorem frame_after_special (ctx : Context) (stage : ShaderStage)
    (intfData : ShaderStage → InterfaceData) (inRegMask : Nat) :
    Frame (ownWrites stage (fun l => l.ofSpill || (l.isSystemArg || l.isWorkgroupIdArg)))
      (afterSpecial ctx stage intfData inRegMask)
      (runEntryPointType ctx stage intfData inRegMask) := by
  have h5 : Frame (ownWrites stage Loc.ofSpill) (afterSpecial ctx stage intfData inRegMask)
      (afterUserData ctx stage intfData inRegMask) :=
    Frame.frame_greedySpill stage (Frame.frame_refl _ _)
  have h6 : Frame (ownWrites stage (fun l => l.isSystemArg || l.isWorkgroupIdArg))
      (afterUserData ctx stage intfData inRegMask)
      (runEntryPointType ctx stage intfData inRegMask) :=
    Frame.frame_systemValues ctx stage (Frame.frame_refl _ _)
  refine Frame.trans (Frame.frame_mono (fun u l g => ?_) h5) (Frame.frame_mono (fun u l g => ?_) h6)
  · simp only [ownWrites, Bool.and_eq_false_iff, Bool.or_eq_false_iff,
      decide_eq_false_iff_not] at g ⊢
    rcases g with g | g
    · exact Or.inl g
    · exact Or.inr g.1
  · simp only [ownWrites, Bool.and_eq_false_iff, Bool.or_eq_false_iff,
      decide_eq_false_iff_not] at g ⊢
    rcases g with g | g
    · exact Or.inl g
    · exact Or.inr g.2

/-- The second `switch` as a step of the run. -/
theorem frame_special (ctx : Context) (stage : ShaderStage)
    (intfData : ShaderStage → InterfaceData) (inRegMask : Nat) :
    Frame (bothWrites stage Loc.ofSpecialOwn (currStage ctx stage) Loc.ofSpecialCur)
      (afterFixedSpill ctx stage intfData inRegMask)
      (afterSpecial ctx stage intfData inRegMask) :=
  Frame.frame_specialUserData ctx stage (Frame.frame_refl _ _)

/-- Behind the block that allocates the stream-out register, the function assigns none of
the locations of that block. -/
theorem frame_after_streamOut (ctx : Context) (stage : ShaderStage)
    (intfData : ShaderStage → InterfaceData) (inRegMask : Nat) (u : ShaderStage) (l : Loc)
    (hl : l.ofStreamOut = true) :
    l.read ((runEntryPointType ctx stage intfData inRegMask).intfData u)
      = l.read ((beforePack ctx stage intfData inRegMask).intfData u) := by
  have h3 : Frame (ownWrites stage Loc.ofPack) (beforePack ctx stage intfData inRegMask)
      (afterPack ctx stage intfData inRegMask) :=
    Frame.frame_packNodes ctx stage (Frame.frame_refl _ _)
  have h4 : Frame (ownWrites stage Loc.ofSpill) (afterPack ctx stage intfData inRegMask)
      (afterFixedSpill ctx stage intfData inRegMask) :=
    Frame.frame_fixedSpill ctx stage (Frame.frame_refl _ _)
  have h5 := frame_special ctx stage intfData inRegMask
  have h6 := frame_after_special ctx stage intfData inRegMask
  have k : l.ofPack = false ∧ l.ofSpill = false ∧ l.ofSpecialOwn = false ∧
      l.ofSpecialCur = false ∧ (l.isSystemArg || l.isWorkgroupIdArg) = false := by
    cases l <;> first | exact ⟨rfl, rfl, rfl, rfl, rfl⟩ | cases hl
  obtain ⟨k1, k2, k3, k4, k5⟩ := k
  rw [h6 u l (by simp [ownWrites, k2, k5]), h5 u l (by simp [bothWrites, k3, k4]),
    h4 u l (by simp [ownWrites, k2]), h3 u l (by simp [ownWrites, k1])]

/-- A run assigns through `pCurrIntfData` only the locations of the special user data of
the vertex stage, and otherwise through `pIntfData`: the interface data of every other
stage stay as they are. -/
theorem run_frame (ctx : Context) (stage : ShaderStage)
    (intfData : ShaderStage → InterfaceData) (inRegMask : Nat) (u : ShaderStage) (l : Loc)
    (hu : u ≠ stage) (hl : u = currStage ctx stage → l.ofSpecialCur = false) :
    l.read ((runEntryPointType ctx stage intfData inRegMask).intfData u)
      = l.read (intfData u) := by
  have h1 := frame_before_special ctx stage intfData inRegMask
  have h5 := frame_special ctx stage intfData inRegMask
  have h6 := frame_after_special ctx stage intfData inRegMask
  rw [h6 u l (by simp [ownWrites, hu]), h5 u l (by
      simp only [bothWrites, Bool.or_eq_false_iff, Bool.and_eq_false_iff,
        decide_eq_false_iff_not]
      refine ⟨Or.inl hu, ?_⟩
      by_cases hc : u = currStage ctx stage
      · exact Or.inr (hl hc)
      · exact Or.inl hc),
    h1 u l (by simp [ownWrites, hu]), initState_intfData_other ctx stage u intfData inRegMask hu]

/-! ## The head of the function and the stream-out register -/

theorem initState_frame (ctx : Context) (stage : ShaderStage)
    (intfData : ShaderStage → InterfaceData) (inRegMask : Nat) (u : ShaderStage) (l : Loc)
    (h : ownWrites stage Loc.ofHead u l = false) :
    l.read ((initState ctx stage intfData inRegMask).intfData u) = l.read (intfData u) := by
  have e : (initState ctx stage intfData inRegMask).intfData u
      = if u = stage then { intfData u with entryArgIdxs.initialized := true }
        else intfData u := by
    simp [initState, St.setIntf]
  rw [e]
  split
  · rename_i hu
    subst hu
    rw [ownWrites_self] at h
    cases l <;> first | rfl | cases h
  · rfl

/-- In front of the block that allocates the stream-out register, the function has
assigned `entryArgIdxs.initialized`, `pushConst.resNodeIdx` and
`spillTable.offsetInDwords` of the stage and nothing else. -/
theorem frame_head (ctx : Context) (stage : ShaderStage)
    (intfData : ShaderStage → InterfaceData) (inRegMask : Nat) (u : ShaderStage) (l : Loc)
    (h : ownWrites stage Loc.ofHead u l = false) :
    l.read ((decideSpill ctx stage (afterReserve ctx stage intfData inRegMask)).intfData u)
      = l.read (intfData u) := by
  have h1 : Frame (ownWrites stage Loc.ofHead) (initState ctx stage intfData inRegMask)
      (decideSpill ctx stage (afterReserve ctx stage intfData inRegMask)) :=
    Frame.frame_decideSpill ctx stage (Frame.frame_reserveSpecial ctx stage
      (Frame.frame_scanNodes ctx stage (Frame.frame_refl _ _)))
  rw [h1 u l h, initState_frame ctx stage intfData inRegMask u l h]

theorem scanNode_head (ctx : Context) (stage : ShaderStage) (i : Nat) (n : ResourceNode)
    (s : St) :
    (scanNode ctx stage i n s).argTys = s.argTys ∧
      (scanNode ctx stage i n s).argIdx = s.argIdx ∧
      (scanNode ctx stage i n s).userDataIdx = s.userDataIdx ∧
      (scanNode ctx stage i n s).inRegMask = s.inRegMask ∧
      (scanNode ctx stage i n s).ok = s.ok := by
  unfold scanNode
  dsimp only
  split_ifs <;> simp [St.ok]

/-- The locals in front of the block that allocates the stream-out register: the two
leading arguments and nothing else. -/
theorem head_fields (ctx : Context) (stage : ShaderStage)
    (intfData : ShaderStage → InterfaceData) (inRegMask : Nat) :
    (decideSpill ctx stage (afterReserve ctx stage intfData inRegMask)).argTys
        = [.Int32Ty, .Int32Ty] ∧
      (decideSpill ctx stage (afterReserve ctx stage intfData inRegMask)).argIdx = 2 ∧
      (decideSpill ctx stage (afterReserve ctx stage intfData inRegMask)).userDataIdx = 2 ∧
      (decideSpill ctx stage (afterReserve ctx stage intfData inRegMask)).inRegMask
        = (inRegMask ||| 1) ||| 2 ∧
      (decideSpill ctx stage (afterReserve ctx stage intfData inRegMask)).ok = true ∧
      (decideSpill ctx stage (afterReserve ctx stage intfData inRegMask)).reserveStreamOutTable
        = (afterReserve ctx stage intfData inRegMask).reserveStreamOutTable := by
  have h1 : ∀ s : St, (decideSpill ctx stage s).argTys = s.argTys ∧
      (decideSpill ctx stage s).argIdx = s.argIdx ∧
      (decideSpill ctx stage s).userDataIdx = s.userDataIdx ∧
      (decideSpill ctx stage s).inRegMask = s.inRegMask ∧
      (decideSpill ctx stage s).ok = s.ok ∧
      (decideSpill ctx stage s).reserveStreamOutTable = s.reserveStreamOutTable := by
    intro s
    unfold decideSpill
    split <;> simp [St.ok]
  have h2 : ∀ s : St, (reserveSpecial ctx stage s).argTys = s.argTys ∧
      (reserveSpecial ctx stage s).argIdx = s.argIdx ∧
      (reserveSpecial ctx stage s).userDataIdx = s.userDataIdx ∧
      (reserveSpecial ctx stage s).inRegMask = s.inRegMask ∧
      (reserveSpecial ctx stage s).ok = s.ok := by
    intro s
    cases stage <;> simp [reserveSpecial, St.ok]
  have h3 := forNodes_frame (fun s => (s.argTys, s.argIdx, s.userDataIdx, s.inRegMask, s.ok))
    (scanNode ctx stage)
    (fun i n s => by
      obtain ⟨a, b, c, d, e⟩ := scanNode_head ctx stage i n s
      simp only [a, b, c, d, e])
    0 ctx.userDataNodes (initState ctx stage intfData inRegMask)
  simp only [Prod.mk.injEq] at h3
  obtain ⟨a, b, c, d, e⟩ := h3
  obtain ⟨i1, i2, i3, i4⟩ := initState_fields ctx stage intfData inRegMask
  obtain ⟨_, _, _, i5, _⟩ := initState_flags ctx stage intfData inRegMask
  obtain ⟨p1, p2, p3, p4, p5, p6⟩ := h1 (afterReserve ctx stage intfData inRegMask)
  obtain ⟨q1, q2, q3, q4, q5⟩ := h2 (afterScan ctx stage intfData inRegMask)
  unfold afterReserve afterScan scanNodes at *
  refine ⟨?_, ?_, ?_, ?_, ?_, p6⟩
  · rw [p1, q1, a, i1]
  · rw [p2, q2, b, i2]
  · rw [p3, q3, c, i5]
  · rw [p4, q4, d, i3]
  · rw [p5, q5, e, i4]

theorem scanNode_reserveStreamOut (ctx : Context) (stage : ShaderStage) (i : Nat)
    (n : ResourceNode) (s : St) (h : n.type ≠ .StreamOutTableVaPtr) :
    (scanNode ctx stage i n s).reserveStreamOutTable = s.reserveStreamOutTable := by
  unfold scanNode
  dsimp only
  rw [if_neg h]
  split_ifs <;> simp

theorem forNodes_scanNode_reserveStreamOut (ctx : Context) (stage : ShaderStage) (i : Nat)
    (l : List ResourceNode) (s : St)
    (h : (forNodes (scanNode ctx stage) i l s).reserveStreamOutTable = true) :
    s.reserveStreamOutTable = true ∨ ∃ n ∈ l, n.type = .StreamOutTableVaPtr := by
  induction l generalizing i s with
  | nil => exact Or.inl h
  | cons n l ih =>
    simp only [forNodes] at h
    by_cases hn : n.type = .StreamOutTableVaPtr
    · exact Or.inr ⟨n, List.mem_cons_self _ _, hn⟩
    · rcases ih _ _ h with h' | ⟨m, hm, hmt⟩
      · rw [scanNode_reserveStreamOut ctx stage i n s hn] at h'
        exact Or.inl h'
      · exact Or.inr ⟨m, List.mem_cons_of_mem _ hm, hmt⟩

/-- The stream-out reservation is computed only when the node list holds a stream-out table
node. -/
theorem streamOut_node_of_reserved (ctx : Context) (stage : ShaderStage)
    (intfData : ShaderStage → InterfaceData) (inRegMask : Nat)
    (h : (afterReserve ctx stage intfData inRegMask).reserveStreamOutTable = true) :
    ∃ n ∈ ctx.userDataNodes, n.type = .StreamOutTableVaPtr := by
  unfold afterReserve at h
  rw [(reserveSpecial_flags ctx stage _).2.1] at h
  unfold afterScan scanNodes at h
  rcases forNodes_scanNode_reserveStreamOut ctx stage 0 _ _ h with h' | h'
  · rw [(initState_flags ctx stage intfData inRegMask).2.1] at h'
    cases h'
  · exact h'

/-- With the stream-out reservation computed, the state in front of the packing loop is the
one behind the body of the loop that allocates the stream-out register, run once. -/
theorem beforePack_of_reserved (ctx : Context) (stage : ShaderStage)
    (intfData : ShaderStage → InterfaceData) (inRegMask : Nat)
    (h : (afterReserve ctx stage intfData inRegMask).reserveStreamOutTable = true) :
    ∃ n ∈ ctx.userDataNodes, n.type = .StreamOutTableVaPtr ∧
      beforePack ctx stage intfData inRegMask
        = allocStreamOutNode stage n
          (decideSpill ctx stage (afterReserve ctx stage intfData inRegMask)) := by
  obtain ⟨n, hn, hty, he⟩ := firstNodeOfType_some .StreamOutTableVaPtr
    (allocStreamOutNode stage) ctx.userDataNodes
    (decideSpill ctx stage (afterReserve ctx stage intfData inRegMask))
    (streamOut_node_of_reserved ctx stage intfData inRegMask h)
  refine ⟨n, hn, hty, ?_⟩
  unfold beforePack allocStreamOut
  rw [(head_fields ctx stage intfData inRegMask).2.2.2.2.2, if_pos h, he]

/-- Without the stream-out reservation, the block that allocates the stream-out register
does nothing. -/
theorem beforePack_of_not_reserved (ctx : Context) (stage : ShaderStage)
    (intfData : ShaderStage → InterfaceData) (inRegMask : Nat)
    (h : (afterReserve ctx stage intfData inRegMask).reserveStreamOutTable = false) :
    beforePack ctx stage intfData inRegMask
      = decideSpill ctx stage (afterReserve ctx stage intfData inRegMask) := by
  unfold beforePack allocStreamOut
  rw [(head_fields ctx stage intfData inRegMask).2.2.2.2.2, h]
  rfl

/-- A node that is not register-resident leaves its entry of `resNodeValues` as it was at
the start of the function. -/
theorem resNodeValues_of_not_resident (ctx : Context) (stage : ShaderStage)
    (intfData : ShaderStage → InterfaceData) (inRegMask : Nat) (i : Nat)
    (h : registerResident ctx stage intfData inRegMask i = false) (u : ShaderStage) :
    ((runEntryPointType ctx stage intfData inRegMask).intfData u).entryArgIdxs.resNodeValues i
      = (intfData u).entryArgIdxs.resNodeValues i := by
  have hrun : ((runEntryPointType ctx stage intfData inRegMask).intfData
        u).entryArgIdxs.resNodeValues
      = ((afterPack ctx stage intfData inRegMask).intfData u).entryArgIdxs.resNodeValues := by
    simp [runEntryPointType, afterUserData]
  have hhead : ((beforePack ctx stage intfData inRegMask).intfData u).entryArgIdxs.resNodeValues i
      = (intfData u).entryArgIdxs.resNodeValues i := by
    have f1 : Frame (ownWrites stage Loc.ofStreamOut)
        (decideSpill ctx stage (afterReserve ctx stage intfData inRegMask))
        (beforePack ctx stage intfData inRegMask) :=
      Frame.frame_allocStreamOut ctx stage (Frame.frame_refl _ _)
    have e1 := f1 u (.entryArgIdxs_resNodeValues i) (by simp [ownWrites, Loc.ofStreamOut])
    have e2 := frame_head ctx stage intfData inRegMask u (.entryArgIdxs_resNodeValues i)
      (by simp [ownWrites, Loc.ofHead])
    exact e1.trans e2
  have hpack : ∀ k, ((packStateAt ctx stage intfData inRegMask k).intfData
        u).entryArgIdxs.resNodeValues i
      = ((beforePack ctx stage intfData inRegMask).intfData u).entryArgIdxs.resNodeValues i := by
    intro k
    induction k with
    | zero => rw [packStateAt_zero]
    | succ k ih =>
      cases hn : ctx.userDataNodes[k]? with
      | none => rw [packStateAt_succ_of_none ctx stage intfData inRegMask k hn, ih]
      | some n =>
        have f2 : Frame (ownWrites stage Loc.ofPack)
            (packStateAt ctx stage intfData inRegMask k)
            (packStateAt ctx stage intfData inRegMask (k + 1)) := by
          rw [packStateAt_succ ctx stage intfData inRegMask k n hn]
          exact Frame.frame_packNode ctx stage k n (Frame.frame_refl _ _)
        by_cases hu : u = stage
        · subst hu
          by_cases hk : i = k
          · subst hk
            rcases packStateAt_succ_cases ctx u intfData inRegMask i n hn with
              ⟨_, he⟩ | ⟨_, hr, _⟩ | ⟨_, _, he⟩
            · rw [he, ih]
            · rw [h] at hr
              cases hr
            · rw [he, ← ih, fitStateAt_eq ctx u intfData inRegMask i n hn]
              split
              · simp [padNode_intfData]
              · simp [padNode_intfData]
          · rw [packStateAt_succ ctx u intfData inRegMask k n hn,
              packNode_resNodeValues_of_ne ctx u k i n _ hk, ih]
        · have e := f2 u (.entryArgIdxs_resNodeValues i) (by simp [ownWrites, hu])
          exact e.trans ih
  have hp : afterPack ctx stage intfData inRegMask
      = packStateAt ctx stage intfData inRegMask ctx.userDataNodes.length := by
    unfold afterPack packNodes packStateAt
    rw [List.take_length]
  rw [hrun, hp, hpack, hhead]

/-- The argument types in front of the packing loop open the final signature. -/
theorem run_prefix_beforePack (ctx : Context) (stage : ShaderStage)
    (intfData : ShaderStage → InterfaceData) (inRegMask : Nat) :
    (beforePack ctx stage intfData inRegMask).argTys
      <+: (runEntryPointType ctx stage intfData inRegMask).argTys := by
  have h6 : Stamped (fun l => l.isSystemArg || l.isWorkgroupIdArg) 0 16
      (afterUserData ctx stage intfData inRegMask)
      (runEntryPointType ctx stage intfData inRegMask) :=
    Stamped.stamp_systemValues ctx stage (Stamped.stamp_refl _ 0 _)
  have h5 : Stamped Loc.isSpillArg 0 0 (afterSpecial ctx stage intfData inRegMask)
      (afterUserData ctx stage intfData inRegMask) :=
    Stamped.stamp_greedySpill stage (Stamped.stamp_refl _ 0 _)
  have h4 : Stamped (fun l => l.isSpecialArg || l.isWorkgroupIdArg) 0 0
      (afterFixedSpill ctx stage intfData inRegMask)
      (afterSpecial ctx stage intfData inRegMask) :=
    Stamped.stamp_specialUserData ctx stage (Stamped.stamp_refl _ 0 _)
  have h3 : Stamped Loc.isSpillArg 0 0 (afterPack ctx stage intfData inRegMask)
      (afterFixedSpill ctx stage intfData inRegMask) :=
    Stamped.stamp_fixedSpill ctx stage (by omega) (Stamped.stamp_refl _ 0 _)
  have h2 : Stamped Loc.isNodeArg 0 0 (beforePack ctx stage intfData inRegMask)
      (afterPack ctx stage intfData inRegMask) :=
    Stamped.stamp_packNodes ctx stage (Stamped.stamp_refl _ 0 _)
  exact h2.1.trans (h3.1.trans (h4.1.trans (h5.1.trans h6.1)))

/-! ## The system values of the vertex shader -/

set_option linter.unreachableTactic false
set_option linter.unusedTactic false

theorem Stamped.systemValuesVsHead {s0 s : St} (ctx : Context)
    (h : Stamped (fun l => l.isSystemArg || l.isWorkgroupIdArg) 0 0 s0 s) :
    Stamped (fun l => l.isSystemArg || l.isWorkgroupIdArg) 0 0 s0
      (systemValuesVsHead ctx s) := by
  unfold Llpc.systemValuesVsHead
  dsimp only
  split_ifs <;>
  repeat (any_goals (with_reducible (first
    | assumption
    | refine Stamped.record_push _ _ _ ?_ ?_
    | refine Stamped.stamp_push _ ?_
    | refine Stamped.stamp_inRegNext ?_
    | refine Stamped.stamp_consume _ ?_
    | refine Stamped.stamp_userDataNext _ ?_
    | refine Stamped.stamp_never ?_
    | refine Stamped.stamp_checkMap _ _ ?_
    | refine Stamped.stamp_reserve _ ?_
    | refine Stamped.stamp_setReserveEsGsLdsSize ?_
    | refine Stamped.stamp_setReserveVbTable ?_
    | refine Stamped.stamp_setReserveStreamOutTable ?_
    | refine Stamped.stamp_require _ ?_
    | refine Stamped.stamp_setAvail _ ?_
    | refine Stamped.stamp_setNeedSpill _ ?_
    | refine Stamped.stamp_sgprArg _ _ _ ?_ ?_
    | refine Stamped.stamp_vgprArg _ _ _ (by omega) ?_ ?_
    | refine Stamped.stamp_argNext (by omega) ?_
    | refine Stamped.stamp_streamOffsetArgs _ _ ?_ _ _ ?_
    | refine Stamped.stamp_vbTableLoop _ _ ?_
    | refine Stamped.stamp_assert _ ?_
    | refine Stamped.record_arg _ _ ?_ ?_
    | refine Stamped.stamp_record _ _ _ ?_ ?_
    | refine Stamped.stamp_setIntf _ _ ?_ ?_
    | refine Stamped.stamp_when _ _ (fun _ _ => ?_) ?_)))
  all_goals first
    | exact stamp_resNodeValues _
    | exact stamp_vs_streamOffsets
    | exact stamp_tes_streamOffsets
    | exact stamp_gs_esGsOffsets _
    | (intro _ _ l; cases l <;> first
        | exact fun _ => rfl
        | exact fun _ => Or.inl rfl
        | exact fun _ => Or.inr ⟨rfl, rfl⟩
        | exact fun h => Bool.noConfusion h)
    | (intro _ l; cases l <;> first | exact fun _ => rfl | exact fun h => Bool.noConfusion h)

set_option linter.unreachableTactic true
set_option linter.unusedTactic true

/-- The system values of the vertex shader are the arguments in front of the vertex ID,
followed by the three conditional groups of IDs. -/
theorem systemValuesVs_eq_head (ctx : Context) (s : St) :
    systemValuesVs ctx s
    = St.when (fun _ => (ctx.resUsage .Vertex).builtInUsage.vs.instanceIndex)
        (St.vgprArg .Vertex .Int32Ty (fun a d => { d with entryArgIdxs.vs.instanceId := a }))
        (St.when
          (fun _ => (ctx.resUsage .Vertex).builtInUsage.vs.primitiveId
            || (ctx.resUsage .Vertex).builtInUsage.vs.instanceIndex
            || decide (ctx.nextStageOfVertex = some .TessControl))
          (fun s =>
            let s := s.vgprArg .Vertex .Int32Ty
              (fun a d => { d with entryArgIdxs.vs.relVertexId := a })
            s.vgprArg .Vertex .Int32Ty (fun a d => { d with entryArgIdxs.vs.primitiveId := a }))
          (St.when
            (fun _ => (ctx.resUsage .Vertex).builtInUsage.vs.vertexIndex
              || (ctx.resUsage .Vertex).builtInUsage.vs.primitiveId
              || (ctx.resUsage .Vertex).builtInUsage.vs.instanceIndex
              || decide (ctx.nextStageOfVertex = some .TessControl))
            (St.vgprArg .Vertex .Int32Ty (fun a d => { d with entryArgIdxs.vs.vertexId := a }))
            (systemValuesVsHead ctx s))) := rfl

theorem systemValuesVs_ok_head (ctx : Context) (s : St) :
    (systemValuesVs ctx s).ok = (systemValuesVsHead ctx s).ok := by
  rw [systemValuesVs_eq_head]
  generalize systemValuesVsHead ctx s = F
  generalize decide (ctx.nextStageOfVertex = some .TessControl) = tcs
  cases c1 : (ctx.resUsage .Vertex).builtInUsage.vs.vertexIndex <;>
    cases c2 : (ctx.resUsage .Vertex).builtInUsage.vs.primitiveId <;>
    cases c3 : (ctx.resUsage .Vertex).builtInUsage.vs.instanceIndex <;>
    cases tcs <;>
    simp [St.when, St.vgprArg, St.ok]

/-- The arguments that the vertex shader gets behind the ES-GS offset or the stream-out
arguments: the vertex ID, the pair of relative vertex ID and primitive ID, the instance ID,
none of them marked "inreg". -/
theorem systemValuesVs_ids (ctx : Context) (s : St)
    (ha : (systemValuesVsHead ctx s).argIdx < 4294967290) :
    (systemValuesVs ctx s).argTys
        = (systemValuesVsHead ctx s).argTys
          ++ (if (ctx.resUsage .Vertex).builtInUsage.vs.vertexIndex
                || (ctx.resUsage .Vertex).builtInUsage.vs.primitiveId
                || (ctx.resUsage .Vertex).builtInUsage.vs.instanceIndex
                || decide (ctx.nextStageOfVertex = some .TessControl)
              then [ArgTy.Int32Ty] else [])
          ++ (if (ctx.resUsage .Vertex).builtInUsage.vs.primitiveId
                || (ctx.resUsage .Vertex).builtInUsage.vs.instanceIndex
                || decide (ctx.nextStageOfVertex = some .TessControl)
              then [ArgTy.Int32Ty, ArgTy.Int32Ty] else [])
          ++ (if (ctx.resUsage .Vertex).builtInUsage.vs.instanceIndex
              then [ArgTy.Int32Ty] else []) ∧
      (systemValuesVs ctx s).inRegMask = (systemValuesVsHead ctx s).inRegMask ∧
      (((ctx.resUsage .Vertex).builtInUsage.vs.vertexIndex
          || (ctx.resUsage .Vertex).builtInUsage.vs.primitiveId
          || (ctx.resUsage .Vertex).builtInUsage.vs.instanceIndex
          || decide (ctx.nextStageOfVertex = some .TessControl)) = true →
        ((systemValuesVs ctx s).intfData .Vertex).entryArgIdxs.vs.vertexId
          = (systemValuesVsHead ctx s).argIdx) ∧
      (((ctx.resUsage .Vertex).builtInUsage.vs.primitiveId
          || (ctx.resUsage .Vertex).builtInUsage.vs.instanceIndex
          || decide (ctx.nextStageOfVertex = some .TessControl)) = true →
        ((systemValuesVs ctx s).intfData .Vertex).entryArgIdxs.vs.relVertexId
            = (systemValuesVsHead ctx s).argIdx + 1 ∧
          ((systemValuesVs ctx s).intfData .Vertex).entryArgIdxs.vs.primitiveId
            = (systemValuesVsHead ctx s).argIdx + 2) ∧
      ((ctx.resUsage .Vertex).builtInUsage.vs.instanceIndex = true →
        ((systemValuesVs ctx s).intfData .Vertex).entryArgIdxs.vs.instanceId
          = (systemValuesVsHead ctx s).argIdx + 3) := by
  rw [systemValuesVs_eq_head]
  generalize systemValuesVsHead ctx s = F at ha ⊢
  generalize decide (ctx.nextStageOfVertex = some .TessControl) = tcs
  have h1 : u32 (F.argIdx + 1) = F.argIdx + 1 := u32_of_lt (by omega)
  have h2 : u32 (F.argIdx + 1 + 1) = F.argIdx + 2 := u32_of_lt (by omega)
  have h3 : u32 (F.argIdx + 2 + 1) = F.argIdx + 3 := u32_of_lt (by omega)
  have h4 : u32 (F.argIdx + 3 + 1) = F.argIdx + 4 := u32_of_lt (by omega)
  cases c1 : (ctx.resUsage .Vertex).builtInUsage.vs.vertexIndex <;>
    cases c2 : (ctx.resUsage .Vertex).builtInUsage.vs.primitiveId <;>
    cases c3 : (ctx.resUsage .Vertex).builtInUsage.vs.instanceIndex <;>
    cases tcs <;>
    simp [St.when, St.vgprArg, h1, h2, h3, h4, St.record_intfData_apply]

/-- On a run that carries no failure flag, with an incoming mask that flags at most the two
leading arguments, the state of the vertex stage in front of the vertex ID has `argIdx`
equal to the number of argument types, and a mask that flags only arguments in front of
it. -/
theorem beforeVertexIds_points (ctx : Context) (intfData : ShaderStage → InterfaceData)
    (inRegMask : Nat) (hm : inRegMask < 4)
    (hok : (runEntryPointType ctx .Vertex intfData inRegMask).ok = true) :
    (beforeVertexIds ctx intfData inRegMask).ok = true ∧
      (beforeVertexIds ctx intfData inRegMask).argIdx
        = (beforeVertexIds ctx intfData inRegMask).argTys.length ∧
      (beforeVertexIds ctx intfData inRegMask).argIdx ≤ 64 ∧
      (afterUserData ctx .Vertex intfData inRegMask).argTys
        <+: (beforeVertexIds ctx intfData inRegMask).argTys ∧
      (beforeVertexIds ctx intfData inRegMask).inRegMask
        < 2 ^ (beforeVertexIds ctx intfData inRegMask).argTys.length := by
  have h7 : Stamped (fun l => l.isSystemArg || l.isWorkgroupIdArg) 0 0
      (afterUserData ctx .Vertex intfData inRegMask)
      (beforeVertexIds ctx intfData inRegMask) :=
    Stamped.systemValuesVsHead ctx (Stamped.stamp_refl _ 0 _)
  have h5 : Stamped Loc.isSpillArg 0 0 (afterSpecial ctx .Vertex intfData inRegMask)
      (afterUserData ctx .Vertex intfData inRegMask) :=
    Stamped.stamp_greedySpill .Vertex (Stamped.stamp_refl _ 0 _)
  have h4 : Stamped (fun l => l.isSpecialArg || l.isWorkgroupIdArg) 0 0
      (afterFixedSpill ctx .Vertex intfData inRegMask)
      (afterSpecial ctx .Vertex intfData inRegMask) :=
    Stamped.stamp_specialUserData ctx .Vertex (Stamped.stamp_refl _ 0 _)
  have h3 : Stamped Loc.isSpillArg 0 0 (afterPack ctx .Vertex intfData inRegMask)
      (afterFixedSpill ctx .Vertex intfData inRegMask) :=
    Stamped.stamp_fixedSpill ctx .Vertex (by omega) (Stamped.stamp_refl _ 0 _)
  have h2 : Stamped Loc.isNodeArg 0 0 (beforePack ctx .Vertex intfData inRegMask)
      (afterPack ctx .Vertex intfData inRegMask) :=
    Stamped.stamp_packNodes ctx .Vertex (Stamped.stamp_refl _ 0 _)
  have h1 : Stamped Loc.isStreamOutArg 0 0 (initState ctx .Vertex intfData inRegMask)
      (beforePack ctx .Vertex intfData inRegMask) :=
    Stamped.stamp_allocStreamOut ctx .Vertex (Stamped.stamp_decideSpill ctx .Vertex
      (Stamped.stamp_reserveSpecial ctx .Vertex (Stamped.stamp_scanNodes ctx .Vertex (Stamped.stamp_refl _ 0 _))))
  obtain ⟨i1, i2, i3, i4⟩ := initState_fields ctx .Vertex intfData inRegMask
  have ok6 : (beforeVertexIds ctx intfData inRegMask).ok = true := by
    unfold beforeVertexIds
    rw [← systemValuesVs_ok_head]
    exact hok
  have ok5 := h7.2.1 ok6
  have ok4 := h5.2.1 ok5
  have ok3 := h4.2.1 ok4
  have ok2 := h3.2.1 ok3
  have ok1 := h2.2.1 ok2
  have m0 : (initState ctx .Vertex intfData inRegMask).inRegMask
      < 2 ^ (initState ctx .Vertex intfData inRegMask).argTys.length := by
    rw [i3, i1]
    exact Nat.or_lt_two_pow (Nat.or_lt_two_pow (n := 2) hm (by decide)) (by decide)
  have a1 := h1.next ok1 (by rw [i1, i2]; rfl) (by rw [i2]; decide)
  have a2 := h2.next ok2 a1.1 a1.2.1
  have a3 := h3.next ok3 a2.1 a2.2.1
  have a4 := h4.next ok4 a3.1 a3.2.1
  have a5 := h5.next ok5 a4.1 a4.2.1
  have a7 := h7.next ok6 a5.1 a5.2.1
  exact ⟨ok6, a7.1, a7.2.1, a7.2.2.1,
    a7.2.2.2.1 (a5.2.2.2.1 (a4.2.2.2.1 (a3.2.2.2.1 (a2.2.2.2.1 (a1.2.2.2.1 m0)))))⟩

/-! ## The groups of arguments of a run -/

/-- The arguments in front of the packing loop: the two leading ones, and the stream-out
table pointer when the reservation is computed. -/
theorem beforePack_argTys (ctx : Context) (stage : ShaderStage)
    (intfData : ShaderStage → InterfaceData) (inRegMask : Nat) :
    (beforePack ctx stage intfData inRegMask).argTys
      = [ArgTy.Int32Ty, ArgTy.Int32Ty]
        ++ (if (afterReserve ctx stage intfData inRegMask).reserveStreamOutTable
            then [ArgTy.Int32Ty] else []) := by
  obtain ⟨a1, _⟩ := head_fields ctx stage intfData inRegMask
  cases hres : (afterReserve ctx stage intfData inRegMask).reserveStreamOutTable
  · rw [beforePack_of_not_reserved ctx stage intfData inRegMask hres, a1]
    rfl
  · obtain ⟨n, _, _, he⟩ := beforePack_of_reserved ctx stage intfData inRegMask hres
    rw [he]
    cases stage <;> simp [allocStreamOutNode, a1]

/-- Outside the fixed layout of the compute stage, the block "Internal user data" does
nothing. -/
theorem afterFixedSpill_of_greedy (ctx : Context) (stage : ShaderStage)
    (intfData : ShaderStage → InterfaceData) (inRegMask : Nat) (hst : stage ≠ .Compute) :
    afterFixedSpill ctx stage intfData inRegMask = afterPack ctx stage intfData inRegMask := by
  unfold afterFixedSpill fixedSpill
  rw [if_neg]
  simp [useFixedLayout, hst]

theorem afterSpecial_decided (ctx : Context) (stage : ShaderStage)
    (intfData : ShaderStage → InterfaceData) (inRegMask : Nat) :
    (afterSpecial ctx stage intfData inRegMask).decided
        = (runEntryPointType ctx stage intfData inRegMask).decided ∧
      (afterFixedSpill ctx stage intfData inRegMask).decided
        = (runEntryPointType ctx stage intfData inRegMask).decided := by
  constructor <;>
    simp [runEntryPointType, afterUserData, afterSpecial, afterFixedSpill, afterPack,
      packNodes]

/-- The spill-table pointer of the path without fixed layout: one `i32` argument behind the
special user data, its argument index recorded in `entryArgIdxs.spillTable`. -/
theorem greedySpill_args (stage : ShaderStage) (s : St) :
    (greedySpill stage s).argTys
        = s.argTys ++ (if s.needSpill && (useFixedLayout stage == false)
            then [ArgTy.Int32Ty] else []) ∧
      ((s.needSpill && (useFixedLayout stage == false)) = true →
        ((greedySpill stage s).intfData stage).entryArgIdxs.spillTable = s.argIdx) := by
  unfold greedySpill
  cases h1 : s.needSpill <;> cases h2 : useFixedLayout stage <;>
    simp [St.when, h1, h2, St.record_intfData_apply]

/-- The argument types of the states between the blocks, each a prefix of the next. -/
theorem run_prefixes (ctx : Context) (stage : ShaderStage)
    (intfData : ShaderStage → InterfaceData) (inRegMask : Nat) :
    (beforePack ctx stage intfData inRegMask).argTys
        <+: (afterPack ctx stage intfData inRegMask).argTys ∧
      (afterPack ctx stage intfData inRegMask).argTys
        <+: (afterFixedSpill ctx stage intfData inRegMask).argTys ∧
      (afterFixedSpill ctx stage intfData inRegMask).argTys
        <+: (afterSpecial ctx stage intfData inRegMask).argTys ∧
      (afterSpecial ctx stage intfData inRegMask).argTys
        <+: (afterUserData ctx stage intfData inRegMask).argTys ∧
      (afterUserData ctx stage intfData inRegMask).argTys
        <+: (runEntryPointType ctx stage intfData inRegMask).argTys := by
  have h6 : Stamped (fun l => l.isSystemArg || l.isWorkgroupIdArg) 0 16
      (afterUserData ctx stage intfData inRegMask)
      (runEntryPointType ctx stage intfData inRegMask) :=
    Stamped.stamp_systemValues ctx stage (Stamped.stamp_refl _ 0 _)
  have h5 : Stamped Loc.isSpillArg 0 0 (afterSpecial ctx stage intfData inRegMask)
      (afterUserData ctx stage intfData inRegMask) :=
    Stamped.stamp_greedySpill stage (Stamped.stamp_refl _ 0 _)
  have h4 : Stamped (fun l => l.isSpecialArg || l.isWorkgroupIdArg) 0 0
      (afterFixedSpill ctx stage intfData inRegMask)
      (afterSpecial ctx stage intfData inRegMask) :=
    Stamped.stamp_specialUserData ctx stage (Stamped.stamp_refl _ 0 _)
  have h3 : Stamped Loc.isSpillArg 0 0 (afterPack ctx stage intfData inRegMask)
      (afterFixedSpill ctx stage intfData inRegMask) :=
    Stamped.stamp_fixedSpill ctx stage (by omega) (Stamped.stamp_refl _ 0 _)
  have h2 : Stamped Loc.isNodeArg 0 0 (beforePack ctx stage intfData inRegMask)
      (afterPack ctx stage intfData inRegMask) :=
    Stamped.stamp_packNodes ctx stage (Stamped.stamp_refl _ 0 _)
  have p2 := h2.1
  have p3 := h3.1
  have p4 := h4.1
  have p5 := h5.1
  have p6 := h6.1
  exact And.intro p2 (And.intro p3 (And.intro p4 (And.intro p5 p6)))

/-- What the second `switch` records stays as it is up to the end of the function. -/
theorem special_final (ctx : Context) (stage : ShaderStage)
    (intfData : ShaderStage → InterfaceData) (inRegMask : Nat) (u : ShaderStage) (l : Loc)
    (hl : l.isSpecialArg = true) :
    l.read ((runEntryPointType ctx stage intfData inRegMask).intfData u)
      = l.read ((afterSpecial ctx stage intfData inRegMask).intfData u) := by
  refine frame_after_special ctx stage intfData inRegMask u l ?_
  cases l <;> first | exact Bool.and_false _ | exact Bool.noConfusion hl

/-- The argument index of the spill-table pointer stays as it is behind the assignment of
`userDataCount`. -/
theorem spill_final (ctx : Context) (stage : ShaderStage)
    (intfData : ShaderStage → InterfaceData) (inRegMask : Nat) (u : ShaderStage) :
    ((runEntryPointType ctx stage intfData inRegMask).intfData u).entryArgIdxs.spillTable
      = ((afterUserData ctx stage intfData inRegMask).intfData u).entryArgIdxs.spillTable := by
  have h6 : Frame (ownWrites stage (fun l => l.isSystemArg || l.isWorkgroupIdArg))
      (afterUserData ctx stage intfData inRegMask)
      (runEntryPointType ctx stage intfData inRegMask) :=
    Frame.frame_systemValues ctx stage (Frame.frame_refl _ _)
  exact h6 u .entryArgIdxs_spillTable (Bool.and_false _)

/-! ## The vertex stage and the tessellation control stage merged with it: the locals -/

theorem twin_local (p : St → St) (hp : ∀ s, (p s).locals = (p s.locals).locals) {s t : St}
    (h : s.locals = t.locals) : (p s).locals = (p t).locals := by
  rw [hp s, hp t, h]

/-- Equal locals give equal values of an expression over the locals. -/
theorem twin_read {α : Type} (get : St → α) (hget : ∀ s, get s = get s.locals) {s t : St}
    (h : s.locals = t.locals) : get s = get t := by
  rw [hget s, hget t, h]

theorem twin_push (ty : ArgTy) {s t : St} (h : s.locals = t.locals) :
    (s.push ty).locals = (t.push ty).locals :=
  twin_local (St.push ty) (fun _ => rfl) h

theorem twin_inReg {s t : St} (h : s.locals = t.locals) : s.inReg.locals = t.inReg.locals :=
  twin_local St.inReg (fun _ => rfl) h

theorem twin_argNext {s t : St} (h : s.locals = t.locals) :
    s.argNext.locals = t.argNext.locals :=
  twin_local St.argNext (fun _ => rfl) h

theorem twin_inRegNext {s t : St} (h : s.locals = t.locals) :
    s.inRegNext.locals = t.inRegNext.locals :=
  twin_local St.inRegNext (fun _ => rfl) h

theorem twin_consume (n : Nat) {s t : St} (h : s.locals = t.locals) :
    (s.consume n).locals = (t.consume n).locals :=
  twin_local (St.consume n) (fun _ => rfl) h

theorem twin_userDataNext (n : Nat) {s t : St} (h : s.locals = t.locals) :
    (s.userDataNext n).locals = (t.userDataNext n).locals :=
  twin_local (St.userDataNext n) (fun _ => rfl) h

theorem twin_reserve (n : Nat) {s t : St} (h : s.locals = t.locals) :
    (s.reserve n).locals = (t.reserve n).locals :=
  twin_local (St.reserve n) (fun _ => rfl) h

theorem twin_setReserveVbTable {s t : St} (h : s.locals = t.locals) :
    s.setReserveVbTable.locals = t.setReserveVbTable.locals :=
  twin_local St.setReserveVbTable (fun _ => rfl) h

theorem twin_setReserveStreamOutTable {s t : St} (h : s.locals = t.locals) :
    s.setReserveStreamOutTable.locals = t.setReserveStreamOutTable.locals :=
  twin_local St.setReserveStreamOutTable (fun _ => rfl) h

theorem twin_setReserveEsGsLdsSize {s t : St} (h : s.locals = t.locals) :
    s.setReserveEsGsLdsSize.locals = t.setReserveEsGsLdsSize.locals :=
  twin_local St.setReserveEsGsLdsSize (fun _ => rfl) h

theorem twin_require (n : ResourceNode) {s t : St} (h : s.locals = t.locals) :
    (s.require n).locals = (t.require n).locals :=
  twin_local (St.require n) (fun _ => rfl) h

theorem twin_setNeedSpill (b : Bool) {s t : St} (h : s.locals = t.locals) :
    (s.setNeedSpill b).locals = (t.setNeedSpill b).locals :=
  twin_local (St.setNeedSpill b) (fun _ => rfl) h

theorem twin_setAvail (n : Nat) {s t : St} (h : s.locals = t.locals) :
    (s.setAvail n).locals = (t.setAvail n).locals :=
  twin_local (St.setAvail n) (fun _ => rfl) h

theorem twin_never {s t : St} (h : s.locals = t.locals) : s.never.locals = t.never.locals :=
  twin_local St.never (fun _ => rfl) h

theorem twin_checkMap (len count : Nat) {s t : St} (h : s.locals = t.locals) :
    (s.checkMap len count).locals = (t.checkMap len count).locals :=
  twin_local (St.checkMap len count)
    (fun s => by
      cases s
      simp only [St.checkMap, St.locals]
      split <;> rfl) h

/-- An assignment to the interface data changes no local, whatever the stage and the
value. -/
theorem twin_setIntf (t1 t2 : ShaderStage) (f g : InterfaceData → InterfaceData) {s t : St}
    (h : s.locals = t.locals) : (s.setIntf t1 f).locals = (t.setIntf t2 g).locals := h

theorem twin_setIntf_left (t1 : ShaderStage) (f : InterfaceData → InterfaceData) {s t : St}
    (h : s.locals = t.locals) : (s.setIntf t1 f).locals = t.locals := h

theorem twin_setIntf_right (t2 : ShaderStage) (g : InterfaceData → InterfaceData) {s t : St}
    (h : s.locals = t.locals) : s.locals = (t.setIntf t2 g).locals := h

theorem twin_record (t1 t2 : ShaderStage) (get1 get2 : St → Nat)
    (set1 set2 : Nat → InterfaceData → InterfaceData) {s t : St} (h : s.locals = t.locals) :
    (s.record t1 get1 set1).locals = (t.record t2 get2 set2).locals := h

theorem twin_assert (c1 c2 : St → Bool)
    (hc : ∀ a b : St, a.locals = b.locals → c1 a = c2 b) {s t : St}
    (h : s.locals = t.locals) : (s.assert c1).locals = (t.assert c2).locals := by
  unfold St.assert
  rw [hc s t h]
  split
  · exact h
  · cases s
    cases t
    simp only [St.locals, St.mk.injEq] at h ⊢
    simp only [h, and_self]

theorem twin_when (c1 c2 : St → Bool) (b1 b2 : St → St)
    (hc : ∀ a b : St, a.locals = b.locals → c1 a = c2 b)
    (hb : ∀ a b : St, a.locals = b.locals → (b1 a).locals = (b2 b).locals) {s t : St}
    (h : s.locals = t.locals) : (s.when c1 b1).locals = (t.when c2 b2).locals := by
  unfold St.when
  rw [hc s t h]
  split
  · exact hb _ _ h
  · exact h

theorem twin_forNodes (b1 b2 : Nat → ResourceNode → St → St) (l : List ResourceNode)
    (hb : ∀ (i : Nat) (n : ResourceNode), n ∈ l → ∀ a b : St, a.locals = b.locals →
      (b1 i n a).locals = (b2 i n b).locals)
    (i : Nat) {s t : St} (h : s.locals = t.locals) :
    (forNodes b1 i l s).locals = (forNodes b2 i l t).locals := by
  induction l generalizing i s t with
  | nil => exact h
  | cons n l ih =>
    exact ih (fun j m hm a b hab => hb j m (List.mem_cons_of_mem _ hm) a b hab) (i + 1)
      (hb i n (List.mem_cons_self _ _) _ _ h)

theorem twin_firstNodeOfType (ty : ResourceMappingNodeType) (b1 b2 : ResourceNode → St → St)
    (hb : ∀ (n : ResourceNode) (a b : St), a.locals = b.locals →
      (b1 n a).locals = (b2 n b).locals)
    (l : List ResourceNode) {s t : St} (h : s.locals = t.locals) :
    (firstNodeOfType ty b1 l s).locals = (firstNodeOfType ty b2 l t).locals := by
  induction l with
  | nil => exact h
  | cons n l ih =>
    simp only [firstNodeOfType]
    split
    · exact hb n _ _ h
    · exact ih

/-! ## The configuration of a merged vertex and tessellation control stage -/

theorem land_eq_zero_of_land (m a b : Nat) (hab : a &&& b = b) (h : m &&& a = 0) :
    m &&& b = 0 := by
  rw [← hab, ← Nat.land_assoc, h]
  simp

theorem land_of_land_eq (m a b c : Nat) (h : m &&& a = c) : m &&& (a &&& b) = c &&& b := by
  rw [← Nat.land_assoc, h]

/-- With a tessellation control stage in the pipeline, tessellation is present. -/
theorem hasTs_of_tcs (ctx : Context)
    (ht : ctx.stageMask &&& ShaderStageToMask .TessControl ≠ 0) : hasTs ctx = true := by
  unfold hasTs
  simp only [bne_iff_ne, ne_eq]
  intro h
  exact ht (land_eq_zero_of_land ctx.stageMask _ _ (by decide) h)

theorem currStage_vertex (ctx : Context) : currStage ctx .Vertex = .Vertex := by
  unfold currStage
  split <;> rfl

theorem currStage_tcs (ctx : Context) (hg : ctx.gfxIpMajor ≥ 9)
    (hv : ctx.stageMask &&& ShaderStageToMask .Vertex ≠ 0) :
    currStage ctx .TessControl = .Vertex := by
  unfold currStage
  rw [if_pos ⟨hg, rfl, hv⟩]

/-- With a tessellation control stage in the pipeline, the vertex stage is not the last
stage in front of the fragment stage. -/
theorem vertex_not_last (ctx : Context)
    (ht : ctx.stageMask &&& ShaderStageToMask .TessControl ≠ 0) :
    (ctx.stageMask &&& sub32 (ShaderStageToMask .Fragment) (ShaderStageToMask .Vertex))
      ≠ ShaderStageToMask .Vertex := by
  intro h
  have e := land_of_land_eq ctx.stageMask _ (ShaderStageToMask .TessControl) _ h
  exact ht e

/-- With a tessellation evaluation stage or a geometry stage in the pipeline, the
tessellation control stage is not the last stage in front of the fragment stage. -/
theorem tcs_not_last (ctx : Context)
    (hl : ctx.stageMask &&& ShaderStageToMask .TessEval ≠ 0
      ∨ ctx.stageMask &&& ShaderStageToMask .Geometry ≠ 0) :
    (ctx.stageMask &&& sub32 (ShaderStageToMask .Fragment) (ShaderStageToMask .TessControl))
      ≠ ShaderStageToMask .TessControl := by
  intro h
  rcases hl with hl | hl
  · exact hl (land_of_land_eq ctx.stageMask _ (ShaderStageToMask .TessEval) _ h)
  · exact hl (land_of_land_eq ctx.stageMask _ (ShaderStageToMask .Geometry) _ h)

/-- Two stages that are each the second stage of the other have the same active nodes. -/
theorem active_of_companions (ctx : Context) (a b : ShaderStage)
    (hab : shaderStage2 ctx a = some b) (hba : shaderStage2 ctx b = some a)
    (n : ResourceNode) :
    ∀ r, IsResourceNodeActive ctx a n r = IsResourceNodeActive ctx b n r := by
  refine @ResourceNode.rec
    (fun n => ∀ r, IsResourceNodeActive ctx a n r = IsResourceNodeActive ctx b n r)
    (fun l => anyInnerActive ctx a l = anyInnerActive ctx b l)
    ?_ ?_ ?_ n
  · intro ty sz off set bind inner ih r
    simp only [IsResourceNodeActive, hab, hba, Option.map, ih]
    by_cases p1 : (ctx.resUsage a).pushConstSizeInBytes > 0 <;>
      by_cases p2 : (ctx.resUsage b).pushConstSizeInBytes > 0 <;>
      by_cases q1 : (set, bind) ∈ (ctx.resUsage a).descPairs <;>
      by_cases q2 : (set, bind) ∈ (ctx.resUsage b).descPairs <;>
      simp [p1, p2, q1, q2]
  · simp only [anyInnerActive]
  · intro n l ih1 ih2
    simp only [anyInnerActive, ih1, ih2]

/-- On a generation that merges stages, the vertex stage and a tessellation control stage
in the pipeline have the same active nodes. -/
theorem active_vertex_tcs (ctx : Context) (hg : ctx.gfxIpMajor ≥ 9)
    (ht : ctx.stageMask &&& ShaderStageToMask .TessControl ≠ 0) (n : ResourceNode)
    (r : Bool) :
    IsResourceNodeActive ctx .Vertex n r = IsResourceNodeActive ctx .TessControl n r := by
  have hts := hasTs_of_tcs ctx ht
  refine active_of_companions ctx .Vertex .TessControl ?_ ?_ n r
  · simp [shaderStage2, hg, hts]
  · simp [shaderStage2, hg, hts]

/-! ## The blocks of the function for the two stages -/

set_option linter.unreachableTactic false
set_option linter.unusedTactic false

theorem twin_scanNode (ctx : Context) (hg : ctx.gfxIpMajor ≥ 9)
    (ht : ctx.stageMask &&& ShaderStageToMask .TessControl ≠ 0)
    (i : Nat) (n : ResourceNode)
    (hso : n.type = .StreamOutTableVaPtr →
      (ctx.stageMask &&& sub32 (ShaderStageToMask .Fragment) (ShaderStageToMask .TessControl))
        ≠ ShaderStageToMask .TessControl)
    {s t : St} (h : s.locals = t.locals) :
    (scanNode ctx .Vertex i n s).locals = (scanNode ctx .TessControl i n t).locals := by
  have hts := hasTs_of_tcs ctx ht
  have hv := vertex_not_last ctx ht
  unfold scanNode
  dsimp only
  rw [active_vertex_tcs ctx hg ht n true]
  by_cases t1 : n.type = .IndirectUserDataVaPtr
  · simp only [t1, if_true, hg, true_or]
    exact twin_setReserveVbTable h
  · by_cases t2 : n.type = .StreamOutTableVaPtr
    · simp only [t1, t2, if_true, if_false, hv, hso t2, hts, hg, reduceCtorEq, false_and, or_self,
        false_or, and_false, Bool.true_eq_false]
      exact h
    · simp only [t1, t2, if_false]
      split_ifs <;>
      repeat (any_goals (with_reducible (first
        | assumption
        | refine twin_push _ ?_
        | refine twin_inRegNext ?_
        | refine twin_inReg ?_
        | refine twin_argNext ?_
        | refine twin_consume _ ?_
        | refine twin_userDataNext _ ?_
        | refine twin_never ?_
        | refine twin_checkMap _ _ ?_
        | refine twin_reserve _ ?_
        | refine twin_setReserveEsGsLdsSize ?_
        | refine twin_setReserveVbTable ?_
        | refine twin_setReserveStreamOutTable ?_
        | refine twin_require _ ?_
        | refine twin_setAvail _ ?_
        | refine twin_setNeedSpill _ ?_
        | refine twin_assert _ _ ?_ ?_
        | refine twin_record _ _ _ _ _ _ ?_
        | refine twin_setIntf _ _ _ _ ?_
        | refine twin_firstNodeOfType _ _ _ (fun _ _ _ _ => ?_) _ ?_
        | refine twin_vbTableNode _ ?_
        | refine twin_when _ _ _ _ ?_ (fun _ _ _ => ?_) ?_)))
      all_goals first
        | exact fun _ _ _ => rfl
        | exact fun _ _ hab => twin_read St.reserveVbTable (fun _ => rfl) hab
        | exact fun _ _ hab => twin_read St.reserveStreamOutTable (fun _ => rfl) hab
        | exact fun _ _ hab => twin_read St.reserveEsGsLdsSize (fun _ => rfl) hab
        | exact fun _ _ hab => twin_read St.needSpill (fun _ => rfl) hab
        | exact fun _ _ hab =>
            twin_read (fun s => s.needSpill && (useFixedLayout .Vertex == false)) (fun _ => rfl) hab

theorem twin_reserveSpecial (ctx : Context) (hg : ctx.gfxIpMajor ≥ 9)
    (hv : ctx.stageMask &&& ShaderStageToMask .Vertex ≠ 0)
    {s t : St} (h : s.locals = t.locals) :
    (reserveSpecial ctx .Vertex s).locals = (reserveSpecial ctx .TessControl t).locals := by
  simp only [reserveSpecial, currStage_vertex, currStage_tcs ctx hg hv]
  repeat (any_goals (with_reducible (first
    | assumption
    | refine twin_push _ ?_
    | refine twin_inRegNext ?_
    | refine twin_inReg ?_
    | refine twin_argNext ?_
    | refine twin_consume _ ?_
    | refine twin_userDataNext _ ?_
    | refine twin_never ?_
    | refine twin_checkMap _ _ ?_
    | refine twin_reserve _ ?_
    | refine twin_setReserveEsGsLdsSize ?_
    | refine twin_setReserveVbTable ?_
    | refine twin_setReserveStreamOutTable ?_
    | refine twin_require _ ?_
    | refine twin_setAvail _ ?_
    | refine twin_setNeedSpill _ ?_
    | refine twin_assert _ _ ?_ ?_
    | refine twin_record _ _ _ _ _ _ ?_
    | refine twin_setIntf _ _ _ _ ?_
    | refine twin_firstNodeOfType _ _ _ (fun _ _ _ _ => ?_) _ ?_
    | refine twin_vbTableNode _ ?_
    | refine twin_when _ _ _ _ ?_ (fun _ _ _ => ?_) ?_)))
  all_goals first
    | exact fun _ _ _ => rfl
    | exact fun _ _ hab => twin_read St.reserveVbTable (fun _ => rfl) hab
    | exact fun _ _ hab => twin_read St.reserveStreamOutTable (fun _ => rfl) hab
    | exact fun _ _ hab => twin_read St.reserveEsGsLdsSize (fun _ => rfl) hab
    | exact fun _ _ hab => twin_read St.needSpill (fun _ => rfl) hab
    | exact fun _ _ hab =>
        twin_read (fun s => s.needSpill && (useFixedLayout .Vertex == false)) (fun _ => rfl) hab

theorem twin_decideSpill (ctx : Context) {s t : St} (h : s.locals = t.locals) :
    (decideSpill ctx .Vertex s).locals = (decideSpill ctx .TessControl t).locals := by
  have e1 := twin_read St.requiredRemappedUserDataCount (fun _ => rfl) h
  have e2 := twin_read St.availUserDataCount (fun _ => rfl) h
  unfold decideSpill
  rw [if_neg (by decide), if_neg (by decide)]
  dsimp only
  rw [e1, e2]
  repeat (any_goals (with_reducible (first
    | assumption
    | refine twin_push _ ?_
    | refine twin_inRegNext ?_
    | refine twin_inReg ?_
    | refine twin_argNext ?_
    | refine twin_consume _ ?_
    | refine twin_userDataNext _ ?_
    | refine twin_never ?_
    | refine twin_checkMap _ _ ?_
    | refine twin_reserve _ ?_
    | refine twin_setReserveEsGsLdsSize ?_
    | refine twin_setReserveVbTable ?_
    | refine twin_setReserveStreamOutTable ?_
    | refine twin_require _ ?_
    | refine twin_setAvail _ ?_
    | refine twin_setNeedSpill _ ?_
    | refine twin_assert _ _ ?_ ?_
    | refine twin_record _ _ _ _ _ _ ?_
    | refine twin_setIntf _ _ _ _ ?_
    | refine twin_firstNodeOfType _ _ _ (fun _ _ _ _ => ?_) _ ?_
    | refine twin_vbTableNode _ ?_
    | refine twin_when _ _ _ _ ?_ (fun _ _ _ => ?_) ?_)))
  all_goals first
    | exact fun _ _ _ => rfl
    | exact fun _ _ hab => twin_read St.reserveVbTable (fun _ => rfl) hab
    | exact fun _ _ hab => twin_read St.reserveStreamOutTable (fun _ => rfl) hab
    | exact fun _ _ hab => twin_read St.reserveEsGsLdsSize (fun _ => rfl) hab
    | exact fun _ _ hab => twin_read St.needSpill (fun _ => rfl) hab
    | exact fun _ _ hab =>
        twin_read (fun s => s.needSpill && (useFixedLayout .Vertex == false)) (fun _ => rfl) hab

theorem twin_allocStreamOut (ctx : Context) {s t : St} (h : s.locals = t.locals)
    (hs : s.reserveStreamOutTable = false) :
    (allocStreamOut ctx .Vertex s).locals = (allocStreamOut ctx .TessControl t).locals := by
  have e := twin_read St.reserveStreamOutTable (fun _ => rfl) h
  unfold allocStreamOut
  rw [← e, hs]
  exact h

theorem twin_assignNode (ctx : Context) (i : Nat) (n : ResourceNode) {s t : St}
    (h : s.locals = t.locals) :
    (assignNode ctx .Vertex i n s).locals = (assignNode ctx .TessControl i n t).locals := by
  unfold assignNode
  dsimp only
  cases n.type <;> dsimp only <;>
  repeat (any_goals (with_reducible (first
    | assumption
    | refine twin_push _ ?_
    | refine twin_inRegNext ?_
    | refine twin_inReg ?_
    | refine twin_argNext ?_
    | refine twin_consume _ ?_
    | refine twin_userDataNext _ ?_
    | refine twin_never ?_
    | refine twin_checkMap _ _ ?_
    | refine twin_reserve _ ?_
    | refine twin_setReserveEsGsLdsSize ?_
    | refine twin_setReserveVbTable ?_
    | refine twin_setReserveStreamOutTable ?_
    | refine twin_require _ ?_
    | refine twin_setAvail _ ?_
    | refine twin_setNeedSpill _ ?_
    | refine twin_assert _ _ ?_ ?_
    | refine twin_record _ _ _ _ _ _ ?_
    | refine twin_setIntf _ _ _ _ ?_
    | refine twin_firstNodeOfType _ _ _ (fun _ _ _ _ => ?_) _ ?_
    | refine twin_vbTableNode _ ?_
    | refine twin_when _ _ _ _ ?_ (fun _ _ _ => ?_) ?_)))
  all_goals first
    | exact fun _ _ _ => rfl
    | exact fun _ _ hab => twin_read St.reserveVbTable (fun _ => rfl) hab
    | exact fun _ _ hab => twin_read St.reserveStreamOutTable (fun _ => rfl) hab
    | exact fun _ _ hab => twin_read St.reserveEsGsLdsSize (fun _ => rfl) hab
    | exact fun _ _ hab => twin_read St.needSpill (fun _ => rfl) hab
    | exact fun _ _ hab =>
        twin_read (fun s => s.needSpill && (useFixedLayout .Vertex == false)) (fun _ => rfl) hab

theorem twin_packNode (ctx : Context) (hg : ctx.gfxIpMajor ≥ 9)
    (ht : ctx.stageMask &&& ShaderStageToMask .TessControl ≠ 0)
    (i : Nat) (n : ResourceNode) {s t : St} (h : s.locals = t.locals) :
    (packNode ctx .Vertex i n s).locals = (packNode ctx .TessControl i n t).locals := by
  have ef := twin_read (fun s => fits s n) (fun _ => rfl) h
  dsimp only at ef
  have p1 : ∀ s : St, padNode ctx .Vertex n s = s := fun s => by
    unfold padNode
    rw [if_neg (by decide)]
  have p2 : ∀ s : St, padNode ctx .TessControl n s = s := fun s => by
    unfold padNode
    rw [if_neg (by decide)]
  unfold packNode
  rw [active_vertex_tcs ctx hg ht n true]
  by_cases t1 : n.type = .IndirectUserDataVaPtr
  · rw [if_pos t1, if_pos t1]
    exact h
  · by_cases t2 : n.type = .StreamOutTableVaPtr
    · rw [if_neg t1, if_pos t2, if_neg t1, if_pos t2]
      exact h
    · rw [if_neg t1, if_neg t2, if_neg t1, if_neg t2]
      by_cases a : IsResourceNodeActive ctx .TessControl n true = false
      · rw [if_pos a, if_pos a]
        exact h
      · rw [if_neg a, if_neg a]
        dsimp only
        rw [p1, p2, ef]
        by_cases f : fits t n = true
        · rw [if_pos f, if_pos f]
          exact twin_assignNode ctx i n h
        · rw [if_neg f, if_neg f]
          split <;> split
          · exact twin_setIntf _ _ _ _ h
          · exact twin_setIntf_left _ _ h
          · exact twin_setIntf_right _ _ h
          · exact h

theorem twin_fixedSpill (ctx : Context) {s t : St} (h : s.locals = t.locals) :
    (fixedSpill ctx .Vertex s).locals = (fixedSpill ctx .TessControl t).locals := by
  have e1 : fixedSpill ctx .Vertex s = s := by
    unfold fixedSpill
    rw [if_neg]
    simp [useFixedLayout]
  have e2 : fixedSpill ctx .TessControl t = t := by
    unfold fixedSpill
    rw [if_neg]
    simp [useFixedLayout]
  rw [e1, e2]
  exact h

theorem twin_vbTableNode (n : ResourceNode) {s t : St} (h : s.locals = t.locals) :
    (vbTableNode .Vertex n s).locals = (vbTableNode .Vertex n t).locals := by
  unfold vbTableNode
  dsimp only
  repeat (any_goals (with_reducible (first
    | assumption
    | refine twin_push _ ?_
    | refine twin_inRegNext ?_
    | refine twin_inReg ?_
    | refine twin_argNext ?_
    | refine twin_consume _ ?_
    | refine twin_userDataNext _ ?_
    | refine twin_never ?_
    | refine twin_checkMap _ _ ?_
    | refine twin_reserve _ ?_
    | refine twin_setReserveEsGsLdsSize ?_
    | refine twin_setReserveVbTable ?_
    | refine twin_setReserveStreamOutTable ?_
    | refine twin_require _ ?_
    | refine twin_setAvail _ ?_
    | refine twin_setNeedSpill _ ?_
    | refine twin_assert _ _ ?_ ?_
    | refine twin_record _ _ _ _ _ _ ?_
    | refine twin_setIntf _ _ _ _ ?_
    | refine twin_firstNodeOfType _ _ _ (fun _ _ _ _ => ?_) _ ?_
    | refine twin_vbTableNode _ ?_
    | refine twin_when _ _ _ _ ?_ (fun _ _ _ => ?_) ?_)))
  all_goals first
    | exact fun _ _ _ => rfl
    | exact fun _ _ hab => twin_read St.reserveVbTable (fun _ => rfl) hab
    | exact fun _ _ hab => twin_read St.reserveStreamOutTable (fun _ => rfl) hab
    | exact fun _ _ hab => twin_read St.reserveEsGsLdsSize (fun _ => rfl) hab
    | exact fun _ _ hab => twin_read St.needSpill (fun _ => rfl) hab
    | exact fun _ _ hab =>
        twin_read (fun s => s.needSpill && (useFixedLayout .Vertex == false)) (fun _ => rfl) hab

theorem twin_specialUserData (ctx : Context) (hg : ctx.gfxIpMajor ≥ 9)
    (hv : ctx.stageMask &&& ShaderStageToMask .Vertex ≠ 0)
    {s t : St} (h : s.locals = t.locals) :
    (specialUserData ctx .Vertex s).locals = (specialUserData ctx .TessControl t).locals := by
  simp only [specialUserData, currStage_vertex, currStage_tcs ctx hg hv]
  repeat (any_goals (with_reducible (first
    | assumption
    | refine twin_push _ ?_
    | refine twin_inRegNext ?_
    | refine twin_inReg ?_
    | refine twin_argNext ?_
    | refine twin_consume _ ?_
    | refine twin_userDataNext _ ?_
    | refine twin_never ?_
    | refine twin_checkMap _ _ ?_
    | refine twin_reserve _ ?_
    | refine twin_setReserveEsGsLdsSize ?_
    | refine twin_setReserveVbTable ?_
    | refine twin_setReserveStreamOutTable ?_
    | refine twin_require _ ?_
    | refine twin_setAvail _ ?_
    | refine twin_setNeedSpill _ ?_
    | refine twin_assert _ _ ?_ ?_
    | refine twin_record _ _ _ _ _ _ ?_
    | refine twin_setIntf _ _ _ _ ?_
    | refine twin_firstNodeOfType _ _ _ (fun _ _ _ _ => ?_) _ ?_
    | refine twin_vbTableNode _ ?_
    | refine twin_when _ _ _ _ ?_ (fun _ _ _ => ?_) ?_)))
  all_goals first
    | exact fun _ _ _ => rfl
    | exact fun _ _ hab => twin_read St.reserveVbTable (fun _ => rfl) hab
    | exact fun _ _ hab => twin_read St.reserveStreamOutTable (fun _ => rfl) hab
    | exact fun _ _ hab => twin_read St.reserveEsGsLdsSize (fun _ => rfl) hab
    | exact fun _ _ hab => twin_read St.needSpill (fun _ => rfl) hab
    | exact fun _ _ hab =>
        twin_read (fun s => s.needSpill && (useFixedLayout .Vertex == false)) (fun _ => rfl) hab

theorem twin_greedySpill {s t : St} (h : s.locals = t.locals) :
    (greedySpill .Vertex s).locals = (greedySpill .TessControl t).locals := by
  unfold greedySpill
  dsimp only
  repeat (any_goals (with_reducible (first
    | assumption
    | refine twin_push _ ?_
    | refine twin_inRegNext ?_
    | refine twin_inReg ?_
    | refine twin_argNext ?_
    | refine twin_consume _ ?_
    | refine twin_userDataNext _ ?_
    | refine twin_never ?_
    | refine twin_checkMap _ _ ?_
    | refine twin_reserve _ ?_
    | refine twin_setReserveEsGsLdsSize ?_
    | refine twin_setReserveVbTable ?_
    | refine twin_setReserveStreamOutTable ?_
    | refine twin_require _ ?_
    | refine twin_setAvail _ ?_
    | refine twin_setNeedSpill _ ?_
    | refine twin_assert _ _ ?_ ?_
    | refine twin_record _ _ _ _ _ _ ?_
    | refine twin_setIntf _ _ _ _ ?_
    | refine twin_firstNodeOfType _ _ _ (fun _ _ _ _ => ?_) _ ?_
    | refine twin_vbTableNode _ ?_
    | refine twin_when _ _ _ _ ?_ (fun _ _ _ => ?_) ?_)))
  all_goals first
    | exact fun _ _ _ => rfl
    | exact fun _ _ hab => twin_read St.reserveVbTable (fun _ => rfl) hab
    | exact fun _ _ hab => twin_read St.reserveStreamOutTable (fun _ => rfl) hab
    | exact fun _ _ hab => twin_read St.reserveEsGsLdsSize (fun _ => rfl) hab
    | exact fun _ _ hab => twin_read St.needSpill (fun _ => rfl) hab
    | exact fun _ _ hab =>
        twin_read (fun s => s.needSpill && (useFixedLayout .Vertex == false)) (fun _ => rfl) hab

set_option linter.unreachableTactic true
set_option linter.unusedTactic true

/-! ## Runs of the vertex stage and of the tessellation control stage merged with it -/

theorem scanNode_reserved_mono (ctx : Context) (stage : ShaderStage) (i : Nat)
    (n : ResourceNode) (s : St) (h : s.reserveStreamOutTable = true) :
    (scanNode ctx stage i n s).reserveStreamOutTable = true := by
  unfold scanNode
  dsimp only
  split_ifs <;> simp [h]

/-- A stream-out table node in the list, on a stage that is the last one in front of the
fragment stage, makes the first loop compute the stream-out reservation. -/
theorem forNodes_scanNode_reserves (ctx : Context) (stage : ShaderStage)
    (hlast : (ctx.stageMask &&& sub32 (ShaderStageToMask .Fragment) (ShaderStageToMask stage))
      = ShaderStageToMask stage)
    (l : List ResourceNode) (hn : ∃ n ∈ l, n.type = .StreamOutTableVaPtr) (i : Nat) (s : St) :
    (forNodes (scanNode ctx stage) i l s).reserveStreamOutTable = true := by
  induction l generalizing i s with
  | nil =>
    obtain ⟨n, hm, _⟩ := hn
    cases hm
  | cons m l ih =>
    simp only [forNodes]
    by_cases hm : m.type = .StreamOutTableVaPtr
    · refine forNodes_inv (fun s => s.reserveStreamOutTable = true) (scanNode ctx stage)
        (fun j k s hs => scanNode_reserved_mono ctx stage j k s hs) _ _ _ ?_
      unfold scanNode
      dsimp only
      rw [if_neg (by rw [hm]; decide), if_pos hm, if_pos hlast]
      rfl
    · obtain ⟨n, hn1, hn2⟩ := hn
      rcases List.mem_cons.mp hn1 with rfl | hn1
      · exact absurd hn2 hm
      · exact ih ⟨n, hn1, hn2⟩ _ _

/-- A run of the tessellation control stage that returns has no stream-out table node, or
the stage is not the last one in front of the fragment stage. -/
theorem tcs_not_last_of_some (ctx : Context) (intfData : ShaderStage → InterfaceData)
    (inRegMask : Nat) (r : St)
    (hr : GenerateEntryPointType ctx .TessControl intfData inRegMask = some r)
    (n : ResourceNode) (hn : n ∈ ctx.userDataNodes) (hty : n.type = .StreamOutTableVaPtr) :
    (ctx.stageMask &&& sub32 (ShaderStageToMask .Fragment) (ShaderStageToMask .TessControl))
      ≠ ShaderStageToMask .TessControl := by
  intro hlast
  obtain ⟨_, hok⟩ := GenerateEntryPointType_some ctx .TessControl intfData inRegMask r hr
  have hres : (afterReserve ctx .TessControl intfData inRegMask).reserveStreamOutTable
      = true := by
    unfold afterReserve
    rw [(reserveSpecial_flags ctx .TessControl _).2.1]
    unfold afterScan scanNodes
    exact forNodes_scanNode_reserves ctx .TessControl hlast _ ⟨n, hn, hty⟩ 0 _
  have hnc := (run_neverCalled ctx .TessControl intfData inRegMask).2
    (Or.inl ⟨hres, ⟨n, hn, hty⟩, Or.inl rfl⟩)
  unfold St.ok at hok
  rw [hnc] at hok
  cases hok

/-- With a tessellation control stage in the pipeline, the vertex stage computes no
stream-out reservation. -/
theorem vertex_no_streamOut (ctx : Context)
    (ht : ctx.stageMask &&& ShaderStageToMask .TessControl ≠ 0)
    (intfData : ShaderStage → InterfaceData) (inRegMask : Nat) :
    (afterReserve ctx .Vertex intfData inRegMask).reserveStreamOutTable = false := by
  have hts := hasTs_of_tcs ctx ht
  have hv := vertex_not_last ctx ht
  unfold afterReserve
  rw [(reserveSpecial_flags ctx .Vertex _).2.1]
  unfold afterScan scanNodes
  refine forNodes_inv (fun s => s.reserveStreamOutTable = false) (scanNode ctx .Vertex)
    (fun i n s hs => ?_) _ _ _ (initState_flags ctx .Vertex intfData inRegMask).2.1
  by_cases hn : n.type = .StreamOutTableVaPtr
  · unfold scanNode
    dsimp only
    rw [if_neg (by rw [hn]; decide), if_pos hn, if_neg hv]
    split
    · rw [if_neg (by simp [hts])]
      exact hs
    · exact hs
  · dsimp only
    rw [scanNode_reserveStreamOut ctx .Vertex i n s hn]
    exact hs

theorem twin_initState (ctx : Context) (d e : ShaderStage → InterfaceData)
    (inRegMask : Nat) :
    (initState ctx .Vertex d inRegMask).locals
      = (initState ctx .TessControl e inRegMask).locals := by
  simp [initState, St.locals, St.setAvail, St.setIntf, St.userDataNext, St.inRegNext, St.inReg,
    St.argNext, St.push]

/-- The locals of the two runs in front of the block that allocates the stream-out
register. -/
theorem twin_head (ctx : Context) (hg : ctx.gfxIpMajor ≥ 9)
    (hv : ctx.stageMask &&& ShaderStageToMask .Vertex ≠ 0)
    (ht : ctx.stageMask &&& ShaderStageToMask .TessControl ≠ 0)
    (hso : ∀ n ∈ ctx.userDataNodes, n.type = .StreamOutTableVaPtr →
      (ctx.stageMask &&& sub32 (ShaderStageToMask .Fragment) (ShaderStageToMask .TessControl))
        ≠ ShaderStageToMask .TessControl)
    (d e : ShaderStage → InterfaceData) (inRegMask : Nat) :
    (afterReserve ctx .Vertex d inRegMask).locals
        = (afterReserve ctx .TessControl e inRegMask).locals ∧
      (beforePack ctx .Vertex d inRegMask).locals
        = (beforePack ctx .TessControl e inRegMask).locals := by
  have h1 : (afterReserve ctx .Vertex d inRegMask).locals
      = (afterReserve ctx .TessControl e inRegMask).locals := by
    unfold afterReserve afterScan scanNodes
    exact twin_reserveSpecial ctx hg hv
      (twin_forNodes _ _ _ (fun i n hn a b hab => twin_scanNode ctx hg ht i n (hso n hn) hab)
        0 (twin_initState ctx d e inRegMask))
  refine ⟨h1, ?_⟩
  unfold beforePack
  refine twin_allocStreamOut ctx (twin_decideSpill ctx h1) ?_
  rw [decideSpill_reserveStreamOutTable]
  exact vertex_no_streamOut ctx ht d inRegMask

/-- The locals of the two runs in front of each iteration of the packing loop, and behind
the blocks that follow it. -/
theorem twin_run (ctx : Context) (hg : ctx.gfxIpMajor ≥ 9)
    (hv : ctx.stageMask &&& ShaderStageToMask .Vertex ≠ 0)
    (ht : ctx.stageMask &&& ShaderStageToMask .TessControl ≠ 0)
    (hso : ∀ n ∈ ctx.userDataNodes, n.type = .StreamOutTableVaPtr →
      (ctx.stageMask &&& sub32 (ShaderStageToMask .Fragment) (ShaderStageToMask .TessControl))
        ≠ ShaderStageToMask .TessControl)
    (d e : ShaderStage → InterfaceData) (inRegMask : Nat) :
    (∀ i, (packStateAt ctx .Vertex d inRegMask i).locals
        = (packStateAt ctx .TessControl e inRegMask i).locals) ∧
      (∀ i, (fitStateAt ctx .Vertex d inRegMask i).locals
        = (fitStateAt ctx .TessControl e inRegMask i).locals) ∧
      (afterFixedSpill ctx .Vertex d inRegMask).locals
        = (afterFixedSpill ctx .TessControl e inRegMask).locals ∧
      (afterSpecial ctx .Vertex d inRegMask).locals
        = (afterSpecial ctx .TessControl e inRegMask).locals ∧
      (afterUserData ctx .Vertex d inRegMask).locals
        = (afterUserData ctx .TessControl e inRegMask).locals := by
  have h0 := (twin_head ctx hg hv ht hso d e inRegMask).2
  have hp : ∀ i, (packStateAt ctx .Vertex d inRegMask i).locals
      = (packStateAt ctx .TessControl e inRegMask i).locals := by
    intro i
    unfold packStateAt
    exact twin_forNodes _ _ _ (fun j n _ a b hab => twin_packNode ctx hg ht j n hab) 0 h0
  have h3 : (afterFixedSpill ctx .Vertex d inRegMask).locals
      = (afterFixedSpill ctx .TessControl e inRegMask).locals := by
    unfold afterFixedSpill
    rw [← packStateAt_length, ← packStateAt_length]
    exact twin_fixedSpill ctx (hp _)
  have h4 : (afterSpecial ctx .Vertex d inRegMask).locals
      = (afterSpecial ctx .TessControl e inRegMask).locals := by
    unfold afterSpecial
    exact twin_specialUserData ctx hg hv h3
  refine ⟨hp, ?_, h3, h4, ?_⟩
  · intro i
    unfold fitStateAt
    cases ctx.userDataNodes[i]? with
    | none => exact hp i
    | some n =>
      dsimp only
      have p1 : ∀ s : St, padNode ctx .Vertex n s = s := fun s => by
        unfold padNode
        rw [if_neg (by decide)]
      have p2 : ∀ s : St, padNode ctx .TessControl n s = s := fun s => by
        unfold padNode
        rw [if_neg (by decide)]
      rw [p1, p2]
      exact hp i
  · exact twin_greedySpill h4

/-- The value of `userDataCount` that a run leaves for its stage is the value of
`userDataIdx` in front of the system values. -/
theorem run_userDataCount (ctx : Context) (stage : ShaderStage)
    (intfData : ShaderStage → InterfaceData) (inRegMask : Nat) :
    ((runEntryPointType ctx stage intfData inRegMask).intfData stage).userDataCount
      = (afterUserData ctx stage intfData inRegMask).userDataIdx := by
  have h6 : Frame (ownWrites stage (fun l => l.isSystemArg || l.isWorkgroupIdArg))
      (afterUserData ctx stage intfData inRegMask)
      (runEntryPointType ctx stage intfData inRegMask) :=
    Frame.frame_systemValues ctx stage (Frame.frame_refl _ _)
  have e := h6 stage .userDataCount (Bool.and_false _)
  refine e.trans ?_
  unfold afterUserData greedySpill
  simp [Loc.read, St.record_intfData_same]

/-! ## What the second `switch` writes through `pCurrIntfData` -/

set_option maxHeartbeats 4000000 in
/-- The second `switch` of the tessellation control stage merged with the vertex stage
assigns to the interface data of the vertex stage what the second `switch` of the vertex
stage assigns there, when the two runs have the same locals: a location that the block of
the vertex stage leaves with the value `x` is left with `x` by the block of the tessellation
control stage started on `x`. -/
theorem special_cur_twin (ctx : Context) (hg : ctx.gfxIpMajor ≥ 9)
    (hv : ctx.stageMask &&& ShaderStageToMask .Vertex ≠ 0)
    (s t : St) (h : s.locals = t.locals) (l : Loc) (hl : l.ofSpecialCur = true)
    (hx : l.read (t.intfData .Vertex)
      = l.read ((specialUserData ctx .Vertex s).intfData .Vertex)) :
    l.read ((specialUserData ctx .TessControl t).intfData .Vertex)
      = l.read ((specialUserData ctx .Vertex s).intfData .Vertex) := by
  have e1 : s.userDataIdx = t.userDataIdx := twin_read St.userDataIdx (fun _ => rfl) h
  have e2 : s.argIdx = t.argIdx := twin_read St.argIdx (fun _ => rfl) h
  have e3 : s.reserveEsGsLdsSize = t.reserveEsGsLdsSize :=
    twin_read St.reserveEsGsLdsSize (fun _ => rfl) h
  simp only [specialUserData, currStage_vertex, currStage_tcs ctx hg hv,
    firstNodeOfType_eq_find] at hx ⊢
  cases l <;> first
    | exact Bool.noConfusion hl
    | (cases h1 : ctx.enableMultiView <;>
       cases h6 : t.reserveEsGsLdsSize <;>
       cases h3 : ctx.userDataNodes.find?
         (fun n => decide (n.type = .IndirectUserDataVaPtr)) <;>
       cases h4 : ((ctx.resUsage .Vertex).builtInUsage.vs.baseVertex
         || (ctx.resUsage .Vertex).builtInUsage.vs.baseInstance) <;>
       cases h5 : (ctx.resUsage .Vertex).builtInUsage.vs.drawIndex <;>
       (have h6s := e3.trans h6
        simp [St.when, vbTableNode, St.record_intfData_apply, Loc.read, e1, e2,
          h1, h6, h6s, h3, h4, h5] at hx ⊢ <;> exact hx))

/-! ## Claim C21: the two slots of the workgroup-count emulation -/

/-- Claim C21, amended: in the compute stage, for two inputs with the same number
`maxUserDataCount` of user data registers (at least four, a `uint32_t`) and the same constant
`MaxCsUserDataCount`, the first without and the second with the built-in `numWorkgroups`,
the second has a slot budget behind the first `switch` that is lower by 2; the number of
slots available to the packing loop is `MaxCsUserDataCount` at every node of both inputs,
and when both runs return, over the same nodes with the same activity and the same
`CsStartUserData`, the same nodes are register-resident. -/
theorem workgroup_count_reserves_two (ctx ctx' : Context)
    (intfData : ShaderStage → InterfaceData) (inRegMask : Nat)
    (hmax : ctx'.maxUserDataCount = ctx.maxUserDataCount)
    (hMaxCs : ctx'.MaxCsUserDataCount = ctx.MaxCsUserDataCount)
    (hoff : (ctx.resUsage .Compute).builtInUsage.cs.numWorkgroups = false)
    (hon : (ctx'.resUsage .Compute).builtInUsage.cs.numWorkgroups = true)
    (h4 : 4 ≤ ctx.maxUserDataCount) (hlt : ctx.maxUserDataCount < 4294967296) :
    slotBudget ctx' .Compute intfData inRegMask + 2
        = slotBudget ctx .Compute intfData inRegMask ∧
      (∀ i, (fitStateAt ctx .Compute intfData inRegMask i).availUserDataCount
          = ctx.MaxCsUserDataCount ∧
        (fitStateAt ctx' .Compute intfData inRegMask i).availUserDataCount
          = ctx.MaxCsUserDataCount) ∧
      (∀ r r', GenerateEntryPointType ctx .Compute intfData inRegMask = some r →
        GenerateEntryPointType ctx' .Compute intfData inRegMask = some r' →
        ctx'.userDataNodes = ctx.userDataNodes →
        (∀ n ∈ ctx.userDataNodes, isPacked ctx' .Compute n = isPacked ctx .Compute n) →
        ctx'.CsStartUserData = ctx.CsStartUserData →
        ∀ i, registerResident ctx' .Compute intfData inRegMask i
          = registerResident ctx .Compute intfData inRegMask i) := by
  refine ⟨?_, fun i => ⟨?_, ?_⟩, ?_⟩
  · rw [slotBudget_eq, slotBudget_eq]
    have e : reservedSlots ctx .Compute intfData inRegMask = 0 := by
      unfold reservedSlots reservedSlotsOf
      simp [hoff]
    have e' : reservedSlots ctx' .Compute intfData inRegMask = 2 := by
      unfold reservedSlots reservedSlotsOf
      simp [hon]
    rw [e, e', hmax]
    unfold sub32 u32
    split_ifs <;> omega
  · rw [run_avail_eq_of_decided (fitStateAt_decided ctx .Compute intfData inRegMask i),
      run_avail, if_pos rfl]
  · rw [run_avail_eq_of_decided (fitStateAt_decided ctx' .Compute intfData inRegMask i),
      run_avail, if_pos rfl, hMaxCs]
  · intro r r' hr hr' hnodes hact hCs i
    exact registerResident_fixed_agree ctx ctx' intfData inRegMask
      (GenerateEntryPointType_some _ _ _ _ _ hr).2 (GenerateEntryPointType_some _ _ _ _ _ hr').2
      hnodes hact hCs hMaxCs i

/-- Claim C21 on a compute shader with sixteen user data registers and one buffer node of
four dwords: with `numWorkgroups` the budget behind the first `switch` is 12 instead of 14. -/
theorem workgroup_count_reserves_two_witness :
    slotBudget
        { plainCtx 16 32 [bufferNode 4 0 0] [(0, 0)] with
          resUsage := fun _ =>
            { plainUsage [(0, 0)] with builtInUsage.cs.numWorkgroups := true } }
        .Compute (fun _ => zeroIntf) 0 + 2
      = slotBudget (plainCtx 16 32 [bufferNode 4 0 0] [(0, 0)]) .Compute
          (fun _ => zeroIntf) 0 :=
  (workgroup_count_reserves_two (plainCtx 16 32 [bufferNode 4 0 0] [(0, 0)])
    { plainCtx 16 32 [bufferNode 4 0 0] [(0, 0)] with
      resUsage := fun _ =>
        { plainUsage [(0, 0)] with builtInUsage.cs.numWorkgroups := true } }
    (fun _ => zeroIntf) 0 rfl rfl rfl rfl (by decide) (by decide)).1

/-- Claim C21 fails as stated: on a compute shader with sixteen user data registers and one
buffer node of four dwords, both runs return, and the packing loop has
`MaxCsUserDataCount = 10` slots available with the built-in `numWorkgroups` as without it
(the fixed layout assigns `availUserDataCount = MaxCsUserDataCount` behind the first
`switch`); the node is register-resident in both. -/
theorem workgroup_count_reserves_two_counterexample :
    (GenerateEntryPointType (plainCtx 16 32 [bufferNode 4 0 0] [(0, 0)]) .Compute
        (fun _ => zeroIntf) 0).isSome = true ∧
      (GenerateEntryPointType
        { plainCtx 16 32 [bufferNode 4 0 0] [(0, 0)] with
          resUsage := fun _ =>
            { plainUsage [(0, 0)] with builtInUsage.cs.numWorkgroups := true } }
        .Compute (fun _ => zeroIntf) 0).isSome = true ∧
      (fitStateAt (plainCtx 16 32 [bufferNode 4 0 0] [(0, 0)]) .Compute
        (fun _ => zeroIntf) 0 0).availUserDataCount = 10 ∧
      (fitStateAt
        { plainCtx 16 32 [bufferNode 4 0 0] [(0, 0)] with
          resUsage := fun _ =>
            { plainUsage [(0, 0)] with builtInUsage.cs.numWorkgroups := true } }
        .Compute (fun _ => zeroIntf) 0 0).availUserDataCount = 10 ∧
      ¬ ((fitStateAt
        { plainCtx 16 32 [bufferNode 4 0 0] [(0, 0)] with
          resUsage := fun _ =>
            { plainUsage [(0, 0)] with builtInUsage.cs.numWorkgroups := true } }
        .Compute (fun _ => zeroIntf) 0 0).availUserDataCount + 2
        = (fitStateAt (plainCtx 16 32 [bufferNode 4 0 0] [(0, 0)]) .Compute
          (fun _ => zeroIntf) 0 0).availUserDataCount) := by
  decide

/-- C22 (confirmed): for the vertex stage and the tessellation control stage, let `cur` be
the vertex stage when the generation merges stages (major version 9 or higher), the stage is
the tessellation control stage and the vertex stage is part of the pipeline, and the stage
itself on every other configuration. The slot budget of the stage takes two slots off for
base vertex and base instance and one slot for the draw index as the built-in usage flags of
`cur` say, the block of the special user data adds the two `i32` arguments for base vertex
and base instance and the `i32` argument for the draw index as the same flags of `cur` say,
and it records their argument indices, base instance directly behind base vertex. -/
theorem base_and_draw_follow_merge_partner (ctx : Context) (stage cur : ShaderStage)
    (intfData : ShaderStage → InterfaceData) (inRegMask : Nat) (s : St)
    (hst : stage = .Vertex ∨ stage = .TessControl)
    (hcur : cur = if ctx.gfxIpMajor ≥ 9 ∧ stage = .TessControl ∧
        (ctx.stageMask &&& ShaderStageToMask .Vertex) ≠ 0 then .Vertex else stage)
    (ha : s.argIdx < 4294967296) :
    slotBudget ctx stage intfData inRegMask
        = sub32 ctx.maxUserDataCount
          (2 + ((if ctx.enableMultiView then 1 else 0)
            + (if (afterReserve ctx stage intfData inRegMask).reserveVbTable then 1 else 0)
            + (if (afterReserve ctx stage intfData inRegMask).reserveStreamOutTable
                then 1 else 0)
            + (if (ctx.resUsage cur).builtInUsage.vs.baseVertex
                  || (ctx.resUsage cur).builtInUsage.vs.baseInstance then 2 else 0)
            + (if (ctx.resUsage cur).builtInUsage.vs.drawIndex then 1 else 0)
            + (if (afterReserve ctx stage intfData inRegMask).reserveEsGsLdsSize
                then 1 else 0))) ∧
      (specialUserData ctx stage s).argTys
        = s.argTys
          ++ (if ctx.enableMultiView then [ArgTy.Int32Ty] else [])
          ++ (if s.reserveEsGsLdsSize then [ArgTy.Int32Ty] else [])
          ++ (if ctx.userDataNodes.any (fun n => decide (n.type = .IndirectUserDataVaPtr))
              then [ArgTy.Int32Ty] else [])
          ++ (if (ctx.resUsage cur).builtInUsage.vs.baseVertex
                || (ctx.resUsage cur).builtInUsage.vs.baseInstance
              then [ArgTy.Int32Ty, ArgTy.Int32Ty] else [])
          ++ (if (ctx.resUsage cur).builtInUsage.vs.drawIndex
              then [ArgTy.Int32Ty] else []) ∧
      (((ctx.resUsage cur).builtInUsage.vs.baseVertex
          || (ctx.resUsage cur).builtInUsage.vs.baseInstance) = true →
        ((specialUserData ctx stage s).intfData stage).entryArgIdxs.vs.baseVertex
            = u32 (s.argIdx
              + ((if ctx.enableMultiView then 1 else 0)
                + (if s.reserveEsGsLdsSize then 1 else 0)
                + (if ctx.userDataNodes.any
                    (fun n => decide (n.type = .IndirectUserDataVaPtr)) then 1 else 0))) ∧
          ((specialUserData ctx stage s).intfData stage).entryArgIdxs.vs.baseInstance
            = u32 (s.argIdx
              + ((if ctx.enableMultiView then 1 else 0)
                + (if s.reserveEsGsLdsSize then 1 else 0)
                + (if ctx.userDataNodes.any
                    (fun n => decide (n.type = .IndirectUserDataVaPtr)) then 1 else 0)
                + 1))) ∧
      ((ctx.resUsage cur).builtInUsage.vs.drawIndex = true →
        ((specialUserData ctx stage s).intfData stage).entryArgIdxs.vs.drawIndex
          = u32 (s.argIdx
            + ((if ctx.enableMultiView then 1 else 0)
              + (if s.reserveEsGsLdsSize then 1 else 0)
              + (if ctx.userDataNodes.any
                  (fun n => decide (n.type = .IndirectUserDataVaPtr)) then 1 else 0)
              + (if (ctx.resUsage cur).builtInUsage.vs.baseVertex
                    || (ctx.resUsage cur).builtInUsage.vs.baseInstance
                  then 2 else 0)))) := by
  have hc : cur = currStage ctx stage := hcur
  subst hc
  obtain ⟨_, _, _, i4, i5⟩ := specialUserData_vs_indices ctx stage s hst ha
  refine ⟨?_, specialUserData_vs_args ctx stage s hst, i4, i5⟩
  rw [slotBudget_eq]
  unfold reservedSlots reservedSlotsOf
  rcases hst with rfl | rfl <;> rfl

/-- Claim C22 on a GFX9 pipeline with vertex, tessellation and fragment stages and sixteen
user data registers, where the vertex stage uses the draw index and the tessellation control
stage would use the base vertex: the budget of the tessellation control stage is
`16 - 2 - 1 = 13`, and its second `switch` adds the one argument of the draw index behind
the buffer. -/
theorem base_and_draw_follow_merge_partner_witness :
    slotBudget
        { plainCtx 16 23 [bufferNode 4 0 0] [(0, 0)] with
          gfxIpMajor := 9,
          resUsage := fun t =>
            if t = .Vertex then { plainUsage [(0, 0)] with builtInUsage.vs.drawIndex := true }
            else { plainUsage [(0, 0)] with builtInUsage.vs.baseVertex := true } }
        .TessControl (fun _ => zeroIntf) 0 = 13 ∧
      (specialUserData
        { plainCtx 16 23 [bufferNode 4 0 0] [(0, 0)] with
          gfxIpMajor := 9,
          resUsage := fun t =>
            if t = .Vertex then { plainUsage [(0, 0)] with builtInUsage.vs.drawIndex := true }
            else { plainUsage [(0, 0)] with builtInUsage.vs.baseVertex := true } }
        .TessControl
        (afterFixedSpill
          { plainCtx 16 23 [bufferNode 4 0 0] [(0, 0)] with
            gfxIpMajor := 9,
            resUsage := fun t =>
              if t = .Vertex then
                { plainUsage [(0, 0)] with builtInUsage.vs.drawIndex := true }
              else { plainUsage [(0, 0)] with builtInUsage.vs.baseVertex := true } }
          .TessControl (fun _ => zeroIntf) 0)).argTys
        = [.Int32Ty, .Int32Ty, .VectorInt32 4, .Int32Ty] :=
  ⟨(base_and_draw_follow_merge_partner
      { plainCtx 16 23 [bufferNode 4 0 0] [(0, 0)] with
        gfxIpMajor := 9,
        resUsage := fun t =>
          if t = .Vertex then { plainUsage [(0, 0)] with builtInUsage.vs.drawIndex := true }
          else { plainUsage [(0, 0)] with builtInUsage.vs.baseVertex := true } }
      .TessControl .Vertex (fun _ => zeroIntf) 0
      (afterFixedSpill
        { plainCtx 16 23 [bufferNode 4 0 0] [(0, 0)] with
          gfxIpMajor := 9,
          resUsage := fun t =>
            if t = .Vertex then { plainUsage [(0, 0)] with builtInUsage.vs.drawIndex := true }
            else { plainUsage [(0, 0)] with builtInUsage.vs.baseVertex := true } }
        .TessControl (fun _ => zeroIntf) 0)
      (Or.inr rfl) (by decide) (by decide)).1.trans (by decide),
    (base_and_draw_follow_merge_partner
      { plainCtx 16 23 [bufferNode 4 0 0] [(0, 0)] with
        gfxIpMajor := 9,
        resUsage := fun t =>
          if t = .Vertex then { plainUsage [(0, 0)] with builtInUsage.vs.drawIndex := true }
          else { plainUsage [(0, 0)] with builtInUsage.vs.baseVertex := true } }
      .TessControl .Vertex (fun _ => zeroIntf) 0
      (afterFixedSpill
        { plainCtx 16 23 [bufferNode 4 0 0] [(0, 0)] with
          gfxIpMajor := 9,
          resUsage := fun t =>
            if t = .Vertex then { plainUsage [(0, 0)] with builtInUsage.vs.drawIndex := true }
            else { plainUsage [(0, 0)] with builtInUsage.vs.baseVertex := true } }
        .TessControl (fun _ => zeroIntf) 0)
      (Or.inr rfl) (by decide) (by decide)).2.1.trans (by decide)⟩

/-! ## Claim C23: the vertex buffer table pointer and its reservation -/

/-- Claim C23 at a failing input: on GFX8 with vertex, tessellation and fragment stages, four
user data registers and the nodes "vertex buffer table, buffer of two dwords". For the
tessellation control stage no slot is reserved (`reserveVbTable` is false, the budget is
`4 - 2 = 2`, and the buffer is register-resident without a spill), yet the second `switch`
adds the vertex buffer table pointer: the run returns with the arguments
"two leading, buffer, vertex buffer table pointer" in front of the system values, the
pointer recorded at argument index 3 and user data slot 4, and `userDataCount` 5, above the
four registers. The vertex stage of the same pipeline reserves the slot (budget 1). -/
theorem vb_table_pointer_without_reservation :
    (afterReserve
        (plainCtx 4 23 [.mk .IndirectUserDataVaPtr 1 0 0 0 [], bufferNode 2 1 0] [(0, 0)])
        .TessControl (fun _ => zeroIntf) 0).reserveVbTable = false ∧
      slotBudget
        (plainCtx 4 23 [.mk .IndirectUserDataVaPtr 1 0 0 0 [], bufferNode 2 1 0] [(0, 0)])
        .TessControl (fun _ => zeroIntf) 0 = 2 ∧
      (GenerateEntryPointType
        (plainCtx 4 23 [.mk .IndirectUserDataVaPtr 1 0 0 0 [], bufferNode 2 1 0] [(0, 0)])
        .TessControl (fun _ => zeroIntf) 0).isSome = true ∧
      (runEntryPointType
        (plainCtx 4 23 [.mk .IndirectUserDataVaPtr 1 0 0 0 [], bufferNode 2 1 0] [(0, 0)])
        .TessControl (fun _ => zeroIntf) 0).needSpill = false ∧
      (afterUserData
        (plainCtx 4 23 [.mk .IndirectUserDataVaPtr 1 0 0 0 [], bufferNode 2 1 0] [(0, 0)])
        .TessControl (fun _ => zeroIntf) 0).argTys
        = [.Int32Ty, .Int32Ty, .VectorInt32 2, .Int32Ty] ∧
      ((runEntryPointType
        (plainCtx 4 23 [.mk .IndirectUserDataVaPtr 1 0 0 0 [], bufferNode 2 1 0] [(0, 0)])
        .TessControl (fun _ => zeroIntf) 0).intfData .TessControl).entryArgIdxs.vs.vbTablePtr
        = 3 ∧
      ((runEntryPointType
        (plainCtx 4 23 [.mk .IndirectUserDataVaPtr 1 0 0 0 [], bufferNode 2 1 0] [(0, 0)])
        .TessControl (fun _ => zeroIntf) 0).intfData .TessControl).userDataUsage.vs.vbTablePtr
        = 4 ∧
      ((runEntryPointType
        (plainCtx 4 23 [.mk .IndirectUserDataVaPtr 1 0 0 0 [], bufferNode 2 1 0] [(0, 0)])
        .TessControl (fun _ => zeroIntf) 0).intfData .TessControl).userDataCount = 5 ∧
      (afterReserve
        (plainCtx 4 23 [.mk .IndirectUserDataVaPtr 1 0 0 0 [], bufferNode 2 1 0] [(0, 0)])
        .Vertex (fun _ => zeroIntf) 0).reserveVbTable = true ∧
      slotBudget
        (plainCtx 4 23 [.mk .IndirectUserDataVaPtr 1 0 0 0 [], bufferNode 2 1 0] [(0, 0)])
        .Vertex (fun _ => zeroIntf) 0 = 1 := by
  decide

/-- C24 (confirmed): on a run that returns, the signature is built in this order. The
arguments in front of the packing loop are the two leading ones, followed by the stream-out
table pointer when the reservation is computed. The packing loop, the block of the fixed
layout (which adds nothing outside the compute stage), the second `switch`, the block of the
spill-table pointer and the system values each append to the arguments in front of them.
For the vertex and the tessellation control stage the second `switch` appends view index,
LDS size, vertex buffer table pointer, base vertex and base instance, draw index, each under
its condition, and the recorded argument indices are the positions in this order, base
instance directly behind base vertex. The block behind it appends the spill-table pointer
when a spill is needed outside the fixed layout and records its position. Every recorded
argument index keeps its initial value or lies in the range of positions of its group:
stream-out, descriptors, spill pointer, special user data, system values; the ranges follow
each other, so an index of an earlier group is lower than an index of a later group. -/
theorem signature_groups_in_fixed_order (ctx : Context) (stage : ShaderStage)
    (intfData : ShaderStage → InterfaceData) (inRegMask : Nat) (r : St)
    (hr : GenerateEntryPointType ctx stage intfData inRegMask = some r) :
    (beforePack ctx stage intfData inRegMask).argTys
        = [ArgTy.Int32Ty, ArgTy.Int32Ty]
          ++ (if (afterReserve ctx stage intfData inRegMask).reserveStreamOutTable
              then [ArgTy.Int32Ty] else []) ∧
      ((beforePack ctx stage intfData inRegMask).argTys
          <+: (afterPack ctx stage intfData inRegMask).argTys ∧
        (afterPack ctx stage intfData inRegMask).argTys
          <+: (afterFixedSpill ctx stage intfData inRegMask).argTys ∧
        (afterFixedSpill ctx stage intfData inRegMask).argTys
          <+: (afterSpecial ctx stage intfData inRegMask).argTys ∧
        (afterSpecial ctx stage intfData inRegMask).argTys
          <+: (afterUserData ctx stage intfData inRegMask).argTys ∧
        (afterUserData ctx stage intfData inRegMask).argTys <+: r.argTys) ∧
      (stage ≠ .Compute →
        (afterFixedSpill ctx stage intfData inRegMask).argTys
          = (afterPack ctx stage intfData inRegMask).argTys) ∧
      (stage = .Vertex ∨ stage = .TessControl →
        (afterSpecial ctx stage intfData inRegMask).argTys
            = (afterFixedSpill ctx stage intfData inRegMask).argTys
              ++ (if ctx.enableMultiView then [ArgTy.Int32Ty] else [])
              ++ (if r.reserveEsGsLdsSize then [ArgTy.Int32Ty] else [])
              ++ (if ctx.userDataNodes.any (fun n => decide (n.type = .IndirectUserDataVaPtr))
                  then [ArgTy.Int32Ty] else [])
              ++ (if (ctx.resUsage (currStage ctx stage)).builtInUsage.vs.baseVertex
                    || (ctx.resUsage (currStage ctx stage)).builtInUsage.vs.baseInstance
                  then [ArgTy.Int32Ty, ArgTy.Int32Ty] else [])
              ++ (if (ctx.resUsage (currStage ctx stage)).builtInUsage.vs.drawIndex
                  then [ArgTy.Int32Ty] else []) ∧
          (ctx.enableMultiView = true →
            (r.intfData stage).entryArgIdxs.vs.viewIndex
              = (afterFixedSpill ctx stage intfData inRegMask).argTys.length) ∧
          (ctx.userDataNodes.any (fun n => decide (n.type = .IndirectUserDataVaPtr)) = true →
            (r.intfData (currStage ctx stage)).entryArgIdxs.vs.vbTablePtr
              = (afterFixedSpill ctx stage intfData inRegMask).argTys.length
                + ((if ctx.enableMultiView then 1 else 0)
                  + (if r.reserveEsGsLdsSize then 1 else 0))) ∧
          (((ctx.resUsage (currStage ctx stage)).builtInUsage.vs.baseVertex
              || (ctx.resUsage (currStage ctx stage)).builtInUsage.vs.baseInstance) = true →
            (r.intfData stage).entryArgIdxs.vs.baseVertex
                = (afterFixedSpill ctx stage intfData inRegMask).argTys.length
                  + ((if ctx.enableMultiView then 1 else 0)
                    + (if r.reserveEsGsLdsSize then 1 else 0)
                    + (if ctx.userDataNodes.any (fun n => decide (n.type = .IndirectUserDataVaPtr)) then 1 else 0)) ∧
              (r.intfData stage).entryArgIdxs.vs.baseInstance
                = (r.intfData stage).entryArgIdxs.vs.baseVertex + 1) ∧
          ((ctx.resUsage (currStage ctx stage)).builtInUsage.vs.drawIndex = true →
            (r.intfData stage).entryArgIdxs.vs.drawIndex
              = (afterFixedSpill ctx stage intfData inRegMask).argTys.length
                + ((if ctx.enableMultiView then 1 else 0)
                  + (if r.reserveEsGsLdsSize then 1 else 0)
                  + (if ctx.userDataNodes.any (fun n => decide (n.type = .IndirectUserDataVaPtr)) then 1 else 0)
                  + (if (ctx.resUsage (currStage ctx stage)).builtInUsage.vs.baseVertex
                        || (ctx.resUsage (currStage ctx stage)).builtInUsage.vs.baseInstance
                      then 2 else 0)))) ∧
      (afterUserData ctx stage intfData inRegMask).argTys
        = (afterSpecial ctx stage intfData inRegMask).argTys
          ++ (if r.needSpill && (useFixedLayout stage == false)
              then [ArgTy.Int32Ty] else []) ∧
      ((r.needSpill && (useFixedLayout stage == false)) = true →
        (r.intfData stage).entryArgIdxs.spillTable
          = (afterSpecial ctx stage intfData inRegMask).argTys.length) ∧
      ∀ (u : ShaderStage) (l : Loc),
        (l.isStreamOutArg = true →
            l.read (r.intfData u)
                = l.read (intfData u) ∨
              (2 ≤ l.read (r.intfData u) ∧
                l.read (r.intfData u)
                  < (beforePack ctx stage intfData inRegMask).argTys.length)) ∧
          (l.isNodeArg = true →
            l.read (r.intfData u)
                = l.read (intfData u) ∨
              ((beforePack ctx stage intfData inRegMask).argTys.length
                  ≤ l.read (r.intfData u) ∧
                l.read (r.intfData u)
                  < (afterPack ctx stage intfData inRegMask).argTys.length)) ∧
          (l.isSpillArg = true →
            l.read (r.intfData u)
                = l.read (intfData u) ∨
              ((afterPack ctx stage intfData inRegMask).argTys.length
                  ≤ l.read (r.intfData u) ∧
                l.read (r.intfData u)
                  < (afterFixedSpill ctx stage intfData inRegMask).argTys.length) ∨
              ((afterSpecial ctx stage intfData inRegMask).argTys.length
                  ≤ l.read (r.intfData u) ∧
                l.read (r.intfData u)
                  < (afterUserData ctx stage intfData inRegMask).argTys.length)) ∧
          (l.isSpecialArg = true →
            l.read (r.intfData u)
                = l.read (intfData u) ∨
              ((afterFixedSpill ctx stage intfData inRegMask).argTys.length
                  ≤ l.read (r.intfData u) ∧
                l.read (r.intfData u)
                  < (afterSpecial ctx stage intfData inRegMask).argTys.length)) ∧
          (l.isSystemArg = true →
            l.read (r.intfData u)
                = l.read (intfData u) ∨
              ((afterUserData ctx stage intfData inRegMask).argTys.length
                  ≤ l.read (r.intfData u) ∧
                l.read (r.intfData u)
                  < r.argTys.length)) ∧
          (l.isWorkgroupIdArg = true →
            l.read (r.intfData u)
                = l.read (intfData u) ∨
              ((afterFixedSpill ctx stage intfData inRegMask).argTys.length
                  ≤ l.read (r.intfData u) ∧
                l.read (r.intfData u)
                  < (afterSpecial ctx stage intfData inRegMask).argTys.length) ∨
              ((afterUserData ctx stage intfData inRegMask).argTys.length
                  ≤ l.read (r.intfData u) ∧
                l.read (r.intfData u)
                  < r.argTys.length)) := by
  obtain ⟨rfl, hok⟩ := GenerateEntryPointType_some ctx stage intfData inRegMask r hr
  obtain ⟨_, _, ⟨_, q1, q2⟩, ⟨_, q3, _⟩, _⟩ := run_points ctx stage intfData inRegMask hok
  obtain ⟨d1, d2⟩ := afterSpecial_decided ctx stage intfData inRegMask
  have lds : (afterFixedSpill ctx stage intfData inRegMask).reserveEsGsLdsSize
      = (runEntryPointType ctx stage intfData inRegMask).reserveEsGsLdsSize :=
    ((St.decided_eq_iff _ _).mp d2).2.2.2.2.2.1
  have ns : (afterSpecial ctx stage intfData inRegMask).needSpill
      = (runEntryPointType ctx stage intfData inRegMask).needSpill :=
    ((St.decided_eq_iff _ _).mp d1).2.2.2.2.2.2
  obtain ⟨g1, g2⟩ := greedySpill_args stage (afterSpecial ctx stage intfData inRegMask)
  rw [ns] at g1 g2
  refine ⟨beforePack_argTys ctx stage intfData inRegMask,
    run_prefixes ctx stage intfData inRegMask, ?_, ?_, g1, ?_,
    run_groups ctx stage intfData inRegMask hok⟩
  · intro hst
    rw [afterFixedSpill_of_greedy ctx stage intfData inRegMask hst]
  · intro hst
    have hA := specialUserData_vs_args ctx stage
      (afterFixedSpill ctx stage intfData inRegMask) hst
    obtain ⟨_, i2, i3, i4, i5⟩ := specialUserData_vs_indices ctx stage
      (afterFixedSpill ctx stage intfData inRegMask) hst (by omega)
    rw [lds] at hA i3 i4 i5
    rw [q1] at i2 i3 i4 i5
    have hlen : (afterFixedSpill ctx stage intfData inRegMask).argTys.length ≤ 64 := by
      rw [← q1]
      exact q2
    have fin : ∀ (u : ShaderStage) (l : Loc), l.isSpecialArg = true →
        l.read ((runEntryPointType ctx stage intfData inRegMask).intfData u)
          = l.read ((specialUserData ctx stage
              (afterFixedSpill ctx stage intfData inRegMask)).intfData u) :=
      special_final ctx stage intfData inRegMask
    refine ⟨hA, ?_, ?_, ?_, ?_⟩
    · intro h
      exact (fin stage .entryArgIdxs_vs_viewIndex rfl).trans (i2 h)
    · intro h
      refine ((fin (currStage ctx stage) .entryArgIdxs_vs_vbTablePtr rfl).trans (i3 h)).trans ?_
      exact u32_of_lt (by split_ifs <;> omega)
    · intro h
      have e1 := (fin stage .entryArgIdxs_vs_baseVertex rfl).trans (i4 h).1
      have e2 := (fin stage .entryArgIdxs_vs_baseInstance rfl).trans (i4 h).2
      simp only [Loc.read] at e1 e2
      rw [e2, e1, u32_of_lt (by split_ifs <;> omega), u32_of_lt (by split_ifs <;> omega)]
      exact ⟨rfl, by omega⟩
    · intro h
      refine ((fin stage .entryArgIdxs_vs_drawIndex rfl).trans (i5 h)).trans ?_
      exact u32_of_lt (by split_ifs <;> omega)
  · intro h
    rw [spill_final ctx stage intfData inRegMask stage]
    have e := g2 h
    rw [q3] at e
    exact e

/-- Claim C24 on a vertex shader with a vertex buffer table node and a buffer node, using
base vertex and draw index: behind the two leading arguments and the buffer come the vertex
buffer table pointer, base vertex, base instance and draw index. -/
theorem signature_groups_in_fixed_order_witness :
    (afterSpecial
        { plainCtx 16 17 [.mk .IndirectUserDataVaPtr 1 0 0 0 [], bufferNode 4 1 0]
            [(0, 0)] with
          resUsage := fun _ =>
            { plainUsage [(0, 0)] with
              builtInUsage.vs.baseVertex := true, builtInUsage.vs.drawIndex := true } }
        .Vertex (fun _ => zeroIntf) 0).argTys
      = [.Int32Ty, .Int32Ty, .VectorInt32 4, .Int32Ty, .Int32Ty, .Int32Ty, .Int32Ty] :=
  ((signature_groups_in_fixed_order
    { plainCtx 16 17 [.mk .IndirectUserDataVaPtr 1 0 0 0 [], bufferNode 4 1 0]
        [(0, 0)] with
      resUsage := fun _ =>
        { plainUsage [(0, 0)] with
          builtInUsage.vs.baseVertex := true, builtInUsage.vs.drawIndex := true } }
    .Vertex (fun _ => zeroIntf) 0 _
    (GenerateEntryPointType_of_ok _ _ _ _ (by decide))).2.2.2.1 (Or.inl rfl)).1.trans
    (by decide)

/-- C25 (corrected): whenever a stream-out reservation is computed for a stage, the block in
front of the packing loop adds one `i32` argument directly behind the two leading ones:
user data index 2, argument index 2, flagged "inreg", and these three arguments open the
final signature. For the vertex and the tessellation evaluation stage the final interface
data holds 2 in the `streamOutTablePtr` and `streamOutData.tablePtr` members of the stage;
for the geometry stage the register is a dummy, and the run leaves the stream-out members
of every stage as they were; on any other stage the function does not return. The entry of
`resNodeValues` that belongs to a stream-out node keeps its initial value. -/
theorem stream_out_slot_follows_leading (ctx : Context) (stage : ShaderStage)
    (intfData : ShaderStage → InterfaceData) (inRegMask : Nat)
    (hres : (afterReserve ctx stage intfData inRegMask).reserveStreamOutTable = true) :
    ((decideSpill ctx stage (afterReserve ctx stage intfData inRegMask)).argTys
          = [.Int32Ty, .Int32Ty] ∧
        (decideSpill ctx stage (afterReserve ctx stage intfData inRegMask)).argIdx = 2 ∧
        (decideSpill ctx stage (afterReserve ctx stage intfData inRegMask)).userDataIdx = 2) ∧
      ((beforePack ctx stage intfData inRegMask).argTys = [.Int32Ty, .Int32Ty, .Int32Ty] ∧
        (beforePack ctx stage intfData inRegMask).argIdx = 3 ∧
        (beforePack ctx stage intfData inRegMask).userDataIdx = 3 ∧
        (beforePack ctx stage intfData inRegMask).inRegMask
          = ((inRegMask ||| 1) ||| 2) ||| 4 ∧
        (beforePack ctx stage intfData inRegMask).actualAvailUserDataCount = 0 ∧
        [.Int32Ty, .Int32Ty, .Int32Ty]
          <+: (runEntryPointType ctx stage intfData inRegMask).argTys) ∧
      (stage = .Vertex →
        ((runEntryPointType ctx stage intfData inRegMask).intfData
            .Vertex).userDataUsage.vs.streamOutTablePtr = 2 ∧
          ((runEntryPointType ctx stage intfData inRegMask).intfData
            .Vertex).entryArgIdxs.vs.streamOutData.tablePtr = 2) ∧
      (stage = .TessEval →
        ((runEntryPointType ctx stage intfData inRegMask).intfData
            .TessEval).userDataUsage.tes.streamOutTablePtr = 2 ∧
          ((runEntryPointType ctx stage intfData inRegMask).intfData
            .TessEval).entryArgIdxs.tes.streamOutData.tablePtr = 2) ∧
      (stage = .Geometry → ∀ (u : ShaderStage) (l : Loc), l.ofStreamOut = true →
        l.read ((runEntryPointType ctx stage intfData inRegMask).intfData u)
          = l.read (intfData u)) ∧
      ((GenerateEntryPointType ctx stage intfData inRegMask).isSome = true →
        stage = .Vertex ∨ stage = .TessEval ∨ stage = .Geometry) ∧
      ∀ (i : Nat) (n : ResourceNode), ctx.userDataNodes[i]? = some n →
        n.type = .StreamOutTableVaPtr → ∀ u : ShaderStage,
          ((runEntryPointType ctx stage intfData inRegMask).intfData
              u).entryArgIdxs.resNodeValues i
            = (intfData u).entryArgIdxs.resNodeValues i := by
  obtain ⟨n, hn, hty, he⟩ := beforePack_of_reserved ctx stage intfData inRegMask hres
  obtain ⟨a1, a2, a3, a4, a5, a6⟩ := head_fields ctx stage intfData inRegMask
  have hT : (beforePack ctx stage intfData inRegMask).argTys
      = [.Int32Ty, .Int32Ty, .Int32Ty] := by
    rw [he]
    cases stage <;> simp [allocStreamOutNode, a1]
  refine ⟨⟨a1, a2, a3⟩, ⟨hT, ?_, ?_, ?_, ?_, ?_⟩, ?_, ?_, ?_, ?_, ?_⟩
  · rw [he]
    cases stage <;> simp [allocStreamOutNode, a2, u32]
  · rw [he]
    cases stage <;> simp [allocStreamOutNode, a3, u32]
  · rw [he]
    cases stage <;> simp [allocStreamOutNode, a2, a4, bit64]
  · rw [he]
    have e : (decideSpill ctx stage
        (afterReserve ctx stage intfData inRegMask)).actualAvailUserDataCount = 0 := by
      have h1 : ∀ s : St, (decideSpill ctx stage s).actualAvailUserDataCount
          = s.actualAvailUserDataCount := by
        intro s
        unfold decideSpill
        split <;> simp
      have h2 : ∀ s : St, (reserveSpecial ctx stage s).actualAvailUserDataCount
          = s.actualAvailUserDataCount := by
        intro s
        cases stage <;> simp [reserveSpecial]
      have h3 := forNodes_frame (fun s => s.actualAvailUserDataCount) (scanNode ctx stage)
        (fun i n s => by
          unfold scanNode
          dsimp only
          split_ifs <;> simp)
        0 ctx.userDataNodes (initState ctx stage intfData inRegMask)
      rw [h1]
      unfold afterReserve
      rw [h2]
      unfold afterScan scanNodes
      rw [h3]
      simp [initState]
    cases stage <;> simp [allocStreamOutNode, e]
  · rw [← hT]
    exact run_prefix_beforePack ctx stage intfData inRegMask
  · intro hs
    subst hs
    have e1 := frame_after_streamOut ctx .Vertex intfData inRegMask .Vertex
      .userDataUsage_vs_streamOutTablePtr rfl
    have e2 := frame_after_streamOut ctx .Vertex intfData inRegMask .Vertex
      .entryArgIdxs_vs_streamOutData_tablePtr rfl
    rw [he] at e1 e2
    refine ⟨e1.trans ?_, e2.trans ?_⟩
    · simp [allocStreamOutNode, Loc.read, a3, St.record, St.setIntf]
    · simp [allocStreamOutNode, Loc.read, a2, St.record, St.setIntf]
  · intro hs
    subst hs
    have e1 := frame_after_streamOut ctx .TessEval intfData inRegMask .TessEval
      .userDataUsage_tes_streamOutTablePtr rfl
    have e2 := frame_after_streamOut ctx .TessEval intfData inRegMask .TessEval
      .entryArgIdxs_tes_streamOutData_tablePtr rfl
    rw [he] at e1 e2
    refine ⟨e1.trans ?_, e2.trans ?_⟩
    · simp [allocStreamOutNode, Loc.read, a3, St.record, St.setIntf]
    · simp [allocStreamOutNode, Loc.read, a2, St.record, St.setIntf]
  · intro hs u l hl
    subst hs
    rw [frame_after_streamOut ctx .Geometry intfData inRegMask u l hl, he]
    have e : (allocStreamOutNode .Geometry n
        (decideSpill ctx .Geometry (afterReserve ctx .Geometry intfData inRegMask))).intfData
        = (decideSpill ctx .Geometry (afterReserve ctx .Geometry intfData inRegMask)).intfData := by
      simp [allocStreamOutNode]
    rw [e]
    exact frame_head ctx .Geometry intfData inRegMask u l
      (by cases l <;> first | (simp [ownWrites, Loc.ofHead]; done) | cases hl)
  · intro hsome
    have hnc : (runEntryPointType ctx stage intfData inRegMask).neverCalled = false := by
      unfold GenerateEntryPointType at hsome
      dsimp only at hsome
      split at hsome
      · cases hsome
      · rename_i hf
        simp only [Bool.or_eq_true, not_or, Bool.not_eq_true] at hf
        exact hf.1.1
    have hb : (beforePack ctx stage intfData inRegMask).neverCalled = true ↔ _ :=
      beforePack_neverCalled ctx stage intfData inRegMask
    cases stage
    · exact Or.inl rfl
    · exfalso
      have h1 := (run_neverCalled ctx .TessControl intfData inRegMask).2
        (Or.inl ⟨hres, ⟨n, hn, hty⟩, Or.inl rfl⟩)
      rw [hnc] at h1
      cases h1
    · exact Or.inr (Or.inl rfl)
    · exact Or.inr (Or.inr rfl)
    · exfalso
      have h1 := (run_neverCalled ctx .Fragment intfData inRegMask).2
        (Or.inl ⟨hres, ⟨n, hn, hty⟩, Or.inr (Or.inl rfl)⟩)
      rw [hnc] at h1
      cases h1
    · exfalso
      have h1 := (run_neverCalled ctx .Compute intfData inRegMask).2
        (Or.inl ⟨hres, ⟨n, hn, hty⟩, Or.inr (Or.inr rfl)⟩)
      rw [hnc] at h1
      cases h1
  · intro i m hm hmt u
    apply resNodeValues_of_not_resident
    unfold registerResident
    rw [hm]
    simp [isPacked, hmt]

/-- Claim C25, amended, on a vertex shader that is the last stage in front of the fragment
stage, with a stream-out table node in front of a buffer node: three `i32` arguments stand in
front of the packing loop, and the user data slot 2 is recorded in `streamOutTablePtr`. -/
theorem stream_out_slot_follows_leading_witness :
    ((beforePack (plainCtx 16 17 [.mk .StreamOutTableVaPtr 1 0 0 0 [], bufferNode 4 1 0]
          [(0, 0)]) .Vertex (fun _ => zeroIntf) 0).argTys = [.Int32Ty, .Int32Ty, .Int32Ty]) ∧
      ((runEntryPointType (plainCtx 16 17 [.mk .StreamOutTableVaPtr 1 0 0 0 [],
          bufferNode 4 1 0] [(0, 0)]) .Vertex (fun _ => zeroIntf) 0).intfData
            .Vertex).userDataUsage.vs.streamOutTablePtr = 2 :=
  ⟨(stream_out_slot_follows_leading (plainCtx 16 17 [.mk .StreamOutTableVaPtr 1 0 0 0 [],
      bufferNode 4 1 0] [(0, 0)]) .Vertex (fun _ => zeroIntf) 0 (by decide)).2.1.1,
    ((stream_out_slot_follows_leading (plainCtx 16 17 [.mk .StreamOutTableVaPtr 1 0 0 0 [],
      bufferNode 4 1 0] [(0, 0)]) .Vertex (fun _ => zeroIntf) 0 (by decide)).2.2.1 rfl).1⟩

/-- Geometry stage of a pipeline without merged stages (GFX8) with the stages vertex,
geometry and fragment, and a stream-out table node in front of a buffer node: the
reservation is computed and the function returns with the register allocated at user data
index 2, and the interface data of the geometry stage in front of the packing loop is the
one in front of the block: the index is recorded nowhere. -/
theorem stream_out_slot_follows_leading_counterexample :
    (afterReserve (plainCtx 16 25 [.mk .StreamOutTableVaPtr 1 0 0 0 [], bufferNode 4 1 0]
        [(0, 0)]) .Geometry (fun _ => zeroIntf) 0).reserveStreamOutTable = true ∧
      (GenerateEntryPointType (plainCtx 16 25 [.mk .StreamOutTableVaPtr 1 0 0 0 [],
        bufferNode 4 1 0] [(0, 0)]) .Geometry (fun _ => zeroIntf) 0).isSome = true ∧
      (beforePack (plainCtx 16 25 [.mk .StreamOutTableVaPtr 1 0 0 0 [], bufferNode 4 1 0]
        [(0, 0)]) .Geometry (fun _ => zeroIntf) 0).userDataIdx = 3 ∧
      (beforePack (plainCtx 16 25 [.mk .StreamOutTableVaPtr 1 0 0 0 [], bufferNode 4 1 0]
        [(0, 0)]) .Geometry (fun _ => zeroIntf) 0).argTys = [.Int32Ty, .Int32Ty, .Int32Ty] ∧
      (beforePack (plainCtx 16 25 [.mk .StreamOutTableVaPtr 1 0 0 0 [], bufferNode 4 1 0]
        [(0, 0)]) .Geometry (fun _ => zeroIntf) 0).intfData
        = (decideSpill (plainCtx 16 25 [.mk .StreamOutTableVaPtr 1 0 0 0 [], bufferNode 4 1 0]
            [(0, 0)]) .Geometry
          (afterReserve (plainCtx 16 25 [.mk .StreamOutTableVaPtr 1 0 0 0 [], bufferNode 4 1 0]
            [(0, 0)]) .Geometry (fun _ => zeroIntf) 0)).intfData ∧
      ((runEntryPointType (plainCtx 16 25 [.mk .StreamOutTableVaPtr 1 0 0 0 [],
        bufferNode 4 1 0] [(0, 0)]) .Geometry (fun _ => zeroIntf)
          0).intfData .Geometry).userDataUsage.vs.streamOutTablePtr = 0 ∧
      ((runEntryPointType (plainCtx 16 25 [.mk .StreamOutTableVaPtr 1 0 0 0 [],
        bufferNode 4 1 0] [(0, 0)]) .Geometry (fun _ => zeroIntf)
          0).intfData .Geometry).userDataUsage.tes.streamOutTablePtr = 0 ∧
      ((runEntryPointType (plainCtx 16 25 [.mk .StreamOutTableVaPtr 1 0 0 0 [],
        bufferNode 4 1 0] [(0, 0)]) .Geometry (fun _ => zeroIntf)
          0).intfData .Geometry).entryArgIdxs.vs.streamOutData.tablePtr = 0 ∧
      ((runEntryPointType (plainCtx 16 25 [.mk .StreamOutTableVaPtr 1 0 0 0 [],
        bufferNode 4 1 0] [(0, 0)]) .Geometry (fun _ => zeroIntf)
          0).intfData .Geometry).entryArgIdxs.tes.streamOutData.tablePtr = 0 := by
  refine ⟨by decide, by decide, by decide, by decide, rfl, by decide, by decide, by decide,
    by decide⟩

/-- C26 (confirmed): with a tessellation control stage in the pipeline, a run of the
tessellation control stage that returns, started on the interface data that the run of the
vertex stage left, leaves the interface data of the vertex stage exactly as the run of the
vertex stage left it; the interface data of every stage other than these two stays as it
was as well. -/
theorem tcs_run_keeps_vertex_data (ctx : Context) (d : ShaderStage → InterfaceData)
    (inRegMask : Nat) (r1 r2 : St)
    (ht : ctx.stageMask &&& ShaderStageToMask .TessControl ≠ 0)
    (h1 : GenerateEntryPointType ctx .Vertex d inRegMask = some r1)
    (h2 : GenerateEntryPointType ctx .TessControl r1.intfData inRegMask = some r2) :
    r2.intfData .Vertex = r1.intfData .Vertex ∧
      ∀ u : ShaderStage, u ≠ .Vertex → u ≠ .TessControl → r2.intfData u = r1.intfData u := by
  obtain ⟨e1, _⟩ := GenerateEntryPointType_some ctx .Vertex d inRegMask r1 h1
  obtain ⟨e2, _⟩ := GenerateEntryPointType_some ctx .TessControl r1.intfData inRegMask r2 h2
  have hcs : currStage ctx .TessControl = .TessControl ∨ currStage ctx .TessControl = .Vertex := by
    rcases currStage_cases ctx .TessControl with h | ⟨_, h⟩
    · exact Or.inl h
    · exact Or.inr h
  constructor
  · apply InterfaceData.eq_of_read
    intro l
    rw [e2]
    by_cases hm : ctx.gfxIpMajor ≥ 9 ∧ ctx.stageMask &&& ShaderStageToMask .Vertex ≠ 0
    · obtain ⟨hg, hv⟩ := hm
      cases hl : l.ofSpecialCur
      · exact run_frame ctx .TessControl r1.intfData inRegMask .Vertex l (by decide)
          (fun _ => hl)
      · have hso : ∀ n ∈ ctx.userDataNodes, n.type = .StreamOutTableVaPtr →
            (ctx.stageMask &&& sub32 (ShaderStageToMask .Fragment)
                (ShaderStageToMask .TessControl))
              ≠ ShaderStageToMask .TessControl :=
          fun n hn hty => tcs_not_last_of_some ctx r1.intfData inRegMask r2 h2 n hn hty
        have h3 := (twin_run ctx hg hv ht hso d r1.intfData inRegMask).2.2.1
        have f1 := frame_before_special ctx .TessControl r1.intfData inRegMask .Vertex l
          (by simp [ownWrites])
        rw [initState_intfData_other ctx .TessControl .Vertex r1.intfData inRegMask
          (by decide)] at f1
        have f2 := frame_after_special ctx .Vertex d inRegMask .Vertex l
          (by
            rw [ownWrites_self]
            revert hl
            cases l <;> first | exact fun _ => rfl | exact fun hl => Bool.noConfusion hl)
        rw [← e1] at f2
        have f3 := frame_after_special ctx .TessControl r1.intfData inRegMask .Vertex l
          (by simp [ownWrites])
        have hx : l.read ((afterFixedSpill ctx .TessControl r1.intfData
              inRegMask).intfData .Vertex)
            = l.read ((specialUserData ctx .Vertex
                (afterFixedSpill ctx .Vertex d inRegMask)).intfData .Vertex) :=
          f1.trans f2
        have hs := special_cur_twin ctx hg hv _ _ h3 l hl hx
        exact f3.trans (hs.trans f2.symm)
    · have hc : currStage ctx .TessControl = .TessControl := by
        unfold currStage
        rw [if_neg]
        intro h
        exact hm ⟨h.1, h.2.2⟩
      exact run_frame ctx .TessControl r1.intfData inRegMask .Vertex l (by decide)
        (fun h => by
          rw [hc] at h
          cases h)
  · intro u hu1 hu2
    apply InterfaceData.eq_of_read
    intro l
    rw [e2]
    exact run_frame ctx .TessControl r1.intfData inRegMask u l hu2
      (fun h => by
        rcases hcs with hc | hc
        · exact absurd (h.trans hc) hu2
        · exact absurd (h.trans hc) hu1)

/-- Claim C26 on a GFX9 pipeline with vertex, tessellation and fragment stages, a vertex
buffer table node and a buffer node, the draw index in use: the run of the tessellation
control stage behind the run of the vertex stage leaves the interface data of the vertex
stage as that run left it. -/
theorem tcs_run_keeps_vertex_data_witness :
    (runEntryPointType
        { plainCtx 16 23 [.mk .IndirectUserDataVaPtr 1 0 0 0 [], bufferNode 4 1 0]
            [(0, 0)] with
          gfxIpMajor := 9,
          resUsage := fun _ => { plainUsage [(0, 0)] with builtInUsage.vs.drawIndex := true } }
        .TessControl
        (runEntryPointType
          { plainCtx 16 23 [.mk .IndirectUserDataVaPtr 1 0 0 0 [], bufferNode 4 1 0]
              [(0, 0)] with
            gfxIpMajor := 9,
            resUsage := fun _ =>
              { plainUsage [(0, 0)] with builtInUsage.vs.drawIndex := true } }
          .Vertex (fun _ => zeroIntf) 0).intfData 0).intfData .Vertex
      = (runEntryPointType
          { plainCtx 16 23 [.mk .IndirectUserDataVaPtr 1 0 0 0 [], bufferNode 4 1 0]
              [(0, 0)] with
            gfxIpMajor := 9,
            resUsage := fun _ =>
              { plainUsage [(0, 0)] with builtInUsage.vs.drawIndex := true } }
          .Vertex (fun _ => zeroIntf) 0).intfData .Vertex :=
  (tcs_run_keeps_vertex_data
    { plainCtx 16 23 [.mk .IndirectUserDataVaPtr 1 0 0 0 [], bufferNode 4 1 0]
        [(0, 0)] with
      gfxIpMajor := 9,
      resUsage := fun _ => { plainUsage [(0, 0)] with builtInUsage.vs.drawIndex := true } }
    (fun _ => zeroIntf) 0 _ _ (by decide)
    (GenerateEntryPointType_of_ok _ _ _ _ (by decide))
    (GenerateEntryPointType_of_ok _ _ _ _ (by decide))).1

/-! ## Claim C27: the register limits only narrow -/

/-- Claim C27: when `ProcessShader` for a stage returns and leaves the resource usage `u` for
the stage, `u.numVgprsAvailable` is the minimum of its previous value, the effective VGPR
limit when that limit is nonzero (the shader option `vgprLimit` if it is neither 0 nor
`UINT32_MAX`, the command-line option `VgprLimit` otherwise), and the device maximum
`maxVgprsAvailable`; likewise `u.numSgprsAvailable` for the SGPR limits; each of the two is
at most its previous value and at most the device maximum. -/
theorem process_shader_narrows_limits (ctx : Context) (stage : ShaderStage)
    (o : ShaderLimits) (intfData : ShaderStage → InterfaceData) (r : St) (u : ResourceUsage)
    (h : ProcessShader ctx stage o intfData = some (r, u)) :
    (u.numVgprsAvailable
        = if (if o.vgprLimit ≠ 0 ∧ o.vgprLimit ≠ 4294967295 then o.vgprLimit
              else o.VgprLimit) = 0
          then min (ctx.resUsage stage).numVgprsAvailable o.maxVgprsAvailable
          else min (min (ctx.resUsage stage).numVgprsAvailable
              (if o.vgprLimit ≠ 0 ∧ o.vgprLimit ≠ 4294967295 then o.vgprLimit
                else o.VgprLimit))
            o.maxVgprsAvailable) ∧
      (u.numSgprsAvailable
        = if (if o.sgprLimit ≠ 0 ∧ o.sgprLimit ≠ 4294967295 then o.sgprLimit
              else o.SgprLimit) = 0
          then min (ctx.resUsage stage).numSgprsAvailable o.maxSgprsAvailable
          else min (min (ctx.resUsage stage).numSgprsAvailable
              (if o.sgprLimit ≠ 0 ∧ o.sgprLimit ≠ 4294967295 then o.sgprLimit
                else o.SgprLimit))
            o.maxSgprsAvailable) ∧
      u.numVgprsAvailable ≤ (ctx.resUsage stage).numVgprsAvailable ∧
      u.numVgprsAvailable ≤ o.maxVgprsAvailable ∧
      u.numSgprsAvailable ≤ (ctx.resUsage stage).numSgprsAvailable ∧
      u.numSgprsAvailable ≤ o.maxSgprsAvailable := by
  unfold ProcessShader at h
  cases hg : GenerateEntryPointType ctx stage intfData 0 with
  | none =>
    rw [hg] at h
    cases h
  | some r0 =>
    rw [hg] at h
    simp only [Option.some.injEq, Prod.mk.injEq] at h
    obtain ⟨_, hu⟩ := h
    rw [← hu, setLimits_numVgprsAvailable, setLimits_numSgprsAvailable]
    refine ⟨rfl, rfl, ?_, ?_, ?_, ?_⟩ <;> split_ifs <;>
      simp only [Nat.min_def] <;> split_ifs <;> omega

/-- Claim C27 on a vertex shader with 256 VGPRs and 104 SGPRs available before: the shader
option `vgprLimit = 64` and the device maximum of 102 SGPRs leave 64 VGPRs and 102 SGPRs. -/
theorem process_shader_narrows_limits_witness :
    (64 : Nat) = (if (if (64 : Nat) ≠ 0 ∧ (64 : Nat) ≠ 4294967295 then 64 else 0) = 0
          then min 256 256
          else min (min 256 (if (64 : Nat) ≠ 0 ∧ (64 : Nat) ≠ 4294967295 then 64 else 0))
            256) ∧
      (64 : Nat) ≤ 256 ∧ (102 : Nat) ≤ 104 :=
  have h := process_shader_narrows_limits (plainCtx 16 17 [bufferNode 4 0 0] [(0, 0)]) .Vertex
    { vgprLimit := 64, sgprLimit := 0, VgprLimit := 0, SgprLimit := 0,
      maxVgprsAvailable := 256, maxSgprsAvailable := 102 } (fun _ => zeroIntf)
    (runEntryPointType (plainCtx 16 17 [bufferNode 4 0 0] [(0, 0)]) .Vertex
      (fun _ => zeroIntf) 0)
    { plainUsage [(0, 0)] with numVgprsAvailable := 64, numSgprsAvailable := 102 }
    (by
      unfold ProcessShader
      rw [GenerateEntryPointType_of_ok _ _ _ _ (by decide)]
      rfl)
  ⟨h.1, h.2.2.1, h.2.2.2.2.1⟩

/-! ## Claim C28: the node kinds of the packing `switch` -/

theorem writeUserDataMap_at (u off : Nat) (m : Nat → Nat) (size : Nat)
    (hsize : size ≤ 4294967296) (j : Nat) (hj : j < size) :
    writeUserDataMap u off size m (u32 (u + j)) = u32 (off + j) := by
  induction size with
  | zero => omega
  | succ k ih =>
    simp only [writeUserDataMap, setAt]
    by_cases hjk : j = k
    · subst hjk
      rw [if_pos rfl]
    · have hne : u32 (u + j) ≠ u32 (u + k) := by
        unfold u32
        omega
      rw [if_neg hne]
      exact ih (by omega) (by omega)

/-- Claim C28, amended: a root-level active node whose kind is `PushConst`,
`DescriptorTableVaPtr`, `DescriptorResource`, `DescriptorSampler`, `DescriptorTexelBuffer`,
`DescriptorFmask`, `DescriptorBuffer` or `DescriptorBufferCompact` and which passes the test
`actualAvailUserDataCount + sizeInDwords <= availUserDataCount` of its iteration is
register-resident, and the iteration does not reach `LLPC_NEVER_CALLED()`: it appends one
argument type (`i32` for a descriptor table pointer, a vector of `sizeInDwords` `i32`
otherwise), records the argument index in `resNodeValues`, sets the bit of that index in
the mask, maps the user data slots from the first slot of the node on to the dword offsets
of the node, and advances `userDataIdx` by the number of slots. The whole run reaches
`LLPC_NEVER_CALLED()` exactly when the stream-out register is allocated for a stage other
than vertex, tessellation evaluation and geometry, or a register-resident node has the
kind `DescriptorCombinedTexture`. -/
theorem listed_kinds_are_assigned (ctx : Context) (stage : ShaderStage)
    (intfData : ShaderStage → InterfaceData) (inRegMask : Nat) (i : Nat) (n : ResourceNode)
    (hn : ctx.userDataNodes[i]? = some n)
    (hact : IsResourceNodeActive ctx stage n true = true)
    (hkind : n.type = .PushConst ∨ n.type = .DescriptorTableVaPtr
      ∨ n.type = .DescriptorResource ∨ n.type = .DescriptorSampler
      ∨ n.type = .DescriptorTexelBuffer ∨ n.type = .DescriptorFmask
      ∨ n.type = .DescriptorBuffer ∨ n.type = .DescriptorBufferCompact)
    (hfit : fits (fitStateAt ctx stage intfData inRegMask i) n = true) :
    registerResident ctx stage intfData inRegMask i = true ∧
      (packStateAt ctx stage intfData inRegMask (i + 1)).neverCalled
        = (packStateAt ctx stage intfData inRegMask i).neverCalled ∧
      (packStateAt ctx stage intfData inRegMask (i + 1)).argTys
        = (fitStateAt ctx stage intfData inRegMask i).argTys
          ++ [if n.type = .DescriptorTableVaPtr then ArgTy.Int32Ty
              else ArgTy.VectorInt32 n.sizeInDwords] ∧
      ((packStateAt ctx stage intfData inRegMask (i + 1)).intfData stage).entryArgIdxs.resNodeValues
          i
        = (fitStateAt ctx stage intfData inRegMask i).argIdx ∧
      (packStateAt ctx stage intfData inRegMask (i + 1)).inRegMask
        = (fitStateAt ctx stage intfData inRegMask i).inRegMask
          ||| bit64 (fitStateAt ctx stage intfData inRegMask i).argIdx ∧
      (n.type = .DescriptorTableVaPtr →
        ((packStateAt ctx stage intfData inRegMask (i + 1)).intfData stage).userDataMap
            (firstSlot ctx stage intfData inRegMask i)
          = n.offsetInDwords) ∧
      (n.type ≠ .DescriptorTableVaPtr → n.sizeInDwords ≤ 4294967296 →
        ∀ j, j < n.sizeInDwords →
          ((packStateAt ctx stage intfData inRegMask (i + 1)).intfData stage).userDataMap
              (u32 (firstSlot ctx stage intfData inRegMask i + j))
            = u32 (n.offsetInDwords + j)) ∧
      (packStateAt ctx stage intfData inRegMask (i + 1)).userDataIdx
        = u32 (firstSlot ctx stage intfData inRegMask i
          + (if n.type = .DescriptorTableVaPtr then 1 else n.sizeInDwords)) ∧
      ((runEntryPointType ctx stage intfData inRegMask).neverCalled = true ↔
        (((afterReserve ctx stage intfData inRegMask).reserveStreamOutTable = true ∧
            (∃ m ∈ ctx.userDataNodes, m.type = .StreamOutTableVaPtr) ∧
            (stage = .TessControl ∨ stage = .Fragment ∨ stage = .Compute)) ∨
          ∃ k m, ctx.userDataNodes[k]? = some m ∧
            registerResident ctx stage intfData inRegMask k = true ∧
            m.type = .DescriptorCombinedTexture)) := by
  have hp : isPacked ctx stage n = true := by
    rw [isPacked_eq_true_iff]
    refine ⟨?_, ?_, hact⟩ <;> intro h <;> rw [h] at hkind <;> simp at hkind
  have hres : registerResident ctx stage intfData inRegMask i = true := by
    unfold registerResident
    rw [hn]
    simp only [hp, hfit, Bool.and_self]
  have hstep : packStateAt ctx stage intfData inRegMask (i + 1)
      = assignNode ctx stage i n (fitStateAt ctx stage intfData inRegMask i) := by
    rcases packStateAt_succ_cases ctx stage intfData inRegMask i n hn with
      ⟨hp', _⟩ | ⟨_, _, he⟩ | ⟨_, hr, _⟩
    · rw [hp] at hp'
      cases hp'
    · exact he
    · rw [hres] at hr
      cases hr
  have hnc : (fitStateAt ctx stage intfData inRegMask i).neverCalled
      = (packStateAt ctx stage intfData inRegMask i).neverCalled := by
    rw [fitStateAt_eq ctx stage intfData inRegMask i n hn, padNode_neverCalled]
  refine ⟨hres, ?_, ?_, ?_, ?_, ?_, ?_, ?_, run_neverCalled ctx stage intfData inRegMask⟩
  · rw [hstep, assignNode_neverCalled, hnc]
    rcases hkind with h | h | h | h | h | h | h | h <;> simp [h]
  · rw [hstep]
    unfold assignNode
    rcases hkind with h | h | h | h | h | h | h | h <;> simp [h]
  · rw [hstep]
    unfold assignNode
    rcases hkind with h | h | h | h | h | h | h | h <;>
      simp [h, St.record_intfData_same, setAt]
  · rw [hstep]
    unfold assignNode
    rcases hkind with h | h | h | h | h | h | h | h <;> simp [h, St.inRegNext]
  · intro h
    rw [hstep]
    unfold assignNode firstSlot
    simp [h, St.record_intfData_same, setAt]
  · intro hne hsize j hj
    rw [hstep]
    unfold assignNode firstSlot
    rcases hkind with h | h | h | h | h | h | h | h <;>
      first
      | exact absurd h hne
      | (simp only [h, St.userDataNext_intfData, St.record_intfData_same]
         simp only [St.checkMap_userDataIdx, St.push_userDataIdx, St.consume_userDataIdx,
          St.inRegNext_userDataIdx, St.record_userDataIdx, St.assert_userDataIdx]
         exact writeUserDataMap_at _ _ _ _ hsize j hj)
  · rw [hstep]
    unfold assignNode firstSlot
    rcases hkind with h | h | h | h | h | h | h | h <;> simp [h]

/-- Claim C28 on a vertex shader with sixteen user data registers and one buffer node of four
dwords: the node is register-resident, and its iteration leaves the flag of
`LLPC_NEVER_CALLED()` as it is and appends the argument type `<4 x i32>`. -/
theorem listed_kinds_are_assigned_witness :
    registerResident (plainCtx 16 17 [bufferNode 4 0 0] [(0, 0)]) .Vertex
        (fun _ => zeroIntf) 0 0 = true ∧
      (packStateAt (plainCtx 16 17 [bufferNode 4 0 0] [(0, 0)]) .Vertex
          (fun _ => zeroIntf) 0 (0 + 1)).neverCalled
        = (packStateAt (plainCtx 16 17 [bufferNode 4 0 0] [(0, 0)]) .Vertex
          (fun _ => zeroIntf) 0 0).neverCalled ∧
      (packStateAt (plainCtx 16 17 [bufferNode 4 0 0] [(0, 0)]) .Vertex
          (fun _ => zeroIntf) 0 (0 + 1)).argTys
        = (fitStateAt (plainCtx 16 17 [bufferNode 4 0 0] [(0, 0)]) .Vertex
            (fun _ => zeroIntf) 0 0).argTys
          ++ [if (bufferNode 4 0 0).type = .DescriptorTableVaPtr then ArgTy.Int32Ty
              else ArgTy.VectorInt32 (bufferNode 4 0 0).sizeInDwords] :=
  have h := listed_kinds_are_assigned (plainCtx 16 17 [bufferNode 4 0 0] [(0, 0)]) .Vertex
    (fun _ => zeroIntf) 0 0 (bufferNode 4 0 0) rfl (by decide) (by decide) (by decide)
  ⟨h.1, h.2.1, h.2.2.1⟩

/-- Claim C28 fails as stated for the combined table entry of the data model: on a vertex
shader with sixteen user data registers and one active `DescriptorCombinedTexture` node of
four dwords, the node passes the test of the packing loop (it fits the budget of fourteen
slots), the branch "User data isn't spilled" reaches the default case of its `switch`, and
`GenerateEntryPointType` does not return a result. -/
theorem listed_kinds_are_assigned_counterexample :
    IsResourceNodeActive
        (plainCtx 16 17 [.mk .DescriptorCombinedTexture 4 0 0 0 []] [(0, 0)]) .Vertex
        (.mk .DescriptorCombinedTexture 4 0 0 0 []) true = true ∧
      slotBudget (plainCtx 16 17 [.mk .DescriptorCombinedTexture 4 0 0 0 []] [(0, 0)])
        .Vertex (fun _ => zeroIntf) 0 = 14 ∧
      fits
        (fitStateAt (plainCtx 16 17 [.mk .DescriptorCombinedTexture 4 0 0 0 []] [(0, 0)])
          .Vertex (fun _ => zeroIntf) 0 0)
        (.mk .DescriptorCombinedTexture 4 0 0 0 []) = true ∧
      (packStateAt (plainCtx 16 17 [.mk .DescriptorCombinedTexture 4 0 0 0 []] [(0, 0)])
        .Vertex (fun _ => zeroIntf) 0 0).neverCalled = false ∧
      (packStateAt (plainCtx 16 17 [.mk .DescriptorCombinedTexture 4 0 0 0 []] [(0, 0)])
        .Vertex (fun _ => zeroIntf) 0 1).neverCalled = true ∧
      (GenerateEntryPointType
        (plainCtx 16 17 [.mk .DescriptorCombinedTexture 4 0 0 0 []] [(0, 0)])
        .Vertex (fun _ => zeroIntf) 0).isSome = false := by
  decide

/-- C29 (confirmed): on a generation that merges stages (major version 9 or higher), with
the vertex stage, the tessellation control stage and a tessellation evaluation or geometry
stage in the pipeline, the run of the tessellation control stage and the run of the vertex
stage over the same node list and configuration have the same slot budget, the same
register-resident nodes with the same first user data slot, the same spill decision, and
they leave the same `userDataCount`, each in the interface data of its stage. -/
theorem tcs_layout_equals_vertex_layout (ctx : Context)
    (d e : ShaderStage → InterfaceData) (inRegMask : Nat)
    (hg : ctx.gfxIpMajor ≥ 9)
    (hv : ctx.stageMask &&& ShaderStageToMask .Vertex ≠ 0)
    (ht : ctx.stageMask &&& ShaderStageToMask .TessControl ≠ 0)
    (hl : ctx.stageMask &&& ShaderStageToMask .TessEval ≠ 0
      ∨ ctx.stageMask &&& ShaderStageToMask .Geometry ≠ 0) :
    slotBudget ctx .TessControl e inRegMask = slotBudget ctx .Vertex d inRegMask ∧
      (∀ i, registerResident ctx .TessControl e inRegMask i
        = registerResident ctx .Vertex d inRegMask i) ∧
      (∀ i, firstSlot ctx .TessControl e inRegMask i = firstSlot ctx .Vertex d inRegMask i) ∧
      (runEntryPointType ctx .TessControl e inRegMask).needSpill
        = (runEntryPointType ctx .Vertex d inRegMask).needSpill ∧
      ((runEntryPointType ctx .TessControl e inRegMask).intfData .TessControl).userDataCount
        = ((runEntryPointType ctx .Vertex d inRegMask).intfData .Vertex).userDataCount := by
  have hso : ∀ n ∈ ctx.userDataNodes, n.type = .StreamOutTableVaPtr →
      (ctx.stageMask &&& sub32 (ShaderStageToMask .Fragment) (ShaderStageToMask .TessControl))
        ≠ ShaderStageToMask .TessControl :=
    fun _ _ _ => tcs_not_last ctx hl
  obtain ⟨h1, h2⟩ := twin_head ctx hg hv ht hso d e inRegMask
  obtain ⟨_, hf, _, _, h5⟩ := twin_run ctx hg hv ht hso d e inRegMask
  refine ⟨?_, ?_, ?_, ?_, ?_⟩
  · unfold slotBudget
    exact (twin_read St.availUserDataCount (fun _ => rfl) h1).symm
  · intro i
    unfold registerResident
    cases ctx.userDataNodes[i]? with
    | none => rfl
    | some n =>
      dsimp only
      have e1 : isPacked ctx .TessControl n = isPacked ctx .Vertex n := by
        unfold isPacked
        rw [active_vertex_tcs ctx hg ht n true]
      have e2 := twin_read (fun s => fits s n) (fun _ => rfl) (hf i)
      dsimp only at e2
      rw [e1, e2]
  · intro i
    unfold firstSlot
    exact (twin_read St.userDataIdx (fun _ => rfl) (hf i)).symm
  · have a1 := ((St.decided_eq_iff _ _).mp
      (afterSpecial_decided ctx .TessControl e inRegMask).1).2.2.2.2.2.2
    have a2 := ((St.decided_eq_iff _ _).mp
      (afterSpecial_decided ctx .Vertex d inRegMask).1).2.2.2.2.2.2
    have a3 := (twin_run ctx hg hv ht hso d e inRegMask).2.2.2.1
    rw [← a1, ← a2]
    exact (twin_read St.needSpill (fun _ => rfl) a3).symm
  · rw [run_userDataCount, run_userDataCount]
    exact (twin_read St.userDataIdx (fun _ => rfl) h5).symm

/-- Claim C29 on a GFX9 pipeline with vertex, tessellation and fragment stages, six user
data registers and two buffer nodes: the tessellation control stage has the slot budget of
the vertex stage. -/
theorem tcs_layout_equals_vertex_layout_witness :
    slotBudget
        { plainCtx 6 23 [bufferNode 3 0 0, bufferNode 4 3 1] [(0, 0), (0, 1)] with
          gfxIpMajor := 9 }
        .TessControl (fun _ => zeroIntf) 0
      = slotBudget
        { plainCtx 6 23 [bufferNode 3 0 0, bufferNode 4 3 1] [(0, 0), (0, 1)] with
          gfxIpMajor := 9 }
        .Vertex (fun _ => zeroIntf) 0 :=
  (tcs_layout_equals_vertex_layout
    { plainCtx 6 23 [bufferNode 3 0 0, bufferNode 4 3 1] [(0, 0), (0, 1)] with
      gfxIpMajor := 9 }
    (fun _ => zeroIntf) (fun _ => zeroIntf) 0 (by decide) (by decide) (by decide)
    (Or.inl (by decide))).1

/-- C30 (confirmed): on a run of the vertex stage that returns, started with a mask that
flags at most the two leading arguments, the arguments behind the ES-GS offset or the
stream-out arguments are: the vertex ID if one of vertex index, primitive ID, instance index
is used or the next stage is the tessellation control stage; then the relative vertex ID and
the primitive ID under the narrower condition that leaves out the vertex index; then the
instance ID if the instance index is used. An instance ID is emitted only together with the
pair, the pair only together with the vertex ID; the emitted arguments have the consecutive
argument indices `n`, `n + 1`, `n + 2`, `n + 3` in this order, where `n` is the number of
arguments in front of them, and the mask flags no argument from `n` on. -/
theorem vertex_ids_follow_default_parameter_rule (ctx : Context)
    (intfData : ShaderStage → InterfaceData) (inRegMask : Nat) (r : St)
    (hm : inRegMask < 4)
    (hr : GenerateEntryPointType ctx .Vertex intfData inRegMask = some r) :
    ((ctx.resUsage .Vertex).builtInUsage.vs.instanceIndex = true →
        ((ctx.resUsage .Vertex).builtInUsage.vs.primitiveId
          || (ctx.resUsage .Vertex).builtInUsage.vs.instanceIndex
          || decide (ctx.nextStageOfVertex = some .TessControl)) = true) ∧
      (((ctx.resUsage .Vertex).builtInUsage.vs.primitiveId
          || (ctx.resUsage .Vertex).builtInUsage.vs.instanceIndex
          || decide (ctx.nextStageOfVertex = some .TessControl)) = true →
        ((ctx.resUsage .Vertex).builtInUsage.vs.vertexIndex
          || (ctx.resUsage .Vertex).builtInUsage.vs.primitiveId
          || (ctx.resUsage .Vertex).builtInUsage.vs.instanceIndex
          || decide (ctx.nextStageOfVertex = some .TessControl)) = true) ∧
      r.argTys
        = (beforeVertexIds ctx intfData inRegMask).argTys
          ++ (if (ctx.resUsage .Vertex).builtInUsage.vs.vertexIndex
                || (ctx.resUsage .Vertex).builtInUsage.vs.primitiveId
                || (ctx.resUsage .Vertex).builtInUsage.vs.instanceIndex
                || decide (ctx.nextStageOfVertex = some .TessControl)
              then [ArgTy.Int32Ty] else [])
          ++ (if (ctx.resUsage .Vertex).builtInUsage.vs.primitiveId
                || (ctx.resUsage .Vertex).builtInUsage.vs.instanceIndex
                || decide (ctx.nextStageOfVertex = some .TessControl)
              then [ArgTy.Int32Ty, ArgTy.Int32Ty] else [])
          ++ (if (ctx.resUsage .Vertex).builtInUsage.vs.instanceIndex
              then [ArgTy.Int32Ty] else []) ∧
      (afterUserData ctx .Vertex intfData inRegMask).argTys
        <+: (beforeVertexIds ctx intfData inRegMask).argTys ∧
      (((ctx.resUsage .Vertex).builtInUsage.vs.vertexIndex
          || (ctx.resUsage .Vertex).builtInUsage.vs.primitiveId
          || (ctx.resUsage .Vertex).builtInUsage.vs.instanceIndex
          || decide (ctx.nextStageOfVertex = some .TessControl)) = true →
        (r.intfData .Vertex).entryArgIdxs.vs.vertexId
          = (beforeVertexIds ctx intfData inRegMask).argTys.length) ∧
      (((ctx.resUsage .Vertex).builtInUsage.vs.primitiveId
          || (ctx.resUsage .Vertex).builtInUsage.vs.instanceIndex
          || decide (ctx.nextStageOfVertex = some .TessControl)) = true →
        (r.intfData .Vertex).entryArgIdxs.vs.relVertexId
            = (beforeVertexIds ctx intfData inRegMask).argTys.length + 1 ∧
          (r.intfData .Vertex).entryArgIdxs.vs.primitiveId
            = (beforeVertexIds ctx intfData inRegMask).argTys.length + 2) ∧
      ((ctx.resUsage .Vertex).builtInUsage.vs.instanceIndex = true →
        (r.intfData .Vertex).entryArgIdxs.vs.instanceId
          = (beforeVertexIds ctx intfData inRegMask).argTys.length + 3) ∧
      r.inRegMask < 2 ^ (beforeVertexIds ctx intfData inRegMask).argTys.length ∧
      ∀ j : Nat, (beforeVertexIds ctx intfData inRegMask).argTys.length ≤ j →
        r.inRegMask.testBit j = false := by
  obtain ⟨rfl, hok⟩ := GenerateEntryPointType_some ctx .Vertex intfData inRegMask r hr
  obtain ⟨b1, b2, b3, b4, b5⟩ := beforeVertexIds_points ctx intfData inRegMask hm hok
  have hrun : runEntryPointType ctx .Vertex intfData inRegMask
      = systemValuesVs ctx (afterUserData ctx .Vertex intfData inRegMask) := rfl
  obtain ⟨c1, c2, c3, c4, c5⟩ := systemValuesVs_ids ctx
    (afterUserData ctx .Vertex intfData inRegMask)
    (by
      unfold beforeVertexIds at b3
      omega)
  have hmask : (runEntryPointType ctx .Vertex intfData inRegMask).inRegMask
      < 2 ^ (beforeVertexIds ctx intfData inRegMask).argTys.length := by
    rw [hrun, c2]
    exact b5
  refine ⟨?_, ?_, ?_, b4, ?_, ?_, ?_, hmask, ?_⟩
  · intro h
    simp only [Bool.or_eq_true]
    exact Or.inl (Or.inr h)
  · intro h
    simp only [Bool.or_eq_true] at h ⊢
    rcases h with (h | h) | h
    · exact Or.inl (Or.inl (Or.inr h))
    · exact Or.inl (Or.inr h)
    · exact Or.inr h
  · rw [hrun, c1]
    rfl
  · intro h
    rw [hrun, c3 h, ← b2]
    rfl
  · intro h
    rw [hrun, (c4 h).1, (c4 h).2, ← b2]
    exact ⟨rfl, rfl⟩
  · intro h
    rw [hrun, c5 h, ← b2]
    rfl
  · intro j hj
    apply Nat.testBit_lt_two_pow
    exact lt_of_lt_of_le hmask (Nat.pow_le_pow_right (by decide) hj)

/-- Claim C30 on a vertex shader that uses the instance index: the instance ID has the
argument index `n + 3`, for `n` arguments in front of the vertex ID. -/
theorem vertex_ids_follow_default_parameter_rule_witness :
    ((runEntryPointType
        { plainCtx 16 17 [bufferNode 4 0 0] [(0, 0)] with
          resUsage := fun _ =>
            { plainUsage [(0, 0)] with builtInUsage.vs.instanceIndex := true } }
        .Vertex (fun _ => zeroIntf) 0).intfData .Vertex).entryArgIdxs.vs.instanceId
      = (beforeVertexIds
          { plainCtx 16 17 [bufferNode 4 0 0] [(0, 0)] with
            resUsage := fun _ =>
              { plainUsage [(0, 0)] with builtInUsage.vs.instanceIndex := true } }
          (fun _ => zeroIntf) 0).argTys.length + 3 :=
  (vertex_ids_follow_default_parameter_rule
    { plainCtx 16 17 [bufferNode 4 0 0] [(0, 0)] with
      resUsage := fun _ =>
        { plainUsage [(0, 0)] with builtInUsage.vs.instanceIndex := true } }
    (fun _ => zeroIntf) 0 _ (by decide)
    (GenerateEntryPointType_of_ok _ _ _ _ (by decide))).2.2.2.2.2.2.1 rfl

/-! ## The test `(Mask & ~ValidMask) == 0` -/

/-- The test of a mask validator accepts the empty mask. -/
theorem maskTest_zero (c : SpirvEnums) (V : Nat) :
    ((c.word 0 &&& c.complement V) == 0) = true := by
  simp [SpirvEnums.word]

/-- The test of a mask validator accepts the bitwise OR of two masks exactly when it accepts
both. -/
theorem maskTest_or (c : SpirvEnums) (V a b : Nat) :
    ((c.word (a ||| b) &&& c.complement V) == 0)
      = (((c.word a &&& c.complement V) == 0) && ((c.word b &&& c.complement V) == 0)) := by
  have h : c.word (a ||| b) = c.word a ||| c.word b := by
    unfold SpirvEnums.word
    apply Nat.eq_of_testBit_eq
    intro i
    simp only [Nat.testBit_mod_two_pow, Nat.testBit_or]
    cases decide (i < c.wordBits) <;> simp
  have h2 : (c.word a ||| c.word b) &&& c.complement V
      = (c.word a &&& c.complement V) ||| (c.word b &&& c.complement V) := by
    apply Nat.eq_of_testBit_eq
    intro i
    simp only [Nat.testBit_and, Nat.testBit_or, Bool.and_or_distrib_right]
  rw [h, h2]
  rw [Bool.eq_iff_iff]
  simp only [beq_iff_eq, Bool.and_eq_true]
  constructor
  · intro h0
    constructor
    · apply Nat.eq_of_testBit_eq
      intro i
      have := congrArg (fun x => x.testBit i) h0
      simp only [Nat.testBit_or, Nat.zero_testBit, Bool.or_eq_false_iff] at this
      simpa using this.1
    · apply Nat.eq_of_testBit_eq
      intro i
      have := congrArg (fun x => x.testBit i) h0
      simp only [Nat.testBit_or, Nat.zero_testBit, Bool.or_eq_false_iff] at this
      simpa using this.2
  · rintro ⟨h1, h2⟩
    rw [h1, h2]
    rfl

/-- A sub-mask of a mask that passes the test passes the test. -/
theorem maskTest_sub (c : SpirvEnums) (V a b : Nat) (hab : a ||| b = b)
    (hb : ((c.word b &&& c.complement V) == 0) = true) :
    ((c.word a &&& c.complement V) == 0) = true := by
  have h := maskTest_or c V a b
  rw [hab, hb] at h
  have h2 := h.symm
  simp only [Bool.and_eq_true] at h2
  exact h2.1

/-! ## Bits of the stage mask -/

/-- A bitwise AND with a constant below 64 reads the six low bits only. -/
theorem land_mod64 (m c : Nat) (hc : c < 64) : m &&& c = (m % 64) &&& c := by
  apply Nat.eq_of_testBit_eq
  intro i
  have e : (64 : Nat) = 2 ^ 6 := by norm_num
  rw [Nat.testBit_and, Nat.testBit_and, e, Nat.testBit_mod_two_pow]
  by_cases hi : i < 6
  · simp [hi]
  · have hci : c.testBit i = false := by
      apply Nat.testBit_eq_false_of_lt
      have h64 : (2 : Nat) ^ 6 ≤ 2 ^ i := Nat.pow_le_pow_right (by norm_num) (by omega)
      omega
    simp [hci]

/-- The stage mask read through its six low bits: what the mask tests of
`GenerateEntryPointType` and of `IsResourceNodeActive` say about the single stages. -/
theorem stageMask_tests (m : Nat) :
    ((m &&& 6 ≠ 0) ↔ (m &&& 2 ≠ 0 ∨ m &&& 4 ≠ 0)) ∧
      ((m &&& 15 = 1) ↔ (m &&& 1 ≠ 0 ∧ m &&& 2 = 0 ∧ m &&& 4 = 0 ∧ m &&& 8 = 0)) ∧
      ((m &&& 14 = 2) ↔ (m &&& 2 ≠ 0 ∧ m &&& 4 = 0 ∧ m &&& 8 = 0)) ∧
      ((m &&& 12 = 4) ↔ (m &&& 4 ≠ 0 ∧ m &&& 8 = 0)) ∧
      ((m &&& 8 = 8) ↔ m &&& 8 ≠ 0) ∧
      ¬ (m &&& 0 = 16) := by
  have key : ∀ x, x < 64 →
      (((x &&& 6 ≠ 0) ↔ (x &&& 2 ≠ 0 ∨ x &&& 4 ≠ 0)) ∧
        ((x &&& 15 = 1) ↔ (x &&& 1 ≠ 0 ∧ x &&& 2 = 0 ∧ x &&& 4 = 0 ∧ x &&& 8 = 0)) ∧
        ((x &&& 14 = 2) ↔ (x &&& 2 ≠ 0 ∧ x &&& 4 = 0 ∧ x &&& 8 = 0)) ∧
        ((x &&& 12 = 4) ↔ (x &&& 4 ≠ 0 ∧ x &&& 8 = 0)) ∧
        ((x &&& 8 = 8) ↔ x &&& 8 ≠ 0) ∧
        ¬ (x &&& 0 = 16)) := by
    decide
  have h := key (m % 64) (Nat.mod_lt _ (by norm_num))
  rw [← land_mod64 m 6 (by norm_num), ← land_mod64 m 2 (by norm_num),
    ← land_mod64 m 4 (by norm_num), ← land_mod64 m 15 (by norm_num),
    ← land_mod64 m 1 (by norm_num), ← land_mod64 m 8 (by norm_num),
    ← land_mod64 m 14 (by norm_num), ← land_mod64 m 12 (by norm_num),
    ← land_mod64 m 0 (by norm_num)] at h
  exact h

/-! ## Presence of the stages and the second stage of a merged shader -/

theorem inStageMask_iff (ctx : Context) (t : ShaderStage) :
    inStageMask ctx t = true ↔ ctx.stageMask &&& ShaderStageToMask t ≠ 0 := by
  unfold inStageMask
  simp

theorem hasTs_iff (ctx : Context) :
    hasTs ctx = true ↔ (inStageMask ctx .TessControl = true ∨ inStageMask ctx .TessEval = true) := by
  have h := (stageMask_tests ctx.stageMask).1
  simp only [hasTs, inStageMask, ShaderStageToMask, ShaderStage.toNat, bne_iff_ne, ne_eq] at h ⊢
  exact h

theorem hasGs_iff (ctx : Context) :
    hasGs ctx = true ↔ inStageMask ctx .Geometry = true := by
  simp [hasGs, inStageMask]

/-- The second stage of the second stage of a stage of the pipeline is the stage itself. -/
theorem shaderStage2_involutive (ctx : Context) (s c : ShaderStage)
    (hin : inStageMask ctx s = true) (hc : shaderStage2 ctx s = some c) :
    shaderStage2 ctx c = some s := by
  have hT := hasTs_iff ctx
  have hG := hasGs_iff ctx
  unfold shaderStage2 at hc ⊢
  by_cases hg : ctx.gfxIpMajor ≥ 9
  · rw [if_pos hg] at hc ⊢
    cases h1 : hasTs ctx <;> cases h2 : hasGs ctx <;> cases s <;>
      simp [h1, h2] at hc hT hG hin ⊢ <;>
      (try subst hc) <;> simp_all
  · rw [if_neg hg] at hc
    cases hc

/-! ## The reservation flags behind the first loop -/

/-- What an iteration of the first loop does to `reserveVbTable`. -/
theorem scanNode_vbTable (ctx : Context) (stage : ShaderStage) (i : Nat) (n : ResourceNode)
    (s : St) :
    (scanNode ctx stage i n s).reserveVbTable
      = (s.reserveVbTable || (decide (n.type = .IndirectUserDataVaPtr) &&
          decide (stage = .Vertex ∨ (ctx.gfxIpMajor ≥ 9 ∧
            (stage = .TessControl ∨ (stage = .Geometry ∧ hasTs ctx = false)))))) := by
  unfold scanNode
  split_ifs <;> simp_all

/-- What an iteration of the first loop does to `reserveStreamOutTable`. -/
theorem scanNode_streamOutTable (ctx : Context) (stage : ShaderStage) (i : Nat)
    (n : ResourceNode) (s : St) :
    (scanNode ctx stage i n s).reserveStreamOutTable
      = (s.reserveStreamOutTable || (decide (n.type = .StreamOutTableVaPtr) &&
          decide ((ctx.stageMask &&& sub32 (ShaderStageToMask .Fragment) (ShaderStageToMask stage))
              = ShaderStageToMask stage ∨
            (ctx.gfxIpMajor ≥ 9 ∧
              (stage = .TessEval ∨ (stage = .Vertex ∧ hasTs ctx = false)))))) := by
  unfold scanNode
  split_ifs <;> simp_all

theorem flag_step (x a b c : Bool) : ((x || (a && c)) || (b && c)) = (x || ((a || b) && c)) := by
  cases x <;> cases a <;> cases b <;> cases c <;> rfl

/-- The flag `reserveVbTable` behind the first loop. -/
theorem forNodes_scanNode_vbTable (ctx : Context) (stage : ShaderStage)
    (l : List ResourceNode) (i : Nat) (s : St) :
    (forNodes (scanNode ctx stage) i l s).reserveVbTable
      = (s.reserveVbTable || (l.any (fun n => decide (n.type = .IndirectUserDataVaPtr)) &&
          decide (stage = .Vertex ∨ (ctx.gfxIpMajor ≥ 9 ∧
            (stage = .TessControl ∨ (stage = .Geometry ∧ hasTs ctx = false)))))) := by
  induction l generalizing i s with
  | nil => simp [forNodes]
  | cons n rest ih =>
    rw [forNodes, ih, scanNode_vbTable, List.any_cons]
    exact flag_step _ _ _ _

/-- The flag `reserveStreamOutTable` behind the first loop. -/
theorem forNodes_scanNode_streamOutTable (ctx : Context) (stage : ShaderStage)
    (l : List ResourceNode) (i : Nat) (s : St) :
    (forNodes (scanNode ctx stage) i l s).reserveStreamOutTable
      = (s.reserveStreamOutTable ||
          (l.any (fun n => decide (n.type = .StreamOutTableVaPtr)) &&
          decide ((ctx.stageMask &&& sub32 (ShaderStageToMask .Fragment) (ShaderStageToMask stage))
              = ShaderStageToMask stage ∨
            (ctx.gfxIpMajor ≥ 9 ∧
              (stage = .TessEval ∨ (stage = .Vertex ∧ hasTs ctx = false)))))) := by
  induction l generalizing i s with
  | nil => simp [forNodes]
  | cons n rest ih =>
    rw [forNodes, ih, scanNode_streamOutTable, List.any_cons]
    exact flag_step _ _ _ _

/-- With an `IndirectUserDataVaPtr` node in the node list, `reserveVbTable` is computed
exactly under the stage condition of the first loop. -/
theorem afterReserve_vbTable (ctx : Context) (stage : ShaderStage)
    (intfData : ShaderStage → InterfaceData) (inRegMask : Nat)
    (hnode : ∃ n ∈ ctx.userDataNodes, n.type = .IndirectUserDataVaPtr) :
    (afterReserve ctx stage intfData inRegMask).reserveVbTable = true ↔
      (stage = .Vertex ∨ (ctx.gfxIpMajor ≥ 9 ∧
        (stage = .TessControl ∨ (stage = .Geometry ∧ hasTs ctx = false)))) := by
  have hany : ctx.userDataNodes.any (fun n => decide (n.type = .IndirectUserDataVaPtr))
      = true := by
    obtain ⟨n, hn, hty⟩ := hnode
    exact List.any_eq_true.mpr ⟨n, hn, by simp [hty]⟩
  unfold afterReserve afterScan scanNodes
  rw [(reserveSpecial_flags ctx stage _).1, forNodes_scanNode_vbTable,
    (initState_flags ctx stage intfData inRegMask).1, hany]
  simp

/-- With a `StreamOutTableVaPtr` node in the node list, `reserveStreamOutTable` is computed
exactly under the stage condition of the first loop. -/
theorem afterReserve_streamOutTable (ctx : Context) (stage : ShaderStage)
    (intfData : ShaderStage → InterfaceData) (inRegMask : Nat)
    (hnode : ∃ n ∈ ctx.userDataNodes, n.type = .StreamOutTableVaPtr) :
    (afterReserve ctx stage intfData inRegMask).reserveStreamOutTable = true ↔
      ((ctx.stageMask &&& sub32 (ShaderStageToMask .Fragment) (ShaderStageToMask stage))
          = ShaderStageToMask stage ∨
        (ctx.gfxIpMajor ≥ 9 ∧
          (stage = .TessEval ∨ (stage = .Vertex ∧ hasTs ctx = false)))) := by
  have hany : ctx.userDataNodes.any (fun n => decide (n.type = .StreamOutTableVaPtr))
      = true := by
    obtain ⟨n, hn, hty⟩ := hnode
    exact List.any_eq_true.mpr ⟨n, hn, by simp [hty]⟩
  unfold afterReserve afterScan scanNodes
  rw [(reserveSpecial_flags ctx stage _).2.1, forNodes_scanNode_streamOutTable,
    (initState_flags ctx stage intfData inRegMask).2.1, hany]
  simp

/-! ## The stage conditions of the two reservations in terms of the second stage -/

/-- The stage mask test of the first loop, stage by stage. -/
theorem lastStage_test (ctx : Context) (stage : ShaderStage)
    (hpre : stage.toNat < ShaderStage.Fragment.toNat) (hin : inStageMask ctx stage = true) :
    (ctx.stageMask &&& sub32 (ShaderStageToMask .Fragment) (ShaderStageToMask stage))
        = ShaderStageToMask stage ↔ noStageBetween ctx stage = true := by
  obtain ⟨-, h0, h1, h2, h3, -⟩ := stageMask_tests ctx.stageMask
  cases stage <;>
    simp [-Nat.and_one_is_mod, ShaderStage.toNat, ShaderStageToMask, sub32, u32, noStageBetween, nativeStages,
      inStageMask] at hpre hin ⊢
  · rw [h0]; tauto
  · rw [h1]; tauto
  · rw [h2]; tauto
  · rw [h3]; tauto

theorem hasTs_eq (ctx : Context) :
    hasTs ctx = (inStageMask ctx .TessControl || inStageMask ctx .TessEval) := by
  rw [Bool.eq_iff_iff]
  simp [hasTs_iff]

theorem hasGs_eq (ctx : Context) : hasGs ctx = inStageMask ctx .Geometry := rfl

/-- For a stage of the pipeline, the stage condition of the vertex buffer table says that
the stage is the vertex stage or is merged with it. -/
theorem vbTable_condition (ctx : Context) (stage : ShaderStage)
    (hin : inStageMask ctx stage = true) :
    (stage = .Vertex ∨ (ctx.gfxIpMajor ≥ 9 ∧
        (stage = .TessControl ∨ (stage = .Geometry ∧ hasTs ctx = false)))) ↔
      (stage = .Vertex ∨ (ctx.gfxIpMajor ≥ 9 ∧ shaderStage2 ctx stage = some .Vertex)) := by
  have hT := hasTs_eq ctx
  have hG := hasGs_eq ctx
  cases stage <;> by_cases hg : ctx.gfxIpMajor ≥ 9 <;>
    cases h1 : inStageMask ctx .TessControl <;> cases h2 : inStageMask ctx .TessEval <;>
    cases h3 : inStageMask ctx .Geometry <;>
    simp_all [shaderStage2]

theorem streamOutTable_condition_vs (ctx : Context)
    (hin : inStageMask ctx .Vertex = true) :
    ((ctx.stageMask &&& sub32 (ShaderStageToMask .Fragment) (ShaderStageToMask ShaderStage.Vertex))
          = ShaderStageToMask ShaderStage.Vertex ∨
        (ctx.gfxIpMajor ≥ 9 ∧
          (ShaderStage.Vertex = .TessEval ∨ (ShaderStage.Vertex = .Vertex ∧ hasTs ctx = false)))) ↔
      (lastPreFragment ctx ShaderStage.Vertex = true ∨
        (ctx.gfxIpMajor ≥ 9 ∧ ∃ c, shaderStage2 ctx ShaderStage.Vertex = some c ∧ c ≠ .TessControl ∧
          lastPreFragment ctx c = true)) := by
  have hT := hasTs_eq ctx
  have hG := hasGs_eq ctx
  rw [lastStage_test ctx .Vertex (by decide) hin]
  by_cases hg : ctx.gfxIpMajor ≥ 9 <;>
    cases h0 : inStageMask ctx .TessControl <;>
    cases h1 : inStageMask ctx .TessEval <;>
    cases h2 : inStageMask ctx .Geometry <;>
    simp_all [shaderStage2, lastPreFragment, noStageBetween, nativeStages, ShaderStage.toNat]

theorem streamOutTable_condition_tcs (ctx : Context)
    (hin : inStageMask ctx .TessControl = true) :
    ((ctx.stageMask &&& sub32 (ShaderStageToMask .Fragment) (ShaderStageToMask ShaderStage.TessControl))
          = ShaderStageToMask ShaderStage.TessControl ∨
        (ctx.gfxIpMajor ≥ 9 ∧
          (ShaderStage.TessControl = .TessEval ∨ (ShaderStage.TessControl = .Vertex ∧ hasTs ctx = false)))) ↔
      (lastPreFragment ctx ShaderStage.TessControl = true ∨
        (ctx.gfxIpMajor ≥ 9 ∧ ∃ c, shaderStage2 ctx ShaderStage.TessControl = some c ∧ c ≠ .TessControl ∧
          lastPreFragment ctx c = true)) := by
  have hT := hasTs_eq ctx
  have hG := hasGs_eq ctx
  rw [lastStage_test ctx .TessControl (by decide) hin]
  by_cases hg : ctx.gfxIpMajor ≥ 9 <;>
    cases h0 : inStageMask ctx .Vertex <;>
    cases h1 : inStageMask ctx .TessEval <;>
    cases h2 : inStageMask ctx .Geometry <;>
    simp_all [shaderStage2, lastPreFragment, noStageBetween, nativeStages, ShaderStage.toNat]

theorem streamOutTable_condition_tes (ctx : Context)
    (hin : inStageMask ctx .TessEval = true) :
    ((ctx.stageMask &&& sub32 (ShaderStageToMask .Fragment) (ShaderStageToMask ShaderStage.TessEval))
          = ShaderStageToMask ShaderStage.TessEval ∨
        (ctx.gfxIpMajor ≥ 9 ∧
          (ShaderStage.TessEval = .TessEval ∨ (ShaderStage.TessEval = .Vertex ∧ hasTs ctx = false)))) ↔
      (lastPreFragment ctx ShaderStage.TessEval = true ∨
        (ctx.gfxIpMajor ≥ 9 ∧ ∃ c, shaderStage2 ctx ShaderStage.TessEval = some c ∧ c ≠ .TessControl ∧
          lastPreFragment ctx c = true)) := by
  have hT := hasTs_eq ctx
  have hG := hasGs_eq ctx
  rw [lastStage_test ctx .TessEval (by decide) hin]
  by_cases hg : ctx.gfxIpMajor ≥ 9 <;>
    cases h0 : inStageMask ctx .TessControl <;>
    cases h1 : inStageMask ctx .Geometry <;>
    simp_all [shaderStage2, lastPreFragment, noStageBetween, nativeStages, ShaderStage.toNat]

theorem streamOutTable_condition_gs (ctx : Context)
    (hin : inStageMask ctx .Geometry = true) :
    ((ctx.stageMask &&& sub32 (ShaderStageToMask .Fragment) (ShaderStageToMask ShaderStage.Geometry))
          = ShaderStageToMask ShaderStage.Geometry ∨
        (ctx.gfxIpMajor ≥ 9 ∧
          (ShaderStage.Geometry = .TessEval ∨ (ShaderStage.Geometry = .Vertex ∧ hasTs ctx = false)))) ↔
      (lastPreFragment ctx ShaderStage.Geometry = true ∨
        (ctx.gfxIpMajor ≥ 9 ∧ ∃ c, shaderStage2 ctx ShaderStage.Geometry = some c ∧ c ≠ .TessControl ∧
          lastPreFragment ctx c = true)) := by
  have hT := hasTs_eq ctx
  have hG := hasGs_eq ctx
  rw [lastStage_test ctx .Geometry (by decide) hin]
  by_cases hg : ctx.gfxIpMajor ≥ 9 <;>
    cases h0 : inStageMask ctx .TessControl <;>
    cases h1 : inStageMask ctx .TessEval <;>
    cases h2 : inStageMask ctx .Vertex <;>
    simp_all [shaderStage2, lastPreFragment, noStageBetween, nativeStages, ShaderStage.toNat]

theorem lastPreFragment_fragment (ctx : Context) : lastPreFragment ctx .Fragment = false := by
  simp [lastPreFragment, ShaderStage.toNat]

theorem shaderStage2_fragment (ctx : Context) : shaderStage2 ctx .Fragment = none := by
  unfold shaderStage2
  split_ifs <;> rfl

/-- For a graphics stage of the pipeline, the stage condition of the stream-out table says
that the stage is the last one in front of the fragment stage, or is merged with a last
stage other than the tessellation control stage. -/
theorem streamOutTable_condition (ctx : Context) (stage : ShaderStage)
    (hin : inStageMask ctx stage = true) (hgr : stage ≠ .Compute) :
    ((ctx.stageMask &&& sub32 (ShaderStageToMask .Fragment) (ShaderStageToMask stage))
          = ShaderStageToMask stage ∨
        (ctx.gfxIpMajor ≥ 9 ∧
          (stage = .TessEval ∨ (stage = .Vertex ∧ hasTs ctx = false)))) ↔
      (lastPreFragment ctx stage = true ∨
        (ctx.gfxIpMajor ≥ 9 ∧ ∃ c, shaderStage2 ctx stage = some c ∧ c ≠ .TessControl ∧
          lastPreFragment ctx c = true)) := by
  cases stage
  · exact streamOutTable_condition_vs ctx hin
  · exact streamOutTable_condition_tcs ctx hin
  · exact streamOutTable_condition_tes ctx hin
  · exact streamOutTable_condition_gs ctx hin
  · have hF : ¬ ((ctx.stageMask &&& sub32 (ShaderStageToMask .Fragment)
        (ShaderStageToMask .Fragment)) = ShaderStageToMask .Fragment) :=
      (stageMask_tests ctx.stageMask).2.2.2.2.2
    constructor
    · rintro (h | ⟨-, h | ⟨h, -⟩⟩)
      · exact absurd h hF
      · cases h
      · cases h
    · rintro (h | ⟨-, c, h, -⟩)
      · rw [lastPreFragment_fragment] at h
        cases h
      · rw [shaderStage2_fragment] at h
        cases h
  · exact absurd rfl hgr

/-! ## Register marks behind a primitive statement -/

/-- A statement that leaves the argument index and the mask alone and sets no failure flag
that was clear keeps the marks. -/
theorem flag_same {k : Nat} {s t : St} (hok : t.ok = true → s.ok = true)
    (hidx : t.argIdx = s.argIdx) (hmask : t.inRegMask = s.inRegMask) (h : s.flagged k) :
    t.flagged k := by
  intro ht j hj
  rw [hmask]
  rw [hidx] at hj
  exact h (hok ht) j hj

theorem flag_push {k : Nat} {s : St} (ty : ArgTy) (h : s.flagged k) :
    (s.push ty).flagged k :=
  flag_same (by simp) (by simp) (by simp) h

theorem flag_consume {k : Nat} {s : St} (n : Nat) (h : s.flagged k) :
    (s.consume n).flagged k :=
  flag_same (by simp) (by simp) (by simp) h

theorem flag_userDataNext {k : Nat} {s : St} (n : Nat) (h : s.flagged k) :
    (s.userDataNext n).flagged k :=
  flag_same (by simp) (by simp) (by simp) h

theorem flag_reserve {k : Nat} {s : St} (n : Nat) (h : s.flagged k) :
    (s.reserve n).flagged k :=
  flag_same (by simp) (by simp) (by simp) h

theorem flag_setReserveVbTable {k : Nat} {s : St} (h : s.flagged k) :
    s.setReserveVbTable.flagged k :=
  flag_same (by simp) (by simp) (by simp) h

theorem flag_setReserveStreamOutTable {k : Nat} {s : St} (h : s.flagged k) :
    s.setReserveStreamOutTable.flagged k :=
  flag_same (by simp) (by simp) (by simp) h

theorem flag_setReserveEsGsLdsSize {k : Nat} {s : St} (h : s.flagged k) :
    s.setReserveEsGsLdsSize.flagged k :=
  flag_same (by simp) (by simp) (by simp) h

theorem flag_require {k : Nat} {s : St} (n : ResourceNode) (h : s.flagged k) :
    (s.require n).flagged k :=
  flag_same (by simp) (by simp) (by simp) h

theorem flag_setNeedSpill {k : Nat} {s : St} (b : Bool) (h : s.flagged k) :
    (s.setNeedSpill b).flagged k :=
  flag_same (by simp) (by simp) (by simp) h

theorem flag_setAvail {k : Nat} {s : St} (n : Nat) (h : s.flagged k) :
    (s.setAvail n).flagged k :=
  flag_same (by simp) (by simp) (by simp) h

theorem flag_setIntf {k : Nat} {s : St} (t : ShaderStage) (f : InterfaceData → InterfaceData)
    (h : s.flagged k) : (s.setIntf t f).flagged k :=
  flag_same (by simp) (by simp) (by simp) h

theorem flag_record {k : Nat} {s : St} (t : ShaderStage) (get : St → Nat)
    (set : Nat → InterfaceData → InterfaceData) (h : s.flagged k) :
    (s.record t get set).flagged k :=
  flag_same (by simp) (by simp) (by simp) h

theorem flag_never {k : Nat} {s : St} : s.never.flagged k :=
  fun hok => St.never_back s hok

theorem flag_assert {k : Nat} {s : St} (c : St → Bool) (h : s.flagged k) :
    (s.assert c).flagged k := by
  intro hok
  have hs : s.ok = true := St.assert_back s c id hok
  unfold St.assert at hok ⊢
  split
  · exact h hs
  · rename_i hc
    rw [if_neg hc] at hok
    simp [St.ok] at hok

theorem flag_checkMap {k : Nat} {s : St} (len count : Nat) (h : s.flagged k) :
    (s.checkMap len count).flagged k := by
  intro hok
  have hs : s.ok = true := St.checkMap_back s len count id hok
  unfold St.checkMap at hok ⊢
  split
  · exact h hs
  · rename_i hc
    rw [if_neg hc] at hok
    simp [St.ok] at hok

/-- The statement `*pInRegMask |= (1ull << argIdx)` marks the argument at `argIdx`. -/
theorem flag_inReg {s : St} (h : s.flagged 0) : s.inReg.flagged 1 := by
  intro hok j hj
  simp only [St.inReg_ok, Bool.and_eq_true, decide_eq_true_eq] at hok
  simp only [St.inReg_argIdx] at hj
  simp only [St.inReg_inRegMask, Nat.testBit_or, Bool.or_eq_true]
  by_cases hlt : j < s.argIdx
  · exact Or.inl (h hok.1 j (by omega))
  · right
    have hje : j = s.argIdx := by omega
    subst hje
    unfold bit64
    have e : (18446744073709551616 : Nat) = 2 ^ 64 := by norm_num
    rw [e, Nat.testBit_mod_two_pow]
    simp [hok.2]

theorem flag_argNext {s : St} (h : s.flagged 1) : s.argNext.flagged 0 := by
  intro hok j hj
  simp only [St.argNext_ok] at hok
  simp only [St.argNext_argIdx, u32] at hj
  simp only [St.argNext_inRegMask]
  have hle : (s.argIdx + 1) % 4294967296 ≤ s.argIdx + 1 := Nat.mod_le _ _
  exact h hok j (by omega)

theorem flag_inRegNext {s : St} (h : s.flagged 0) : s.inRegNext.flagged 0 :=
  flag_argNext (flag_inReg h)

theorem flag_when {k : Nat} {s : St} (c : St → Bool) (body : St → St)
    (hbody : ∀ t, t.flagged k → (body t).flagged k) (h : s.flagged k) :
    (s.when c body).flagged k := by
  unfold St.when
  split
  · exact hbody s h
  · exact h

theorem flag_forNodes {k : Nat} (body : Nat → ResourceNode → St → St)
    (hbody : ∀ i n t, t.flagged k → (body i n t).flagged k)
    (i : Nat) (l : List ResourceNode) {s : St} (h : s.flagged k) :
    (forNodes body i l s).flagged k := by
  induction l generalizing i s with
  | nil => exact h
  | cons n l ih =>
    simp only [forNodes]
    exact ih _ (hbody _ _ _ h)

theorem flag_firstNodeOfType {k : Nat} (ty : ResourceMappingNodeType)
    (body : ResourceNode → St → St) (hbody : ∀ n t, t.flagged k → (body n t).flagged k)
    (l : List ResourceNode) {s : St} (h : s.flagged k) :
    (firstNodeOfType ty body l s).flagged k := by
  induction l with
  | nil => exact h
  | cons n l ih =>
    simp only [firstNodeOfType]
    split
    · exact hbody _ _ h
    · exact ih

theorem flag_fillDummies (ctx : Context) (off fuel : Nat) {s : St} (h : s.flagged 0) :
    (fillDummies ctx off fuel s).flagged 0 := by
  induction fuel generalizing s with
  | zero => exact h
  | succ fuel ih =>
    rw [fillDummies]
    split
    · exact ih (flag_consume 1 (flag_userDataNext 1 (flag_inRegNext (flag_push _ h))))
    · exact h

theorem flag_fillToSpill (ctx : Context) (fuel : Nat) {s : St} (h : s.flagged 0) :
    (fillToSpill ctx fuel s).flagged 0 := by
  induction fuel generalizing s with
  | zero => exact h
  | succ fuel ih =>
    rw [fillToSpill]
    split
    · exact ih (flag_userDataNext 1 (flag_inRegNext (flag_push _ h)))
    · exact h

/-! ## Bits of the mask behind a primitive statement -/

theorem keep_refl (s : St) : St.keepsBits s s := fun _ h => h

theorem keep_same {s0 s t : St} (hmask : t.inRegMask = s.inRegMask)
    (h : St.keepsBits s0 s) : St.keepsBits s0 t := by
  intro j hj
  rw [hmask]
  exact h j hj

theorem keep_push {s0 s : St} (ty : ArgTy) (h : St.keepsBits s0 s) :
    St.keepsBits s0 (s.push ty) :=
  keep_same (by simp) h

theorem keep_argNext {s0 s : St} (h : St.keepsBits s0 s) : St.keepsBits s0 s.argNext :=
  keep_same (by simp) h

theorem keep_setIntf {s0 s : St} (t : ShaderStage) (f : InterfaceData → InterfaceData)
    (h : St.keepsBits s0 s) : St.keepsBits s0 (s.setIntf t f) :=
  keep_same (by simp) h

theorem keep_record {s0 s : St} (t : ShaderStage) (get : St → Nat)
    (set : Nat → InterfaceData → InterfaceData) (h : St.keepsBits s0 s) :
    St.keepsBits s0 (s.record t get set) :=
  keep_same (by simp) h

theorem keep_inReg {s0 s : St} (h : St.keepsBits s0 s) : St.keepsBits s0 s.inReg := by
  intro j hj
  simp only [St.inReg_inRegMask, Nat.testBit_or, Bool.or_eq_true]
  exact Or.inl (h j hj)

theorem keep_inRegNext {s0 s : St} (h : St.keepsBits s0 s) : St.keepsBits s0 s.inRegNext :=
  keep_argNext (keep_inReg h)

theorem keep_when {s0 s : St} (c : St → Bool) (body : St → St)
    (hbody : ∀ t, St.keepsBits s0 t → St.keepsBits s0 (body t)) (h : St.keepsBits s0 s) :
    St.keepsBits s0 (s.when c body) := by
  unfold St.when
  split
  · exact hbody s h
  · exact h

theorem keep_sgprArg {s0 s : St} (stage : ShaderStage) (ty : ArgTy)
    (set : Nat → InterfaceData → InterfaceData) (h : St.keepsBits s0 s) :
    St.keepsBits s0 (s.sgprArg stage ty set) :=
  keep_inRegNext (keep_record _ _ _ (keep_push _ h))

theorem keep_vgprArg {s0 s : St} (stage : ShaderStage) (ty : ArgTy)
    (set : Nat → InterfaceData → InterfaceData) (h : St.keepsBits s0 s) :
    St.keepsBits s0 (s.vgprArg stage ty set) :=
  keep_argNext (keep_record _ _ _ (keep_push _ h))

theorem keep_streamOffsetArgs {s0 : St} (stage : ShaderStage)
    (record : Nat → Nat → InterfaceData → InterfaceData) (i : Nat) (l : List Nat) {s : St}
    (h : St.keepsBits s0 s) : St.keepsBits s0 (streamOffsetArgs stage record i l s) := by
  induction l generalizing i s with
  | nil => exact h
  | cons stride rest ih =>
    simp only [streamOffsetArgs]
    exact ih _ (keep_when _ _ (fun t ht => keep_inRegNext (keep_record _ _ _ (keep_push _ ht))) h)

/-! ## Register marks behind the blocks of the function -/

set_option linter.unreachableTactic false
set_option linter.unusedTactic false

theorem flag_initState (ctx : Context) (stage : ShaderStage)
    (intfData : ShaderStage → InterfaceData) (inRegMask : Nat) :
    (initState ctx stage intfData inRegMask).flagged 0 := by
  have h : St.flagged 0
      { argIdx := 0, userDataIdx := 0, argTys := [], inRegMask := inRegMask,
        intfData := intfData, availUserDataCount := 0, requiredRemappedUserDataCount := 0,
        requiredUserDataCount := 0, reserveVbTable := false, reserveStreamOutTable := false,
        reserveEsGsLdsSize := false, needSpill := false, actualAvailUserDataCount := 0,
        neverCalled := false, assertFailed := false, undefinedBehavior := false } :=
    fun _ j hj => absurd hj (Nat.not_lt_zero j)
  unfold Llpc.initState
  dsimp only
  repeat (any_goals (with_reducible (first
    | assumption
    | refine flag_push _ ?_
    | refine flag_inRegNext ?_
    | refine flag_argNext ?_
    | refine flag_inReg ?_
    | refine flag_consume _ ?_
    | refine flag_userDataNext _ ?_
    | exact flag_never
    | refine flag_checkMap _ _ ?_
    | refine flag_reserve _ ?_
    | refine flag_setReserveEsGsLdsSize ?_
    | refine flag_setReserveVbTable ?_
    | refine flag_setReserveStreamOutTable ?_
    | refine flag_require _ ?_
    | refine flag_setAvail _ ?_
    | refine flag_setNeedSpill _ ?_
    | refine flag_vbTableLoop _ _ ?_
    | refine flag_assert _ ?_
    | refine flag_record _ _ _ ?_
    | refine flag_setIntf _ _ ?_
    | refine flag_when _ _ (fun _ _ => ?_) ?_)))

theorem flag_scanNode (ctx : Context) (stage : ShaderStage) (i : Nat) (n : ResourceNode)
    {s : St} (h : s.flagged 0) : (scanNode ctx stage i n s).flagged 0 := by
  unfold Llpc.scanNode
  dsimp only
  split_ifs <;>
  repeat (any_goals (with_reducible (first
    | assumption
    | refine flag_push _ ?_
    | refine flag_inRegNext ?_
    | refine flag_argNext ?_
    | refine flag_inReg ?_
    | refine flag_consume _ ?_
    | refine flag_userDataNext _ ?_
    | exact flag_never
    | refine flag_checkMap _ _ ?_
    | refine flag_reserve _ ?_
    | refine flag_setReserveEsGsLdsSize ?_
    | refine flag_setReserveVbTable ?_
    | refine flag_setReserveStreamOutTable ?_
    | refine flag_require _ ?_
    | refine flag_setAvail _ ?_
    | refine flag_setNeedSpill _ ?_
    | refine flag_vbTableLoop _ _ ?_
    | refine flag_assert _ ?_
    | refine flag_record _ _ _ ?_
    | refine flag_setIntf _ _ ?_
    | refine flag_when _ _ (fun _ _ => ?_) ?_)))

theorem flag_reserveSpecial (ctx : Context) (stage : ShaderStage) {s : St}
    (h : s.flagged 0) : (reserveSpecial ctx stage s).flagged 0 := by
  cases stage <;> simp only [Llpc.reserveSpecial] <;>
  repeat (any_goals (with_reducible (first
    | assumption
    | refine flag_push _ ?_
    | refine flag_inRegNext ?_
    | refine flag_argNext ?_
    | refine flag_inReg ?_
    | refine flag_consume _ ?_
    | refine flag_userDataNext _ ?_
    | exact flag_never
    | refine flag_checkMap _ _ ?_
    | refine flag_reserve _ ?_
    | refine flag_setReserveEsGsLdsSize ?_
    | refine flag_setReserveVbTable ?_
    | refine flag_setReserveStreamOutTable ?_
    | refine flag_require _ ?_
    | refine flag_setAvail _ ?_
    | refine flag_setNeedSpill _ ?_
    | refine flag_vbTableLoop _ _ ?_
    | refine flag_assert _ ?_
    | refine flag_record _ _ _ ?_
    | refine flag_setIntf _ _ ?_
    | refine flag_when _ _ (fun _ _ => ?_) ?_)))

theorem flag_decideSpill (ctx : Context) (stage : ShaderStage) {s : St}
    (h : s.flagged 0) : (decideSpill ctx stage s).flagged 0 := by
  unfold Llpc.decideSpill
  split <;> dsimp only <;>
  repeat (any_goals (with_reducible (first
    | assumption
    | refine flag_push _ ?_
    | refine flag_inRegNext ?_
    | refine flag_argNext ?_
    | refine flag_inReg ?_
    | refine flag_consume _ ?_
    | refine flag_userDataNext _ ?_
    | exact flag_never
    | refine flag_checkMap _ _ ?_
    | refine flag_reserve _ ?_
    | refine flag_setReserveEsGsLdsSize ?_
    | refine flag_setReserveVbTable ?_
    | refine flag_setReserveStreamOutTable ?_
    | refine flag_require _ ?_
    | refine flag_setAvail _ ?_
    | refine flag_setNeedSpill _ ?_
    | refine flag_vbTableLoop _ _ ?_
    | refine flag_assert _ ?_
    | refine flag_record _ _ _ ?_
    | refine flag_setIntf _ _ ?_
    | refine flag_when _ _ (fun _ _ => ?_) ?_)))

theorem flag_allocStreamOutNode (stage : ShaderStage) (n : ResourceNode) {s : St}
    (h : s.flagged 0) : (allocStreamOutNode stage n s).flagged 0 := by
  cases stage <;> simp only [Llpc.allocStreamOutNode] <;>
  repeat (any_goals (with_reducible (first
    | assumption
    | refine flag_push _ ?_
    | refine flag_inRegNext ?_
    | refine flag_argNext ?_
    | refine flag_inReg ?_
    | refine flag_consume _ ?_
    | refine flag_userDataNext _ ?_
    | exact flag_never
    | refine flag_checkMap _ _ ?_
    | refine flag_reserve _ ?_
    | refine flag_setReserveEsGsLdsSize ?_
    | refine flag_setReserveVbTable ?_
    | refine flag_setReserveStreamOutTable ?_
    | refine flag_require _ ?_
    | refine flag_setAvail _ ?_
    | refine flag_setNeedSpill _ ?_
    | refine flag_vbTableLoop _ _ ?_
    | refine flag_assert _ ?_
    | refine flag_record _ _ _ ?_
    | refine flag_setIntf _ _ ?_
    | refine flag_when _ _ (fun _ _ => ?_) ?_)))

theorem flag_allocStreamOut (ctx : Context) (stage : ShaderStage) {s : St}
    (h : s.flagged 0) : (allocStreamOut ctx stage s).flagged 0 := by
  unfold Llpc.allocStreamOut
  split
  · exact flag_firstNodeOfType _ _ (fun n _ hab => flag_allocStreamOutNode stage n hab) _ h
  · exact h

theorem flag_padNode (ctx : Context) (stage : ShaderStage) (n : ResourceNode) {s : St}
    (h : s.flagged 0) : (padNode ctx stage n s).flagged 0 := by
  unfold Llpc.padNode
  split
  · exact flag_fillDummies ctx _ _ h
  · exact h

theorem flag_assignNode (ctx : Context) (stage : ShaderStage) (i : Nat) (n : ResourceNode)
    {s : St} (h : s.flagged 0) : (assignNode ctx stage i n s).flagged 0 := by
  unfold Llpc.assignNode
  dsimp only
  cases n.type <;> dsimp only <;>
  repeat (any_goals (with_reducible (first
    | assumption
    | refine flag_push _ ?_
    | refine flag_inRegNext ?_
    | refine flag_argNext ?_
    | refine flag_inReg ?_
    | refine flag_consume _ ?_
    | refine flag_userDataNext _ ?_
    | exact flag_never
    | refine flag_checkMap _ _ ?_
    | refine flag_reserve _ ?_
    | refine flag_setReserveEsGsLdsSize ?_
    | refine flag_setReserveVbTable ?_
    | refine flag_setReserveStreamOutTable ?_
    | refine flag_require _ ?_
    | refine flag_setAvail _ ?_
    | refine flag_setNeedSpill _ ?_
    | refine flag_vbTableLoop _ _ ?_
    | refine flag_assert _ ?_
    | refine flag_record _ _ _ ?_
    | refine flag_setIntf _ _ ?_
    | refine flag_when _ _ (fun _ _ => ?_) ?_)))

theorem flag_packNode (ctx : Context) (stage : ShaderStage) (i : Nat) (n : ResourceNode)
    {s : St} (h : s.flagged 0) : (packNode ctx stage i n s).flagged 0 := by
  unfold Llpc.packNode
  dsimp only
  have hp := flag_padNode ctx stage n h
  split_ifs
  · exact h
  · exact h
  · exact h
  · exact flag_assignNode ctx stage i n hp
  · exact flag_setIntf _ _ hp
  · exact hp

theorem flag_fixedSpill (ctx : Context) (stage : ShaderStage) {s : St}
    (h : s.flagged 0) : (fixedSpill ctx stage s).flagged 0 := by
  unfold Llpc.fixedSpill
  split
  · dsimp only
    have h3 := flag_fillToSpill ctx
      (u32 (ctx.MaxCsUserDataCount + ctx.CsStartUserData) + 1
        - ((s.assert (fun s =>
            decide ((s.intfData stage).spillTable.offsetInDwords ≠ ctx.InvalidValue))).assert
          (fun s => decide
            (s.userDataIdx ≤ u32 (ctx.MaxCsUserDataCount + ctx.CsStartUserData)))).userDataIdx)
      (flag_assert
        (fun s => decide (s.userDataIdx ≤ u32 (ctx.MaxCsUserDataCount + ctx.CsStartUserData)))
        (flag_assert
          (fun s => decide ((s.intfData stage).spillTable.offsetInDwords ≠ ctx.InvalidValue))
          h))
    repeat (any_goals (with_reducible (first
      | assumption
      | refine flag_push _ ?_
      | refine flag_inRegNext ?_
      | refine flag_argNext ?_
      | refine flag_inReg ?_
      | refine flag_consume _ ?_
      | refine flag_userDataNext _ ?_
      | exact flag_never
      | refine flag_checkMap _ _ ?_
      | refine flag_reserve _ ?_
      | refine flag_setReserveEsGsLdsSize ?_
      | refine flag_setReserveVbTable ?_
      | refine flag_setReserveStreamOutTable ?_
      | refine flag_require _ ?_
      | refine flag_setAvail _ ?_
      | refine flag_setNeedSpill _ ?_
      | refine flag_vbTableLoop _ _ ?_
      | refine flag_assert _ ?_
      | refine flag_record _ _ _ ?_
      | refine flag_setIntf _ _ ?_
      | refine flag_when _ _ (fun _ _ => ?_) ?_)))
  · exact h

theorem flag_vbTableNode (cur : ShaderStage) (n : ResourceNode) {s : St}
    (h : s.flagged 0) : (vbTableNode cur n s).flagged 0 := by
  unfold Llpc.vbTableNode
  dsimp only
  repeat (any_goals (with_reducible (first
    | assumption
    | refine flag_push _ ?_
    | refine flag_inRegNext ?_
    | refine flag_argNext ?_
    | refine flag_inReg ?_
    | refine flag_consume _ ?_
    | refine flag_userDataNext _ ?_
    | exact flag_never
    | refine flag_checkMap _ _ ?_
    | refine flag_reserve _ ?_
    | refine flag_setReserveEsGsLdsSize ?_
    | refine flag_setReserveVbTable ?_
    | refine flag_setReserveStreamOutTable ?_
    | refine flag_require _ ?_
    | refine flag_setAvail _ ?_
    | refine flag_setNeedSpill _ ?_
    | refine flag_vbTableLoop _ _ ?_
    | refine flag_assert _ ?_
    | refine flag_record _ _ _ ?_
    | refine flag_setIntf _ _ ?_
    | refine flag_when _ _ (fun _ _ => ?_) ?_)))

theorem flag_vbTableLoop (cur : ShaderStage) (l : List ResourceNode) {s : St}
    (h : s.flagged 0) :
    (Llpc.firstNodeOfType .IndirectUserDataVaPtr (Llpc.vbTableNode cur) l s).flagged 0 :=
  flag_firstNodeOfType _ _ (fun n _ hab => flag_vbTableNode cur n hab) l h

theorem flag_specialUserData (ctx : Context) (stage : ShaderStage) {s : St}
    (h : s.flagged 0) : (specialUserData ctx stage s).flagged 0 := by
  cases stage <;> simp only [Llpc.specialUserData] <;>
  repeat (any_goals (with_reducible (first
    | assumption
    | refine flag_push _ ?_
    | refine flag_inRegNext ?_
    | refine flag_argNext ?_
    | refine flag_inReg ?_
    | refine flag_consume _ ?_
    | refine flag_userDataNext _ ?_
    | exact flag_never
    | refine flag_checkMap _ _ ?_
    | refine flag_reserve _ ?_
    | refine flag_setReserveEsGsLdsSize ?_
    | refine flag_setReserveVbTable ?_
    | refine flag_setReserveStreamOutTable ?_
    | refine flag_require _ ?_
    | refine flag_setAvail _ ?_
    | refine flag_setNeedSpill _ ?_
    | refine flag_vbTableLoop _ _ ?_
    | refine flag_assert _ ?_
    | refine flag_record _ _ _ ?_
    | refine flag_setIntf _ _ ?_
    | refine flag_when _ _ (fun _ _ => ?_) ?_)))

theorem flag_greedySpill (stage : ShaderStage) {s : St} (h : s.flagged 0) :
    (greedySpill stage s).flagged 0 := by
  unfold Llpc.greedySpill
  dsimp only
  repeat (any_goals (with_reducible (first
    | assumption
    | refine flag_push _ ?_
    | refine flag_inRegNext ?_
    | refine flag_argNext ?_
    | refine flag_inReg ?_
    | refine flag_consume _ ?_
    | refine flag_userDataNext _ ?_
    | exact flag_never
    | refine flag_checkMap _ _ ?_
    | refine flag_reserve _ ?_
    | refine flag_setReserveEsGsLdsSize ?_
    | refine flag_setReserveVbTable ?_
    | refine flag_setReserveStreamOutTable ?_
    | refine flag_require _ ?_
    | refine flag_setAvail _ ?_
    | refine flag_setNeedSpill _ ?_
    | refine flag_vbTableLoop _ _ ?_
    | refine flag_assert _ ?_
    | refine flag_record _ _ _ ?_
    | refine flag_setIntf _ _ ?_
    | refine flag_when _ _ (fun _ _ => ?_) ?_)))

/-- Every argument emitted in front of the system values is marked "inreg", unless a failure
flag is set. -/
theorem flag_afterUserData (ctx : Context) (stage : ShaderStage)
    (intfData : ShaderStage → InterfaceData) (inRegMask : Nat) :
    (afterUserData ctx stage intfData inRegMask).flagged 0 := by
  unfold Llpc.afterUserData Llpc.afterPack Llpc.packNodes Llpc.beforePack Llpc.afterReserve
    Llpc.afterScan Llpc.scanNodes
  exact flag_greedySpill stage (flag_specialUserData ctx stage (flag_fixedSpill ctx stage
    (flag_forNodes _ (fun i n _ hab => flag_packNode ctx stage i n hab) 0 _
      (flag_allocStreamOut ctx stage (flag_decideSpill ctx stage
        (flag_reserveSpecial ctx stage
          (flag_forNodes _ (fun i n _ hab => flag_scanNode ctx stage i n hab) 0 _
            (flag_initState ctx stage intfData inRegMask))))))))

/-! ## Bits of the mask behind the system values -/

theorem keep_systemValuesVs {s0 s : St} (ctx : Context) (h : St.keepsBits s0 s) :
    St.keepsBits s0 (systemValuesVs ctx s) := by
  unfold Llpc.systemValuesVs
  dsimp only
  split_ifs <;>
  repeat (any_goals (with_reducible (first
    | assumption
    | refine keep_sgprArg _ _ _ ?_
    | refine keep_vgprArg _ _ _ ?_
    | refine keep_streamOffsetArgs _ _ _ _ ?_
    | refine keep_push _ ?_
    | refine keep_inRegNext ?_
    | refine keep_inReg ?_
    | refine keep_argNext ?_
    | refine keep_record _ _ _ ?_
    | refine keep_setIntf _ _ ?_
    | refine keep_when _ _ (fun _ _ => ?_) ?_)))

theorem keep_systemValuesTcs {s0 s : St} (ctx : Context) (h : St.keepsBits s0 s) :
    St.keepsBits s0 (systemValuesTcs ctx s) := by
  unfold Llpc.systemValuesTcs
  dsimp only
  repeat (any_goals (with_reducible (first
    | assumption
    | refine keep_sgprArg _ _ _ ?_
    | refine keep_vgprArg _ _ _ ?_
    | refine keep_streamOffsetArgs _ _ _ _ ?_
    | refine keep_push _ ?_
    | refine keep_inRegNext ?_
    | refine keep_inReg ?_
    | refine keep_argNext ?_
    | refine keep_record _ _ _ ?_
    | refine keep_setIntf _ _ ?_
    | refine keep_when _ _ (fun _ _ => ?_) ?_)))

theorem keep_systemValuesTes {s0 s : St} (ctx : Context) (h : St.keepsBits s0 s) :
    St.keepsBits s0 (systemValuesTes ctx s) := by
  unfold Llpc.systemValuesTes
  dsimp only
  split_ifs <;>
  repeat (any_goals (with_reducible (first
    | assumption
    | refine keep_sgprArg _ _ _ ?_
    | refine keep_vgprArg _ _ _ ?_
    | refine keep_streamOffsetArgs _ _ _ _ ?_
    | refine keep_push _ ?_
    | refine keep_inRegNext ?_
    | refine keep_inReg ?_
    | refine keep_argNext ?_
    | refine keep_record _ _ _ ?_
    | refine keep_setIntf _ _ ?_
    | refine keep_when _ _ (fun _ _ => ?_) ?_)))

theorem keep_systemValuesGs {s0 s : St} (h : St.keepsBits s0 s) :
    St.keepsBits s0 (systemValuesGs s) := by
  unfold Llpc.systemValuesGs
  dsimp only
  repeat (any_goals (with_reducible (first
    | assumption
    | refine keep_sgprArg _ _ _ ?_
    | refine keep_vgprArg _ _ _ ?_
    | refine keep_streamOffsetArgs _ _ _ _ ?_
    | refine keep_push _ ?_
    | refine keep_inRegNext ?_
    | refine keep_inReg ?_
    | refine keep_argNext ?_
    | refine keep_record _ _ _ ?_
    | refine keep_setIntf _ _ ?_
    | refine keep_when _ _ (fun _ _ => ?_) ?_)))

theorem keep_systemValuesFs {s0 s : St} (h : St.keepsBits s0 s) :
    St.keepsBits s0 (systemValuesFs s) := by
  unfold Llpc.systemValuesFs
  dsimp only
  repeat (any_goals (with_reducible (first
    | assumption
    | refine keep_sgprArg _ _ _ ?_
    | refine keep_vgprArg _ _ _ ?_
    | refine keep_streamOffsetArgs _ _ _ _ ?_
    | refine keep_push _ ?_
    | refine keep_inRegNext ?_
    | refine keep_inReg ?_
    | refine keep_argNext ?_
    | refine keep_record _ _ _ ?_
    | refine keep_setIntf _ _ ?_
    | refine keep_when _ _ (fun _ _ => ?_) ?_)))

theorem keep_systemValuesCs {s0 s : St} (h : St.keepsBits s0 s) :
    St.keepsBits s0 (systemValuesCs s) := by
  unfold Llpc.systemValuesCs
  dsimp only
  repeat (any_goals (with_reducible (first
    | assumption
    | refine keep_sgprArg _ _ _ ?_
    | refine keep_vgprArg _ _ _ ?_
    | refine keep_streamOffsetArgs _ _ _ _ ?_
    | refine keep_push _ ?_
    | refine keep_inRegNext ?_
    | refine keep_inReg ?_
    | refine keep_argNext ?_
    | refine keep_record _ _ _ ?_
    | refine keep_setIntf _ _ ?_
    | refine keep_when _ _ (fun _ _ => ?_) ?_)))

/-- The third `switch` clears no bit of the mask. -/
theorem keep_systemValues {s0 s : St} (ctx : Context) (stage : ShaderStage)
    (h : St.keepsBits s0 s) : St.keepsBits s0 (systemValues ctx stage s) := by
  cases stage
  · exact keep_systemValuesVs ctx h
  · exact keep_systemValuesTcs ctx h
  · exact keep_systemValuesTes ctx h
  · exact keep_systemValuesGs h
  · exact keep_systemValuesFs h
  · exact keep_systemValuesCs h

set_option linter.unreachableTactic true
set_option linter.unusedTactic true

/-! ## The user data index in the fixed layout -/

theorem fillDummies_fixedInv (ctx : Context) (off fuel : Nat) (s : St)
    (hB : ctx.MaxCsUserDataCount + ctx.CsStartUserData + 1 < 4294967296)
    (h : s.fixedInv ctx) : (fillDummies ctx off fuel s).fixedInv ctx := by
  induction fuel generalizing s with
  | zero => exact h
  | succ fuel ih =>
    rw [fillDummies]
    split
    · rename_i hc
      apply ih
      obtain ⟨h1, h2, h3⟩ := h
      have hlt := hc.2
      unfold u32 at hlt
      have hle : (s.availUserDataCount + ctx.CsStartUserData) % 4294967296
          ≤ s.availUserDataCount + ctx.CsStartUserData := Nat.mod_le _ _
      refine ⟨?_, ?_, ?_⟩
      · simp [u32]
        omega
      · simp [u32]
        omega
      · simpa using h3
    · exact h

theorem assignNode_fixedInv (ctx : Context) (stage : ShaderStage) (i : Nat)
    (n : ResourceNode) (s : St)
    (hCs : 2 ≤ ctx.CsStartUserData)
    (hB : ctx.MaxCsUserDataCount + ctx.CsStartUserData + 1 < 4294967296)
    (hfit : fits s n = true)
    (hsz : n.type = .DescriptorTableVaPtr → n.sizeInDwords = 1)
    (hnever : (assignNode ctx stage i n s).neverCalled = false)
    (h : s.fixedInv ctx) : (assignNode ctx stage i n s).fixedInv ctx := by
  obtain ⟨h1, h2, h3⟩ := h
  unfold fits at hfit
  simp only [decide_eq_true_eq, u32] at hfit
  rw [assignNode_neverCalled] at hnever
  unfold assignNode St.fixedInv
  dsimp only
  cases ht : n.type <;> simp [ht] at hnever hsz ⊢ <;>
    (try rw [hsz]) <;> simp only [u32] <;> refine ⟨?_, ?_, ?_⟩ <;> omega

/-- The branch "User data isn't spilled" clears no failed assertion, and leaves none behind
only for a descriptor table pointer of one dword. -/
theorem assignNode_assertFailed (ctx : Context) (stage : ShaderStage) (i : Nat)
    (n : ResourceNode) (s : St) (h : (assignNode ctx stage i n s).assertFailed = false) :
    s.assertFailed = false ∧ (n.type = .DescriptorTableVaPtr → n.sizeInDwords = 1) := by
  unfold assignNode at h
  dsimp only at h
  cases ht : n.type <;> simp [ht] at h ⊢ <;> first | exact h.1 | exact ⟨h.1.1, h.2⟩

theorem fillDummies_assertFailed (ctx : Context) (off fuel : Nat) (s : St) :
    (fillDummies ctx off fuel s).assertFailed = s.assertFailed :=
  fillDummies_frame St.assertFailed ctx off (fun s => by simp) fuel s

theorem padNode_assertFailed (ctx : Context) (stage : ShaderStage) (n : ResourceNode)
    (s : St) : (padNode ctx stage n s).assertFailed = s.assertFailed := by
  unfold padNode
  split
  · exact fillDummies_assertFailed ..
  · rfl

theorem padNode_fixedInv (ctx : Context) (stage : ShaderStage) (n : ResourceNode) (s : St)
    (hB : ctx.MaxCsUserDataCount + ctx.CsStartUserData + 1 < 4294967296)
    (h : s.fixedInv ctx) : (padNode ctx stage n s).fixedInv ctx := by
  unfold padNode
  split
  · exact fillDummies_fixedInv ctx _ _ s hB h
  · exact h

/-- An iteration of the packing loop keeps the invariant of the fixed layout, as long as no
`LLPC_NEVER_CALLED()` is reached and either the descriptor table pointers have a size of one
dword (`P`) or no assertion has failed. -/
theorem packNode_fixedInv (ctx : Context) (stage : ShaderStage) (i : Nat) (n : ResourceNode)
    (s : St) (P : Prop)
    (hCs : 2 ≤ ctx.CsStartUserData)
    (hB : ctx.MaxCsUserDataCount + ctx.CsStartUserData + 1 < 4294967296)
    (hP : P → n.type = .DescriptorTableVaPtr → n.sizeInDwords = 1)
    (h : s.neverCalled = false → (P ∨ s.assertFailed = false) → s.fixedInv ctx) :
    (packNode ctx stage i n s).neverCalled = false →
      (P ∨ (packNode ctx stage i n s).assertFailed = false) →
      (packNode ctx stage i n s).fixedInv ctx := by
  unfold packNode
  dsimp only
  split_ifs with c1 c2 c3 c4 c5
  · exact h
  · exact h
  · exact h
  · intro hn ha
    have hn0 : s.neverCalled = false := by
      rw [assignNode_neverCalled, padNode_neverCalled] at hn
      simp only [Bool.or_eq_false_iff] at hn
      exact hn.1
    have hsz : n.type = .DescriptorTableVaPtr → n.sizeInDwords = 1 := by
      rcases ha with ha | ha
      · exact hP ha
      · exact (assignNode_assertFailed ctx stage i n _ ha).2
    have ha0 : P ∨ s.assertFailed = false := by
      rcases ha with ha | ha
      · exact Or.inl ha
      · right
        have := (assignNode_assertFailed ctx stage i n _ ha).1
        rwa [padNode_assertFailed] at this
    exact assignNode_fixedInv ctx stage i n _ hCs hB c4 hsz hn
      (padNode_fixedInv ctx stage n s hB (h hn0 ha0))
  · intro hn ha
    simp only [St.setIntf_neverCalled, St.setIntf_assertFailed, padNode_neverCalled,
      padNode_assertFailed] at hn ha
    have := padNode_fixedInv ctx stage n s hB (h hn ha)
    simpa [St.fixedInv] using this
  · intro hn ha
    rw [padNode_neverCalled] at hn
    rw [padNode_assertFailed] at ha
    exact padNode_fixedInv ctx stage n s hB (h hn ha)

theorem forNodes_packNode_fixedInv (ctx : Context) (stage : ShaderStage) (P : Prop)
    (hCs : 2 ≤ ctx.CsStartUserData)
    (hB : ctx.MaxCsUserDataCount + ctx.CsStartUserData + 1 < 4294967296)
    (l : List ResourceNode)
    (hP : P → ∀ n ∈ l, n.type = .DescriptorTableVaPtr → n.sizeInDwords = 1)
    (i : Nat) (s : St)
    (h : s.neverCalled = false → (P ∨ s.assertFailed = false) → s.fixedInv ctx) :
    (forNodes (packNode ctx stage) i l s).neverCalled = false →
      (P ∨ (forNodes (packNode ctx stage) i l s).assertFailed = false) →
      (forNodes (packNode ctx stage) i l s).fixedInv ctx := by
  induction l generalizing i s with
  | nil => exact h
  | cons n rest ih =>
    rw [forNodes]
    exact ih (fun p m hm => hP p m (List.mem_cons_of_mem _ hm)) (i + 1) _
      (packNode_fixedInv ctx stage i n s P hCs hB
        (fun p => hP p n (List.mem_cons_self _ _)) h)

/-- In front of the packing loop of the compute stage the invariant of the fixed layout
holds, unless the stream-out block has reached `LLPC_NEVER_CALLED()`. -/
theorem beforePack_fixedInv (ctx : Context) (intfData : ShaderStage → InterfaceData)
    (inRegMask : Nat) (hCs : 2 ≤ ctx.CsStartUserData)
    (hn : (beforePack ctx .Compute intfData inRegMask).neverCalled = false) :
    (beforePack ctx .Compute intfData inRegMask).fixedInv ctx := by
  have h2 : (decideSpill ctx .Compute
      (afterReserve ctx .Compute intfData inRegMask)).userDataIdx = 2 := by
    rw [(decideSpill_userDataIdx ctx .Compute _).1]
    unfold afterReserve
    rw [(reserveSpecial_flags ctx .Compute _).2.2]
    exact (afterScan_lds ctx .Compute intfData inRegMask).2.1
  have h3 : (decideSpill ctx .Compute
      (afterReserve ctx .Compute intfData inRegMask)).availUserDataCount
      = ctx.MaxCsUserDataCount := by
    simp [decideSpill, useFixedLayout]
  have hact := beforePack_actual ctx .Compute intfData inRegMask
  have hnn : ¬ ((afterReserve ctx .Compute intfData inRegMask).reserveStreamOutTable = true ∧
      (∃ n ∈ ctx.userDataNodes, n.type = .StreamOutTableVaPtr) ∧
      (ShaderStage.Compute = .TessControl ∨ ShaderStage.Compute = .Fragment
        ∨ ShaderStage.Compute = .Compute)) := by
    intro hc
    have := (beforePack_neverCalled ctx .Compute intfData inRegMask).mpr hc
    rw [hn] at this
    cases this
  have he : beforePack ctx .Compute intfData inRegMask
      = decideSpill ctx .Compute (afterReserve ctx .Compute intfData inRegMask) := by
    unfold beforePack allocStreamOut
    rw [decideSpill_reserveStreamOutTable]
    by_cases hr : (afterReserve ctx .Compute intfData inRegMask).reserveStreamOutTable = true
    · rw [if_pos hr]
      apply firstNodeOfType_none
      intro n hmem hty
      exact hnn ⟨hr, ⟨n, hmem, hty⟩, Or.inr (Or.inr rfl)⟩
    · rw [if_neg hr]
  refine ⟨?_, ?_, ?_⟩
  · rw [hact, he, h2]
  · rw [he, h2, h3]
    omega
  · rw [he, h3]

/-- Behind the packing loop of the compute stage the invariant of the fixed layout holds,
when no `LLPC_NEVER_CALLED()` was reached and either every descriptor table pointer has a
size of one dword or no assertion has failed. -/
theorem afterPack_fixedInv (ctx : Context) (intfData : ShaderStage → InterfaceData)
    (inRegMask : Nat) (hCs : 2 ≤ ctx.CsStartUserData)
    (hB : ctx.MaxCsUserDataCount + ctx.CsStartUserData + 1 < 4294967296)
    (hn : (afterPack ctx .Compute intfData inRegMask).neverCalled = false)
    (hsz : (∀ n ∈ ctx.userDataNodes, n.type = .DescriptorTableVaPtr → n.sizeInDwords = 1) ∨
      (afterPack ctx .Compute intfData inRegMask).assertFailed = false) :
    (afterPack ctx .Compute intfData inRegMask).fixedInv ctx := by
  unfold afterPack packNodes at hn hsz ⊢
  exact forNodes_packNode_fixedInv ctx .Compute
    (∀ n ∈ ctx.userDataNodes, n.type = .DescriptorTableVaPtr → n.sizeInDwords = 1)
    hCs hB ctx.userDataNodes (fun p => p) 0 _
    (fun h0 _ => beforePack_fixedInv ctx intfData inRegMask hCs h0) hn hsz

/-! ## The loop that fills the fixed range -/

/-- The loop that fills the fixed range ends with `userDataIdx` one above the range, when it
has as many iterations at hand as slots are left. -/
theorem fillToSpill_userDataIdx (ctx : Context) (fuel : Nat) (s : St)
    (hB : u32 (ctx.MaxCsUserDataCount + ctx.CsStartUserData) + 1 < 4294967296)
    (hle : s.userDataIdx ≤ u32 (ctx.MaxCsUserDataCount + ctx.CsStartUserData) + 1)
    (hfuel : u32 (ctx.MaxCsUserDataCount + ctx.CsStartUserData) + 1 ≤ s.userDataIdx + fuel) :
    (fillToSpill ctx fuel s).userDataIdx
      = u32 (ctx.MaxCsUserDataCount + ctx.CsStartUserData) + 1 := by
  induction fuel generalizing s with
  | zero =>
    rw [fillToSpill]
    omega
  | succ fuel ih =>
    rw [fillToSpill]
    split
    · rename_i hc
      have e : u32 (s.userDataIdx + 1) = s.userDataIdx + 1 := by
        show (s.userDataIdx + 1) % 4294967296 = s.userDataIdx + 1
        omega
      apply ih
      · simp only [St.userDataNext_userDataIdx, St.inRegNext_userDataIdx,
          St.push_userDataIdx, e]
        omega
      · simp only [St.userDataNext_userDataIdx, St.inRegNext_userDataIdx,
          St.push_userDataIdx, e]
        omega
    · omega

/-- Further iterations at hand do not change the result of the loop that fills the fixed
range: the loop has ended by its condition. -/
theorem fillToSpill_enough (ctx : Context) (fuel extra : Nat) (s : St)
    (hB : u32 (ctx.MaxCsUserDataCount + ctx.CsStartUserData) + 1 < 4294967296)
    (hfuel : u32 (ctx.MaxCsUserDataCount + ctx.CsStartUserData) + 1 ≤ s.userDataIdx + fuel) :
    fillToSpill ctx (fuel + extra) s = fillToSpill ctx fuel s := by
  induction fuel generalizing s with
  | zero =>
    cases extra with
    | zero => rfl
    | succ e =>
      rw [Nat.zero_add, fillToSpill, fillToSpill]
      rw [if_neg (by omega)]
  | succ fuel ih =>
    rw [show fuel + 1 + extra = (fuel + extra) + 1 by omega, fillToSpill, fillToSpill]
    split
    · rename_i hc
      have e : u32 (s.userDataIdx + 1) = s.userDataIdx + 1 := by
        show (s.userDataIdx + 1) % 4294967296 = s.userDataIdx + 1
        omega
      apply ih
      simp only [St.userDataNext_userDataIdx, St.inRegNext_userDataIdx,
        St.push_userDataIdx, e]
      omega
    · rfl

/-! ## The pointer to the number of workgroups -/

/-- In a compute run without failure up to the spill table block, `userDataIdx` behind that
block is at most one above the fixed range. -/
theorem afterFixedSpill_userDataIdx_le (ctx : Context)
    (intfData : ShaderStage → InterfaceData) (inRegMask : Nat)
    (hCs : 2 ≤ ctx.CsStartUserData)
    (hB : ctx.MaxCsUserDataCount + ctx.CsStartUserData + 1 < 4294967296)
    (hok : (afterPack ctx .Compute intfData inRegMask).ok = true) :
    (afterFixedSpill ctx .Compute intfData inRegMask).userDataIdx
      ≤ ctx.MaxCsUserDataCount + ctx.CsStartUserData + 1 := by
  have hflags : (afterPack ctx .Compute intfData inRegMask).neverCalled = false ∧
      (afterPack ctx .Compute intfData inRegMask).assertFailed = false := by
    unfold St.ok at hok
    cases h1 : (afterPack ctx .Compute intfData inRegMask).neverCalled <;>
      cases h2 : (afterPack ctx .Compute intfData inRegMask).assertFailed <;>
      simp [h1, h2] at hok ⊢
  obtain ⟨-, h2, h3⟩ :=
    afterPack_fixedInv ctx intfData inRegMask hCs hB hflags.1 (Or.inr hflags.2)
  have hu : u32 (ctx.MaxCsUserDataCount + ctx.CsStartUserData)
      = ctx.MaxCsUserDataCount + ctx.CsStartUserData := by
    show (ctx.MaxCsUserDataCount + ctx.CsStartUserData) % 4294967296 = _
    omega
  rw [h3] at h2
  unfold afterFixedSpill fixedSpill
  split
  · dsimp only
    simp only [St.record_userDataIdx]
    rw [fillToSpill_userDataIdx ctx _ _ (by rw [hu]; omega)
      (by simp only [St.assert_userDataIdx]; rw [hu]; omega)
      (by simp only [St.assert_userDataIdx]; omega), hu]
  · omega

/-- The case of the compute stage in the second `switch`, with the emulation of the number
of workgroups: a dummy argument when `userDataIdx` is odd, then the pointer, recorded at the
even index and followed by two slots. -/
theorem specialUserData_numWorkgroups (ctx : Context) (s : St)
    (hnum : (ctx.resUsage .Compute).builtInUsage.cs.numWorkgroups = true) :
    (specialUserData ctx .Compute s).argTys
        = s.argTys ++ (if s.userDataIdx % 2 ≠ 0 then [ArgTy.Int32Ty] else [])
          ++ [ArgTy.PtrInt32x3Const] ∧
      ((specialUserData ctx .Compute s).intfData .Compute).userDataUsage.cs.numWorkgroupsPtr
        = (if s.userDataIdx % 2 ≠ 0 then u32 (s.userDataIdx + 1) else s.userDataIdx) ∧
      (specialUserData ctx .Compute s).userDataIdx
        = u32 ((if s.userDataIdx % 2 ≠ 0 then u32 (s.userDataIdx + 1) else s.userDataIdx)
          + 2) := by
  by_cases hodd : s.userDataIdx % 2 ≠ 0
  · simp [specialUserData, St.when, hnum, hodd, St.record_intfData_apply]
  · simp [specialUserData, St.when, hnum, hodd, St.record_intfData_apply]

/-- The block behind the second `switch` leaves `userDataIdx` alone in the compute stage. -/
theorem greedySpill_compute_userDataIdx (s : St) :
    (greedySpill .Compute s).userDataIdx = s.userDataIdx := by
  simp [greedySpill, St.when, useFixedLayout]

/-! ## C31: the pointer to the number of workgroups in the compute stage -/

/-- C31: in a compute run that returns with the emulation of the number of workgroups
enabled (for constants with `2 ≤ CsStartUserData` and a sum that is a `uint32_t` four below
the maximum), the user data index recorded in `userDataUsage.cs.numWorkgroupsPtr` is even: it
is the running `userDataIdx` behind the spill table block, rounded up to an even number; one
argument of one dword is inserted in front of the pointer exactly when that running index is
odd; the pointer takes two slots; and `userDataCount` is the recorded index plus 2. -/
theorem workgroup_count_pointer_is_even (ctx : Context)
    (intfData : ShaderStage → InterfaceData) (inRegMask : Nat) (r : St)
    (hnum : (ctx.resUsage .Compute).builtInUsage.cs.numWorkgroups = true)
    (hCs : 2 ≤ ctx.CsStartUserData)
    (hB : ctx.MaxCsUserDataCount + ctx.CsStartUserData + 4 < 4294967296)
    (hr : GenerateEntryPointType ctx .Compute intfData inRegMask = some r) :
    (r.intfData .Compute).userDataUsage.cs.numWorkgroupsPtr % 2 = 0 ∧
      (r.intfData .Compute).userDataUsage.cs.numWorkgroupsPtr
        = (afterFixedSpill ctx .Compute intfData inRegMask).userDataIdx
          + (afterFixedSpill ctx .Compute intfData inRegMask).userDataIdx % 2 ∧
      (afterSpecial ctx .Compute intfData inRegMask).argTys
        = (afterFixedSpill ctx .Compute intfData inRegMask).argTys
          ++ (if (afterFixedSpill ctx .Compute intfData inRegMask).userDataIdx % 2 ≠ 0
              then [ArgTy.Int32Ty] else [])
          ++ [ArgTy.PtrInt32x3Const] ∧
      (afterSpecial ctx .Compute intfData inRegMask).userDataIdx
        = (r.intfData .Compute).userDataUsage.cs.numWorkgroupsPtr + 2 ∧
      (r.intfData .Compute).userDataCount
        = (r.intfData .Compute).userDataUsage.cs.numWorkgroupsPtr + 2 := by
  obtain ⟨hrun, hok⟩ := GenerateEntryPointType_some ctx .Compute intfData inRegMask r hr
  obtain ⟨-, ⟨hok2, -, -⟩, -⟩ := run_points ctx .Compute intfData inRegMask hok
  have hle := afterFixedSpill_userDataIdx_le ctx intfData inRegMask hCs (by omega) hok2
  obtain ⟨hA, hP, hI⟩ :=
    specialUserData_numWorkgroups ctx (afterFixedSpill ctx .Compute intfData inRegMask) hnum
  have hf : (r.intfData .Compute).userDataUsage.cs.numWorkgroupsPtr
      = ((afterSpecial ctx .Compute intfData inRegMask).intfData
          .Compute).userDataUsage.cs.numWorkgroupsPtr := by
    rw [hrun]
    exact frame_after_special ctx .Compute intfData inRegMask .Compute
      .userDataUsage_cs_numWorkgroupsPtr rfl
  have hc : (r.intfData .Compute).userDataCount
      = (afterSpecial ctx .Compute intfData inRegMask).userDataIdx := by
    rw [hrun, run_userDataCount]
    exact greedySpill_compute_userDataIdx _
  have hp : ((afterSpecial ctx .Compute intfData inRegMask).intfData
        .Compute).userDataUsage.cs.numWorkgroupsPtr
      = (afterFixedSpill ctx .Compute intfData inRegMask).userDataIdx
        + (afterFixedSpill ctx .Compute intfData inRegMask).userDataIdx % 2 := by
    unfold afterSpecial
    rw [hP]
    split
    · unfold u32
      omega
    · omega
  have hi : (afterSpecial ctx .Compute intfData inRegMask).userDataIdx
      = (afterFixedSpill ctx .Compute intfData inRegMask).userDataIdx
        + (afterFixedSpill ctx .Compute intfData inRegMask).userDataIdx % 2 + 2 := by
    unfold afterSpecial
    rw [hI]
    split
    · unfold u32
      omega
    · unfold u32
      omega
  refine ⟨?_, ?_, hA, ?_, ?_⟩
  · rw [hf, hp]
    omega
  · rw [hf, hp]
  · rw [hf, hp, hi]
  · rw [hc, hf, hp, hi]

/-- A compute shader with a buffer of three dwords and the emulation enabled: the running
index is 5, a dummy argument takes slot 5, the pointer is recorded at slot 6, and
`userDataCount` is 8. -/
theorem workgroup_count_pointer_is_even_witness :
    (afterFixedSpill
        { plainCtx 16 32 [bufferNode 3 0 0] [(0, 0)] with
          resUsage := fun _ =>
            { plainUsage [(0, 0)] with
              builtInUsage := ⟨⟨false, false, false, false, false, false⟩, ⟨true⟩⟩ } }
        .Compute (fun _ => zeroIntf) 0).userDataIdx = 5 ∧
      ((runEntryPointType
        { plainCtx 16 32 [bufferNode 3 0 0] [(0, 0)] with
          resUsage := fun _ =>
            { plainUsage [(0, 0)] with
              builtInUsage := ⟨⟨false, false, false, false, false, false⟩, ⟨true⟩⟩ } }
        .Compute (fun _ => zeroIntf) 0).intfData .Compute).userDataUsage.cs.numWorkgroupsPtr
        = 6 ∧
      ((runEntryPointType
        { plainCtx 16 32 [bufferNode 3 0 0] [(0, 0)] with
          resUsage := fun _ =>
            { plainUsage [(0, 0)] with
              builtInUsage := ⟨⟨false, false, false, false, false, false⟩, ⟨true⟩⟩ } }
        .Compute (fun _ => zeroIntf) 0).intfData .Compute).userDataCount = 8 ∧
      ((runEntryPointType
        { plainCtx 16 32 [bufferNode 3 0 0] [(0, 0)] with
          resUsage := fun _ =>
            { plainUsage [(0, 0)] with
              builtInUsage := ⟨⟨false, false, false, false, false, false⟩, ⟨true⟩⟩ } }
        .Compute (fun _ => zeroIntf) 0).intfData .Compute).userDataUsage.cs.numWorkgroupsPtr
          % 2 = 0 :=
  ⟨by decide, by decide, by decide,
    (workgroup_count_pointer_is_even
      { plainCtx 16 32 [bufferNode 3 0 0] [(0, 0)] with
        resUsage := fun _ =>
          { plainUsage [(0, 0)] with
            builtInUsage := ⟨⟨false, false, false, false, false, false⟩, ⟨true⟩⟩ } }
      (fun _ => zeroIntf) 0 _ rfl (by decide) (by decide)
      (GenerateEntryPointType_of_ok _ _ _ _ (by decide))).1⟩

/-! ## C32: the reservation of the stream-out table -/

/-- C32, as the code has it: for a stage in front of the fragment stage that is in the stage
mask, the test `(stageMask & (fragmentBit - stageBit)) == stageBit` holds exactly when no
stage strictly between the current stage and the fragment stage is in the mask; and for a
graphics stage in the stage mask and a node list that contains a `StreamOutTableVaPtr` node,
`reserveStreamOutTable` is computed if and only if the current stage is the last stage in
front of the fragment stage or, on GFX9 and later, its second stage is the last stage in
front of the fragment stage and is not the tessellation control stage. -/
theorem stream_out_reservation_rule (ctx : Context) (stage : ShaderStage)
    (intfData : ShaderStage → InterfaceData) (inRegMask : Nat)
    (hin : inStageMask ctx stage = true)
    (hnode : ∃ n ∈ ctx.userDataNodes, n.type = .StreamOutTableVaPtr) :
    (stage.toNat < ShaderStage.Fragment.toNat →
        ((ctx.stageMask &&& sub32 (ShaderStageToMask .Fragment) (ShaderStageToMask stage))
            = ShaderStageToMask stage ↔ noStageBetween ctx stage = true)) ∧
      (stage ≠ .Compute →
        ((afterReserve ctx stage intfData inRegMask).reserveStreamOutTable = true ↔
          (lastPreFragment ctx stage = true ∨
            (ctx.gfxIpMajor ≥ 9 ∧ ∃ c, shaderStage2 ctx stage = some c ∧ c ≠ .TessControl ∧
              lastPreFragment ctx c = true)))) :=
  ⟨fun hpre => lastStage_test ctx stage hpre hin,
    fun hgr => (afterReserve_streamOutTable ctx stage intfData inRegMask hnode).trans
      (streamOutTable_condition ctx stage hin hgr)⟩

/-- On GFX9 with a vertex, a tessellation evaluation and a fragment stage, the tessellation
evaluation stage is the last stage in front of the fragment stage and computes the
reservation. -/
theorem stream_out_reservation_rule_witness :
    (afterReserve
        { plainCtx 16 21 [.mk .StreamOutTableVaPtr 1 0 0 0 []] [] with gfxIpMajor := 9 }
        .TessEval (fun _ => zeroIntf) 0).reserveStreamOutTable = true ∧
      lastPreFragment
        { plainCtx 16 21 [.mk .StreamOutTableVaPtr 1 0 0 0 []] [] with gfxIpMajor := 9 }
        .TessEval = true ∧
      ((ShaderStage.TessEval.toNat < ShaderStage.Fragment.toNat →
          (((21 : Nat) &&& sub32 (ShaderStageToMask .Fragment) (ShaderStageToMask .TessEval))
              = ShaderStageToMask .TessEval ↔
            noStageBetween
              { plainCtx 16 21 [.mk .StreamOutTableVaPtr 1 0 0 0 []] [] with gfxIpMajor := 9 }
              .TessEval = true)) ∧
        (ShaderStage.TessEval ≠ .Compute →
          ((afterReserve
              { plainCtx 16 21 [.mk .StreamOutTableVaPtr 1 0 0 0 []] [] with gfxIpMajor := 9 }
              .TessEval (fun _ => zeroIntf) 0).reserveStreamOutTable = true ↔
            (lastPreFragment
                { plainCtx 16 21 [.mk .StreamOutTableVaPtr 1 0 0 0 []] [] with gfxIpMajor := 9 }
                .TessEval = true ∨
              ((9 : Nat) ≥ 9 ∧ ∃ c,
                shaderStage2
                  { plainCtx 16 21 [.mk .StreamOutTableVaPtr 1 0 0 0 []] [] with gfxIpMajor := 9 }
                  .TessEval = some c ∧ c ≠ .TessControl ∧
                lastPreFragment
                  { plainCtx 16 21 [.mk .StreamOutTableVaPtr 1 0 0 0 []] [] with gfxIpMajor := 9 }
                  c = true))))) :=
  ⟨by decide, by decide,
    stream_out_reservation_rule
      { plainCtx 16 21 [.mk .StreamOutTableVaPtr 1 0 0 0 []] [] with gfxIpMajor := 9 }
      .TessEval (fun _ => zeroIntf) 0 (by decide) ⟨_, List.mem_cons_self _ _, rfl⟩⟩

/-- The claim as worded fails at two inputs. On GFX9 with a vertex, a tessellation control
and a fragment stage and a `StreamOutTableVaPtr` node, the vertex stage is in the mask and
its second stage, the tessellation control stage, is the last stage in front of the fragment
stage, yet the vertex stage computes no reservation. And for the fragment stage of a
pipeline of a vertex and a fragment stage, no stage lies strictly between the current stage
and the fragment stage, yet the test `(stageMask & (fragmentBit - stageBit)) == stageBit`
is false. -/
theorem stream_out_reservation_rule_counterexample :
    (inStageMask
          { plainCtx 16 19 [.mk .StreamOutTableVaPtr 1 0 0 0 []] [] with gfxIpMajor := 9 }
          .Vertex = true ∧
        shaderStage2
          { plainCtx 16 19 [.mk .StreamOutTableVaPtr 1 0 0 0 []] [] with gfxIpMajor := 9 }
          .Vertex = some .TessControl ∧
        lastPreFragment
          { plainCtx 16 19 [.mk .StreamOutTableVaPtr 1 0 0 0 []] [] with gfxIpMajor := 9 }
          .TessControl = true ∧
        (afterReserve
          { plainCtx 16 19 [.mk .StreamOutTableVaPtr 1 0 0 0 []] [] with gfxIpMajor := 9 }
          .Vertex (fun _ => zeroIntf) 0).reserveStreamOutTable = false ∧
        (runEntryPointType
          { plainCtx 16 19 [.mk .StreamOutTableVaPtr 1 0 0 0 []] [] with gfxIpMajor := 9 }
          .Vertex (fun _ => zeroIntf) 0).reserveStreamOutTable = false) ∧
      (inStageMask (plainCtx 16 17 [.mk .StreamOutTableVaPtr 1 0 0 0 []] []) .Fragment = true ∧
        noStageBetween (plainCtx 16 17 [.mk .StreamOutTableVaPtr 1 0 0 0 []] []) .Fragment
          = true ∧
        ((plainCtx 16 17 [.mk .StreamOutTableVaPtr 1 0 0 0 []] []).stageMask
            &&& sub32 (ShaderStageToMask .Fragment) (ShaderStageToMask .Fragment))
          ≠ ShaderStageToMask .Fragment) := by
  decide

/-! ## C33: the reservation of the vertex buffer table -/

/-- C33: for a stage that is in the stage mask and a node list that contains an
`IndirectUserDataVaPtr` node, `reserveVbTable` is computed if and only if the current stage
is the vertex stage or, on GFX9 and later, the second stage resolved for the current stage by
`IsResourceNodeActive` is the vertex stage. -/
theorem vb_table_reservation_rule (ctx : Context) (stage : ShaderStage)
    (intfData : ShaderStage → InterfaceData) (inRegMask : Nat)
    (hin : inStageMask ctx stage = true)
    (hnode : ∃ n ∈ ctx.userDataNodes, n.type = .IndirectUserDataVaPtr) :
    (afterReserve ctx stage intfData inRegMask).reserveVbTable = true ↔
      (stage = .Vertex ∨ (ctx.gfxIpMajor ≥ 9 ∧ shaderStage2 ctx stage = some .Vertex)) :=
  (afterReserve_vbTable ctx stage intfData inRegMask hnode).trans
    (vbTable_condition ctx stage hin)

/-- On GFX9 with a vertex, a geometry and a fragment stage, the geometry stage, whose second
stage is the vertex stage, computes the reservation. -/
theorem vb_table_reservation_rule_witness :
    (afterReserve
        { plainCtx 16 25 [.mk .IndirectUserDataVaPtr 1 0 0 0 []] [] with gfxIpMajor := 9 }
        .Geometry (fun _ => zeroIntf) 0).reserveVbTable = true ∧
      ((afterReserve
          { plainCtx 16 25 [.mk .IndirectUserDataVaPtr 1 0 0 0 []] [] with gfxIpMajor := 9 }
          .Geometry (fun _ => zeroIntf) 0).reserveVbTable = true ↔
        (ShaderStage.Geometry = .Vertex ∨
          ((9 : Nat) ≥ 9 ∧
            shaderStage2
              { plainCtx 16 25 [.mk .IndirectUserDataVaPtr 1 0 0 0 []] [] with gfxIpMajor := 9 }
              .Geometry = some .Vertex))) :=
  ⟨by decide,
    vb_table_reservation_rule
      { plainCtx 16 25 [.mk .IndirectUserDataVaPtr 1 0 0 0 []] [] with gfxIpMajor := 9 }
      .Geometry (fun _ => zeroIntf) 0 (by decide) ⟨_, List.mem_cons_self _ _, rfl⟩⟩

/-! ## C34: the second stage of a merged shader is resolved symmetrically -/

/-- C34: for every generation and stage mask, if the stage `s` is in the stage mask and the
second stage resolved for it is `c`, then the second stage resolved for `c` under the same
mask is `s`. -/
theorem companion_is_involution (ctx : Context) (s c : ShaderStage)
    (hin : inStageMask ctx s = true) (hc : shaderStage2 ctx s = some c) :
    shaderStage2 ctx c = some s :=
  shaderStage2_involutive ctx s c hin hc

/-- On GFX9 with a vertex, a geometry and a fragment stage, geometry is the second stage of
vertex and vertex is the second stage of geometry. -/
theorem companion_is_involution_witness :
    inStageMask { plainCtx 16 25 [] [] with gfxIpMajor := 9 } .Vertex = true ∧
      shaderStage2 { plainCtx 16 25 [] [] with gfxIpMajor := 9 } .Vertex = some .Geometry ∧
      shaderStage2 { plainCtx 16 25 [] [] with gfxIpMajor := 9 } .Geometry = some .Vertex :=
  ⟨by decide, by decide,
    companion_is_involution { plainCtx 16 25 [] [] with gfxIpMajor := 9 } .Vertex .Geometry
      (by decide) (by decide)⟩

/-! ## C35: the two stages of a merged shader see the same active nodes -/

/-- C35: if the stage `s` is in the stage mask and the second stage resolved for it is `c`,
then for every resource node and both values of `isRootNode`, `IsResourceNodeActive` returns
for the stage `s` what it returns for the stage `c`. -/
theorem merged_pair_agrees_on_activity (ctx : Context) (s c : ShaderStage)
    (hin : inStageMask ctx s = true) (hc : shaderStage2 ctx s = some c)
    (pNode : ResourceNode) (isRootNode : Bool) :
    IsResourceNodeActive ctx s pNode isRootNode = IsResourceNodeActive ctx c pNode isRootNode :=
  active_of_companions ctx s c hc (shaderStage2_involutive ctx s c hin hc) pNode isRootNode

/-- On GFX9 with a vertex, a geometry and a fragment stage, a buffer that only the vertex
shader references is active for the vertex stage and for the geometry stage. -/
theorem merged_pair_agrees_on_activity_witness :
    IsResourceNodeActive
        { plainCtx 16 25 [bufferNode 4 0 0] [] with
          gfxIpMajor := 9,
          resUsage := fun t => if t = .Vertex then plainUsage [(0, 0)] else plainUsage [] }
        .Vertex (bufferNode 4 0 0) true = true ∧
      IsResourceNodeActive
          { plainCtx 16 25 [bufferNode 4 0 0] [] with
            gfxIpMajor := 9,
            resUsage := fun t => if t = .Vertex then plainUsage [(0, 0)] else plainUsage [] }
          .Vertex (bufferNode 4 0 0) true
        = IsResourceNodeActive
          { plainCtx 16 25 [bufferNode 4 0 0] [] with
            gfxIpMajor := 9,
            resUsage := fun t => if t = .Vertex then plainUsage [(0, 0)] else plainUsage [] }
          .Geometry (bufferNode 4 0 0) true :=
  ⟨by decide,
    merged_pair_agrees_on_activity
      { plainCtx 16 25 [bufferNode 4 0 0] [] with
        gfxIpMajor := 9,
        resUsage := fun t => if t = .Vertex then plainUsage [(0, 0)] else plainUsage [] }
      .Vertex .Geometry (by decide) (by decide) (bufferNode 4 0 0) true⟩

/-! ## C36: the user data count and the registers of the device -/

/-- C36: the final `userDataCount` exceeds `maxUserDataCount` on two runs that return, with no
slot reserved for the stage and 16 user data registers on GFX8. For the geometry stage of a
pipeline of a vertex, a geometry and a fragment stage with a `StreamOutTableVaPtr` node and
a referenced buffer of 14 dwords, the stream-out register takes slot 2 without a subtraction
from the budget, the buffer fits the budget of 14 slots, and `userDataCount` is 17. For the
tessellation control stage of a pipeline with tessellation and an `IndirectUserDataVaPtr`
node, the vertex buffer table pointer is added without a reservation behind the buffer of 14
dwords, and `userDataCount` is 17. -/
theorem user_data_count_above_registers :
    (reservedSlots
          (plainCtx 16 25 [.mk .StreamOutTableVaPtr 1 0 0 0 [], bufferNode 14 1 0] [(0, 0)])
          .Geometry (fun _ => zeroIntf) 0 = 0 ∧
        (GenerateEntryPointType
          (plainCtx 16 25 [.mk .StreamOutTableVaPtr 1 0 0 0 [], bufferNode 14 1 0] [(0, 0)])
          .Geometry (fun _ => zeroIntf) 0).isSome = true ∧
        (runEntryPointType
          (plainCtx 16 25 [.mk .StreamOutTableVaPtr 1 0 0 0 [], bufferNode 14 1 0] [(0, 0)])
          .Geometry (fun _ => zeroIntf) 0).needSpill = false ∧
        ((runEntryPointType
          (plainCtx 16 25 [.mk .StreamOutTableVaPtr 1 0 0 0 [], bufferNode 14 1 0] [(0, 0)])
          .Geometry (fun _ => zeroIntf) 0).intfData .Geometry).userDataCount = 17) ∧
      (reservedSlots
          (plainCtx 16 23 [.mk .IndirectUserDataVaPtr 1 0 0 0 [], bufferNode 14 1 0] [(0, 0)])
          .TessControl (fun _ => zeroIntf) 0 = 0 ∧
        (GenerateEntryPointType
          (plainCtx 16 23 [.mk .IndirectUserDataVaPtr 1 0 0 0 [], bufferNode 14 1 0] [(0, 0)])
          .TessControl (fun _ => zeroIntf) 0).isSome = true ∧
        (runEntryPointType
          (plainCtx 16 23 [.mk .IndirectUserDataVaPtr 1 0 0 0 [], bufferNode 14 1 0] [(0, 0)])
          .TessControl (fun _ => zeroIntf) 0).needSpill = false ∧
        ((runEntryPointType
          (plainCtx 16 23 [.mk .IndirectUserDataVaPtr 1 0 0 0 [], bufferNode 14 1 0] [(0, 0)])
          .TessControl (fun _ => zeroIntf) 0).intfData .TessControl).userDataCount = 17) := by
  decide

/-! ## C37: every user data argument is marked "inreg" -/

/-- C37: on every run that returns, for every incoming value of the mask, each argument
emitted in front of the system values (the two leading arguments, the stream-out table
pointer, the dummy arguments, the arguments of the resource nodes, the special user data and
the spill table pointer) has its bit set in the final `*pInRegMask`; these arguments are the
first arguments of the final list, and the final argument index is the number of argument
types emitted. -/
theorem user_data_arguments_are_inreg (ctx : Context) (stage : ShaderStage)
    (intfData : ShaderStage → InterfaceData) (inRegMask : Nat) (r : St)
    (hr : GenerateEntryPointType ctx stage intfData inRegMask = some r) :
    (∀ j, j < (afterUserData ctx stage intfData inRegMask).argTys.length →
        r.inRegMask.testBit j = true) ∧
      (afterUserData ctx stage intfData inRegMask).argTys <+: r.argTys ∧
      r.argIdx = r.argTys.length := by
  obtain ⟨hrun, hok⟩ := GenerateEntryPointType_some ctx stage intfData inRegMask r hr
  obtain ⟨-, -, -, -, ⟨hok5, hlen5, -⟩, hlen, -⟩ := run_points ctx stage intfData inRegMask hok
  have hflag := flag_afterUserData ctx stage intfData inRegMask hok5
  have hkeep : St.keepsBits (afterUserData ctx stage intfData inRegMask)
      (runEntryPointType ctx stage intfData inRegMask) :=
    keep_systemValues ctx stage (keep_refl _)
  subst hrun
  refine ⟨fun j hj => hkeep j (hflag j ?_), (run_prefixes ctx stage intfData inRegMask).2.2.2.2,
    hlen⟩
  rw [hlen5]
  exact hj

/-- A vertex shader with a vertex buffer table, a descriptor table and a buffer, run with an
incoming mask of zero: the five user data arguments are marked. -/
theorem user_data_arguments_are_inreg_witness :
    (afterUserData
        (plainCtx 16 17
          [.mk .IndirectUserDataVaPtr 1 0 0 0 [],
            .mk .DescriptorTableVaPtr 1 1 0 0 [bufferNode 4 0 0], bufferNode 4 2 1]
          [(0, 0), (0, 1)])
        .Vertex (fun _ => zeroIntf) 0).argTys.length = 5 ∧
      ((∀ j, j < (afterUserData
            (plainCtx 16 17
              [.mk .IndirectUserDataVaPtr 1 0 0 0 [],
                .mk .DescriptorTableVaPtr 1 1 0 0 [bufferNode 4 0 0], bufferNode 4 2 1]
              [(0, 0), (0, 1)])
            .Vertex (fun _ => zeroIntf) 0).argTys.length →
          (runEntryPointType
            (plainCtx 16 17
              [.mk .IndirectUserDataVaPtr 1 0 0 0 [],
                .mk .DescriptorTableVaPtr 1 1 0 0 [bufferNode 4 0 0], bufferNode 4 2 1]
              [(0, 0), (0, 1)])
            .Vertex (fun _ => zeroIntf) 0).inRegMask.testBit j = true) ∧
        (afterUserData
            (plainCtx 16 17
              [.mk .IndirectUserDataVaPtr 1 0 0 0 [],
                .mk .DescriptorTableVaPtr 1 1 0 0 [bufferNode 4 0 0], bufferNode 4 2 1]
              [(0, 0), (0, 1)])
            .Vertex (fun _ => zeroIntf) 0).argTys
          <+: (runEntryPointType
            (plainCtx 16 17
              [.mk .IndirectUserDataVaPtr 1 0 0 0 [],
                .mk .DescriptorTableVaPtr 1 1 0 0 [bufferNode 4 0 0], bufferNode 4 2 1]
              [(0, 0), (0, 1)])
            .Vertex (fun _ => zeroIntf) 0).argTys ∧
        (runEntryPointType
            (plainCtx 16 17
              [.mk .IndirectUserDataVaPtr 1 0 0 0 [],
                .mk .DescriptorTableVaPtr 1 1 0 0 [bufferNode 4 0 0], bufferNode 4 2 1]
              [(0, 0), (0, 1)])
            .Vertex (fun _ => zeroIntf) 0).argIdx
          = (runEntryPointType
            (plainCtx 16 17
              [.mk .IndirectUserDataVaPtr 1 0 0 0 [],
                .mk .DescriptorTableVaPtr 1 1 0 0 [bufferNode 4 0 0], bufferNode 4 2 1]
              [(0, 0), (0, 1)])
            .Vertex (fun _ => zeroIntf) 0).argTys.length) :=
  ⟨by decide,
    user_data_arguments_are_inreg _ _ _ _ _
      (GenerateEntryPointType_of_ok _ _ _ _ (by decide))⟩

/-! ## C38: the user data index of the fixed layout at the spill table -/

/-- C38, as the code has it: in the fixed layout of the compute stage, when every
`DescriptorTableVaPtr` node has a size of one dword and the run has not reached
`LLPC_NEVER_CALLED()` up to the end of the packing loop, `userDataIdx` is at most
`CsStartUserData + MaxCsUserDataCount` behind the packing loop, the condition of the
assertion `userDataIdx <= MaxCsUserDataCount + CsStartUserData` holds where the assertion
stands, and the loop that follows ends by its condition with `userDataIdx` one above that
bound: further iterations at hand do not change its result. The constants satisfy
`2 ≤ CsStartUserData` and their sum is a `uint32_t` below the maximum. -/
theorem fixed_layout_index_bound (ctx : Context) (intfData : ShaderStage → InterfaceData)
    (inRegMask : Nat) (hCs : 2 ≤ ctx.CsStartUserData)
    (hB : ctx.MaxCsUserDataCount + ctx.CsStartUserData + 1 < 4294967296)
    (hsize : ∀ n ∈ ctx.userDataNodes, n.type = .DescriptorTableVaPtr → n.sizeInDwords = 1)
    (hnever : (afterPack ctx .Compute intfData inRegMask).neverCalled = false) :
    (afterPack ctx .Compute intfData inRegMask).userDataIdx
        ≤ ctx.CsStartUserData + ctx.MaxCsUserDataCount ∧
      decide (((afterPack ctx .Compute intfData inRegMask).assert
          (fun s => decide ((s.intfData .Compute).spillTable.offsetInDwords
            ≠ ctx.InvalidValue))).userDataIdx
          ≤ u32 (ctx.MaxCsUserDataCount + ctx.CsStartUserData)) = true ∧
      (fillToSpill ctx
          (u32 (ctx.MaxCsUserDataCount + ctx.CsStartUserData) + 1
            - (((afterPack ctx .Compute intfData inRegMask).assert
                (fun s => decide ((s.intfData .Compute).spillTable.offsetInDwords
                  ≠ ctx.InvalidValue))).assert
                (fun s => decide (s.userDataIdx
                  ≤ u32 (ctx.MaxCsUserDataCount + ctx.CsStartUserData)))).userDataIdx)
          (((afterPack ctx .Compute intfData inRegMask).assert
            (fun s => decide ((s.intfData .Compute).spillTable.offsetInDwords
              ≠ ctx.InvalidValue))).assert
            (fun s => decide (s.userDataIdx
              ≤ u32 (ctx.MaxCsUserDataCount + ctx.CsStartUserData))))).userDataIdx
        = ctx.MaxCsUserDataCount + ctx.CsStartUserData + 1 ∧
      ∀ extra,
        fillToSpill ctx
            (u32 (ctx.MaxCsUserDataCount + ctx.CsStartUserData) + 1
              - (((afterPack ctx .Compute intfData inRegMask).assert
                  (fun s => decide ((s.intfData .Compute).spillTable.offsetInDwords
                    ≠ ctx.InvalidValue))).assert
                  (fun s => decide (s.userDataIdx
                    ≤ u32 (ctx.MaxCsUserDataCount + ctx.CsStartUserData)))).userDataIdx
              + extra)
            (((afterPack ctx .Compute intfData inRegMask).assert
              (fun s => decide ((s.intfData .Compute).spillTable.offsetInDwords
                ≠ ctx.InvalidValue))).assert
              (fun s => decide (s.userDataIdx
                ≤ u32 (ctx.MaxCsUserDataCount + ctx.CsStartUserData))))
          = fillToSpill ctx
            (u32 (ctx.MaxCsUserDataCount + ctx.CsStartUserData) + 1
              - (((afterPack ctx .Compute intfData inRegMask).assert
                  (fun s => decide ((s.intfData .Compute).spillTable.offsetInDwords
                    ≠ ctx.InvalidValue))).assert
                  (fun s => decide (s.userDataIdx
                    ≤ u32 (ctx.MaxCsUserDataCount + ctx.CsStartUserData)))).userDataIdx)
            (((afterPack ctx .Compute intfData inRegMask).assert
              (fun s => decide ((s.intfData .Compute).spillTable.offsetInDwords
                ≠ ctx.InvalidValue))).assert
              (fun s => decide (s.userDataIdx
                ≤ u32 (ctx.MaxCsUserDataCount + ctx.CsStartUserData)))) := by
  obtain ⟨h1, h2, h3⟩ :=
    afterPack_fixedInv ctx intfData inRegMask hCs hB hnever (Or.inl hsize)
  have hu : u32 (ctx.MaxCsUserDataCount + ctx.CsStartUserData)
      = ctx.MaxCsUserDataCount + ctx.CsStartUserData := by
    show (ctx.MaxCsUserDataCount + ctx.CsStartUserData) % 4294967296 = _
    omega
  have hle : (afterPack ctx .Compute intfData inRegMask).userDataIdx
      ≤ ctx.MaxCsUserDataCount + ctx.CsStartUserData := by
    rw [h3] at h2
    exact h2
  simp only [St.assert_userDataIdx]
  refine ⟨by omega, ?_, ?_, ?_⟩
  · rw [hu]
    exact decide_eq_true hle
  · rw [fillToSpill_userDataIdx ctx _ _ (by rw [hu]; omega)
      (by simp only [St.assert_userDataIdx]; rw [hu]; omega)
      (by simp only [St.assert_userDataIdx]; omega), hu]
  · intro extra
    exact fillToSpill_enough ctx _ extra _ (by rw [hu]; omega)
      (by simp only [St.assert_userDataIdx]; omega)

/-- A compute shader with a descriptor table pointer of one dword and a buffer of twelve
dwords that does not fit: `userDataIdx` is 3 behind the packing loop and 13 behind the loop
that fills the fixed range. -/
theorem fixed_layout_index_bound_witness :
    (afterPack
        (plainCtx 16 32
          [.mk .DescriptorTableVaPtr 1 0 0 0 [bufferNode 4 0 0], bufferNode 12 1 1]
          [(0, 0), (0, 1)])
        .Compute (fun _ => zeroIntf) 0).userDataIdx = 3 ∧
      (afterPack
        (plainCtx 16 32
          [.mk .DescriptorTableVaPtr 1 0 0 0 [bufferNode 4 0 0], bufferNode 12 1 1]
          [(0, 0), (0, 1)])
        .Compute (fun _ => zeroIntf) 0).needSpill = true ∧
      (afterFixedSpill
        (plainCtx 16 32
          [.mk .DescriptorTableVaPtr 1 0 0 0 [bufferNode 4 0 0], bufferNode 12 1 1]
          [(0, 0), (0, 1)])
        .Compute (fun _ => zeroIntf) 0).userDataIdx = 13 ∧
      (afterPack
        (plainCtx 16 32
          [.mk .DescriptorTableVaPtr 1 0 0 0 [bufferNode 4 0 0], bufferNode 12 1 1]
          [(0, 0), (0, 1)])
        .Compute (fun _ => zeroIntf) 0).userDataIdx ≤ 2 + 10 :=
  ⟨by decide, by decide, by decide,
    (fixed_layout_index_bound
      (plainCtx 16 32
        [.mk .DescriptorTableVaPtr 1 0 0 0 [bufferNode 4 0 0], bufferNode 12 1 1]
        [(0, 0), (0, 1)])
      (fun _ => zeroIntf) 0 (by decide) (by decide)
      (fun n hn hty => by
        rcases List.mem_cons.mp hn with rfl | hn
        · rfl
        · rcases List.mem_cons.mp hn with rfl | hn
          · exact absurd hty (by decide)
          · cases hn)
      (by decide)).1⟩

/-- The claim as worded fails for a compute pipeline whose node list holds a
`StreamOutTableVaPtr` node, no `DescriptorTableVaPtr` node, a referenced buffer of ten dwords
at offset 0 and a referenced buffer of one dword at offset 10: the stream-out block adds a
register in front of the packing loop (through the default case with
`LLPC_NEVER_CALLED()`), `userDataIdx` is 13 behind the packing loop, above
`CsStartUserData + MaxCsUserDataCount = 12`, a spill is needed, no assertion has failed up
to there, and the assertion `userDataIdx <= MaxCsUserDataCount + CsStartUserData` fails. -/
theorem fixed_layout_index_bound_counterexample :
    (plainCtx 16 32
          [.mk .StreamOutTableVaPtr 1 0 0 0 [], bufferNode 10 0 0, bufferNode 1 10 1]
          [(0, 0), (0, 1)]).userDataNodes.all
        (fun n => n.type != .DescriptorTableVaPtr || n.sizeInDwords == 1) = true ∧
      (afterPack
        (plainCtx 16 32
          [.mk .StreamOutTableVaPtr 1 0 0 0 [], bufferNode 10 0 0, bufferNode 1 10 1]
          [(0, 0), (0, 1)])
        .Compute (fun _ => zeroIntf) 0).userDataIdx = 13 ∧
      (plainCtx 16 32
          [.mk .StreamOutTableVaPtr 1 0 0 0 [], bufferNode 10 0 0, bufferNode 1 10 1]
          [(0, 0), (0, 1)]).CsStartUserData
        + (plainCtx 16 32
          [.mk .StreamOutTableVaPtr 1 0 0 0 [], bufferNode 10 0 0, bufferNode 1 10 1]
          [(0, 0), (0, 1)]).MaxCsUserDataCount = 12 ∧
      (afterPack
        (plainCtx 16 32
          [.mk .StreamOutTableVaPtr 1 0 0 0 [], bufferNode 10 0 0, bufferNode 1 10 1]
          [(0, 0), (0, 1)])
        .Compute (fun _ => zeroIntf) 0).needSpill = true ∧
      (afterPack
        (plainCtx 16 32
          [.mk .StreamOutTableVaPtr 1 0 0 0 [], bufferNode 10 0 0, bufferNode 1 10 1]
          [(0, 0), (0, 1)])
        .Compute (fun _ => zeroIntf) 0).assertFailed = false ∧
      (afterPack
        (plainCtx 16 32
          [.mk .StreamOutTableVaPtr 1 0 0 0 [], bufferNode 10 0 0, bufferNode 1 10 1]
          [(0, 0), (0, 1)])
        .Compute (fun _ => zeroIntf) 0).neverCalled = true ∧
      (afterFixedSpill
        (plainCtx 16 32
          [.mk .StreamOutTableVaPtr 1 0 0 0 [], bufferNode 10 0 0, bufferNode 1 10 1]
          [(0, 0), (0, 1)])
        .Compute (fun _ => zeroIntf) 0).assertFailed = true := by
  decide

/-! ## C39: the assertion on the spill base offset in the fixed layout -/

/-- C39: the assertion `spillTable.offsetInDwords != InvalidValue` of the fixed layout fails on
two node lists, from interface data whose spill base offset is the invalid marker and with
`MaxCsUserDataCount = 10`. For a single referenced buffer node of 12 dwords at dword offset
`0xFFFFFFFF`, the required count is `0xFFFFFFFF + 12 = 11` as a `uint32_t`, so a spill is
needed; the node does not fit and sets the spill base offset to its own offset, which is the
invalid marker. For a single referenced buffer node of size zero at dword offset 20, the
required count is 20, so a spill is needed, and the node fits behind the ten dummy arguments,
so no node sets the spill base offset. In both runs the state in front of the fixed spill
block has no failure flag set, and the block sets `assertFailed`. -/
theorem spill_offset_assert_can_fail :
    ((afterPack (plainCtx 16 32 [bufferNode 12 4294967295 0] [(0, 0)]) .Compute
          (fun _ => { zeroIntf with spillTable.offsetInDwords := 4294967295 }) 0).ok = true ∧
        (afterPack (plainCtx 16 32 [bufferNode 12 4294967295 0] [(0, 0)]) .Compute
          (fun _ => { zeroIntf with spillTable.offsetInDwords := 4294967295 }) 0).needSpill
          = true ∧
        (afterPack (plainCtx 16 32 [bufferNode 12 4294967295 0] [(0, 0)]) .Compute
          (fun _ => { zeroIntf with spillTable.offsetInDwords := 4294967295 }) 0
          ).requiredUserDataCount = 11 ∧
        registerResident (plainCtx 16 32 [bufferNode 12 4294967295 0] [(0, 0)]) .Compute
          (fun _ => { zeroIntf with spillTable.offsetInDwords := 4294967295 }) 0 0 = false ∧
        ((afterPack (plainCtx 16 32 [bufferNode 12 4294967295 0] [(0, 0)]) .Compute
          (fun _ => { zeroIntf with spillTable.offsetInDwords := 4294967295 }) 0
          ).intfData .Compute).spillTable.offsetInDwords = 4294967295 ∧
        (afterFixedSpill (plainCtx 16 32 [bufferNode 12 4294967295 0] [(0, 0)]) .Compute
          (fun _ => { zeroIntf with spillTable.offsetInDwords := 4294967295 }) 0).assertFailed
          = true ∧
        (GenerateEntryPointType (plainCtx 16 32 [bufferNode 12 4294967295 0] [(0, 0)]) .Compute
          (fun _ => { zeroIntf with spillTable.offsetInDwords := 4294967295 }) 0).isNone
          = true) ∧
      ((afterPack (plainCtx 16 32 [bufferNode 0 20 0] [(0, 0)]) .Compute
          (fun _ => { zeroIntf with spillTable.offsetInDwords := 4294967295 }) 0).ok = true ∧
        (afterPack (plainCtx 16 32 [bufferNode 0 20 0] [(0, 0)]) .Compute
          (fun _ => { zeroIntf with spillTable.offsetInDwords := 4294967295 }) 0).needSpill
          = true ∧
        registerResident (plainCtx 16 32 [bufferNode 0 20 0] [(0, 0)]) .Compute
          (fun _ => { zeroIntf with spillTable.offsetInDwords := 4294967295 }) 0 0 = true ∧
        ((afterPack (plainCtx 16 32 [bufferNode 0 20 0] [(0, 0)]) .Compute
          (fun _ => { zeroIntf with spillTable.offsetInDwords := 4294967295 }) 0
          ).intfData .Compute).spillTable.offsetInDwords = 4294967295 ∧
        (afterFixedSpill (plainCtx 16 32 [bufferNode 0 20 0] [(0, 0)]) .Compute
          (fun _ => { zeroIntf with spillTable.offsetInDwords := 4294967295 }) 0).assertFailed
          = true ∧
        (GenerateEntryPointType (plainCtx 16 32 [bufferNode 0 20 0] [(0, 0)]) .Compute
          (fun _ => { zeroIntf with spillTable.offsetInDwords := 4294967295 }) 0).isNone
          = true) := by
  decide

/-! ## C40: the mask validators and the bitwise OR -/

/-- C40: for every width of `SPIRVWord`, every value of `SPV_VERSION` and all values of the
enumerators, each of the eight mask validators accepts the empty mask, accepts the bitwise
OR of two masks exactly when it accepts both of them, and accepts every sub-mask of a mask
that it accepts. -/
theorem mask_validators_respect_or (c : SpirvEnums) :
    RespectsOr (isValidImageOperandsMask c) ∧
      RespectsOr (isValidFPFastMathModeMask c) ∧
      RespectsOr (isValidSelectionControlMask c) ∧
      RespectsOr (isValidLoopControlMask c) ∧
      RespectsOr (isValidFunctionControlMask c) ∧
      RespectsOr (isValidMemorySemanticsMask c) ∧
      RespectsOr (isValidMemoryAccessMask c) ∧
      RespectsOr (isValidKernelProfilingInfoMask c) := by
  refine ⟨?_, ?_, ?_, ?_, ?_, ?_, ?_, ?_⟩
  · exact ⟨maskTest_zero c _, fun a b => maskTest_or c _ a b,
      fun a b hab hb => maskTest_sub c _ a b hab hb⟩
  · exact ⟨maskTest_zero c _, fun a b => maskTest_or c _ a b,
      fun a b hab hb => maskTest_sub c _ a b hab hb⟩
  · exact ⟨maskTest_zero c _, fun a b => maskTest_or c _ a b,
      fun a b hab hb => maskTest_sub c _ a b hab hb⟩
  · exact ⟨maskTest_zero c _, fun a b => maskTest_or c _ a b,
      fun a b hab hb => maskTest_sub c _ a b hab hb⟩
  · exact ⟨maskTest_zero c _, fun a b => maskTest_or c _ a b,
      fun a b hab hb => maskTest_sub c _ a b hab hb⟩
  · exact ⟨maskTest_zero c _, fun a b => maskTest_or c _ a b,
      fun a b hab hb => maskTest_sub c _ a b hab hb⟩
  · exact ⟨maskTest_zero c _, fun a b => maskTest_or c _ a b,
      fun a b hab hb => maskTest_sub c _ a b hab hb⟩
  · exact ⟨maskTest_zero c _, fun a b => maskTest_or c _ a b,
      fun a b hab hb => maskTest_sub c _ a b hab hb⟩

end Llpc
